import Mathlib

/-!
# NES 6502 core (`nes/c`): shallow embedding and verified properties

The C program keeps its whole machine in file-level `static` variables.  The
embedding collects them in one record `State` and turns every C function into a
pure function on `State` (explicit state passing).  Machine integers are `Nat`
with an explicit `% 2^w` at every place where the C code truncates
(`uint8_t`, `uint16_t`, `uint32_t` assignments and parameter passing).  The C
`int` is 32 bits wide on the target (SAM3U, ARM Cortex-M3); bitwise complement
`~x` on an `int` is modelled on the 32-bit pattern.

The calls to `uart_send`/`uart_printhex`/`uart_print` (debug output) have no
effect on the machine variables and are left out.  `CPU_DEBUG` is defined in
the source, so the assignments inside `#ifdef CPU_DEBUG` blocks are part of
the program and are modelled.
-/

namespace Nes

/-! ## Data model -/

/-- One call of `read_memory` or `write_memory`, with the arguments the callee
receives (after conversion to `uint16_t` / `uint8_t`). -/
inductive Access where
  | read (addr : Nat)
  | write (addr : Nat) (val : Nat)
  deriving DecidableEq, Repr

/-- The values a `mem_read_callback` function pointer takes in this repository
(`0` is `Option.none`). -/
inductive mem_read_callback where
  | mapper0_read
  deriving DecidableEq, Repr

/-- The values a `mem_write_callback` function pointer takes in this repository
(`0` is `Option.none`). -/
inductive mem_write_callback where
  | mapper0_write
  deriving DecidableEq, Repr

/-- The file-level variables of `processor_6502.c` and `mappers/mapper0.c`.

* `internal_ram`, `cur_instr`: C arrays, as functions from the index;
* `mapper0_prg_rom`: the bytes behind the pointer `prg_rom` of `mapper0.c`, by
  offset; `mapper0_prg_rom_mask`: its `prg_rom_mask`;
* `bus`: not a program variable; the log of the `read_memory`/`write_memory`
  calls made so far, oldest first;
* `fetches`: not a program variable; the log of the calls of `fetch_opcode` made
  so far, oldest first: each entry is the value of `cur_instr_index` at the call,
  the index of the latch slot the call writes. -/
structure State where
  internal_ram : Nat → Nat
  cur_instr : Nat → Nat
  cur_instr_index : Nat
  p6502_single_step : Nat
  hang : Nat
  cycle_number : Nat
  reg_a : Nat
  reg_x : Nat
  reg_y : Nat
  pc : Nat
  reg_s : Nat
  reg_p : Nat
  mapper_cpur : Option mem_read_callback
  mapper_cpuw : Option mem_write_callback
  mapper_ppur : Option mem_read_callback
  mapper_ppuw : Option mem_write_callback
  mapper0_prg_rom : Nat → Nat
  mapper0_prg_rom_mask : Nat
  bus : List Access
  fetches : List Nat

def STATUS_CARRY : Nat := 1
def STATUS_ZERO : Nat := 2
def STATUS_INTERRUPT_DISABLE : Nat := 4
def STATUS_DECIMAL : Nat := 8
def STATUS_BREAK : Nat := 0x10
def STATUS_EXPAND : Nat := 0x20
def STATUS_OVERFLOW : Nat := 0x40
def STATUS_NEGATIVE : Nat := 0x80
def RESET_VECTOR : Nat := 0xFFFC

/-- C `~x` on a 32-bit `int`, as a 32-bit pattern. -/
def bnot (x : Nat) : Nat := x ^^^ 0xFFFFFFFF

/-- C `a - b` on 32-bit `int`, as a 32-bit pattern (two's complement). -/
def isub (a b : Nat) : Nat := (a + 0x100000000 - b % 0x100000000) % 0x100000000

/-- The recurring statement `reg_p = (reg_p & ~FLAG) | (c ? FLAG : 0);`
(assignment to the `uint8_t` `reg_p`). -/
def set_flag (p flag : Nat) (c : Bool) : Nat :=
  ((p &&& bnot flag) ||| (if c then flag else 0)) % 256

/-- Array store `a[i] = v` into a `uint8_t` array. -/
def store (a : Nat → Nat) (i v : Nat) : Nat → Nat :=
  fun j => if j = i then v % 256 else a j

/-- Store into the 5-byte latch `cur_instr`.  An index of 5 or more is outside
the array (undefined in C); the model leaves the latch unchanged there. -/
def store_instr (a : Nat → Nat) (i v : Nat) : Nat → Nat :=
  if i < 5 then store a i v else a

/-! ## mappers/mapper0.c -/

/-- Function `mapper0_set_pgr_rom(data, size)`: `prg_rom = data; prg_rom_mask = size - 1;`
(`uint32_t` arithmetic). -/
def mapper0_set_pgr_rom (s : State) (data : Nat → Nat) (size : Nat) : State :=
  { s with mapper0_prg_rom := data
           mapper0_prg_rom_mask := (size % 0x100000000 + 0x100000000 - 1) % 0x100000000 }

/-- Function `mapper0_read(addr)`: `return prg_rom[addr & prg_rom_mask];` -/
def mapper0_read (s : State) (addr : Nat) : Nat :=
  s.mapper0_prg_rom ((addr % 65536) &&& s.mapper0_prg_rom_mask)

/-- Function `mapper0_write(addr, val)`: `prg_rom[addr & prg_rom_mask] = val;` -/
def mapper0_write (s : State) (addr val : Nat) : State :=
  { s with mapper0_prg_rom :=
      store s.mapper0_prg_rom ((addr % 65536) &&& s.mapper0_prg_rom_mask) val }

/-! ## processor_6502.c: bus decoder -/

/-- Call through a `mem_read_callback`. -/
def call_read (s : State) (cb : mem_read_callback) (addr : Nat) : Nat :=
  match cb with
  | .mapper0_read => mapper0_read s addr

def ppu_read (_addr : Nat) : Nat := 0

def apu_read (_addr : Nat) : Nat := 0

/-- Function `mapper_read(addr)` (lines 56-66). -/
def mapper_read (s : State) (addr : Nat) : Nat :=
  match s.mapper_cpur with
  | some cb => call_read s cb addr
  | none => 0

/-- Function `set_mapper_cpu(r, w)` (lines 68-72). -/
def set_mapper_cpu (s : State) (r : Option mem_read_callback)
    (w : Option mem_write_callback) : State :=
  { s with mapper_cpur := r, mapper_cpuw := w }

/-- Function `set_mapper_ppu(r, w)` (lines 74-78). -/
def set_mapper_ppu (s : State) (r : Option mem_read_callback)
    (w : Option mem_write_callback) : State :=
  { s with mapper_ppur := r, mapper_ppuw := w }

/-- Function `read_memory(addr)` (lines 81-114).  The argument is converted to
`uint16_t`; `retval` is a `uint8_t`.  Returns the byte read and the state after
the call (the call is appended to the log). -/
def read_memory (s : State) (addr : Nat) : Nat × State :=
  let addr := addr % 65536
  let retval :=
    if addr < 0x2000 then s.internal_ram (addr &&& 0x7FF)
    else if addr < 0x4000 then ppu_read (addr &&& 0x2007)
    else if addr < 0x4018 then apu_read addr
    else if addr < 0x4020 then 0
    else mapper_read s addr
  (retval % 256, { s with bus := s.bus ++ [Access.read addr] })

/-- Function `write_memory(addr, val)` (lines 116-146).  Every branch other than the
internal RAM one is empty in the source (the calls are commented out). -/
def write_memory (s : State) (addr val : Nat) : State :=
  let addr := addr % 65536
  let val := val % 256
  let s := { s with bus := s.bus ++ [Access.write addr val] }
  if addr < 0x2000 then
    { s with internal_ram := store s.internal_ram (addr &&& 0x7FF) val }
  else if addr < 0x4000 then s
  else if addr < 0x4018 then s
  else if addr < 0x4020 then s
  else s

/-- Function `p6502_execute_vector(vector_addr)` (lines 148-173).  The two reads of the
vector are written in the source order of the expression
`read_memory(vector_addr+1)<<8 | read_memory(vector_addr)`. -/
def p6502_execute_vector (s : State) (vector_addr : Nat) : State :=
  let vector_addr := vector_addr % 65536
  let s :=
    if vector_addr = RESET_VECTOR then
      let s := (read_memory s s.pc).2
      let s := (read_memory s (s.pc + 1)).2
      let s := (read_memory s (0x100 + s.reg_s)).2
      let s := (read_memory s (0xFF + s.reg_s)).2
      (read_memory s (0xFE + s.reg_s)).2
    else
      let s := (read_memory s s.pc).2
      let s := (read_memory s s.pc).2
      let s := { write_memory s s.reg_s (s.pc >>> 8) with reg_s := isub s.reg_s 1 % 256 }
      let s := { write_memory s s.reg_s (s.pc &&& 0xFF) with reg_s := isub s.reg_s 1 % 256 }
      { write_memory s s.reg_s (s.reg_p ||| STATUS_BREAK) with reg_s := isub s.reg_s 1 % 256 }
  let hi := read_memory s (vector_addr + 1)
  let lo := read_memory hi.2 vector_addr
  let temp := ((hi.1 <<< 8) ||| lo.1) % 65536
  { lo.2 with pc := temp }

/-- Function `fetch_opcode()` (lines 186-190): `val = read_memory(pc++);
cur_instr[cur_instr_index++] = val;`  The call is recorded in the log `fetches`
with the index of the latch slot it writes. -/
def fetch_opcode (s : State) : State :=
  let r := read_memory s s.pc
  let s := { r.2 with pc := (s.pc + 1) % 65536 }
  { s with cur_instr := store_instr s.cur_instr s.cur_instr_index r.1
           cur_instr_index := (s.cur_instr_index + 1) % 256
           fetches := s.fetches ++ [s.cur_instr_index] }

/-- Function `do_adc(value)` (lines 279-288). -/
def do_adc (s : State) (value : Nat) : State :=
  let value := value % 256
  let calc_ := (s.reg_a + value + (if s.reg_p &&& STATUS_CARRY ≠ 0 then 1 else 0)) % 65536
  let s := { s with reg_p := set_flag s.reg_p STATUS_CARRY (calc_ &&& 0xFF00 ≠ 0) }
  let temp2 := (((s.reg_a &&& value &&& bnot calc_) |||
                 (bnot s.reg_a &&& bnot value &&& calc_)) &&& 0x80) % 256
  let s := { s with reg_a := (calc_ &&& 0xFF) % 256 }
  let s := { s with reg_p := set_flag s.reg_p STATUS_OVERFLOW (temp2 ≠ 0) }
  let s := { s with reg_p := set_flag s.reg_p STATUS_NEGATIVE (s.reg_a &&& 0x80 ≠ 0) }
  { s with reg_p := set_flag s.reg_p STATUS_ZERO (¬ (s.reg_a ≠ 0)) }

/-- Function `do_sbc(value)` (lines 290-299). -/
def do_sbc (s : State) (value : Nat) : State :=
  let value := value % 256
  let temp := (isub (isub s.reg_a value) (if s.reg_p &&& STATUS_CARRY ≠ 0 then 0 else 1)) % 256
  let s := { s with reg_p := set_flag s.reg_p STATUS_CARRY (temp < s.reg_a) }
  let temp2 := (((s.reg_a &&& bnot value &&& bnot temp) |||
                 (bnot s.reg_a &&& value &&& temp)) &&& 0x80) % 256
  let s := { s with reg_p := set_flag s.reg_p STATUS_OVERFLOW (temp2 ≠ 0) }
  let s := { s with reg_p := set_flag s.reg_p STATUS_NEGATIVE (temp &&& 0x80 ≠ 0) }
  let s := { s with reg_p := set_flag s.reg_p STATUS_ZERO (¬ (temp ≠ 0)) }
  { s with reg_a := (temp &&& 0xFF) % 256 }

/-- Function `do_cmp(value)` (lines 301-306). -/
def do_cmp (s : State) (value : Nat) : State :=
  let value := value % 256
  let s := { s with reg_p := set_flag s.reg_p STATUS_NEGATIVE (isub s.reg_a value &&& 0x80 ≠ 0) }
  let s := { s with reg_p := set_flag s.reg_p STATUS_ZERO (s.reg_a = value) }
  { s with reg_p := set_flag s.reg_p STATUS_CARRY (s.reg_a ≥ value) }

/-! ## processor_6502.c: statement helpers

Short names for statements that recur verbatim in `decode_opcode`. -/

/-- Statement `cur_instr[k] = v;` for a constant `k < 5`. -/
def set_instr (s : State) (k v : Nat) : State :=
  { s with cur_instr := store s.cur_instr k v }

/-- Statement `cur_instr_index++;` (`uint8_t`). -/
def inc_index (s : State) : State :=
  { s with cur_instr_index := (s.cur_instr_index + 1) % 256 }

/-- Statement `cur_instr_index = n;` -/
def set_index (s : State) (n : Nat) : State :=
  { s with cur_instr_index := n }

/-- The two statements
`reg_p = (reg_p & ~STATUS_NEGATIVE) | ((v&0x80)?STATUS_NEGATIVE:0);`
`reg_p = (reg_p & ~STATUS_ZERO) | ((v)?0:STATUS_ZERO);` -/
def set_nz (s : State) (v : Nat) : State :=
  let s := { s with reg_p := set_flag s.reg_p STATUS_NEGATIVE (v &&& 0x80 ≠ 0) }
  { s with reg_p := set_flag s.reg_p STATUS_ZERO (¬ (v ≠ 0)) }

/-- Statement `dst = read_memory(0x100 + ++reg_s);`: the pre-increment of the `uint8_t`
`reg_s`, then the read.  Returns the byte and the state. -/
def pull (s : State) : Nat × State :=
  let s := { s with reg_s := (s.reg_s + 1) % 256 }
  read_memory s (0x100 + s.reg_s)

/-- Statement `write_memory(0x100 + reg_s--, v);`: the write at the old `reg_s`, and the
post-decrement of the `uint8_t` `reg_s`. -/
def push (s : State) (v : Nat) : State :=
  { write_memory s (0x100 + s.reg_s) v with reg_s := isub s.reg_s 1 % 256 }

/-- Function `branch_flag(mask, cmp)` (lines 192-277).  `(char)cur_instr[1]` is the byte
itself (`char` is unsigned on the ARM target; with a signed `char` the
sign-extending `if` below yields the same `calc`). -/
def branch_flag (s : State) (mask cmp : Nat) : State :=
  let s := if s.cur_instr_index < 2 then fetch_opcode s else s
  if s.cur_instr_index = 2 then
    if s.reg_p &&& mask ≠ cmp then set_index s 0 else inc_index s
  else if s.cur_instr_index = 3 then
    let calc_ := s.cur_instr 1 % 256
    let calc_ := if calc_ &&& 0x80 ≠ 0 then (calc_ ||| 0xFF00) % 65536 else calc_
    let newpc := (s.pc + calc_) % 65536
    if newpc >>> 8 ≠ s.pc >>> 8 then
      set_index { s with pc := newpc } 0
    else
      set_index { s with pc := newpc } 0
  else s

/-! ## processor_6502.c: `decode_opcode`, ALU group (lines 310-593) -/

/-- Label `case 0x09` of the ALU addressing switch, immediate (lines 329-338).
Returns the state and the local `ready`. -/
def alu_immediate (s : State) : State × Nat :=
  let s := fetch_opcode s
  let s := set_instr s 4 (s.cur_instr 1)
  (s, 1)

/-- Label `case 0x05`, zero page (lines 339-361). -/
def alu_zero_page (s : State) : State × Nat :=
  if s.cur_instr_index = 1 then
    let s := fetch_opcode s
    let s := set_instr s 2 0
    let s :=
      if s.cur_instr 0 &&& 0xE0 ≠ 0x80 then
        let r := read_memory s (s.cur_instr 1)
        set_instr r.2 4 r.1
      else s
    (s, 0)
  else if s.cur_instr_index = 2 then (s, 1)
  else (s, 0)

/-- Label `case 0x15`, zero page,X (lines 362-389). -/
def alu_zero_page_x (s : State) : State × Nat :=
  if s.cur_instr_index = 1 then
    let s := fetch_opcode s
    let s := set_instr s 1 (0xFF &&& (s.reg_x + s.cur_instr 1))
    let s := set_instr s 2 0
    let s :=
      if s.cur_instr 0 &&& 0xE0 ≠ 0x80 then
        let r := read_memory s (s.cur_instr 1)
        set_instr r.2 4 r.1
      else s
    (s, 0)
  else if s.cur_instr_index = 2 then (inc_index s, 0)
  else if s.cur_instr_index = 3 then (s, 1)
  else (s, 0)

/-- Label `case 0x0D`, absolute (lines 390-414). -/
def alu_absolute (s : State) : State × Nat :=
  if s.cur_instr_index < 3 then (fetch_opcode s, 0)
  else if s.cur_instr_index = 3 then
    let ea := (s.cur_instr 1 ||| (s.cur_instr 2 <<< 8)) % 65536
    let s :=
      if s.cur_instr 0 &&& 0xE0 ≠ 0x80 then
        let r := read_memory s ea
        set_instr r.2 4 r.1
      else s
    (inc_index s, 1)
  else (s, 0)

/-- Label `case 0x1D`, absolute,X (lines 415-443). -/
def alu_absolute_x (s : State) : State × Nat :=
  if s.cur_instr_index = 1 then (fetch_opcode s, 0)
  else if s.cur_instr_index = 2 then (fetch_opcode s, 0)
  else if s.cur_instr_index = 3 then
    let ea := (s.reg_x + s.cur_instr 1 + (s.cur_instr 2 <<< 8)) % 65536
    let ready := if ea >>> 8 = s.cur_instr 2 ∧ s.cur_instr 0 &&& 0xE0 ≠ 0x80 then 1 else 0
    let s := set_instr s 1 (ea &&& 0xFF)
    let s := set_instr s 2 (ea >>> 8)
    let r := read_memory s ea
    let s := set_instr r.2 4 r.1
    (inc_index s, ready)
  else (inc_index s, 1)

/-- Label `case 0x19`, absolute,Y (lines 444-472). -/
def alu_absolute_y (s : State) : State × Nat :=
  if s.cur_instr_index = 1 then (fetch_opcode s, 0)
  else if s.cur_instr_index = 2 then (fetch_opcode s, 0)
  else if s.cur_instr_index = 3 then
    let ea := (s.reg_y + s.cur_instr 1 + (s.cur_instr 2 <<< 8)) % 65536
    let ready := if ea >>> 8 = s.cur_instr 2 ∧ s.cur_instr 0 &&& 0xE0 ≠ 0x80 then 1 else 0
    let s := set_instr s 1 (ea &&& 0xFF)
    let s := set_instr s 2 (ea >>> 8)
    let r := read_memory s ea
    let s := set_instr r.2 4 r.1
    (inc_index s, ready)
  else (inc_index s, 1)

/-- Label `case 0x01`, (indirect,X) (lines 473-504). -/
def alu_indirect_x (s : State) : State × Nat :=
  if s.cur_instr_index = 1 then (fetch_opcode s, 0)
  else if s.cur_instr_index = 2 then
    let s := inc_index s
    let r := read_memory s (0xFF &&& (s.cur_instr 1 + s.reg_x))
    (set_instr r.2 2 r.1, 0)
  else if s.cur_instr_index = 3 then
    let s := inc_index s
    let r := read_memory s (0xFF &&& (s.cur_instr 1 + s.reg_x + 1))
    (set_instr r.2 3 r.1, 0)
  else if s.cur_instr_index = 4 then
    let s := set_instr s 1 (s.cur_instr 2)
    let s := set_instr s 2 (s.cur_instr 3)
    let ea := (s.cur_instr 1 ||| (s.cur_instr 2 <<< 8)) % 65536
    let s :=
      if s.cur_instr 0 &&& 0xE0 ≠ 0x80 then
        let r := read_memory s ea
        set_instr r.2 4 r.1
      else s
    (inc_index s, 0)
  else (s, 1)

/-- Label `case 0x11`, (indirect),Y (lines 505-549). -/
def alu_indirect_y (s : State) : State × Nat :=
  if s.cur_instr_index = 1 then (fetch_opcode s, 0)
  else if s.cur_instr_index = 2 then
    let r := read_memory s (s.cur_instr 1)
    (inc_index (set_instr r.2 3 r.1), 0)
  else if s.cur_instr_index = 3 then
    let r := read_memory s (0xFF &&& (s.cur_instr 1 + 1))
    let s := set_instr r.2 2 r.1
    let s := set_instr s 1 (s.cur_instr 3)
    (inc_index s, 0)
  else if s.cur_instr_index = 4 then
    let ea := (s.cur_instr 1 + (s.cur_instr 2 <<< 8) + s.reg_y) % 65536
    if (ea &&& 0xFF00) >>> 8 ≠ s.cur_instr 2 ∨ s.cur_instr 0 &&& 0xE0 = 0x80 then
      let s := set_instr s 1 (ea &&& 0xFF)
      let s := set_instr s 2 (ea >>> 8)
      (inc_index s, 0)
    else
      let s := set_instr s 1 (ea &&& 0xFF)
      let s := set_instr s 2 (ea >>> 8)
      let s := set_index s 6
      let s :=
        if s.cur_instr 0 &&& 0xE0 ≠ 0x80 then
          let r := read_memory s (s.cur_instr 1 + (s.cur_instr 2 <<< 8))
          set_instr r.2 4 r.1
        else s
      (s, 1)
  else
    let s :=
      if s.cur_instr 0 &&& 0xE0 ≠ 0x80 then
        let r := read_memory s (s.cur_instr 1 + (s.cur_instr 2 <<< 8))
        set_instr r.2 4 r.1
      else s
    (s, 1)

/-- The `switch (cur_instr[0] & 0x1D)` of the ALU group (lines 327-552): one
cycle of the addressing mode.  Returns the state and the local `ready`. -/
def alu_addressing (s : State) : State × Nat :=
  let sw := s.cur_instr 0 &&& 0x1D
  if sw = 0x09 then alu_immediate s
  else if sw = 0x05 then alu_zero_page s
  else if sw = 0x15 then alu_zero_page_x s
  else if sw = 0x0D then alu_absolute s
  else if sw = 0x1D then alu_absolute_x s
  else if sw = 0x19 then alu_absolute_y s
  else if sw = 0x01 then alu_indirect_x s
  else if sw = 0x11 then alu_indirect_y s
  else (s, 0)

/-- The `switch (cur_instr[0] & 0xE0)` run when `ready == 1` (lines 555-590),
without the final `cur_instr_index = 0`. -/
def alu_operation (s : State) : State :=
  let sw := s.cur_instr 0 &&& 0xE0
  if sw = 0x00 then
    let s := { s with reg_a := (s.reg_a ||| s.cur_instr 4) % 256 }
    set_nz s s.reg_a
  else if sw = 0x20 then
    let s := { s with reg_a := (s.reg_a &&& s.cur_instr 4) % 256 }
    set_nz s s.reg_a
  else if sw = 0x40 then
    let s := { s with reg_a := (s.reg_a ^^^ s.cur_instr 4) % 256 }
    set_nz s s.reg_a
  else if sw = 0x60 then do_adc s (s.cur_instr 4)
  else if sw = 0x80 then write_memory s (s.cur_instr 1 ||| (s.cur_instr 2 <<< 8)) s.reg_a
  else if sw = 0xA0 then
    let s := { s with reg_a := s.cur_instr 4 % 256 }
    set_nz s s.reg_a
  else if sw = 0xC0 then do_cmp s (s.cur_instr 4)
  else if sw = 0xE0 then do_sbc s (s.cur_instr 4)
  else s

/-- The ALU group of `decode_opcode`: the branch taken when
`(cur_instr[0] & 0x3) == 0x1` (lines 311-593). -/
def decode_alu (s : State) : State :=
  let r := alu_addressing s
  if r.2 = 1 then set_index (alu_operation r.1) 0 else r.1

/-! ## processor_6502.c: `decode_opcode`, one-off group (lines 597-2294)

One definition per `case` label, in source order. -/

/-- The three statements of a compare of register value `r` with `m`
(lines 606-608 and their copies):
`reg_p = (reg_p & ~STATUS_NEGATIVE) | (((r-m)&0x80)?STATUS_NEGATIVE:0);`
`reg_p = (reg_p & ~STATUS_ZERO) | ((r==m)?STATUS_ZERO:0);`
`reg_p = (reg_p & ~STATUS_CARRY) | ((r>=m)?STATUS_CARRY:0);` -/
def cmp_flags (s : State) (r m : Nat) : State :=
  let s := { s with reg_p := set_flag s.reg_p STATUS_NEGATIVE (isub r m &&& 0x80 ≠ 0) }
  let s := { s with reg_p := set_flag s.reg_p STATUS_ZERO (r = m) }
  { s with reg_p := set_flag s.reg_p STATUS_CARRY (r ≥ m) }

/-- Label `case 0xE0` CPX immediate (lines 599-610). -/
def op_E0 (s : State) : State :=
  let s := fetch_opcode s
  let s := cmp_flags s s.reg_x (s.cur_instr 1)
  set_index s 0

/-- Label `case 0xE4` CPX zero page (lines 611-633). -/
def op_E4 (s : State) : State :=
  let s := if s.cur_instr_index < 2 then fetch_opcode s else s
  if s.cur_instr_index = 2 then inc_index s
  else if s.cur_instr_index = 3 then
    let r := read_memory s (s.cur_instr 1)
    let s := set_instr r.2 1 r.1
    let s := cmp_flags s s.reg_x (s.cur_instr 1)
    set_index s 0
  else s

/-- Label `case 0xEC` CPX absolute (lines 634-656). -/
def op_EC (s : State) : State :=
  let s := if s.cur_instr_index < 3 then fetch_opcode s else s
  if s.cur_instr_index = 3 then inc_index s
  else if s.cur_instr_index = 4 then
    let r := read_memory s (s.cur_instr 1 ||| (s.cur_instr 2 <<< 8))
    let s := set_instr r.2 1 r.1
    let s := cmp_flags s s.reg_x (s.cur_instr 1)
    set_index s 0
  else s

/-- Label `case 0xC0` CPY immediate (lines 657-668). -/
def op_C0 (s : State) : State :=
  let s := fetch_opcode s
  let s := cmp_flags s s.reg_y (s.cur_instr 1)
  set_index s 0

/-- Label `case 0xC4` CPY zero page (lines 669-691). -/
def op_C4 (s : State) : State :=
  let s := if s.cur_instr_index < 2 then fetch_opcode s else s
  if s.cur_instr_index = 2 then inc_index s
  else if s.cur_instr_index = 3 then
    let r := read_memory s (s.cur_instr 1)
    let s := set_instr r.2 1 r.1
    let s := cmp_flags s s.reg_y (s.cur_instr 1)
    set_index s 0
  else s

/-- Label `case 0xCC` CPY absolute (lines 692-714). -/
def op_CC (s : State) : State :=
  let s := if s.cur_instr_index < 3 then fetch_opcode s else s
  if s.cur_instr_index = 3 then inc_index s
  else if s.cur_instr_index = 4 then
    let r := read_memory s (s.cur_instr 1 ||| (s.cur_instr 2 <<< 8))
    let s := set_instr r.2 1 r.1
    let s := cmp_flags s s.reg_y (s.cur_instr 1)
    set_index s 0
  else s

/-- Statement `cur_instr[k]--;` followed by the N/Z update from `cur_instr[k]`
(lines 730-732 and their copies). -/
def dec_slot (s : State) (k : Nat) : State :=
  let s := set_instr s k (isub (s.cur_instr k) 1)
  set_nz s (s.cur_instr k)

/-- Statement `cur_instr[k]++;` followed by the N/Z update from `cur_instr[k]`
(lines 842-844 and their copies). -/
def inc_slot (s : State) (k : Nat) : State :=
  let s := set_instr s k (s.cur_instr k + 1)
  set_nz s (s.cur_instr k)

/-- Label `case 0xC6` DEC zero page (lines 715-740). -/
def op_C6 (s : State) : State :=
  if s.cur_instr_index = 1 then fetch_opcode s
  else if s.cur_instr_index = 2 then
    let r := read_memory s (s.cur_instr 1)
    inc_index (set_instr r.2 2 r.1)
  else if s.cur_instr_index = 3 then
    let s := dec_slot s 2
    let s := write_memory s (s.cur_instr 1) (s.cur_instr 2)
    inc_index s
  else set_index s 0

/-- Label `case 0xD6` DEC zero page,X (lines 741-770). -/
def op_D6 (s : State) : State :=
  if s.cur_instr_index = 1 then fetch_opcode s
  else if s.cur_instr_index = 2 then
    let r := read_memory s (0xFF &&& (s.reg_x + s.cur_instr 1))
    inc_index (set_instr r.2 2 r.1)
  else if s.cur_instr_index = 3 then inc_index s
  else if s.cur_instr_index = 4 then
    let s := dec_slot s 2
    let s := write_memory s (0xFF &&& (s.reg_x + s.cur_instr 1)) (s.cur_instr 2)
    inc_index s
  else set_index s 0

/-- Label `case 0xCE` DEC absolute (lines 771-796). -/
def op_CE (s : State) : State :=
  if s.cur_instr_index < 3 then fetch_opcode s
  else if s.cur_instr_index = 3 then
    let r := read_memory s (s.cur_instr 1 ||| (s.cur_instr 2 <<< 8))
    inc_index (set_instr r.2 3 r.1)
  else if s.cur_instr_index = 4 then
    let s := dec_slot s 3
    let s := write_memory s (s.cur_instr 1 ||| (s.cur_instr 2 <<< 8)) (s.cur_instr 3)
    inc_index s
  else set_index s 0

/-- Label `case 0xDE` DEC absolute,X (lines 797-826). -/
def op_DE (s : State) : State :=
  if s.cur_instr_index < 3 then fetch_opcode s
  else if s.cur_instr_index = 3 then
    let r := read_memory s (s.cur_instr 1 + (s.cur_instr 2 <<< 8) + s.reg_x)
    inc_index (set_instr r.2 3 r.1)
  else if s.cur_instr_index = 4 then inc_index s
  else if s.cur_instr_index = 5 then
    let s := dec_slot s 3
    let s := write_memory s (s.cur_instr 1 + (s.cur_instr 2 <<< 8) + s.reg_x) (s.cur_instr 3)
    inc_index s
  else set_index s 0

/-- Label `case 0xE6` INC zero page (lines 827-852). -/
def op_E6 (s : State) : State :=
  if s.cur_instr_index = 1 then fetch_opcode s
  else if s.cur_instr_index = 2 then
    let r := read_memory s (s.cur_instr 1)
    inc_index (set_instr r.2 2 r.1)
  else if s.cur_instr_index = 3 then
    let s := inc_slot s 2
    let s := write_memory s (s.cur_instr 1) (s.cur_instr 2)
    inc_index s
  else set_index s 0

/-- Label `case 0xF6` INC zero page,X (lines 853-882). -/
def op_F6 (s : State) : State :=
  if s.cur_instr_index = 1 then fetch_opcode s
  else if s.cur_instr_index = 2 then
    let r := read_memory s (0xFF &&& (s.reg_x + s.cur_instr 1))
    inc_index (set_instr r.2 2 r.1)
  else if s.cur_instr_index = 3 then inc_index s
  else if s.cur_instr_index = 4 then
    let s := inc_slot s 2
    let s := write_memory s (0xFF &&& (s.reg_x + s.cur_instr 1)) (s.cur_instr 2)
    inc_index s
  else set_index s 0

/-- Label `case 0xEE` INC absolute (lines 883-908). -/
def op_EE (s : State) : State :=
  if s.cur_instr_index < 3 then fetch_opcode s
  else if s.cur_instr_index = 3 then
    let r := read_memory s (s.cur_instr 1 ||| (s.cur_instr 2 <<< 8))
    inc_index (set_instr r.2 3 r.1)
  else if s.cur_instr_index = 4 then
    let s := inc_slot s 3
    let s := write_memory s (s.cur_instr 1 ||| (s.cur_instr 2 <<< 8)) (s.cur_instr 3)
    inc_index s
  else set_index s 0

/-- Label `case 0xFE` INC absolute,X (lines 909-938). -/
def op_FE (s : State) : State :=
  if s.cur_instr_index < 3 then fetch_opcode s
  else if s.cur_instr_index = 3 then
    let r := read_memory s (s.cur_instr 1 + (s.cur_instr 2 <<< 8) + s.reg_x)
    inc_index (set_instr r.2 3 r.1)
  else if s.cur_instr_index = 4 then inc_index s
  else if s.cur_instr_index = 5 then
    let s := inc_slot s 3
    let s := write_memory s (s.cur_instr 1 + (s.cur_instr 2 <<< 8) + s.reg_x) (s.cur_instr 3)
    inc_index s
  else set_index s 0

/-- Label `case 0xE8` INX (lines 939-948). -/
def op_E8 (s : State) : State :=
  let s := { s with reg_x := (s.reg_x + 1) % 256 }
  let s := set_nz s s.reg_x
  let s := (read_memory s s.pc).2
  set_index s 0

/-- Label `case 0xC8` INY (lines 949-958). -/
def op_C8 (s : State) : State :=
  let s := { s with reg_y := (s.reg_y + 1) % 256 }
  let s := set_nz s s.reg_y
  let s := (read_memory s s.pc).2
  set_index s 0

/-- Label `case 0xCA` DEX (lines 959-968). -/
def op_CA (s : State) : State :=
  let s := { s with reg_x := isub s.reg_x 1 % 256 }
  let s := set_nz s s.reg_x
  let s := (read_memory s s.pc).2
  set_index s 0

/-- Label `case 0x88` DEY (lines 969-978). -/
def op_88 (s : State) : State :=
  let s := { s with reg_y := isub s.reg_y 1 % 256 }
  let s := set_nz s s.reg_y
  let s := (read_memory s s.pc).2
  set_index s 0

/-- Label `case 0xAA` TAX (lines 979-988). -/
def op_AA (s : State) : State :=
  let s := { s with reg_x := s.reg_a % 256 }
  let s := set_nz s s.reg_x
  let s := (read_memory s s.pc).2
  set_index s 0

/-- Label `case 0xBA` TSX (lines 989-998). -/
def op_BA (s : State) : State :=
  let s := { s with reg_x := s.reg_s % 256 }
  let s := set_nz s s.reg_x
  let s := (read_memory s s.pc).2
  set_index s 0

/-- Label `case 0x9A` TXS (lines 999-1006). -/
def op_9A (s : State) : State :=
  let s := { s with reg_s := s.reg_x % 256 }
  let s := (read_memory s s.pc).2
  set_index s 0

/-- Label `case 0xA8` TAY (lines 1007-1016). -/
def op_A8 (s : State) : State :=
  let s := { s with reg_y := s.reg_a % 256 }
  let s := set_nz s s.reg_y
  let s := (read_memory s s.pc).2
  set_index s 0

/-- Label `case 0x8A` TXA (lines 1017-1026). -/
def op_8A (s : State) : State :=
  let s := { s with reg_a := s.reg_x % 256 }
  let s := set_nz s s.reg_a
  let s := (read_memory s s.pc).2
  set_index s 0

/-- Label `case 0x98` TYA (lines 1027-1036). -/
def op_98 (s : State) : State :=
  let s := { s with reg_a := s.reg_y % 256 }
  let s := set_nz s s.reg_a
  let s := (read_memory s s.pc).2
  set_index s 0

/-- Label `case 0x40` RTI (lines 1037-1064). -/
def op_40 (s : State) : State :=
  let s := if s.cur_instr_index < 6 then inc_index s else s
  if s.cur_instr_index = 2 then
    let r := pull s
    set_instr r.2 1 r.1
  else if s.cur_instr_index = 3 then
    let r := pull s
    set_instr r.2 2 r.1
  else if s.cur_instr_index = 4 then
    let r := pull s
    set_instr r.2 3 r.1
  else if s.cur_instr_index = 6 then
    let s := { s with reg_p := ((s.cur_instr 1 ||| STATUS_EXPAND) &&& bnot STATUS_BREAK) % 256 }
    let s := { s with pc := (s.cur_instr 2 ||| (s.cur_instr 3 <<< 8)) % 65536 }
    set_index s 0
  else s

/-- Label `case 0x60` RTS (lines 1065-1089). -/
def op_60 (s : State) : State :=
  let s := if s.cur_instr_index < 6 then inc_index s else s
  if s.cur_instr_index = 2 then
    let r := pull s
    set_instr r.2 1 r.1
  else if s.cur_instr_index = 3 then
    let r := pull s
    set_instr r.2 2 r.1
  else if s.cur_instr_index = 6 then
    let s := { s with pc := (s.cur_instr 1 ||| (s.cur_instr 2 <<< 8)) % 65536 }
    let s := { s with pc := (s.pc + 1) % 65536 }
    set_index s 0
  else s

/-- Label `case 0x20` JSR (lines 1090-1123). -/
def op_20 (s : State) : State :=
  let s := if s.cur_instr_index < 3 then fetch_opcode s else s
  if s.cur_instr_index = 3 then inc_index s
  else if s.cur_instr_index = 4 then
    inc_index (push s (isub s.pc 1 >>> 8))
  else if s.cur_instr_index = 5 then
    inc_index (push s (isub s.pc 1 &&& 0xFF))
  else if s.cur_instr_index = 6 then
    let newpc := (s.cur_instr 1 ||| (s.cur_instr 2 <<< 8)) % 65536
    set_index { s with pc := newpc } 0
  else s

/-- Label `case 0x6C` JMP indirect (lines 1124-1145). -/
def op_6C (s : State) : State :=
  if s.cur_instr_index < 3 then fetch_opcode s
  else if s.cur_instr_index = 3 then
    let r := read_memory s (s.cur_instr 1 ||| (s.cur_instr 2 <<< 8))
    inc_index (set_instr r.2 3 r.1)
  else if s.cur_instr_index = 4 then
    let r := read_memory s ((0xFF &&& (1 + s.cur_instr 1)) + (s.cur_instr 2 <<< 8))
    let s := set_instr r.2 4 r.1
    let s := { s with pc := (s.cur_instr 3 ||| (s.cur_instr 4 <<< 8)) % 65536 }
    set_index s 0
  else s

/-- Label `case 0x68` PLA (lines 1146-1161). -/
def op_68 (s : State) : State :=
  let s := if s.cur_instr_index < 4 then inc_index s else s
  if s.cur_instr_index = 4 then
    let r := pull s
    let s := { r.2 with reg_a := r.1 % 256 }
    let s := set_nz s s.reg_a
    set_index s 0
  else s

/-- Label `case 0x28` PLP (lines 1162-1175). -/
def op_28 (s : State) : State :=
  let s := if s.cur_instr_index < 4 then inc_index s else s
  if s.cur_instr_index = 4 then
    let r := pull s
    let s := { r.2 with reg_p := ((r.1 ||| STATUS_EXPAND) &&& bnot STATUS_BREAK) % 256 }
    set_index s 0
  else s

/-- Label `case 0x08` PHP (lines 1176-1189). -/
def op_08 (s : State) : State :=
  let s := if s.cur_instr_index < 3 then inc_index s else s
  if s.cur_instr_index = 3 then
    let s := push s (s.reg_p ||| STATUS_EXPAND ||| STATUS_BREAK)
    set_index s 0
  else s

/-- Label `case 0x48` PHA (lines 1190-1203). -/
def op_48 (s : State) : State :=
  let s := if s.cur_instr_index < 3 then inc_index s else s
  if s.cur_instr_index = 3 then
    let s := push s s.reg_a
    set_index s 0
  else s

/-- Label `case 0x18` CLC (lines 1204-1211). -/
def op_18 (s : State) : State :=
  let s := { s with reg_p := (s.reg_p &&& bnot STATUS_CARRY) % 256 }
  let s := (read_memory s s.pc).2
  set_index s 0

/-- Label `case 0xD8` CLD (lines 1212-1219). -/
def op_D8 (s : State) : State :=
  let s := { s with reg_p := (s.reg_p &&& bnot STATUS_DECIMAL) % 256 }
  let s := (read_memory s s.pc).2
  set_index s 0

/-- Label `case 0xB8` CLV (lines 1220-1227). -/
def op_B8 (s : State) : State :=
  let s := { s with reg_p := (s.reg_p &&& bnot STATUS_OVERFLOW) % 256 }
  let s := (read_memory s s.pc).2
  set_index s 0

/-- Label `case 0x38` SEC (lines 1228-1235). -/
def op_38 (s : State) : State :=
  let s := { s with reg_p := (s.reg_p ||| STATUS_CARRY) % 256 }
  let s := (read_memory s s.pc).2
  set_index s 0

/-- Label `case 0xF8` SED (lines 1236-1243). -/
def op_F8 (s : State) : State :=
  let s := { s with reg_p := (s.reg_p ||| STATUS_DECIMAL) % 256 }
  let s := (read_memory s s.pc).2
  set_index s 0

/-- Label `case 0x78` SEI (lines 1244-1251). -/
def op_78 (s : State) : State :=
  let s := { s with reg_p := (s.reg_p ||| STATUS_INTERRUPT_DISABLE) % 256 }
  let s := (read_memory s s.pc).2
  set_index s 0

/-- Label `case 0x0A` ASL A (lines 1252-1261). -/
def op_0A (s : State) : State :=
  let s := { s with reg_p := set_flag s.reg_p STATUS_CARRY (s.reg_a &&& 0x80 ≠ 0) }
  let s := { s with reg_a := (s.reg_a <<< 1) % 256 }
  let s := set_nz s s.reg_a
  set_index s 0

/-- The ASL kernel on latch slot `k` (lines 1277-1280 and their copies):
carry from bit 7, `cur_instr[k] <<= 1;`, N/Z from the result. -/
def asl_slot (s : State) (k : Nat) : State :=
  let s := { s with reg_p := set_flag s.reg_p STATUS_CARRY (s.cur_instr k &&& 0x80 ≠ 0) }
  let s := set_instr s k (s.cur_instr k <<< 1)
  set_nz s (s.cur_instr k)

/-- Label `case 0x06` ASL zero page (lines 1262-1288). -/
def op_06 (s : State) : State :=
  if s.cur_instr_index = 1 then fetch_opcode s
  else if s.cur_instr_index = 2 then
    let r := read_memory s (s.cur_instr 1)
    inc_index (set_instr r.2 2 r.1)
  else if s.cur_instr_index = 3 then
    let s := asl_slot s 2
    let s := write_memory s (s.cur_instr 1) (s.cur_instr 2)
    inc_index s
  else set_index s 0

/-- Label `case 0x16` ASL zero page,X (lines 1289-1319). -/
def op_16 (s : State) : State :=
  if s.cur_instr_index = 1 then fetch_opcode s
  else if s.cur_instr_index = 2 then inc_index s
  else if s.cur_instr_index = 3 then
    let r := read_memory s (0xFF &&& (s.reg_x + s.cur_instr 1))
    inc_index (set_instr r.2 2 r.1)
  else if s.cur_instr_index = 4 then
    let s := asl_slot s 2
    let s := write_memory s (0xFF &&& (s.reg_x + s.cur_instr 1)) (s.cur_instr 2)
    inc_index s
  else set_index s 0

/-- Label `case 0x0E` ASL absolute (lines 1320-1346). -/
def op_0E (s : State) : State :=
  if s.cur_instr_index < 3 then fetch_opcode s
  else if s.cur_instr_index = 3 then
    let r := read_memory s (s.cur_instr 1 ||| (s.cur_instr 2 <<< 8))
    inc_index (set_instr r.2 3 r.1)
  else if s.cur_instr_index = 4 then
    let s := asl_slot s 3
    let s := write_memory s (s.cur_instr 1 ||| (s.cur_instr 2 <<< 8)) (s.cur_instr 3)
    inc_index s
  else set_index s 0

/-- Label `case 0x1E` ASL absolute,X (lines 1347-1377). -/
def op_1E (s : State) : State :=
  if s.cur_instr_index < 3 then fetch_opcode s
  else if s.cur_instr_index = 3 then
    let r := read_memory s (s.cur_instr 1 + (s.cur_instr 2 <<< 8) + s.reg_x)
    inc_index (set_instr r.2 3 r.1)
  else if s.cur_instr_index = 4 then inc_index s
  else if s.cur_instr_index = 5 then
    let s := asl_slot s 3
    let s := write_memory s (s.cur_instr 1 + (s.cur_instr 2 <<< 8) + s.reg_x) (s.cur_instr 3)
    inc_index s
  else set_index s 0

/-- Label `case 0x4A` LSR A (lines 1378-1387). -/
def op_4A (s : State) : State :=
  let s := { s with reg_p := set_flag s.reg_p STATUS_CARRY (s.reg_a &&& 1 ≠ 0) }
  let s := { s with reg_p := (s.reg_p &&& bnot STATUS_NEGATIVE) % 256 }
  let s := { s with reg_a := (s.reg_a >>> 1) % 256 }
  let s := { s with reg_p := set_flag s.reg_p STATUS_ZERO (¬ (s.reg_a ≠ 0)) }
  set_index s 0

/-- The LSR kernel on latch slot `k` (lines 1403-1406 and their copies):
carry from bit 0, N cleared, `cur_instr[k] >>= 1;`, Z from the result. -/
def lsr_slot (s : State) (k : Nat) : State :=
  let s := { s with reg_p := set_flag s.reg_p STATUS_CARRY (s.cur_instr k &&& 1 ≠ 0) }
  let s := { s with reg_p := (s.reg_p &&& bnot STATUS_NEGATIVE) % 256 }
  let s := set_instr s k (s.cur_instr k >>> 1)
  { s with reg_p := set_flag s.reg_p STATUS_ZERO (¬ (s.cur_instr k ≠ 0)) }

/-- Label `case 0x46` LSR zero page (lines 1388-1414). -/
def op_46 (s : State) : State :=
  if s.cur_instr_index = 1 then fetch_opcode s
  else if s.cur_instr_index = 2 then
    let r := read_memory s (s.cur_instr 1)
    inc_index (set_instr r.2 2 r.1)
  else if s.cur_instr_index = 3 then
    let s := lsr_slot s 2
    let s := write_memory s (s.cur_instr 1) (s.cur_instr 2)
    inc_index s
  else set_index s 0

/-- Label `case 0x56` LSR zero page,X (lines 1415-1445). -/
def op_56 (s : State) : State :=
  if s.cur_instr_index = 1 then fetch_opcode s
  else if s.cur_instr_index = 2 then inc_index s
  else if s.cur_instr_index = 3 then
    let r := read_memory s (0xFF &&& (s.reg_x + s.cur_instr 1))
    inc_index (set_instr r.2 2 r.1)
  else if s.cur_instr_index = 4 then
    let s := lsr_slot s 2
    let s := write_memory s (0xFF &&& (s.reg_x + s.cur_instr 1)) (s.cur_instr 2)
    inc_index s
  else set_index s 0

/-- Label `case 0x4E` LSR absolute (lines 1446-1472). -/
def op_4E (s : State) : State :=
  if s.cur_instr_index < 3 then fetch_opcode s
  else if s.cur_instr_index = 3 then
    let r := read_memory s (s.cur_instr 1 ||| (s.cur_instr 2 <<< 8))
    inc_index (set_instr r.2 3 r.1)
  else if s.cur_instr_index = 4 then
    let s := lsr_slot s 3
    let s := write_memory s (s.cur_instr 1 ||| (s.cur_instr 2 <<< 8)) (s.cur_instr 3)
    inc_index s
  else set_index s 0

/-- Label `case 0x5E` LSR absolute,X (lines 1473-1503). -/
def op_5E (s : State) : State :=
  if s.cur_instr_index < 3 then fetch_opcode s
  else if s.cur_instr_index = 3 then
    let r := read_memory s (s.cur_instr 1 + (s.cur_instr 2 <<< 8) + s.reg_x)
    inc_index (set_instr r.2 3 r.1)
  else if s.cur_instr_index = 4 then inc_index s
  else if s.cur_instr_index = 5 then
    let s := lsr_slot s 3
    let s := write_memory s (s.cur_instr 1 + (s.cur_instr 2 <<< 8) + s.reg_x) (s.cur_instr 3)
    inc_index s
  else set_index s 0

/-- Label `case 0x2A` ROL A (lines 1504-1523). -/
def op_2A (s : State) : State :=
  let s :=
    if s.reg_a &&& 0x80 ≠ 0 then
      let s := { s with reg_a := (s.reg_a <<< 1) % 256 }
      let s := { s with reg_a := (s.reg_a ||| (if s.reg_p &&& STATUS_CARRY ≠ 0 then 1 else 0)) % 256 }
      { s with reg_p := ((s.reg_p &&& bnot STATUS_CARRY) ||| STATUS_CARRY) % 256 }
    else
      let s := { s with reg_a := (s.reg_a <<< 1) % 256 }
      let s := { s with reg_a := (s.reg_a ||| (if s.reg_p &&& STATUS_CARRY ≠ 0 then 1 else 0)) % 256 }
      { s with reg_p := (s.reg_p &&& bnot STATUS_CARRY) % 256 }
  let s := set_nz s s.reg_a
  set_index s 0

/-- The ROL kernel on latch slot `k` (lines 1539-1552 and their copies). -/
def rol_slot (s : State) (k : Nat) : State :=
  let s :=
    if s.cur_instr k &&& 0x80 ≠ 0 then
      let s := set_instr s k (s.cur_instr k <<< 1)
      let s := set_instr s k (s.cur_instr k ||| (if s.reg_p &&& STATUS_CARRY ≠ 0 then 1 else 0))
      { s with reg_p := ((s.reg_p &&& bnot STATUS_CARRY) ||| STATUS_CARRY) % 256 }
    else
      let s := set_instr s k (s.cur_instr k <<< 1)
      let s := set_instr s k (s.cur_instr k ||| (if s.reg_p &&& STATUS_CARRY ≠ 0 then 1 else 0))
      { s with reg_p := (s.reg_p &&& bnot STATUS_CARRY) % 256 }
  set_nz s (s.cur_instr k)

/-- Label `case 0x26` ROL zero page (lines 1524-1560). -/
def op_26 (s : State) : State :=
  if s.cur_instr_index = 1 then fetch_opcode s
  else if s.cur_instr_index = 2 then
    let r := read_memory s (s.cur_instr 1)
    inc_index (set_instr r.2 2 r.1)
  else if s.cur_instr_index = 3 then
    let s := rol_slot s 2
    let s := write_memory s (s.cur_instr 1) (s.cur_instr 2)
    inc_index s
  else set_index s 0

/-- Label `case 0x36` ROL zero page,X (lines 1561-1601). -/
def op_36 (s : State) : State :=
  if s.cur_instr_index = 1 then fetch_opcode s
  else if s.cur_instr_index = 2 then
    let r := read_memory s (0xFF &&& (s.reg_x + s.cur_instr 1))
    inc_index (set_instr r.2 2 r.1)
  else if s.cur_instr_index = 3 then inc_index s
  else if s.cur_instr_index = 4 then
    let s := rol_slot s 2
    let s := write_memory s (0xFF &&& (s.reg_x + s.cur_instr 1)) (s.cur_instr 2)
    inc_index s
  else set_index s 0

/-- Label `case 0x2E` ROL absolute (lines 1602-1638). -/
def op_2E (s : State) : State :=
  if s.cur_instr_index < 3 then fetch_opcode s
  else if s.cur_instr_index = 3 then
    let r := read_memory s (s.cur_instr 1 + (s.cur_instr 2 <<< 8))
    inc_index (set_instr r.2 3 r.1)
  else if s.cur_instr_index = 4 then
    let s := rol_slot s 3
    let s := write_memory s (s.cur_instr 1 + (s.cur_instr 2 <<< 8)) (s.cur_instr 3)
    inc_index s
  else set_index s 0

/-- Label `case 0x3E` ROL absolute,X (lines 1639-1679). -/
def op_3E (s : State) : State :=
  if s.cur_instr_index < 3 then fetch_opcode s
  else if s.cur_instr_index = 3 then
    let r := read_memory s (s.cur_instr 1 + (s.cur_instr 2 <<< 8) + s.reg_x)
    inc_index (set_instr r.2 3 r.1)
  else if s.cur_instr_index = 4 then inc_index s
  else if s.cur_instr_index = 5 then
    let s := rol_slot s 3
    let s := write_memory s (s.cur_instr 1 + (s.cur_instr 2 <<< 8) + s.reg_x) (s.cur_instr 3)
    inc_index s
  else set_index s 0

/-- Label `case 0x6a` ROR A (lines 1680-1699). -/
def op_6A (s : State) : State :=
  let s :=
    if s.reg_a &&& 0x1 ≠ 0 then
      let s := { s with reg_a := (s.reg_a >>> 1) % 256 }
      let s := { s with reg_a := (s.reg_a ||| (if s.reg_p &&& STATUS_CARRY ≠ 0 then 0x80 else 0)) % 256 }
      { s with reg_p := ((s.reg_p &&& bnot STATUS_CARRY) ||| STATUS_CARRY) % 256 }
    else
      let s := { s with reg_a := (s.reg_a >>> 1) % 256 }
      let s := { s with reg_a := (s.reg_a ||| (if s.reg_p &&& STATUS_CARRY ≠ 0 then 0x80 else 0)) % 256 }
      { s with reg_p := (s.reg_p &&& bnot STATUS_CARRY) % 256 }
  let s := set_nz s s.reg_a
  set_index s 0

/-- The ROR kernel on latch slot `k` (lines 1715-1728 and their copies). -/
def ror_slot (s : State) (k : Nat) : State :=
  let s :=
    if s.cur_instr k &&& 0x1 ≠ 0 then
      let s := set_instr s k (s.cur_instr k >>> 1)
      let s := set_instr s k (s.cur_instr k ||| (if s.reg_p &&& STATUS_CARRY ≠ 0 then 0x80 else 0))
      { s with reg_p := ((s.reg_p &&& bnot STATUS_CARRY) ||| STATUS_CARRY) % 256 }
    else
      let s := set_instr s k (s.cur_instr k >>> 1)
      let s := set_instr s k (s.cur_instr k ||| (if s.reg_p &&& STATUS_CARRY ≠ 0 then 0x80 else 0))
      { s with reg_p := (s.reg_p &&& bnot STATUS_CARRY) % 256 }
  set_nz s (s.cur_instr k)

/-- Label `case 0x66` ROR zero page (lines 1700-1736). -/
def op_66 (s : State) : State :=
  if s.cur_instr_index = 1 then fetch_opcode s
  else if s.cur_instr_index = 2 then
    let r := read_memory s (s.cur_instr 1)
    inc_index (set_instr r.2 2 r.1)
  else if s.cur_instr_index = 3 then
    let s := ror_slot s 2
    let s := write_memory s (s.cur_instr 1) (s.cur_instr 2)
    inc_index s
  else set_index s 0

/-- Label `case 0x76` ROR zero page,X (lines 1737-1777). -/
def op_76 (s : State) : State :=
  if s.cur_instr_index = 1 then fetch_opcode s
  else if s.cur_instr_index = 2 then
    let r := read_memory s (0xFF &&& (s.reg_x + s.cur_instr 1))
    inc_index (set_instr r.2 2 r.1)
  else if s.cur_instr_index = 3 then inc_index s
  else if s.cur_instr_index = 4 then
    let s := ror_slot s 2
    let s := write_memory s (0xFF &&& (s.reg_x + s.cur_instr 1)) (s.cur_instr 2)
    inc_index s
  else set_index s 0

/-- Label `case 0x6E` ROR absolute (lines 1778-1814). -/
def op_6E (s : State) : State :=
  if s.cur_instr_index < 3 then fetch_opcode s
  else if s.cur_instr_index = 3 then
    let r := read_memory s (s.cur_instr 1 ||| (s.cur_instr 2 <<< 8))
    inc_index (set_instr r.2 3 r.1)
  else if s.cur_instr_index = 4 then
    let s := ror_slot s 3
    let s := write_memory s (s.cur_instr 1 ||| (s.cur_instr 2 <<< 8)) (s.cur_instr 3)
    inc_index s
  else set_index s 0

/-- Label `case 0x7E` ROR absolute,X (lines 1815-1855). -/
def op_7E (s : State) : State :=
  if s.cur_instr_index < 3 then fetch_opcode s
  else if s.cur_instr_index = 3 then
    let r := read_memory s (s.cur_instr 1 + (s.cur_instr 2 <<< 8) + s.reg_x)
    inc_index (set_instr r.2 3 r.1)
  else if s.cur_instr_index = 4 then inc_index s
  else if s.cur_instr_index = 5 then
    let s := ror_slot s 3
    let s := write_memory s (s.cur_instr 1 + (s.cur_instr 2 <<< 8) + s.reg_x) (s.cur_instr 3)
    inc_index s
  else set_index s 0

/-- The three flag statements of BIT on the byte in `cur_instr[1]`
(lines 1873-1875 and 1896-1898). -/
def bit_flags (s : State) : State :=
  let s := { s with reg_p := set_flag s.reg_p STATUS_NEGATIVE (s.cur_instr 1 &&& 0x80 ≠ 0) }
  let s := { s with reg_p := set_flag s.reg_p STATUS_OVERFLOW (s.cur_instr 1 &&& 0x40 ≠ 0) }
  { s with reg_p := set_flag s.reg_p STATUS_ZERO (¬ (s.cur_instr 1 &&& s.reg_a ≠ 0)) }

/-- Label `case 0x24` BIT zero page (lines 1856-1878). -/
def op_24 (s : State) : State :=
  let s := if s.cur_instr_index < 2 then fetch_opcode s else s
  if s.cur_instr_index = 2 then inc_index s
  else if s.cur_instr_index = 3 then
    let r := read_memory s (s.cur_instr 1)
    let s := set_instr r.2 1 r.1
    let s := bit_flags s
    set_index s 0
  else s

/-- Label `case 0x2C` BIT absolute (lines 1879-1901). -/
def op_2C (s : State) : State :=
  let s := if s.cur_instr_index < 3 then fetch_opcode s else s
  if s.cur_instr_index = 3 then inc_index s
  else if s.cur_instr_index = 4 then
    let r := read_memory s (s.cur_instr 1 ||| (s.cur_instr 2 <<< 8))
    let s := set_instr r.2 1 r.1
    let s := bit_flags s
    set_index s 0
  else s

/-- Label `case 0x4C` JMP absolute (lines 1902-1918). -/
def op_4C (s : State) : State :=
  let s := if s.cur_instr_index < 3 then fetch_opcode s else s
  if s.cur_instr_index = 3 then
    let newpc := (s.cur_instr 1 ||| (s.cur_instr 2 <<< 8)) % 65536
    set_index { s with pc := newpc } 0
  else s

/-- Label `case 0x86` STX zero page (lines 1919-1938). -/
def op_86 (s : State) : State :=
  let s := if s.cur_instr_index < 2 then fetch_opcode s else s
  if s.cur_instr_index = 2 then inc_index s
  else if s.cur_instr_index = 3 then
    let s := write_memory s (s.cur_instr 1) s.reg_x
    set_index s 0
  else s

/-- Label `case 0x96` STX zero page,Y (lines 1939-1958). -/
def op_96 (s : State) : State :=
  if s.cur_instr_index < 2 then fetch_opcode s
  else if s.cur_instr_index = 2 then inc_index s
  else if s.cur_instr_index = 3 then
    let s := write_memory s (0xFF &&& (s.reg_y + s.cur_instr 1)) s.reg_x
    set_index s 0
  else s

/-- Label `case 0x8E` STX absolute (lines 1959-1978). -/
def op_8E (s : State) : State :=
  let s := if s.cur_instr_index < 3 then fetch_opcode s else s
  if s.cur_instr_index = 3 then inc_index s
  else if s.cur_instr_index = 4 then
    let s := write_memory s (s.cur_instr 1 ||| (s.cur_instr 2 <<< 8)) s.reg_x
    set_index s 0
  else s

/-- Label `case 0xAE` LDX absolute (lines 1979-2000). -/
def op_AE (s : State) : State :=
  let s := if s.cur_instr_index < 3 then fetch_opcode s else s
  if s.cur_instr_index = 3 then inc_index s
  else if s.cur_instr_index = 4 then
    let r := read_memory s (s.cur_instr 1 ||| (s.cur_instr 2 <<< 8))
    let s := { r.2 with reg_x := r.1 % 256 }
    let s := set_nz s s.reg_x
    set_index s 0
  else s

/-- Label `case 0xBE` LDX absolute,Y (lines 2001-2030). -/
def op_BE (s : State) : State :=
  if s.cur_instr_index < 3 then fetch_opcode s
  else if s.cur_instr_index = 3 then
    let ea := (s.cur_instr 1 + (s.cur_instr 2 <<< 8) + s.reg_y) % 65536
    let r := read_memory s ea
    let s := { r.2 with reg_x := r.1 % 256 }
    let s := set_nz s s.reg_x
    if ea >>> 8 = s.cur_instr 2 then set_index s 0 else inc_index s
  else set_index s 0

/-- Label `case 0x84` STY zero page (lines 2031-2046). -/
def op_84 (s : State) : State :=
  if s.cur_instr_index < 2 then fetch_opcode s
  else if s.cur_instr_index = 2 then
    let s := write_memory s (s.cur_instr 1) s.reg_y
    set_index s 0
  else s

/-- Label `case 0x94` STY zero page,X (lines 2047-2066). -/
def op_94 (s : State) : State :=
  if s.cur_instr_index < 2 then fetch_opcode s
  else if s.cur_instr_index = 2 then inc_index s
  else if s.cur_instr_index = 3 then
    let s := write_memory s (0xFF &&& (s.cur_instr 1 + s.reg_x)) s.reg_y
    set_index s 0
  else s

/-- Label `case 0x8C` STY absolute (lines 2067-2082). -/
def op_8C (s : State) : State :=
  if s.cur_instr_index < 3 then fetch_opcode s
  else if s.cur_instr_index = 3 then
    let s := write_memory s (s.cur_instr 1 ||| (s.cur_instr 2 <<< 8)) s.reg_y
    set_index s 0
  else s

/-- Label `case 0xA4` LDY zero page (lines 2083-2100). -/
def op_A4 (s : State) : State :=
  if s.cur_instr_index < 2 then fetch_opcode s
  else if s.cur_instr_index = 2 then
    let r := read_memory s (s.cur_instr 1)
    let s := { r.2 with reg_y := r.1 % 256 }
    let s := set_nz s s.reg_y
    set_index s 0
  else s

/-- Label `case 0xB4` LDY zero page,X (lines 2101-2122). -/
def op_B4 (s : State) : State :=
  if s.cur_instr_index < 2 then fetch_opcode s
  else if s.cur_instr_index = 2 then inc_index s
  else if s.cur_instr_index = 3 then
    let r := read_memory s (0xFF &&& (s.cur_instr 1 + s.reg_x))
    let s := { r.2 with reg_y := r.1 % 256 }
    let s := set_nz s s.reg_y
    set_index s 0
  else s

/-- Label `case 0xAC` LDY absolute (lines 2123-2144). -/
def op_AC (s : State) : State :=
  let s := if s.cur_instr_index < 3 then fetch_opcode s else s
  if s.cur_instr_index = 3 then inc_index s
  else if s.cur_instr_index = 4 then
    let r := read_memory s (s.cur_instr 1 ||| (s.cur_instr 2 <<< 8))
    let s := { r.2 with reg_y := r.1 % 256 }
    let s := set_nz s s.reg_y
    set_index s 0
  else s

/-- Label `case 0xBC` LDY absolute,X (lines 2145-2174). -/
def op_BC (s : State) : State :=
  if s.cur_instr_index < 3 then fetch_opcode s
  else if s.cur_instr_index = 3 then
    let ea := (s.cur_instr 1 + (s.cur_instr 2 <<< 8) + s.reg_x) % 65536
    let r := read_memory s ea
    let s := { r.2 with reg_y := r.1 % 256 }
    let s := set_nz s s.reg_y
    if ea >>> 8 = s.cur_instr 2 then set_index s 0 else inc_index s
  else set_index s 0

/-- Label `case 0xA2` LDX immediate (lines 2175-2192). -/
def op_A2 (s : State) : State :=
  let s := if s.cur_instr_index < 2 then fetch_opcode s else s
  if s.cur_instr_index = 2 then
    let s := { s with reg_x := s.cur_instr 1 % 256 }
    let s := set_nz s s.reg_x
    set_index s 0
  else s

/-- Label `case 0xA6` LDX zero page (lines 2193-2214). -/
def op_A6 (s : State) : State :=
  let s := if s.cur_instr_index < 2 then fetch_opcode s else s
  if s.cur_instr_index = 2 then inc_index s
  else if s.cur_instr_index = 3 then
    let r := read_memory s (s.cur_instr 1)
    let s := { r.2 with reg_x := r.1 % 256 }
    let s := set_nz s s.reg_x
    set_index s 0
  else s

/-- Label `case 0xB6` LDX zero page,Y (lines 2215-2236). -/
def op_B6 (s : State) : State :=
  if s.cur_instr_index < 2 then fetch_opcode s
  else if s.cur_instr_index = 2 then inc_index s
  else if s.cur_instr_index = 3 then
    let r := read_memory s (0xFF &&& (s.cur_instr 1 + s.reg_y))
    let s := { r.2 with reg_x := r.1 % 256 }
    let s := set_nz s s.reg_x
    set_index s 0
  else s

/-- Label `case 0xA0` LDY immediate (lines 2237-2254). -/
def op_A0 (s : State) : State :=
  let s := if s.cur_instr_index < 2 then fetch_opcode s else s
  if s.cur_instr_index = 2 then
    let s := { s with reg_y := s.cur_instr 1 % 256 }
    let s := set_nz s s.reg_y
    set_index s 0
  else s

/-- Label `case 0xEA` NOP (lines 2279-2285). -/
def op_EA (s : State) : State :=
  let s := (read_memory s s.pc).2
  set_index s 0

/-- The `default:` label (lines 2286-2293): `hang = 1;` -/
def op_default (s : State) : State :=
  { s with hang := 1 }

/-- The `switch(cur_instr[0])` of `decode_opcode` (lines 597-2294), labels in
source order. -/
def decode_other (s : State) : State :=
  let op := s.cur_instr 0
  if op = 0xE0 then op_E0 s
  else if op = 0xE4 then op_E4 s
  else if op = 0xEC then op_EC s
  else if op = 0xC0 then op_C0 s
  else if op = 0xC4 then op_C4 s
  else if op = 0xCC then op_CC s
  else if op = 0xC6 then op_C6 s
  else if op = 0xD6 then op_D6 s
  else if op = 0xCE then op_CE s
  else if op = 0xDE then op_DE s
  else if op = 0xE6 then op_E6 s
  else if op = 0xF6 then op_F6 s
  else if op = 0xEE then op_EE s
  else if op = 0xFE then op_FE s
  else if op = 0xE8 then op_E8 s
  else if op = 0xC8 then op_C8 s
  else if op = 0xCA then op_CA s
  else if op = 0x88 then op_88 s
  else if op = 0xAA then op_AA s
  else if op = 0xBA then op_BA s
  else if op = 0x9A then op_9A s
  else if op = 0xA8 then op_A8 s
  else if op = 0x8A then op_8A s
  else if op = 0x98 then op_98 s
  else if op = 0x40 then op_40 s
  else if op = 0x60 then op_60 s
  else if op = 0x20 then op_20 s
  else if op = 0x6C then op_6C s
  else if op = 0x68 then op_68 s
  else if op = 0x28 then op_28 s
  else if op = 0x08 then op_08 s
  else if op = 0x48 then op_48 s
  else if op = 0x18 then op_18 s
  else if op = 0xD8 then op_D8 s
  else if op = 0xB8 then op_B8 s
  else if op = 0x38 then op_38 s
  else if op = 0xF8 then op_F8 s
  else if op = 0x78 then op_78 s
  else if op = 0x0A then op_0A s
  else if op = 0x06 then op_06 s
  else if op = 0x16 then op_16 s
  else if op = 0x0E then op_0E s
  else if op = 0x1E then op_1E s
  else if op = 0x4A then op_4A s
  else if op = 0x46 then op_46 s
  else if op = 0x56 then op_56 s
  else if op = 0x4E then op_4E s
  else if op = 0x5E then op_5E s
  else if op = 0x2A then op_2A s
  else if op = 0x26 then op_26 s
  else if op = 0x36 then op_36 s
  else if op = 0x2E then op_2E s
  else if op = 0x3E then op_3E s
  else if op = 0x6A then op_6A s
  else if op = 0x66 then op_66 s
  else if op = 0x76 then op_76 s
  else if op = 0x6E then op_6E s
  else if op = 0x7E then op_7E s
  else if op = 0x24 then op_24 s
  else if op = 0x2C then op_2C s
  else if op = 0x4C then op_4C s
  else if op = 0x86 then op_86 s
  else if op = 0x96 then op_96 s
  else if op = 0x8E then op_8E s
  else if op = 0xAE then op_AE s
  else if op = 0xBE then op_BE s
  else if op = 0x84 then op_84 s
  else if op = 0x94 then op_94 s
  else if op = 0x8C then op_8C s
  else if op = 0xA4 then op_A4 s
  else if op = 0xB4 then op_B4 s
  else if op = 0xAC then op_AC s
  else if op = 0xBC then op_BC s
  else if op = 0xA2 then op_A2 s
  else if op = 0xA6 then op_A6 s
  else if op = 0xB6 then op_B6 s
  else if op = 0xA0 then op_A0 s
  else if op = 0x50 then branch_flag s STATUS_OVERFLOW 0
  else if op = 0x70 then branch_flag s STATUS_OVERFLOW STATUS_OVERFLOW
  else if op = 0x90 then branch_flag s STATUS_CARRY 0
  else if op = 0x10 then branch_flag s STATUS_NEGATIVE 0
  else if op = 0x30 then branch_flag s STATUS_NEGATIVE STATUS_NEGATIVE
  else if op = 0xB0 then branch_flag s STATUS_CARRY STATUS_CARRY
  else if op = 0xD0 then branch_flag s STATUS_ZERO 0
  else if op = 0xF0 then branch_flag s STATUS_ZERO STATUS_ZERO
  else if op = 0xEA then op_EA s
  else op_default s

/-- Function `decode_opcode()` (lines 308-2296). -/
def decode_opcode (s : State) : State :=
  if s.cur_instr 0 &&& 0x3 = 0x1 then decode_alu s else decode_other s

/-- Function `p6502_run_cycle()` (lines 2298-2338).  Returns `hang` and the state. -/
def p6502_run_cycle (s : State) : Nat × State :=
  let s :=
    if s.hang = 0 then
      let s := { s with cycle_number := (s.cycle_number + 1) % 0x100000000 }
      if s.cur_instr_index < 1 then fetch_opcode s else decode_opcode s
    else s
  let s :=
    if s.cur_instr_index = 0 ∧ s.p6502_single_step = 1 then { s with hang := 1 } else s
  (s.hang, s)

/-- Function `p6502_step()` (lines 2340-2344). -/
def p6502_step (s : State) : State :=
  { s with p6502_single_step := 1, hang := 0 }

/-- Function `p6502_resume()` (lines 2346-2350). -/
def p6502_resume (s : State) : State :=
  { s with p6502_single_step := 0, hang := 0 }

/-- Function `p6502_break()` (lines 2352-2356). -/
def p6502_break (s : State) : State :=
  { s with hang := 1, p6502_single_step := 1 }

/-- Function `p6502_power_on()` (lines 2358-2369). -/
def p6502_power_on (s : State) : State :=
  let s := { s with cur_instr_index := 0 }
  let s := { s with cycle_number := 0 }
  let s := { s with hang := 0 }
  let s := { s with reg_p := 0x24 }
  let s := { s with reg_a := 0 }
  let s := { s with reg_x := 0 }
  let s := { s with reg_y := 0 }
  let s := { s with reg_s := 0xFD }
  p6502_execute_vector s RESET_VECTOR

/-! ## Specification vocabulary -/

/-- Every variable holds a value of its C type (`uint8_t`, `uint16_t`,
`uint32_t`). -/
structure State.typed (s : State) : Prop where
  ram : ∀ i, s.internal_ram i < 256
  instr : ∀ i, s.cur_instr i < 256
  index : s.cur_instr_index < 256
  single_step : s.p6502_single_step < 256
  hang : s.hang < 256
  cycle : s.cycle_number < 0x100000000
  a : s.reg_a < 256
  x : s.reg_x < 256
  y : s.reg_y < 256
  pc : s.pc < 65536
  sp : s.reg_s < 256
  p : s.reg_p < 256
  prg : ∀ i, s.mapper0_prg_rom i < 256
  mask : s.mapper0_prg_rom_mask < 0x100000000

/-- The status-register invariant: U (bit 5) set and B (bit 4) clear. -/
def PInv (p : Nat) : Prop := p &&& 0x20 = 0x20 ∧ p &&& 0x10 = 0

/-- States reachable from `p6502_power_on` by the control surface and the tick
entry point. -/
inductive Reachable : State → Prop where
  | power_on (s : State) : Reachable (p6502_power_on s)
  | run_cycle {s : State} : Reachable s → Reachable (p6502_run_cycle s).2
  | step {s : State} : Reachable s → Reachable (p6502_step s)
  | resume {s : State} : Reachable s → Reachable (p6502_resume s)
  | brk {s : State} : Reachable s → Reachable (p6502_break s)

/-- A 16 KiB PRG image (by offset): reset vector `$C000` at `$3FFC/$3FFD`, and
at offset 0 the program `LDA #$42; STA $10; LDA #$00; LDA $10`. -/
def sample_prg (k : Nat) : Nat :=
  if k = 0x3FFC then 0x00 else if k = 0x3FFD then 0xC0
  else if k = 0 then 0xA9 else if k = 1 then 0x42
  else if k = 2 then 0x85 else if k = 3 then 0x10
  else if k = 4 then 0xA9 else if k = 5 then 0x00
  else if k = 6 then 0xA5 else if k = 7 then 0x10
  else 0

/-- The machine before power-on with `sample_prg` loaded as a mapper-0
cartridge: all variables zero-initialised (`hang` starts at 1), RAM cell
`$0005` preset to `$77` to make reads of RAM visible. -/
def sample_state : State :=
  { internal_ram := fun i => if i = 5 then 0x77 else 0
    cur_instr := fun _ => 0
    cur_instr_index := 0
    p6502_single_step := 0
    hang := 1
    cycle_number := 0
    reg_a := 0
    reg_x := 0
    reg_y := 0
    pc := 0
    reg_s := 0
    reg_p := 0
    mapper_cpur := some .mapper0_read
    mapper_cpuw := some .mapper0_write
    mapper_ppur := none
    mapper_ppuw := none
    mapper0_prg_rom := sample_prg
    mapper0_prg_rom_mask := 0x3FFF
    bus := []
    fetches := [] }

/-- The two's-complement signed value of a byte. -/
def signed8 (b : Nat) : Int := if b < 128 then (b : Int) else (b : Int) - 256

/-- A running machine about to execute `ADC #$01` stored at RAM `$0000`, with
A = `$7F`, P = `$24` (carry clear). -/
def adc_state : State :=
  { sample_state with
    internal_ram := fun i => if i = 0 then 0x69 else if i = 1 then 0x01 else 0
    hang := 0
    reg_a := 0x7F
    reg_p := 0x24 }

/-- A running machine about to execute `SBC #$F0` stored at RAM `$0000`, with
A = `$50`, P = `$25` (carry set). -/
def sbc_state : State :=
  { sample_state with
    internal_ram := fun i => if i = 0 then 0xE9 else if i = 1 then 0xF0 else 0
    hang := 0
    reg_a := 0x50
    reg_p := 0x25 }

/-- The byte `read_memory` returns, as a function of the four variables it
reads (the routing itself is that of `read_memory`, run on a state holding
just these variables). -/
def bus_val (ram : Nat → Nat) (cpur : Option mem_read_callback) (prg : Nat → Nat)
    (mask : Nat) (addr : Nat) : Nat :=
  (read_memory
    { internal_ram := ram, cur_instr := fun _ => 0, cur_instr_index := 0,
      p6502_single_step := 0, hang := 0, cycle_number := 0, reg_a := 0, reg_x := 0,
      reg_y := 0, pc := 0, reg_s := 0, reg_p := 0, mapper_cpur := cpur,
      mapper_cpuw := none, mapper_ppur := none, mapper_ppuw := none,
      mapper0_prg_rom := prg, mapper0_prg_rom_mask := mask, bus := [],
      fetches := [] } addr).1

/-- The state after `n` calls of `p6502_run_cycle`. -/
def run_cycles : Nat → State → State
  | 0, s => s
  | n + 1, s => run_cycles n (p6502_run_cycle s).2

/-- The last statement of `p6502_run_cycle` (lines 2333-2336), on the state `t`
reached by the cycle: `if ((cur_instr_index == 0) && (p6502_single_step == 1))
hang = 1;` -/
def single_step_halt (t : State) : State :=
  if t.cur_instr_index = 0 ∧ t.p6502_single_step = 1 then { t with hang := 1 } else t

/-- The statement `cycle_number++` of `p6502_run_cycle` (line 2303). -/
def tick (s : State) : State :=
  { s with cycle_number := (s.cycle_number + 1) % 0x100000000 }

/-- The instruction started at the boundary state `s` retires at cycle `n`: the
micro-step index is back to 0 after `n` calls of `p6502_run_cycle` and is not 0
after any smaller positive number of calls. -/
def retires_after (s : State) (n : Nat) : Prop :=
  0 < n ∧ (run_cycles n s).cur_instr_index = 0 ∧
    ∀ k, k < n → 0 < k → (run_cycles k s).cur_instr_index ≠ 0

/-- A running machine (`hang` = 0) at an instruction boundary, without a
cartridge, with the given RAM contents and registers. -/
def ram_machine (ram : Nat → Nat) (pc a x y sp p : Nat) : State :=
  { internal_ram := ram
    cur_instr := fun _ => 0
    cur_instr_index := 0
    p6502_single_step := 0
    hang := 0
    cycle_number := 0
    reg_a := a
    reg_x := x
    reg_y := y
    pc := pc
    reg_s := sp
    reg_p := p
    mapper_cpur := none
    mapper_cpuw := none
    mapper_ppur := none
    mapper_ppuw := none
    mapper0_prg_rom := fun _ => 0
    mapper0_prg_rom_mask := 0
    bus := []
    fetches := [] }

/-- A running machine with A = `$50` and the carry flag clear (P = `$24`), used
for subtraction with a borrow coming in. -/
def sbc_borrow_state : State := { sbc_state with reg_p := 0x24 }

/-- The eight branch opcodes with the `(mask, cmp)` arguments their `case` labels
pass to `branch_flag` (lines 2255-2278): (opcode, mask, expected). -/
def branch_table : List (Nat × Nat × Nat) :=
  [(0x10, STATUS_NEGATIVE, 0), (0x30, STATUS_NEGATIVE, STATUS_NEGATIVE),
   (0x50, STATUS_OVERFLOW, 0), (0x70, STATUS_OVERFLOW, STATUS_OVERFLOW),
   (0x90, STATUS_CARRY, 0), (0xB0, STATUS_CARRY, STATUS_CARRY),
   (0xD0, STATUS_ZERO, 0), (0xF0, STATUS_ZERO, STATUS_ZERO)]

/-- A running machine at PC = `$0080` about to execute `BNE` with offset `$80`
(bytes `$D0 $80` in RAM), with the Z flag clear (P = `$24`). -/
def branch_state : State :=
  ram_machine (fun i => if i = 0x80 then 0xD0 else if i = 0x81 then 0x80 else 0)
    0x0080 0 0 0 0xFD 0x24

/-- A running machine about to execute `JMP ($02FF)` stored at RAM `$0000`, with
RAM[`$02FF`] = `$34`, RAM[`$0200`] = `$12` and RAM[`$0300`] = `$56`. -/
def jmp_state : State :=
  ram_machine (fun i => if i = 0 then 0x6C else if i = 1 then 0xFF else if i = 2 then 0x02
    else if i = 0x2FF then 0x34 else if i = 0x200 then 0x12 else if i = 0x300 then 0x56 else 0)
    0x0000 0 0 0 0xFD 0x24

/-- A running machine at PC = `$0000` without a cartridge: the opcode `op` at RAM
`$0000` followed by the operand bytes `$34 $12`, stack bytes RAM[`$0100`] = `$12`,
RAM[`$01FE`] = `$91`, RAM[`$01FF`] = `$33`, A = `$42`, P = `$25` and S = `sp`. -/
def stack_machine (op sp : Nat) : State :=
  ram_machine (fun i => if i = 0 then op else if i = 1 then 0x34 else if i = 2 then 0x12
    else if i = 0x100 then 0x12 else if i = 0x1FE then 0x91 else if i = 0x1FF then 0x33 else 0)
    0x0000 0x42 0 0 sp 0x25

/-- The address of a bus access. -/
def Access.addr : Access → Nat
  | Access.read a => a
  | Access.write a _ => a

/-- The access targets the stack page `$0100..$01FF`. -/
def in_stack_page (x : Access) : Prop := 0x100 ≤ x.addr ∧ x.addr ≤ 0x1FF

/-- The state in which the operation switch of the ALU group runs when the
instruction started at `s` retires at cycle `n`: the result of the addressing
switch in the `n`-th call of `p6502_run_cycle`. -/
def alu_ready_state (s : State) (n : Nat) : State :=
  (alu_addressing (tick (run_cycles (n - 1) s))).1

/-- The registers and the memory of `t` are those of `s`. -/
def same_machine (s t : State) : Prop :=
  t.reg_a = s.reg_a ∧ t.reg_x = s.reg_x ∧ t.reg_y = s.reg_y ∧ t.reg_s = s.reg_s ∧
  t.reg_p = s.reg_p ∧ t.internal_ram = s.internal_ram ∧
  t.mapper0_prg_rom = s.mapper0_prg_rom

/-- The byte on the bus at address `a` in state `s`. -/
def rd (s : State) (a : Nat) : Nat := (read_memory s a).1

/-- The outcome of a compare of register value `r` with operand `m`, from state
`s` to state `t`: C iff r >= m, Z iff r = m, N = bit 7 of (r - m) mod 256, and A,
X, Y, S, the V, I and D flags and memory unchanged. -/
def cmp_outcome (s t : State) (r m : Nat) : Prop :=
  (t.reg_p &&& 0x01 ≠ 0 ↔ r ≥ m) ∧ (t.reg_p &&& 0x02 ≠ 0 ↔ r = m) ∧
  (t.reg_p &&& 0x80 ≠ 0 ↔ ((r + 256 - m) % 256) &&& 0x80 ≠ 0) ∧
  t.reg_a = s.reg_a ∧ t.reg_x = s.reg_x ∧ t.reg_y = s.reg_y ∧ t.reg_s = s.reg_s ∧
  t.reg_p &&& 0x40 = s.reg_p &&& 0x40 ∧ t.reg_p &&& 0x04 = s.reg_p &&& 0x04 ∧
  t.reg_p &&& 0x08 = s.reg_p &&& 0x08 ∧
  t.internal_ram = s.internal_ram ∧ t.mapper0_prg_rom = s.mapper0_prg_rom

/-- A running machine at PC = `$0000` without a cartridge: the opcode `op` at RAM
`$0000` followed by the operand bytes `$FF $01`, RAM[`$0200`] = `$40`, A = `$42`,
X = `$01`, Y = `$00`, P = `$24`. -/
def alu_state (op : Nat) : State :=
  ram_machine (fun i => if i = 0 then op else if i = 1 then 0xFF else if i = 2 then 0x01
    else if i = 0x200 then 0x40 else 0) 0x0000 0x42 0x01 0x00 0xFD 0x24

/-- What one call of `decode_opcode` may do to the variables it does not own:
from `s` to `t` the cycle counter, the single-step flag, the mapper handles and
the PRG backing keep their values, and the bus log grows by at most two
accesses. -/
def decode_frame (s t : State) : Prop :=
  t.cycle_number = s.cycle_number ∧ t.p6502_single_step = s.p6502_single_step ∧
  t.mapper_cpur = s.mapper_cpur ∧ t.mapper_cpuw = s.mapper_cpuw ∧
  t.mapper_ppur = s.mapper_ppur ∧ t.mapper_ppuw = s.mapper_ppuw ∧
  t.mapper0_prg_rom = s.mapper0_prg_rom ∧ t.mapper0_prg_rom_mask = s.mapper0_prg_rom_mask ∧
  s.bus <+: t.bus ∧ t.bus.length ≤ s.bus.length + 2

/-- The `case` labels of the `switch(cur_instr[0])` of `decode_opcode` (lines
597-2285), in source order: the opcodes of the one-off group that the program
implements. -/
def one_off_opcodes : List Nat :=
  [0xE0, 0xE4, 0xEC, 0xC0, 0xC4, 0xCC, 0xC6, 0xD6, 0xCE, 0xDE, 0xE6, 0xF6,
   0xEE, 0xFE, 0xE8, 0xC8, 0xCA, 0x88, 0xAA, 0xBA, 0x9A, 0xA8, 0x8A, 0x98,
   0x40, 0x60, 0x20, 0x6C, 0x68, 0x28, 0x08, 0x48, 0x18, 0xD8, 0xB8, 0x38,
   0xF8, 0x78, 0x0A, 0x06, 0x16, 0x0E, 0x1E, 0x4A, 0x46, 0x56, 0x4E, 0x5E,
   0x2A, 0x26, 0x36, 0x2E, 0x3E, 0x6A, 0x66, 0x76, 0x6E, 0x7E, 0x24, 0x2C,
   0x4C, 0x86, 0x96, 0x8E, 0xAE, 0xBE, 0x84, 0x94, 0x8C, 0xA4, 0xB4, 0xAC,
   0xBC, 0xA2, 0xA6, 0xB6, 0xA0, 0x50, 0x70, 0x90, 0x10, 0x30, 0xB0, 0xD0,
   0xF0, 0xEA]

/-- The opcode bytes the non-ALU list of the spec gives (section 4.3): the `case`
labels of the program and CLI `$58`, which the program does not implement. -/
def spec_one_off_opcodes : List Nat := 0x58 :: one_off_opcodes

/-- The opcode in the latch is not implemented and an instruction is in flight:
the byte is outside the ALU group and is no `case` label, and the micro-step
index is not 0. -/
def stuck_on_invalid (s : State) : Prop :=
  s.cur_instr_index ≠ 0 ∧ ¬ (s.cur_instr 0 &&& 0x3 = 0x1) ∧ s.cur_instr 0 ∉ one_off_opcodes

/-- A sequence of attempts to go on: each entry is `p6502_step()` (`true`) or
`p6502_resume()` (`false`) followed by one call of `p6502_run_cycle()`. -/
def retry : List Bool → State → State
  | [], s => s
  | b :: l, s => retry l (p6502_run_cycle (if b then p6502_step s else p6502_resume s)).2


/-! ## cartridge.c

The FAT file system calls (`f_open`, `f_lseek`, `f_read`) and the macro
`SMC_CS0_AREA16` (`sam3u_includes.h`) are not part of the sources.  The open
file is taken as the function `fp` giving the byte that `f_lseek` and `f_read`
deliver at each offset, and `SMC_CS0_AREA16` as an array of `uint16_t` in
external memory, kept in the record `Board` next to the processor variables.
The target is little-endian: the byte at offset `k` behind
`(uint8_t*)(&SMC_CS0_AREA16[256])` is the low (even `k`) or the high (odd `k`)
byte of the word `SMC_CS0_AREA16[256 + k / 2]`. -/

/-- The processor variables and the external memory window `SMC_CS0_AREA16`. -/
structure Board where
  smc_cs0_area16 : Nat → Nat
  cpu : State

/-- Function `read_byte(fp, offset)` (lines 20-27); `offset` is a `uint16_t`, the
result a `uint8_t`. -/
def read_byte (fp : Nat → Nat) (offset : Nat) : Nat := fp (offset % 65536) % 256

/-- Array store `a[i] = v` into a `uint16_t` array. -/
def store16 (a : Nat → Nat) (i v : Nat) : Nat → Nat :=
  fun j => if j = i then v % 65536 else a j

/-- The loop of lines 56-59, `n` iterations from `i = 0`:
`SMC_CS0_AREA16[i] = read_byte(fp, 16+2*i)<<8 | read_byte(fp, 17+2*i);` -/
def trainer_loop (fp : Nat → Nat) : Nat → (Nat → Nat) → (Nat → Nat)
  | 0, area => area
  | i + 1, area =>
    store16 (trainer_loop fp i area) i
      ((read_byte fp (16 + 2 * i) <<< 8) ||| read_byte fp (17 + 2 * i))

/-- The loop of lines 66-70, `n` iterations from `i = 0`:
`temp = read_byte(fp, offset+2*i) | read_byte(fp, offset+1+2*i)<<8;`
`SMC_CS0_AREA16[256+i] = temp;` -/
def prg_loop (fp : Nat → Nat) (offset : Nat) : Nat → (Nat → Nat) → (Nat → Nat)
  | 0, area => area
  | i + 1, area =>
    store16 (prg_loop fp offset i area) (256 + i)
      (read_byte fp (offset + 2 * i) ||| (read_byte fp (offset + 1 + 2 * i) <<< 8))

/-- The bytes behind the pointer `(uint8_t*)(&SMC_CS0_AREA16[256])`, by offset
(little-endian). -/
def prg_bytes (area : Nat → Nat) (k : Nat) : Nat :=
  if k % 2 = 0 then area (256 + k / 2) % 256 else area (256 + k / 2) / 256 % 256

/-- Function `process_ines(fp)` (lines 29-79). -/
def process_ines (fp : Nat → Nat) (b : Board) : Board :=
  let prg_rom_size := read_byte fp 4
  let flags6 := read_byte fp 6
  let flags7 := read_byte fp 7
  let mapper := ((flags7 &&& 0xF0) ||| (flags6 >>> 4)) % 256
  if mapper = 0 then
    let cpu := set_mapper_cpu b.cpu (some mem_read_callback.mapper0_read)
      (some mem_write_callback.mapper0_write)
    let r : (Nat → Nat) × Nat :=
      if flags6 &&& 4 ≠ 0 then (trainer_loop fp 256 b.smc_cs0_area16, 518)
      else (b.smc_cs0_area16, 16)
    let area := prg_loop fp r.2 (prg_rom_size * 0x2000) r.1
    { smc_cs0_area16 := area
      cpu := mapper0_set_pgr_rom cpu (prg_bytes area) (prg_rom_size * 0x4000) }
  else b

/-- Function `process_nes2(fp)` (lines 81-84): debug output only. -/
def process_nes2 (b : Board) : Board := b

/-- Function `process_old_ines(fp)` (lines 15-18): debug output only. -/
def process_old_ines (b : Board) : Board := b

/-- Function `load_cartridge_image(img)` (lines 92-119), on the opened file. -/
def load_cartridge_image (fp : Nat → Nat) (b : Board) : Board :=
  if read_byte fp 0 = 0x4E ∧ read_byte fp 1 = 0x45 ∧ read_byte fp 2 = 0x53 ∧
      read_byte fp 3 = 0x1a then
    if read_byte fp 7 &&& 0xC = 8 then process_nes2 b
    else if read_byte fp 7 &&& 0xC = 0 ∧ read_byte fp 12 = 0 ∧ read_byte fp 13 = 0 ∧
        read_byte fp 14 = 0 ∧ read_byte fp 15 = 0 then process_ines fp b
    else process_old_ines b
  else b

/-- The acceptance condition of the loader, in the words of the spec: magic
`N E S $1A`, format bits `byte7 & $0C` zero, bytes 12..15 zero, mapper number
`(byte7 & $F0) | (byte6 >> 4)` zero. -/
def ines_accepted (fp : Nat → Nat) : Prop :=
  read_byte fp 0 = 0x4E ∧ read_byte fp 1 = 0x45 ∧ read_byte fp 2 = 0x53 ∧
  read_byte fp 3 = 0x1A ∧ read_byte fp 7 &&& 0x0C = 0x00 ∧
  read_byte fp 12 = 0 ∧ read_byte fp 13 = 0 ∧ read_byte fp 14 = 0 ∧ read_byte fp 15 = 0 ∧
  (read_byte fp 7 &&& 0xF0) ||| (read_byte fp 6 >>> 4) = 0

instance (fp : Nat → Nat) : Decidable (ines_accepted fp) := by
  unfold ines_accepted
  infer_instance

/-- The variables before any call: zero-initialised statics, `hang` = 1, no
mapper handle set. -/
def boot_state : State :=
  { internal_ram := fun _ => 0
    cur_instr := fun _ => 0
    cur_instr_index := 0
    p6502_single_step := 0
    hang := 1
    cycle_number := 0
    reg_a := 0
    reg_x := 0
    reg_y := 0
    pc := 0
    reg_s := 0
    reg_p := 0
    mapper_cpur := none
    mapper_cpuw := none
    mapper_ppur := none
    mapper_ppuw := none
    mapper0_prg_rom := fun _ => 0
    mapper0_prg_rom_mask := 0
    bus := []
    fetches := [] }

/-- The board before any cartridge is loaded. -/
def blank_board : Board := { smc_cs0_area16 := fun _ => 0, cpu := boot_state }

/-- An iNES image: header `4E 45 53 1A`, PRG size `prg` (byte 4), flags6 `f6`
(byte 6), every other header byte 0; file byte 16 is `$A9`, byte 518 is `$AA`,
byte 528 is `$BB`, the rest 0. -/
def ines_image (prg f6 : Nat) (i : Nat) : Nat :=
  if i = 0 then 0x4E else if i = 1 then 0x45 else if i = 2 then 0x53 else if i = 3 then 0x1A
  else if i = 4 then prg else if i = 6 then f6
  else if i = 16 then 0xA9 else if i = 518 then 0xAA else if i = 528 then 0xBB else 0


/-! ## Vocabulary of the instruction-level claims C31..C36 -/

/-- The result of a logic or load operation of the ALU group on accumulator `a`
and operand `m`, in the words of the spec: ORA (`op & 0xE0` = `0x00`) gives
A | M, AND (`0x20`) gives A & M, EOR (`0x40`) gives A ^ M, LDA gives M. -/
def logic_result (op a m : Nat) : Nat :=
  if op &&& 0xE0 = 0x00 then a ||| m
  else if op &&& 0xE0 = 0x20 then a &&& m
  else if op &&& 0xE0 = 0x40 then a ^^^ m
  else m

/-- The outcome of a logic or load operation with result `r`, from state `s` to
state `t`: A = r, N = bit 7 of r, Z iff r = 0, and C, V, I, D, X, Y, S and
memory unchanged. -/
def logic_outcome (s t : State) (r : Nat) : Prop :=
  t.reg_a = r ∧ (t.reg_p &&& 0x80 ≠ 0 ↔ r &&& 0x80 ≠ 0) ∧ (t.reg_p &&& 0x02 ≠ 0 ↔ r = 0) ∧
  t.reg_p &&& 0x01 = s.reg_p &&& 0x01 ∧ t.reg_p &&& 0x40 = s.reg_p &&& 0x40 ∧
  t.reg_p &&& 0x04 = s.reg_p &&& 0x04 ∧ t.reg_p &&& 0x08 = s.reg_p &&& 0x08 ∧
  t.reg_x = s.reg_x ∧ t.reg_y = s.reg_y ∧ t.reg_s = s.reg_s ∧
  t.internal_ram = s.internal_ram ∧ t.mapper0_prg_rom = s.mapper0_prg_rom

/-- A running machine at PC = `$0000` without a cartridge: `JSR $0234` at RAM
`$0000`, the opcode RTS at RAM `$0234`, A = `$42`, X = 1, Y = 2, S = `$FD`,
P = `$25`. -/
def jsr_machine : State :=
  ram_machine (fun i => if i = 0 then 0x20 else if i = 1 then 0x34 else if i = 2 then 0x02
    else if i = 0x234 then 0x60 else 0) 0x0000 0x42 0x01 0x02 0xFD 0x25

/-- The outcome of a store of A, from state `s` to state `t`: the bus log grew
by `trace`, and A, X, Y and the flags are unchanged. -/
def sta_outcome (s t : State) (trace : List Access) : Prop :=
  t.bus = s.bus ++ trace ∧ t.reg_a = s.reg_a ∧ t.reg_x = s.reg_x ∧ t.reg_y = s.reg_y ∧
  t.reg_p = s.reg_p

/-! ## Read-modify-write instructions (C34, C35)

The memory forms of ASL, LSR, ROL, ROR, INC and DEC are copies of six `case`
bodies that differ only in the kernel applied to the latch slot.  The six shapes
follow, with the kernel as the parameter `K`; each `op_XX` above is one of them
(`rmw_shape` lemmas below). -/

/-- Shape of the zero-page labels (`0xC6`, `0xE6`, `0x06`, `0x46`, `0x26`, `0x66`). -/
def rmw_zero_page (K : State → Nat → State) (s : State) : State :=
  if s.cur_instr_index = 1 then fetch_opcode s
  else if s.cur_instr_index = 2 then
    let r := read_memory s (s.cur_instr 1)
    inc_index (set_instr r.2 2 r.1)
  else if s.cur_instr_index = 3 then
    let s := K s 2
    let s := write_memory s (s.cur_instr 1) (s.cur_instr 2)
    inc_index s
  else set_index s 0

/-- Shape of the zero-page,X labels that read at index 2 (`0xD6`, `0xF6`, `0x36`,
`0x76`). -/
def rmw_zero_page_x (K : State → Nat → State) (s : State) : State :=
  if s.cur_instr_index = 1 then fetch_opcode s
  else if s.cur_instr_index = 2 then
    let r := read_memory s (0xFF &&& (s.reg_x + s.cur_instr 1))
    inc_index (set_instr r.2 2 r.1)
  else if s.cur_instr_index = 3 then inc_index s
  else if s.cur_instr_index = 4 then
    let s := K s 2
    let s := write_memory s (0xFF &&& (s.reg_x + s.cur_instr 1)) (s.cur_instr 2)
    inc_index s
  else set_index s 0

/-- Shape of the zero-page,X labels that read at index 3 (`0x16`, `0x56`). -/
def rmw_zero_page_x_late (K : State → Nat → State) (s : State) : State :=
  if s.cur_instr_index = 1 then fetch_opcode s
  else if s.cur_instr_index = 2 then inc_index s
  else if s.cur_instr_index = 3 then
    let r := read_memory s (0xFF &&& (s.reg_x + s.cur_instr 1))
    inc_index (set_instr r.2 2 r.1)
  else if s.cur_instr_index = 4 then
    let s := K s 2
    let s := write_memory s (0xFF &&& (s.reg_x + s.cur_instr 1)) (s.cur_instr 2)
    inc_index s
  else set_index s 0

/-- Shape of the absolute labels that form the address with `|` (`0xCE`, `0xEE`,
`0x0E`, `0x4E`, `0x6E`). -/
def rmw_absolute (K : State → Nat → State) (s : State) : State :=
  if s.cur_instr_index < 3 then fetch_opcode s
  else if s.cur_instr_index = 3 then
    let r := read_memory s (s.cur_instr 1 ||| (s.cur_instr 2 <<< 8))
    inc_index (set_instr r.2 3 r.1)
  else if s.cur_instr_index = 4 then
    let s := K s 3
    let s := write_memory s (s.cur_instr 1 ||| (s.cur_instr 2 <<< 8)) (s.cur_instr 3)
    inc_index s
  else set_index s 0

/-- Shape of the absolute label that forms the address with `+` (`0x2E`). -/
def rmw_absolute_plus (K : State → Nat → State) (s : State) : State :=
  if s.cur_instr_index < 3 then fetch_opcode s
  else if s.cur_instr_index = 3 then
    let r := read_memory s (s.cur_instr 1 + (s.cur_instr 2 <<< 8))
    inc_index (set_instr r.2 3 r.1)
  else if s.cur_instr_index = 4 then
    let s := K s 3
    let s := write_memory s (s.cur_instr 1 + (s.cur_instr 2 <<< 8)) (s.cur_instr 3)
    inc_index s
  else set_index s 0

/-- Shape of the absolute,X labels (`0xDE`, `0xFE`, `0x1E`, `0x5E`, `0x3E`, `0x7E`). -/
def rmw_absolute_x (K : State → Nat → State) (s : State) : State :=
  if s.cur_instr_index < 3 then fetch_opcode s
  else if s.cur_instr_index = 3 then
    let r := read_memory s (s.cur_instr 1 + (s.cur_instr 2 <<< 8) + s.reg_x)
    inc_index (set_instr r.2 3 r.1)
  else if s.cur_instr_index = 4 then inc_index s
  else if s.cur_instr_index = 5 then
    let s := K s 3
    let s := write_memory s (s.cur_instr 1 + (s.cur_instr 2 <<< 8) + s.reg_x) (s.cur_instr 3)
    inc_index s
  else set_index s 0

/-- A state holding the flags `p` and the byte `v` in every latch slot; the
kernels are evaluated on it to name their result and flags. -/
def probe (p v : Nat) : State :=
  { internal_ram := fun _ => 0
    cur_instr := fun _ => v
    cur_instr_index := 0
    p6502_single_step := 0
    hang := 0
    cycle_number := 0
    reg_a := 0
    reg_x := 0
    reg_y := 0
    pc := 0
    reg_s := 0
    reg_p := p
    mapper_cpur := none
    mapper_cpuw := none
    mapper_ppur := none
    mapper_ppuw := none
    mapper0_prg_rom := fun _ => 0
    mapper0_prg_rom_mask := 0
    bus := []
    fetches := [] }

/-- The byte a kernel `K` leaves in the slot it works on, from flags `p` and
byte `v`. -/
def kernel_value (K : State → Nat → State) (p v : Nat) : Nat := (K (probe p v) 0).cur_instr 0

/-- The flags a kernel `K` leaves, from flags `p` and byte `v`. -/
def kernel_flags (K : State → Nat → State) (p v : Nat) : Nat := (K (probe p v) 0).reg_p

/-- A latch kernel: it changes only the flags and the slot it works on, and both
depend only on the old flags and the old byte of the slot. -/
def rmw_kernel (K : State → Nat → State) : Prop :=
  ∀ (t : State) (k : Nat),
    (K t k).internal_ram = t.internal_ram ∧ (K t k).cur_instr_index = t.cur_instr_index ∧
    (K t k).p6502_single_step = t.p6502_single_step ∧ (K t k).hang = t.hang ∧
    (K t k).cycle_number = t.cycle_number ∧ (K t k).reg_a = t.reg_a ∧
    (K t k).reg_x = t.reg_x ∧ (K t k).reg_y = t.reg_y ∧ (K t k).pc = t.pc ∧
    (K t k).reg_s = t.reg_s ∧ (K t k).mapper_cpur = t.mapper_cpur ∧
    (K t k).mapper0_prg_rom = t.mapper0_prg_rom ∧
    (K t k).mapper0_prg_rom_mask = t.mapper0_prg_rom_mask ∧ (K t k).bus = t.bus ∧
    (∀ j, j ≠ k → (K t k).cur_instr j = t.cur_instr j) ∧
    (K t k).cur_instr k = kernel_value K t.reg_p (t.cur_instr k) ∧
    (K t k).reg_p = kernel_flags K t.reg_p (t.cur_instr k)

/-- The result of a shift or rotate of the byte `v` with carry-in `c`, in the
words of the spec: ASL (`op & 0xE0` = `0x00`) gives (v << 1) & 0xFF, ROL (`0x20`)
((v << 1) | c) & 0xFF, LSR (`0x40`) v >> 1, ROR (`0x60`) (v >> 1) | (c << 7). -/
def shift_result (op v c : Nat) : Nat :=
  if op &&& 0xE0 = 0x00 then (v <<< 1) &&& 0xFF
  else if op &&& 0xE0 = 0x20 then ((v <<< 1) ||| c) &&& 0xFF
  else if op &&& 0xE0 = 0x40 then v >>> 1
  else (v >>> 1) ||| (c <<< 7)

/-- The outcome of a shift or rotate of the byte `v` with result `r`, from state
`s` to state `t`: r as the spec gives it from v and the carry-in, carry-out bit 7
of v for ASL and ROL and bit 0 of v for LSR and ROR, N = bit 7 of r (0 for LSR),
Z iff r = 0, V unchanged. -/
def shift_outcome (op : Nat) (s t : State) (v r : Nat) : Prop :=
  r = shift_result op v (s.reg_p &&& 1) ∧
  (t.reg_p &&& 0x01 ≠ 0 ↔ (if op &&& 0x40 = 0 then v &&& 0x80 ≠ 0 else v &&& 0x01 ≠ 0)) ∧
  (t.reg_p &&& 0x80 ≠ 0 ↔ r &&& 0x80 ≠ 0) ∧ (op &&& 0xE0 = 0x40 → t.reg_p &&& 0x80 = 0) ∧
  (t.reg_p &&& 0x02 ≠ 0 ↔ r = 0) ∧ t.reg_p &&& 0x40 = s.reg_p &&& 0x40

/-- The result of INC (`op & 0x20` set: `0xE6`, `0xF6`, `0xEE`, `0xFE`) or DEC
(`0xC6`, `0xD6`, `0xCE`, `0xDE`) on the byte `v`: (v + 1) mod 256 or
(v - 1) mod 256. -/
def incdec_result (op v : Nat) : Nat :=
  if op &&& 0x20 ≠ 0 then (v + 1) % 256 else (v + 255) % 256

/-- The outcome of a memory INC or DEC with result `r`, from state `s` to state
`t`: N = bit 7 of r, Z iff r = 0, and C, V, A, X and Y unchanged. -/
def incdec_outcome (s t : State) (r : Nat) : Prop :=
  (t.reg_p &&& 0x80 ≠ 0 ↔ r &&& 0x80 ≠ 0) ∧ (t.reg_p &&& 0x02 ≠ 0 ↔ r = 0) ∧
  t.reg_p &&& 0x01 = s.reg_p &&& 0x01 ∧ t.reg_p &&& 0x40 = s.reg_p &&& 0x40 ∧
  t.reg_a = s.reg_a ∧ t.reg_x = s.reg_x ∧ t.reg_y = s.reg_y

/-- A memory shift or rotate from `s` to `t` on the byte at address `e`: the
outcome of the spec, the bus trace `fetches`, one read of `e` and one write of the
result to `e`, and A, X, Y unchanged. -/
def rmw_shift (op : Nat) (s t : State) (fetches : List Access) (e : Nat) : Prop :=
  shift_outcome op s t (rd s e) (shift_result op (rd s e) (s.reg_p &&& 1)) ∧
  t.bus = s.bus ++ (fetches ++ [Access.read e,
    Access.write e (shift_result op (rd s e) (s.reg_p &&& 1))]) ∧
  t.reg_a = s.reg_a ∧ t.reg_x = s.reg_x ∧ t.reg_y = s.reg_y

/-- A memory INC or DEC from `s` to `t` on the byte at address `e`: the outcome
of the spec, the bus trace `fetches`, one read of `e` and one write of the result
to `e`. -/
def rmw_incdec (op : Nat) (s t : State) (fetches : List Access) (e : Nat) : Prop :=
  incdec_outcome s t (incdec_result op (rd s e)) ∧
  t.bus = s.bus ++ (fetches ++ [Access.read e, Access.write e (incdec_result op (rd s e))])
/-! ## The micro-step index (C23, C28, C37, C40) -/

/-- The largest micro-step index with which `decode_opcode` is entered while the
opcode `op` is in the latch: by addressing mode in the ALU group, by opcode in the
one-off group, and 1 for an opcode without a `case` label (the machine halts on
its first decode). -/
def last_index (op : Nat) : Nat :=
  if op &&& 0x3 = 0x1 then
    if op &&& 0x1D = 0x09 then 1
    else if op &&& 0x1D = 0x05 then 2
    else if op &&& 0x1D = 0x15 ∨ op &&& 0x1D = 0x0D then 3
    else if op &&& 0x1D = 0x1D ∨ op &&& 0x1D = 0x19 then 4
    else 5
  else if op ∈ [0x08, 0x48, 0x4C, 0x84, 0xA4] then 2
  else if op ∈ [0xE4, 0xC4, 0x68, 0x28, 0x24, 0x86, 0x96, 0x94, 0x8C, 0xB4, 0xA6, 0xB6,
      0x50, 0x70, 0x90, 0x10, 0x30, 0xB0, 0xD0, 0xF0] then 3
  else if op ∈ [0xEC, 0xCC, 0xC6, 0xE6, 0x6C, 0x06, 0x46, 0x26, 0x66, 0x2C, 0x8E, 0xAE,
      0xBE, 0xAC, 0xBC] then 4
  else if op ∈ [0xD6, 0xCE, 0xF6, 0xEE, 0x40, 0x60, 0x16, 0x0E, 0x56, 0x4E, 0x36, 0x2E,
      0x76, 0x6E] then 5
  else if op ∈ [0xDE, 0xFE, 0x20, 0x1E, 0x5E, 0x3E, 0x7E] then 6
  else 1

/-- The opcode byte `op` is decoded by code of its own: it belongs to the ALU
group (`(op & 0x3) == 0x1`) or is a `case` label of the one-off switch.  Every
other byte reaches the `default:` label. -/
def has_case (op : Nat) : Prop := op &&& 0x3 = 0x1 ∨ op ∈ one_off_opcodes

/-- The state is inside an instruction, at an index its opcode reaches. -/
def valid_index (s : State) : Prop :=
  1 ≤ s.cur_instr_index ∧ s.cur_instr_index ≤ last_index (s.cur_instr 0)

/-- From `s` to `t` the function `fetch_opcode` is not called, or it is called
once, at the index of `s`, and that index is 0, 1 or 2. -/
def fetch_ok (s t : State) : Prop :=
  t.fetches = s.fetches ∨
  (t.fetches = s.fetches ++ [s.cur_instr_index] ∧ s.cur_instr_index ≤ 2)

/-- The decode steps of the ALU group that fetch an operand byte and access the
operand in the same call, by the opcode `op` in the latch and the micro-step
index `idx`: index 1 of a zero-page or zero-page,X instruction other than STA
(the operand fetch and the operand read), and index 1 of the immediate mode with
the STA operation, opcode `0x89` (the operand fetch and
the write). -/
def coalesces_at (op idx : Nat) : Prop :=
  idx = 1 ∧ op &&& 0x3 = 0x1 ∧
  (((op &&& 0x1D = 0x05 ∨ op &&& 0x1D = 0x15) ∧ op &&& 0xE0 ≠ 0x80) ∨
    (op &&& 0x1D = 0x09 ∧ op &&& 0xE0 = 0x80))

instance (op idx : Nat) : Decidable (coalesces_at op idx) := by
  unfold coalesces_at
  infer_instance

/-- The running state `s` is at one of the decode steps of `coalesces_at`. -/
def coalesces (s : State) : Prop :=
  s.hang = 0 ∧ coalesces_at (s.cur_instr 0) s.cur_instr_index

/-- One decode step from `s` to `t` of an instruction of the one-off group whose
last index is `K`: the opcode in the latch and `hang` are kept, the index
returns to 0 or grows, staying at most `K`, `fetch_opcode` is called at most
once and then at index 0, 1 or 2, and at most one bus access is issued. -/
def step_ok (K : Nat) (s t : State) : Prop :=
  t.cur_instr 0 = s.cur_instr 0 ∧ t.hang = s.hang ∧
  (t.cur_instr_index = 0 ∨ (s.cur_instr_index < t.cur_instr_index ∧ t.cur_instr_index ≤ K)) ∧
  fetch_ok s t ∧ t.bus.length ≤ s.bus.length + 1

/-- One cycle of an ALU addressing mode whose last index is `K`, from `s` to the
pair `r` of the state and the local `ready`; `c` says whether this cycle is one
that issues two accesses.  The opcode in the latch and `hang` are kept; either
`ready` is 1 (the operation runs and the index returns to 0), or the index
returns to 0 or grows, staying at most `K`; `fetch_opcode` is called at most
once and then at index 0, 1 or 2; the accesses of the mode, with the write of
STA when `ready` is 1, are two if `c` and at most one otherwise. -/
def mode_step (K : Nat) (c : Prop) (s : State) (r : State × Nat) : Prop :=
  r.1.cur_instr 0 = s.cur_instr 0 ∧ r.1.hang = s.hang ∧
  (r.2 = 1 ∨ r.1.cur_instr_index = 0 ∨
    (s.cur_instr_index < r.1.cur_instr_index ∧ r.1.cur_instr_index ≤ K)) ∧
  fetch_ok s r.1 ∧
  (c → r.1.bus.length + (if r.2 = 1 ∧ s.cur_instr 0 &&& 0xE0 = 0x80 then 1 else 0) =
    s.bus.length + 2) ∧
  (¬ c → r.1.bus.length + (if r.2 = 1 ∧ s.cur_instr 0 &&& 0xE0 = 0x80 then 1 else 0) ≤
    s.bus.length + 1)

/-- One step from `s` to `t` inside an instruction.  The opcode in the latch is
kept; the index returns to 0, or `hang` is kept and the index grows within the
bound of the opcode, or the opcode has no code of its own and the step halts the
machine and keeps the index; `fetch_opcode` is called at most once and then at
index 0, 1 or 2; two bus accesses are issued at the steps of `coalesces_at` and
at most one at every other step. -/
def index_step (s t : State) : Prop :=
  t.cur_instr 0 = s.cur_instr 0 ∧
  (t.cur_instr_index = 0 ∨
    (t.hang = s.hang ∧ s.cur_instr_index < t.cur_instr_index ∧
      t.cur_instr_index ≤ last_index (s.cur_instr 0)) ∨
    (t.hang = 1 ∧ t.cur_instr_index = s.cur_instr_index ∧ ¬ has_case (s.cur_instr 0))) ∧
  fetch_ok s t ∧
  (coalesces_at (s.cur_instr 0) s.cur_instr_index → t.bus.length = s.bus.length + 2) ∧
  (¬ coalesces_at (s.cur_instr 0) s.cur_instr_index → t.bus.length ≤ s.bus.length + 1)

/-- From `s` to `t` only the control flags `hang` and `p6502_single_step` may
differ: the registers, PC, RAM, the latch and its index, the cycle counter, the
mapper variables and the two logs are the same. -/
def only_control_differs (s t : State) : Prop :=
  t.internal_ram = s.internal_ram ∧ t.cur_instr = s.cur_instr ∧
  t.cur_instr_index = s.cur_instr_index ∧ t.cycle_number = s.cycle_number ∧
  t.reg_a = s.reg_a ∧ t.reg_x = s.reg_x ∧ t.reg_y = s.reg_y ∧ t.pc = s.pc ∧
  t.reg_s = s.reg_s ∧ t.reg_p = s.reg_p ∧
  t.mapper_cpur = s.mapper_cpur ∧ t.mapper_cpuw = s.mapper_cpuw ∧
  t.mapper_ppur = s.mapper_ppur ∧ t.mapper_ppuw = s.mapper_ppuw ∧
  t.mapper0_prg_rom = s.mapper0_prg_rom ∧ t.mapper0_prg_rom_mask = s.mapper0_prg_rom_mask ∧
  t.bus = s.bus ∧ t.fetches = s.fetches

/-- A running machine at PC = `$0000` without a cartridge: `STA $0200` at RAM
`$0000` and the bytes `$89 $10` behind it at `$0003`, A = `$42`, S = `$FD`,
P = `$24`. -/
def stale_machine : State :=
  ram_machine (fun i => if i = 0 then 0x8D else if i = 1 then 0x00 else if i = 2 then 0x02
    else if i = 3 then 0x89 else if i = 4 then 0x10 else 0) 0x0000 0x42 0x00 0x00 0xFD 0x24
/-! ## Bit-level lemmas -/

theorem and_7FF (a : Nat) : a &&& 0x7FF = a % 2048 := by
  have h : (0x7FF : Nat) = 2 ^ 11 - 1 := by norm_num
  rw [h, Nat.and_pow_two_sub_one_eq_mod]

theorem and_3FFF (a : Nat) : a &&& 0x3FFF = a % 16384 := by
  have h : (0x3FFF : Nat) = 2 ^ 14 - 1 := by norm_num
  rw [h, Nat.and_pow_two_sub_one_eq_mod]

theorem and_7FFF (a : Nat) : a &&& 0x7FFF = a % 32768 := by
  have h : (0x7FFF : Nat) = 2 ^ 15 - 1 := by norm_num
  rw [h, Nat.and_pow_two_sub_one_eq_mod]

theorem word_of_bytes (lo hi : Nat) (hlo : lo < 256) (hhi : hi < 256) :
    ((hi <<< 8) ||| lo) % 65536 = lo ||| (hi <<< 8) := by
  have h1 : hi <<< 8 < 2 ^ 16 := by
    rw [Nat.shiftLeft_eq]; omega
  have h2 : lo < 2 ^ 16 := by omega
  have h3 : (hi <<< 8) ||| lo < 2 ^ 16 := Nat.or_lt_two_pow h1 h2
  rw [Nat.mod_eq_of_lt (by simpa using h3), Nat.or_comm]

/-! ## Frame lemmas for the bus decoder -/

theorem read_memory_val_lt (s : State) (a : Nat) : (read_memory s a).1 < 256 := by
  unfold read_memory
  exact Nat.mod_lt _ (by norm_num)

theorem read_memory_state (s : State) (a : Nat) :
    (read_memory s a).2 = { s with bus := s.bus ++ [Access.read (a % 65536)] } := rfl

/-! ## C1-C6: bus decoder, mapper 0, power-on -/

/-- C1: `read_memory a` returns `internal_ram[a & 0x7FF]` below `0x2000`, 0 in
`0x2000..0x401F`, and from `0x4020` up the result of the installed CPU read
callback (0 when none is installed); reads below `0x2000` agree with the read
at the mirrored address `a & 0x7FF`; no program variable changes (the call is
only appended to the access log). -/
theorem read_memory_routing (s : State) (a : Nat) (ha : a < 65536) (hs : s.typed) :
    (a < 0x2000 → (read_memory s a).1 = s.internal_ram (a &&& 0x7FF)) ∧
    (0x2000 ≤ a → a < 0x4020 → (read_memory s a).1 = 0) ∧
    (0x4020 ≤ a → (read_memory s a).1 =
      match s.mapper_cpur with
      | some cb => call_read s cb a
      | none => 0) ∧
    (a < 0x2000 → (read_memory s a).1 = (read_memory s (a &&& 0x7FF)).1) ∧
    (read_memory s a).2 = { s with bus := s.bus ++ [Access.read a] } := by
  have hmod : a % 65536 = a := Nat.mod_eq_of_lt ha
  refine ⟨?_, ?_, ?_, ?_, ?_⟩
  · intro h
    simp only [read_memory, hmod, if_pos h]
    exact Nat.mod_eq_of_lt (hs.ram _)
  · intro h1 h2
    have n1 : ¬ a < 0x2000 := by omega
    simp only [read_memory, hmod, if_neg n1, ppu_read, apu_read]
    split_ifs <;> rfl
  · intro h
    have n1 : ¬ a < 0x2000 := by omega
    have n2 : ¬ a < 0x4000 := by omega
    have n3 : ¬ a < 0x4018 := by omega
    have n4 : ¬ a < 0x4020 := by omega
    simp only [read_memory, hmod, if_neg n1, if_neg n2, if_neg n3, if_neg n4, mapper_read]
    cases hcb : s.mapper_cpur with
    | none => rfl
    | some cb =>
      cases cb
      simp only [call_read, mapper0_read]
      exact Nat.mod_eq_of_lt (hs.prg _)
  · intro h
    have e : a &&& 0x7FF = a % 2048 := and_7FF a
    have h2 : (a &&& 0x7FF) % 65536 = a &&& 0x7FF := by rw [e]; omega
    have h3 : a &&& 0x7FF < 0x2000 := by rw [e]; omega
    have h4 : (a &&& 0x7FF) &&& 0x7FF = a &&& 0x7FF := by
      rw [and_7FF (a &&& 0x7FF), e]; omega
    simp only [read_memory, hmod, h2, if_pos h, if_pos h3, h4]
  · rw [read_memory_state, hmod]

theorem sample_state_typed : sample_state.typed := by
  constructor <;>
    first
      | (intro i; simp only [sample_state, sample_prg]; split_ifs <;> omega)
      | (simp [sample_state])

/-- Witness for C1 at the RAM mirror address `$0805` of `sample_state`. -/
theorem read_memory_routing_witness :
    (0x0805 < 65536 ∧ sample_state.typed) ∧
    (read_memory sample_state 0x0805).1 = sample_state.internal_ram (0x0805 &&& 0x7FF) ∧
    (read_memory sample_state 0x0805).1 = (read_memory sample_state (0x0805 &&& 0x7FF)).1 ∧
    (read_memory sample_state 0x0805).2 =
      { sample_state with bus := sample_state.bus ++ [Access.read 0x0805] } :=
  have h := read_memory_routing sample_state 0x0805 (by norm_num) sample_state_typed
  ⟨⟨by norm_num, sample_state_typed⟩, h.1 (by norm_num), h.2.2.2.1 (by norm_num), h.2.2.2.2⟩

/-- C2: a write below `0x2000` stores `v` at `internal_ram[a & 0x7FF]`, leaves
every other RAM cell unchanged, and is read back through every mirror of the
cell; a write at `0x2000` or above leaves the whole RAM unchanged; in both
cases the registers, PC, flags and the instruction latch are unchanged. -/
theorem write_memory_ram (s : State) (a v : Nat) (ha : a < 65536) (hv : v < 256) :
    (a < 0x2000 →
      (write_memory s a v).internal_ram (a &&& 0x7FF) = v ∧
      (∀ i, i ≠ a &&& 0x7FF → (write_memory s a v).internal_ram i = s.internal_ram i) ∧
      (∀ b, b < 0x2000 → b &&& 0x7FF = a &&& 0x7FF →
        (read_memory (write_memory s a v) b).1 = v)) ∧
    (0x2000 ≤ a → (write_memory s a v).internal_ram = s.internal_ram) ∧
    ((write_memory s a v).reg_a = s.reg_a ∧ (write_memory s a v).reg_x = s.reg_x ∧
      (write_memory s a v).reg_y = s.reg_y ∧ (write_memory s a v).reg_s = s.reg_s ∧
      (write_memory s a v).pc = s.pc ∧ (write_memory s a v).reg_p = s.reg_p ∧
      (write_memory s a v).cur_instr = s.cur_instr ∧
      (write_memory s a v).cur_instr_index = s.cur_instr_index) := by
  have hmod : a % 65536 = a := Nat.mod_eq_of_lt ha
  have hvm : v % 256 = v := Nat.mod_eq_of_lt hv
  refine ⟨?_, ?_, ?_⟩
  · intro h
    refine ⟨?_, ?_, ?_⟩
    · simp [write_memory, hmod, hvm, h, store]
    · intro i hi
      simp [write_memory, hmod, hvm, h, store, hi]
    · intro b hb hba
      have hb' : b % 65536 = b := Nat.mod_eq_of_lt (by omega)
      simp [read_memory, write_memory, hmod, hvm, h, store, hb', hb, hba]
  · intro h
    have n1 : ¬ a < 0x2000 := by omega
    simp [write_memory, hmod, n1]
  · simp only [write_memory]
    split_ifs <;> simp

/-- Witness for C2: writing `$5A` to the mirror address `$1803`. -/
theorem write_memory_ram_witness :
    (0x1803 < 65536 ∧ 0x5A < 256) ∧
    (write_memory sample_state 0x1803 0x5A).internal_ram (0x1803 &&& 0x7FF) = 0x5A ∧
    (read_memory (write_memory sample_state 0x1803 0x5A) 0x0003).1 = 0x5A ∧
    (write_memory sample_state 0x1803 0x5A).reg_p = sample_state.reg_p :=
  have h := write_memory_ram sample_state 0x1803 0x5A (by norm_num) (by norm_num)
  ⟨⟨by norm_num, by norm_num⟩, (h.1 (by norm_num)).1,
    (h.1 (by norm_num)).2.2 0x0003 (by norm_num) (by decide), h.2.2.2.2.2.2.2.1⟩

/-- C3 (evaluation at the failing input): with mapper 0 installed on both the
read and the write side, `write_memory 0x8000 0x55` leaves the PRG backing
untouched and the following `read_memory 0x8000` still returns the old byte
`0xA9`; the installed write handler `mapper0_write` would have stored `0x55`. -/
theorem write_memory_skips_mapper :
    sample_state.mapper_cpuw = some mem_write_callback.mapper0_write ∧
    (write_memory sample_state 0x8000 0x55).mapper0_prg_rom 0 = 0xA9 ∧
    (read_memory (write_memory sample_state 0x8000 0x55) 0x8000).1 = 0xA9 ∧
    (read_memory (mapper0_write sample_state 0x8000 0x55) 0x8000).1 = 0x55 := by
  refine ⟨rfl, ?_, ?_, ?_⟩ <;> decide

/-- C4: after `mapper0_set_pgr_rom data size` with `size` 16384 or 32768,
`mapper0_read a = data[a & (size - 1)]` for every 16-bit `a`; a 16 KiB image is
mirrored from `0x8000..0xBFFF` to `0xC000..0xFFFF` (so the reset vector bytes
are `data[0x3FFC]`, `data[0x3FFD]`); a 32 KiB image is read linearly from
`0x8000`. -/
theorem mapper0_read_mask (s : State) (data : Nat → Nat) :
    (∀ size a, (size = 16384 ∨ size = 32768) → a < 65536 →
      mapper0_read (mapper0_set_pgr_rom s data size) a = data (a &&& (size - 1))) ∧
    (∀ a, 0x8000 ≤ a → a ≤ 0xBFFF →
      mapper0_read (mapper0_set_pgr_rom s data 16384) a =
        mapper0_read (mapper0_set_pgr_rom s data 16384) (a + 0x4000)) ∧
    (mapper0_read (mapper0_set_pgr_rom s data 16384) 0xFFFC = data 0x3FFC ∧
      mapper0_read (mapper0_set_pgr_rom s data 16384) 0xFFFD = data 0x3FFD) ∧
    (∀ k, k < 32768 →
      mapper0_read (mapper0_set_pgr_rom s data 32768) (0x8000 + k) = data k) := by
  have m14 : (16384 % 0x100000000 + 0x100000000 - 1) % 0x100000000 = 0x3FFF := by norm_num
  have m15 : (32768 % 0x100000000 + 0x100000000 - 1) % 0x100000000 = 0x7FFF := by norm_num
  refine ⟨?_, ?_, ⟨?_, ?_⟩, ?_⟩
  · intro size a hsz ha
    have hmod : a % 65536 = a := Nat.mod_eq_of_lt ha
    rcases hsz with rfl | rfl
    · simp only [mapper0_read, mapper0_set_pgr_rom, hmod, m14]
    · simp only [mapper0_read, mapper0_set_pgr_rom, hmod, m15]
  · intro a h1 h2
    have e1 : a % 65536 = a := Nat.mod_eq_of_lt (by omega)
    have e2 : (a + 0x4000) % 65536 = a + 0x4000 := Nat.mod_eq_of_lt (by omega)
    simp only [mapper0_read, mapper0_set_pgr_rom, e1, e2, m14]
    rw [and_3FFF, and_3FFF]
    exact congrArg data (by omega)
  · simp only [mapper0_read, mapper0_set_pgr_rom, m14]
    exact congrArg data (by decide)
  · simp only [mapper0_read, mapper0_set_pgr_rom, m14]
    exact congrArg data (by decide)
  · intro k hk
    have e1 : (0x8000 + k) % 65536 = 0x8000 + k := Nat.mod_eq_of_lt (by omega)
    simp only [mapper0_read, mapper0_set_pgr_rom, e1, m15]
    rw [and_7FFF]
    exact congrArg data (by omega)

/-- Witness for C4: a 16 KiB image read at `$C001` and a 32 KiB image read at
`$8001`. -/
theorem mapper0_read_mask_witness :
    ((16384 = 16384 ∨ 16384 = 32768) ∧ 0xC001 < 65536 ∧ 0x8000 ≤ 0x8001 ∧ 0x8001 ≤ 0xBFFF ∧
      1 < 32768) ∧
    mapper0_read (mapper0_set_pgr_rom sample_state sample_prg 16384) 0xC001 =
      sample_prg (0xC001 &&& (16384 - 1)) ∧
    mapper0_read (mapper0_set_pgr_rom sample_state sample_prg 16384) 0x8001 =
      mapper0_read (mapper0_set_pgr_rom sample_state sample_prg 16384) (0x8001 + 0x4000) ∧
    mapper0_read (mapper0_set_pgr_rom sample_state sample_prg 32768) (0x8000 + 1) =
      sample_prg 1 :=
  have h := mapper0_read_mask sample_state sample_prg
  ⟨⟨Or.inl rfl, by norm_num, by norm_num, by norm_num, by norm_num⟩,
    h.1 16384 0xC001 (Or.inl rfl) (by norm_num),
    h.2.1 0x8001 (by norm_num) (by norm_num),
    h.2.2.2 1 (by norm_num)⟩
/-- C5: `p6502_power_on` leaves A = X = Y = 0, S = 0xFD, P = 0x24, `hang` = 0,
micro-step index 0, and PC = lo | (hi << 8) for the bytes lo, hi that
`read_memory` returns at `0xFFFC`, `0xFFFD`; with mapper 0 over a 16 KiB PRG
whose bytes `0x3FFC`/`0x3FFD` are `0x00`/`0xC0` this is PC = `0xC000`. -/
theorem power_on_state (s : State) :
    ((p6502_power_on s).reg_a = 0 ∧ (p6502_power_on s).reg_x = 0 ∧
      (p6502_power_on s).reg_y = 0 ∧ (p6502_power_on s).reg_s = 0xFD ∧
      (p6502_power_on s).reg_p = 0x24 ∧ (p6502_power_on s).hang = 0 ∧
      (p6502_power_on s).cur_instr_index = 0 ∧
      (p6502_power_on s).pc =
        (read_memory s 0xFFFC).1 ||| ((read_memory s 0xFFFD).1 <<< 8)) ∧
    (∀ data : Nat → Nat, s.mapper_cpur = some mem_read_callback.mapper0_read →
      data 0x3FFC = 0x00 → data 0x3FFD = 0xC0 →
      (p6502_power_on (mapper0_set_pgr_rom s data 16384)).pc = 0xC000) := by
  have hpc : ∀ u : State, (p6502_power_on u).pc =
      (read_memory u 0xFFFC).1 ||| ((read_memory u 0xFFFD).1 <<< 8) := by
    intro u
    have e := word_of_bytes (read_memory u 0xFFFC).1 (read_memory u 0xFFFD).1
      (read_memory_val_lt _ _) (read_memory_val_lt _ _)
    rw [← e]
    rfl
  refine ⟨⟨rfl, rfl, rfl, rfl, rfl, rfl, rfl, hpc s⟩, ?_⟩
  intro data hm h0 h1
  rw [hpc]
  have m14 : (16384 % 0x100000000 + 0x100000000 - 1) % 0x100000000 = 0x3FFF := by norm_num
  have a0 : (0xFFFC % 65536) &&& 0x3FFF = 0x3FFC := by decide
  have a1 : (0xFFFD % 65536) &&& 0x3FFF = 0x3FFD := by decide
  have r0 : (read_memory (mapper0_set_pgr_rom s data 16384) 0xFFFC).1 = 0x00 := by
    simp only [read_memory, mapper_read, mapper0_set_pgr_rom, hm, call_read, mapper0_read, m14]
    norm_num
    rw [a0, h0]
  have r1 : (read_memory (mapper0_set_pgr_rom s data 16384) 0xFFFD).1 = 0xC0 := by
    simp only [read_memory, mapper_read, mapper0_set_pgr_rom, hm, call_read, mapper0_read, m14]
    norm_num
    rw [a1, h1]
  rw [r0, r1]
  decide

/-- Witness for C5: power-on of `sample_state` with `sample_prg` installed. -/
theorem power_on_state_witness :
    (sample_state.mapper_cpur = some mem_read_callback.mapper0_read ∧
      sample_prg 0x3FFC = 0x00 ∧ sample_prg 0x3FFD = 0xC0) ∧
    (p6502_power_on (mapper0_set_pgr_rom sample_state sample_prg 16384)).pc = 0xC000 :=
  ⟨⟨rfl, by decide, by decide⟩,
    (power_on_state sample_state).2 sample_prg rfl (by decide) (by decide)⟩

/-- C6 (as stated, refuted): from `sample_state` the reads issued by
`p6502_power_on` are seven, not six. -/
theorem power_on_reads_not_six :
    ¬ ((p6502_power_on sample_state).bus.drop sample_state.bus.length).length = 6 := by
  decide

/-- C6 (amended): `p6502_power_on` issues exactly seven reads and no write:
dummy reads at PC and PC + 1, dummy reads at `0x0100 + S`, `0x00FF + S`,
`0x00FE + S` with S = 0xFD, then the two reset-vector reads `0xFFFD`, `0xFFFC`
(in the order of the source expression). -/
theorem power_on_reads (s : State) :
    (p6502_power_on s).bus =
      s.bus ++ [Access.read (s.pc % 65536), Access.read ((s.pc + 1) % 65536),
        Access.read (0x100 + 0xFD), Access.read (0xFF + 0xFD), Access.read (0xFE + 0xFD),
        Access.read 0xFFFD, Access.read 0xFFFC] ∧
    ((p6502_power_on s).bus.drop s.bus.length).length = 7 := by
  have h : (p6502_power_on s).bus =
      s.bus ++ [Access.read (s.pc % 65536), Access.read ((s.pc + 1) % 65536),
        Access.read (0x100 + 0xFD), Access.read (0xFF + 0xFD), Access.read (0xFE + 0xFD),
        Access.read 0xFFFD, Access.read 0xFFFC] := by
    simp [p6502_power_on, p6502_execute_vector, RESET_VECTOR, read_memory_state]
  refine ⟨h, ?_⟩
  rw [h]
  simp

/-! ## Bit tests -/

theorem testBit_bnot (f i : Nat) (hi : i < 32) : (bnot f).testBit i = !f.testBit i := by
  unfold bnot
  have h : (0xFFFFFFFF : Nat) = 2 ^ 32 - 1 := by norm_num
  rw [Nat.testBit_xor, h, Nat.testBit_two_pow_sub_one]
  simp [hi]

theorem testBit_mod256 (x i : Nat) : (x % 256).testBit i = (decide (i < 8) && x.testBit i) := by
  have h : (256 : Nat) = 2 ^ 8 := by norm_num
  rw [h, Nat.testBit_mod_two_pow]

theorem and_pow_ne_zero (x k : Nat) : x &&& 2 ^ k ≠ 0 ↔ x.testBit k = true := by
  rw [Nat.and_two_pow]
  cases x.testBit k <;> simp

theorem and_01 (x : Nat) : x &&& 0x01 ≠ 0 ↔ x.testBit 0 = true := and_pow_ne_zero x 0
theorem and_02 (x : Nat) : x &&& 0x02 ≠ 0 ↔ x.testBit 1 = true := and_pow_ne_zero x 1
theorem and_40 (x : Nat) : x &&& 0x40 ≠ 0 ↔ x.testBit 6 = true := and_pow_ne_zero x 6
theorem and_80 (x : Nat) : x &&& 0x80 ≠ 0 ↔ x.testBit 7 = true := and_pow_ne_zero x 7

theorem testBit7 (x : Nat) : x.testBit 7 = decide (128 ≤ x % 256) := by
  rw [Nat.testBit_to_div_mod]
  congr 1
  apply propext
  constructor <;> intro h <;> omega

theorem testBit0 (x : Nat) : x.testBit 0 = decide (x % 2 = 1) := by
  rw [Nat.testBit_to_div_mod]
  simp

/-- Bit `i` of the result of `set_flag` on the single-bit flag `2 ^ k`. -/
theorem testBit_set_flag (p k : Nat) (c : Bool) (i : Nat) (hk : k < 8) :
    (set_flag p (2 ^ k) c).testBit i =
      (decide (i < 8) && (if i = k then c else p.testBit i)) := by
  unfold set_flag
  rw [testBit_mod256]
  by_cases hi : i < 8
  · rw [Nat.testBit_or, Nat.testBit_and, testBit_bnot _ _ (by omega)]
    by_cases hik : i = k
    · subst hik
      cases c <;> simp [Nat.testBit_two_pow_self]
    · have hki : ¬ k = i := fun h => hik h.symm
      cases c <;> simp [Nat.testBit_two_pow, hik, hki]
  · simp [hi]

theorem testBit_set_flag_C (p : Nat) (c : Bool) (i : Nat) :
    (set_flag p STATUS_CARRY c).testBit i =
      (decide (i < 8) && (if i = 0 then c else p.testBit i)) :=
  testBit_set_flag p 0 c i (by norm_num)

theorem testBit_set_flag_Z (p : Nat) (c : Bool) (i : Nat) :
    (set_flag p STATUS_ZERO c).testBit i =
      (decide (i < 8) && (if i = 1 then c else p.testBit i)) :=
  testBit_set_flag p 1 c i (by norm_num)

theorem testBit_set_flag_V (p : Nat) (c : Bool) (i : Nat) :
    (set_flag p STATUS_OVERFLOW c).testBit i =
      (decide (i < 8) && (if i = 6 then c else p.testBit i)) :=
  testBit_set_flag p 6 c i (by norm_num)

theorem testBit_set_flag_N (p : Nat) (c : Bool) (i : Nat) :
    (set_flag p STATUS_NEGATIVE c).testBit i =
      (decide (i < 8) && (if i = 7 then c else p.testBit i)) :=
  testBit_set_flag p 7 c i (by norm_num)

theorem carry_in_eq (p : Nat) : (if p &&& STATUS_CARRY ≠ 0 then 1 else 0) = p &&& 1 := by
  have h : p &&& 1 = p % 2 := Nat.and_one_is_mod p
  simp only [STATUS_CARRY, h]
  split_ifs <;> omega

theorem and_FF (x : Nat) : x &&& 0xFF = x % 256 := by
  have h : (0xFF : Nat) = 2 ^ 8 - 1 := by norm_num
  rw [h, Nat.and_pow_two_sub_one_eq_mod]

set_option maxRecDepth 8000 in
theorem and_FF00_ne_zero : ∀ x < 512, (x &&& 0xFF00 ≠ 0 ↔ 255 < x) := by
  decide


/-- The four flag updates of `do_adc`, bit by bit. -/
theorem do_adc_reg_p (s : State) (m : Nat) :
    (do_adc s m).reg_p =
      set_flag (set_flag (set_flag (set_flag s.reg_p STATUS_CARRY
        (decide ((s.reg_a + m % 256 + (s.reg_p &&& 1)) % 65536 &&& 0xFF00 ≠ 0)))
        STATUS_OVERFLOW
        (decide ((((s.reg_a &&& m % 256 &&& bnot ((s.reg_a + m % 256 + (s.reg_p &&& 1)) % 65536)) |||
          (bnot s.reg_a &&& bnot (m % 256) &&& (s.reg_a + m % 256 + (s.reg_p &&& 1)) % 65536))
            &&& 0x80) % 256 ≠ 0)))
        STATUS_NEGATIVE
        (decide (((s.reg_a + m % 256 + (s.reg_p &&& 1)) % 65536 &&& 0xFF) % 256 &&& 0x80 ≠ 0)))
        STATUS_ZERO
        (decide (¬ ((s.reg_a + m % 256 + (s.reg_p &&& 1)) % 65536 &&& 0xFF) % 256 ≠ 0)) := by
  simp only [do_adc, carry_in_eq]

theorem do_adc_reg_a (s : State) (m : Nat) :
    (do_adc s m).reg_a = (s.reg_a + m % 256 + (s.reg_p &&& 1)) % 256 := by
  simp only [do_adc, carry_in_eq, and_FF]
  omega

theorem and_pow_congr (x y k : Nat) (h : x.testBit k = y.testBit k) :
    x &&& 2 ^ k = y &&& 2 ^ k := by
  rw [Nat.and_two_pow, Nat.and_two_pow, h]

theorem and_80_mod (y : Nat) : (y &&& 0x80) % 256 = y &&& 0x80 :=
  Nat.mod_eq_of_lt (Nat.lt_of_le_of_lt Nat.and_le_right (by norm_num))

theorem xor_08_and_01 (p : Nat) : (p ^^^ 0x08) &&& 1 = p &&& 1 := by
  refine and_pow_congr _ _ 0 ?_
  rw [Nat.testBit_xor]
  have h : Nat.testBit 8 0 = false := by decide
  rw [h]
  simp

/-- Bit 7 of the overflow expression of `do_adc` against the spec formula. -/
theorem adc_overflow_bit (a m x r : Nat) (hr : r.testBit 7 = x.testBit 7) :
    ((((a &&& m &&& bnot x) ||| (bnot a &&& bnot m &&& x)) &&& 0x80) % 256 ≠ 0) ↔
      ((a ^^^ r) &&& (m ^^^ r) &&& 0x80 ≠ 0) := by
  rw [and_80_mod, and_80, and_80]
  simp only [Nat.testBit_or, Nat.testBit_and, Nat.testBit_xor,
    testBit_bnot _ 7 (by norm_num), hr]
  cases a.testBit 7 <;> cases m.testBit 7 <;> cases x.testBit 7 <;> simp

/-- The result and every flag of `do_adc`, for a byte accumulator and a byte
operand. -/
theorem do_adc_core (s : State) (m : Nat) (hA : s.reg_a < 256) (hM : m < 256) :
    (do_adc s m).reg_a = (s.reg_a + m + (s.reg_p &&& 1)) % 256 ∧
    ((do_adc s m).reg_p &&& 0x01 ≠ 0 ↔ 255 < s.reg_a + m + (s.reg_p &&& 1)) ∧
    ((do_adc s m).reg_p &&& 0x02 ≠ 0 ↔ (do_adc s m).reg_a = 0) ∧
    ((do_adc s m).reg_p &&& 0x80 ≠ 0 ↔ (do_adc s m).reg_a &&& 0x80 ≠ 0) ∧
    ((do_adc s m).reg_p &&& 0x40 ≠ 0 ↔
      (s.reg_a ^^^ (do_adc s m).reg_a) &&& (m ^^^ (do_adc s m).reg_a) &&& 0x80 ≠ 0) ∧
    ((do_adc s m).reg_p &&& 0x04 = s.reg_p &&& 0x04 ∧
      (do_adc s m).reg_p &&& 0x08 = s.reg_p &&& 0x08 ∧
      (do_adc s m).reg_p &&& 0x10 = s.reg_p &&& 0x10 ∧
      (do_adc s m).reg_p &&& 0x20 = s.reg_p &&& 0x20) ∧
    ((do_adc s m).reg_x = s.reg_x ∧ (do_adc s m).reg_y = s.reg_y ∧
      (do_adc s m).reg_s = s.reg_s ∧ (do_adc s m).pc = s.pc) ∧
    ((do_adc { s with reg_p := s.reg_p ^^^ 0x08 } m).reg_a = (do_adc s m).reg_a ∧
      (do_adc { s with reg_p := s.reg_p ^^^ 0x08 } m).reg_p &&& 0x01 =
        (do_adc s m).reg_p &&& 0x01 ∧
      (do_adc { s with reg_p := s.reg_p ^^^ 0x08 } m).reg_p &&& 0x02 =
        (do_adc s m).reg_p &&& 0x02 ∧
      (do_adc { s with reg_p := s.reg_p ^^^ 0x08 } m).reg_p &&& 0x40 =
        (do_adc s m).reg_p &&& 0x40 ∧
      (do_adc { s with reg_p := s.reg_p ^^^ 0x08 } m).reg_p &&& 0x80 =
        (do_adc s m).reg_p &&& 0x80) := by
  have hm : m % 256 = m := Nat.mod_eq_of_lt hM
  have hc : s.reg_p &&& 1 = s.reg_p % 2 := Nat.and_one_is_mod _
  have hx : (s.reg_a + m + (s.reg_p &&& 1)) % 65536 = s.reg_a + m + (s.reg_p &&& 1) :=
    Nat.mod_eq_of_lt (by omega)
  have hra : (do_adc s m).reg_a = (s.reg_a + m + (s.reg_p &&& 1)) % 256 := by
    rw [do_adc_reg_a, hm]
  have hrp := do_adc_reg_p s m
  rw [hm, hx] at hrp
  have hres : ((s.reg_a + m + (s.reg_p &&& 1)) &&& 0xFF) % 256 =
      (s.reg_a + m + (s.reg_p &&& 1)) % 256 := by
    rw [and_FF]; omega
  rw [hres] at hrp
  have hD : (s.reg_p ^^^ 0x08) &&& 1 = s.reg_p &&& 1 := xor_08_and_01 s.reg_p
  have hrp2 := do_adc_reg_p { s with reg_p := s.reg_p ^^^ 0x08 } m
  simp only [hD, hm, hx, hres] at hrp2
  refine ⟨hra, ?_, ?_, ?_, ?_, ⟨?_, ?_, ?_, ?_⟩, ⟨rfl, rfl, rfl, rfl⟩, ?_, ?_, ?_, ?_, ?_⟩
  · rw [and_01, hrp]
    simp only [testBit_set_flag_Z, testBit_set_flag_N, testBit_set_flag_V, testBit_set_flag_C]
    simp
    exact and_FF00_ne_zero _ (by omega)
  · rw [and_02, hrp, hra]
    simp only [testBit_set_flag_Z]
    simp
  · rw [and_80 (do_adc s m).reg_p, hrp, hra]
    simp only [testBit_set_flag_Z, testBit_set_flag_N]
    simp
  · rw [and_40 (do_adc s m).reg_p, hrp, hra]
    simp only [testBit_set_flag_Z, testBit_set_flag_N, testBit_set_flag_V]
    simp only [Nat.reduceLT, decide_True, Bool.true_and, Nat.reduceEqDiff, if_false, if_true,
      decide_eq_true_eq]
    exact adc_overflow_bit _ _ _ _ (by rw [testBit_mod256]; simp)
  · exact and_pow_congr _ _ 2 (by
      rw [hrp]
      simp only [testBit_set_flag_Z, testBit_set_flag_N, testBit_set_flag_V, testBit_set_flag_C]
      simp)
  · exact and_pow_congr _ _ 3 (by
      rw [hrp]
      simp only [testBit_set_flag_Z, testBit_set_flag_N, testBit_set_flag_V, testBit_set_flag_C]
      simp)
  · exact and_pow_congr _ _ 4 (by
      rw [hrp]
      simp only [testBit_set_flag_Z, testBit_set_flag_N, testBit_set_flag_V, testBit_set_flag_C]
      simp)
  · exact and_pow_congr _ _ 5 (by
      rw [hrp]
      simp only [testBit_set_flag_Z, testBit_set_flag_N, testBit_set_flag_V, testBit_set_flag_C]
      simp)
  · rw [do_adc_reg_a, do_adc_reg_a]
    simp only [hD]
  · exact and_pow_congr _ _ 0 (by
      rw [hrp, hrp2]
      simp only [testBit_set_flag_Z, testBit_set_flag_N, testBit_set_flag_V, testBit_set_flag_C]
      simp)
  · exact and_pow_congr _ _ 1 (by
      rw [hrp, hrp2]
      simp only [testBit_set_flag_Z, testBit_set_flag_N, testBit_set_flag_V, testBit_set_flag_C]
      simp)
  · exact and_pow_congr _ _ 6 (by
      rw [hrp, hrp2]
      simp only [testBit_set_flag_Z, testBit_set_flag_N, testBit_set_flag_V, testBit_set_flag_C]
      simp)
  · exact and_pow_congr _ _ 7 (by
      rw [hrp, hrp2]
      simp only [testBit_set_flag_Z, testBit_set_flag_N, testBit_set_flag_V, testBit_set_flag_C]
      simp)

/-- C8: `do_adc`: A' = (A + M + c) mod 256, C' iff A + M + c > 255, Z' iff
A' = 0, N' = bit 7 of A', V' iff ((A ^ A') & (M ^ A') & 0x80) != 0; the I, D,
B, U bits and X, Y, S, PC are unchanged; toggling D in the starting state
changes neither A' nor N, V, Z, C.  Scenario S3: A = 0x7F, carry clear,
operand 0x01 gives A = 0x80, V set, N set, Z clear, C clear. -/
theorem do_adc_spec (s : State) (m : Nat) (hA : s.reg_a < 256) (hM : m < 256) :
    ((do_adc s m).reg_a = (s.reg_a + m + (s.reg_p &&& 1)) % 256 ∧
    ((do_adc s m).reg_p &&& 0x01 ≠ 0 ↔ 255 < s.reg_a + m + (s.reg_p &&& 1)) ∧
    ((do_adc s m).reg_p &&& 0x02 ≠ 0 ↔ (do_adc s m).reg_a = 0) ∧
    ((do_adc s m).reg_p &&& 0x80 ≠ 0 ↔ (do_adc s m).reg_a &&& 0x80 ≠ 0) ∧
    ((do_adc s m).reg_p &&& 0x40 ≠ 0 ↔
      (s.reg_a ^^^ (do_adc s m).reg_a) &&& (m ^^^ (do_adc s m).reg_a) &&& 0x80 ≠ 0) ∧
    ((do_adc s m).reg_p &&& 0x04 = s.reg_p &&& 0x04 ∧
      (do_adc s m).reg_p &&& 0x08 = s.reg_p &&& 0x08 ∧
      (do_adc s m).reg_p &&& 0x10 = s.reg_p &&& 0x10 ∧
      (do_adc s m).reg_p &&& 0x20 = s.reg_p &&& 0x20) ∧
    ((do_adc s m).reg_x = s.reg_x ∧ (do_adc s m).reg_y = s.reg_y ∧
      (do_adc s m).reg_s = s.reg_s ∧ (do_adc s m).pc = s.pc) ∧
    ((do_adc { s with reg_p := s.reg_p ^^^ 0x08 } m).reg_a = (do_adc s m).reg_a ∧
      (do_adc { s with reg_p := s.reg_p ^^^ 0x08 } m).reg_p &&& 0x01 =
        (do_adc s m).reg_p &&& 0x01 ∧
      (do_adc { s with reg_p := s.reg_p ^^^ 0x08 } m).reg_p &&& 0x02 =
        (do_adc s m).reg_p &&& 0x02 ∧
      (do_adc { s with reg_p := s.reg_p ^^^ 0x08 } m).reg_p &&& 0x40 =
        (do_adc s m).reg_p &&& 0x40 ∧
      (do_adc { s with reg_p := s.reg_p ^^^ 0x08 } m).reg_p &&& 0x80 =
        (do_adc s m).reg_p &&& 0x80)) ∧
    (∀ t : State, t.reg_a = 0x7F → t.reg_p &&& 1 = 0 →
      (do_adc t 0x01).reg_a = 0x80 ∧ (do_adc t 0x01).reg_p &&& 0x40 ≠ 0 ∧
      (do_adc t 0x01).reg_p &&& 0x80 ≠ 0 ∧ (do_adc t 0x01).reg_p &&& 0x02 = 0 ∧
      (do_adc t 0x01).reg_p &&& 0x01 = 0) := by
  refine ⟨do_adc_core s m hA hM, ?_⟩
  intro t ha hc
  have g := do_adc_core t 0x01 (by omega) (by norm_num)
  have gA : (do_adc t 0x01).reg_a = 0x80 := by
    rw [g.1, ha, hc]
  have gC := g.2.1
  have gZ := g.2.2.1
  have gN := g.2.2.2.1
  have gV := g.2.2.2.2.1
  rw [ha, hc] at gC
  rw [gA] at gZ gN gV
  rw [ha] at gV
  refine ⟨gA, ?_, ?_, ?_, ?_⟩
  · exact gV.mpr (by decide)
  · exact gN.mpr (by decide)
  · by_contra h
    exact absurd (gZ.mp h) (by decide)
  · by_contra h
    exact absurd (gC.mp h) (by decide)

/-- Witness for C8 (scenario S3): A = `$7F`, carry clear, `ADC #$01` gives
A = `$80`, V set, N set, Z clear, C clear, both for `do_adc` and for the two
cycles of opcode `$69` run by `p6502_run_cycle`. -/
theorem do_adc_spec_witness :
    (adc_state.reg_a < 256 ∧ 0x01 < 256) ∧
    (do_adc adc_state 0x01).reg_a = (adc_state.reg_a + 0x01 + (adc_state.reg_p &&& 1)) % 256 ∧
    (do_adc adc_state 0x01).reg_a = 0x80 ∧
    (do_adc adc_state 0x01).reg_p = 0xE4 ∧
    (p6502_run_cycle (p6502_run_cycle adc_state).2).2.reg_a = 0x80 ∧
    (p6502_run_cycle (p6502_run_cycle adc_state).2).2.reg_p = 0xE4 ∧
    (p6502_run_cycle (p6502_run_cycle adc_state).2).2.cur_instr_index = 0 :=
  ⟨⟨by decide, by decide⟩, (do_adc_spec adc_state 0x01 (by decide) (by decide)).1.1,
    by decide, by decide, by decide, by decide, by decide⟩

theorem signed8_eq (b : Nat) (hb : b < 256) :
    signed8 b = (b : Int) - (if b.testBit 7 then 256 else 0) := by
  rw [testBit7]
  unfold signed8
  have : b % 256 = b := Nat.mod_eq_of_lt hb
  rw [this]
  by_cases h : b < 128
  · have h' : ¬ 128 ≤ b := by omega
    simp [h, h']
  · have h' : 128 ≤ b := by omega
    simp [h, h']

/-- C9: after `do_adc` the V flag is set exactly when the signed sum
s(A) + s(M) + c lies outside [-128, 127]. -/
theorem do_adc_overflow_signed (s : State) (m : Nat) (hA : s.reg_a < 256) (hM : m < 256) :
    (do_adc s m).reg_p &&& 0x40 ≠ 0 ↔
      (signed8 s.reg_a + signed8 m + ((s.reg_p &&& 1 : Nat) : Int) < -128 ∨
        127 < signed8 s.reg_a + signed8 m + ((s.reg_p &&& 1 : Nat) : Int)) := by
  have hc : s.reg_p &&& 1 = s.reg_p % 2 := Nat.and_one_is_mod _
  have hspec := (do_adc_core s m hA hM).2.2.2.2.1
  have hra := (do_adc_core s m hA hM).1
  rw [hspec, hra, and_80, Nat.testBit_and, Nat.testBit_xor, Nat.testBit_xor,
    signed8_eq _ hA, signed8_eq _ hM]
  rw [testBit7 s.reg_a, testBit7 m, testBit7 ((s.reg_a + m + (s.reg_p &&& 1)) % 256)]
  rw [hc]
  have e1 : s.reg_a % 256 = s.reg_a := Nat.mod_eq_of_lt hA
  have e2 : m % 256 = m := Nat.mod_eq_of_lt hM
  rw [e1, e2]
  by_cases h1 : 128 ≤ s.reg_a <;> by_cases h2 : 128 ≤ m <;>
    by_cases h3 : 128 ≤ (s.reg_a + m + s.reg_p % 2) % 256 % 256 <;>
    simp [h1, h2, h3] <;> omega

/-- Witness for C9: `$7F + $01` overflows (127 + 1 = 128). -/
theorem do_adc_overflow_signed_witness :
    (adc_state.reg_a < 256 ∧ 0x01 < 256) ∧
    ((do_adc adc_state 0x01).reg_p &&& 0x40 ≠ 0 ↔
      (signed8 adc_state.reg_a + signed8 0x01 + ((adc_state.reg_p &&& 1 : Nat) : Int) < -128 ∨
        127 < signed8 adc_state.reg_a + signed8 0x01 + ((adc_state.reg_p &&& 1 : Nat) : Int))) ∧
    (do_adc adc_state 0x01).reg_p &&& 0x40 ≠ 0 :=
  ⟨⟨by decide, by decide⟩, do_adc_overflow_signed adc_state 0x01 (by decide) (by decide),
    by decide⟩

theorem borrow_in_eq (p : Nat) : (if p &&& STATUS_CARRY ≠ 0 then 0 else 1) = 1 - (p &&& 1) := by
  have h : p &&& 1 = p % 2 := Nat.and_one_is_mod p
  simp only [STATUS_CARRY, h]
  split_ifs <;> omega

/-- The byte `temp` computed by `do_sbc`. -/
theorem sbc_temp_eq (a m c : Nat) (ha : a < 256) (hm : m < 256) (hc : c ≤ 1) :
    isub (isub a m) (1 - c) % 256 = (a + 512 - m - (1 - c)) % 256 := by
  unfold isub
  omega

/-- The flag updates of `do_sbc`, with `temp` named. -/
theorem do_sbc_reg_p (s : State) (m : Nat) :
    (do_sbc s m).reg_p =
      set_flag (set_flag (set_flag (set_flag s.reg_p STATUS_CARRY
        (decide (isub (isub s.reg_a (m % 256)) (1 - (s.reg_p &&& 1)) % 256 < s.reg_a)))
        STATUS_OVERFLOW
        (decide ((((s.reg_a &&& bnot (m % 256) &&&
            bnot (isub (isub s.reg_a (m % 256)) (1 - (s.reg_p &&& 1)) % 256)) |||
          (bnot s.reg_a &&& m % 256 &&&
            isub (isub s.reg_a (m % 256)) (1 - (s.reg_p &&& 1)) % 256)) &&& 0x80) % 256 ≠ 0)))
        STATUS_NEGATIVE
        (decide (isub (isub s.reg_a (m % 256)) (1 - (s.reg_p &&& 1)) % 256 &&& 0x80 ≠ 0)))
        STATUS_ZERO
        (decide (¬ isub (isub s.reg_a (m % 256)) (1 - (s.reg_p &&& 1)) % 256 ≠ 0)) := by
  simp only [do_sbc, borrow_in_eq]

theorem do_sbc_reg_a (s : State) (m : Nat) :
    (do_sbc s m).reg_a = isub (isub s.reg_a (m % 256)) (1 - (s.reg_p &&& 1)) % 256 := by
  simp only [do_sbc, borrow_in_eq, and_FF]
  omega

/-- Bit 7 of the overflow expression of `do_sbc` against the spec formula. -/
theorem sbc_overflow_bit (a m r : Nat) :
    ((((a &&& bnot m &&& bnot r) ||| (bnot a &&& m &&& r)) &&& 0x80) % 256 ≠ 0) ↔
      ((a ^^^ r) &&& ((m ^^^ 0xFF) ^^^ r) &&& 0x80 ≠ 0) := by
  rw [and_80_mod, and_80, and_80]
  have h : Nat.testBit 0xFF 7 = true := by decide
  simp only [Nat.testBit_or, Nat.testBit_and, Nat.testBit_xor,
    testBit_bnot _ 7 (by norm_num), h]
  cases a.testBit 7 <;> cases m.testBit 7 <;> cases r.testBit 7 <;> simp

/-- C10: `do_sbc`: A' = (A - M - (1 - c)) mod 256, Z' iff A' = 0, N' = bit 7 of
A', V' iff ((A ^ A') & ((M ^ 0xFF) ^ A') & 0x80) != 0; toggling D in the
starting state changes neither A' nor N, V, Z, C. -/
theorem do_sbc_spec (s : State) (m : Nat) (hA : s.reg_a < 256) (hM : m < 256) :
    (((do_sbc s m).reg_a : Nat) : Int) =
      ((s.reg_a : Int) - (m : Int) - (1 - ((s.reg_p &&& 1 : Nat) : Int))) % 256 ∧
    ((do_sbc s m).reg_p &&& 0x02 ≠ 0 ↔ (do_sbc s m).reg_a = 0) ∧
    ((do_sbc s m).reg_p &&& 0x80 ≠ 0 ↔ (do_sbc s m).reg_a &&& 0x80 ≠ 0) ∧
    ((do_sbc s m).reg_p &&& 0x40 ≠ 0 ↔
      (s.reg_a ^^^ (do_sbc s m).reg_a) &&& ((m ^^^ 0xFF) ^^^ (do_sbc s m).reg_a) &&& 0x80 ≠ 0) ∧
    ((do_sbc { s with reg_p := s.reg_p ^^^ 0x08 } m).reg_a = (do_sbc s m).reg_a ∧
      (do_sbc { s with reg_p := s.reg_p ^^^ 0x08 } m).reg_p &&& 0x01 =
        (do_sbc s m).reg_p &&& 0x01 ∧
      (do_sbc { s with reg_p := s.reg_p ^^^ 0x08 } m).reg_p &&& 0x02 =
        (do_sbc s m).reg_p &&& 0x02 ∧
      (do_sbc { s with reg_p := s.reg_p ^^^ 0x08 } m).reg_p &&& 0x40 =
        (do_sbc s m).reg_p &&& 0x40 ∧
      (do_sbc { s with reg_p := s.reg_p ^^^ 0x08 } m).reg_p &&& 0x80 =
        (do_sbc s m).reg_p &&& 0x80) := by
  have hm : m % 256 = m := Nat.mod_eq_of_lt hM
  have hc : s.reg_p &&& 1 = s.reg_p % 2 := Nat.and_one_is_mod _
  have hc1 : s.reg_p &&& 1 ≤ 1 := by omega
  have hra : (do_sbc s m).reg_a = (s.reg_a + 512 - m - (1 - (s.reg_p &&& 1))) % 256 := by
    rw [do_sbc_reg_a, hm, sbc_temp_eq _ _ _ hA hM hc1]
  have hrp := do_sbc_reg_p s m
  rw [hm] at hrp
  have hD : (s.reg_p ^^^ 0x08) &&& 1 = s.reg_p &&& 1 := xor_08_and_01 s.reg_p
  have hrp2 := do_sbc_reg_p { s with reg_p := s.reg_p ^^^ 0x08 } m
  simp only [hD, hm] at hrp2
  refine ⟨?_, ?_, ?_, ?_, ?_, ?_, ?_, ?_, ?_⟩
  · rw [hra]
    omega
  · rw [and_02, hrp, do_sbc_reg_a, hm]
    simp only [testBit_set_flag_Z]
    simp
  · rw [and_80 (do_sbc s m).reg_p, hrp, do_sbc_reg_a, hm]
    simp only [testBit_set_flag_Z, testBit_set_flag_N]
    simp
  · rw [and_40 (do_sbc s m).reg_p, hrp, do_sbc_reg_a, hm]
    simp only [testBit_set_flag_Z, testBit_set_flag_N, testBit_set_flag_V]
    simp only [Nat.reduceLT, decide_True, Bool.true_and, Nat.reduceEqDiff, if_false, if_true,
      decide_eq_true_eq]
    exact sbc_overflow_bit _ _ _
  · rw [do_sbc_reg_a, do_sbc_reg_a]
    simp only [hD]
  · exact and_pow_congr _ _ 0 (by
      rw [hrp, hrp2]
      simp only [testBit_set_flag_Z, testBit_set_flag_N, testBit_set_flag_V, testBit_set_flag_C]
      simp)
  · exact and_pow_congr _ _ 1 (by
      rw [hrp, hrp2]
      simp only [testBit_set_flag_Z, testBit_set_flag_N, testBit_set_flag_V, testBit_set_flag_C]
      simp)
  · exact and_pow_congr _ _ 6 (by
      rw [hrp, hrp2]
      simp only [testBit_set_flag_Z, testBit_set_flag_N, testBit_set_flag_V, testBit_set_flag_C]
      simp)
  · exact and_pow_congr _ _ 7 (by
      rw [hrp, hrp2]
      simp only [testBit_set_flag_Z, testBit_set_flag_N, testBit_set_flag_V, testBit_set_flag_C]
      simp)

/-- Witness for C10: A = `$50`, carry set, operand `$F0`: A' = `$60`, Z and N
clear, and V clear, as the formula gives (((`$50` ^ `$60`) & (`$0F` ^ `$60`)
& `$80`) = 0). -/
theorem do_sbc_spec_witness :
    (sbc_state.reg_a < 256 ∧ 0xF0 < 256) ∧
    (((do_sbc sbc_state 0xF0).reg_a : Nat) : Int) =
      ((sbc_state.reg_a : Int) - ((0xF0 : Nat) : Int) -
        (1 - ((sbc_state.reg_p &&& 1 : Nat) : Int))) % 256 ∧
    (do_sbc sbc_state 0xF0).reg_a = 0x60 ∧
    (do_sbc sbc_state 0xF0).reg_p &&& 0xC2 = 0 :=
  ⟨⟨by decide, by decide⟩, (do_sbc_spec sbc_state 0xF0 (by decide) (by decide)).1,
    by decide, by decide⟩

/-! ## The status-register invariant (C7) -/

theorem pinv_iff_testBit (p : Nat) :
    PInv p ↔ (p.testBit 5 = true ∧ p.testBit 4 = false) := by
  unfold PInv
  have h5 : (0x20 : Nat) = 2 ^ 5 := by norm_num
  have h4 : (0x10 : Nat) = 2 ^ 4 := by norm_num
  rw [h5, h4, Nat.and_two_pow, Nat.and_two_pow]
  cases p.testBit 5 <;> cases p.testBit 4 <;> simp

/-- Rewriting a flag other than B and U keeps the invariant. -/
theorem pinv_set_flag (p k : Nat) (c : Bool) (hk : k < 8) (h4 : k ≠ 4) (h5 : k ≠ 5) :
    PInv (set_flag p (2 ^ k) c) ↔ PInv p := by
  have e4 : ¬ 4 = k := fun h => h4 h.symm
  have e5 : ¬ 5 = k := fun h => h5 h.symm
  rw [pinv_iff_testBit, pinv_iff_testBit, testBit_set_flag _ _ _ _ hk,
    testBit_set_flag _ _ _ _ hk]
  simp [e4, e5]

@[simp] theorem pinv_mod256 (p : Nat) : PInv (p % 256) ↔ PInv p := by
  rw [pinv_iff_testBit, pinv_iff_testBit, testBit_mod256, testBit_mod256]
  simp

/-- Masking `p & ~flag` keeps the invariant for a flag other than B and U. -/
theorem pinv_clear (p k : Nat) (h4 : k ≠ 4) (h5 : k ≠ 5) :
    PInv (p &&& bnot (2 ^ k)) ↔ PInv p := by
  have e4 : ¬ k = 4 := h4
  have e5 : ¬ k = 5 := h5
  rw [pinv_iff_testBit, pinv_iff_testBit, Nat.testBit_and, Nat.testBit_and,
    testBit_bnot _ _ (by norm_num), testBit_bnot _ _ (by norm_num), Nat.testBit_two_pow,
    Nat.testBit_two_pow]
  simp [e4, e5]

/-- Masking `p | flag` keeps the invariant for a flag other than B and U. -/
theorem pinv_set (p k : Nat) (h4 : k ≠ 4) (h5 : k ≠ 5) :
    PInv (p ||| 2 ^ k) ↔ PInv p := by
  have e4 : ¬ k = 4 := h4
  have e5 : ¬ k = 5 := h5
  rw [pinv_iff_testBit, pinv_iff_testBit, Nat.testBit_or, Nat.testBit_or, Nat.testBit_two_pow,
    Nat.testBit_two_pow]
  simp [e4, e5]

/-- The byte PLP and RTI load into P satisfies the invariant. -/
@[simp] theorem pinv_pulled (v : Nat) : PInv ((v ||| STATUS_EXPAND) &&& bnot STATUS_BREAK) := by
  have h5 : STATUS_EXPAND = 2 ^ 5 := by decide
  have h4 : STATUS_BREAK = 2 ^ 4 := by decide
  rw [pinv_iff_testBit, Nat.testBit_and, Nat.testBit_and,
    testBit_bnot _ _ (by norm_num), testBit_bnot _ _ (by norm_num), Nat.testBit_or,
    Nat.testBit_or, h5, h4, Nat.testBit_two_pow, Nat.testBit_two_pow, Nat.testBit_two_pow,
    Nat.testBit_two_pow]
  simp

@[simp] theorem pinv_set_flag_C (p : Nat) (c : Bool) : PInv (set_flag p STATUS_CARRY c) ↔ PInv p :=
  pinv_set_flag p 0 c (by norm_num) (by norm_num) (by norm_num)

@[simp] theorem pinv_set_flag_Z (p : Nat) (c : Bool) : PInv (set_flag p STATUS_ZERO c) ↔ PInv p :=
  pinv_set_flag p 1 c (by norm_num) (by norm_num) (by norm_num)

@[simp] theorem pinv_set_flag_V (p : Nat) (c : Bool) :
    PInv (set_flag p STATUS_OVERFLOW c) ↔ PInv p :=
  pinv_set_flag p 6 c (by norm_num) (by norm_num) (by norm_num)

@[simp] theorem pinv_set_flag_N (p : Nat) (c : Bool) :
    PInv (set_flag p STATUS_NEGATIVE c) ↔ PInv p :=
  pinv_set_flag p 7 c (by norm_num) (by norm_num) (by norm_num)

@[simp] theorem pinv_clear_C (p : Nat) : PInv (p &&& bnot STATUS_CARRY) ↔ PInv p :=
  pinv_clear p 0 (by norm_num) (by norm_num)

@[simp] theorem pinv_clear_D (p : Nat) : PInv (p &&& bnot STATUS_DECIMAL) ↔ PInv p :=
  pinv_clear p 3 (by norm_num) (by norm_num)

@[simp] theorem pinv_clear_V (p : Nat) : PInv (p &&& bnot STATUS_OVERFLOW) ↔ PInv p :=
  pinv_clear p 6 (by norm_num) (by norm_num)

@[simp] theorem pinv_clear_N (p : Nat) : PInv (p &&& bnot STATUS_NEGATIVE) ↔ PInv p :=
  pinv_clear p 7 (by norm_num) (by norm_num)

@[simp] theorem pinv_set_C (p : Nat) : PInv (p ||| STATUS_CARRY) ↔ PInv p :=
  pinv_set p 0 (by norm_num) (by norm_num)

@[simp] theorem pinv_set_D (p : Nat) : PInv (p ||| STATUS_DECIMAL) ↔ PInv p :=
  pinv_set p 3 (by norm_num) (by norm_num)

@[simp] theorem pinv_set_I (p : Nat) : PInv (p ||| STATUS_INTERRUPT_DISABLE) ↔ PInv p :=
  pinv_set p 2 (by norm_num) (by norm_num)


/-! ### `reg_p` through the statement helpers -/

@[simp] theorem read_memory_reg_p (s : State) (a : Nat) :
    (read_memory s a).2.reg_p = s.reg_p := by
  cases s
  rfl

@[simp] theorem write_memory_reg_p (s : State) (a v : Nat) :
    (write_memory s a v).reg_p = s.reg_p := by
  simp only [write_memory]
  split_ifs <;> rfl

@[simp] theorem fetch_opcode_reg_p (s : State) : (fetch_opcode s).reg_p = s.reg_p := by
  cases s
  rfl

@[simp] theorem set_instr_reg_p (s : State) (k v : Nat) :
    (set_instr s k v).reg_p = s.reg_p := by
  cases s
  rfl

@[simp] theorem inc_index_reg_p (s : State) : (inc_index s).reg_p = s.reg_p := by
  cases s
  rfl

@[simp] theorem set_index_reg_p (s : State) (n : Nat) :
    (set_index s n).reg_p = s.reg_p := by
  cases s
  rfl

@[simp] theorem pull_reg_p (s : State) : (pull s).2.reg_p = s.reg_p := by
  cases s
  rfl

@[simp] theorem push_reg_p (s : State) (v : Nat) : (push s v).reg_p = s.reg_p :=
  Eq.trans (by delta push; rfl) (write_memory_reg_p s (0x100 + s.reg_s) v)

@[simp] theorem set_nz_pinv (s : State) (v : Nat) : PInv (set_nz s v).reg_p ↔ PInv s.reg_p := by
  simp [set_nz]

@[simp] theorem cmp_flags_pinv (s : State) (r m : Nat) :
    PInv (cmp_flags s r m).reg_p ↔ PInv s.reg_p := by
  simp [cmp_flags]

@[simp] theorem do_cmp_pinv (s : State) (v : Nat) : PInv (do_cmp s v).reg_p ↔ PInv s.reg_p := by
  simp [do_cmp]

@[simp] theorem do_adc_pinv (s : State) (v : Nat) : PInv (do_adc s v).reg_p ↔ PInv s.reg_p := by
  simp [do_adc]

@[simp] theorem do_sbc_pinv (s : State) (v : Nat) : PInv (do_sbc s v).reg_p ↔ PInv s.reg_p := by
  simp [do_sbc]

@[simp] theorem dec_slot_pinv (s : State) (k : Nat) :
    PInv (dec_slot s k).reg_p ↔ PInv s.reg_p := by
  simp [dec_slot]

@[simp] theorem inc_slot_pinv (s : State) (k : Nat) :
    PInv (inc_slot s k).reg_p ↔ PInv s.reg_p := by
  simp [inc_slot]

@[simp] theorem asl_slot_pinv (s : State) (k : Nat) :
    PInv (asl_slot s k).reg_p ↔ PInv s.reg_p := by
  simp [asl_slot]

@[simp] theorem lsr_slot_pinv (s : State) (k : Nat) :
    PInv (lsr_slot s k).reg_p ↔ PInv s.reg_p := by
  simp [lsr_slot]

@[simp] theorem rol_slot_pinv (s : State) (k : Nat) :
    PInv (rol_slot s k).reg_p ↔ PInv s.reg_p := by
  unfold rol_slot
  split_ifs <;> simp

@[simp] theorem ror_slot_pinv (s : State) (k : Nat) :
    PInv (ror_slot s k).reg_p ↔ PInv s.reg_p := by
  unfold ror_slot
  split_ifs <;> simp

@[simp] theorem bit_flags_pinv (s : State) : PInv (bit_flags s).reg_p ↔ PInv s.reg_p := by
  simp [bit_flags]


theorem branch_flag_reg_p (s : State) (mask cmp : Nat) :
    (branch_flag s mask cmp).reg_p = s.reg_p := by
  simp only [branch_flag]
  split_ifs <;> simp

theorem alu_immediate_reg_p (s : State) : (alu_immediate s).1.reg_p = s.reg_p := by
  simp only [alu_immediate]
  simp

theorem alu_zero_page_reg_p (s : State) : (alu_zero_page s).1.reg_p = s.reg_p := by
  simp only [alu_zero_page]
  split_ifs <;> simp

theorem alu_zero_page_x_reg_p (s : State) : (alu_zero_page_x s).1.reg_p = s.reg_p := by
  simp only [alu_zero_page_x]
  split_ifs <;> simp

theorem alu_absolute_reg_p (s : State) : (alu_absolute s).1.reg_p = s.reg_p := by
  simp only [alu_absolute]
  split_ifs <;> simp

theorem alu_absolute_x_reg_p (s : State) : (alu_absolute_x s).1.reg_p = s.reg_p := by
  simp only [alu_absolute_x]
  split_ifs <;> simp

theorem alu_absolute_y_reg_p (s : State) : (alu_absolute_y s).1.reg_p = s.reg_p := by
  simp only [alu_absolute_y]
  split_ifs <;> simp

theorem alu_indirect_x_reg_p (s : State) : (alu_indirect_x s).1.reg_p = s.reg_p := by
  simp only [alu_indirect_x]
  split_ifs <;> simp

theorem alu_indirect_y_reg_p (s : State) : (alu_indirect_y s).1.reg_p = s.reg_p := by
  simp only [alu_indirect_y]
  split_ifs <;> simp

theorem alu_addressing_reg_p (s : State) : (alu_addressing s).1.reg_p = s.reg_p := by
  simp only [alu_addressing]
  split_ifs
  · exact alu_immediate_reg_p s
  · exact alu_zero_page_reg_p s
  · exact alu_zero_page_x_reg_p s
  · exact alu_absolute_reg_p s
  · exact alu_absolute_x_reg_p s
  · exact alu_absolute_y_reg_p s
  · exact alu_indirect_x_reg_p s
  · exact alu_indirect_y_reg_p s
  · rfl

theorem alu_operation_pinv (s : State) : PInv (alu_operation s).reg_p ↔ PInv s.reg_p := by
  simp only [alu_operation]
  split_ifs <;> simp

theorem decode_alu_pinv (s : State) (h : PInv s.reg_p) : PInv (decode_alu s).reg_p := by
  simp only [decode_alu]
  split_ifs
  · simp [alu_operation_pinv, alu_addressing_reg_p, h]
  · simp [alu_addressing_reg_p, h]

/-! ### The invariant through every `case` of the one-off switch -/

theorem op_E0_pinv (s : State) (h : PInv s.reg_p) : PInv (op_E0 s).reg_p := by
  simp only [op_E0]
  simp [h]

theorem op_E4_pinv (s : State) (h : PInv s.reg_p) : PInv (op_E4 s).reg_p := by
  simp only [op_E4]
  split_ifs <;> simp [h]

theorem op_EC_pinv (s : State) (h : PInv s.reg_p) : PInv (op_EC s).reg_p := by
  simp only [op_EC]
  split_ifs <;> simp [h]

theorem op_C0_pinv (s : State) (h : PInv s.reg_p) : PInv (op_C0 s).reg_p := by
  simp only [op_C0]
  simp [h]

theorem op_C4_pinv (s : State) (h : PInv s.reg_p) : PInv (op_C4 s).reg_p := by
  simp only [op_C4]
  split_ifs <;> simp [h]

theorem op_CC_pinv (s : State) (h : PInv s.reg_p) : PInv (op_CC s).reg_p := by
  simp only [op_CC]
  split_ifs <;> simp [h]

theorem op_C6_pinv (s : State) (h : PInv s.reg_p) : PInv (op_C6 s).reg_p := by
  simp only [op_C6]
  split_ifs <;> simp [h]

theorem op_D6_pinv (s : State) (h : PInv s.reg_p) : PInv (op_D6 s).reg_p := by
  simp only [op_D6]
  split_ifs <;> simp [h]

theorem op_CE_pinv (s : State) (h : PInv s.reg_p) : PInv (op_CE s).reg_p := by
  simp only [op_CE]
  split_ifs <;> simp [h]

theorem op_DE_pinv (s : State) (h : PInv s.reg_p) : PInv (op_DE s).reg_p := by
  simp only [op_DE]
  split_ifs <;> simp [h]

theorem op_E6_pinv (s : State) (h : PInv s.reg_p) : PInv (op_E6 s).reg_p := by
  simp only [op_E6]
  split_ifs <;> simp [h]

theorem op_F6_pinv (s : State) (h : PInv s.reg_p) : PInv (op_F6 s).reg_p := by
  simp only [op_F6]
  split_ifs <;> simp [h]

theorem op_EE_pinv (s : State) (h : PInv s.reg_p) : PInv (op_EE s).reg_p := by
  simp only [op_EE]
  split_ifs <;> simp [h]

theorem op_FE_pinv (s : State) (h : PInv s.reg_p) : PInv (op_FE s).reg_p := by
  simp only [op_FE]
  split_ifs <;> simp [h]

theorem op_E8_pinv (s : State) (h : PInv s.reg_p) : PInv (op_E8 s).reg_p := by
  simp only [op_E8]
  simp [h]

theorem op_C8_pinv (s : State) (h : PInv s.reg_p) : PInv (op_C8 s).reg_p := by
  simp only [op_C8]
  simp [h]

theorem op_CA_pinv (s : State) (h : PInv s.reg_p) : PInv (op_CA s).reg_p := by
  simp only [op_CA]
  simp [h]

theorem op_88_pinv (s : State) (h : PInv s.reg_p) : PInv (op_88 s).reg_p := by
  simp only [op_88]
  simp [h]

theorem op_AA_pinv (s : State) (h : PInv s.reg_p) : PInv (op_AA s).reg_p := by
  simp only [op_AA]
  simp [h]

theorem op_BA_pinv (s : State) (h : PInv s.reg_p) : PInv (op_BA s).reg_p := by
  simp only [op_BA]
  simp [h]

theorem op_9A_pinv (s : State) (h : PInv s.reg_p) : PInv (op_9A s).reg_p := by
  simp only [op_9A]
  simp [h]

theorem op_A8_pinv (s : State) (h : PInv s.reg_p) : PInv (op_A8 s).reg_p := by
  simp only [op_A8]
  simp [h]

theorem op_8A_pinv (s : State) (h : PInv s.reg_p) : PInv (op_8A s).reg_p := by
  simp only [op_8A]
  simp [h]

theorem op_98_pinv (s : State) (h : PInv s.reg_p) : PInv (op_98 s).reg_p := by
  simp only [op_98]
  simp [h]

theorem op_40_pinv (s : State) (h : PInv s.reg_p) : PInv (op_40 s).reg_p := by
  simp only [op_40]
  split_ifs <;> simp [h]

theorem op_60_pinv (s : State) (h : PInv s.reg_p) : PInv (op_60 s).reg_p := by
  simp only [op_60]
  split_ifs <;> simp [h]

theorem op_20_pinv (s : State) (h : PInv s.reg_p) : PInv (op_20 s).reg_p := by
  simp only [op_20]
  split_ifs <;> simp [h]

theorem op_6C_pinv (s : State) (h : PInv s.reg_p) : PInv (op_6C s).reg_p := by
  simp only [op_6C]
  split_ifs <;> simp [h]

theorem op_68_pinv (s : State) (h : PInv s.reg_p) : PInv (op_68 s).reg_p := by
  simp only [op_68]
  split_ifs <;> simp [h]

theorem op_28_pinv (s : State) (h : PInv s.reg_p) : PInv (op_28 s).reg_p := by
  simp only [op_28]
  split_ifs <;> simp [h]

theorem op_08_pinv (s : State) (h : PInv s.reg_p) : PInv (op_08 s).reg_p := by
  simp only [op_08]
  split_ifs <;> simp [h]

theorem op_48_pinv (s : State) (h : PInv s.reg_p) : PInv (op_48 s).reg_p := by
  simp only [op_48]
  split_ifs <;> simp [h]

theorem op_18_pinv (s : State) (h : PInv s.reg_p) : PInv (op_18 s).reg_p := by
  simp only [op_18]
  simp [h]

theorem op_D8_pinv (s : State) (h : PInv s.reg_p) : PInv (op_D8 s).reg_p := by
  simp only [op_D8]
  simp [h]

theorem op_B8_pinv (s : State) (h : PInv s.reg_p) : PInv (op_B8 s).reg_p := by
  simp only [op_B8]
  simp [h]

theorem op_38_pinv (s : State) (h : PInv s.reg_p) : PInv (op_38 s).reg_p := by
  simp only [op_38]
  simp [h]

theorem op_F8_pinv (s : State) (h : PInv s.reg_p) : PInv (op_F8 s).reg_p := by
  simp only [op_F8]
  simp [h]

theorem op_78_pinv (s : State) (h : PInv s.reg_p) : PInv (op_78 s).reg_p := by
  simp only [op_78]
  simp [h]

theorem op_0A_pinv (s : State) (h : PInv s.reg_p) : PInv (op_0A s).reg_p := by
  simp only [op_0A]
  simp [h]

theorem op_06_pinv (s : State) (h : PInv s.reg_p) : PInv (op_06 s).reg_p := by
  simp only [op_06]
  split_ifs <;> simp [h]

theorem op_16_pinv (s : State) (h : PInv s.reg_p) : PInv (op_16 s).reg_p := by
  simp only [op_16]
  split_ifs <;> simp [h]

theorem op_0E_pinv (s : State) (h : PInv s.reg_p) : PInv (op_0E s).reg_p := by
  simp only [op_0E]
  split_ifs <;> simp [h]

theorem op_1E_pinv (s : State) (h : PInv s.reg_p) : PInv (op_1E s).reg_p := by
  simp only [op_1E]
  split_ifs <;> simp [h]

theorem op_4A_pinv (s : State) (h : PInv s.reg_p) : PInv (op_4A s).reg_p := by
  simp only [op_4A]
  simp [h]

theorem op_46_pinv (s : State) (h : PInv s.reg_p) : PInv (op_46 s).reg_p := by
  simp only [op_46]
  split_ifs <;> simp [h]

theorem op_56_pinv (s : State) (h : PInv s.reg_p) : PInv (op_56 s).reg_p := by
  simp only [op_56]
  split_ifs <;> simp [h]

theorem op_4E_pinv (s : State) (h : PInv s.reg_p) : PInv (op_4E s).reg_p := by
  simp only [op_4E]
  split_ifs <;> simp [h]

theorem op_5E_pinv (s : State) (h : PInv s.reg_p) : PInv (op_5E s).reg_p := by
  simp only [op_5E]
  split_ifs <;> simp [h]

theorem op_2A_pinv (s : State) (h : PInv s.reg_p) : PInv (op_2A s).reg_p := by
  simp only [op_2A]
  split_ifs <;> simp [h]

theorem op_26_pinv (s : State) (h : PInv s.reg_p) : PInv (op_26 s).reg_p := by
  simp only [op_26]
  split_ifs <;> simp [h]

theorem op_36_pinv (s : State) (h : PInv s.reg_p) : PInv (op_36 s).reg_p := by
  simp only [op_36]
  split_ifs <;> simp [h]

theorem op_2E_pinv (s : State) (h : PInv s.reg_p) : PInv (op_2E s).reg_p := by
  simp only [op_2E]
  split_ifs <;> simp [h]

theorem op_3E_pinv (s : State) (h : PInv s.reg_p) : PInv (op_3E s).reg_p := by
  simp only [op_3E]
  split_ifs <;> simp [h]

theorem op_6A_pinv (s : State) (h : PInv s.reg_p) : PInv (op_6A s).reg_p := by
  simp only [op_6A]
  split_ifs <;> simp [h]

theorem op_66_pinv (s : State) (h : PInv s.reg_p) : PInv (op_66 s).reg_p := by
  simp only [op_66]
  split_ifs <;> simp [h]

theorem op_76_pinv (s : State) (h : PInv s.reg_p) : PInv (op_76 s).reg_p := by
  simp only [op_76]
  split_ifs <;> simp [h]

theorem op_6E_pinv (s : State) (h : PInv s.reg_p) : PInv (op_6E s).reg_p := by
  simp only [op_6E]
  split_ifs <;> simp [h]

theorem op_7E_pinv (s : State) (h : PInv s.reg_p) : PInv (op_7E s).reg_p := by
  simp only [op_7E]
  split_ifs <;> simp [h]

theorem op_24_pinv (s : State) (h : PInv s.reg_p) : PInv (op_24 s).reg_p := by
  simp only [op_24]
  split_ifs <;> simp [h]

theorem op_2C_pinv (s : State) (h : PInv s.reg_p) : PInv (op_2C s).reg_p := by
  simp only [op_2C]
  split_ifs <;> simp [h]

theorem op_4C_pinv (s : State) (h : PInv s.reg_p) : PInv (op_4C s).reg_p := by
  simp only [op_4C]
  split_ifs <;> simp [h]

theorem op_86_pinv (s : State) (h : PInv s.reg_p) : PInv (op_86 s).reg_p := by
  simp only [op_86]
  split_ifs <;> simp [h]

theorem op_96_pinv (s : State) (h : PInv s.reg_p) : PInv (op_96 s).reg_p := by
  simp only [op_96]
  split_ifs <;> simp [h]

theorem op_8E_pinv (s : State) (h : PInv s.reg_p) : PInv (op_8E s).reg_p := by
  simp only [op_8E]
  split_ifs <;> simp [h]

theorem op_AE_pinv (s : State) (h : PInv s.reg_p) : PInv (op_AE s).reg_p := by
  simp only [op_AE]
  split_ifs <;> simp [h]

theorem op_BE_pinv (s : State) (h : PInv s.reg_p) : PInv (op_BE s).reg_p := by
  simp only [op_BE]
  split_ifs <;> simp [h]

theorem op_84_pinv (s : State) (h : PInv s.reg_p) : PInv (op_84 s).reg_p := by
  simp only [op_84]
  split_ifs <;> simp [h]

theorem op_94_pinv (s : State) (h : PInv s.reg_p) : PInv (op_94 s).reg_p := by
  simp only [op_94]
  split_ifs <;> simp [h]

theorem op_8C_pinv (s : State) (h : PInv s.reg_p) : PInv (op_8C s).reg_p := by
  simp only [op_8C]
  split_ifs <;> simp [h]

theorem op_A4_pinv (s : State) (h : PInv s.reg_p) : PInv (op_A4 s).reg_p := by
  simp only [op_A4]
  split_ifs <;> simp [h]

theorem op_B4_pinv (s : State) (h : PInv s.reg_p) : PInv (op_B4 s).reg_p := by
  simp only [op_B4]
  split_ifs <;> simp [h]

theorem op_AC_pinv (s : State) (h : PInv s.reg_p) : PInv (op_AC s).reg_p := by
  simp only [op_AC]
  split_ifs <;> simp [h]

theorem op_BC_pinv (s : State) (h : PInv s.reg_p) : PInv (op_BC s).reg_p := by
  simp only [op_BC]
  split_ifs <;> simp [h]

theorem op_A2_pinv (s : State) (h : PInv s.reg_p) : PInv (op_A2 s).reg_p := by
  simp only [op_A2]
  split_ifs <;> simp [h]

theorem op_A6_pinv (s : State) (h : PInv s.reg_p) : PInv (op_A6 s).reg_p := by
  simp only [op_A6]
  split_ifs <;> simp [h]

theorem op_B6_pinv (s : State) (h : PInv s.reg_p) : PInv (op_B6 s).reg_p := by
  simp only [op_B6]
  split_ifs <;> simp [h]

theorem op_A0_pinv (s : State) (h : PInv s.reg_p) : PInv (op_A0 s).reg_p := by
  simp only [op_A0]
  split_ifs <;> simp [h]

theorem op_EA_pinv (s : State) (h : PInv s.reg_p) : PInv (op_EA s).reg_p := by
  simp only [op_EA]
  simp [h]

theorem op_default_pinv (s : State) (h : PInv s.reg_p) : PInv (op_default s).reg_p := by
  simp only [op_default]
  simp [h]

theorem ite_pinv {c : Prop} [Decidable c] {a b : State} (ha : PInv a.reg_p)
    (hb : PInv b.reg_p) : PInv (if c then a else b).reg_p := by
  split_ifs <;> assumption

theorem decode_other_pinv (s : State) (h : PInv s.reg_p) : PInv (decode_other s).reg_p := by
  simp only [decode_other]
  refine ite_pinv (op_E0_pinv s h) ?_
  refine ite_pinv (op_E4_pinv s h) ?_
  refine ite_pinv (op_EC_pinv s h) ?_
  refine ite_pinv (op_C0_pinv s h) ?_
  refine ite_pinv (op_C4_pinv s h) ?_
  refine ite_pinv (op_CC_pinv s h) ?_
  refine ite_pinv (op_C6_pinv s h) ?_
  refine ite_pinv (op_D6_pinv s h) ?_
  refine ite_pinv (op_CE_pinv s h) ?_
  refine ite_pinv (op_DE_pinv s h) ?_
  refine ite_pinv (op_E6_pinv s h) ?_
  refine ite_pinv (op_F6_pinv s h) ?_
  refine ite_pinv (op_EE_pinv s h) ?_
  refine ite_pinv (op_FE_pinv s h) ?_
  refine ite_pinv (op_E8_pinv s h) ?_
  refine ite_pinv (op_C8_pinv s h) ?_
  refine ite_pinv (op_CA_pinv s h) ?_
  refine ite_pinv (op_88_pinv s h) ?_
  refine ite_pinv (op_AA_pinv s h) ?_
  refine ite_pinv (op_BA_pinv s h) ?_
  refine ite_pinv (op_9A_pinv s h) ?_
  refine ite_pinv (op_A8_pinv s h) ?_
  refine ite_pinv (op_8A_pinv s h) ?_
  refine ite_pinv (op_98_pinv s h) ?_
  refine ite_pinv (op_40_pinv s h) ?_
  refine ite_pinv (op_60_pinv s h) ?_
  refine ite_pinv (op_20_pinv s h) ?_
  refine ite_pinv (op_6C_pinv s h) ?_
  refine ite_pinv (op_68_pinv s h) ?_
  refine ite_pinv (op_28_pinv s h) ?_
  refine ite_pinv (op_08_pinv s h) ?_
  refine ite_pinv (op_48_pinv s h) ?_
  refine ite_pinv (op_18_pinv s h) ?_
  refine ite_pinv (op_D8_pinv s h) ?_
  refine ite_pinv (op_B8_pinv s h) ?_
  refine ite_pinv (op_38_pinv s h) ?_
  refine ite_pinv (op_F8_pinv s h) ?_
  refine ite_pinv (op_78_pinv s h) ?_
  refine ite_pinv (op_0A_pinv s h) ?_
  refine ite_pinv (op_06_pinv s h) ?_
  refine ite_pinv (op_16_pinv s h) ?_
  refine ite_pinv (op_0E_pinv s h) ?_
  refine ite_pinv (op_1E_pinv s h) ?_
  refine ite_pinv (op_4A_pinv s h) ?_
  refine ite_pinv (op_46_pinv s h) ?_
  refine ite_pinv (op_56_pinv s h) ?_
  refine ite_pinv (op_4E_pinv s h) ?_
  refine ite_pinv (op_5E_pinv s h) ?_
  refine ite_pinv (op_2A_pinv s h) ?_
  refine ite_pinv (op_26_pinv s h) ?_
  refine ite_pinv (op_36_pinv s h) ?_
  refine ite_pinv (op_2E_pinv s h) ?_
  refine ite_pinv (op_3E_pinv s h) ?_
  refine ite_pinv (op_6A_pinv s h) ?_
  refine ite_pinv (op_66_pinv s h) ?_
  refine ite_pinv (op_76_pinv s h) ?_
  refine ite_pinv (op_6E_pinv s h) ?_
  refine ite_pinv (op_7E_pinv s h) ?_
  refine ite_pinv (op_24_pinv s h) ?_
  refine ite_pinv (op_2C_pinv s h) ?_
  refine ite_pinv (op_4C_pinv s h) ?_
  refine ite_pinv (op_86_pinv s h) ?_
  refine ite_pinv (op_96_pinv s h) ?_
  refine ite_pinv (op_8E_pinv s h) ?_
  refine ite_pinv (op_AE_pinv s h) ?_
  refine ite_pinv (op_BE_pinv s h) ?_
  refine ite_pinv (op_84_pinv s h) ?_
  refine ite_pinv (op_94_pinv s h) ?_
  refine ite_pinv (op_8C_pinv s h) ?_
  refine ite_pinv (op_A4_pinv s h) ?_
  refine ite_pinv (op_B4_pinv s h) ?_
  refine ite_pinv (op_AC_pinv s h) ?_
  refine ite_pinv (op_BC_pinv s h) ?_
  refine ite_pinv (op_A2_pinv s h) ?_
  refine ite_pinv (op_A6_pinv s h) ?_
  refine ite_pinv (op_B6_pinv s h) ?_
  refine ite_pinv (op_A0_pinv s h) ?_
  refine ite_pinv (by rw [branch_flag_reg_p]; exact h) ?_
  refine ite_pinv (by rw [branch_flag_reg_p]; exact h) ?_
  refine ite_pinv (by rw [branch_flag_reg_p]; exact h) ?_
  refine ite_pinv (by rw [branch_flag_reg_p]; exact h) ?_
  refine ite_pinv (by rw [branch_flag_reg_p]; exact h) ?_
  refine ite_pinv (by rw [branch_flag_reg_p]; exact h) ?_
  refine ite_pinv (by rw [branch_flag_reg_p]; exact h) ?_
  refine ite_pinv (by rw [branch_flag_reg_p]; exact h) ?_
  refine ite_pinv (op_EA_pinv s h) ?_
  exact op_default_pinv s h

theorem decode_opcode_pinv (s : State) (h : PInv s.reg_p) : PInv (decode_opcode s).reg_p := by
  simp only [decode_opcode]
  exact ite_pinv (decode_alu_pinv s h) (decode_other_pinv s h)

theorem run_cycle_pinv (s : State) (h : PInv s.reg_p) : PInv (p6502_run_cycle s).2.reg_p := by
  have h1 : PInv (if s.hang = 0 then
      (if ({ s with cycle_number := (s.cycle_number + 1) % 0x100000000 } : State).cur_instr_index < 1
        then fetch_opcode { s with cycle_number := (s.cycle_number + 1) % 0x100000000 }
        else decode_opcode { s with cycle_number := (s.cycle_number + 1) % 0x100000000 })
      else s).reg_p := by
    refine ite_pinv (ite_pinv ?_ (decode_opcode_pinv _ h)) h
    rw [fetch_opcode_reg_p]
    exact h
  simp only [p6502_run_cycle]
  exact ite_pinv h1 h1

theorem power_on_pinv (s : State) : PInv (p6502_power_on s).reg_p := by
  have e : (p6502_power_on s).reg_p = 0x24 := rfl
  rw [e]
  unfold PInv
  decide

/-- C7: `p6502_power_on` establishes (P & 0x20) = 0x20 and (P & 0x10) = 0; one
call of `p6502_run_cycle` preserves both from every state (any RAM, mapper
contents, opcode and micro-step index); hence they hold in every state
reachable from power-on by run_cycle, step, resume and break. -/
theorem status_invariant :
    (∀ s : State, PInv (p6502_power_on s).reg_p) ∧
    (∀ s : State, PInv s.reg_p → PInv (p6502_run_cycle s).2.reg_p) ∧
    (∀ s : State, Reachable s → s.reg_p &&& 0x20 = 0x20 ∧ s.reg_p &&& 0x10 = 0) := by
  refine ⟨power_on_pinv, run_cycle_pinv, ?_⟩
  intro s hs
  induction hs with
  | power_on s => exact power_on_pinv s
  | run_cycle _ ih => exact run_cycle_pinv _ ih
  | step _ ih => exact ih
  | resume _ ih => exact ih
  | brk _ ih => exact ih

/-- Witness for C7: one cycle from `adc_state` (P = `$24`). -/
theorem status_invariant_witness :
    PInv adc_state.reg_p ∧ PInv (p6502_run_cycle adc_state).2.reg_p :=
  ⟨by unfold PInv; decide, status_invariant.2.1 adc_state (by unfold PInv; decide)⟩

/-! ## Projections of the statement helpers

One rewrite rule per helper and variable, for symbolic execution by `simp`. -/

@[simp] theorem read_memory_internal_ram (s : State) (a : Nat) :
    (read_memory s a).2.internal_ram = s.internal_ram := by
  cases s
  rfl

@[simp] theorem read_memory_cur_instr (s : State) (a : Nat) :
    (read_memory s a).2.cur_instr = s.cur_instr := by
  cases s
  rfl

@[simp] theorem read_memory_cur_instr_index (s : State) (a : Nat) :
    (read_memory s a).2.cur_instr_index = s.cur_instr_index := by
  cases s
  rfl

@[simp] theorem read_memory_p6502_single_step (s : State) (a : Nat) :
    (read_memory s a).2.p6502_single_step = s.p6502_single_step := by
  cases s
  rfl

@[simp] theorem read_memory_hang (s : State) (a : Nat) :
    (read_memory s a).2.hang = s.hang := by
  cases s
  rfl

@[simp] theorem read_memory_cycle_number (s : State) (a : Nat) :
    (read_memory s a).2.cycle_number = s.cycle_number := by
  cases s
  rfl

@[simp] theorem read_memory_reg_a (s : State) (a : Nat) :
    (read_memory s a).2.reg_a = s.reg_a := by
  cases s
  rfl

@[simp] theorem read_memory_reg_x (s : State) (a : Nat) :
    (read_memory s a).2.reg_x = s.reg_x := by
  cases s
  rfl

@[simp] theorem read_memory_reg_y (s : State) (a : Nat) :
    (read_memory s a).2.reg_y = s.reg_y := by
  cases s
  rfl

@[simp] theorem read_memory_pc (s : State) (a : Nat) :
    (read_memory s a).2.pc = s.pc := by
  cases s
  rfl

@[simp] theorem read_memory_reg_s (s : State) (a : Nat) :
    (read_memory s a).2.reg_s = s.reg_s := by
  cases s
  rfl

@[simp] theorem read_memory_mapper_cpur (s : State) (a : Nat) :
    (read_memory s a).2.mapper_cpur = s.mapper_cpur := by
  cases s
  rfl

@[simp] theorem read_memory_mapper_cpuw (s : State) (a : Nat) :
    (read_memory s a).2.mapper_cpuw = s.mapper_cpuw := by
  cases s
  rfl

@[simp] theorem read_memory_mapper_ppur (s : State) (a : Nat) :
    (read_memory s a).2.mapper_ppur = s.mapper_ppur := by
  cases s
  rfl

@[simp] theorem read_memory_mapper_ppuw (s : State) (a : Nat) :
    (read_memory s a).2.mapper_ppuw = s.mapper_ppuw := by
  cases s
  rfl

@[simp] theorem read_memory_mapper0_prg_rom (s : State) (a : Nat) :
    (read_memory s a).2.mapper0_prg_rom = s.mapper0_prg_rom := by
  cases s
  rfl

@[simp] theorem read_memory_mapper0_prg_rom_mask (s : State) (a : Nat) :
    (read_memory s a).2.mapper0_prg_rom_mask = s.mapper0_prg_rom_mask := by
  cases s
  rfl

@[simp] theorem read_memory_bus (s : State) (a : Nat) :
    (read_memory s a).2.bus = s.bus ++ [Access.read (a % 65536)] := by
  cases s
  rfl

@[simp] theorem fetch_opcode_internal_ram (s : State) :
    (fetch_opcode s).internal_ram = s.internal_ram := by
  cases s
  rfl

@[simp] theorem fetch_opcode_cur_instr (s : State) :
    (fetch_opcode s).cur_instr = store_instr s.cur_instr s.cur_instr_index (read_memory s s.pc).1 := by
  cases s
  rfl

@[simp] theorem fetch_opcode_cur_instr_index (s : State) :
    (fetch_opcode s).cur_instr_index = (s.cur_instr_index + 1) % 256 := by
  cases s
  rfl

@[simp] theorem fetch_opcode_p6502_single_step (s : State) :
    (fetch_opcode s).p6502_single_step = s.p6502_single_step := by
  cases s
  rfl

@[simp] theorem fetch_opcode_hang (s : State) :
    (fetch_opcode s).hang = s.hang := by
  cases s
  rfl

@[simp] theorem fetch_opcode_cycle_number (s : State) :
    (fetch_opcode s).cycle_number = s.cycle_number := by
  cases s
  rfl

@[simp] theorem fetch_opcode_reg_a (s : State) :
    (fetch_opcode s).reg_a = s.reg_a := by
  cases s
  rfl

@[simp] theorem fetch_opcode_reg_x (s : State) :
    (fetch_opcode s).reg_x = s.reg_x := by
  cases s
  rfl

@[simp] theorem fetch_opcode_reg_y (s : State) :
    (fetch_opcode s).reg_y = s.reg_y := by
  cases s
  rfl

@[simp] theorem fetch_opcode_pc (s : State) :
    (fetch_opcode s).pc = (s.pc + 1) % 65536 := by
  cases s
  rfl

@[simp] theorem fetch_opcode_reg_s (s : State) :
    (fetch_opcode s).reg_s = s.reg_s := by
  cases s
  rfl

@[simp] theorem fetch_opcode_mapper_cpur (s : State) :
    (fetch_opcode s).mapper_cpur = s.mapper_cpur := by
  cases s
  rfl

@[simp] theorem fetch_opcode_mapper_cpuw (s : State) :
    (fetch_opcode s).mapper_cpuw = s.mapper_cpuw := by
  cases s
  rfl

@[simp] theorem fetch_opcode_mapper_ppur (s : State) :
    (fetch_opcode s).mapper_ppur = s.mapper_ppur := by
  cases s
  rfl

@[simp] theorem fetch_opcode_mapper_ppuw (s : State) :
    (fetch_opcode s).mapper_ppuw = s.mapper_ppuw := by
  cases s
  rfl

@[simp] theorem fetch_opcode_mapper0_prg_rom (s : State) :
    (fetch_opcode s).mapper0_prg_rom = s.mapper0_prg_rom := by
  cases s
  rfl

@[simp] theorem fetch_opcode_mapper0_prg_rom_mask (s : State) :
    (fetch_opcode s).mapper0_prg_rom_mask = s.mapper0_prg_rom_mask := by
  cases s
  rfl

@[simp] theorem fetch_opcode_bus (s : State) :
    (fetch_opcode s).bus = s.bus ++ [Access.read (s.pc % 65536)] := by
  cases s
  rfl

@[simp] theorem set_instr_internal_ram (s : State) (k v : Nat) :
    (set_instr s k v).internal_ram = s.internal_ram := by
  cases s
  rfl

@[simp] theorem set_instr_cur_instr (s : State) (k v : Nat) :
    (set_instr s k v).cur_instr = store s.cur_instr k v := by
  cases s
  rfl

@[simp] theorem set_instr_cur_instr_index (s : State) (k v : Nat) :
    (set_instr s k v).cur_instr_index = s.cur_instr_index := by
  cases s
  rfl

@[simp] theorem set_instr_p6502_single_step (s : State) (k v : Nat) :
    (set_instr s k v).p6502_single_step = s.p6502_single_step := by
  cases s
  rfl

@[simp] theorem set_instr_hang (s : State) (k v : Nat) :
    (set_instr s k v).hang = s.hang := by
  cases s
  rfl

@[simp] theorem set_instr_cycle_number (s : State) (k v : Nat) :
    (set_instr s k v).cycle_number = s.cycle_number := by
  cases s
  rfl

@[simp] theorem set_instr_reg_a (s : State) (k v : Nat) :
    (set_instr s k v).reg_a = s.reg_a := by
  cases s
  rfl

@[simp] theorem set_instr_reg_x (s : State) (k v : Nat) :
    (set_instr s k v).reg_x = s.reg_x := by
  cases s
  rfl

@[simp] theorem set_instr_reg_y (s : State) (k v : Nat) :
    (set_instr s k v).reg_y = s.reg_y := by
  cases s
  rfl

@[simp] theorem set_instr_pc (s : State) (k v : Nat) :
    (set_instr s k v).pc = s.pc := by
  cases s
  rfl

@[simp] theorem set_instr_reg_s (s : State) (k v : Nat) :
    (set_instr s k v).reg_s = s.reg_s := by
  cases s
  rfl

@[simp] theorem set_instr_mapper_cpur (s : State) (k v : Nat) :
    (set_instr s k v).mapper_cpur = s.mapper_cpur := by
  cases s
  rfl

@[simp] theorem set_instr_mapper_cpuw (s : State) (k v : Nat) :
    (set_instr s k v).mapper_cpuw = s.mapper_cpuw := by
  cases s
  rfl

@[simp] theorem set_instr_mapper_ppur (s : State) (k v : Nat) :
    (set_instr s k v).mapper_ppur = s.mapper_ppur := by
  cases s
  rfl

@[simp] theorem set_instr_mapper_ppuw (s : State) (k v : Nat) :
    (set_instr s k v).mapper_ppuw = s.mapper_ppuw := by
  cases s
  rfl

@[simp] theorem set_instr_mapper0_prg_rom (s : State) (k v : Nat) :
    (set_instr s k v).mapper0_prg_rom = s.mapper0_prg_rom := by
  cases s
  rfl

@[simp] theorem set_instr_mapper0_prg_rom_mask (s : State) (k v : Nat) :
    (set_instr s k v).mapper0_prg_rom_mask = s.mapper0_prg_rom_mask := by
  cases s
  rfl

@[simp] theorem set_instr_bus (s : State) (k v : Nat) :
    (set_instr s k v).bus = s.bus := by
  cases s
  rfl

@[simp] theorem inc_index_internal_ram (s : State) :
    (inc_index s).internal_ram = s.internal_ram := by
  cases s
  rfl

@[simp] theorem inc_index_cur_instr (s : State) :
    (inc_index s).cur_instr = s.cur_instr := by
  cases s
  rfl

@[simp] theorem inc_index_cur_instr_index (s : State) :
    (inc_index s).cur_instr_index = (s.cur_instr_index + 1) % 256 := by
  cases s
  rfl

@[simp] theorem inc_index_p6502_single_step (s : State) :
    (inc_index s).p6502_single_step = s.p6502_single_step := by
  cases s
  rfl

@[simp] theorem inc_index_hang (s : State) :
    (inc_index s).hang = s.hang := by
  cases s
  rfl

@[simp] theorem inc_index_cycle_number (s : State) :
    (inc_index s).cycle_number = s.cycle_number := by
  cases s
  rfl

@[simp] theorem inc_index_reg_a (s : State) :
    (inc_index s).reg_a = s.reg_a := by
  cases s
  rfl

@[simp] theorem inc_index_reg_x (s : State) :
    (inc_index s).reg_x = s.reg_x := by
  cases s
  rfl

@[simp] theorem inc_index_reg_y (s : State) :
    (inc_index s).reg_y = s.reg_y := by
  cases s
  rfl

@[simp] theorem inc_index_pc (s : State) :
    (inc_index s).pc = s.pc := by
  cases s
  rfl

@[simp] theorem inc_index_reg_s (s : State) :
    (inc_index s).reg_s = s.reg_s := by
  cases s
  rfl

@[simp] theorem inc_index_mapper_cpur (s : State) :
    (inc_index s).mapper_cpur = s.mapper_cpur := by
  cases s
  rfl

@[simp] theorem inc_index_mapper_cpuw (s : State) :
    (inc_index s).mapper_cpuw = s.mapper_cpuw := by
  cases s
  rfl

@[simp] theorem inc_index_mapper_ppur (s : State) :
    (inc_index s).mapper_ppur = s.mapper_ppur := by
  cases s
  rfl

@[simp] theorem inc_index_mapper_ppuw (s : State) :
    (inc_index s).mapper_ppuw = s.mapper_ppuw := by
  cases s
  rfl

@[simp] theorem inc_index_mapper0_prg_rom (s : State) :
    (inc_index s).mapper0_prg_rom = s.mapper0_prg_rom := by
  cases s
  rfl

@[simp] theorem inc_index_mapper0_prg_rom_mask (s : State) :
    (inc_index s).mapper0_prg_rom_mask = s.mapper0_prg_rom_mask := by
  cases s
  rfl

@[simp] theorem inc_index_bus (s : State) :
    (inc_index s).bus = s.bus := by
  cases s
  rfl

@[simp] theorem set_index_internal_ram (s : State) (n : Nat) :
    (set_index s n).internal_ram = s.internal_ram := by
  cases s
  rfl

@[simp] theorem set_index_cur_instr (s : State) (n : Nat) :
    (set_index s n).cur_instr = s.cur_instr := by
  cases s
  rfl

@[simp] theorem set_index_cur_instr_index (s : State) (n : Nat) :
    (set_index s n).cur_instr_index = n := by
  cases s
  rfl

@[simp] theorem set_index_p6502_single_step (s : State) (n : Nat) :
    (set_index s n).p6502_single_step = s.p6502_single_step := by
  cases s
  rfl

@[simp] theorem set_index_hang (s : State) (n : Nat) :
    (set_index s n).hang = s.hang := by
  cases s
  rfl

@[simp] theorem set_index_cycle_number (s : State) (n : Nat) :
    (set_index s n).cycle_number = s.cycle_number := by
  cases s
  rfl

@[simp] theorem set_index_reg_a (s : State) (n : Nat) :
    (set_index s n).reg_a = s.reg_a := by
  cases s
  rfl

@[simp] theorem set_index_reg_x (s : State) (n : Nat) :
    (set_index s n).reg_x = s.reg_x := by
  cases s
  rfl

@[simp] theorem set_index_reg_y (s : State) (n : Nat) :
    (set_index s n).reg_y = s.reg_y := by
  cases s
  rfl

@[simp] theorem set_index_pc (s : State) (n : Nat) :
    (set_index s n).pc = s.pc := by
  cases s
  rfl

@[simp] theorem set_index_reg_s (s : State) (n : Nat) :
    (set_index s n).reg_s = s.reg_s := by
  cases s
  rfl

@[simp] theorem set_index_mapper_cpur (s : State) (n : Nat) :
    (set_index s n).mapper_cpur = s.mapper_cpur := by
  cases s
  rfl

@[simp] theorem set_index_mapper_cpuw (s : State) (n : Nat) :
    (set_index s n).mapper_cpuw = s.mapper_cpuw := by
  cases s
  rfl

@[simp] theorem set_index_mapper_ppur (s : State) (n : Nat) :
    (set_index s n).mapper_ppur = s.mapper_ppur := by
  cases s
  rfl

@[simp] theorem set_index_mapper_ppuw (s : State) (n : Nat) :
    (set_index s n).mapper_ppuw = s.mapper_ppuw := by
  cases s
  rfl

@[simp] theorem set_index_mapper0_prg_rom (s : State) (n : Nat) :
    (set_index s n).mapper0_prg_rom = s.mapper0_prg_rom := by
  cases s
  rfl

@[simp] theorem set_index_mapper0_prg_rom_mask (s : State) (n : Nat) :
    (set_index s n).mapper0_prg_rom_mask = s.mapper0_prg_rom_mask := by
  cases s
  rfl

@[simp] theorem set_index_bus (s : State) (n : Nat) :
    (set_index s n).bus = s.bus := by
  cases s
  rfl

@[simp] theorem pull_internal_ram (s : State) :
    (pull s).2.internal_ram = s.internal_ram := by
  cases s
  rfl

@[simp] theorem pull_cur_instr (s : State) :
    (pull s).2.cur_instr = s.cur_instr := by
  cases s
  rfl

@[simp] theorem pull_cur_instr_index (s : State) :
    (pull s).2.cur_instr_index = s.cur_instr_index := by
  cases s
  rfl

@[simp] theorem pull_p6502_single_step (s : State) :
    (pull s).2.p6502_single_step = s.p6502_single_step := by
  cases s
  rfl

@[simp] theorem pull_hang (s : State) :
    (pull s).2.hang = s.hang := by
  cases s
  rfl

@[simp] theorem pull_cycle_number (s : State) :
    (pull s).2.cycle_number = s.cycle_number := by
  cases s
  rfl

@[simp] theorem pull_reg_a (s : State) :
    (pull s).2.reg_a = s.reg_a := by
  cases s
  rfl

@[simp] theorem pull_reg_x (s : State) :
    (pull s).2.reg_x = s.reg_x := by
  cases s
  rfl

@[simp] theorem pull_reg_y (s : State) :
    (pull s).2.reg_y = s.reg_y := by
  cases s
  rfl

@[simp] theorem pull_pc (s : State) :
    (pull s).2.pc = s.pc := by
  cases s
  rfl

@[simp] theorem pull_reg_s (s : State) :
    (pull s).2.reg_s = (s.reg_s + 1) % 256 := by
  cases s
  rfl

@[simp] theorem pull_mapper_cpur (s : State) :
    (pull s).2.mapper_cpur = s.mapper_cpur := by
  cases s
  rfl

@[simp] theorem pull_mapper_cpuw (s : State) :
    (pull s).2.mapper_cpuw = s.mapper_cpuw := by
  cases s
  rfl

@[simp] theorem pull_mapper_ppur (s : State) :
    (pull s).2.mapper_ppur = s.mapper_ppur := by
  cases s
  rfl

@[simp] theorem pull_mapper_ppuw (s : State) :
    (pull s).2.mapper_ppuw = s.mapper_ppuw := by
  cases s
  rfl

@[simp] theorem pull_mapper0_prg_rom (s : State) :
    (pull s).2.mapper0_prg_rom = s.mapper0_prg_rom := by
  cases s
  rfl

@[simp] theorem pull_mapper0_prg_rom_mask (s : State) :
    (pull s).2.mapper0_prg_rom_mask = s.mapper0_prg_rom_mask := by
  cases s
  rfl

@[simp] theorem pull_bus (s : State) :
    (pull s).2.bus = s.bus ++ [Access.read ((0x100 + (s.reg_s + 1) % 256) % 65536)] := by
  cases s
  rfl
@[simp] theorem write_memory_internal_ram (s : State) (a v : Nat) :
    (write_memory s a v).internal_ram = (if a % 65536 < 0x2000 then
      store s.internal_ram (a % 65536 &&& 0x7FF) (v % 256) else s.internal_ram) := by
  simp only [write_memory]
  split_ifs <;> rfl

@[simp] theorem write_memory_cur_instr (s : State) (a v : Nat) :
    (write_memory s a v).cur_instr = s.cur_instr := by
  simp only [write_memory]
  split_ifs <;> rfl

@[simp] theorem write_memory_cur_instr_index (s : State) (a v : Nat) :
    (write_memory s a v).cur_instr_index = s.cur_instr_index := by
  simp only [write_memory]
  split_ifs <;> rfl

@[simp] theorem write_memory_p6502_single_step (s : State) (a v : Nat) :
    (write_memory s a v).p6502_single_step = s.p6502_single_step := by
  simp only [write_memory]
  split_ifs <;> rfl

@[simp] theorem write_memory_hang (s : State) (a v : Nat) :
    (write_memory s a v).hang = s.hang := by
  simp only [write_memory]
  split_ifs <;> rfl

@[simp] theorem write_memory_cycle_number (s : State) (a v : Nat) :
    (write_memory s a v).cycle_number = s.cycle_number := by
  simp only [write_memory]
  split_ifs <;> rfl

@[simp] theorem write_memory_reg_a (s : State) (a v : Nat) :
    (write_memory s a v).reg_a = s.reg_a := by
  simp only [write_memory]
  split_ifs <;> rfl

@[simp] theorem write_memory_reg_x (s : State) (a v : Nat) :
    (write_memory s a v).reg_x = s.reg_x := by
  simp only [write_memory]
  split_ifs <;> rfl

@[simp] theorem write_memory_reg_y (s : State) (a v : Nat) :
    (write_memory s a v).reg_y = s.reg_y := by
  simp only [write_memory]
  split_ifs <;> rfl

@[simp] theorem write_memory_pc (s : State) (a v : Nat) :
    (write_memory s a v).pc = s.pc := by
  simp only [write_memory]
  split_ifs <;> rfl

@[simp] theorem write_memory_reg_s (s : State) (a v : Nat) :
    (write_memory s a v).reg_s = s.reg_s := by
  simp only [write_memory]
  split_ifs <;> rfl

@[simp] theorem write_memory_mapper_cpur (s : State) (a v : Nat) :
    (write_memory s a v).mapper_cpur = s.mapper_cpur := by
  simp only [write_memory]
  split_ifs <;> rfl

@[simp] theorem write_memory_mapper_cpuw (s : State) (a v : Nat) :
    (write_memory s a v).mapper_cpuw = s.mapper_cpuw := by
  simp only [write_memory]
  split_ifs <;> rfl

@[simp] theorem write_memory_mapper_ppur (s : State) (a v : Nat) :
    (write_memory s a v).mapper_ppur = s.mapper_ppur := by
  simp only [write_memory]
  split_ifs <;> rfl

@[simp] theorem write_memory_mapper_ppuw (s : State) (a v : Nat) :
    (write_memory s a v).mapper_ppuw = s.mapper_ppuw := by
  simp only [write_memory]
  split_ifs <;> rfl

@[simp] theorem write_memory_mapper0_prg_rom (s : State) (a v : Nat) :
    (write_memory s a v).mapper0_prg_rom = s.mapper0_prg_rom := by
  simp only [write_memory]
  split_ifs <;> rfl

@[simp] theorem write_memory_mapper0_prg_rom_mask (s : State) (a v : Nat) :
    (write_memory s a v).mapper0_prg_rom_mask = s.mapper0_prg_rom_mask := by
  simp only [write_memory]
  split_ifs <;> rfl

@[simp] theorem write_memory_bus (s : State) (a v : Nat) :
    (write_memory s a v).bus = s.bus ++ [Access.write (a % 65536) (v % 256)] := by
  simp only [write_memory]
  split_ifs <;> rfl

@[simp] theorem push_internal_ram (s : State) (v : Nat) :
    (push s v).internal_ram = (if (0x100 + s.reg_s) % 65536 < 0x2000 then
      store s.internal_ram ((0x100 + s.reg_s) % 65536 &&& 0x7FF) (v % 256) else s.internal_ram) :=
  Eq.trans (by delta push; rfl) (write_memory_internal_ram s (0x100 + s.reg_s) v)

@[simp] theorem push_cur_instr (s : State) (v : Nat) :
    (push s v).cur_instr = s.cur_instr :=
  Eq.trans (by delta push; rfl) (write_memory_cur_instr s (0x100 + s.reg_s) v)

@[simp] theorem push_cur_instr_index (s : State) (v : Nat) :
    (push s v).cur_instr_index = s.cur_instr_index :=
  Eq.trans (by delta push; rfl) (write_memory_cur_instr_index s (0x100 + s.reg_s) v)

@[simp] theorem push_p6502_single_step (s : State) (v : Nat) :
    (push s v).p6502_single_step = s.p6502_single_step :=
  Eq.trans (by delta push; rfl) (write_memory_p6502_single_step s (0x100 + s.reg_s) v)

@[simp] theorem push_hang (s : State) (v : Nat) :
    (push s v).hang = s.hang :=
  Eq.trans (by delta push; rfl) (write_memory_hang s (0x100 + s.reg_s) v)

@[simp] theorem push_cycle_number (s : State) (v : Nat) :
    (push s v).cycle_number = s.cycle_number :=
  Eq.trans (by delta push; rfl) (write_memory_cycle_number s (0x100 + s.reg_s) v)

@[simp] theorem push_reg_a (s : State) (v : Nat) :
    (push s v).reg_a = s.reg_a :=
  Eq.trans (by delta push; rfl) (write_memory_reg_a s (0x100 + s.reg_s) v)

@[simp] theorem push_reg_x (s : State) (v : Nat) :
    (push s v).reg_x = s.reg_x :=
  Eq.trans (by delta push; rfl) (write_memory_reg_x s (0x100 + s.reg_s) v)

@[simp] theorem push_reg_y (s : State) (v : Nat) :
    (push s v).reg_y = s.reg_y :=
  Eq.trans (by delta push; rfl) (write_memory_reg_y s (0x100 + s.reg_s) v)

@[simp] theorem push_pc (s : State) (v : Nat) :
    (push s v).pc = s.pc :=
  Eq.trans (by delta push; rfl) (write_memory_pc s (0x100 + s.reg_s) v)

@[simp] theorem push_reg_s (s : State) (v : Nat) :
    (push s v).reg_s = isub s.reg_s 1 % 256 := by
  delta push
  rfl

@[simp] theorem push_mapper_cpur (s : State) (v : Nat) :
    (push s v).mapper_cpur = s.mapper_cpur :=
  Eq.trans (by delta push; rfl) (write_memory_mapper_cpur s (0x100 + s.reg_s) v)

@[simp] theorem push_mapper_cpuw (s : State) (v : Nat) :
    (push s v).mapper_cpuw = s.mapper_cpuw :=
  Eq.trans (by delta push; rfl) (write_memory_mapper_cpuw s (0x100 + s.reg_s) v)

@[simp] theorem push_mapper_ppur (s : State) (v : Nat) :
    (push s v).mapper_ppur = s.mapper_ppur :=
  Eq.trans (by delta push; rfl) (write_memory_mapper_ppur s (0x100 + s.reg_s) v)

@[simp] theorem push_mapper_ppuw (s : State) (v : Nat) :
    (push s v).mapper_ppuw = s.mapper_ppuw :=
  Eq.trans (by delta push; rfl) (write_memory_mapper_ppuw s (0x100 + s.reg_s) v)

@[simp] theorem push_mapper0_prg_rom (s : State) (v : Nat) :
    (push s v).mapper0_prg_rom = s.mapper0_prg_rom :=
  Eq.trans (by delta push; rfl) (write_memory_mapper0_prg_rom s (0x100 + s.reg_s) v)

@[simp] theorem push_mapper0_prg_rom_mask (s : State) (v : Nat) :
    (push s v).mapper0_prg_rom_mask = s.mapper0_prg_rom_mask :=
  Eq.trans (by delta push; rfl) (write_memory_mapper0_prg_rom_mask s (0x100 + s.reg_s) v)

@[simp] theorem push_bus (s : State) (v : Nat) :
    (push s v).bus = s.bus ++ [Access.write ((0x100 + s.reg_s) % 65536) (v % 256)] :=
  Eq.trans (by delta push; rfl) (write_memory_bus s (0x100 + s.reg_s) v)

@[simp] theorem set_nz_internal_ram (s : State) (v : Nat) :
    (set_nz s v).internal_ram = s.internal_ram := by
  cases s
  rfl

@[simp] theorem set_nz_cur_instr (s : State) (v : Nat) :
    (set_nz s v).cur_instr = s.cur_instr := by
  cases s
  rfl

@[simp] theorem set_nz_cur_instr_index (s : State) (v : Nat) :
    (set_nz s v).cur_instr_index = s.cur_instr_index := by
  cases s
  rfl

@[simp] theorem set_nz_p6502_single_step (s : State) (v : Nat) :
    (set_nz s v).p6502_single_step = s.p6502_single_step := by
  cases s
  rfl

@[simp] theorem set_nz_hang (s : State) (v : Nat) :
    (set_nz s v).hang = s.hang := by
  cases s
  rfl

@[simp] theorem set_nz_cycle_number (s : State) (v : Nat) :
    (set_nz s v).cycle_number = s.cycle_number := by
  cases s
  rfl

@[simp] theorem set_nz_reg_a (s : State) (v : Nat) :
    (set_nz s v).reg_a = s.reg_a := by
  cases s
  rfl

@[simp] theorem set_nz_reg_x (s : State) (v : Nat) :
    (set_nz s v).reg_x = s.reg_x := by
  cases s
  rfl

@[simp] theorem set_nz_reg_y (s : State) (v : Nat) :
    (set_nz s v).reg_y = s.reg_y := by
  cases s
  rfl

@[simp] theorem set_nz_pc (s : State) (v : Nat) :
    (set_nz s v).pc = s.pc := by
  cases s
  rfl

@[simp] theorem set_nz_reg_s (s : State) (v : Nat) :
    (set_nz s v).reg_s = s.reg_s := by
  cases s
  rfl

@[simp] theorem set_nz_reg_p (s : State) (v : Nat) :
    (set_nz s v).reg_p = set_flag (set_flag s.reg_p STATUS_NEGATIVE (decide (v &&& 0x80 ≠ 0))) STATUS_ZERO
      (decide (¬ (v ≠ 0))) := by
  cases s
  rfl

@[simp] theorem set_nz_mapper_cpur (s : State) (v : Nat) :
    (set_nz s v).mapper_cpur = s.mapper_cpur := by
  cases s
  rfl

@[simp] theorem set_nz_mapper_cpuw (s : State) (v : Nat) :
    (set_nz s v).mapper_cpuw = s.mapper_cpuw := by
  cases s
  rfl

@[simp] theorem set_nz_mapper_ppur (s : State) (v : Nat) :
    (set_nz s v).mapper_ppur = s.mapper_ppur := by
  cases s
  rfl

@[simp] theorem set_nz_mapper_ppuw (s : State) (v : Nat) :
    (set_nz s v).mapper_ppuw = s.mapper_ppuw := by
  cases s
  rfl

@[simp] theorem set_nz_mapper0_prg_rom (s : State) (v : Nat) :
    (set_nz s v).mapper0_prg_rom = s.mapper0_prg_rom := by
  cases s
  rfl

@[simp] theorem set_nz_mapper0_prg_rom_mask (s : State) (v : Nat) :
    (set_nz s v).mapper0_prg_rom_mask = s.mapper0_prg_rom_mask := by
  cases s
  rfl

@[simp] theorem set_nz_bus (s : State) (v : Nat) :
    (set_nz s v).bus = s.bus := by
  cases s
  rfl

@[simp] theorem cmp_flags_internal_ram (s : State) (r m : Nat) :
    (cmp_flags s r m).internal_ram = s.internal_ram := by
  cases s
  rfl

@[simp] theorem cmp_flags_cur_instr (s : State) (r m : Nat) :
    (cmp_flags s r m).cur_instr = s.cur_instr := by
  cases s
  rfl

@[simp] theorem cmp_flags_cur_instr_index (s : State) (r m : Nat) :
    (cmp_flags s r m).cur_instr_index = s.cur_instr_index := by
  cases s
  rfl

@[simp] theorem cmp_flags_p6502_single_step (s : State) (r m : Nat) :
    (cmp_flags s r m).p6502_single_step = s.p6502_single_step := by
  cases s
  rfl

@[simp] theorem cmp_flags_hang (s : State) (r m : Nat) :
    (cmp_flags s r m).hang = s.hang := by
  cases s
  rfl

@[simp] theorem cmp_flags_cycle_number (s : State) (r m : Nat) :
    (cmp_flags s r m).cycle_number = s.cycle_number := by
  cases s
  rfl

@[simp] theorem cmp_flags_reg_a (s : State) (r m : Nat) :
    (cmp_flags s r m).reg_a = s.reg_a := by
  cases s
  rfl

@[simp] theorem cmp_flags_reg_x (s : State) (r m : Nat) :
    (cmp_flags s r m).reg_x = s.reg_x := by
  cases s
  rfl

@[simp] theorem cmp_flags_reg_y (s : State) (r m : Nat) :
    (cmp_flags s r m).reg_y = s.reg_y := by
  cases s
  rfl

@[simp] theorem cmp_flags_pc (s : State) (r m : Nat) :
    (cmp_flags s r m).pc = s.pc := by
  cases s
  rfl

@[simp] theorem cmp_flags_reg_s (s : State) (r m : Nat) :
    (cmp_flags s r m).reg_s = s.reg_s := by
  cases s
  rfl

@[simp] theorem cmp_flags_reg_p (s : State) (r m : Nat) :
    (cmp_flags s r m).reg_p = set_flag (set_flag (set_flag s.reg_p STATUS_NEGATIVE (decide (isub r m &&& 0x80 ≠ 0)))
      STATUS_ZERO (decide (r = m))) STATUS_CARRY (decide (r ≥ m)) := by
  cases s
  rfl

@[simp] theorem cmp_flags_mapper_cpur (s : State) (r m : Nat) :
    (cmp_flags s r m).mapper_cpur = s.mapper_cpur := by
  cases s
  rfl

@[simp] theorem cmp_flags_mapper_cpuw (s : State) (r m : Nat) :
    (cmp_flags s r m).mapper_cpuw = s.mapper_cpuw := by
  cases s
  rfl

@[simp] theorem cmp_flags_mapper_ppur (s : State) (r m : Nat) :
    (cmp_flags s r m).mapper_ppur = s.mapper_ppur := by
  cases s
  rfl

@[simp] theorem cmp_flags_mapper_ppuw (s : State) (r m : Nat) :
    (cmp_flags s r m).mapper_ppuw = s.mapper_ppuw := by
  cases s
  rfl

@[simp] theorem cmp_flags_mapper0_prg_rom (s : State) (r m : Nat) :
    (cmp_flags s r m).mapper0_prg_rom = s.mapper0_prg_rom := by
  cases s
  rfl

@[simp] theorem cmp_flags_mapper0_prg_rom_mask (s : State) (r m : Nat) :
    (cmp_flags s r m).mapper0_prg_rom_mask = s.mapper0_prg_rom_mask := by
  cases s
  rfl

@[simp] theorem cmp_flags_bus (s : State) (r m : Nat) :
    (cmp_flags s r m).bus = s.bus := by
  cases s
  rfl

@[simp] theorem do_cmp_internal_ram (s : State) (v : Nat) :
    (do_cmp s v).internal_ram = s.internal_ram := by
  cases s
  rfl

@[simp] theorem do_cmp_cur_instr (s : State) (v : Nat) :
    (do_cmp s v).cur_instr = s.cur_instr := by
  cases s
  rfl

@[simp] theorem do_cmp_cur_instr_index (s : State) (v : Nat) :
    (do_cmp s v).cur_instr_index = s.cur_instr_index := by
  cases s
  rfl

@[simp] theorem do_cmp_p6502_single_step (s : State) (v : Nat) :
    (do_cmp s v).p6502_single_step = s.p6502_single_step := by
  cases s
  rfl

@[simp] theorem do_cmp_hang (s : State) (v : Nat) :
    (do_cmp s v).hang = s.hang := by
  cases s
  rfl

@[simp] theorem do_cmp_cycle_number (s : State) (v : Nat) :
    (do_cmp s v).cycle_number = s.cycle_number := by
  cases s
  rfl

@[simp] theorem do_cmp_reg_a (s : State) (v : Nat) :
    (do_cmp s v).reg_a = s.reg_a := by
  cases s
  rfl

@[simp] theorem do_cmp_reg_x (s : State) (v : Nat) :
    (do_cmp s v).reg_x = s.reg_x := by
  cases s
  rfl

@[simp] theorem do_cmp_reg_y (s : State) (v : Nat) :
    (do_cmp s v).reg_y = s.reg_y := by
  cases s
  rfl

@[simp] theorem do_cmp_pc (s : State) (v : Nat) :
    (do_cmp s v).pc = s.pc := by
  cases s
  rfl

@[simp] theorem do_cmp_reg_s (s : State) (v : Nat) :
    (do_cmp s v).reg_s = s.reg_s := by
  cases s
  rfl

@[simp] theorem do_cmp_mapper_cpur (s : State) (v : Nat) :
    (do_cmp s v).mapper_cpur = s.mapper_cpur := by
  cases s
  rfl

@[simp] theorem do_cmp_mapper_cpuw (s : State) (v : Nat) :
    (do_cmp s v).mapper_cpuw = s.mapper_cpuw := by
  cases s
  rfl

@[simp] theorem do_cmp_mapper_ppur (s : State) (v : Nat) :
    (do_cmp s v).mapper_ppur = s.mapper_ppur := by
  cases s
  rfl

@[simp] theorem do_cmp_mapper_ppuw (s : State) (v : Nat) :
    (do_cmp s v).mapper_ppuw = s.mapper_ppuw := by
  cases s
  rfl

@[simp] theorem do_cmp_mapper0_prg_rom (s : State) (v : Nat) :
    (do_cmp s v).mapper0_prg_rom = s.mapper0_prg_rom := by
  cases s
  rfl

@[simp] theorem do_cmp_mapper0_prg_rom_mask (s : State) (v : Nat) :
    (do_cmp s v).mapper0_prg_rom_mask = s.mapper0_prg_rom_mask := by
  cases s
  rfl

@[simp] theorem do_cmp_bus (s : State) (v : Nat) :
    (do_cmp s v).bus = s.bus := by
  cases s
  rfl

@[simp] theorem do_adc_internal_ram (s : State) (v : Nat) :
    (do_adc s v).internal_ram = s.internal_ram := by
  cases s
  rfl

@[simp] theorem do_adc_cur_instr (s : State) (v : Nat) :
    (do_adc s v).cur_instr = s.cur_instr := by
  cases s
  rfl

@[simp] theorem do_adc_cur_instr_index (s : State) (v : Nat) :
    (do_adc s v).cur_instr_index = s.cur_instr_index := by
  cases s
  rfl

@[simp] theorem do_adc_p6502_single_step (s : State) (v : Nat) :
    (do_adc s v).p6502_single_step = s.p6502_single_step := by
  cases s
  rfl

@[simp] theorem do_adc_hang (s : State) (v : Nat) :
    (do_adc s v).hang = s.hang := by
  cases s
  rfl

@[simp] theorem do_adc_cycle_number (s : State) (v : Nat) :
    (do_adc s v).cycle_number = s.cycle_number := by
  cases s
  rfl

@[simp] theorem do_adc_reg_x (s : State) (v : Nat) :
    (do_adc s v).reg_x = s.reg_x := by
  cases s
  rfl

@[simp] theorem do_adc_reg_y (s : State) (v : Nat) :
    (do_adc s v).reg_y = s.reg_y := by
  cases s
  rfl

@[simp] theorem do_adc_pc (s : State) (v : Nat) :
    (do_adc s v).pc = s.pc := by
  cases s
  rfl

@[simp] theorem do_adc_reg_s (s : State) (v : Nat) :
    (do_adc s v).reg_s = s.reg_s := by
  cases s
  rfl

@[simp] theorem do_adc_mapper_cpur (s : State) (v : Nat) :
    (do_adc s v).mapper_cpur = s.mapper_cpur := by
  cases s
  rfl

@[simp] theorem do_adc_mapper_cpuw (s : State) (v : Nat) :
    (do_adc s v).mapper_cpuw = s.mapper_cpuw := by
  cases s
  rfl

@[simp] theorem do_adc_mapper_ppur (s : State) (v : Nat) :
    (do_adc s v).mapper_ppur = s.mapper_ppur := by
  cases s
  rfl

@[simp] theorem do_adc_mapper_ppuw (s : State) (v : Nat) :
    (do_adc s v).mapper_ppuw = s.mapper_ppuw := by
  cases s
  rfl

@[simp] theorem do_adc_mapper0_prg_rom (s : State) (v : Nat) :
    (do_adc s v).mapper0_prg_rom = s.mapper0_prg_rom := by
  cases s
  rfl

@[simp] theorem do_adc_mapper0_prg_rom_mask (s : State) (v : Nat) :
    (do_adc s v).mapper0_prg_rom_mask = s.mapper0_prg_rom_mask := by
  cases s
  rfl

@[simp] theorem do_adc_bus (s : State) (v : Nat) :
    (do_adc s v).bus = s.bus := by
  cases s
  rfl

@[simp] theorem do_sbc_internal_ram (s : State) (v : Nat) :
    (do_sbc s v).internal_ram = s.internal_ram := by
  cases s
  rfl

@[simp] theorem do_sbc_cur_instr (s : State) (v : Nat) :
    (do_sbc s v).cur_instr = s.cur_instr := by
  cases s
  rfl

@[simp] theorem do_sbc_cur_instr_index (s : State) (v : Nat) :
    (do_sbc s v).cur_instr_index = s.cur_instr_index := by
  cases s
  rfl

@[simp] theorem do_sbc_p6502_single_step (s : State) (v : Nat) :
    (do_sbc s v).p6502_single_step = s.p6502_single_step := by
  cases s
  rfl

@[simp] theorem do_sbc_hang (s : State) (v : Nat) :
    (do_sbc s v).hang = s.hang := by
  cases s
  rfl

@[simp] theorem do_sbc_cycle_number (s : State) (v : Nat) :
    (do_sbc s v).cycle_number = s.cycle_number := by
  cases s
  rfl

@[simp] theorem do_sbc_reg_x (s : State) (v : Nat) :
    (do_sbc s v).reg_x = s.reg_x := by
  cases s
  rfl

@[simp] theorem do_sbc_reg_y (s : State) (v : Nat) :
    (do_sbc s v).reg_y = s.reg_y := by
  cases s
  rfl

@[simp] theorem do_sbc_pc (s : State) (v : Nat) :
    (do_sbc s v).pc = s.pc := by
  cases s
  rfl

@[simp] theorem do_sbc_reg_s (s : State) (v : Nat) :
    (do_sbc s v).reg_s = s.reg_s := by
  cases s
  rfl

@[simp] theorem do_sbc_mapper_cpur (s : State) (v : Nat) :
    (do_sbc s v).mapper_cpur = s.mapper_cpur := by
  cases s
  rfl

@[simp] theorem do_sbc_mapper_cpuw (s : State) (v : Nat) :
    (do_sbc s v).mapper_cpuw = s.mapper_cpuw := by
  cases s
  rfl

@[simp] theorem do_sbc_mapper_ppur (s : State) (v : Nat) :
    (do_sbc s v).mapper_ppur = s.mapper_ppur := by
  cases s
  rfl

@[simp] theorem do_sbc_mapper_ppuw (s : State) (v : Nat) :
    (do_sbc s v).mapper_ppuw = s.mapper_ppuw := by
  cases s
  rfl

@[simp] theorem do_sbc_mapper0_prg_rom (s : State) (v : Nat) :
    (do_sbc s v).mapper0_prg_rom = s.mapper0_prg_rom := by
  cases s
  rfl

@[simp] theorem do_sbc_mapper0_prg_rom_mask (s : State) (v : Nat) :
    (do_sbc s v).mapper0_prg_rom_mask = s.mapper0_prg_rom_mask := by
  cases s
  rfl

@[simp] theorem do_sbc_bus (s : State) (v : Nat) :
    (do_sbc s v).bus = s.bus := by
  cases s
  rfl
/-! ## Read values and latch cells under symbolic execution -/

theorem read_memory_val (s : State) (a : Nat) :
    (read_memory s a).1 =
      bus_val s.internal_ram s.mapper_cpur s.mapper0_prg_rom s.mapper0_prg_rom_mask a := by
  cases s
  rfl

theorem pull_val (s : State) :
    (pull s).1 =
      bus_val s.internal_ram s.mapper_cpur s.mapper0_prg_rom s.mapper0_prg_rom_mask
        (0x100 + (s.reg_s + 1) % 256) := by
  cases s
  rfl

theorem bus_val_lt (ram : Nat → Nat) (cpur : Option mem_read_callback) (prg : Nat → Nat)
    (mask a : Nat) : bus_val ram cpur prg mask a < 256 :=
  read_memory_val_lt _ _

@[simp] theorem bus_val_mod256 (ram : Nat → Nat) (cpur : Option mem_read_callback)
    (prg : Nat → Nat) (mask a : Nat) :
    bus_val ram cpur prg mask a % 256 = bus_val ram cpur prg mask a :=
  Nat.mod_eq_of_lt (bus_val_lt ram cpur prg mask a)

@[simp] theorem bus_val_mod (ram : Nat → Nat) (cpur : Option mem_read_callback)
    (prg : Nat → Nat) (mask a : Nat) :
    bus_val ram cpur prg mask (a % 65536) = bus_val ram cpur prg mask a := by
  simp only [bus_val, read_memory, Nat.mod_mod]

@[simp] theorem store_apply (a : Nat → Nat) (i v j : Nat) :
    store a i v j = if j = i then v % 256 else a j := rfl

@[simp] theorem store_instr_lt (a : Nat → Nat) (i v : Nat) (h : i < 5) :
    store_instr a i v = store a i v := by
  simp [store_instr, h]

@[simp] theorem bus_val_mod_add (ram : Nat → Nat) (cpur : Option mem_read_callback)
    (prg : Nat → Nat) (mask a k : Nat) :
    bus_val ram cpur prg mask (a % 65536 + k) = bus_val ram cpur prg mask (a + k) := by
  rw [← bus_val_mod, Nat.mod_add_mod, bus_val_mod]
/-! ## The tick entry point, cycle by cycle -/

@[simp] theorem single_step_halt_internal_ram (t : State) :
    (single_step_halt t).internal_ram = t.internal_ram := by
  simp only [single_step_halt]
  split_ifs <;> rfl

@[simp] theorem single_step_halt_cur_instr (t : State) :
    (single_step_halt t).cur_instr = t.cur_instr := by
  simp only [single_step_halt]
  split_ifs <;> rfl

@[simp] theorem single_step_halt_cur_instr_index (t : State) :
    (single_step_halt t).cur_instr_index = t.cur_instr_index := by
  simp only [single_step_halt]
  split_ifs <;> rfl

@[simp] theorem single_step_halt_p6502_single_step (t : State) :
    (single_step_halt t).p6502_single_step = t.p6502_single_step := by
  simp only [single_step_halt]
  split_ifs <;> rfl

@[simp] theorem single_step_halt_hang (t : State) :
    (single_step_halt t).hang =
      if t.cur_instr_index = 0 ∧ t.p6502_single_step = 1 then 1 else t.hang := by
  simp only [single_step_halt]
  split_ifs <;> rfl

@[simp] theorem single_step_halt_cycle_number (t : State) :
    (single_step_halt t).cycle_number = t.cycle_number := by
  simp only [single_step_halt]
  split_ifs <;> rfl

@[simp] theorem single_step_halt_reg_a (t : State) :
    (single_step_halt t).reg_a = t.reg_a := by
  simp only [single_step_halt]
  split_ifs <;> rfl

@[simp] theorem single_step_halt_reg_x (t : State) :
    (single_step_halt t).reg_x = t.reg_x := by
  simp only [single_step_halt]
  split_ifs <;> rfl

@[simp] theorem single_step_halt_reg_y (t : State) :
    (single_step_halt t).reg_y = t.reg_y := by
  simp only [single_step_halt]
  split_ifs <;> rfl

@[simp] theorem single_step_halt_pc (t : State) :
    (single_step_halt t).pc = t.pc := by
  simp only [single_step_halt]
  split_ifs <;> rfl

@[simp] theorem single_step_halt_reg_s (t : State) :
    (single_step_halt t).reg_s = t.reg_s := by
  simp only [single_step_halt]
  split_ifs <;> rfl

@[simp] theorem single_step_halt_reg_p (t : State) :
    (single_step_halt t).reg_p = t.reg_p := by
  simp only [single_step_halt]
  split_ifs <;> rfl

@[simp] theorem single_step_halt_mapper_cpur (t : State) :
    (single_step_halt t).mapper_cpur = t.mapper_cpur := by
  simp only [single_step_halt]
  split_ifs <;> rfl

@[simp] theorem single_step_halt_mapper_cpuw (t : State) :
    (single_step_halt t).mapper_cpuw = t.mapper_cpuw := by
  simp only [single_step_halt]
  split_ifs <;> rfl

@[simp] theorem single_step_halt_mapper_ppur (t : State) :
    (single_step_halt t).mapper_ppur = t.mapper_ppur := by
  simp only [single_step_halt]
  split_ifs <;> rfl

@[simp] theorem single_step_halt_mapper_ppuw (t : State) :
    (single_step_halt t).mapper_ppuw = t.mapper_ppuw := by
  simp only [single_step_halt]
  split_ifs <;> rfl

@[simp] theorem single_step_halt_mapper0_prg_rom (t : State) :
    (single_step_halt t).mapper0_prg_rom = t.mapper0_prg_rom := by
  simp only [single_step_halt]
  split_ifs <;> rfl

@[simp] theorem single_step_halt_mapper0_prg_rom_mask (t : State) :
    (single_step_halt t).mapper0_prg_rom_mask = t.mapper0_prg_rom_mask := by
  simp only [single_step_halt]
  split_ifs <;> rfl

@[simp] theorem single_step_halt_bus (t : State) :
    (single_step_halt t).bus = t.bus := by
  simp only [single_step_halt]
  split_ifs <;> rfl

@[simp] theorem tick_internal_ram (s : State) : (tick s).internal_ram = s.internal_ram := by
  cases s
  rfl

@[simp] theorem tick_cur_instr (s : State) : (tick s).cur_instr = s.cur_instr := by
  cases s
  rfl

@[simp] theorem tick_cur_instr_index (s : State) : (tick s).cur_instr_index = s.cur_instr_index := by
  cases s
  rfl

@[simp] theorem tick_p6502_single_step (s : State) : (tick s).p6502_single_step = s.p6502_single_step := by
  cases s
  rfl

@[simp] theorem tick_hang (s : State) : (tick s).hang = s.hang := by
  cases s
  rfl

@[simp] theorem tick_cycle_number (s : State) : (tick s).cycle_number = (s.cycle_number + 1) % 0x100000000 := by
  cases s
  rfl

@[simp] theorem tick_reg_a (s : State) : (tick s).reg_a = s.reg_a := by
  cases s
  rfl

@[simp] theorem tick_reg_x (s : State) : (tick s).reg_x = s.reg_x := by
  cases s
  rfl

@[simp] theorem tick_reg_y (s : State) : (tick s).reg_y = s.reg_y := by
  cases s
  rfl

@[simp] theorem tick_pc (s : State) : (tick s).pc = s.pc := by
  cases s
  rfl

@[simp] theorem tick_reg_s (s : State) : (tick s).reg_s = s.reg_s := by
  cases s
  rfl

@[simp] theorem tick_reg_p (s : State) : (tick s).reg_p = s.reg_p := by
  cases s
  rfl

@[simp] theorem tick_mapper_cpur (s : State) : (tick s).mapper_cpur = s.mapper_cpur := by
  cases s
  rfl

@[simp] theorem tick_mapper_cpuw (s : State) : (tick s).mapper_cpuw = s.mapper_cpuw := by
  cases s
  rfl

@[simp] theorem tick_mapper_ppur (s : State) : (tick s).mapper_ppur = s.mapper_ppur := by
  cases s
  rfl

@[simp] theorem tick_mapper_ppuw (s : State) : (tick s).mapper_ppuw = s.mapper_ppuw := by
  cases s
  rfl

@[simp] theorem tick_mapper0_prg_rom (s : State) : (tick s).mapper0_prg_rom = s.mapper0_prg_rom := by
  cases s
  rfl

@[simp] theorem tick_mapper0_prg_rom_mask (s : State) : (tick s).mapper0_prg_rom_mask = s.mapper0_prg_rom_mask := by
  cases s
  rfl

@[simp] theorem tick_bus (s : State) : (tick s).bus = s.bus := by
  cases s
  rfl

/-- A cycle at an instruction boundary is the opcode fetch. -/
theorem run_cycle_fetch (s : State) (hh : s.hang = 0) (hi : s.cur_instr_index = 0) :
    (p6502_run_cycle s).2 =
      fetch_opcode (tick s) := by
  simp [p6502_run_cycle, tick, hh, hi]

/-- A cycle inside an instruction is one decode step, followed by the
single-step check. -/
theorem run_cycle_decode (s : State) (hh : s.hang = 0) (hi : s.cur_instr_index ≠ 0) :
    (p6502_run_cycle s).2 =
      single_step_halt
        (decode_opcode (tick s)) := by
  have h1 : ¬ s.cur_instr_index < 1 := by omega
  simp only [p6502_run_cycle, single_step_halt, tick, hh, h1, if_true, if_false]

@[simp] theorem run_cycles_zero (s : State) : run_cycles 0 s = s := rfl

@[simp] theorem run_cycles_succ (n : Nat) (s : State) :
    run_cycles (n + 1) s = run_cycles n (p6502_run_cycle s).2 := rfl
/-! ## Dispatch of `decode_opcode` on the opcode in `cur_instr[0]` -/

theorem decode_opcode_E0 (s : State) (h : s.cur_instr 0 = 0xE0) :
    decode_opcode s = op_E0 s := by
  have e : ¬ ((0xE0 : Nat) &&& 0x3 = 0x1) := by decide
  simp [decode_opcode, decode_other, h, e]

theorem decode_opcode_E4 (s : State) (h : s.cur_instr 0 = 0xE4) :
    decode_opcode s = op_E4 s := by
  have e : ¬ ((0xE4 : Nat) &&& 0x3 = 0x1) := by decide
  simp [decode_opcode, decode_other, h, e]

theorem decode_opcode_EC (s : State) (h : s.cur_instr 0 = 0xEC) :
    decode_opcode s = op_EC s := by
  have e : ¬ ((0xEC : Nat) &&& 0x3 = 0x1) := by decide
  simp [decode_opcode, decode_other, h, e]

theorem decode_opcode_C0 (s : State) (h : s.cur_instr 0 = 0xC0) :
    decode_opcode s = op_C0 s := by
  have e : ¬ ((0xC0 : Nat) &&& 0x3 = 0x1) := by decide
  simp [decode_opcode, decode_other, h, e]

theorem decode_opcode_C4 (s : State) (h : s.cur_instr 0 = 0xC4) :
    decode_opcode s = op_C4 s := by
  have e : ¬ ((0xC4 : Nat) &&& 0x3 = 0x1) := by decide
  simp [decode_opcode, decode_other, h, e]

theorem decode_opcode_CC (s : State) (h : s.cur_instr 0 = 0xCC) :
    decode_opcode s = op_CC s := by
  have e : ¬ ((0xCC : Nat) &&& 0x3 = 0x1) := by decide
  simp [decode_opcode, decode_other, h, e]

theorem decode_opcode_C6 (s : State) (h : s.cur_instr 0 = 0xC6) :
    decode_opcode s = op_C6 s := by
  have e : ¬ ((0xC6 : Nat) &&& 0x3 = 0x1) := by decide
  simp [decode_opcode, decode_other, h, e]

theorem decode_opcode_D6 (s : State) (h : s.cur_instr 0 = 0xD6) :
    decode_opcode s = op_D6 s := by
  have e : ¬ ((0xD6 : Nat) &&& 0x3 = 0x1) := by decide
  simp [decode_opcode, decode_other, h, e]

theorem decode_opcode_CE (s : State) (h : s.cur_instr 0 = 0xCE) :
    decode_opcode s = op_CE s := by
  have e : ¬ ((0xCE : Nat) &&& 0x3 = 0x1) := by decide
  simp [decode_opcode, decode_other, h, e]

theorem decode_opcode_DE (s : State) (h : s.cur_instr 0 = 0xDE) :
    decode_opcode s = op_DE s := by
  have e : ¬ ((0xDE : Nat) &&& 0x3 = 0x1) := by decide
  simp [decode_opcode, decode_other, h, e]

theorem decode_opcode_E6 (s : State) (h : s.cur_instr 0 = 0xE6) :
    decode_opcode s = op_E6 s := by
  have e : ¬ ((0xE6 : Nat) &&& 0x3 = 0x1) := by decide
  simp [decode_opcode, decode_other, h, e]

theorem decode_opcode_F6 (s : State) (h : s.cur_instr 0 = 0xF6) :
    decode_opcode s = op_F6 s := by
  have e : ¬ ((0xF6 : Nat) &&& 0x3 = 0x1) := by decide
  simp [decode_opcode, decode_other, h, e]

theorem decode_opcode_EE (s : State) (h : s.cur_instr 0 = 0xEE) :
    decode_opcode s = op_EE s := by
  have e : ¬ ((0xEE : Nat) &&& 0x3 = 0x1) := by decide
  simp [decode_opcode, decode_other, h, e]

theorem decode_opcode_FE (s : State) (h : s.cur_instr 0 = 0xFE) :
    decode_opcode s = op_FE s := by
  have e : ¬ ((0xFE : Nat) &&& 0x3 = 0x1) := by decide
  simp [decode_opcode, decode_other, h, e]

theorem decode_opcode_E8 (s : State) (h : s.cur_instr 0 = 0xE8) :
    decode_opcode s = op_E8 s := by
  have e : ¬ ((0xE8 : Nat) &&& 0x3 = 0x1) := by decide
  simp [decode_opcode, decode_other, h, e]

theorem decode_opcode_C8 (s : State) (h : s.cur_instr 0 = 0xC8) :
    decode_opcode s = op_C8 s := by
  have e : ¬ ((0xC8 : Nat) &&& 0x3 = 0x1) := by decide
  simp [decode_opcode, decode_other, h, e]

theorem decode_opcode_CA (s : State) (h : s.cur_instr 0 = 0xCA) :
    decode_opcode s = op_CA s := by
  have e : ¬ ((0xCA : Nat) &&& 0x3 = 0x1) := by decide
  simp [decode_opcode, decode_other, h, e]

theorem decode_opcode_88 (s : State) (h : s.cur_instr 0 = 0x88) :
    decode_opcode s = op_88 s := by
  have e : ¬ ((0x88 : Nat) &&& 0x3 = 0x1) := by decide
  simp [decode_opcode, decode_other, h, e]

theorem decode_opcode_AA (s : State) (h : s.cur_instr 0 = 0xAA) :
    decode_opcode s = op_AA s := by
  have e : ¬ ((0xAA : Nat) &&& 0x3 = 0x1) := by decide
  simp [decode_opcode, decode_other, h, e]

theorem decode_opcode_BA (s : State) (h : s.cur_instr 0 = 0xBA) :
    decode_opcode s = op_BA s := by
  have e : ¬ ((0xBA : Nat) &&& 0x3 = 0x1) := by decide
  simp [decode_opcode, decode_other, h, e]

theorem decode_opcode_9A (s : State) (h : s.cur_instr 0 = 0x9A) :
    decode_opcode s = op_9A s := by
  have e : ¬ ((0x9A : Nat) &&& 0x3 = 0x1) := by decide
  simp [decode_opcode, decode_other, h, e]

theorem decode_opcode_A8 (s : State) (h : s.cur_instr 0 = 0xA8) :
    decode_opcode s = op_A8 s := by
  have e : ¬ ((0xA8 : Nat) &&& 0x3 = 0x1) := by decide
  simp [decode_opcode, decode_other, h, e]

theorem decode_opcode_8A (s : State) (h : s.cur_instr 0 = 0x8A) :
    decode_opcode s = op_8A s := by
  have e : ¬ ((0x8A : Nat) &&& 0x3 = 0x1) := by decide
  simp [decode_opcode, decode_other, h, e]

theorem decode_opcode_98 (s : State) (h : s.cur_instr 0 = 0x98) :
    decode_opcode s = op_98 s := by
  have e : ¬ ((0x98 : Nat) &&& 0x3 = 0x1) := by decide
  simp [decode_opcode, decode_other, h, e]

theorem decode_opcode_40 (s : State) (h : s.cur_instr 0 = 0x40) :
    decode_opcode s = op_40 s := by
  have e : ¬ ((0x40 : Nat) &&& 0x3 = 0x1) := by decide
  simp [decode_opcode, decode_other, h, e]

theorem decode_opcode_60 (s : State) (h : s.cur_instr 0 = 0x60) :
    decode_opcode s = op_60 s := by
  have e : ¬ ((0x60 : Nat) &&& 0x3 = 0x1) := by decide
  simp [decode_opcode, decode_other, h, e]

theorem decode_opcode_20 (s : State) (h : s.cur_instr 0 = 0x20) :
    decode_opcode s = op_20 s := by
  have e : ¬ ((0x20 : Nat) &&& 0x3 = 0x1) := by decide
  simp [decode_opcode, decode_other, h, e]

theorem decode_opcode_6C (s : State) (h : s.cur_instr 0 = 0x6C) :
    decode_opcode s = op_6C s := by
  have e : ¬ ((0x6C : Nat) &&& 0x3 = 0x1) := by decide
  simp [decode_opcode, decode_other, h, e]

theorem decode_opcode_68 (s : State) (h : s.cur_instr 0 = 0x68) :
    decode_opcode s = op_68 s := by
  have e : ¬ ((0x68 : Nat) &&& 0x3 = 0x1) := by decide
  simp [decode_opcode, decode_other, h, e]

theorem decode_opcode_28 (s : State) (h : s.cur_instr 0 = 0x28) :
    decode_opcode s = op_28 s := by
  have e : ¬ ((0x28 : Nat) &&& 0x3 = 0x1) := by decide
  simp [decode_opcode, decode_other, h, e]

theorem decode_opcode_08 (s : State) (h : s.cur_instr 0 = 0x08) :
    decode_opcode s = op_08 s := by
  have e : ¬ ((0x08 : Nat) &&& 0x3 = 0x1) := by decide
  simp [decode_opcode, decode_other, h, e]

theorem decode_opcode_48 (s : State) (h : s.cur_instr 0 = 0x48) :
    decode_opcode s = op_48 s := by
  have e : ¬ ((0x48 : Nat) &&& 0x3 = 0x1) := by decide
  simp [decode_opcode, decode_other, h, e]

theorem decode_opcode_18 (s : State) (h : s.cur_instr 0 = 0x18) :
    decode_opcode s = op_18 s := by
  have e : ¬ ((0x18 : Nat) &&& 0x3 = 0x1) := by decide
  simp [decode_opcode, decode_other, h, e]

theorem decode_opcode_D8 (s : State) (h : s.cur_instr 0 = 0xD8) :
    decode_opcode s = op_D8 s := by
  have e : ¬ ((0xD8 : Nat) &&& 0x3 = 0x1) := by decide
  simp [decode_opcode, decode_other, h, e]

theorem decode_opcode_B8 (s : State) (h : s.cur_instr 0 = 0xB8) :
    decode_opcode s = op_B8 s := by
  have e : ¬ ((0xB8 : Nat) &&& 0x3 = 0x1) := by decide
  simp [decode_opcode, decode_other, h, e]

theorem decode_opcode_38 (s : State) (h : s.cur_instr 0 = 0x38) :
    decode_opcode s = op_38 s := by
  have e : ¬ ((0x38 : Nat) &&& 0x3 = 0x1) := by decide
  simp [decode_opcode, decode_other, h, e]

theorem decode_opcode_F8 (s : State) (h : s.cur_instr 0 = 0xF8) :
    decode_opcode s = op_F8 s := by
  have e : ¬ ((0xF8 : Nat) &&& 0x3 = 0x1) := by decide
  simp [decode_opcode, decode_other, h, e]

theorem decode_opcode_78 (s : State) (h : s.cur_instr 0 = 0x78) :
    decode_opcode s = op_78 s := by
  have e : ¬ ((0x78 : Nat) &&& 0x3 = 0x1) := by decide
  simp [decode_opcode, decode_other, h, e]

theorem decode_opcode_0A (s : State) (h : s.cur_instr 0 = 0x0A) :
    decode_opcode s = op_0A s := by
  have e : ¬ ((0x0A : Nat) &&& 0x3 = 0x1) := by decide
  simp [decode_opcode, decode_other, h, e]

theorem decode_opcode_06 (s : State) (h : s.cur_instr 0 = 0x06) :
    decode_opcode s = op_06 s := by
  have e : ¬ ((0x06 : Nat) &&& 0x3 = 0x1) := by decide
  simp [decode_opcode, decode_other, h, e]

theorem decode_opcode_16 (s : State) (h : s.cur_instr 0 = 0x16) :
    decode_opcode s = op_16 s := by
  have e : ¬ ((0x16 : Nat) &&& 0x3 = 0x1) := by decide
  simp [decode_opcode, decode_other, h, e]

theorem decode_opcode_0E (s : State) (h : s.cur_instr 0 = 0x0E) :
    decode_opcode s = op_0E s := by
  have e : ¬ ((0x0E : Nat) &&& 0x3 = 0x1) := by decide
  simp [decode_opcode, decode_other, h, e]

theorem decode_opcode_1E (s : State) (h : s.cur_instr 0 = 0x1E) :
    decode_opcode s = op_1E s := by
  have e : ¬ ((0x1E : Nat) &&& 0x3 = 0x1) := by decide
  simp [decode_opcode, decode_other, h, e]

theorem decode_opcode_4A (s : State) (h : s.cur_instr 0 = 0x4A) :
    decode_opcode s = op_4A s := by
  have e : ¬ ((0x4A : Nat) &&& 0x3 = 0x1) := by decide
  simp [decode_opcode, decode_other, h, e]

theorem decode_opcode_46 (s : State) (h : s.cur_instr 0 = 0x46) :
    decode_opcode s = op_46 s := by
  have e : ¬ ((0x46 : Nat) &&& 0x3 = 0x1) := by decide
  simp [decode_opcode, decode_other, h, e]

theorem decode_opcode_56 (s : State) (h : s.cur_instr 0 = 0x56) :
    decode_opcode s = op_56 s := by
  have e : ¬ ((0x56 : Nat) &&& 0x3 = 0x1) := by decide
  simp [decode_opcode, decode_other, h, e]

theorem decode_opcode_4E (s : State) (h : s.cur_instr 0 = 0x4E) :
    decode_opcode s = op_4E s := by
  have e : ¬ ((0x4E : Nat) &&& 0x3 = 0x1) := by decide
  simp [decode_opcode, decode_other, h, e]

theorem decode_opcode_5E (s : State) (h : s.cur_instr 0 = 0x5E) :
    decode_opcode s = op_5E s := by
  have e : ¬ ((0x5E : Nat) &&& 0x3 = 0x1) := by decide
  simp [decode_opcode, decode_other, h, e]

theorem decode_opcode_2A (s : State) (h : s.cur_instr 0 = 0x2A) :
    decode_opcode s = op_2A s := by
  have e : ¬ ((0x2A : Nat) &&& 0x3 = 0x1) := by decide
  simp [decode_opcode, decode_other, h, e]

theorem decode_opcode_26 (s : State) (h : s.cur_instr 0 = 0x26) :
    decode_opcode s = op_26 s := by
  have e : ¬ ((0x26 : Nat) &&& 0x3 = 0x1) := by decide
  simp [decode_opcode, decode_other, h, e]

theorem decode_opcode_36 (s : State) (h : s.cur_instr 0 = 0x36) :
    decode_opcode s = op_36 s := by
  have e : ¬ ((0x36 : Nat) &&& 0x3 = 0x1) := by decide
  simp [decode_opcode, decode_other, h, e]

theorem decode_opcode_2E (s : State) (h : s.cur_instr 0 = 0x2E) :
    decode_opcode s = op_2E s := by
  have e : ¬ ((0x2E : Nat) &&& 0x3 = 0x1) := by decide
  simp [decode_opcode, decode_other, h, e]

theorem decode_opcode_3E (s : State) (h : s.cur_instr 0 = 0x3E) :
    decode_opcode s = op_3E s := by
  have e : ¬ ((0x3E : Nat) &&& 0x3 = 0x1) := by decide
  simp [decode_opcode, decode_other, h, e]

theorem decode_opcode_6A (s : State) (h : s.cur_instr 0 = 0x6A) :
    decode_opcode s = op_6A s := by
  have e : ¬ ((0x6A : Nat) &&& 0x3 = 0x1) := by decide
  simp [decode_opcode, decode_other, h, e]

theorem decode_opcode_66 (s : State) (h : s.cur_instr 0 = 0x66) :
    decode_opcode s = op_66 s := by
  have e : ¬ ((0x66 : Nat) &&& 0x3 = 0x1) := by decide
  simp [decode_opcode, decode_other, h, e]

theorem decode_opcode_76 (s : State) (h : s.cur_instr 0 = 0x76) :
    decode_opcode s = op_76 s := by
  have e : ¬ ((0x76 : Nat) &&& 0x3 = 0x1) := by decide
  simp [decode_opcode, decode_other, h, e]

theorem decode_opcode_6E (s : State) (h : s.cur_instr 0 = 0x6E) :
    decode_opcode s = op_6E s := by
  have e : ¬ ((0x6E : Nat) &&& 0x3 = 0x1) := by decide
  simp [decode_opcode, decode_other, h, e]

theorem decode_opcode_7E (s : State) (h : s.cur_instr 0 = 0x7E) :
    decode_opcode s = op_7E s := by
  have e : ¬ ((0x7E : Nat) &&& 0x3 = 0x1) := by decide
  simp [decode_opcode, decode_other, h, e]

theorem decode_opcode_24 (s : State) (h : s.cur_instr 0 = 0x24) :
    decode_opcode s = op_24 s := by
  have e : ¬ ((0x24 : Nat) &&& 0x3 = 0x1) := by decide
  simp [decode_opcode, decode_other, h, e]

theorem decode_opcode_2C (s : State) (h : s.cur_instr 0 = 0x2C) :
    decode_opcode s = op_2C s := by
  have e : ¬ ((0x2C : Nat) &&& 0x3 = 0x1) := by decide
  simp [decode_opcode, decode_other, h, e]

theorem decode_opcode_4C (s : State) (h : s.cur_instr 0 = 0x4C) :
    decode_opcode s = op_4C s := by
  have e : ¬ ((0x4C : Nat) &&& 0x3 = 0x1) := by decide
  simp [decode_opcode, decode_other, h, e]

theorem decode_opcode_86 (s : State) (h : s.cur_instr 0 = 0x86) :
    decode_opcode s = op_86 s := by
  have e : ¬ ((0x86 : Nat) &&& 0x3 = 0x1) := by decide
  simp [decode_opcode, decode_other, h, e]

theorem decode_opcode_96 (s : State) (h : s.cur_instr 0 = 0x96) :
    decode_opcode s = op_96 s := by
  have e : ¬ ((0x96 : Nat) &&& 0x3 = 0x1) := by decide
  simp [decode_opcode, decode_other, h, e]

theorem decode_opcode_8E (s : State) (h : s.cur_instr 0 = 0x8E) :
    decode_opcode s = op_8E s := by
  have e : ¬ ((0x8E : Nat) &&& 0x3 = 0x1) := by decide
  simp [decode_opcode, decode_other, h, e]

theorem decode_opcode_AE (s : State) (h : s.cur_instr 0 = 0xAE) :
    decode_opcode s = op_AE s := by
  have e : ¬ ((0xAE : Nat) &&& 0x3 = 0x1) := by decide
  simp [decode_opcode, decode_other, h, e]

theorem decode_opcode_BE (s : State) (h : s.cur_instr 0 = 0xBE) :
    decode_opcode s = op_BE s := by
  have e : ¬ ((0xBE : Nat) &&& 0x3 = 0x1) := by decide
  simp [decode_opcode, decode_other, h, e]

theorem decode_opcode_84 (s : State) (h : s.cur_instr 0 = 0x84) :
    decode_opcode s = op_84 s := by
  have e : ¬ ((0x84 : Nat) &&& 0x3 = 0x1) := by decide
  simp [decode_opcode, decode_other, h, e]

theorem decode_opcode_94 (s : State) (h : s.cur_instr 0 = 0x94) :
    decode_opcode s = op_94 s := by
  have e : ¬ ((0x94 : Nat) &&& 0x3 = 0x1) := by decide
  simp [decode_opcode, decode_other, h, e]

theorem decode_opcode_8C (s : State) (h : s.cur_instr 0 = 0x8C) :
    decode_opcode s = op_8C s := by
  have e : ¬ ((0x8C : Nat) &&& 0x3 = 0x1) := by decide
  simp [decode_opcode, decode_other, h, e]

theorem decode_opcode_A4 (s : State) (h : s.cur_instr 0 = 0xA4) :
    decode_opcode s = op_A4 s := by
  have e : ¬ ((0xA4 : Nat) &&& 0x3 = 0x1) := by decide
  simp [decode_opcode, decode_other, h, e]

theorem decode_opcode_B4 (s : State) (h : s.cur_instr 0 = 0xB4) :
    decode_opcode s = op_B4 s := by
  have e : ¬ ((0xB4 : Nat) &&& 0x3 = 0x1) := by decide
  simp [decode_opcode, decode_other, h, e]

theorem decode_opcode_AC (s : State) (h : s.cur_instr 0 = 0xAC) :
    decode_opcode s = op_AC s := by
  have e : ¬ ((0xAC : Nat) &&& 0x3 = 0x1) := by decide
  simp [decode_opcode, decode_other, h, e]

theorem decode_opcode_BC (s : State) (h : s.cur_instr 0 = 0xBC) :
    decode_opcode s = op_BC s := by
  have e : ¬ ((0xBC : Nat) &&& 0x3 = 0x1) := by decide
  simp [decode_opcode, decode_other, h, e]

theorem decode_opcode_A2 (s : State) (h : s.cur_instr 0 = 0xA2) :
    decode_opcode s = op_A2 s := by
  have e : ¬ ((0xA2 : Nat) &&& 0x3 = 0x1) := by decide
  simp [decode_opcode, decode_other, h, e]

theorem decode_opcode_A6 (s : State) (h : s.cur_instr 0 = 0xA6) :
    decode_opcode s = op_A6 s := by
  have e : ¬ ((0xA6 : Nat) &&& 0x3 = 0x1) := by decide
  simp [decode_opcode, decode_other, h, e]

theorem decode_opcode_B6 (s : State) (h : s.cur_instr 0 = 0xB6) :
    decode_opcode s = op_B6 s := by
  have e : ¬ ((0xB6 : Nat) &&& 0x3 = 0x1) := by decide
  simp [decode_opcode, decode_other, h, e]

theorem decode_opcode_A0 (s : State) (h : s.cur_instr 0 = 0xA0) :
    decode_opcode s = op_A0 s := by
  have e : ¬ ((0xA0 : Nat) &&& 0x3 = 0x1) := by decide
  simp [decode_opcode, decode_other, h, e]

theorem decode_opcode_50 (s : State) (h : s.cur_instr 0 = 0x50) :
    decode_opcode s = branch_flag s STATUS_OVERFLOW 0 := by
  have e : ¬ ((0x50 : Nat) &&& 0x3 = 0x1) := by decide
  simp [decode_opcode, decode_other, h, e]

theorem decode_opcode_70 (s : State) (h : s.cur_instr 0 = 0x70) :
    decode_opcode s = branch_flag s STATUS_OVERFLOW STATUS_OVERFLOW := by
  have e : ¬ ((0x70 : Nat) &&& 0x3 = 0x1) := by decide
  simp [decode_opcode, decode_other, h, e]

theorem decode_opcode_90 (s : State) (h : s.cur_instr 0 = 0x90) :
    decode_opcode s = branch_flag s STATUS_CARRY 0 := by
  have e : ¬ ((0x90 : Nat) &&& 0x3 = 0x1) := by decide
  simp [decode_opcode, decode_other, h, e]

theorem decode_opcode_10 (s : State) (h : s.cur_instr 0 = 0x10) :
    decode_opcode s = branch_flag s STATUS_NEGATIVE 0 := by
  have e : ¬ ((0x10 : Nat) &&& 0x3 = 0x1) := by decide
  simp [decode_opcode, decode_other, h, e]

theorem decode_opcode_30 (s : State) (h : s.cur_instr 0 = 0x30) :
    decode_opcode s = branch_flag s STATUS_NEGATIVE STATUS_NEGATIVE := by
  have e : ¬ ((0x30 : Nat) &&& 0x3 = 0x1) := by decide
  simp [decode_opcode, decode_other, h, e]

theorem decode_opcode_B0 (s : State) (h : s.cur_instr 0 = 0xB0) :
    decode_opcode s = branch_flag s STATUS_CARRY STATUS_CARRY := by
  have e : ¬ ((0xB0 : Nat) &&& 0x3 = 0x1) := by decide
  simp [decode_opcode, decode_other, h, e]

theorem decode_opcode_D0 (s : State) (h : s.cur_instr 0 = 0xD0) :
    decode_opcode s = branch_flag s STATUS_ZERO 0 := by
  have e : ¬ ((0xD0 : Nat) &&& 0x3 = 0x1) := by decide
  simp [decode_opcode, decode_other, h, e]

theorem decode_opcode_F0 (s : State) (h : s.cur_instr 0 = 0xF0) :
    decode_opcode s = branch_flag s STATUS_ZERO STATUS_ZERO := by
  have e : ¬ ((0xF0 : Nat) &&& 0x3 = 0x1) := by decide
  simp [decode_opcode, decode_other, h, e]

theorem decode_opcode_EA (s : State) (h : s.cur_instr 0 = 0xEA) :
    decode_opcode s = op_EA s := by
  have e : ¬ ((0xEA : Nat) &&& 0x3 = 0x1) := by decide
  simp [decode_opcode, decode_other, h, e]

theorem decode_opcode_alu (s : State) (h : s.cur_instr 0 &&& 0x3 = 0x1) :
    decode_opcode s = decode_alu s := by
  simp [decode_opcode, h]
/-! ## Projections of the fetch log -/

@[simp] theorem read_memory_fetches (s : State) (a : Nat) :
    (read_memory s a).2.fetches = s.fetches := by
  cases s
  rfl

@[simp] theorem fetch_opcode_fetches (s : State) :
    (fetch_opcode s).fetches = s.fetches ++ [s.cur_instr_index] := by
  cases s
  rfl

@[simp] theorem set_instr_fetches (s : State) (k v : Nat) :
    (set_instr s k v).fetches = s.fetches := by
  cases s
  rfl

@[simp] theorem inc_index_fetches (s : State) :
    (inc_index s).fetches = s.fetches := by
  cases s
  rfl

@[simp] theorem set_index_fetches (s : State) (n : Nat) :
    (set_index s n).fetches = s.fetches := by
  cases s
  rfl

@[simp] theorem pull_fetches (s : State) :
    (pull s).2.fetches = s.fetches := by
  cases s
  rfl

@[simp] theorem write_memory_fetches (s : State) (a v : Nat) :
    (write_memory s a v).fetches = s.fetches := by
  simp only [write_memory]
  split_ifs <;> rfl

@[simp] theorem push_fetches (s : State) (v : Nat) :
    (push s v).fetches = s.fetches :=
  Eq.trans (by delta push; rfl) (write_memory_fetches s (0x100 + s.reg_s) v)

@[simp] theorem set_nz_fetches (s : State) (v : Nat) :
    (set_nz s v).fetches = s.fetches := by
  cases s
  rfl

@[simp] theorem cmp_flags_fetches (s : State) (r m : Nat) :
    (cmp_flags s r m).fetches = s.fetches := by
  cases s
  rfl

@[simp] theorem do_cmp_fetches (s : State) (v : Nat) :
    (do_cmp s v).fetches = s.fetches := by
  cases s
  rfl

@[simp] theorem do_adc_fetches (s : State) (v : Nat) :
    (do_adc s v).fetches = s.fetches := by
  cases s
  rfl

@[simp] theorem do_sbc_fetches (s : State) (v : Nat) :
    (do_sbc s v).fetches = s.fetches := by
  cases s
  rfl

@[simp] theorem single_step_halt_fetches (t : State) :
    (single_step_halt t).fetches = t.fetches := by
  simp only [single_step_halt]
  split_ifs <;> rfl

@[simp] theorem tick_fetches (s : State) : (tick s).fetches = s.fetches := by
  cases s
  rfl

@[simp] theorem rol_slot_fetches (s : State) (k : Nat) :
    (rol_slot s k).fetches = s.fetches := by
  simp only [rol_slot]
  split_ifs <;> simp

@[simp] theorem ror_slot_fetches (s : State) (k : Nat) :
    (ror_slot s k).fetches = s.fetches := by
  simp only [ror_slot]
  split_ifs <;> simp
/-! ## SBC carry and the scenario S4 (C11, C12) -/

/-- The carry left by `do_sbc`: set exactly when the byte `temp` is below the old
accumulator, the comparison `temp < reg_a` of the source. -/
theorem do_sbc_carry_bit (s : State) (m : Nat) :
    (do_sbc s m).reg_p &&& 0x01 ≠ 0 ↔ (do_sbc s m).reg_a < s.reg_a := by
  rw [and_01, do_sbc_reg_p, do_sbc_reg_a]
  simp only [testBit_set_flag_Z, testBit_set_flag_N, testBit_set_flag_V, testBit_set_flag_C]
  simp

/-- The overflow, negative and zero flags left by `do_sbc`, in terms of the new
accumulator. -/
theorem do_sbc_vnz (s : State) (m : Nat) (hM : m < 256) :
    ((do_sbc s m).reg_p &&& 0x40 ≠ 0 ↔
      (s.reg_a ^^^ (do_sbc s m).reg_a) &&& ((m ^^^ 0xFF) ^^^ (do_sbc s m).reg_a) &&& 0x80 ≠ 0) ∧
    ((do_sbc s m).reg_p &&& 0x80 ≠ 0 ↔ 128 ≤ (do_sbc s m).reg_a % 256) ∧
    ((do_sbc s m).reg_p &&& 0x02 ≠ 0 ↔ (do_sbc s m).reg_a = 0) := by
  have hm : m % 256 = m := Nat.mod_eq_of_lt hM
  have hrp := do_sbc_reg_p s m
  rw [hm] at hrp
  refine ⟨?_, ?_, ?_⟩
  · rw [and_40 (do_sbc s m).reg_p, hrp, do_sbc_reg_a, hm]
    simp only [testBit_set_flag_Z, testBit_set_flag_N, testBit_set_flag_V]
    simp only [Nat.reduceLT, decide_True, Bool.true_and, Nat.reduceEqDiff, if_false, if_true,
      decide_eq_true_eq]
    exact sbc_overflow_bit _ _ _
  · rw [and_80 (do_sbc s m).reg_p, hrp, do_sbc_reg_a, hm]
    simp only [testBit_set_flag_Z, testBit_set_flag_N]
    simp [and_80, testBit7]
  · rw [and_02, hrp, do_sbc_reg_a, hm]
    simp only [testBit_set_flag_Z]
    simp

/-- C11 (as amended): for all bytes A, M and carry-in c other than M = 0 with
c = 1, after `do_sbc` the carry flag is set iff result < A (unsigned), where
result = (A - M - (1 - c)) mod 256 is the new accumulator; this is the inverted
unsigned borrow-out, C' = 1 iff A >= M + (1 - c) as integers. -/
theorem do_sbc_carry (s : State) (m : Nat) (hA : s.reg_a < 256) (hM : m < 256)
    (hne : ¬ (m = 0 ∧ s.reg_p &&& 1 = 1)) :
    (((do_sbc s m).reg_a : Nat) : Int) =
      ((s.reg_a : Int) - (m : Int) - (1 - ((s.reg_p &&& 1 : Nat) : Int))) % 256 ∧
    ((do_sbc s m).reg_p &&& 0x01 ≠ 0 ↔
      ((s.reg_a : Int) - (m : Int) - (1 - ((s.reg_p &&& 1 : Nat) : Int))) % 256 <
        (s.reg_a : Int)) ∧
    ((do_sbc s m).reg_p &&& 0x01 ≠ 0 ↔ s.reg_a ≥ m + (1 - (s.reg_p &&& 1))) := by
  have hm : m % 256 = m := Nat.mod_eq_of_lt hM
  have hc : s.reg_p &&& 1 = s.reg_p % 2 := Nat.and_one_is_mod _
  have hc1 : s.reg_p &&& 1 ≤ 1 := by omega
  have hra : (do_sbc s m).reg_a = (s.reg_a + 512 - m - (1 - (s.reg_p &&& 1))) % 256 := by
    rw [do_sbc_reg_a, hm, sbc_temp_eq _ _ _ hA hM hc1]
  have hcb := do_sbc_carry_bit s m
  rw [hra] at hcb
  rw [hra, hcb]
  refine ⟨by omega, by omega, by omega⟩

/-- Witness for C11 (as amended): A = `$50`, carry set, operand `$F0`: a borrow
occurs and the carry is cleared. -/
theorem do_sbc_carry_witness :
    (sbc_state.reg_a < 256 ∧ 0xF0 < 256 ∧ ¬ (0xF0 = 0 ∧ sbc_state.reg_p &&& 1 = 1)) ∧
    ((do_sbc sbc_state 0xF0).reg_p &&& 0x01 ≠ 0 ↔
      sbc_state.reg_a ≥ 0xF0 + (1 - (sbc_state.reg_p &&& 1))) :=
  ⟨⟨by decide, by decide, by decide⟩,
    (do_sbc_carry sbc_state 0xF0 (by decide) (by decide) (by decide)).2.2⟩

/-- C11 (counterexample): with A = `$50`, M = `$FF` and the carry clear the result
is `$50`, so result <= A holds, and yet `do_sbc` leaves the carry clear (a borrow
occurred: A < M + 1). -/
theorem do_sbc_carry_counterexample :
    ¬ ((do_sbc sbc_borrow_state 0xFF).reg_p &&& 0x01 ≠ 0 ↔
      ((sbc_borrow_state.reg_a : Int) - ((0xFF : Nat) : Int) -
        (1 - ((sbc_borrow_state.reg_p &&& 1 : Nat) : Int))) % 256 ≤
          (sbc_borrow_state.reg_a : Int)) := by
  decide

/-- The input left out of C11 (as amended): with A = `$50`, M = `$00` and the
carry set nothing is borrowed (A' = `$50`), and `do_sbc` clears the carry. -/
theorem do_sbc_carry_zero_operand :
    (do_sbc sbc_state 0x00).reg_a = 0x50 ∧ (do_sbc sbc_state 0x00).reg_p &&& 0x01 = 0 := by
  decide

/-- The outcome of `do_sbc` with operand `$F0` on any state with A = `$50` and the
carry set: A' = `$60`, and C, V, N, Z all clear. -/
theorem do_sbc_50_F0 (t : State) (hA : t.reg_a = 0x50) (hC : t.reg_p &&& 0x01 = 1) :
    (do_sbc t 0xF0).reg_a = 0x60 ∧ (do_sbc t 0xF0).reg_p &&& 0x01 = 0 ∧
    (do_sbc t 0xF0).reg_p &&& 0x40 = 0 ∧ (do_sbc t 0xF0).reg_p &&& 0x80 = 0 ∧
    (do_sbc t 0xF0).reg_p &&& 0x02 = 0 := by
  have hra : (do_sbc t 0xF0).reg_a = 0x60 := by
    rw [do_sbc_reg_a, hA, hC]
    decide
  have hc := do_sbc_carry_bit t 0xF0
  have hv := do_sbc_vnz t 0xF0 (by norm_num)
  rw [hra, hA] at hc
  rw [hra, hA] at hv
  have e : ¬ ((0x50 ^^^ 0x60) &&& ((0xF0 ^^^ 0xFF) ^^^ 0x60) &&& 0x80 ≠ 0) := by decide
  refine ⟨hra, ?_, ?_, ?_, ?_⟩
  · by_contra h
    exact absurd (hc.1 h) (by norm_num)
  · by_contra h
    exact e (hv.1.1 h)
  · by_contra h
    exact absurd (hv.2.1.1 h) (by norm_num)
  · by_contra h
    exact absurd (hv.2.2.1 h) (by norm_num)

set_option maxHeartbeats 400000 in
/-- C12 (as amended), scenario S4: executing `SBC #$F0` (opcode `$E9`) from an
instruction boundary with A = `$50` and C = 1 retires after 2 cycles with
A = `$60`, C = 0 (borrow occurred), V clear (no signed overflow: 80 - (-16) = 96),
N clear and Z clear. -/
theorem sbc_immediate_scenario (s : State) (hidx : s.cur_instr_index = 0) (hh : s.hang = 0)
    (hop : (read_memory s s.pc).1 = 0xE9) (hm : (read_memory s (s.pc + 1)).1 = 0xF0)
    (hA : s.reg_a = 0x50) (hC : s.reg_p &&& 0x01 = 1) :
    retires_after s 2 ∧ (run_cycles 2 s).reg_a = 0x60 ∧ (run_cycles 2 s).reg_p &&& 0x01 = 0 ∧
    (run_cycles 2 s).reg_p &&& 0x40 = 0 ∧ (run_cycles 2 s).reg_p &&& 0x80 = 0 ∧
    (run_cycles 2 s).reg_p &&& 0x02 = 0 := by
  rw [read_memory_val] at hop hm
  have b1 : (0xE9 : Nat) &&& 0x3 = 0x1 := by decide
  have b2 : (0xE9 : Nat) &&& 0x1D = 0x09 := by decide
  have b3 : (0xE9 : Nat) &&& 0xE0 = 0xE0 := by decide
  have ha : (run_cycles 2 s).reg_a =
      (do_sbc (set_instr (fetch_opcode (tick (fetch_opcode (tick s)))) 4 0xF0) 0xF0).reg_a := by
    simp [run_cycle_fetch, run_cycle_decode, decode_opcode_alu, decode_alu, alu_addressing,
      alu_immediate, alu_operation, read_memory_val, hidx, hh, hop, hm, b1, b2, b3]
  have hp : (run_cycles 2 s).reg_p =
      (do_sbc (set_instr (fetch_opcode (tick (fetch_opcode (tick s)))) 4 0xF0) 0xF0).reg_p := by
    simp [run_cycle_fetch, run_cycle_decode, decode_opcode_alu, decode_alu, alu_addressing,
      alu_immediate, alu_operation, read_memory_val, hidx, hh, hop, hm, b1, b2, b3]
  have hr : retires_after s 2 := by
    refine ⟨by norm_num, ?_, ?_⟩
    · simp [run_cycle_fetch, run_cycle_decode, decode_opcode_alu, decode_alu, alu_addressing,
        alu_immediate, alu_operation, read_memory_val, hidx, hh, hop, hm, b1, b2, b3]
    · intro k hk hk0
      have : k = 1 := by omega
      subst this
      simp [run_cycle_fetch, hidx, hh]
  rw [ha, hp]
  exact ⟨hr, do_sbc_50_F0 _ (by simp [hA]) (by simp [hC])⟩

/-- Witness for C12 (as amended): the machine `sbc_state`, with `SBC #$F0` at
RAM `$0000`. -/
theorem sbc_immediate_scenario_witness :
    (sbc_state.cur_instr_index = 0 ∧ sbc_state.hang = 0 ∧
      (read_memory sbc_state sbc_state.pc).1 = 0xE9 ∧
      (read_memory sbc_state (sbc_state.pc + 1)).1 = 0xF0 ∧
      sbc_state.reg_a = 0x50 ∧ sbc_state.reg_p &&& 0x01 = 1) ∧
    (run_cycles 2 sbc_state).reg_a = 0x60 ∧ (run_cycles 2 sbc_state).reg_p &&& 0x40 = 0 :=
  ⟨⟨by decide, by decide, by decide, by decide, by decide, by decide⟩,
    (sbc_immediate_scenario sbc_state (by decide) (by decide) (by decide) (by decide)
      (by decide) (by decide)).2.1,
    (sbc_immediate_scenario sbc_state (by decide) (by decide) (by decide) (by decide)
      (by decide) (by decide)).2.2.2.1⟩

/-- C12 (counterexample): running `SBC #$F0` from `sbc_state` (A = `$50`, carry
set) for its 2 cycles leaves A = `$60` with the V flag clear, not set. -/
theorem sbc_immediate_counterexample :
    ¬ ((run_cycles 2 sbc_state).reg_a = 0x60 ∧ (run_cycles 2 sbc_state).reg_p &&& 0x01 = 0 ∧
      (run_cycles 2 sbc_state).reg_p &&& 0x40 ≠ 0 ∧ (run_cycles 2 sbc_state).reg_p &&& 0x80 = 0 ∧
      (run_cycles 2 sbc_state).reg_p &&& 0x02 = 0) := by
  decide

/-! ## Branches (C15, C16) -/

theorem or_FF00 (d : Nat) (hd : d < 256) : d ||| 0xFF00 = d + 0xFF00 := by
  have h := Nat.mul_add_lt_is_or (show d < 2 ^ 8 by omega) 255
  rw [Nat.lor_comm]
  norm_num at h
  omega

theorem and_80_eq_zero_iff (x : Nat) : x &&& 0x80 = 0 ↔ x % 256 < 128 := by
  have h := and_80 x
  rw [testBit7] at h
  constructor
  · intro e
    by_contra c
    exact (h.2 (by simpa using c)) e
  · intro e
    by_contra c
    have := h.1 c
    simp at this
    omega

set_option maxHeartbeats 800000 in
/-- A branch instruction run from an instruction boundary, for any opcode whose
`case` label calls `branch_flag(mask, exp)`: not taken it retires at cycle 2 with
PC past the two bytes; taken it retires at cycle 3 with the sign-extended offset
added; registers and memory keep their values. -/
theorem branch_exec (s : State) (a d op mask exp : Nat)
    (hdisp : ∀ t : State, t.cur_instr 0 = op → decode_opcode t = branch_flag t mask exp)
    (hidx : s.cur_instr_index = 0) (hh : s.hang = 0) (hpc : s.pc = a)
    (h0 : (read_memory s a).1 = op) (h1 : (read_memory s (a + 1)).1 = d) :
    (s.reg_p &&& mask ≠ exp →
      retires_after s 2 ∧ (run_cycles 2 s).pc = (a + 2) % 65536 ∧
      (run_cycles 2 s).reg_a = s.reg_a ∧ (run_cycles 2 s).reg_x = s.reg_x ∧
      (run_cycles 2 s).reg_y = s.reg_y ∧ (run_cycles 2 s).reg_s = s.reg_s ∧
      (run_cycles 2 s).reg_p = s.reg_p ∧ (run_cycles 2 s).internal_ram = s.internal_ram ∧
      (run_cycles 2 s).mapper0_prg_rom = s.mapper0_prg_rom) ∧
    (s.reg_p &&& mask = exp →
      retires_after s 3 ∧
      (((run_cycles 3 s).pc : Nat) : Int) = ((a : Int) + 2 + signed8 d) % 65536 ∧
      (run_cycles 3 s).reg_a = s.reg_a ∧ (run_cycles 3 s).reg_x = s.reg_x ∧
      (run_cycles 3 s).reg_y = s.reg_y ∧ (run_cycles 3 s).reg_s = s.reg_s ∧
      (run_cycles 3 s).reg_p = s.reg_p ∧ (run_cycles 3 s).internal_ram = s.internal_ram ∧
      (run_cycles 3 s).mapper0_prg_rom = s.mapper0_prg_rom) := by
  rw [read_memory_val] at h0 h1
  have hop : op % 256 = op := by rw [← h0]; simp
  have hd : d < 256 := by rw [← h1]; exact bus_val_lt _ _ _ _ _
  have hdm : d % 256 = d := Nat.mod_eq_of_lt hd
  constructor
  · intro ht
    refine ⟨⟨by norm_num, ?_, ?_⟩, ?_, ?_, ?_, ?_, ?_, ?_, ?_, ?_⟩
    · simp [run_cycle_fetch, run_cycle_decode, hdisp, branch_flag, read_memory_val, hidx, hh,
        hpc, h0, h1, ht, hop]
    · intro k hk hk0
      have : k = 1 := by omega
      subst this
      simp [run_cycle_fetch, hidx, hh]
    all_goals
      simp [run_cycle_fetch, run_cycle_decode, hdisp, branch_flag, read_memory_val, hidx, hh,
        hpc, h0, h1, ht, hop]
  · intro ht
    refine ⟨⟨by norm_num, ?_, ?_⟩, ?_, ?_, ?_, ?_, ?_, ?_, ?_, ?_⟩
    · simp [run_cycle_fetch, run_cycle_decode, hdisp, branch_flag, read_memory_val, hidx, hh,
        hpc, h0, h1, ht, hop]
    · intro k hk hk0
      have : k = 1 ∨ k = 2 := by omega
      rcases this with rfl | rfl
      · simp [run_cycle_fetch, hidx, hh]
      · simp [run_cycle_fetch, run_cycle_decode, hdisp, branch_flag, read_memory_val, hidx, hh,
          hpc, h0, h1, ht, hop]
    · have e : (run_cycles 3 s).pc =
          (a + 1 + 1 + if d &&& 128 = 0 then d else (d ||| 65280) % 65536) % 65536 := by
        simp [run_cycle_fetch, run_cycle_decode, hdisp, branch_flag, read_memory_val, hidx, hh,
          hpc, h0, h1, ht, hop, hdm]
      rw [e, or_FF00 d hd]
      have h80 := and_80_eq_zero_iff d
      rw [hdm] at h80
      unfold signed8
      by_cases c : d < 128
      · rw [if_pos (h80.2 c), if_pos c]
        omega
      · rw [if_neg (fun x => c (h80.1 x)), if_neg c]
        omega
    all_goals
      simp [run_cycle_fetch, run_cycle_decode, hdisp, branch_flag, read_memory_val, hidx, hh,
        hpc, h0, h1, ht, hop]

/-- Dispatch of the eight branch opcodes: every row of `branch_table` is a `case`
label of `decode_opcode` calling `branch_flag` with that row. -/
theorem branch_table_dispatch (b : Nat × Nat × Nat) (hb : b ∈ branch_table) (t : State)
    (h : t.cur_instr 0 = b.1) : decode_opcode t = branch_flag t b.2.1 b.2.2 := by
  simp only [branch_table, List.mem_cons, List.mem_singleton, List.not_mem_nil, or_false] at hb
  rcases hb with rfl | rfl | rfl | rfl | rfl | rfl | rfl | rfl
  · exact decode_opcode_10 t h
  · exact decode_opcode_30 t h
  · exact decode_opcode_50 t h
  · exact decode_opcode_70 t h
  · exact decode_opcode_90 t h
  · exact decode_opcode_B0 t h
  · exact decode_opcode_D0 t h
  · exact decode_opcode_F0 t h

/-- C15: for each branch opcode with its (mask, expected) pair, located at address
a with offset byte d and run from an instruction boundary: when (P & mask) is not
expected the instruction retires with PC = (a + 2) mod 65536, when (P & mask) =
expected it retires with PC = (a + 2 + signext8(d)) mod 65536; A, X, Y, S, P and
memory are unchanged. -/
theorem branch_semantics (b : Nat × Nat × Nat) (hb : b ∈ branch_table) (s : State) (a d : Nat)
    (hidx : s.cur_instr_index = 0) (hh : s.hang = 0) (hpc : s.pc = a)
    (h0 : (read_memory s a).1 = b.1) (h1 : (read_memory s (a + 1)).1 = d) :
    (s.reg_p &&& b.2.1 ≠ b.2.2 →
      retires_after s 2 ∧ (run_cycles 2 s).pc = (a + 2) % 65536 ∧
      (run_cycles 2 s).reg_a = s.reg_a ∧ (run_cycles 2 s).reg_x = s.reg_x ∧
      (run_cycles 2 s).reg_y = s.reg_y ∧ (run_cycles 2 s).reg_s = s.reg_s ∧
      (run_cycles 2 s).reg_p = s.reg_p ∧ (run_cycles 2 s).internal_ram = s.internal_ram ∧
      (run_cycles 2 s).mapper0_prg_rom = s.mapper0_prg_rom) ∧
    (s.reg_p &&& b.2.1 = b.2.2 →
      retires_after s 3 ∧
      (((run_cycles 3 s).pc : Nat) : Int) = ((a : Int) + 2 + signed8 d) % 65536 ∧
      (run_cycles 3 s).reg_a = s.reg_a ∧ (run_cycles 3 s).reg_x = s.reg_x ∧
      (run_cycles 3 s).reg_y = s.reg_y ∧ (run_cycles 3 s).reg_s = s.reg_s ∧
      (run_cycles 3 s).reg_p = s.reg_p ∧ (run_cycles 3 s).internal_ram = s.internal_ram ∧
      (run_cycles 3 s).mapper0_prg_rom = s.mapper0_prg_rom) :=
  branch_exec s a d b.1 b.2.1 b.2.2 (branch_table_dispatch b hb) hidx hh hpc h0 h1

/-- Witness for C15: `BNE` with offset `$80` at `$0080`, Z clear: taken, and the
new PC is `$0002`. -/
theorem branch_semantics_witness :
    ((0xD0, STATUS_ZERO, 0) ∈ branch_table ∧ branch_state.cur_instr_index = 0 ∧
      branch_state.hang = 0 ∧ branch_state.pc = 0x80 ∧
      (read_memory branch_state 0x80).1 = 0xD0 ∧ (read_memory branch_state (0x80 + 1)).1 = 0x80 ∧
      branch_state.reg_p &&& STATUS_ZERO = 0) ∧
    (((run_cycles 3 branch_state).pc : Nat) : Int) = ((0x80 : Nat) + 2 + signed8 0x80) % 65536 ∧
    (run_cycles 3 branch_state).pc = 0x0002 :=
  ⟨⟨by decide, by decide, by decide, by decide, by decide, by decide, by decide⟩,
    ((branch_semantics (0xD0, STATUS_ZERO, 0) (by decide) branch_state 0x80 0x80 (by decide)
      (by decide) (by decide) (by decide) (by decide)).2 (by decide)).2.1,
    by decide⟩

/-- C16 (as amended): for every branch opcode the number of cycles from opcode
fetch to retirement is 2 if the branch is not taken and 3 if it is taken and the
target is in the same page as the address after the instruction.  Scenario S5:
with PC = `$0080` executing `BNE` with offset `$80` and Z clear, the branch is
taken, the new PC is `$0002` and the cycle cost is 3. -/
theorem branch_timing :
    (∀ b ∈ branch_table, ∀ (s : State) (a d : Nat), s.cur_instr_index = 0 → s.hang = 0 →
      s.pc = a → (read_memory s a).1 = b.1 → (read_memory s (a + 1)).1 = d →
      (s.reg_p &&& b.2.1 ≠ b.2.2 → retires_after s 2) ∧
      (s.reg_p &&& b.2.1 = b.2.2 →
        (((a : Int) + 2 + signed8 d) % 65536) / 256 = ((((a + 2) % 65536 : Nat) : Int)) / 256 →
        retires_after s 3)) ∧
    (branch_state.pc = 0x0080 ∧ (read_memory branch_state 0x0080).1 = 0xD0 ∧
      (read_memory branch_state 0x0081).1 = 0x80 ∧ branch_state.reg_p &&& STATUS_ZERO = 0 ∧
      retires_after branch_state 3 ∧ (run_cycles 3 branch_state).pc = 0x0002) := by
  refine ⟨?_, by decide, by decide, by decide, by decide, ?_, by decide⟩
  · intro b hb s a d hidx hh hpc h0 h1
    have h := branch_exec s a d b.1 b.2.1 b.2.2 (branch_table_dispatch b hb) hidx hh hpc h0 h1
    exact ⟨fun ht => (h.1 ht).1, fun ht _ => (h.2 ht).1⟩
  · exact ((branch_exec branch_state 0x80 0x80 0xD0 STATUS_ZERO 0
      (fun t h => decode_opcode_D0 t h) (by decide) (by decide) (by decide) (by decide)
      (by decide)).2 (by decide)).1

/-- C16 (counterexample), scenario S5: from `branch_state` (PC = `$0080`, `BNE`
offset `$80`, Z clear) the instruction has retired after 3 cycles with
PC = `$0002`, so its cycle cost is not 4. -/
theorem branch_timing_counterexample :
    (run_cycles 3 branch_state).cur_instr_index = 0 ∧ (run_cycles 3 branch_state).pc = 0x0002 ∧
    ¬ retires_after branch_state 4 := by
  refine ⟨by decide, by decide, ?_⟩
  intro h
  exact h.2.2 3 (by norm_num) (by norm_num) (by decide)

/-- Witness for C16 (as amended): `BNE` with offset `$80` at `$0080`, Z clear: the
target `$0002` is in the page of `$0082` and the instruction retires at cycle 3. -/
theorem branch_timing_witness :
    ((0xD0, STATUS_ZERO, 0) ∈ branch_table ∧ branch_state.cur_instr_index = 0 ∧
      branch_state.hang = 0 ∧ branch_state.pc = 0x80 ∧
      (read_memory branch_state 0x80).1 = 0xD0 ∧ (read_memory branch_state (0x80 + 1)).1 = 0x80 ∧
      branch_state.reg_p &&& STATUS_ZERO = 0 ∧
      ((((0x80 : Nat) : Int) + 2 + signed8 0x80) % 65536) / 256 =
        ((((0x80 + 2) % 65536 : Nat) : Int)) / 256) ∧
    retires_after branch_state 3 :=
  ⟨⟨by decide, by decide, by decide, by decide, by decide, by decide, by decide, by decide⟩,
    (branch_timing.1 (0xD0, STATUS_ZERO, 0) (by decide) branch_state 0x80 0x80 (by decide)
      (by decide) (by decide) (by decide) (by decide)).2 (by decide) (by decide)⟩

/-! ## JMP indirect (C17) -/

theorem shl8_or (lo hi : Nat) (hlo : lo < 256) : (hi <<< 8) ||| lo = hi * 256 + lo := by
  have h := Nat.mul_add_lt_is_or (show lo < 2 ^ 8 by omega) hi
  rw [Nat.shiftLeft_eq, Nat.mul_comm hi, ← h]

theorem or_shl8 (lo hi : Nat) (hlo : lo < 256) : lo ||| (hi <<< 8) = hi * 256 + lo := by
  rw [Nat.lor_comm, shl8_or lo hi hlo]

theorem word_lt (lo hi : Nat) (hlo : lo < 256) (hhi : hi < 256) : lo ||| (hi <<< 8) < 65536 := by
  rw [or_shl8 lo hi hlo]
  omega


set_option maxHeartbeats 800000 in
/-- C17: JMP indirect (`$6C`) with pointer bytes lo, hi run from an instruction
boundary retires after exactly 5 cycles with
PC = read((hi << 8) | lo) | (read((hi << 8) | ((lo + 1) & 0xFF)) << 8): the high
byte is fetched from the same page without carry.  Scenario S6: with
RAM[`$02FF`] = `$34` and RAM[`$0200`] = `$12`, `JMP ($02FF)` gives PC = `$1234`,
the fifth bus access being a read of `$0200`. -/
theorem jmp_indirect :
    (∀ (s : State) (a lo hi : Nat), s.cur_instr_index = 0 → s.hang = 0 → s.pc = a →
      (read_memory s a).1 = 0x6C → (read_memory s (a + 1)).1 = lo →
      (read_memory s (a + 2)).1 = hi →
      retires_after s 5 ∧
      (run_cycles 5 s).pc =
        (read_memory s ((hi <<< 8) ||| lo)).1 |||
          ((read_memory s ((hi <<< 8) ||| ((lo + 1) &&& 0xFF))).1 <<< 8)) ∧
    ((read_memory jmp_state 0x02FF).1 = 0x34 ∧ (read_memory jmp_state 0x0200).1 = 0x12 ∧
      (read_memory jmp_state 0x0300).1 = 0x56 ∧
      (run_cycles 5 jmp_state).pc = 0x1234 ∧
      (run_cycles 5 jmp_state).bus =
        [Access.read 0, Access.read 1, Access.read 2, Access.read 0x02FF, Access.read 0x0200]) := by
  refine ⟨?_, by decide, by decide, by decide, by decide, by decide⟩
  intro s a lo hi hidx hh hpc h0 h1 h2
  rw [read_memory_val] at h0 h1 h2
  have hlo : lo < 256 := by rw [← h1]; exact bus_val_lt _ _ _ _ _
  have hhi : hi < 256 := by rw [← h2]; exact bus_val_lt _ _ _ _ _
  have hlm : lo % 256 = lo := Nat.mod_eq_of_lt hlo
  have hhm : hi % 256 = hi := Nat.mod_eq_of_lt hhi
  have e1 : lo ||| (hi <<< 8) = (hi <<< 8) ||| lo := Nat.lor_comm _ _
  have e2 : (0xFF &&& (1 + lo)) + (hi <<< 8) = (hi <<< 8) ||| ((lo + 1) &&& 0xFF) := by
    rw [shl8_or _ _ (by rw [and_FF]; omega), Nat.land_comm, Nat.add_comm 1 lo, Nat.shiftLeft_eq]
    omega
  refine ⟨⟨by norm_num, ?_, ?_⟩, ?_⟩
  · simp [run_cycle_fetch, run_cycle_decode, decode_opcode_6C, op_6C, read_memory_val, hidx, hh,
      hpc, h0, h1, h2]
  · intro k hk hk0
    have : k = 1 ∨ k = 2 ∨ k = 3 ∨ k = 4 := by omega
    rcases this with rfl | rfl | rfl | rfl <;>
      simp [run_cycle_fetch, run_cycle_decode, decode_opcode_6C, op_6C, read_memory_val, hidx, hh,
        hpc, h0, h1, h2]
  · simp [run_cycle_fetch, run_cycle_decode, decode_opcode_6C, op_6C, read_memory_val, hidx, hh,
      hpc, h0, h1, h2, hlm, hhm]
    rw [e1, e2]
    exact Nat.mod_eq_of_lt (word_lt _ _ (bus_val_lt _ _ _ _ _) (bus_val_lt _ _ _ _ _))

/-- Witness for C17: the machine `jmp_state`, with `JMP ($02FF)` at RAM `$0000`. -/
theorem jmp_indirect_witness :
    (jmp_state.cur_instr_index = 0 ∧ jmp_state.hang = 0 ∧ jmp_state.pc = 0 ∧
      (read_memory jmp_state 0).1 = 0x6C ∧ (read_memory jmp_state (0 + 1)).1 = 0xFF ∧
      (read_memory jmp_state (0 + 2)).1 = 0x02) ∧
    retires_after jmp_state 5 ∧
    (run_cycles 5 jmp_state).pc =
      (read_memory jmp_state ((0x02 <<< 8) ||| 0xFF)).1 |||
        ((read_memory jmp_state ((0x02 <<< 8) ||| ((0xFF + 1) &&& 0xFF))).1 <<< 8) :=
  ⟨⟨by decide, by decide, by decide, by decide, by decide, by decide⟩,
    jmp_indirect.1 jmp_state 0 0xFF 0x02 (by decide) (by decide) (by decide) (by decide)
      (by decide) (by decide)⟩

/-! ## Stack instructions: JSR, RTS, RTI, PHA, PHP, PLA, PLP (C18, C19, C20) -/

set_option maxHeartbeats 1600000 in
/-- JSR (`$20`) run from an instruction boundary: six cycles, three fetches, the
return address minus one pushed high byte first, PC loaded with the target. -/
theorem jsr_exec (s : State) (a lo hi sp : Nat) (hidx : s.cur_instr_index = 0) (hh : s.hang = 0)
    (hpc : s.pc = a) (ha : a < 65536) (hs : s.reg_s = sp) (hsp : sp < 256)
    (h0 : (read_memory s a).1 = 0x20) (h1 : (read_memory s (a + 1)).1 = lo)
    (h2 : (read_memory s (a + 2)).1 = hi) :
    retires_after s 6 ∧
    (run_cycles 6 s).bus = s.bus ++ [Access.read a, Access.read ((a + 1) % 65536),
        Access.read ((a + 2) % 65536), Access.write (0x100 + sp) (((a + 2) >>> 8) % 256),
        Access.write (0x100 + (sp + 255) % 256) ((a + 2) &&& 0xFF)] ∧
    (run_cycles 6 s).reg_s = (sp + 254) % 256 ∧ (run_cycles 6 s).pc = lo ||| (hi <<< 8) ∧
    (run_cycles 6 s).reg_p = s.reg_p ∧ (run_cycles 6 s).reg_a = s.reg_a ∧
    (run_cycles 6 s).reg_x = s.reg_x ∧ (run_cycles 6 s).reg_y = s.reg_y := by
  rw [read_memory_val] at h0 h1 h2
  have hlo : lo < 256 := by rw [← h1]; exact bus_val_lt _ _ _ _ _
  have hhi : hi < 256 := by rw [← h2]; exact bus_val_lt _ _ _ _ _
  have hlm : lo % 256 = lo := Nat.mod_eq_of_lt hlo
  have hhm : hi % 256 = hi := Nat.mod_eq_of_lt hhi
  refine ⟨⟨by norm_num, ?_, ?_⟩, ?_, ?_, ?_, ?_, ?_, ?_, ?_⟩
  · simp [run_cycle_fetch, run_cycle_decode, decode_opcode_20, op_20, read_memory_val, hidx, hh,
      hpc, h0, h1, h2, hs]
  · intro k hk hk0
    have : k = 1 ∨ k = 2 ∨ k = 3 ∨ k = 4 ∨ k = 5 := by omega
    rcases this with rfl | rfl | rfl | rfl | rfl <;>
      simp [run_cycle_fetch, run_cycle_decode, decode_opcode_20, op_20, read_memory_val, hidx, hh,
        hpc, h0, h1, h2, hs]
  · simp [run_cycle_fetch, run_cycle_decode, decode_opcode_20, op_20, read_memory_val, hidx, hh,
      hpc, h0, h1, h2, hs]
    refine ⟨ha, ⟨by omega, ?_⟩, ?_, ?_⟩
    · simp only [isub, Nat.shiftRight_eq_div_pow]
      omega
    · simp only [isub]
      omega
    · simp only [isub, and_FF]
      omega
  · simp [run_cycle_fetch, run_cycle_decode, decode_opcode_20, op_20, read_memory_val, hidx, hh,
      hpc, h0, h1, h2, hs]
    simp only [isub]
    omega
  · simp [run_cycle_fetch, run_cycle_decode, decode_opcode_20, op_20, read_memory_val, hidx, hh,
      hpc, h0, h1, h2, hs, hlm, hhm]
    exact word_lt lo hi hlo hhi
  all_goals
    simp [run_cycle_fetch, run_cycle_decode, decode_opcode_20, op_20, read_memory_val, hidx, hh,
      hpc, h0, h1, h2, hs]

set_option maxHeartbeats 1600000 in
/-- RTS (`$60`) run from an instruction boundary: six cycles, the low then the
high byte pulled, PC set to the pulled word plus one. -/
theorem rts_exec (s : State) (a lo hi sp : Nat) (hidx : s.cur_instr_index = 0) (hh : s.hang = 0)
    (hpc : s.pc = a) (hs : s.reg_s = sp)
    (h0 : (read_memory s a).1 = 0x60) (h1 : (read_memory s (0x100 + (sp + 1) % 256)).1 = lo)
    (h2 : (read_memory s (0x100 + (sp + 2) % 256)).1 = hi) :
    retires_after s 6 ∧
    (run_cycles 6 s).bus = s.bus ++ [Access.read (a % 65536),
        Access.read (0x100 + (sp + 1) % 256), Access.read (0x100 + (sp + 2) % 256)] ∧
    (run_cycles 6 s).reg_s = (sp + 2) % 256 ∧
    (run_cycles 6 s).pc = (((hi <<< 8) ||| lo) + 1) % 65536 ∧
    (run_cycles 6 s).reg_p = s.reg_p ∧ (run_cycles 6 s).reg_a = s.reg_a ∧
    (run_cycles 6 s).reg_x = s.reg_x ∧ (run_cycles 6 s).reg_y = s.reg_y := by
  rw [read_memory_val] at h0 h1 h2
  have hlo : lo < 256 := by rw [← h1]; exact bus_val_lt _ _ _ _ _
  have hhi : hi < 256 := by rw [← h2]; exact bus_val_lt _ _ _ _ _
  have hlm : lo % 256 = lo := Nat.mod_eq_of_lt hlo
  have hhm : hi % 256 = hi := Nat.mod_eq_of_lt hhi
  have e2 : ((sp + 1) % 256 + 1) % 256 = (sp + 2) % 256 := by omega
  refine ⟨⟨by norm_num, ?_, ?_⟩, ?_, ?_, ?_, ?_, ?_, ?_, ?_⟩
  · simp [run_cycle_fetch, run_cycle_decode, decode_opcode_60, op_60, read_memory_val, pull_val,
      hidx, hh, hpc, h0, h1, h2, hs, e2]
  · intro k hk hk0
    have : k = 1 ∨ k = 2 ∨ k = 3 ∨ k = 4 ∨ k = 5 := by omega
    rcases this with rfl | rfl | rfl | rfl | rfl <;>
      simp [run_cycle_fetch, run_cycle_decode, decode_opcode_60, op_60, read_memory_val, pull_val,
        hidx, hh, hpc, h0, h1, h2, hs, e2]
  · simp [run_cycle_fetch, run_cycle_decode, decode_opcode_60, op_60, read_memory_val, pull_val,
      hidx, hh, hpc, h0, h1, h2, hs, e2]
    omega
  · simp [run_cycle_fetch, run_cycle_decode, decode_opcode_60, op_60, read_memory_val, pull_val,
      hidx, hh, hpc, h0, h1, h2, hs, e2]
  · simp [run_cycle_fetch, run_cycle_decode, decode_opcode_60, op_60, read_memory_val, pull_val,
      hidx, hh, hpc, h0, h1, h2, hs, e2, hlm, hhm]
    rw [Nat.lor_comm]
  all_goals
    simp [run_cycle_fetch, run_cycle_decode, decode_opcode_60, op_60, read_memory_val, pull_val,
      hidx, hh, hpc, h0, h1, h2, hs, e2]
set_option maxRecDepth 8000 in
/-- The byte loaded into P by PLP and RTI: `(b | STATUS_EXPAND) & ~STATUS_BREAK`
is `(b | 0x20) & 0xEF` on bytes. -/
theorem pulled_status (b : Nat) (hb : b < 256) :
    ((b ||| STATUS_EXPAND) &&& bnot STATUS_BREAK) % 256 = (b ||| 0x20) &&& 0xEF := by
  revert b
  decide

set_option maxRecDepth 8000 in
/-- The byte pushed by PHP: `reg_p | STATUS_EXPAND | STATUS_BREAK` is `P | 0x30`. -/
theorem pushed_status (p : Nat) (hp : p < 256) :
    (p ||| STATUS_EXPAND ||| STATUS_BREAK) % 256 = p ||| 0x30 := by
  revert p
  decide

set_option maxHeartbeats 1600000 in
/-- RTI (`$40`) run from an instruction boundary: six cycles, P, PC low and PC
high pulled in this order. -/
theorem rti_exec (s : State) (a b lo hi sp : Nat) (hidx : s.cur_instr_index = 0)
    (hh : s.hang = 0) (hpc : s.pc = a) (hs : s.reg_s = sp)
    (h0 : (read_memory s a).1 = 0x40) (h1 : (read_memory s (0x100 + (sp + 1) % 256)).1 = b)
    (h2 : (read_memory s (0x100 + (sp + 2) % 256)).1 = lo)
    (h3 : (read_memory s (0x100 + (sp + 3) % 256)).1 = hi) :
    retires_after s 6 ∧
    (run_cycles 6 s).bus = s.bus ++ [Access.read (a % 65536),
        Access.read (0x100 + (sp + 1) % 256), Access.read (0x100 + (sp + 2) % 256),
        Access.read (0x100 + (sp + 3) % 256)] ∧
    (run_cycles 6 s).reg_s = (sp + 3) % 256 ∧
    (run_cycles 6 s).pc = lo ||| (hi <<< 8) ∧
    (run_cycles 6 s).reg_p = (b ||| 0x20) &&& 0xEF ∧ (run_cycles 6 s).reg_a = s.reg_a ∧
    (run_cycles 6 s).reg_x = s.reg_x ∧ (run_cycles 6 s).reg_y = s.reg_y := by
  rw [read_memory_val] at h0 h1 h2 h3
  have hb : b < 256 := by rw [← h1]; exact bus_val_lt _ _ _ _ _
  have hlo : lo < 256 := by rw [← h2]; exact bus_val_lt _ _ _ _ _
  have hhi : hi < 256 := by rw [← h3]; exact bus_val_lt _ _ _ _ _
  have hbm : b % 256 = b := Nat.mod_eq_of_lt hb
  have hlm : lo % 256 = lo := Nat.mod_eq_of_lt hlo
  have hhm : hi % 256 = hi := Nat.mod_eq_of_lt hhi
  have e2 : ((sp + 1) % 256 + 1) % 256 = (sp + 2) % 256 := by omega
  have e3 : ((sp + 2) % 256 + 1) % 256 = (sp + 3) % 256 := by omega
  refine ⟨⟨by norm_num, ?_, ?_⟩, ?_, ?_, ?_, ?_, ?_, ?_, ?_⟩
  · simp [run_cycle_fetch, run_cycle_decode, decode_opcode_40, op_40, read_memory_val, pull_val,
      hidx, hh, hpc, h0, h1, h2, h3, hs, e2, e3]
  · intro k hk hk0
    have : k = 1 ∨ k = 2 ∨ k = 3 ∨ k = 4 ∨ k = 5 := by omega
    rcases this with rfl | rfl | rfl | rfl | rfl <;>
      simp [run_cycle_fetch, run_cycle_decode, decode_opcode_40, op_40, read_memory_val, pull_val,
        hidx, hh, hpc, h0, h1, h2, h3, hs, e2, e3]
  · simp [run_cycle_fetch, run_cycle_decode, decode_opcode_40, op_40, read_memory_val, pull_val,
      hidx, hh, hpc, h0, h1, h2, h3, hs, e2, e3]
    omega
  · simp [run_cycle_fetch, run_cycle_decode, decode_opcode_40, op_40, read_memory_val, pull_val,
      hidx, hh, hpc, h0, h1, h2, h3, hs, e2, e3]
  · simp [run_cycle_fetch, run_cycle_decode, decode_opcode_40, op_40, read_memory_val, pull_val,
      hidx, hh, hpc, h0, h1, h2, h3, hs, e2, e3, hlm, hhm]
    exact word_lt lo hi hlo hhi
  · have e : (run_cycles 6 s).reg_p = ((b ||| STATUS_EXPAND) &&& bnot STATUS_BREAK) % 256 := by
      simp [run_cycle_fetch, run_cycle_decode, decode_opcode_40, op_40, read_memory_val, pull_val,
        hidx, hh, hpc, h0, h1, h2, h3, hs, e2, e3, hbm]
    rw [e, pulled_status b hb]
  all_goals
    simp [run_cycle_fetch, run_cycle_decode, decode_opcode_40, op_40, read_memory_val, pull_val,
      hidx, hh, hpc, h0, h1, h2, h3, hs, e2, e3]
set_option maxHeartbeats 1600000 in
/-- PHP (`$08`) run from an instruction boundary: three cycles, one write of
P with bits 4 and 5 set, P itself unchanged. -/
theorem php_exec (s : State) (a sp : Nat) (hidx : s.cur_instr_index = 0) (hh : s.hang = 0)
    (hpc : s.pc = a) (hs : s.reg_s = sp) (hsp : sp < 256) (hp : s.reg_p < 256)
    (h0 : (read_memory s a).1 = 0x08) :
    retires_after s 3 ∧
    (run_cycles 3 s).bus = s.bus ++ [Access.read (a % 65536),
        Access.write (0x100 + sp) (s.reg_p ||| 0x30)] ∧
    (run_cycles 3 s).internal_ram (0x100 + sp) = s.reg_p ||| 0x30 ∧
    (run_cycles 3 s).reg_s = (sp + 255) % 256 ∧ (run_cycles 3 s).reg_p = s.reg_p ∧
    (run_cycles 3 s).reg_a = s.reg_a ∧ (run_cycles 3 s).reg_x = s.reg_x ∧
    (run_cycles 3 s).reg_y = s.reg_y := by
  rw [read_memory_val] at h0
  have hv := pushed_status s.reg_p hp
  have hm : (256 + sp) % 65536 = 256 + sp := by omega
  have h7 : (256 + sp) &&& 0x7FF = 256 + sp := by rw [and_7FF]; omega
  refine ⟨⟨by norm_num, ?_, ?_⟩, ?_, ?_, ?_, ?_, ?_, ?_, ?_⟩
  · simp [run_cycle_fetch, run_cycle_decode, decode_opcode_08, op_08, read_memory_val, hidx, hh,
      hpc, h0, hs]
  · intro k hk hk0
    have : k = 1 ∨ k = 2 := by omega
    rcases this with rfl | rfl <;>
      simp [run_cycle_fetch, run_cycle_decode, decode_opcode_08, op_08, read_memory_val, hidx, hh,
        hpc, h0, hs]
  · simp [run_cycle_fetch, run_cycle_decode, decode_opcode_08, op_08, read_memory_val, hidx, hh,
      hpc, h0, hs, hv, hm]
  · simp [run_cycle_fetch, run_cycle_decode, decode_opcode_08, op_08, read_memory_val, hidx, hh,
      hpc, h0, hs, hv, hm, h7]
    rw [if_pos (by omega), store_apply, if_pos rfl]
    have h30 : s.reg_p ||| 48 = s.reg_p ||| 0x30 := rfl
    rw [h30, ← hv]
    exact Nat.mod_mod _ _
  · simp [run_cycle_fetch, run_cycle_decode, decode_opcode_08, op_08, read_memory_val, hidx, hh,
      hpc, h0, hs]
    simp only [isub]
    omega
  all_goals
    simp [run_cycle_fetch, run_cycle_decode, decode_opcode_08, op_08, read_memory_val, hidx, hh,
      hpc, h0, hs]

set_option maxHeartbeats 1600000 in
/-- PHA (`$48`) run from an instruction boundary: three cycles, one write of A. -/
theorem pha_exec (s : State) (a sp : Nat) (hidx : s.cur_instr_index = 0) (hh : s.hang = 0)
    (hpc : s.pc = a) (hs : s.reg_s = sp) (hsp : sp < 256) (hA : s.reg_a < 256)
    (h0 : (read_memory s a).1 = 0x48) :
    retires_after s 3 ∧
    (run_cycles 3 s).bus = s.bus ++ [Access.read (a % 65536),
        Access.write (0x100 + sp) s.reg_a] ∧
    (run_cycles 3 s).reg_s = (sp + 255) % 256 ∧ (run_cycles 3 s).reg_p = s.reg_p ∧
    (run_cycles 3 s).reg_a = s.reg_a := by
  rw [read_memory_val] at h0
  have hv : s.reg_a % 256 = s.reg_a := Nat.mod_eq_of_lt hA
  have hm : (256 + sp) % 65536 = 256 + sp := by omega
  refine ⟨⟨by norm_num, ?_, ?_⟩, ?_, ?_, ?_, ?_⟩
  · simp [run_cycle_fetch, run_cycle_decode, decode_opcode_48, op_48, read_memory_val, hidx, hh,
      hpc, h0, hs]
  · intro k hk hk0
    have : k = 1 ∨ k = 2 := by omega
    rcases this with rfl | rfl <;>
      simp [run_cycle_fetch, run_cycle_decode, decode_opcode_48, op_48, read_memory_val, hidx, hh,
        hpc, h0, hs]
  · simp [run_cycle_fetch, run_cycle_decode, decode_opcode_48, op_48, read_memory_val, hidx, hh,
      hpc, h0, hs, hv, hm]
  · simp [run_cycle_fetch, run_cycle_decode, decode_opcode_48, op_48, read_memory_val, hidx, hh,
      hpc, h0, hs]
    simp only [isub]
    omega
  all_goals
    simp [run_cycle_fetch, run_cycle_decode, decode_opcode_48, op_48, read_memory_val, hidx, hh,
      hpc, h0, hs]

set_option maxHeartbeats 1600000 in
/-- PLP (`$28`) run from an instruction boundary: four cycles, one pull, the byte
loaded into P with bit 5 forced on and bit 4 masked off. -/
theorem plp_exec (s : State) (a b sp : Nat) (hidx : s.cur_instr_index = 0) (hh : s.hang = 0)
    (hpc : s.pc = a) (hs : s.reg_s = sp)
    (h0 : (read_memory s a).1 = 0x28) (h1 : (read_memory s (0x100 + (sp + 1) % 256)).1 = b) :
    retires_after s 4 ∧
    (run_cycles 4 s).bus = s.bus ++ [Access.read (a % 65536),
        Access.read (0x100 + (sp + 1) % 256)] ∧
    (run_cycles 4 s).reg_s = (sp + 1) % 256 ∧
    (run_cycles 4 s).reg_p = (b ||| 0x20) &&& 0xEF ∧ (run_cycles 4 s).reg_a = s.reg_a := by
  rw [read_memory_val] at h0 h1
  have hb : b < 256 := by rw [← h1]; exact bus_val_lt _ _ _ _ _
  have hbm : b % 256 = b := Nat.mod_eq_of_lt hb
  refine ⟨⟨by norm_num, ?_, ?_⟩, ?_, ?_, ?_, ?_⟩
  · simp [run_cycle_fetch, run_cycle_decode, decode_opcode_28, op_28, read_memory_val, pull_val,
      hidx, hh, hpc, h0, h1, hs]
  · intro k hk hk0
    have : k = 1 ∨ k = 2 ∨ k = 3 := by omega
    rcases this with rfl | rfl | rfl <;>
      simp [run_cycle_fetch, run_cycle_decode, decode_opcode_28, op_28, read_memory_val, pull_val,
        hidx, hh, hpc, h0, h1, hs]
  · simp [run_cycle_fetch, run_cycle_decode, decode_opcode_28, op_28, read_memory_val, pull_val,
      hidx, hh, hpc, h0, h1, hs]
    omega
  · simp [run_cycle_fetch, run_cycle_decode, decode_opcode_28, op_28, read_memory_val, pull_val,
      hidx, hh, hpc, h0, h1, hs]
  · have e : (run_cycles 4 s).reg_p = ((b ||| STATUS_EXPAND) &&& bnot STATUS_BREAK) % 256 := by
      simp [run_cycle_fetch, run_cycle_decode, decode_opcode_28, op_28, read_memory_val, pull_val,
        hidx, hh, hpc, h0, h1, hs, hbm]
    rw [e, pulled_status b hb]
  · simp [run_cycle_fetch, run_cycle_decode, decode_opcode_28, op_28, read_memory_val, pull_val,
      hidx, hh, hpc, h0, h1, hs]

set_option maxHeartbeats 1600000 in
/-- PLA (`$68`) run from an instruction boundary: four cycles, one pull, the byte
loaded into A. -/
theorem pla_exec (s : State) (a b sp : Nat) (hidx : s.cur_instr_index = 0) (hh : s.hang = 0)
    (hpc : s.pc = a) (hs : s.reg_s = sp)
    (h0 : (read_memory s a).1 = 0x68) (h1 : (read_memory s (0x100 + (sp + 1) % 256)).1 = b) :
    retires_after s 4 ∧
    (run_cycles 4 s).bus = s.bus ++ [Access.read (a % 65536),
        Access.read (0x100 + (sp + 1) % 256)] ∧
    (run_cycles 4 s).reg_s = (sp + 1) % 256 ∧ (run_cycles 4 s).reg_a = b := by
  rw [read_memory_val] at h0 h1
  have hb : b < 256 := by rw [← h1]; exact bus_val_lt _ _ _ _ _
  have hbm : b % 256 = b := Nat.mod_eq_of_lt hb
  refine ⟨⟨by norm_num, ?_, ?_⟩, ?_, ?_, ?_⟩
  · simp [run_cycle_fetch, run_cycle_decode, decode_opcode_68, op_68, read_memory_val, pull_val,
      hidx, hh, hpc, h0, h1, hs]
  · intro k hk hk0
    have : k = 1 ∨ k = 2 ∨ k = 3 := by omega
    rcases this with rfl | rfl | rfl <;>
      simp [run_cycle_fetch, run_cycle_decode, decode_opcode_68, op_68, read_memory_val, pull_val,
        hidx, hh, hpc, h0, h1, hs]
  · simp [run_cycle_fetch, run_cycle_decode, decode_opcode_68, op_68, read_memory_val, pull_val,
      hidx, hh, hpc, h0, h1, hs]
    omega
  · simp [run_cycle_fetch, run_cycle_decode, decode_opcode_68, op_68, read_memory_val, pull_val,
      hidx, hh, hpc, h0, h1, hs]
  · simp [run_cycle_fetch, run_cycle_decode, decode_opcode_68, op_68, read_memory_val, pull_val,
      hidx, hh, hpc, h0, h1, hs, hbm]
/-- C18: JSR (`$20`) at address a with target t = lo | hi << 8 and initial stack
byte sp writes the high byte of a + 2 to `$0100` + sp, then the low byte of a + 2
to `$0100` + ((sp - 1) mod 256), leaves S = (sp - 2) mod 256 and PC = t, changes
no flag and no other register, and retires after exactly 6 cycles.  RTS (`$60`)
pulls lo from `$0100` + ((sp + 1) mod 256) then hi from `$0100` + ((sp + 2) mod
256), sets PC = ((hi << 8 | lo) + 1) mod 65536, S = (sp + 2) mod 256, and retires
after exactly 6 cycles.  The bus log carries bytes: the high byte of a + 2 is
((a + 2) >> 8) mod 256. -/
theorem jsr_rts :
    (∀ (s : State) (a lo hi sp : Nat), s.cur_instr_index = 0 → s.hang = 0 → s.pc = a →
      a < 65536 → s.reg_s = sp → sp < 256 → (read_memory s a).1 = 0x20 →
      (read_memory s (a + 1)).1 = lo → (read_memory s (a + 2)).1 = hi →
      retires_after s 6 ∧
      (run_cycles 6 s).bus = s.bus ++ [Access.read a, Access.read ((a + 1) % 65536),
        Access.read ((a + 2) % 65536), Access.write (0x100 + sp) (((a + 2) >>> 8) % 256),
        Access.write (0x100 + (sp + 255) % 256) ((a + 2) &&& 0xFF)] ∧
      (run_cycles 6 s).reg_s = (sp + 254) % 256 ∧ (run_cycles 6 s).pc = lo ||| (hi <<< 8) ∧
      (run_cycles 6 s).reg_p = s.reg_p ∧ (run_cycles 6 s).reg_a = s.reg_a ∧
      (run_cycles 6 s).reg_x = s.reg_x ∧ (run_cycles 6 s).reg_y = s.reg_y) ∧
    (∀ (s : State) (a lo hi sp : Nat), s.cur_instr_index = 0 → s.hang = 0 → s.pc = a →
      s.reg_s = sp → (read_memory s a).1 = 0x60 →
      (read_memory s (0x100 + (sp + 1) % 256)).1 = lo →
      (read_memory s (0x100 + (sp + 2) % 256)).1 = hi →
      retires_after s 6 ∧
      (run_cycles 6 s).bus = s.bus ++ [Access.read (a % 65536),
        Access.read (0x100 + (sp + 1) % 256), Access.read (0x100 + (sp + 2) % 256)] ∧
      (run_cycles 6 s).reg_s = (sp + 2) % 256 ∧
      (run_cycles 6 s).pc = (((hi <<< 8) ||| lo) + 1) % 65536 ∧
      (run_cycles 6 s).reg_p = s.reg_p ∧ (run_cycles 6 s).reg_a = s.reg_a ∧
      (run_cycles 6 s).reg_x = s.reg_x ∧ (run_cycles 6 s).reg_y = s.reg_y) :=
  ⟨fun s a lo hi sp hidx hh hpc ha hs hsp h0 h1 h2 =>
      jsr_exec s a lo hi sp hidx hh hpc ha hs hsp h0 h1 h2,
    fun s a lo hi sp hidx hh hpc hs h0 h1 h2 => rts_exec s a lo hi sp hidx hh hpc hs h0 h1 h2⟩

/-- Witness for C18: `JSR $1234` at `$0000` with S = `$00` writes `$00` to `$0100`
and `$02` to `$01FF` and leaves S = `$FE`, PC = `$1234`; RTS with S = `$FE` pulls
`$33` from `$01FF` and `$12` from `$0100` and leaves PC = `$1234`, S = `$00`. -/
theorem jsr_rts_witness :
    (((stack_machine 0x20 0x00).cur_instr_index = 0 ∧ (stack_machine 0x20 0x00).hang = 0 ∧
      (stack_machine 0x20 0x00).pc = 0 ∧ (0 : Nat) < 65536 ∧
      (stack_machine 0x20 0x00).reg_s = 0x00 ∧ (0x00 : Nat) < 256 ∧
      (read_memory (stack_machine 0x20 0x00) 0).1 = 0x20 ∧
      (read_memory (stack_machine 0x20 0x00) (0 + 1)).1 = 0x34 ∧
      (read_memory (stack_machine 0x20 0x00) (0 + 2)).1 = 0x12) ∧
     (run_cycles 6 (stack_machine 0x20 0x00)).bus =
        [Access.read 0, Access.read 1, Access.read 2, Access.write 0x0100 0x00,
          Access.write 0x01FF 0x02] ∧
     (run_cycles 6 (stack_machine 0x20 0x00)).reg_s = 0xFE ∧
     (run_cycles 6 (stack_machine 0x20 0x00)).pc = 0x1234 ∧
     retires_after (stack_machine 0x20 0x00) 6) ∧
    (((stack_machine 0x60 0xFE).cur_instr_index = 0 ∧ (stack_machine 0x60 0xFE).hang = 0 ∧
      (stack_machine 0x60 0xFE).pc = 0 ∧ (stack_machine 0x60 0xFE).reg_s = 0xFE ∧
      (read_memory (stack_machine 0x60 0xFE) 0).1 = 0x60 ∧
      (read_memory (stack_machine 0x60 0xFE) (0x100 + (0xFE + 1) % 256)).1 = 0x33 ∧
      (read_memory (stack_machine 0x60 0xFE) (0x100 + (0xFE + 2) % 256)).1 = 0x12) ∧
     (run_cycles 6 (stack_machine 0x60 0xFE)).pc = 0x1234 ∧
     (run_cycles 6 (stack_machine 0x60 0xFE)).reg_s = 0x00 ∧
     retires_after (stack_machine 0x60 0xFE) 6) :=
  ⟨⟨⟨by decide, by decide, by decide, by decide, by decide, by decide, by decide, by decide,
      by decide⟩, by decide, by decide, by decide,
      (jsr_rts.1 (stack_machine 0x20 0x00) 0 0x34 0x12 0x00 (by decide) (by decide) (by decide)
        (by decide) (by decide) (by decide) (by decide) (by decide) (by decide)).1⟩,
    ⟨⟨by decide, by decide, by decide, by decide, by decide, by decide, by decide⟩,
      by decide, by decide,
      (jsr_rts.2 (stack_machine 0x60 0xFE) 0 0x33 0x12 0xFE (by decide) (by decide) (by decide)
        (by decide) (by decide) (by decide) (by decide)).1⟩⟩

/-- C19: PHP (`$08`) writes the byte P | `$30` to `$0100` + S, decrements S and
leaves the live P unchanged; PLP (`$28`) and RTI (`$40`), on pulling a byte b for
the status register, set P = (b | `$20`) & ~`$10` (on bytes: & `$EF`); RTI pulls
P, then PC low, then PC high (S increased by 3 modulo 256, PC = lo | hi << 8) and
takes exactly 6 cycles. -/
theorem status_on_stack :
    (∀ (s : State) (a sp : Nat), s.cur_instr_index = 0 → s.hang = 0 → s.pc = a →
      s.reg_s = sp → sp < 256 → s.reg_p < 256 → (read_memory s a).1 = 0x08 →
      retires_after s 3 ∧
      (run_cycles 3 s).bus = s.bus ++ [Access.read (a % 65536),
        Access.write (0x100 + sp) (s.reg_p ||| 0x30)] ∧
      (run_cycles 3 s).internal_ram (0x100 + sp) = s.reg_p ||| 0x30 ∧
      (run_cycles 3 s).reg_s = (sp + 255) % 256 ∧ (run_cycles 3 s).reg_p = s.reg_p) ∧
    (∀ (s : State) (a b sp : Nat), s.cur_instr_index = 0 → s.hang = 0 → s.pc = a →
      s.reg_s = sp → (read_memory s a).1 = 0x28 →
      (read_memory s (0x100 + (sp + 1) % 256)).1 = b →
      retires_after s 4 ∧
      (run_cycles 4 s).bus = s.bus ++ [Access.read (a % 65536),
        Access.read (0x100 + (sp + 1) % 256)] ∧
      (run_cycles 4 s).reg_s = (sp + 1) % 256 ∧
      (run_cycles 4 s).reg_p = (b ||| 0x20) &&& 0xEF) ∧
    (∀ (s : State) (a b lo hi sp : Nat), s.cur_instr_index = 0 → s.hang = 0 → s.pc = a →
      s.reg_s = sp → (read_memory s a).1 = 0x40 →
      (read_memory s (0x100 + (sp + 1) % 256)).1 = b →
      (read_memory s (0x100 + (sp + 2) % 256)).1 = lo →
      (read_memory s (0x100 + (sp + 3) % 256)).1 = hi →
      retires_after s 6 ∧
      (run_cycles 6 s).bus = s.bus ++ [Access.read (a % 65536),
        Access.read (0x100 + (sp + 1) % 256), Access.read (0x100 + (sp + 2) % 256),
        Access.read (0x100 + (sp + 3) % 256)] ∧
      (run_cycles 6 s).reg_s = (sp + 3) % 256 ∧ (run_cycles 6 s).pc = lo ||| (hi <<< 8) ∧
      (run_cycles 6 s).reg_p = (b ||| 0x20) &&& 0xEF) :=
  ⟨fun s a sp hidx hh hpc hs hsp hp h0 =>
      have h := php_exec s a sp hidx hh hpc hs hsp hp h0
      ⟨h.1, h.2.1, h.2.2.1, h.2.2.2.1, h.2.2.2.2.1⟩,
    fun s a b sp hidx hh hpc hs h0 h1 =>
      have h := plp_exec s a b sp hidx hh hpc hs h0 h1
      ⟨h.1, h.2.1, h.2.2.1, h.2.2.2.1⟩,
    fun s a b lo hi sp hidx hh hpc hs h0 h1 h2 h3 =>
      have h := rti_exec s a b lo hi sp hidx hh hpc hs h0 h1 h2 h3
      ⟨h.1, h.2.1, h.2.2.1, h.2.2.2.1, h.2.2.2.2.1⟩⟩

/-- Witness for C19: PHP with P = `$25`, S = `$00` writes `$35` to `$0100`; PLP
with S = `$FF` pulls `$12` and leaves P = `$22`; RTI with S = `$FD` pulls `$91`,
`$33`, `$12` and leaves P = `$A1`, PC = `$1233`, S = `$00`. -/
theorem status_on_stack_witness :
    (((stack_machine 0x08 0x00).cur_instr_index = 0 ∧ (stack_machine 0x08 0x00).hang = 0 ∧
      (stack_machine 0x08 0x00).pc = 0 ∧ (stack_machine 0x08 0x00).reg_s = 0x00 ∧
      (0x00 : Nat) < 256 ∧ (stack_machine 0x08 0x00).reg_p < 256 ∧
      (read_memory (stack_machine 0x08 0x00) 0).1 = 0x08) ∧
     (run_cycles 3 (stack_machine 0x08 0x00)).bus = [Access.read 0, Access.write 0x0100 0x35] ∧
     (run_cycles 3 (stack_machine 0x08 0x00)).reg_p = (stack_machine 0x08 0x00).reg_p) ∧
    (((stack_machine 0x28 0xFF).cur_instr_index = 0 ∧ (stack_machine 0x28 0xFF).hang = 0 ∧
      (stack_machine 0x28 0xFF).pc = 0 ∧ (stack_machine 0x28 0xFF).reg_s = 0xFF ∧
      (read_memory (stack_machine 0x28 0xFF) 0).1 = 0x28 ∧
      (read_memory (stack_machine 0x28 0xFF) (0x100 + (0xFF + 1) % 256)).1 = 0x12) ∧
     (run_cycles 4 (stack_machine 0x28 0xFF)).reg_p = 0x22 ∧
     (run_cycles 4 (stack_machine 0x28 0xFF)).reg_p = (0x12 ||| 0x20) &&& 0xEF) ∧
    (((stack_machine 0x40 0xFD).cur_instr_index = 0 ∧ (stack_machine 0x40 0xFD).hang = 0 ∧
      (stack_machine 0x40 0xFD).pc = 0 ∧ (stack_machine 0x40 0xFD).reg_s = 0xFD ∧
      (read_memory (stack_machine 0x40 0xFD) 0).1 = 0x40 ∧
      (read_memory (stack_machine 0x40 0xFD) (0x100 + (0xFD + 1) % 256)).1 = 0x91 ∧
      (read_memory (stack_machine 0x40 0xFD) (0x100 + (0xFD + 2) % 256)).1 = 0x33 ∧
      (read_memory (stack_machine 0x40 0xFD) (0x100 + (0xFD + 3) % 256)).1 = 0x12) ∧
     (run_cycles 6 (stack_machine 0x40 0xFD)).reg_p = 0xA1 ∧
     (run_cycles 6 (stack_machine 0x40 0xFD)).pc = 0x1233 ∧
     (run_cycles 6 (stack_machine 0x40 0xFD)).reg_s = 0x00 ∧
     retires_after (stack_machine 0x40 0xFD) 6) :=
  ⟨⟨⟨by decide, by decide, by decide, by decide, by decide, by decide, by decide⟩, by decide,
      (status_on_stack.1 (stack_machine 0x08 0x00) 0 0x00 (by decide) (by decide) (by decide)
        (by decide) (by decide) (by decide) (by decide)).2.2.2.2⟩,
    ⟨⟨by decide, by decide, by decide, by decide, by decide, by decide⟩, by decide,
      (status_on_stack.2.1 (stack_machine 0x28 0xFF) 0 0x12 0xFF (by decide) (by decide)
        (by decide) (by decide) (by decide) (by decide)).2.2.2⟩,
    ⟨⟨by decide, by decide, by decide, by decide, by decide, by decide, by decide, by decide⟩,
      by decide, by decide, by decide,
      (status_on_stack.2.2 (stack_machine 0x40 0xFD) 0 0x91 0x33 0x12 0xFD (by decide)
        (by decide) (by decide) (by decide) (by decide) (by decide) (by decide)
        (by decide)).1⟩⟩
theorem in_stack_page_write (sp v : Nat) (hsp : sp < 256) :
    in_stack_page (Access.write (0x100 + sp) v) := by
  simp only [in_stack_page, Access.addr]
  constructor <;> omega

theorem in_stack_page_read (sp : Nat) (hsp : sp < 256) :
    in_stack_page (Access.read (0x100 + sp)) := by
  simp only [in_stack_page, Access.addr]
  constructor <;> omega

/-- C20: for every value sp of S and each of the stack-using opcodes JSR, RTS,
RTI, PHA, PHP, PLA, PLP run from an instruction boundary, the bus accesses of the
instruction after its fetches at PC are its stack accesses, every one of them
targets an address in `$0100..$01FF`, and S is updated modulo 256; a push at
S = `$00` writes `$0100` and leaves S = `$FF`, a pull at S = `$FF` reads `$0100`
and leaves S = `$00`. -/
theorem stack_page_accesses :
    (∀ (s : State) (a sp : Nat), s.cur_instr_index = 0 → s.hang = 0 → s.pc = a → a < 65536 →
      s.reg_s = sp → sp < 256 → s.reg_a < 256 → s.reg_p < 256 →
      ((read_memory s a).1 = 0x20 → ∃ stk, (run_cycles 6 s).bus = s.bus ++
          [Access.read a, Access.read ((a + 1) % 65536), Access.read ((a + 2) % 65536)] ++ stk ∧
        stk.length = 2 ∧ (∀ x ∈ stk, in_stack_page x) ∧
        (run_cycles 6 s).reg_s = (sp + 254) % 256) ∧
      ((read_memory s a).1 = 0x60 → ∃ stk, (run_cycles 6 s).bus = s.bus ++ [Access.read a] ++ stk ∧
        stk.length = 2 ∧ (∀ x ∈ stk, in_stack_page x) ∧
        (run_cycles 6 s).reg_s = (sp + 2) % 256) ∧
      ((read_memory s a).1 = 0x40 → ∃ stk, (run_cycles 6 s).bus = s.bus ++ [Access.read a] ++ stk ∧
        stk.length = 3 ∧ (∀ x ∈ stk, in_stack_page x) ∧
        (run_cycles 6 s).reg_s = (sp + 3) % 256) ∧
      ((read_memory s a).1 = 0x48 → ∃ stk, (run_cycles 3 s).bus = s.bus ++ [Access.read a] ++ stk ∧
        stk.length = 1 ∧ (∀ x ∈ stk, in_stack_page x) ∧
        (run_cycles 3 s).reg_s = (sp + 255) % 256) ∧
      ((read_memory s a).1 = 0x08 → ∃ stk, (run_cycles 3 s).bus = s.bus ++ [Access.read a] ++ stk ∧
        stk.length = 1 ∧ (∀ x ∈ stk, in_stack_page x) ∧
        (run_cycles 3 s).reg_s = (sp + 255) % 256) ∧
      ((read_memory s a).1 = 0x68 → ∃ stk, (run_cycles 4 s).bus = s.bus ++ [Access.read a] ++ stk ∧
        stk.length = 1 ∧ (∀ x ∈ stk, in_stack_page x) ∧
        (run_cycles 4 s).reg_s = (sp + 1) % 256) ∧
      ((read_memory s a).1 = 0x28 → ∃ stk, (run_cycles 4 s).bus = s.bus ++ [Access.read a] ++ stk ∧
        stk.length = 1 ∧ (∀ x ∈ stk, in_stack_page x) ∧
        (run_cycles 4 s).reg_s = (sp + 1) % 256)) ∧
    ((run_cycles 3 (stack_machine 0x48 0x00)).bus = [Access.read 0, Access.write 0x0100 0x42] ∧
      (run_cycles 3 (stack_machine 0x48 0x00)).reg_s = 0xFF ∧
      (run_cycles 4 (stack_machine 0x68 0xFF)).bus = [Access.read 0, Access.read 0x0100] ∧
      (run_cycles 4 (stack_machine 0x68 0xFF)).reg_s = 0x00) := by
  refine ⟨?_, by decide, by decide, by decide, by decide⟩
  intro s a sp hidx hh hpc ha hs hsp hA hp
  have ham : a % 65536 = a := Nat.mod_eq_of_lt ha
  have m1 : (sp + 1) % 256 < 256 := Nat.mod_lt _ (by norm_num)
  have m2 : (sp + 2) % 256 < 256 := Nat.mod_lt _ (by norm_num)
  have m3 : (sp + 3) % 256 < 256 := Nat.mod_lt _ (by norm_num)
  have m255 : (sp + 255) % 256 < 256 := Nat.mod_lt _ (by norm_num)
  refine ⟨?_, ?_, ?_, ?_, ?_, ?_, ?_⟩
  · intro h0
    have h := jsr_exec s a _ _ sp hidx hh hpc ha hs hsp h0 rfl rfl
    refine ⟨[Access.write (0x100 + sp) (((a + 2) >>> 8) % 256),
      Access.write (0x100 + (sp + 255) % 256) ((a + 2) &&& 0xFF)], ?_, rfl, ?_, h.2.2.1⟩
    · rw [h.2.1]
      simp
    · intro x hx
      simp only [List.mem_cons, List.mem_singleton, List.not_mem_nil, or_false] at hx
      rcases hx with rfl | rfl
      · exact in_stack_page_write _ _ hsp
      · exact in_stack_page_write _ _ m255
  · intro h0
    have h := rts_exec s a _ _ sp hidx hh hpc hs h0 rfl rfl
    refine ⟨[Access.read (0x100 + (sp + 1) % 256), Access.read (0x100 + (sp + 2) % 256)],
      ?_, rfl, ?_, h.2.2.1⟩
    · rw [h.2.1, ham]
      simp
    · intro x hx
      simp only [List.mem_cons, List.mem_singleton, List.not_mem_nil, or_false] at hx
      rcases hx with rfl | rfl
      · exact in_stack_page_read _ m1
      · exact in_stack_page_read _ m2
  · intro h0
    have h := rti_exec s a _ _ _ sp hidx hh hpc hs h0 rfl rfl rfl
    refine ⟨[Access.read (0x100 + (sp + 1) % 256), Access.read (0x100 + (sp + 2) % 256),
      Access.read (0x100 + (sp + 3) % 256)], ?_, rfl, ?_, h.2.2.1⟩
    · rw [h.2.1, ham]
      simp
    · intro x hx
      simp only [List.mem_cons, List.mem_singleton, List.not_mem_nil, or_false] at hx
      rcases hx with rfl | rfl | rfl
      · exact in_stack_page_read _ m1
      · exact in_stack_page_read _ m2
      · exact in_stack_page_read _ m3
  · intro h0
    have h := pha_exec s a sp hidx hh hpc hs hsp hA h0
    refine ⟨[Access.write (0x100 + sp) s.reg_a], ?_, rfl, ?_, h.2.2.1⟩
    · rw [h.2.1, ham]
      simp
    · intro x hx
      simp only [List.mem_singleton] at hx
      subst hx
      exact in_stack_page_write _ _ hsp
  · intro h0
    have h := php_exec s a sp hidx hh hpc hs hsp hp h0
    refine ⟨[Access.write (0x100 + sp) (s.reg_p ||| 0x30)], ?_, rfl, ?_, h.2.2.2.1⟩
    · rw [h.2.1, ham]
      simp
    · intro x hx
      simp only [List.mem_singleton] at hx
      subst hx
      exact in_stack_page_write _ _ hsp
  · intro h0
    have h := pla_exec s a _ sp hidx hh hpc hs h0 rfl
    refine ⟨[Access.read (0x100 + (sp + 1) % 256)], ?_, rfl, ?_, h.2.2.1⟩
    · rw [h.2.1, ham]
      simp
    · intro x hx
      simp only [List.mem_singleton] at hx
      subst hx
      exact in_stack_page_read _ m1
  · intro h0
    have h := plp_exec s a _ sp hidx hh hpc hs h0 rfl
    refine ⟨[Access.read (0x100 + (sp + 1) % 256)], ?_, rfl, ?_, h.2.2.1⟩
    · rw [h.2.1, ham]
      simp
    · intro x hx
      simp only [List.mem_singleton] at hx
      subst hx
      exact in_stack_page_read _ m1

/-- Witness for C20: PHA at S = `$00` (A = `$42`): the one stack access is in the
stack page and S becomes `$FF`. -/
theorem stack_page_accesses_witness :
    ((stack_machine 0x48 0x00).cur_instr_index = 0 ∧ (stack_machine 0x48 0x00).hang = 0 ∧
      (stack_machine 0x48 0x00).pc = 0 ∧ (0 : Nat) < 65536 ∧
      (stack_machine 0x48 0x00).reg_s = 0x00 ∧ (0x00 : Nat) < 256 ∧
      (stack_machine 0x48 0x00).reg_a < 256 ∧ (stack_machine 0x48 0x00).reg_p < 256 ∧
      (read_memory (stack_machine 0x48 0x00) 0).1 = 0x48) ∧
    ∃ stk, (run_cycles 3 (stack_machine 0x48 0x00)).bus =
        (stack_machine 0x48 0x00).bus ++ [Access.read 0] ++ stk ∧
      stk.length = 1 ∧ (∀ x ∈ stk, in_stack_page x) ∧
      (run_cycles 3 (stack_machine 0x48 0x00)).reg_s = (0x00 + 255) % 256 :=
  ⟨⟨by decide, by decide, by decide, by decide, by decide, by decide, by decide, by decide,
      by decide⟩,
    (stack_page_accesses.1 (stack_machine 0x48 0x00) 0 0x00 (by decide) (by decide) (by decide)
      (by decide) (by decide) (by decide) (by decide) (by decide)).2.2.2.1 (by decide)⟩

/-! ## The ALU group, mode by mode (C13, C14) -/

theorem run_cycles_succ_right (n : Nat) (s : State) :
    run_cycles (n + 1) s = (p6502_run_cycle (run_cycles n s)).2 := by
  induction n generalizing s with
  | zero => rfl
  | succ k ih =>
    rw [run_cycles_succ, ih, run_cycles_succ]

/-- The cycle at which an ALU-group instruction retires: when the addressing
switch reports `ready`, the operation switch runs on its result and the index is
reset. -/
theorem alu_retire_cycle (s : State) (n : Nat) (hn : 0 < n)
    (hh : (run_cycles (n - 1) s).hang = 0) (hi : (run_cycles (n - 1) s).cur_instr_index ≠ 0)
    (h3 : (run_cycles (n - 1) s).cur_instr 0 &&& 0x3 = 0x1)
    (hr : (alu_addressing (tick (run_cycles (n - 1) s))).2 = 1) :
    run_cycles n s = single_step_halt (set_index (alu_operation (alu_ready_state s n)) 0) := by
  obtain ⟨k, rfl⟩ : ∃ k, n = k + 1 := ⟨n - 1, by omega⟩
  simp only [Nat.add_sub_cancel] at hh hi h3 hr
  have h3t : (tick (run_cycles k s)).cur_instr 0 &&& 0x3 = 0x1 := by simpa using h3
  rw [run_cycles_succ_right, run_cycle_decode _ hh hi, decode_opcode_alu _ h3t]
  simp only [decode_alu, hr, if_true, alu_ready_state, Nat.add_sub_cancel]

theorem rd_val (s : State) (a : Nat) :
    rd s a = bus_val s.internal_ram s.mapper_cpur s.mapper0_prg_rom s.mapper0_prg_rom_mask a :=
  read_memory_val s a

theorem rd_lt (s : State) (a : Nat) : rd s a < 256 := by
  rw [rd_val]
  exact bus_val_lt _ _ _ _ _

set_option maxHeartbeats 1600000 in
/-- ALU group, immediate mode (`case 0x09`): retirement at cycle 2, the operand
is the byte after the opcode. -/
theorem alu_immediate_exec (s : State) (op : Nat) (hidx : s.cur_instr_index = 0)
    (hh : s.hang = 0) (h0 : rd s s.pc = op) (h3 : op &&& 0x3 = 0x1)
    (hm : op &&& 0x1D = 0x09) :
    retires_after s 2 ∧
    run_cycles 2 s = single_step_halt (set_index (alu_operation (alu_ready_state s 2)) 0) ∧
    (alu_ready_state s 2).cur_instr 0 = op ∧ same_machine s (alu_ready_state s 2) ∧
    (alu_ready_state s 2).cur_instr 4 = rd s (s.pc + 1) := by
  rw [rd_val] at h0
  have hop : op % 256 = op := by rw [← h0]; simp
  refine ⟨⟨by norm_num, ?_, ?_⟩, ?_, ?_, ?_, ?_⟩
  · simp [run_cycle_fetch, run_cycle_decode, decode_opcode_alu, decode_alu, alu_addressing,
      alu_immediate, read_memory_val, hidx, hh, h0, h3, hm, hop]
  · intro k hk hk0
    have : k = 1 := by omega
    subst this
    simp [run_cycle_fetch, hidx, hh]
  · refine alu_retire_cycle s 2 (by norm_num) ?_ ?_ ?_ ?_ <;>
      simp [run_cycle_fetch, run_cycle_decode, alu_addressing,
        alu_immediate, read_memory_val, hidx, hh, h0, h3, hm, hop]
  · simp [alu_ready_state, run_cycle_fetch, run_cycle_decode, alu_addressing,
      alu_immediate, read_memory_val, hidx, hh, h0, h3, hm, hop]
  · simp [same_machine, alu_ready_state, run_cycle_fetch, run_cycle_decode, alu_addressing,
      alu_immediate, read_memory_val, hidx, hh, h0, h3, hm, hop]
  · simp [rd_val, alu_ready_state, run_cycle_fetch, run_cycle_decode, alu_addressing,
      alu_immediate, read_memory_val, hidx, hh, h0, h3, hm, hop]
theorem FF_and (x : Nat) : 0xFF &&& x = x % 256 := by
  rw [Nat.land_comm, and_FF]

theorem word_eq (lo hi : Nat) (hlo : lo < 256) : lo ||| (hi <<< 8) = lo + 256 * hi := by
  rw [or_shl8 lo hi hlo]
  omega

set_option maxHeartbeats 3200000 in
/-- ALU group, zero page (`case 0x05`): retirement at cycle 3; the latch holds the
effective address and, for every operation but STA, the operand read there. -/
theorem alu_zero_page_exec (s : State) (op : Nat) (hidx : s.cur_instr_index = 0)
    (hh : s.hang = 0) (h0 : rd s s.pc = op) (h3 : op &&& 0x3 = 0x1)
    (hm : op &&& 0x1D = 0x05) :
    retires_after s 3 ∧
    run_cycles 3 s = single_step_halt (set_index (alu_operation (alu_ready_state s 3)) 0) ∧
    (alu_ready_state s 3).cur_instr 0 = op ∧ same_machine s (alu_ready_state s 3) ∧
    (alu_ready_state s 3).cur_instr 1 ||| ((alu_ready_state s 3).cur_instr 2 <<< 8) =
      rd s (s.pc + 1) ∧
    (op &&& 0xE0 ≠ 0x80 → (alu_ready_state s 3).cur_instr 4 =
      rd s (rd s (s.pc + 1))) := by
  rw [rd_val] at h0
  have hop : op % 256 = op := by rw [← h0]; simp
  refine ⟨⟨by norm_num, ?_, ?_⟩, ?_, ?_, ?_, ?_, ?_⟩
  · by_cases hsta : op &&& 0xE0 = 0x80 <;>
    simp [rd_val, same_machine, alu_ready_state, run_cycle_fetch, run_cycle_decode, decode_opcode_alu,
        decode_alu, alu_addressing, alu_zero_page, read_memory_val, hidx, hh, h0, h3, hm, hsta, hop, FF_and,
        word_eq, bus_val_lt, Nat.add_assoc]
  · intro k hk hk0
    have : k = 1 ∨ k = 2 := by omega
    by_cases hsta : op &&& 0xE0 = 0x80 <;>
    rcases this with rfl | rfl <;>
    simp [rd_val, same_machine, alu_ready_state, run_cycle_fetch, run_cycle_decode, decode_opcode_alu,
        decode_alu, alu_addressing, alu_zero_page, read_memory_val, hidx, hh, h0, h3, hm, hsta, hop, FF_and,
        word_eq, bus_val_lt, Nat.add_assoc]
  · by_cases hsta : op &&& 0xE0 = 0x80 <;>
    refine alu_retire_cycle s 3 (by norm_num) ?_ ?_ ?_ ?_ <;>
    simp [rd_val, same_machine, alu_ready_state, run_cycle_fetch, run_cycle_decode, decode_opcode_alu,
        decode_alu, alu_addressing, alu_zero_page, read_memory_val, hidx, hh, h0, h3, hm, hsta, hop, FF_and,
        word_eq, bus_val_lt, Nat.add_assoc]
  · by_cases hsta : op &&& 0xE0 = 0x80 <;>
    simp [rd_val, same_machine, alu_ready_state, run_cycle_fetch, run_cycle_decode, decode_opcode_alu,
        decode_alu, alu_addressing, alu_zero_page, read_memory_val, hidx, hh, h0, h3, hm, hsta, hop, FF_and,
        word_eq, bus_val_lt, Nat.add_assoc]
  · by_cases hsta : op &&& 0xE0 = 0x80 <;>
    simp [rd_val, same_machine, alu_ready_state, run_cycle_fetch, run_cycle_decode, decode_opcode_alu,
        decode_alu, alu_addressing, alu_zero_page, read_memory_val, hidx, hh, h0, h3, hm, hsta, hop, FF_and,
        word_eq, bus_val_lt, Nat.add_assoc]
  · by_cases hsta : op &&& 0xE0 = 0x80 <;>
    simp [rd_val, same_machine, alu_ready_state, run_cycle_fetch, run_cycle_decode, decode_opcode_alu,
        decode_alu, alu_addressing, alu_zero_page, read_memory_val, hidx, hh, h0, h3, hm, hsta, hop, FF_and,
        word_eq, bus_val_lt, Nat.add_assoc]
  · intro hsta
    simp [rd_val, same_machine, alu_ready_state, run_cycle_fetch, run_cycle_decode, decode_opcode_alu,
        decode_alu, alu_addressing, alu_zero_page, read_memory_val, hidx, hh, h0, h3, hm, hsta, hop, FF_and,
        word_eq, bus_val_lt, Nat.add_assoc]

set_option maxHeartbeats 3200000 in
/-- ALU group, zero page,X (`case 0x15`): retirement at cycle 4; the latch holds the
effective address and, for every operation but STA, the operand read there. -/
theorem alu_zero_page_x_exec (s : State) (op : Nat) (hidx : s.cur_instr_index = 0)
    (hh : s.hang = 0) (h0 : rd s s.pc = op) (h3 : op &&& 0x3 = 0x1)
    (hm : op &&& 0x1D = 0x15) :
    retires_after s 4 ∧
    run_cycles 4 s = single_step_halt (set_index (alu_operation (alu_ready_state s 4)) 0) ∧
    (alu_ready_state s 4).cur_instr 0 = op ∧ same_machine s (alu_ready_state s 4) ∧
    (alu_ready_state s 4).cur_instr 1 ||| ((alu_ready_state s 4).cur_instr 2 <<< 8) =
      (s.reg_x + rd s (s.pc + 1)) % 256 ∧
    (op &&& 0xE0 ≠ 0x80 → (alu_ready_state s 4).cur_instr 4 =
      rd s ((s.reg_x + rd s (s.pc + 1)) % 256)) := by
  rw [rd_val] at h0
  have hop : op % 256 = op := by rw [← h0]; simp
  refine ⟨⟨by norm_num, ?_, ?_⟩, ?_, ?_, ?_, ?_, ?_⟩
  · by_cases hsta : op &&& 0xE0 = 0x80 <;>
    simp [rd_val, same_machine, alu_ready_state, run_cycle_fetch, run_cycle_decode, decode_opcode_alu,
        decode_alu, alu_addressing, alu_zero_page_x, read_memory_val, hidx, hh, h0, h3, hm, hsta, hop, FF_and,
        word_eq, bus_val_lt, Nat.add_assoc]
  · intro k hk hk0
    have : k = 1 ∨ k = 2 ∨ k = 3 := by omega
    by_cases hsta : op &&& 0xE0 = 0x80 <;>
    rcases this with rfl | rfl | rfl <;>
    simp [rd_val, same_machine, alu_ready_state, run_cycle_fetch, run_cycle_decode, decode_opcode_alu,
        decode_alu, alu_addressing, alu_zero_page_x, read_memory_val, hidx, hh, h0, h3, hm, hsta, hop, FF_and,
        word_eq, bus_val_lt, Nat.add_assoc]
  · by_cases hsta : op &&& 0xE0 = 0x80 <;>
    refine alu_retire_cycle s 4 (by norm_num) ?_ ?_ ?_ ?_ <;>
    simp [rd_val, same_machine, alu_ready_state, run_cycle_fetch, run_cycle_decode, decode_opcode_alu,
        decode_alu, alu_addressing, alu_zero_page_x, read_memory_val, hidx, hh, h0, h3, hm, hsta, hop, FF_and,
        word_eq, bus_val_lt, Nat.add_assoc]
  · by_cases hsta : op &&& 0xE0 = 0x80 <;>
    simp [rd_val, same_machine, alu_ready_state, run_cycle_fetch, run_cycle_decode, decode_opcode_alu,
        decode_alu, alu_addressing, alu_zero_page_x, read_memory_val, hidx, hh, h0, h3, hm, hsta, hop, FF_and,
        word_eq, bus_val_lt, Nat.add_assoc]
  · by_cases hsta : op &&& 0xE0 = 0x80 <;>
    simp [rd_val, same_machine, alu_ready_state, run_cycle_fetch, run_cycle_decode, decode_opcode_alu,
        decode_alu, alu_addressing, alu_zero_page_x, read_memory_val, hidx, hh, h0, h3, hm, hsta, hop, FF_and,
        word_eq, bus_val_lt, Nat.add_assoc]
  · by_cases hsta : op &&& 0xE0 = 0x80 <;>
    simp [rd_val, same_machine, alu_ready_state, run_cycle_fetch, run_cycle_decode, decode_opcode_alu,
        decode_alu, alu_addressing, alu_zero_page_x, read_memory_val, hidx, hh, h0, h3, hm, hsta, hop, FF_and,
        word_eq, bus_val_lt, Nat.add_assoc]
  · intro hsta
    simp [rd_val, same_machine, alu_ready_state, run_cycle_fetch, run_cycle_decode, decode_opcode_alu,
        decode_alu, alu_addressing, alu_zero_page_x, read_memory_val, hidx, hh, h0, h3, hm, hsta, hop, FF_and,
        word_eq, bus_val_lt, Nat.add_assoc]

set_option maxHeartbeats 3200000 in
/-- ALU group, absolute (`case 0x0D`): retirement at cycle 4; the latch holds the
effective address and, for every operation but STA, the operand read there. -/
theorem alu_absolute_exec (s : State) (op : Nat) (hidx : s.cur_instr_index = 0)
    (hh : s.hang = 0) (h0 : rd s s.pc = op) (h3 : op &&& 0x3 = 0x1)
    (hm : op &&& 0x1D = 0x0D) :
    retires_after s 4 ∧
    run_cycles 4 s = single_step_halt (set_index (alu_operation (alu_ready_state s 4)) 0) ∧
    (alu_ready_state s 4).cur_instr 0 = op ∧ same_machine s (alu_ready_state s 4) ∧
    (alu_ready_state s 4).cur_instr 1 ||| ((alu_ready_state s 4).cur_instr 2 <<< 8) =
      rd s (s.pc + 1) + 256 * rd s (s.pc + 2) ∧
    (op &&& 0xE0 ≠ 0x80 → (alu_ready_state s 4).cur_instr 4 =
      rd s (rd s (s.pc + 1) + 256 * rd s (s.pc + 2))) := by
  rw [rd_val] at h0
  have hop : op % 256 = op := by rw [← h0]; simp
  refine ⟨⟨by norm_num, ?_, ?_⟩, ?_, ?_, ?_, ?_, ?_⟩
  · by_cases hsta : op &&& 0xE0 = 0x80 <;>
    simp [rd_val, same_machine, alu_ready_state, run_cycle_fetch, run_cycle_decode, decode_opcode_alu,
        decode_alu, alu_addressing, alu_absolute, read_memory_val, hidx, hh, h0, h3, hm, hsta, hop, FF_and,
        word_eq, bus_val_lt, Nat.add_assoc]
  · intro k hk hk0
    have : k = 1 ∨ k = 2 ∨ k = 3 := by omega
    by_cases hsta : op &&& 0xE0 = 0x80 <;>
    rcases this with rfl | rfl | rfl <;>
    simp [rd_val, same_machine, alu_ready_state, run_cycle_fetch, run_cycle_decode, decode_opcode_alu,
        decode_alu, alu_addressing, alu_absolute, read_memory_val, hidx, hh, h0, h3, hm, hsta, hop, FF_and,
        word_eq, bus_val_lt, Nat.add_assoc]
  · by_cases hsta : op &&& 0xE0 = 0x80 <;>
    refine alu_retire_cycle s 4 (by norm_num) ?_ ?_ ?_ ?_ <;>
    simp [rd_val, same_machine, alu_ready_state, run_cycle_fetch, run_cycle_decode, decode_opcode_alu,
        decode_alu, alu_addressing, alu_absolute, read_memory_val, hidx, hh, h0, h3, hm, hsta, hop, FF_and,
        word_eq, bus_val_lt, Nat.add_assoc]
  · by_cases hsta : op &&& 0xE0 = 0x80 <;>
    simp [rd_val, same_machine, alu_ready_state, run_cycle_fetch, run_cycle_decode, decode_opcode_alu,
        decode_alu, alu_addressing, alu_absolute, read_memory_val, hidx, hh, h0, h3, hm, hsta, hop, FF_and,
        word_eq, bus_val_lt, Nat.add_assoc]
  · by_cases hsta : op &&& 0xE0 = 0x80 <;>
    simp [rd_val, same_machine, alu_ready_state, run_cycle_fetch, run_cycle_decode, decode_opcode_alu,
        decode_alu, alu_addressing, alu_absolute, read_memory_val, hidx, hh, h0, h3, hm, hsta, hop, FF_and,
        word_eq, bus_val_lt, Nat.add_assoc]
  · by_cases hsta : op &&& 0xE0 = 0x80 <;>
    simp [rd_val, same_machine, alu_ready_state, run_cycle_fetch, run_cycle_decode, decode_opcode_alu,
        decode_alu, alu_addressing, alu_absolute, read_memory_val, hidx, hh, h0, h3, hm, hsta, hop, FF_and,
        word_eq, bus_val_lt, Nat.add_assoc]
  · intro hsta
    simp [rd_val, same_machine, alu_ready_state, run_cycle_fetch, run_cycle_decode, decode_opcode_alu,
        decode_alu, alu_addressing, alu_absolute, read_memory_val, hidx, hh, h0, h3, hm, hsta, hop, FF_and,
        word_eq, bus_val_lt, Nat.add_assoc]

set_option maxHeartbeats 3200000 in
/-- ALU group, (indirect,X) (`case 0x01`): retirement at cycle 6; the latch holds the
effective address and, for every operation but STA, the operand read there. -/
theorem alu_indirect_x_exec (s : State) (op : Nat) (hidx : s.cur_instr_index = 0)
    (hh : s.hang = 0) (h0 : rd s s.pc = op) (h3 : op &&& 0x3 = 0x1)
    (hm : op &&& 0x1D = 0x01) :
    retires_after s 6 ∧
    run_cycles 6 s = single_step_halt (set_index (alu_operation (alu_ready_state s 6)) 0) ∧
    (alu_ready_state s 6).cur_instr 0 = op ∧ same_machine s (alu_ready_state s 6) ∧
    (alu_ready_state s 6).cur_instr 1 ||| ((alu_ready_state s 6).cur_instr 2 <<< 8) =
      rd s ((rd s (s.pc + 1) + s.reg_x) % 256) + 256 * rd s ((rd s (s.pc + 1) + s.reg_x + 1) % 256) ∧
    (op &&& 0xE0 ≠ 0x80 → (alu_ready_state s 6).cur_instr 4 =
      rd s (rd s ((rd s (s.pc + 1) + s.reg_x) % 256) + 256 * rd s ((rd s (s.pc + 1) + s.reg_x + 1) % 256))) := by
  rw [rd_val] at h0
  have hop : op % 256 = op := by rw [← h0]; simp
  refine ⟨⟨by norm_num, ?_, ?_⟩, ?_, ?_, ?_, ?_, ?_⟩
  · by_cases hsta : op &&& 0xE0 = 0x80 <;>
    simp [rd_val, same_machine, alu_ready_state, run_cycle_fetch, run_cycle_decode, decode_opcode_alu,
        decode_alu, alu_addressing, alu_indirect_x, read_memory_val, hidx, hh, h0, h3, hm, hsta, hop, FF_and,
        word_eq, bus_val_lt, Nat.add_assoc]
  · intro k hk hk0
    have : k = 1 ∨ k = 2 ∨ k = 3 ∨ k = 4 ∨ k = 5 := by omega
    by_cases hsta : op &&& 0xE0 = 0x80 <;>
    rcases this with rfl | rfl | rfl | rfl | rfl <;>
    simp [rd_val, same_machine, alu_ready_state, run_cycle_fetch, run_cycle_decode, decode_opcode_alu,
        decode_alu, alu_addressing, alu_indirect_x, read_memory_val, hidx, hh, h0, h3, hm, hsta, hop, FF_and,
        word_eq, bus_val_lt, Nat.add_assoc]
  · by_cases hsta : op &&& 0xE0 = 0x80 <;>
    refine alu_retire_cycle s 6 (by norm_num) ?_ ?_ ?_ ?_ <;>
    simp [rd_val, same_machine, alu_ready_state, run_cycle_fetch, run_cycle_decode, decode_opcode_alu,
        decode_alu, alu_addressing, alu_indirect_x, read_memory_val, hidx, hh, h0, h3, hm, hsta, hop, FF_and,
        word_eq, bus_val_lt, Nat.add_assoc]
  · by_cases hsta : op &&& 0xE0 = 0x80 <;>
    simp [rd_val, same_machine, alu_ready_state, run_cycle_fetch, run_cycle_decode, decode_opcode_alu,
        decode_alu, alu_addressing, alu_indirect_x, read_memory_val, hidx, hh, h0, h3, hm, hsta, hop, FF_and,
        word_eq, bus_val_lt, Nat.add_assoc]
  · by_cases hsta : op &&& 0xE0 = 0x80 <;>
    simp [rd_val, same_machine, alu_ready_state, run_cycle_fetch, run_cycle_decode, decode_opcode_alu,
        decode_alu, alu_addressing, alu_indirect_x, read_memory_val, hidx, hh, h0, h3, hm, hsta, hop, FF_and,
        word_eq, bus_val_lt, Nat.add_assoc]
  · by_cases hsta : op &&& 0xE0 = 0x80 <;>
    simp [rd_val, same_machine, alu_ready_state, run_cycle_fetch, run_cycle_decode, decode_opcode_alu,
        decode_alu, alu_addressing, alu_indirect_x, read_memory_val, hidx, hh, h0, h3, hm, hsta, hop, FF_and,
        word_eq, bus_val_lt, Nat.add_assoc]
  · intro hsta
    simp [rd_val, same_machine, alu_ready_state, run_cycle_fetch, run_cycle_decode, decode_opcode_alu,
        decode_alu, alu_addressing, alu_indirect_x, read_memory_val, hidx, hh, h0, h3, hm, hsta, hop, FF_and,
        word_eq, bus_val_lt, Nat.add_assoc]

theorem word_eq_mul (lo hi : Nat) (hlo : lo < 256) : lo ||| hi * 256 = lo + 256 * hi := by
  have h := word_eq lo hi hlo
  rw [Nat.shiftLeft_eq] at h
  exact h

set_option maxHeartbeats 6400000 in
/-- ALU group, absolute,X (`case 0x1D`): retirement at cycle 4 when the indexed
address stays in the page of the base and the operation is not STA, at cycle 5
otherwise. -/
theorem alu_absolute_x_exec (s : State) (op b1 b2 n : Nat) (hidx : s.cur_instr_index = 0)
    (hh : s.hang = 0) (h0 : rd s s.pc = op) (h3 : op &&& 0x3 = 0x1)
    (hm : op &&& 0x1D = 0x1D) (h1 : rd s (s.pc + 1) = b1) (h2 : rd s (s.pc + 2) = b2)
    (hx : s.reg_x < 256)
    (hn : n = if (b1 + 256 * b2 + s.reg_x) / 256 = (b1 + 256 * b2) / 256 ∧ op &&& 0xE0 ≠ 0x80
      then 4 else 5) :
    retires_after s n ∧
    run_cycles n s = single_step_halt (set_index (alu_operation (alu_ready_state s n)) 0) ∧
    (alu_ready_state s n).cur_instr 0 = op ∧ same_machine s (alu_ready_state s n) ∧
    (alu_ready_state s n).cur_instr 1 ||| ((alu_ready_state s n).cur_instr 2 <<< 8) =
      (b1 + 256 * b2 + s.reg_x) % 65536 ∧
    (op &&& 0xE0 ≠ 0x80 → (alu_ready_state s n).cur_instr 4 =
      rd s ((b1 + 256 * b2 + s.reg_x) % 65536)) := by
  rw [rd_val] at h0 h1 h2
  have hop : op % 256 = op := by rw [← h0]; simp
  have hb1 : b1 < 256 := by rw [← h1]; exact bus_val_lt _ _ _ _ _
  have hb2 : b2 < 256 := by rw [← h2]; exact bus_val_lt _ _ _ _ _
  have hb1m : b1 % 256 = b1 := Nat.mod_eq_of_lt hb1
  have hb2m : b2 % 256 = b2 := Nat.mod_eq_of_lt hb2
  have hea2 : bus_val s.internal_ram s.mapper_cpur s.mapper0_prg_rom s.mapper0_prg_rom_mask
      (s.reg_x + (b1 + b2 * 256)) =
      bus_val s.internal_ram s.mapper_cpur s.mapper0_prg_rom s.mapper0_prg_rom_mask
        (b1 + (256 * b2 + s.reg_x)) := by
    congr 1
    omega
  by_cases hpg : (b1 + 256 * b2 + s.reg_x) / 256 = (b1 + 256 * b2) / 256
  · have hc : (s.reg_x + (b1 + b2 * 256)) % 65536 / 256 = b2 := by omega
    by_cases hsta : op &&& 0xE0 = 0x80
    ·
      have e : n = 5 := by rw [hn]; simp [hsta, hpg]
      subst e
      refine ⟨⟨by norm_num, ?_, ?_⟩, ?_, ?_, ?_, ?_, ?_⟩
      · simp [rd_val, same_machine, alu_ready_state, run_cycle_fetch, run_cycle_decode,
          decode_opcode_alu, decode_alu, alu_addressing, alu_absolute_x, read_memory_val, hidx, hh,
          h0, h1, h2, h3, hm, hsta, hop, hc, hb1m, hb2m, FF_and, and_FF, word_eq_mul, bus_val_lt,
          Nat.add_assoc, Nat.shiftLeft_eq, Nat.shiftRight_eq_div_pow, Nat.mod_lt]
      · intro k hk hk0
        have : k = 1 ∨ k = 2 ∨ k = 3 ∨ k = 4 := by omega
        rcases this with rfl | rfl | rfl | rfl <;>
        simp [rd_val, same_machine, alu_ready_state, run_cycle_fetch, run_cycle_decode,
          decode_opcode_alu, decode_alu, alu_addressing, alu_absolute_x, read_memory_val, hidx, hh,
          h0, h1, h2, h3, hm, hsta, hop, hc, hb1m, hb2m, FF_and, and_FF, word_eq_mul, bus_val_lt,
          Nat.add_assoc, Nat.shiftLeft_eq, Nat.shiftRight_eq_div_pow, Nat.mod_lt]
      · refine alu_retire_cycle s 5 (by norm_num) ?_ ?_ ?_ ?_ <;>
        simp [rd_val, same_machine, alu_ready_state, run_cycle_fetch, run_cycle_decode,
          decode_opcode_alu, decode_alu, alu_addressing, alu_absolute_x, read_memory_val, hidx, hh,
          h0, h1, h2, h3, hm, hsta, hop, hc, hb1m, hb2m, FF_and, and_FF, word_eq_mul, bus_val_lt,
          Nat.add_assoc, Nat.shiftLeft_eq, Nat.shiftRight_eq_div_pow, Nat.mod_lt]
      · simp [rd_val, same_machine, alu_ready_state, run_cycle_fetch, run_cycle_decode,
          decode_opcode_alu, decode_alu, alu_addressing, alu_absolute_x, read_memory_val, hidx, hh,
          h0, h1, h2, h3, hm, hsta, hop, hc, hb1m, hb2m, FF_and, and_FF, word_eq_mul, bus_val_lt,
          Nat.add_assoc, Nat.shiftLeft_eq, Nat.shiftRight_eq_div_pow, Nat.mod_lt]
      · simp [rd_val, same_machine, alu_ready_state, run_cycle_fetch, run_cycle_decode,
          decode_opcode_alu, decode_alu, alu_addressing, alu_absolute_x, read_memory_val, hidx, hh,
          h0, h1, h2, h3, hm, hsta, hop, hc, hb1m, hb2m, FF_and, and_FF, word_eq_mul, bus_val_lt,
          Nat.add_assoc, Nat.shiftLeft_eq, Nat.shiftRight_eq_div_pow, Nat.mod_lt]
      · simp [rd_val, same_machine, alu_ready_state, run_cycle_fetch, run_cycle_decode,
          decode_opcode_alu, decode_alu, alu_addressing, alu_absolute_x, read_memory_val, hidx, hh,
          h0, h1, h2, h3, hm, hsta, hop, hc, hb1m, hb2m, FF_and, and_FF, word_eq_mul, bus_val_lt,
          Nat.add_assoc, Nat.shiftLeft_eq, Nat.shiftRight_eq_div_pow, Nat.mod_lt]
        omega
      · intro h
        exact absurd hsta h
    ·
      have e : n = 4 := by rw [hn]; simp [hsta, hpg]
      subst e
      refine ⟨⟨by norm_num, ?_, ?_⟩, ?_, ?_, ?_, ?_, ?_⟩
      · simp [rd_val, same_machine, alu_ready_state, run_cycle_fetch, run_cycle_decode,
          decode_opcode_alu, decode_alu, alu_addressing, alu_absolute_x, read_memory_val, hidx, hh,
          h0, h1, h2, h3, hm, hsta, hop, hc, hb1m, hb2m, FF_and, and_FF, word_eq_mul, bus_val_lt,
          Nat.add_assoc, Nat.shiftLeft_eq, Nat.shiftRight_eq_div_pow, Nat.mod_lt]
      · intro k hk hk0
        have : k = 1 ∨ k = 2 ∨ k = 3 := by omega
        rcases this with rfl | rfl | rfl <;>
        simp [rd_val, same_machine, alu_ready_state, run_cycle_fetch, run_cycle_decode,
          decode_opcode_alu, decode_alu, alu_addressing, alu_absolute_x, read_memory_val, hidx, hh,
          h0, h1, h2, h3, hm, hsta, hop, hc, hb1m, hb2m, FF_and, and_FF, word_eq_mul, bus_val_lt,
          Nat.add_assoc, Nat.shiftLeft_eq, Nat.shiftRight_eq_div_pow, Nat.mod_lt]
      · refine alu_retire_cycle s 4 (by norm_num) ?_ ?_ ?_ ?_ <;>
        simp [rd_val, same_machine, alu_ready_state, run_cycle_fetch, run_cycle_decode,
          decode_opcode_alu, decode_alu, alu_addressing, alu_absolute_x, read_memory_val, hidx, hh,
          h0, h1, h2, h3, hm, hsta, hop, hc, hb1m, hb2m, FF_and, and_FF, word_eq_mul, bus_val_lt,
          Nat.add_assoc, Nat.shiftLeft_eq, Nat.shiftRight_eq_div_pow, Nat.mod_lt]
      · simp [rd_val, same_machine, alu_ready_state, run_cycle_fetch, run_cycle_decode,
          decode_opcode_alu, decode_alu, alu_addressing, alu_absolute_x, read_memory_val, hidx, hh,
          h0, h1, h2, h3, hm, hsta, hop, hc, hb1m, hb2m, FF_and, and_FF, word_eq_mul, bus_val_lt,
          Nat.add_assoc, Nat.shiftLeft_eq, Nat.shiftRight_eq_div_pow, Nat.mod_lt]
      · simp [rd_val, same_machine, alu_ready_state, run_cycle_fetch, run_cycle_decode,
          decode_opcode_alu, decode_alu, alu_addressing, alu_absolute_x, read_memory_val, hidx, hh,
          h0, h1, h2, h3, hm, hsta, hop, hc, hb1m, hb2m, FF_and, and_FF, word_eq_mul, bus_val_lt,
          Nat.add_assoc, Nat.shiftLeft_eq, Nat.shiftRight_eq_div_pow, Nat.mod_lt]
      · simp [rd_val, same_machine, alu_ready_state, run_cycle_fetch, run_cycle_decode,
          decode_opcode_alu, decode_alu, alu_addressing, alu_absolute_x, read_memory_val, hidx, hh,
          h0, h1, h2, h3, hm, hsta, hop, hc, hb1m, hb2m, FF_and, and_FF, word_eq_mul, bus_val_lt,
          Nat.add_assoc, Nat.shiftLeft_eq, Nat.shiftRight_eq_div_pow, Nat.mod_lt]
        omega
      · intro _
        simp [rd_val, same_machine, alu_ready_state, run_cycle_fetch, run_cycle_decode,
          decode_opcode_alu, decode_alu, alu_addressing, alu_absolute_x, read_memory_val, hidx, hh,
          h0, h1, h2, h3, hm, hsta, hop, hc, hb1m, hb2m, FF_and, and_FF, word_eq_mul, bus_val_lt,
          Nat.add_assoc, Nat.shiftLeft_eq, Nat.shiftRight_eq_div_pow, Nat.mod_lt]
        exact hea2
  · have hc : ¬ ((s.reg_x + (b1 + b2 * 256)) % 65536 / 256 = b2) := by omega
    by_cases hsta : op &&& 0xE0 = 0x80
    ·
      have e : n = 5 := by rw [hn]; simp [hsta, hpg]
      subst e
      refine ⟨⟨by norm_num, ?_, ?_⟩, ?_, ?_, ?_, ?_, ?_⟩
      · simp [rd_val, same_machine, alu_ready_state, run_cycle_fetch, run_cycle_decode,
          decode_opcode_alu, decode_alu, alu_addressing, alu_absolute_x, read_memory_val, hidx, hh,
          h0, h1, h2, h3, hm, hsta, hop, hc, hb1m, hb2m, FF_and, and_FF, word_eq_mul, bus_val_lt,
          Nat.add_assoc, Nat.shiftLeft_eq, Nat.shiftRight_eq_div_pow, Nat.mod_lt]
      · intro k hk hk0
        have : k = 1 ∨ k = 2 ∨ k = 3 ∨ k = 4 := by omega
        rcases this with rfl | rfl | rfl | rfl <;>
        simp [rd_val, same_machine, alu_ready_state, run_cycle_fetch, run_cycle_decode,
          decode_opcode_alu, decode_alu, alu_addressing, alu_absolute_x, read_memory_val, hidx, hh,
          h0, h1, h2, h3, hm, hsta, hop, hc, hb1m, hb2m, FF_and, and_FF, word_eq_mul, bus_val_lt,
          Nat.add_assoc, Nat.shiftLeft_eq, Nat.shiftRight_eq_div_pow, Nat.mod_lt]
      · refine alu_retire_cycle s 5 (by norm_num) ?_ ?_ ?_ ?_ <;>
        simp [rd_val, same_machine, alu_ready_state, run_cycle_fetch, run_cycle_decode,
          decode_opcode_alu, decode_alu, alu_addressing, alu_absolute_x, read_memory_val, hidx, hh,
          h0, h1, h2, h3, hm, hsta, hop, hc, hb1m, hb2m, FF_and, and_FF, word_eq_mul, bus_val_lt,
          Nat.add_assoc, Nat.shiftLeft_eq, Nat.shiftRight_eq_div_pow, Nat.mod_lt]
      · simp [rd_val, same_machine, alu_ready_state, run_cycle_fetch, run_cycle_decode,
          decode_opcode_alu, decode_alu, alu_addressing, alu_absolute_x, read_memory_val, hidx, hh,
          h0, h1, h2, h3, hm, hsta, hop, hc, hb1m, hb2m, FF_and, and_FF, word_eq_mul, bus_val_lt,
          Nat.add_assoc, Nat.shiftLeft_eq, Nat.shiftRight_eq_div_pow, Nat.mod_lt]
      · simp [rd_val, same_machine, alu_ready_state, run_cycle_fetch, run_cycle_decode,
          decode_opcode_alu, decode_alu, alu_addressing, alu_absolute_x, read_memory_val, hidx, hh,
          h0, h1, h2, h3, hm, hsta, hop, hc, hb1m, hb2m, FF_and, and_FF, word_eq_mul, bus_val_lt,
          Nat.add_assoc, Nat.shiftLeft_eq, Nat.shiftRight_eq_div_pow, Nat.mod_lt]
      · simp [rd_val, same_machine, alu_ready_state, run_cycle_fetch, run_cycle_decode,
          decode_opcode_alu, decode_alu, alu_addressing, alu_absolute_x, read_memory_val, hidx, hh,
          h0, h1, h2, h3, hm, hsta, hop, hc, hb1m, hb2m, FF_and, and_FF, word_eq_mul, bus_val_lt,
          Nat.add_assoc, Nat.shiftLeft_eq, Nat.shiftRight_eq_div_pow, Nat.mod_lt]
        omega
      · intro h
        exact absurd hsta h
    ·
      have e : n = 5 := by rw [hn]; simp [hsta, hpg]
      subst e
      refine ⟨⟨by norm_num, ?_, ?_⟩, ?_, ?_, ?_, ?_, ?_⟩
      · simp [rd_val, same_machine, alu_ready_state, run_cycle_fetch, run_cycle_decode,
          decode_opcode_alu, decode_alu, alu_addressing, alu_absolute_x, read_memory_val, hidx, hh,
          h0, h1, h2, h3, hm, hsta, hop, hc, hb1m, hb2m, FF_and, and_FF, word_eq_mul, bus_val_lt,
          Nat.add_assoc, Nat.shiftLeft_eq, Nat.shiftRight_eq_div_pow, Nat.mod_lt]
      · intro k hk hk0
        have : k = 1 ∨ k = 2 ∨ k = 3 ∨ k = 4 := by omega
        rcases this with rfl | rfl | rfl | rfl <;>
        simp [rd_val, same_machine, alu_ready_state, run_cycle_fetch, run_cycle_decode,
          decode_opcode_alu, decode_alu, alu_addressing, alu_absolute_x, read_memory_val, hidx, hh,
          h0, h1, h2, h3, hm, hsta, hop, hc, hb1m, hb2m, FF_and, and_FF, word_eq_mul, bus_val_lt,
          Nat.add_assoc, Nat.shiftLeft_eq, Nat.shiftRight_eq_div_pow, Nat.mod_lt]
      · refine alu_retire_cycle s 5 (by norm_num) ?_ ?_ ?_ ?_ <;>
        simp [rd_val, same_machine, alu_ready_state, run_cycle_fetch, run_cycle_decode,
          decode_opcode_alu, decode_alu, alu_addressing, alu_absolute_x, read_memory_val, hidx, hh,
          h0, h1, h2, h3, hm, hsta, hop, hc, hb1m, hb2m, FF_and, and_FF, word_eq_mul, bus_val_lt,
          Nat.add_assoc, Nat.shiftLeft_eq, Nat.shiftRight_eq_div_pow, Nat.mod_lt]
      · simp [rd_val, same_machine, alu_ready_state, run_cycle_fetch, run_cycle_decode,
          decode_opcode_alu, decode_alu, alu_addressing, alu_absolute_x, read_memory_val, hidx, hh,
          h0, h1, h2, h3, hm, hsta, hop, hc, hb1m, hb2m, FF_and, and_FF, word_eq_mul, bus_val_lt,
          Nat.add_assoc, Nat.shiftLeft_eq, Nat.shiftRight_eq_div_pow, Nat.mod_lt]
      · simp [rd_val, same_machine, alu_ready_state, run_cycle_fetch, run_cycle_decode,
          decode_opcode_alu, decode_alu, alu_addressing, alu_absolute_x, read_memory_val, hidx, hh,
          h0, h1, h2, h3, hm, hsta, hop, hc, hb1m, hb2m, FF_and, and_FF, word_eq_mul, bus_val_lt,
          Nat.add_assoc, Nat.shiftLeft_eq, Nat.shiftRight_eq_div_pow, Nat.mod_lt]
      · simp [rd_val, same_machine, alu_ready_state, run_cycle_fetch, run_cycle_decode,
          decode_opcode_alu, decode_alu, alu_addressing, alu_absolute_x, read_memory_val, hidx, hh,
          h0, h1, h2, h3, hm, hsta, hop, hc, hb1m, hb2m, FF_and, and_FF, word_eq_mul, bus_val_lt,
          Nat.add_assoc, Nat.shiftLeft_eq, Nat.shiftRight_eq_div_pow, Nat.mod_lt]
        omega
      · intro _
        simp [rd_val, same_machine, alu_ready_state, run_cycle_fetch, run_cycle_decode,
          decode_opcode_alu, decode_alu, alu_addressing, alu_absolute_x, read_memory_val, hidx, hh,
          h0, h1, h2, h3, hm, hsta, hop, hc, hb1m, hb2m, FF_and, and_FF, word_eq_mul, bus_val_lt,
          Nat.add_assoc, Nat.shiftLeft_eq, Nat.shiftRight_eq_div_pow, Nat.mod_lt]
        exact hea2

set_option maxHeartbeats 6400000 in
/-- ALU group, absolute,Y (`case 0x19`): retirement at cycle 4 when the indexed
address stays in the page of the base and the operation is not STA, at cycle 5
otherwise. -/
theorem alu_absolute_y_exec (s : State) (op b1 b2 n : Nat) (hidx : s.cur_instr_index = 0)
    (hh : s.hang = 0) (h0 : rd s s.pc = op) (h3 : op &&& 0x3 = 0x1)
    (hm : op &&& 0x1D = 0x19) (h1 : rd s (s.pc + 1) = b1) (h2 : rd s (s.pc + 2) = b2)
    (hx : s.reg_y < 256)
    (hn : n = if (b1 + 256 * b2 + s.reg_y) / 256 = (b1 + 256 * b2) / 256 ∧ op &&& 0xE0 ≠ 0x80
      then 4 else 5) :
    retires_after s n ∧
    run_cycles n s = single_step_halt (set_index (alu_operation (alu_ready_state s n)) 0) ∧
    (alu_ready_state s n).cur_instr 0 = op ∧ same_machine s (alu_ready_state s n) ∧
    (alu_ready_state s n).cur_instr 1 ||| ((alu_ready_state s n).cur_instr 2 <<< 8) =
      (b1 + 256 * b2 + s.reg_y) % 65536 ∧
    (op &&& 0xE0 ≠ 0x80 → (alu_ready_state s n).cur_instr 4 =
      rd s ((b1 + 256 * b2 + s.reg_y) % 65536)) := by
  rw [rd_val] at h0 h1 h2
  have hop : op % 256 = op := by rw [← h0]; simp
  have hb1 : b1 < 256 := by rw [← h1]; exact bus_val_lt _ _ _ _ _
  have hb2 : b2 < 256 := by rw [← h2]; exact bus_val_lt _ _ _ _ _
  have hb1m : b1 % 256 = b1 := Nat.mod_eq_of_lt hb1
  have hb2m : b2 % 256 = b2 := Nat.mod_eq_of_lt hb2
  have hea2 : bus_val s.internal_ram s.mapper_cpur s.mapper0_prg_rom s.mapper0_prg_rom_mask
      (s.reg_y + (b1 + b2 * 256)) =
      bus_val s.internal_ram s.mapper_cpur s.mapper0_prg_rom s.mapper0_prg_rom_mask
        (b1 + (256 * b2 + s.reg_y)) := by
    congr 1
    omega
  by_cases hpg : (b1 + 256 * b2 + s.reg_y) / 256 = (b1 + 256 * b2) / 256
  · have hc : (s.reg_y + (b1 + b2 * 256)) % 65536 / 256 = b2 := by omega
    by_cases hsta : op &&& 0xE0 = 0x80
    ·
      have e : n = 5 := by rw [hn]; simp [hsta, hpg]
      subst e
      refine ⟨⟨by norm_num, ?_, ?_⟩, ?_, ?_, ?_, ?_, ?_⟩
      · simp [rd_val, same_machine, alu_ready_state, run_cycle_fetch, run_cycle_decode,
          decode_opcode_alu, decode_alu, alu_addressing, alu_absolute_y, read_memory_val, hidx, hh,
          h0, h1, h2, h3, hm, hsta, hop, hc, hb1m, hb2m, FF_and, and_FF, word_eq_mul, bus_val_lt,
          Nat.add_assoc, Nat.shiftLeft_eq, Nat.shiftRight_eq_div_pow, Nat.mod_lt]
      · intro k hk hk0
        have : k = 1 ∨ k = 2 ∨ k = 3 ∨ k = 4 := by omega
        rcases this with rfl | rfl | rfl | rfl <;>
        simp [rd_val, same_machine, alu_ready_state, run_cycle_fetch, run_cycle_decode,
          decode_opcode_alu, decode_alu, alu_addressing, alu_absolute_y, read_memory_val, hidx, hh,
          h0, h1, h2, h3, hm, hsta, hop, hc, hb1m, hb2m, FF_and, and_FF, word_eq_mul, bus_val_lt,
          Nat.add_assoc, Nat.shiftLeft_eq, Nat.shiftRight_eq_div_pow, Nat.mod_lt]
      · refine alu_retire_cycle s 5 (by norm_num) ?_ ?_ ?_ ?_ <;>
        simp [rd_val, same_machine, alu_ready_state, run_cycle_fetch, run_cycle_decode,
          decode_opcode_alu, decode_alu, alu_addressing, alu_absolute_y, read_memory_val, hidx, hh,
          h0, h1, h2, h3, hm, hsta, hop, hc, hb1m, hb2m, FF_and, and_FF, word_eq_mul, bus_val_lt,
          Nat.add_assoc, Nat.shiftLeft_eq, Nat.shiftRight_eq_div_pow, Nat.mod_lt]
      · simp [rd_val, same_machine, alu_ready_state, run_cycle_fetch, run_cycle_decode,
          decode_opcode_alu, decode_alu, alu_addressing, alu_absolute_y, read_memory_val, hidx, hh,
          h0, h1, h2, h3, hm, hsta, hop, hc, hb1m, hb2m, FF_and, and_FF, word_eq_mul, bus_val_lt,
          Nat.add_assoc, Nat.shiftLeft_eq, Nat.shiftRight_eq_div_pow, Nat.mod_lt]
      · simp [rd_val, same_machine, alu_ready_state, run_cycle_fetch, run_cycle_decode,
          decode_opcode_alu, decode_alu, alu_addressing, alu_absolute_y, read_memory_val, hidx, hh,
          h0, h1, h2, h3, hm, hsta, hop, hc, hb1m, hb2m, FF_and, and_FF, word_eq_mul, bus_val_lt,
          Nat.add_assoc, Nat.shiftLeft_eq, Nat.shiftRight_eq_div_pow, Nat.mod_lt]
      · simp [rd_val, same_machine, alu_ready_state, run_cycle_fetch, run_cycle_decode,
          decode_opcode_alu, decode_alu, alu_addressing, alu_absolute_y, read_memory_val, hidx, hh,
          h0, h1, h2, h3, hm, hsta, hop, hc, hb1m, hb2m, FF_and, and_FF, word_eq_mul, bus_val_lt,
          Nat.add_assoc, Nat.shiftLeft_eq, Nat.shiftRight_eq_div_pow, Nat.mod_lt]
        omega
      · intro h
        exact absurd hsta h
    ·
      have e : n = 4 := by rw [hn]; simp [hsta, hpg]
      subst e
      refine ⟨⟨by norm_num, ?_, ?_⟩, ?_, ?_, ?_, ?_, ?_⟩
      · simp [rd_val, same_machine, alu_ready_state, run_cycle_fetch, run_cycle_decode,
          decode_opcode_alu, decode_alu, alu_addressing, alu_absolute_y, read_memory_val, hidx, hh,
          h0, h1, h2, h3, hm, hsta, hop, hc, hb1m, hb2m, FF_and, and_FF, word_eq_mul, bus_val_lt,
          Nat.add_assoc, Nat.shiftLeft_eq, Nat.shiftRight_eq_div_pow, Nat.mod_lt]
      · intro k hk hk0
        have : k = 1 ∨ k = 2 ∨ k = 3 := by omega
        rcases this with rfl | rfl | rfl <;>
        simp [rd_val, same_machine, alu_ready_state, run_cycle_fetch, run_cycle_decode,
          decode_opcode_alu, decode_alu, alu_addressing, alu_absolute_y, read_memory_val, hidx, hh,
          h0, h1, h2, h3, hm, hsta, hop, hc, hb1m, hb2m, FF_and, and_FF, word_eq_mul, bus_val_lt,
          Nat.add_assoc, Nat.shiftLeft_eq, Nat.shiftRight_eq_div_pow, Nat.mod_lt]
      · refine alu_retire_cycle s 4 (by norm_num) ?_ ?_ ?_ ?_ <;>
        simp [rd_val, same_machine, alu_ready_state, run_cycle_fetch, run_cycle_decode,
          decode_opcode_alu, decode_alu, alu_addressing, alu_absolute_y, read_memory_val, hidx, hh,
          h0, h1, h2, h3, hm, hsta, hop, hc, hb1m, hb2m, FF_and, and_FF, word_eq_mul, bus_val_lt,
          Nat.add_assoc, Nat.shiftLeft_eq, Nat.shiftRight_eq_div_pow, Nat.mod_lt]
      · simp [rd_val, same_machine, alu_ready_state, run_cycle_fetch, run_cycle_decode,
          decode_opcode_alu, decode_alu, alu_addressing, alu_absolute_y, read_memory_val, hidx, hh,
          h0, h1, h2, h3, hm, hsta, hop, hc, hb1m, hb2m, FF_and, and_FF, word_eq_mul, bus_val_lt,
          Nat.add_assoc, Nat.shiftLeft_eq, Nat.shiftRight_eq_div_pow, Nat.mod_lt]
      · simp [rd_val, same_machine, alu_ready_state, run_cycle_fetch, run_cycle_decode,
          decode_opcode_alu, decode_alu, alu_addressing, alu_absolute_y, read_memory_val, hidx, hh,
          h0, h1, h2, h3, hm, hsta, hop, hc, hb1m, hb2m, FF_and, and_FF, word_eq_mul, bus_val_lt,
          Nat.add_assoc, Nat.shiftLeft_eq, Nat.shiftRight_eq_div_pow, Nat.mod_lt]
      · simp [rd_val, same_machine, alu_ready_state, run_cycle_fetch, run_cycle_decode,
          decode_opcode_alu, decode_alu, alu_addressing, alu_absolute_y, read_memory_val, hidx, hh,
          h0, h1, h2, h3, hm, hsta, hop, hc, hb1m, hb2m, FF_and, and_FF, word_eq_mul, bus_val_lt,
          Nat.add_assoc, Nat.shiftLeft_eq, Nat.shiftRight_eq_div_pow, Nat.mod_lt]
        omega
      · intro _
        simp [rd_val, same_machine, alu_ready_state, run_cycle_fetch, run_cycle_decode,
          decode_opcode_alu, decode_alu, alu_addressing, alu_absolute_y, read_memory_val, hidx, hh,
          h0, h1, h2, h3, hm, hsta, hop, hc, hb1m, hb2m, FF_and, and_FF, word_eq_mul, bus_val_lt,
          Nat.add_assoc, Nat.shiftLeft_eq, Nat.shiftRight_eq_div_pow, Nat.mod_lt]
        exact hea2
  · have hc : ¬ ((s.reg_y + (b1 + b2 * 256)) % 65536 / 256 = b2) := by omega
    by_cases hsta : op &&& 0xE0 = 0x80
    ·
      have e : n = 5 := by rw [hn]; simp [hsta, hpg]
      subst e
      refine ⟨⟨by norm_num, ?_, ?_⟩, ?_, ?_, ?_, ?_, ?_⟩
      · simp [rd_val, same_machine, alu_ready_state, run_cycle_fetch, run_cycle_decode,
          decode_opcode_alu, decode_alu, alu_addressing, alu_absolute_y, read_memory_val, hidx, hh,
          h0, h1, h2, h3, hm, hsta, hop, hc, hb1m, hb2m, FF_and, and_FF, word_eq_mul, bus_val_lt,
          Nat.add_assoc, Nat.shiftLeft_eq, Nat.shiftRight_eq_div_pow, Nat.mod_lt]
      · intro k hk hk0
        have : k = 1 ∨ k = 2 ∨ k = 3 ∨ k = 4 := by omega
        rcases this with rfl | rfl | rfl | rfl <;>
        simp [rd_val, same_machine, alu_ready_state, run_cycle_fetch, run_cycle_decode,
          decode_opcode_alu, decode_alu, alu_addressing, alu_absolute_y, read_memory_val, hidx, hh,
          h0, h1, h2, h3, hm, hsta, hop, hc, hb1m, hb2m, FF_and, and_FF, word_eq_mul, bus_val_lt,
          Nat.add_assoc, Nat.shiftLeft_eq, Nat.shiftRight_eq_div_pow, Nat.mod_lt]
      · refine alu_retire_cycle s 5 (by norm_num) ?_ ?_ ?_ ?_ <;>
        simp [rd_val, same_machine, alu_ready_state, run_cycle_fetch, run_cycle_decode,
          decode_opcode_alu, decode_alu, alu_addressing, alu_absolute_y, read_memory_val, hidx, hh,
          h0, h1, h2, h3, hm, hsta, hop, hc, hb1m, hb2m, FF_and, and_FF, word_eq_mul, bus_val_lt,
          Nat.add_assoc, Nat.shiftLeft_eq, Nat.shiftRight_eq_div_pow, Nat.mod_lt]
      · simp [rd_val, same_machine, alu_ready_state, run_cycle_fetch, run_cycle_decode,
          decode_opcode_alu, decode_alu, alu_addressing, alu_absolute_y, read_memory_val, hidx, hh,
          h0, h1, h2, h3, hm, hsta, hop, hc, hb1m, hb2m, FF_and, and_FF, word_eq_mul, bus_val_lt,
          Nat.add_assoc, Nat.shiftLeft_eq, Nat.shiftRight_eq_div_pow, Nat.mod_lt]
      · simp [rd_val, same_machine, alu_ready_state, run_cycle_fetch, run_cycle_decode,
          decode_opcode_alu, decode_alu, alu_addressing, alu_absolute_y, read_memory_val, hidx, hh,
          h0, h1, h2, h3, hm, hsta, hop, hc, hb1m, hb2m, FF_and, and_FF, word_eq_mul, bus_val_lt,
          Nat.add_assoc, Nat.shiftLeft_eq, Nat.shiftRight_eq_div_pow, Nat.mod_lt]
      · simp [rd_val, same_machine, alu_ready_state, run_cycle_fetch, run_cycle_decode,
          decode_opcode_alu, decode_alu, alu_addressing, alu_absolute_y, read_memory_val, hidx, hh,
          h0, h1, h2, h3, hm, hsta, hop, hc, hb1m, hb2m, FF_and, and_FF, word_eq_mul, bus_val_lt,
          Nat.add_assoc, Nat.shiftLeft_eq, Nat.shiftRight_eq_div_pow, Nat.mod_lt]
        omega
      · intro h
        exact absurd hsta h
    ·
      have e : n = 5 := by rw [hn]; simp [hsta, hpg]
      subst e
      refine ⟨⟨by norm_num, ?_, ?_⟩, ?_, ?_, ?_, ?_, ?_⟩
      · simp [rd_val, same_machine, alu_ready_state, run_cycle_fetch, run_cycle_decode,
          decode_opcode_alu, decode_alu, alu_addressing, alu_absolute_y, read_memory_val, hidx, hh,
          h0, h1, h2, h3, hm, hsta, hop, hc, hb1m, hb2m, FF_and, and_FF, word_eq_mul, bus_val_lt,
          Nat.add_assoc, Nat.shiftLeft_eq, Nat.shiftRight_eq_div_pow, Nat.mod_lt]
      · intro k hk hk0
        have : k = 1 ∨ k = 2 ∨ k = 3 ∨ k = 4 := by omega
        rcases this with rfl | rfl | rfl | rfl <;>
        simp [rd_val, same_machine, alu_ready_state, run_cycle_fetch, run_cycle_decode,
          decode_opcode_alu, decode_alu, alu_addressing, alu_absolute_y, read_memory_val, hidx, hh,
          h0, h1, h2, h3, hm, hsta, hop, hc, hb1m, hb2m, FF_and, and_FF, word_eq_mul, bus_val_lt,
          Nat.add_assoc, Nat.shiftLeft_eq, Nat.shiftRight_eq_div_pow, Nat.mod_lt]
      · refine alu_retire_cycle s 5 (by norm_num) ?_ ?_ ?_ ?_ <;>
        simp [rd_val, same_machine, alu_ready_state, run_cycle_fetch, run_cycle_decode,
          decode_opcode_alu, decode_alu, alu_addressing, alu_absolute_y, read_memory_val, hidx, hh,
          h0, h1, h2, h3, hm, hsta, hop, hc, hb1m, hb2m, FF_and, and_FF, word_eq_mul, bus_val_lt,
          Nat.add_assoc, Nat.shiftLeft_eq, Nat.shiftRight_eq_div_pow, Nat.mod_lt]
      · simp [rd_val, same_machine, alu_ready_state, run_cycle_fetch, run_cycle_decode,
          decode_opcode_alu, decode_alu, alu_addressing, alu_absolute_y, read_memory_val, hidx, hh,
          h0, h1, h2, h3, hm, hsta, hop, hc, hb1m, hb2m, FF_and, and_FF, word_eq_mul, bus_val_lt,
          Nat.add_assoc, Nat.shiftLeft_eq, Nat.shiftRight_eq_div_pow, Nat.mod_lt]
      · simp [rd_val, same_machine, alu_ready_state, run_cycle_fetch, run_cycle_decode,
          decode_opcode_alu, decode_alu, alu_addressing, alu_absolute_y, read_memory_val, hidx, hh,
          h0, h1, h2, h3, hm, hsta, hop, hc, hb1m, hb2m, FF_and, and_FF, word_eq_mul, bus_val_lt,
          Nat.add_assoc, Nat.shiftLeft_eq, Nat.shiftRight_eq_div_pow, Nat.mod_lt]
      · simp [rd_val, same_machine, alu_ready_state, run_cycle_fetch, run_cycle_decode,
          decode_opcode_alu, decode_alu, alu_addressing, alu_absolute_y, read_memory_val, hidx, hh,
          h0, h1, h2, h3, hm, hsta, hop, hc, hb1m, hb2m, FF_and, and_FF, word_eq_mul, bus_val_lt,
          Nat.add_assoc, Nat.shiftLeft_eq, Nat.shiftRight_eq_div_pow, Nat.mod_lt]
        omega
      · intro _
        simp [rd_val, same_machine, alu_ready_state, run_cycle_fetch, run_cycle_decode,
          decode_opcode_alu, decode_alu, alu_addressing, alu_absolute_y, read_memory_val, hidx, hh,
          h0, h1, h2, h3, hm, hsta, hop, hc, hb1m, hb2m, FF_and, and_FF, word_eq_mul, bus_val_lt,
          Nat.add_assoc, Nat.shiftLeft_eq, Nat.shiftRight_eq_div_pow, Nat.mod_lt]
        exact hea2
theorem and_FF00_div (x : Nat) : (x &&& 65280) / 256 = x / 256 % 256 := by
  have e1 : (65280 : Nat) = (2 ^ 8 - 1) <<< 8 := by decide
  have e2 : (x &&& 65280) / 256 = (x &&& 65280) >>> 8 := by
    rw [Nat.shiftRight_eq_div_pow]
  have e3 : x / 256 % 256 = (x >>> 8) % 2 ^ 8 := by
    rw [Nat.shiftRight_eq_div_pow]
    norm_num
  rw [e2, e3]
  apply Nat.eq_of_testBit_eq
  intro i
  rw [Nat.testBit_shiftRight, Nat.testBit_and, Nat.testBit_mod_two_pow, Nat.testBit_shiftRight, e1,
    Nat.testBit_shiftLeft, Nat.testBit_two_pow_sub_one]
  have h : 8 + i - 8 = i := by omega
  rw [h]
  cases x.testBit (8 + i) <;> simp

set_option maxHeartbeats 6400000 in
/-- ALU group, (indirect),Y (`case 0x11`): retirement at cycle 5 when the indexed
address stays in the page of the pointer read from the zero page and the
operation is not STA, at cycle 6 otherwise. -/
theorem alu_indirect_y_exec (s : State) (op z lo hi n : Nat) (hidx : s.cur_instr_index = 0)
    (hh : s.hang = 0) (h0 : rd s s.pc = op) (h3 : op &&& 0x3 = 0x1)
    (hm : op &&& 0x1D = 0x11) (h1 : rd s (s.pc + 1) = z) (hl : rd s z = lo)
    (hh2 : rd s ((z + 1) % 256) = hi) (hy : s.reg_y < 256)
    (hn : n = if (lo + 256 * hi + s.reg_y) / 256 = (lo + 256 * hi) / 256 ∧ op &&& 0xE0 ≠ 0x80
      then 5 else 6) :
    retires_after s n ∧
    run_cycles n s = single_step_halt (set_index (alu_operation (alu_ready_state s n)) 0) ∧
    (alu_ready_state s n).cur_instr 0 = op ∧ same_machine s (alu_ready_state s n) ∧
    (alu_ready_state s n).cur_instr 1 ||| ((alu_ready_state s n).cur_instr 2 <<< 8) =
      (lo + 256 * hi + s.reg_y) % 65536 ∧
    (op &&& 0xE0 ≠ 0x80 → (alu_ready_state s n).cur_instr 4 =
      rd s ((lo + 256 * hi + s.reg_y) % 65536)) := by
  rw [rd_val] at h0 h1 hl hh2
  have hop : op % 256 = op := by rw [← h0]; simp
  have hz : z < 256 := by rw [← h1]; exact bus_val_lt _ _ _ _ _
  have hlo : lo < 256 := by rw [← hl]; exact bus_val_lt _ _ _ _ _
  have hhi : hi < 256 := by rw [← hh2]; exact bus_val_lt _ _ _ _ _
  have hzm : z % 256 = z := Nat.mod_eq_of_lt hz
  have hlm : lo % 256 = lo := Nat.mod_eq_of_lt hlo
  have hhm : hi % 256 = hi := Nat.mod_eq_of_lt hhi
  by_cases hpg : (lo + 256 * hi + s.reg_y) / 256 = (lo + 256 * hi) / 256
  · have hc : (lo + (hi * 256 + s.reg_y)) % 65536 / 256 % 256 = hi := by omega
    by_cases hsta : op &&& 0xE0 = 0x80
    ·
      have e : n = 6 := by rw [hn]; simp [hsta, hpg]
      subst e
      refine ⟨⟨by norm_num, ?_, ?_⟩, ?_, ?_, ?_, ?_, ?_⟩
      · simp [rd_val, same_machine, alu_ready_state, run_cycle_fetch, run_cycle_decode,
          decode_opcode_alu, decode_alu, alu_addressing, alu_indirect_y, read_memory_val, hidx, hh,
          h0, h1, hl, hh2, h3, hm, hsta, hop, hc, hzm, hlm, hhm, FF_and, and_FF, and_FF00_div,
          word_eq_mul, bus_val_lt, Nat.add_assoc, Nat.shiftLeft_eq, Nat.shiftRight_eq_div_pow,
          Nat.mod_lt]
      · intro k hk hk0
        have : k = 1 ∨ k = 2 ∨ k = 3 ∨ k = 4 ∨ k = 5 := by omega
        rcases this with rfl | rfl | rfl | rfl | rfl <;>
        simp [rd_val, same_machine, alu_ready_state, run_cycle_fetch, run_cycle_decode,
          decode_opcode_alu, decode_alu, alu_addressing, alu_indirect_y, read_memory_val, hidx, hh,
          h0, h1, hl, hh2, h3, hm, hsta, hop, hc, hzm, hlm, hhm, FF_and, and_FF, and_FF00_div,
          word_eq_mul, bus_val_lt, Nat.add_assoc, Nat.shiftLeft_eq, Nat.shiftRight_eq_div_pow,
          Nat.mod_lt]
      · refine alu_retire_cycle s 6 (by norm_num) ?_ ?_ ?_ ?_ <;>
        simp [rd_val, same_machine, alu_ready_state, run_cycle_fetch, run_cycle_decode,
          decode_opcode_alu, decode_alu, alu_addressing, alu_indirect_y, read_memory_val, hidx, hh,
          h0, h1, hl, hh2, h3, hm, hsta, hop, hc, hzm, hlm, hhm, FF_and, and_FF, and_FF00_div,
          word_eq_mul, bus_val_lt, Nat.add_assoc, Nat.shiftLeft_eq, Nat.shiftRight_eq_div_pow,
          Nat.mod_lt]
      · simp [rd_val, same_machine, alu_ready_state, run_cycle_fetch, run_cycle_decode,
          decode_opcode_alu, decode_alu, alu_addressing, alu_indirect_y, read_memory_val, hidx, hh,
          h0, h1, hl, hh2, h3, hm, hsta, hop, hc, hzm, hlm, hhm, FF_and, and_FF, and_FF00_div,
          word_eq_mul, bus_val_lt, Nat.add_assoc, Nat.shiftLeft_eq, Nat.shiftRight_eq_div_pow,
          Nat.mod_lt]
      · simp [rd_val, same_machine, alu_ready_state, run_cycle_fetch, run_cycle_decode,
          decode_opcode_alu, decode_alu, alu_addressing, alu_indirect_y, read_memory_val, hidx, hh,
          h0, h1, hl, hh2, h3, hm, hsta, hop, hc, hzm, hlm, hhm, FF_and, and_FF, and_FF00_div,
          word_eq_mul, bus_val_lt, Nat.add_assoc, Nat.shiftLeft_eq, Nat.shiftRight_eq_div_pow,
          Nat.mod_lt]
      · simp [rd_val, same_machine, alu_ready_state, run_cycle_fetch, run_cycle_decode,
          decode_opcode_alu, decode_alu, alu_addressing, alu_indirect_y, read_memory_val, hidx, hh,
          h0, h1, hl, hh2, h3, hm, hsta, hop, hc, hzm, hlm, hhm, FF_and, and_FF, and_FF00_div,
          word_eq_mul, bus_val_lt, Nat.add_assoc, Nat.shiftLeft_eq, Nat.shiftRight_eq_div_pow,
          Nat.mod_lt]
        omega
      · intro h
        exact absurd hsta h
    ·
      have e : n = 5 := by rw [hn]; simp [hsta, hpg]
      subst e
      refine ⟨⟨by norm_num, ?_, ?_⟩, ?_, ?_, ?_, ?_, ?_⟩
      · simp [rd_val, same_machine, alu_ready_state, run_cycle_fetch, run_cycle_decode,
          decode_opcode_alu, decode_alu, alu_addressing, alu_indirect_y, read_memory_val, hidx, hh,
          h0, h1, hl, hh2, h3, hm, hsta, hop, hc, hzm, hlm, hhm, FF_and, and_FF, and_FF00_div,
          word_eq_mul, bus_val_lt, Nat.add_assoc, Nat.shiftLeft_eq, Nat.shiftRight_eq_div_pow,
          Nat.mod_lt]
      · intro k hk hk0
        have : k = 1 ∨ k = 2 ∨ k = 3 ∨ k = 4 := by omega
        rcases this with rfl | rfl | rfl | rfl <;>
        simp [rd_val, same_machine, alu_ready_state, run_cycle_fetch, run_cycle_decode,
          decode_opcode_alu, decode_alu, alu_addressing, alu_indirect_y, read_memory_val, hidx, hh,
          h0, h1, hl, hh2, h3, hm, hsta, hop, hc, hzm, hlm, hhm, FF_and, and_FF, and_FF00_div,
          word_eq_mul, bus_val_lt, Nat.add_assoc, Nat.shiftLeft_eq, Nat.shiftRight_eq_div_pow,
          Nat.mod_lt]
      · refine alu_retire_cycle s 5 (by norm_num) ?_ ?_ ?_ ?_ <;>
        simp [rd_val, same_machine, alu_ready_state, run_cycle_fetch, run_cycle_decode,
          decode_opcode_alu, decode_alu, alu_addressing, alu_indirect_y, read_memory_val, hidx, hh,
          h0, h1, hl, hh2, h3, hm, hsta, hop, hc, hzm, hlm, hhm, FF_and, and_FF, and_FF00_div,
          word_eq_mul, bus_val_lt, Nat.add_assoc, Nat.shiftLeft_eq, Nat.shiftRight_eq_div_pow,
          Nat.mod_lt]
      · simp [rd_val, same_machine, alu_ready_state, run_cycle_fetch, run_cycle_decode,
          decode_opcode_alu, decode_alu, alu_addressing, alu_indirect_y, read_memory_val, hidx, hh,
          h0, h1, hl, hh2, h3, hm, hsta, hop, hc, hzm, hlm, hhm, FF_and, and_FF, and_FF00_div,
          word_eq_mul, bus_val_lt, Nat.add_assoc, Nat.shiftLeft_eq, Nat.shiftRight_eq_div_pow,
          Nat.mod_lt]
      · simp [rd_val, same_machine, alu_ready_state, run_cycle_fetch, run_cycle_decode,
          decode_opcode_alu, decode_alu, alu_addressing, alu_indirect_y, read_memory_val, hidx, hh,
          h0, h1, hl, hh2, h3, hm, hsta, hop, hc, hzm, hlm, hhm, FF_and, and_FF, and_FF00_div,
          word_eq_mul, bus_val_lt, Nat.add_assoc, Nat.shiftLeft_eq, Nat.shiftRight_eq_div_pow,
          Nat.mod_lt]
      · simp [rd_val, same_machine, alu_ready_state, run_cycle_fetch, run_cycle_decode,
          decode_opcode_alu, decode_alu, alu_addressing, alu_indirect_y, read_memory_val, hidx, hh,
          h0, h1, hl, hh2, h3, hm, hsta, hop, hc, hzm, hlm, hhm, FF_and, and_FF, and_FF00_div,
          word_eq_mul, bus_val_lt, Nat.add_assoc, Nat.shiftLeft_eq, Nat.shiftRight_eq_div_pow,
          Nat.mod_lt]
        omega
      · intro _
        simp [rd_val, same_machine, alu_ready_state, run_cycle_fetch, run_cycle_decode,
          decode_opcode_alu, decode_alu, alu_addressing, alu_indirect_y, read_memory_val, hidx, hh,
          h0, h1, hl, hh2, h3, hm, hsta, hop, hc, hzm, hlm, hhm, FF_and, and_FF, and_FF00_div,
          word_eq_mul, bus_val_lt, Nat.add_assoc, Nat.shiftLeft_eq, Nat.shiftRight_eq_div_pow,
          Nat.mod_lt]
        rw [← bus_val_mod _ _ _ _ (lo + (256 * hi + s.reg_y))]
        congr 1
        omega
  · have hc : ¬ ((lo + (hi * 256 + s.reg_y)) % 65536 / 256 % 256 = hi) := by omega
    by_cases hsta : op &&& 0xE0 = 0x80
    ·
      have e : n = 6 := by rw [hn]; simp [hsta, hpg]
      subst e
      refine ⟨⟨by norm_num, ?_, ?_⟩, ?_, ?_, ?_, ?_, ?_⟩
      · simp [rd_val, same_machine, alu_ready_state, run_cycle_fetch, run_cycle_decode,
          decode_opcode_alu, decode_alu, alu_addressing, alu_indirect_y, read_memory_val, hidx, hh,
          h0, h1, hl, hh2, h3, hm, hsta, hop, hc, hzm, hlm, hhm, FF_and, and_FF, and_FF00_div,
          word_eq_mul, bus_val_lt, Nat.add_assoc, Nat.shiftLeft_eq, Nat.shiftRight_eq_div_pow,
          Nat.mod_lt]
      · intro k hk hk0
        have : k = 1 ∨ k = 2 ∨ k = 3 ∨ k = 4 ∨ k = 5 := by omega
        rcases this with rfl | rfl | rfl | rfl | rfl <;>
        simp [rd_val, same_machine, alu_ready_state, run_cycle_fetch, run_cycle_decode,
          decode_opcode_alu, decode_alu, alu_addressing, alu_indirect_y, read_memory_val, hidx, hh,
          h0, h1, hl, hh2, h3, hm, hsta, hop, hc, hzm, hlm, hhm, FF_and, and_FF, and_FF00_div,
          word_eq_mul, bus_val_lt, Nat.add_assoc, Nat.shiftLeft_eq, Nat.shiftRight_eq_div_pow,
          Nat.mod_lt]
      · refine alu_retire_cycle s 6 (by norm_num) ?_ ?_ ?_ ?_ <;>
        simp [rd_val, same_machine, alu_ready_state, run_cycle_fetch, run_cycle_decode,
          decode_opcode_alu, decode_alu, alu_addressing, alu_indirect_y, read_memory_val, hidx, hh,
          h0, h1, hl, hh2, h3, hm, hsta, hop, hc, hzm, hlm, hhm, FF_and, and_FF, and_FF00_div,
          word_eq_mul, bus_val_lt, Nat.add_assoc, Nat.shiftLeft_eq, Nat.shiftRight_eq_div_pow,
          Nat.mod_lt]
      · simp [rd_val, same_machine, alu_ready_state, run_cycle_fetch, run_cycle_decode,
          decode_opcode_alu, decode_alu, alu_addressing, alu_indirect_y, read_memory_val, hidx, hh,
          h0, h1, hl, hh2, h3, hm, hsta, hop, hc, hzm, hlm, hhm, FF_and, and_FF, and_FF00_div,
          word_eq_mul, bus_val_lt, Nat.add_assoc, Nat.shiftLeft_eq, Nat.shiftRight_eq_div_pow,
          Nat.mod_lt]
      · simp [rd_val, same_machine, alu_ready_state, run_cycle_fetch, run_cycle_decode,
          decode_opcode_alu, decode_alu, alu_addressing, alu_indirect_y, read_memory_val, hidx, hh,
          h0, h1, hl, hh2, h3, hm, hsta, hop, hc, hzm, hlm, hhm, FF_and, and_FF, and_FF00_div,
          word_eq_mul, bus_val_lt, Nat.add_assoc, Nat.shiftLeft_eq, Nat.shiftRight_eq_div_pow,
          Nat.mod_lt]
      · simp [rd_val, same_machine, alu_ready_state, run_cycle_fetch, run_cycle_decode,
          decode_opcode_alu, decode_alu, alu_addressing, alu_indirect_y, read_memory_val, hidx, hh,
          h0, h1, hl, hh2, h3, hm, hsta, hop, hc, hzm, hlm, hhm, FF_and, and_FF, and_FF00_div,
          word_eq_mul, bus_val_lt, Nat.add_assoc, Nat.shiftLeft_eq, Nat.shiftRight_eq_div_pow,
          Nat.mod_lt]
        omega
      · intro h
        exact absurd hsta h
    ·
      have e : n = 6 := by rw [hn]; simp [hsta, hpg]
      subst e
      refine ⟨⟨by norm_num, ?_, ?_⟩, ?_, ?_, ?_, ?_, ?_⟩
      · simp [rd_val, same_machine, alu_ready_state, run_cycle_fetch, run_cycle_decode,
          decode_opcode_alu, decode_alu, alu_addressing, alu_indirect_y, read_memory_val, hidx, hh,
          h0, h1, hl, hh2, h3, hm, hsta, hop, hc, hzm, hlm, hhm, FF_and, and_FF, and_FF00_div,
          word_eq_mul, bus_val_lt, Nat.add_assoc, Nat.shiftLeft_eq, Nat.shiftRight_eq_div_pow,
          Nat.mod_lt]
      · intro k hk hk0
        have : k = 1 ∨ k = 2 ∨ k = 3 ∨ k = 4 ∨ k = 5 := by omega
        rcases this with rfl | rfl | rfl | rfl | rfl <;>
        simp [rd_val, same_machine, alu_ready_state, run_cycle_fetch, run_cycle_decode,
          decode_opcode_alu, decode_alu, alu_addressing, alu_indirect_y, read_memory_val, hidx, hh,
          h0, h1, hl, hh2, h3, hm, hsta, hop, hc, hzm, hlm, hhm, FF_and, and_FF, and_FF00_div,
          word_eq_mul, bus_val_lt, Nat.add_assoc, Nat.shiftLeft_eq, Nat.shiftRight_eq_div_pow,
          Nat.mod_lt]
      · refine alu_retire_cycle s 6 (by norm_num) ?_ ?_ ?_ ?_ <;>
        simp [rd_val, same_machine, alu_ready_state, run_cycle_fetch, run_cycle_decode,
          decode_opcode_alu, decode_alu, alu_addressing, alu_indirect_y, read_memory_val, hidx, hh,
          h0, h1, hl, hh2, h3, hm, hsta, hop, hc, hzm, hlm, hhm, FF_and, and_FF, and_FF00_div,
          word_eq_mul, bus_val_lt, Nat.add_assoc, Nat.shiftLeft_eq, Nat.shiftRight_eq_div_pow,
          Nat.mod_lt]
      · simp [rd_val, same_machine, alu_ready_state, run_cycle_fetch, run_cycle_decode,
          decode_opcode_alu, decode_alu, alu_addressing, alu_indirect_y, read_memory_val, hidx, hh,
          h0, h1, hl, hh2, h3, hm, hsta, hop, hc, hzm, hlm, hhm, FF_and, and_FF, and_FF00_div,
          word_eq_mul, bus_val_lt, Nat.add_assoc, Nat.shiftLeft_eq, Nat.shiftRight_eq_div_pow,
          Nat.mod_lt]
      · simp [rd_val, same_machine, alu_ready_state, run_cycle_fetch, run_cycle_decode,
          decode_opcode_alu, decode_alu, alu_addressing, alu_indirect_y, read_memory_val, hidx, hh,
          h0, h1, hl, hh2, h3, hm, hsta, hop, hc, hzm, hlm, hhm, FF_and, and_FF, and_FF00_div,
          word_eq_mul, bus_val_lt, Nat.add_assoc, Nat.shiftLeft_eq, Nat.shiftRight_eq_div_pow,
          Nat.mod_lt]
      · simp [rd_val, same_machine, alu_ready_state, run_cycle_fetch, run_cycle_decode,
          decode_opcode_alu, decode_alu, alu_addressing, alu_indirect_y, read_memory_val, hidx, hh,
          h0, h1, hl, hh2, h3, hm, hsta, hop, hc, hzm, hlm, hhm, FF_and, and_FF, and_FF00_div,
          word_eq_mul, bus_val_lt, Nat.add_assoc, Nat.shiftLeft_eq, Nat.shiftRight_eq_div_pow,
          Nat.mod_lt]
        omega
      · intro _
        simp [rd_val, same_machine, alu_ready_state, run_cycle_fetch, run_cycle_decode,
          decode_opcode_alu, decode_alu, alu_addressing, alu_indirect_y, read_memory_val, hidx, hh,
          h0, h1, hl, hh2, h3, hm, hsta, hop, hc, hzm, hlm, hhm, FF_and, and_FF, and_FF00_div,
          word_eq_mul, bus_val_lt, Nat.add_assoc, Nat.shiftLeft_eq, Nat.shiftRight_eq_div_pow,
          Nat.mod_lt]
        rw [← bus_val_mod _ _ _ _ (lo + (256 * hi + s.reg_y))]
        congr 1
        omega

/-! ## Compares (C13) -/

theorem do_cmp_eq (s : State) (v : Nat) : do_cmp s v = cmp_flags s s.reg_a (v % 256) := by
  cases s
  rfl

/-- The flags written by the three compare statements: N, Z and C are set from
the comparison, every other bit of P keeps its value. -/
theorem cmp_flags_bits (p r m : Nat) (hr : r < 256) (hm : m < 256) (q : Nat)
    (hq : q = set_flag (set_flag (set_flag p STATUS_NEGATIVE (decide (isub r m &&& 0x80 ≠ 0)))
      STATUS_ZERO (decide (r = m))) STATUS_CARRY (decide (r ≥ m))) :
    (q &&& 0x01 ≠ 0 ↔ r ≥ m) ∧ (q &&& 0x02 ≠ 0 ↔ r = m) ∧
    (q &&& 0x80 ≠ 0 ↔ ((r + 256 - m) % 256) &&& 0x80 ≠ 0) ∧
    (p < 256 → q &&& 0x40 = p &&& 0x40 ∧ q &&& 0x04 = p &&& 0x04 ∧ q &&& 0x08 = p &&& 0x08) := by
  subst hq
  refine ⟨?_, ?_, ?_, ?_⟩
  · rw [and_01]
    simp only [testBit_set_flag_Z, testBit_set_flag_N, testBit_set_flag_C]
    simp
  · rw [and_02]
    simp only [testBit_set_flag_Z, testBit_set_flag_N, testBit_set_flag_C]
    simp
  · refine Iff.trans (and_80 _) ?_
    simp only [testBit_set_flag_Z, testBit_set_flag_N, testBit_set_flag_C]
    simp only [Nat.reduceLT, decide_True, Bool.true_and, Nat.reduceEqDiff, if_false, if_true,
      decide_eq_true_eq]
    rw [and_80 (isub r m), and_80 ((r + 256 - m) % 256), testBit7, testBit7]
    simp only [isub, decide_eq_true_eq]
    omega
  · intro hp
    refine ⟨and_pow_congr _ _ 6 ?_, and_pow_congr _ _ 2 ?_, and_pow_congr _ _ 3 ?_⟩ <;>
    · simp only [testBit_set_flag_Z, testBit_set_flag_N, testBit_set_flag_C]
      simp

/-- A compare retiring through `cmp_flags`: the outcome in terms of the state
before the instruction. -/
theorem cmp_outcome_of (s t u : State) (r m : Nat) (hr : r < 256) (hm : m < 256)
    (hp : s.reg_p < 256) (hu : u.reg_p = s.reg_p)
    (ht : t.reg_p = (cmp_flags u r m).reg_p)
    (ha : t.reg_a = s.reg_a) (hx : t.reg_x = s.reg_x) (hy : t.reg_y = s.reg_y)
    (hs : t.reg_s = s.reg_s) (hram : t.internal_ram = s.internal_ram)
    (hprg : t.mapper0_prg_rom = s.mapper0_prg_rom) :
    cmp_outcome s t r m := by
  have h := cmp_flags_bits s.reg_p r m hr hm t.reg_p (by rw [ht, cmp_flags_reg_p, hu])
  exact ⟨h.1, h.2.1, h.2.2.1, ha, hx, hy, hs, (h.2.2.2 hp).1, (h.2.2.2 hp).2.1,
    (h.2.2.2 hp).2.2, hram, hprg⟩

/-- CMP through the ALU group: when the instruction retires by running the
operation switch on a state `T` that carries the registers and memory of `s`, the
opcode and the operand, the outcome is that of a compare of A. -/
theorem cmp_of_alu (s T : State) (op n M : Nat)
    (hfin : run_cycles n s = single_step_halt (set_index (alu_operation T) 0))
    (hop : T.cur_instr 0 = op) (hc : op &&& 0xE0 = 0xC0) (hsm : same_machine s T)
    (h4 : T.cur_instr 4 = M) (hM : M < 256) (hA : s.reg_a < 256) (hp : s.reg_p < 256) :
    cmp_outcome s (run_cycles n s) s.reg_a M := by
  have hop2 : alu_operation T = cmp_flags T s.reg_a M := by
    have e : alu_operation T = do_cmp T (T.cur_instr 4) := by
      simp [alu_operation, hop, hc]
    rw [e, do_cmp_eq, h4, hsm.1, Nat.mod_eq_of_lt hM]
  rw [hfin, hop2]
  obtain ⟨h1, h2, h3, h5, h6, h7, h8⟩ := hsm
  refine cmp_outcome_of s _ T s.reg_a M hA hM hp h6 ?_ ?_ ?_ ?_ ?_ ?_ ?_ <;> simp [*]
set_option maxHeartbeats 3200000 in
/-- CPX immediate (`$E0`) run from an instruction boundary: 2 cycles, the
outcome of a compare of X with the operand. -/
theorem op_E0_exec (s : State) (b1 : Nat) (hidx : s.cur_instr_index = 0) (hh : s.hang = 0)
    (h0 : rd s s.pc = 0xE0) (h1 : rd s (s.pc + 1) = b1)
    (hR : s.reg_x < 256) (hp : s.reg_p < 256) :
    retires_after s 2 ∧ cmp_outcome s (run_cycles 2 s) s.reg_x b1 := by
  rw [rd_val] at h0 h1
  have hM : b1 < 256 := by rw [← h1]; exact bus_val_lt _ _ _ _ _
  have hMm : b1 % 256 = b1 := Nat.mod_eq_of_lt hM
  have hq : (run_cycles 2 s).reg_p = set_flag (set_flag (set_flag s.reg_p STATUS_NEGATIVE
      (decide (isub s.reg_x b1 &&& 0x80 ≠ 0))) STATUS_ZERO (decide (s.reg_x = b1))) STATUS_CARRY
      (decide (s.reg_x ≥ b1)) := by
    simp [run_cycle_fetch, run_cycle_decode, decode_opcode_E0, op_E0, read_memory_val, hidx, hh,
      h0, h1, hMm, Nat.add_assoc]
  have hb := cmp_flags_bits s.reg_p s.reg_x b1 hR hM _ hq
  refine ⟨⟨by norm_num, ?_, ?_⟩, hb.1, hb.2.1, hb.2.2.1, ?_, ?_, ?_, ?_, (hb.2.2.2 hp).1,
    (hb.2.2.2 hp).2.1, (hb.2.2.2 hp).2.2, ?_, ?_⟩
  · simp [run_cycle_fetch, run_cycle_decode, decode_opcode_E0, op_E0, read_memory_val, hidx, hh,
      h0, h1, hMm, Nat.add_assoc]
  · intro k hk hk0
    have : k = 1 := by omega
    subst this
    simp [run_cycle_fetch, run_cycle_decode, decode_opcode_E0, op_E0, read_memory_val, hidx, hh,
      h0, h1, hMm, Nat.add_assoc]
  all_goals
    simp [run_cycle_fetch, run_cycle_decode, decode_opcode_E0, op_E0, read_memory_val, hidx, hh,
      h0, h1, hMm, Nat.add_assoc]

set_option maxHeartbeats 3200000 in
/-- CPX zero page (`$E4`) run from an instruction boundary: 3 cycles, the
outcome of a compare of X with the operand. -/
theorem op_E4_exec (s : State) (b1 m : Nat) (hidx : s.cur_instr_index = 0) (hh : s.hang = 0)
    (h0 : rd s s.pc = 0xE4) (h1 : rd s (s.pc + 1) = b1) (h2 : rd s b1 = m)
    (hR : s.reg_x < 256) (hp : s.reg_p < 256) :
    retires_after s 3 ∧ cmp_outcome s (run_cycles 3 s) s.reg_x m := by
  rw [rd_val] at h0 h1 h2
  have hM : m < 256 := by rw [← h2]; exact bus_val_lt _ _ _ _ _
  have hMm : m % 256 = m := Nat.mod_eq_of_lt hM
  have hb1m : b1 % 256 = b1 := Nat.mod_eq_of_lt (by rw [← h1]; exact bus_val_lt _ _ _ _ _)
  have hq : (run_cycles 3 s).reg_p = set_flag (set_flag (set_flag s.reg_p STATUS_NEGATIVE
      (decide (isub s.reg_x m &&& 0x80 ≠ 0))) STATUS_ZERO (decide (s.reg_x = m))) STATUS_CARRY
      (decide (s.reg_x ≥ m)) := by
    simp [run_cycle_fetch, run_cycle_decode, decode_opcode_E4, op_E4, read_memory_val, hidx, hh,
      h0, h1, h2, hb1m, hMm, Nat.add_assoc]
  have hb := cmp_flags_bits s.reg_p s.reg_x m hR hM _ hq
  refine ⟨⟨by norm_num, ?_, ?_⟩, hb.1, hb.2.1, hb.2.2.1, ?_, ?_, ?_, ?_, (hb.2.2.2 hp).1,
    (hb.2.2.2 hp).2.1, (hb.2.2.2 hp).2.2, ?_, ?_⟩
  · simp [run_cycle_fetch, run_cycle_decode, decode_opcode_E4, op_E4, read_memory_val, hidx, hh,
      h0, h1, h2, hb1m, hMm, Nat.add_assoc]
  · intro k hk hk0
    have : k = 1 ∨ k = 2 := by omega
    rcases this with rfl | rfl <;>
    simp [run_cycle_fetch, run_cycle_decode, decode_opcode_E4, op_E4, read_memory_val, hidx, hh,
      h0, h1, h2, hb1m, hMm, Nat.add_assoc]
  all_goals
    simp [run_cycle_fetch, run_cycle_decode, decode_opcode_E4, op_E4, read_memory_val, hidx, hh,
      h0, h1, h2, hb1m, hMm, Nat.add_assoc]

set_option maxHeartbeats 3200000 in
/-- CPX absolute (`$EC`) run from an instruction boundary: 4 cycles, the
outcome of a compare of X with the operand. -/
theorem op_EC_exec (s : State) (b1 b2 m : Nat) (hidx : s.cur_instr_index = 0) (hh : s.hang = 0)
    (h0 : rd s s.pc = 0xEC) (h1 : rd s (s.pc + 1) = b1) (h2 : rd s (s.pc + 2) = b2)
    (h4 : rd s (b1 + 256 * b2) = m)
    (hR : s.reg_x < 256) (hp : s.reg_p < 256) :
    retires_after s 4 ∧ cmp_outcome s (run_cycles 4 s) s.reg_x m := by
  rw [rd_val] at h0 h1 h2 h4
  have hM : m < 256 := by rw [← h4]; exact bus_val_lt _ _ _ _ _
  have hMm : m % 256 = m := Nat.mod_eq_of_lt hM
  have hb1 : b1 < 256 := by rw [← h1]; exact bus_val_lt _ _ _ _ _
  have hb1m : b1 % 256 = b1 := Nat.mod_eq_of_lt hb1
  have hb2m : b2 % 256 = b2 := Nat.mod_eq_of_lt (by rw [← h2]; exact bus_val_lt _ _ _ _ _)
  have hw : b1 ||| b2 <<< 8 = b1 + 256 * b2 := word_eq b1 b2 hb1
  have hq : (run_cycles 4 s).reg_p = set_flag (set_flag (set_flag s.reg_p STATUS_NEGATIVE
      (decide (isub s.reg_x m &&& 0x80 ≠ 0))) STATUS_ZERO (decide (s.reg_x = m))) STATUS_CARRY
      (decide (s.reg_x ≥ m)) := by
    simp [run_cycle_fetch, run_cycle_decode, decode_opcode_EC, op_EC, read_memory_val, hidx, hh,
      h0, h1, h2, h4, hb1m, hb2m, hw, hMm, Nat.add_assoc]
  have hb := cmp_flags_bits s.reg_p s.reg_x m hR hM _ hq
  refine ⟨⟨by norm_num, ?_, ?_⟩, hb.1, hb.2.1, hb.2.2.1, ?_, ?_, ?_, ?_, (hb.2.2.2 hp).1,
    (hb.2.2.2 hp).2.1, (hb.2.2.2 hp).2.2, ?_, ?_⟩
  · simp [run_cycle_fetch, run_cycle_decode, decode_opcode_EC, op_EC, read_memory_val, hidx, hh,
      h0, h1, h2, h4, hb1m, hb2m, hw, hMm, Nat.add_assoc]
  · intro k hk hk0
    have : k = 1 ∨ k = 2 ∨ k = 3 := by omega
    rcases this with rfl | rfl | rfl <;>
    simp [run_cycle_fetch, run_cycle_decode, decode_opcode_EC, op_EC, read_memory_val, hidx, hh,
      h0, h1, h2, h4, hb1m, hb2m, hw, hMm, Nat.add_assoc]
  all_goals
    simp [run_cycle_fetch, run_cycle_decode, decode_opcode_EC, op_EC, read_memory_val, hidx, hh,
      h0, h1, h2, h4, hb1m, hb2m, hw, hMm, Nat.add_assoc]

set_option maxHeartbeats 3200000 in
/-- CPY immediate (`$C0`) run from an instruction boundary: 2 cycles, the
outcome of a compare of Y with the operand. -/
theorem op_C0_exec (s : State) (b1 : Nat) (hidx : s.cur_instr_index = 0) (hh : s.hang = 0)
    (h0 : rd s s.pc = 0xC0) (h1 : rd s (s.pc + 1) = b1)
    (hR : s.reg_y < 256) (hp : s.reg_p < 256) :
    retires_after s 2 ∧ cmp_outcome s (run_cycles 2 s) s.reg_y b1 := by
  rw [rd_val] at h0 h1
  have hM : b1 < 256 := by rw [← h1]; exact bus_val_lt _ _ _ _ _
  have hMm : b1 % 256 = b1 := Nat.mod_eq_of_lt hM
  have hq : (run_cycles 2 s).reg_p = set_flag (set_flag (set_flag s.reg_p STATUS_NEGATIVE
      (decide (isub s.reg_y b1 &&& 0x80 ≠ 0))) STATUS_ZERO (decide (s.reg_y = b1))) STATUS_CARRY
      (decide (s.reg_y ≥ b1)) := by
    simp [run_cycle_fetch, run_cycle_decode, decode_opcode_C0, op_C0, read_memory_val, hidx, hh,
      h0, h1, hMm, Nat.add_assoc]
  have hb := cmp_flags_bits s.reg_p s.reg_y b1 hR hM _ hq
  refine ⟨⟨by norm_num, ?_, ?_⟩, hb.1, hb.2.1, hb.2.2.1, ?_, ?_, ?_, ?_, (hb.2.2.2 hp).1,
    (hb.2.2.2 hp).2.1, (hb.2.2.2 hp).2.2, ?_, ?_⟩
  · simp [run_cycle_fetch, run_cycle_decode, decode_opcode_C0, op_C0, read_memory_val, hidx, hh,
      h0, h1, hMm, Nat.add_assoc]
  · intro k hk hk0
    have : k = 1 := by omega
    subst this
    simp [run_cycle_fetch, run_cycle_decode, decode_opcode_C0, op_C0, read_memory_val, hidx, hh,
      h0, h1, hMm, Nat.add_assoc]
  all_goals
    simp [run_cycle_fetch, run_cycle_decode, decode_opcode_C0, op_C0, read_memory_val, hidx, hh,
      h0, h1, hMm, Nat.add_assoc]

set_option maxHeartbeats 3200000 in
/-- CPY zero page (`$C4`) run from an instruction boundary: 3 cycles, the
outcome of a compare of Y with the operand. -/
theorem op_C4_exec (s : State) (b1 m : Nat) (hidx : s.cur_instr_index = 0) (hh : s.hang = 0)
    (h0 : rd s s.pc = 0xC4) (h1 : rd s (s.pc + 1) = b1) (h2 : rd s b1 = m)
    (hR : s.reg_y < 256) (hp : s.reg_p < 256) :
    retires_after s 3 ∧ cmp_outcome s (run_cycles 3 s) s.reg_y m := by
  rw [rd_val] at h0 h1 h2
  have hM : m < 256 := by rw [← h2]; exact bus_val_lt _ _ _ _ _
  have hMm : m % 256 = m := Nat.mod_eq_of_lt hM
  have hb1m : b1 % 256 = b1 := Nat.mod_eq_of_lt (by rw [← h1]; exact bus_val_lt _ _ _ _ _)
  have hq : (run_cycles 3 s).reg_p = set_flag (set_flag (set_flag s.reg_p STATUS_NEGATIVE
      (decide (isub s.reg_y m &&& 0x80 ≠ 0))) STATUS_ZERO (decide (s.reg_y = m))) STATUS_CARRY
      (decide (s.reg_y ≥ m)) := by
    simp [run_cycle_fetch, run_cycle_decode, decode_opcode_C4, op_C4, read_memory_val, hidx, hh,
      h0, h1, h2, hb1m, hMm, Nat.add_assoc]
  have hb := cmp_flags_bits s.reg_p s.reg_y m hR hM _ hq
  refine ⟨⟨by norm_num, ?_, ?_⟩, hb.1, hb.2.1, hb.2.2.1, ?_, ?_, ?_, ?_, (hb.2.2.2 hp).1,
    (hb.2.2.2 hp).2.1, (hb.2.2.2 hp).2.2, ?_, ?_⟩
  · simp [run_cycle_fetch, run_cycle_decode, decode_opcode_C4, op_C4, read_memory_val, hidx, hh,
      h0, h1, h2, hb1m, hMm, Nat.add_assoc]
  · intro k hk hk0
    have : k = 1 ∨ k = 2 := by omega
    rcases this with rfl | rfl <;>
    simp [run_cycle_fetch, run_cycle_decode, decode_opcode_C4, op_C4, read_memory_val, hidx, hh,
      h0, h1, h2, hb1m, hMm, Nat.add_assoc]
  all_goals
    simp [run_cycle_fetch, run_cycle_decode, decode_opcode_C4, op_C4, read_memory_val, hidx, hh,
      h0, h1, h2, hb1m, hMm, Nat.add_assoc]

set_option maxHeartbeats 3200000 in
/-- CPY absolute (`$CC`) run from an instruction boundary: 4 cycles, the
outcome of a compare of Y with the operand. -/
theorem op_CC_exec (s : State) (b1 b2 m : Nat) (hidx : s.cur_instr_index = 0) (hh : s.hang = 0)
    (h0 : rd s s.pc = 0xCC) (h1 : rd s (s.pc + 1) = b1) (h2 : rd s (s.pc + 2) = b2)
    (h4 : rd s (b1 + 256 * b2) = m)
    (hR : s.reg_y < 256) (hp : s.reg_p < 256) :
    retires_after s 4 ∧ cmp_outcome s (run_cycles 4 s) s.reg_y m := by
  rw [rd_val] at h0 h1 h2 h4
  have hM : m < 256 := by rw [← h4]; exact bus_val_lt _ _ _ _ _
  have hMm : m % 256 = m := Nat.mod_eq_of_lt hM
  have hb1 : b1 < 256 := by rw [← h1]; exact bus_val_lt _ _ _ _ _
  have hb1m : b1 % 256 = b1 := Nat.mod_eq_of_lt hb1
  have hb2m : b2 % 256 = b2 := Nat.mod_eq_of_lt (by rw [← h2]; exact bus_val_lt _ _ _ _ _)
  have hw : b1 ||| b2 <<< 8 = b1 + 256 * b2 := word_eq b1 b2 hb1
  have hq : (run_cycles 4 s).reg_p = set_flag (set_flag (set_flag s.reg_p STATUS_NEGATIVE
      (decide (isub s.reg_y m &&& 0x80 ≠ 0))) STATUS_ZERO (decide (s.reg_y = m))) STATUS_CARRY
      (decide (s.reg_y ≥ m)) := by
    simp [run_cycle_fetch, run_cycle_decode, decode_opcode_CC, op_CC, read_memory_val, hidx, hh,
      h0, h1, h2, h4, hb1m, hb2m, hw, hMm, Nat.add_assoc]
  have hb := cmp_flags_bits s.reg_p s.reg_y m hR hM _ hq
  refine ⟨⟨by norm_num, ?_, ?_⟩, hb.1, hb.2.1, hb.2.2.1, ?_, ?_, ?_, ?_, (hb.2.2.2 hp).1,
    (hb.2.2.2 hp).2.1, (hb.2.2.2 hp).2.2, ?_, ?_⟩
  · simp [run_cycle_fetch, run_cycle_decode, decode_opcode_CC, op_CC, read_memory_val, hidx, hh,
      h0, h1, h2, h4, hb1m, hb2m, hw, hMm, Nat.add_assoc]
  · intro k hk hk0
    have : k = 1 ∨ k = 2 ∨ k = 3 := by omega
    rcases this with rfl | rfl | rfl <;>
    simp [run_cycle_fetch, run_cycle_decode, decode_opcode_CC, op_CC, read_memory_val, hidx, hh,
      h0, h1, h2, h4, hb1m, hb2m, hw, hMm, Nat.add_assoc]
  all_goals
    simp [run_cycle_fetch, run_cycle_decode, decode_opcode_CC, op_CC, read_memory_val, hidx, hh,
      h0, h1, h2, h4, hb1m, hb2m, hw, hMm, Nat.add_assoc]

/-! ## ALU-group timing and compares, the claims (C13, C14) -/

set_option maxRecDepth 8000 in
/-- The `switch (cur_instr[0] & 0x1D)` of the ALU group is exhaustive: an opcode
byte with `(op & 0x3) == 0x1` selects one of its eight `case` labels. -/
theorem alu_mode_cases (op : Nat) (hop : op < 256) (h3 : op &&& 0x3 = 0x1) :
    op &&& 0x1D = 0x09 ∨ op &&& 0x1D = 0x05 ∨ op &&& 0x1D = 0x15 ∨ op &&& 0x1D = 0x0D ∨
    op &&& 0x1D = 0x01 ∨ op &&& 0x1D = 0x1D ∨ op &&& 0x1D = 0x19 ∨ op &&& 0x1D = 0x11 := by
  revert op
  decide

/-- C14: for every opcode with (op & 0x03) = 0x01 started at an instruction
boundary, the number of `p6502_run_cycle` calls from the opcode fetch up to and
including the cycle that returns the index to 0 is: immediate 2; zero-page 3;
zero-page,X 4; absolute 4; (indirect,X) 6; absolute,X and absolute,Y 4 when base
and base+index lie in the same page and the op is not STA, otherwise 5;
(indirect),Y 5 when no page is crossed and the op is not STA, otherwise 6.  The
addressing mode is the `case` label selected by `op & 0x1D`, and one of the eight
is always selected. -/
theorem alu_timing (s : State) (op : Nat) (hidx : s.cur_instr_index = 0) (hh : s.hang = 0)
    (h0 : rd s s.pc = op) (h3 : op &&& 0x03 = 0x01) (hx : s.reg_x < 256)
    (hy : s.reg_y < 256) :
    (op &&& 0x1D = 0x09 → retires_after s 2) ∧
    (op &&& 0x1D = 0x05 → retires_after s 3) ∧
    (op &&& 0x1D = 0x15 → retires_after s 4) ∧
    (op &&& 0x1D = 0x0D → retires_after s 4) ∧
    (op &&& 0x1D = 0x01 → retires_after s 6) ∧
    (op &&& 0x1D = 0x1D → retires_after s
      (if (rd s (s.pc + 1) + 256 * rd s (s.pc + 2) + s.reg_x) / 256 =
          (rd s (s.pc + 1) + 256 * rd s (s.pc + 2)) / 256 ∧ op &&& 0xE0 ≠ 0x80 then 4 else 5)) ∧
    (op &&& 0x1D = 0x19 → retires_after s
      (if (rd s (s.pc + 1) + 256 * rd s (s.pc + 2) + s.reg_y) / 256 =
          (rd s (s.pc + 1) + 256 * rd s (s.pc + 2)) / 256 ∧ op &&& 0xE0 ≠ 0x80 then 4 else 5)) ∧
    (op &&& 0x1D = 0x11 → retires_after s
      (if (rd s (rd s (s.pc + 1)) + 256 * rd s ((rd s (s.pc + 1) + 1) % 256) + s.reg_y) / 256 =
          (rd s (rd s (s.pc + 1)) + 256 * rd s ((rd s (s.pc + 1) + 1) % 256)) / 256 ∧
          op &&& 0xE0 ≠ 0x80 then 5 else 6)) ∧
    (op &&& 0x1D = 0x09 ∨ op &&& 0x1D = 0x05 ∨ op &&& 0x1D = 0x15 ∨ op &&& 0x1D = 0x0D ∨
      op &&& 0x1D = 0x01 ∨ op &&& 0x1D = 0x1D ∨ op &&& 0x1D = 0x19 ∨ op &&& 0x1D = 0x11) :=
  ⟨fun hm => (alu_immediate_exec s op hidx hh h0 h3 hm).1,
    fun hm => (alu_zero_page_exec s op hidx hh h0 h3 hm).1,
    fun hm => (alu_zero_page_x_exec s op hidx hh h0 h3 hm).1,
    fun hm => (alu_absolute_exec s op hidx hh h0 h3 hm).1,
    fun hm => (alu_indirect_x_exec s op hidx hh h0 h3 hm).1,
    fun hm => (alu_absolute_x_exec s op _ _ _ hidx hh h0 h3 hm rfl rfl hx rfl).1,
    fun hm => (alu_absolute_y_exec s op _ _ _ hidx hh h0 h3 hm rfl rfl hy rfl).1,
    fun hm => (alu_indirect_y_exec s op _ _ _ _ hidx hh h0 h3 hm rfl rfl rfl hy rfl).1,
    alu_mode_cases op (by rw [← h0]; exact rd_lt _ _) h3⟩

/-- Witness for C14: `CMP $01FF,X` (`$DD`) with X = 1 crosses into page `$02` and
retires at cycle 5. -/
theorem alu_timing_witness :
    ((alu_state 0xDD).cur_instr_index = 0 ∧ (alu_state 0xDD).hang = 0 ∧
      rd (alu_state 0xDD) (alu_state 0xDD).pc = 0xDD ∧ 0xDD &&& 0x03 = 0x01 ∧
      (alu_state 0xDD).reg_x < 256 ∧ (alu_state 0xDD).reg_y < 256 ∧ 0xDD &&& 0x1D = 0x1D) ∧
    retires_after (alu_state 0xDD)
      (if (rd (alu_state 0xDD) ((alu_state 0xDD).pc + 1) +
            256 * rd (alu_state 0xDD) ((alu_state 0xDD).pc + 2) + (alu_state 0xDD).reg_x) / 256 =
          (rd (alu_state 0xDD) ((alu_state 0xDD).pc + 1) +
            256 * rd (alu_state 0xDD) ((alu_state 0xDD).pc + 2)) / 256 ∧
          0xDD &&& 0xE0 ≠ 0x80 then 4 else 5) ∧
    (run_cycles 5 (alu_state 0xDD)).cur_instr_index = 0 ∧
    (run_cycles 4 (alu_state 0xDD)).cur_instr_index = 4 :=
  ⟨⟨by decide, by decide, by decide, by decide, by decide, by decide, by decide⟩,
    (alu_timing (alu_state 0xDD) 0xDD (by decide) (by decide) (by decide) (by decide)
      (by decide) (by decide)).2.2.2.2.2.1 (by decide),
    by decide, by decide⟩

/-- C13: for R = A (CMP `op & 0xE0 = 0xC0` in the ALU group, every addressing
mode), R = X (CPX `$E0`, `$E4`, `$EC`) and R = Y (CPY `$C0`, `$C4`, `$CC`) and
the operand byte M of the mode, the instruction run from an instruction boundary
retires having set C iff R >= M, Z iff R = M and N = bit 7 of (R - M) mod 256,
with A, X, Y, S, the V, I, D flags and memory unchanged (`cmp_outcome`). -/
theorem compare_spec (s : State) (op : Nat) (hidx : s.cur_instr_index = 0) (hh : s.hang = 0)
    (h0 : rd s s.pc = op) (hA : s.reg_a < 256) (hx : s.reg_x < 256) (hy : s.reg_y < 256)
    (hp : s.reg_p < 256) :
    (op &&& 0x03 = 0x01 → op &&& 0xE0 = 0xC0 →
      (op &&& 0x1D = 0x09 →
        retires_after s 2 ∧ cmp_outcome s (run_cycles 2 s) s.reg_a (rd s (s.pc + 1))) ∧
      (op &&& 0x1D = 0x05 →
        retires_after s 3 ∧ cmp_outcome s (run_cycles 3 s) s.reg_a (rd s (rd s (s.pc + 1)))) ∧
      (op &&& 0x1D = 0x15 →
        retires_after s 4 ∧
        cmp_outcome s (run_cycles 4 s) s.reg_a (rd s ((s.reg_x + rd s (s.pc + 1)) % 256))) ∧
      (op &&& 0x1D = 0x0D →
        retires_after s 4 ∧
        cmp_outcome s (run_cycles 4 s) s.reg_a
          (rd s (rd s (s.pc + 1) + 256 * rd s (s.pc + 2)))) ∧
      (op &&& 0x1D = 0x01 →
        retires_after s 6 ∧
        cmp_outcome s (run_cycles 6 s) s.reg_a
          (rd s (rd s ((rd s (s.pc + 1) + s.reg_x) % 256) +
            256 * rd s ((rd s (s.pc + 1) + s.reg_x + 1) % 256)))) ∧
      (op &&& 0x1D = 0x1D →
        retires_after s
          (if (rd s (s.pc + 1) + 256 * rd s (s.pc + 2) + s.reg_x) / 256 =
            (rd s (s.pc + 1) + 256 * rd s (s.pc + 2)) / 256 then 4 else 5) ∧
        cmp_outcome s
          (run_cycles (if (rd s (s.pc + 1) + 256 * rd s (s.pc + 2) + s.reg_x) / 256 =
            (rd s (s.pc + 1) + 256 * rd s (s.pc + 2)) / 256 then 4 else 5) s) s.reg_a
          (rd s ((rd s (s.pc + 1) + 256 * rd s (s.pc + 2) + s.reg_x) % 65536))) ∧
      (op &&& 0x1D = 0x19 →
        retires_after s
          (if (rd s (s.pc + 1) + 256 * rd s (s.pc + 2) + s.reg_y) / 256 =
            (rd s (s.pc + 1) + 256 * rd s (s.pc + 2)) / 256 then 4 else 5) ∧
        cmp_outcome s
          (run_cycles (if (rd s (s.pc + 1) + 256 * rd s (s.pc + 2) + s.reg_y) / 256 =
            (rd s (s.pc + 1) + 256 * rd s (s.pc + 2)) / 256 then 4 else 5) s) s.reg_a
          (rd s ((rd s (s.pc + 1) + 256 * rd s (s.pc + 2) + s.reg_y) % 65536))) ∧
      (op &&& 0x1D = 0x11 →
        retires_after s
          (if (rd s (rd s (s.pc + 1)) + 256 * rd s ((rd s (s.pc + 1) + 1) % 256) +
              s.reg_y) / 256 =
            (rd s (rd s (s.pc + 1)) + 256 * rd s ((rd s (s.pc + 1) + 1) % 256)) / 256
            then 5 else 6) ∧
        cmp_outcome s
          (run_cycles (if (rd s (rd s (s.pc + 1)) + 256 * rd s ((rd s (s.pc + 1) + 1) % 256) +
              s.reg_y) / 256 =
            (rd s (rd s (s.pc + 1)) + 256 * rd s ((rd s (s.pc + 1) + 1) % 256)) / 256
            then 5 else 6) s) s.reg_a
          (rd s ((rd s (rd s (s.pc + 1)) + 256 * rd s ((rd s (s.pc + 1) + 1) % 256) +
            s.reg_y) % 65536)))) ∧
    (op = 0xE0 → retires_after s 2 ∧ cmp_outcome s (run_cycles 2 s) s.reg_x (rd s (s.pc + 1))) ∧
    (op = 0xE4 →
      retires_after s 3 ∧ cmp_outcome s (run_cycles 3 s) s.reg_x (rd s (rd s (s.pc + 1)))) ∧
    (op = 0xEC →
      retires_after s 4 ∧
      cmp_outcome s (run_cycles 4 s) s.reg_x (rd s (rd s (s.pc + 1) + 256 * rd s (s.pc + 2)))) ∧
    (op = 0xC0 → retires_after s 2 ∧ cmp_outcome s (run_cycles 2 s) s.reg_y (rd s (s.pc + 1))) ∧
    (op = 0xC4 →
      retires_after s 3 ∧ cmp_outcome s (run_cycles 3 s) s.reg_y (rd s (rd s (s.pc + 1)))) ∧
    (op = 0xCC →
      retires_after s 4 ∧
      cmp_outcome s (run_cycles 4 s) s.reg_y
        (rd s (rd s (s.pc + 1) + 256 * rd s (s.pc + 2)))) := by
  refine ⟨?_, ?_, ?_, ?_, ?_, ?_, ?_⟩
  · intro h3 hc
    have hns : op &&& 0xE0 ≠ 0x80 := by rw [hc]; decide
    refine ⟨?_, ?_, ?_, ?_, ?_, ?_, ?_, ?_⟩
    · intro hm
      obtain ⟨hr, hfin, hop0, hsm, h4⟩ := alu_immediate_exec s op hidx hh h0 h3 hm
      exact ⟨hr, cmp_of_alu s _ op 2 _ hfin hop0 hc hsm h4 (rd_lt _ _) hA hp⟩
    · intro hm
      obtain ⟨hr, hfin, hop0, hsm, _, h4⟩ := alu_zero_page_exec s op hidx hh h0 h3 hm
      exact ⟨hr, cmp_of_alu s _ op 3 _ hfin hop0 hc hsm (h4 hns) (rd_lt _ _) hA hp⟩
    · intro hm
      obtain ⟨hr, hfin, hop0, hsm, _, h4⟩ := alu_zero_page_x_exec s op hidx hh h0 h3 hm
      exact ⟨hr, cmp_of_alu s _ op 4 _ hfin hop0 hc hsm (h4 hns) (rd_lt _ _) hA hp⟩
    · intro hm
      obtain ⟨hr, hfin, hop0, hsm, _, h4⟩ := alu_absolute_exec s op hidx hh h0 h3 hm
      exact ⟨hr, cmp_of_alu s _ op 4 _ hfin hop0 hc hsm (h4 hns) (rd_lt _ _) hA hp⟩
    · intro hm
      obtain ⟨hr, hfin, hop0, hsm, _, h4⟩ := alu_indirect_x_exec s op hidx hh h0 h3 hm
      exact ⟨hr, cmp_of_alu s _ op 6 _ hfin hop0 hc hsm (h4 hns) (rd_lt _ _) hA hp⟩
    · intro hm
      have H := alu_absolute_x_exec s op _ _ _ hidx hh h0 h3 hm rfl rfl hx rfl
      simp only [hns, ne_eq, not_false_eq_true, and_true, true_implies] at H
      obtain ⟨hr, hfin, hop0, hsm, _, h4⟩ := H
      exact ⟨hr, cmp_of_alu s _ op _ _ hfin hop0 hc hsm h4 (rd_lt _ _) hA hp⟩
    · intro hm
      have H := alu_absolute_y_exec s op _ _ _ hidx hh h0 h3 hm rfl rfl hy rfl
      simp only [hns, ne_eq, not_false_eq_true, and_true, true_implies] at H
      obtain ⟨hr, hfin, hop0, hsm, _, h4⟩ := H
      exact ⟨hr, cmp_of_alu s _ op _ _ hfin hop0 hc hsm h4 (rd_lt _ _) hA hp⟩
    · intro hm
      have H := alu_indirect_y_exec s op _ _ _ _ hidx hh h0 h3 hm rfl rfl rfl hy rfl
      simp only [hns, ne_eq, not_false_eq_true, and_true, true_implies] at H
      obtain ⟨hr, hfin, hop0, hsm, _, h4⟩ := H
      exact ⟨hr, cmp_of_alu s _ op _ _ hfin hop0 hc hsm h4 (rd_lt _ _) hA hp⟩
  · intro e
    exact op_E0_exec s _ hidx hh (by rw [h0, e]) rfl hx hp
  · intro e
    exact op_E4_exec s _ _ hidx hh (by rw [h0, e]) rfl rfl hx hp
  · intro e
    exact op_EC_exec s _ _ _ hidx hh (by rw [h0, e]) rfl rfl rfl hx hp
  · intro e
    exact op_C0_exec s _ hidx hh (by rw [h0, e]) rfl hy hp
  · intro e
    exact op_C4_exec s _ _ hidx hh (by rw [h0, e]) rfl rfl hy hp
  · intro e
    exact op_CC_exec s _ _ _ hidx hh (by rw [h0, e]) rfl rfl rfl hy hp

/-- Witness for C13: `CMP $01FF,X` (`$DD`) with A = `$42`, X = 1 and
RAM[`$0200`] = `$40` retires at cycle 5 with C set, Z and N clear (P = `$25`);
`CPX #$FF` (`$E0`) with X = 1 gives C clear, Z clear, N clear (P = `$24`). -/
theorem compare_spec_witness :
    ((alu_state 0xDD).cur_instr_index = 0 ∧ (alu_state 0xDD).hang = 0 ∧
      rd (alu_state 0xDD) (alu_state 0xDD).pc = 0xDD ∧ (alu_state 0xDD).reg_a < 256 ∧
      (alu_state 0xDD).reg_x < 256 ∧ (alu_state 0xDD).reg_y < 256 ∧
      (alu_state 0xDD).reg_p < 256 ∧ 0xDD &&& 0x03 = 0x01 ∧ 0xDD &&& 0xE0 = 0xC0 ∧
      0xDD &&& 0x1D = 0x1D) ∧
    (retires_after (alu_state 0xDD)
        (if (rd (alu_state 0xDD) ((alu_state 0xDD).pc + 1) +
              256 * rd (alu_state 0xDD) ((alu_state 0xDD).pc + 2) + (alu_state 0xDD).reg_x) / 256 =
            (rd (alu_state 0xDD) ((alu_state 0xDD).pc + 1) +
              256 * rd (alu_state 0xDD) ((alu_state 0xDD).pc + 2)) / 256 then 4 else 5) ∧
      cmp_outcome (alu_state 0xDD)
        (run_cycles (if (rd (alu_state 0xDD) ((alu_state 0xDD).pc + 1) +
              256 * rd (alu_state 0xDD) ((alu_state 0xDD).pc + 2) + (alu_state 0xDD).reg_x) / 256 =
            (rd (alu_state 0xDD) ((alu_state 0xDD).pc + 1) +
              256 * rd (alu_state 0xDD) ((alu_state 0xDD).pc + 2)) / 256 then 4 else 5)
          (alu_state 0xDD)) (alu_state 0xDD).reg_a
        (rd (alu_state 0xDD) ((rd (alu_state 0xDD) ((alu_state 0xDD).pc + 1) +
          256 * rd (alu_state 0xDD) ((alu_state 0xDD).pc + 2) +
          (alu_state 0xDD).reg_x) % 65536))) ∧
    rd (alu_state 0xDD) ((rd (alu_state 0xDD) ((alu_state 0xDD).pc + 1) +
      256 * rd (alu_state 0xDD) ((alu_state 0xDD).pc + 2) +
      (alu_state 0xDD).reg_x) % 65536) = 0x40 ∧
    (run_cycles 5 (alu_state 0xDD)).reg_p = 0x25 ∧
    (run_cycles 2 (alu_state 0xE0)).reg_p = 0x24 :=
  ⟨⟨by decide, by decide, by decide, by decide, by decide, by decide, by decide, by decide,
      by decide, by decide⟩,
    ((compare_spec (alu_state 0xDD) 0xDD (by decide) (by decide) (by decide) (by decide)
      (by decide) (by decide) (by decide)).1 (by decide) (by decide)).2.2.2.2.2.1 (by decide),
    by decide, by decide, by decide⟩

/-! ## Projections of the rotate kernels -/

@[simp] theorem rol_slot_internal_ram (s : State) (k : Nat) :
    (rol_slot s k).internal_ram = s.internal_ram := by
  simp only [rol_slot]
  split_ifs <;> simp

@[simp] theorem rol_slot_cur_instr_index (s : State) (k : Nat) :
    (rol_slot s k).cur_instr_index = s.cur_instr_index := by
  simp only [rol_slot]
  split_ifs <;> simp

@[simp] theorem rol_slot_p6502_single_step (s : State) (k : Nat) :
    (rol_slot s k).p6502_single_step = s.p6502_single_step := by
  simp only [rol_slot]
  split_ifs <;> simp

@[simp] theorem rol_slot_hang (s : State) (k : Nat) :
    (rol_slot s k).hang = s.hang := by
  simp only [rol_slot]
  split_ifs <;> simp

@[simp] theorem rol_slot_cycle_number (s : State) (k : Nat) :
    (rol_slot s k).cycle_number = s.cycle_number := by
  simp only [rol_slot]
  split_ifs <;> simp

@[simp] theorem rol_slot_reg_a (s : State) (k : Nat) :
    (rol_slot s k).reg_a = s.reg_a := by
  simp only [rol_slot]
  split_ifs <;> simp

@[simp] theorem rol_slot_reg_x (s : State) (k : Nat) :
    (rol_slot s k).reg_x = s.reg_x := by
  simp only [rol_slot]
  split_ifs <;> simp

@[simp] theorem rol_slot_reg_y (s : State) (k : Nat) :
    (rol_slot s k).reg_y = s.reg_y := by
  simp only [rol_slot]
  split_ifs <;> simp

@[simp] theorem rol_slot_pc (s : State) (k : Nat) :
    (rol_slot s k).pc = s.pc := by
  simp only [rol_slot]
  split_ifs <;> simp

@[simp] theorem rol_slot_reg_s (s : State) (k : Nat) :
    (rol_slot s k).reg_s = s.reg_s := by
  simp only [rol_slot]
  split_ifs <;> simp

@[simp] theorem rol_slot_mapper_cpur (s : State) (k : Nat) :
    (rol_slot s k).mapper_cpur = s.mapper_cpur := by
  simp only [rol_slot]
  split_ifs <;> simp

@[simp] theorem rol_slot_mapper_cpuw (s : State) (k : Nat) :
    (rol_slot s k).mapper_cpuw = s.mapper_cpuw := by
  simp only [rol_slot]
  split_ifs <;> simp

@[simp] theorem rol_slot_mapper_ppur (s : State) (k : Nat) :
    (rol_slot s k).mapper_ppur = s.mapper_ppur := by
  simp only [rol_slot]
  split_ifs <;> simp

@[simp] theorem rol_slot_mapper_ppuw (s : State) (k : Nat) :
    (rol_slot s k).mapper_ppuw = s.mapper_ppuw := by
  simp only [rol_slot]
  split_ifs <;> simp

@[simp] theorem rol_slot_mapper0_prg_rom (s : State) (k : Nat) :
    (rol_slot s k).mapper0_prg_rom = s.mapper0_prg_rom := by
  simp only [rol_slot]
  split_ifs <;> simp

@[simp] theorem rol_slot_mapper0_prg_rom_mask (s : State) (k : Nat) :
    (rol_slot s k).mapper0_prg_rom_mask = s.mapper0_prg_rom_mask := by
  simp only [rol_slot]
  split_ifs <;> simp

@[simp] theorem rol_slot_bus (s : State) (k : Nat) :
    (rol_slot s k).bus = s.bus := by
  simp only [rol_slot]
  split_ifs <;> simp

@[simp] theorem ror_slot_internal_ram (s : State) (k : Nat) :
    (ror_slot s k).internal_ram = s.internal_ram := by
  simp only [ror_slot]
  split_ifs <;> simp

@[simp] theorem ror_slot_cur_instr_index (s : State) (k : Nat) :
    (ror_slot s k).cur_instr_index = s.cur_instr_index := by
  simp only [ror_slot]
  split_ifs <;> simp

@[simp] theorem ror_slot_p6502_single_step (s : State) (k : Nat) :
    (ror_slot s k).p6502_single_step = s.p6502_single_step := by
  simp only [ror_slot]
  split_ifs <;> simp

@[simp] theorem ror_slot_hang (s : State) (k : Nat) :
    (ror_slot s k).hang = s.hang := by
  simp only [ror_slot]
  split_ifs <;> simp

@[simp] theorem ror_slot_cycle_number (s : State) (k : Nat) :
    (ror_slot s k).cycle_number = s.cycle_number := by
  simp only [ror_slot]
  split_ifs <;> simp

@[simp] theorem ror_slot_reg_a (s : State) (k : Nat) :
    (ror_slot s k).reg_a = s.reg_a := by
  simp only [ror_slot]
  split_ifs <;> simp

@[simp] theorem ror_slot_reg_x (s : State) (k : Nat) :
    (ror_slot s k).reg_x = s.reg_x := by
  simp only [ror_slot]
  split_ifs <;> simp

@[simp] theorem ror_slot_reg_y (s : State) (k : Nat) :
    (ror_slot s k).reg_y = s.reg_y := by
  simp only [ror_slot]
  split_ifs <;> simp

@[simp] theorem ror_slot_pc (s : State) (k : Nat) :
    (ror_slot s k).pc = s.pc := by
  simp only [ror_slot]
  split_ifs <;> simp

@[simp] theorem ror_slot_reg_s (s : State) (k : Nat) :
    (ror_slot s k).reg_s = s.reg_s := by
  simp only [ror_slot]
  split_ifs <;> simp

@[simp] theorem ror_slot_mapper_cpur (s : State) (k : Nat) :
    (ror_slot s k).mapper_cpur = s.mapper_cpur := by
  simp only [ror_slot]
  split_ifs <;> simp

@[simp] theorem ror_slot_mapper_cpuw (s : State) (k : Nat) :
    (ror_slot s k).mapper_cpuw = s.mapper_cpuw := by
  simp only [ror_slot]
  split_ifs <;> simp

@[simp] theorem ror_slot_mapper_ppur (s : State) (k : Nat) :
    (ror_slot s k).mapper_ppur = s.mapper_ppur := by
  simp only [ror_slot]
  split_ifs <;> simp

@[simp] theorem ror_slot_mapper_ppuw (s : State) (k : Nat) :
    (ror_slot s k).mapper_ppuw = s.mapper_ppuw := by
  simp only [ror_slot]
  split_ifs <;> simp

@[simp] theorem ror_slot_mapper0_prg_rom (s : State) (k : Nat) :
    (ror_slot s k).mapper0_prg_rom = s.mapper0_prg_rom := by
  simp only [ror_slot]
  split_ifs <;> simp

@[simp] theorem ror_slot_mapper0_prg_rom_mask (s : State) (k : Nat) :
    (ror_slot s k).mapper0_prg_rom_mask = s.mapper0_prg_rom_mask := by
  simp only [ror_slot]
  split_ifs <;> simp

@[simp] theorem ror_slot_bus (s : State) (k : Nat) :
    (ror_slot s k).bus = s.bus := by
  simp only [ror_slot]
  split_ifs <;> simp
/-! ## What one decode step leaves alone (C22, C23, C28)

One lemma per `case` label, then the dispatcher. -/

theorem op_E0_frame (s : State) : decode_frame s (op_E0 s) := by
  simp only [op_E0]
  simp [decode_frame, inc_slot, dec_slot, asl_slot, lsr_slot, bit_flags]

theorem op_E4_frame (s : State) : decode_frame s (op_E4 s) := by
  simp only [op_E4]
  split_ifs <;> simp [decode_frame, inc_slot, dec_slot, asl_slot, lsr_slot, bit_flags]

theorem op_EC_frame (s : State) : decode_frame s (op_EC s) := by
  simp only [op_EC]
  split_ifs <;> simp [decode_frame, inc_slot, dec_slot, asl_slot, lsr_slot, bit_flags]

theorem op_C0_frame (s : State) : decode_frame s (op_C0 s) := by
  simp only [op_C0]
  simp [decode_frame, inc_slot, dec_slot, asl_slot, lsr_slot, bit_flags]

theorem op_C4_frame (s : State) : decode_frame s (op_C4 s) := by
  simp only [op_C4]
  split_ifs <;> simp [decode_frame, inc_slot, dec_slot, asl_slot, lsr_slot, bit_flags]

theorem op_CC_frame (s : State) : decode_frame s (op_CC s) := by
  simp only [op_CC]
  split_ifs <;> simp [decode_frame, inc_slot, dec_slot, asl_slot, lsr_slot, bit_flags]

theorem op_C6_frame (s : State) : decode_frame s (op_C6 s) := by
  simp only [op_C6]
  split_ifs <;> simp [decode_frame, inc_slot, dec_slot, asl_slot, lsr_slot, bit_flags]

theorem op_D6_frame (s : State) : decode_frame s (op_D6 s) := by
  simp only [op_D6]
  split_ifs <;> simp [decode_frame, inc_slot, dec_slot, asl_slot, lsr_slot, bit_flags]

theorem op_CE_frame (s : State) : decode_frame s (op_CE s) := by
  simp only [op_CE]
  split_ifs <;> simp [decode_frame, inc_slot, dec_slot, asl_slot, lsr_slot, bit_flags]

theorem op_DE_frame (s : State) : decode_frame s (op_DE s) := by
  simp only [op_DE]
  split_ifs <;> simp [decode_frame, inc_slot, dec_slot, asl_slot, lsr_slot, bit_flags]

theorem op_E6_frame (s : State) : decode_frame s (op_E6 s) := by
  simp only [op_E6]
  split_ifs <;> simp [decode_frame, inc_slot, dec_slot, asl_slot, lsr_slot, bit_flags]

theorem op_F6_frame (s : State) : decode_frame s (op_F6 s) := by
  simp only [op_F6]
  split_ifs <;> simp [decode_frame, inc_slot, dec_slot, asl_slot, lsr_slot, bit_flags]

theorem op_EE_frame (s : State) : decode_frame s (op_EE s) := by
  simp only [op_EE]
  split_ifs <;> simp [decode_frame, inc_slot, dec_slot, asl_slot, lsr_slot, bit_flags]

theorem op_FE_frame (s : State) : decode_frame s (op_FE s) := by
  simp only [op_FE]
  split_ifs <;> simp [decode_frame, inc_slot, dec_slot, asl_slot, lsr_slot, bit_flags]

theorem op_E8_frame (s : State) : decode_frame s (op_E8 s) := by
  simp only [op_E8]
  simp [decode_frame, inc_slot, dec_slot, asl_slot, lsr_slot, bit_flags]

theorem op_C8_frame (s : State) : decode_frame s (op_C8 s) := by
  simp only [op_C8]
  simp [decode_frame, inc_slot, dec_slot, asl_slot, lsr_slot, bit_flags]

theorem op_CA_frame (s : State) : decode_frame s (op_CA s) := by
  simp only [op_CA]
  simp [decode_frame, inc_slot, dec_slot, asl_slot, lsr_slot, bit_flags]

theorem op_88_frame (s : State) : decode_frame s (op_88 s) := by
  simp only [op_88]
  simp [decode_frame, inc_slot, dec_slot, asl_slot, lsr_slot, bit_flags]

theorem op_AA_frame (s : State) : decode_frame s (op_AA s) := by
  simp only [op_AA]
  simp [decode_frame, inc_slot, dec_slot, asl_slot, lsr_slot, bit_flags]

theorem op_BA_frame (s : State) : decode_frame s (op_BA s) := by
  simp only [op_BA]
  simp [decode_frame, inc_slot, dec_slot, asl_slot, lsr_slot, bit_flags]

theorem op_9A_frame (s : State) : decode_frame s (op_9A s) := by
  simp only [op_9A]
  simp [decode_frame, inc_slot, dec_slot, asl_slot, lsr_slot, bit_flags]

theorem op_A8_frame (s : State) : decode_frame s (op_A8 s) := by
  simp only [op_A8]
  simp [decode_frame, inc_slot, dec_slot, asl_slot, lsr_slot, bit_flags]

theorem op_8A_frame (s : State) : decode_frame s (op_8A s) := by
  simp only [op_8A]
  simp [decode_frame, inc_slot, dec_slot, asl_slot, lsr_slot, bit_flags]

theorem op_98_frame (s : State) : decode_frame s (op_98 s) := by
  simp only [op_98]
  simp [decode_frame, inc_slot, dec_slot, asl_slot, lsr_slot, bit_flags]

theorem op_40_frame (s : State) : decode_frame s (op_40 s) := by
  simp only [op_40]
  split_ifs <;> simp [decode_frame, inc_slot, dec_slot, asl_slot, lsr_slot, bit_flags]

theorem op_60_frame (s : State) : decode_frame s (op_60 s) := by
  simp only [op_60]
  split_ifs <;> simp [decode_frame, inc_slot, dec_slot, asl_slot, lsr_slot, bit_flags]

theorem op_20_frame (s : State) : decode_frame s (op_20 s) := by
  simp only [op_20]
  split_ifs <;> simp [decode_frame, inc_slot, dec_slot, asl_slot, lsr_slot, bit_flags]

theorem op_6C_frame (s : State) : decode_frame s (op_6C s) := by
  simp only [op_6C]
  split_ifs <;> simp [decode_frame, inc_slot, dec_slot, asl_slot, lsr_slot, bit_flags]

theorem op_68_frame (s : State) : decode_frame s (op_68 s) := by
  simp only [op_68]
  split_ifs <;> simp [decode_frame, inc_slot, dec_slot, asl_slot, lsr_slot, bit_flags]

theorem op_28_frame (s : State) : decode_frame s (op_28 s) := by
  simp only [op_28]
  split_ifs <;> simp [decode_frame, inc_slot, dec_slot, asl_slot, lsr_slot, bit_flags]

theorem op_08_frame (s : State) : decode_frame s (op_08 s) := by
  simp only [op_08]
  split_ifs <;> simp [decode_frame, inc_slot, dec_slot, asl_slot, lsr_slot, bit_flags]

theorem op_48_frame (s : State) : decode_frame s (op_48 s) := by
  simp only [op_48]
  split_ifs <;> simp [decode_frame, inc_slot, dec_slot, asl_slot, lsr_slot, bit_flags]

theorem op_18_frame (s : State) : decode_frame s (op_18 s) := by
  simp only [op_18]
  simp [decode_frame, inc_slot, dec_slot, asl_slot, lsr_slot, bit_flags]

theorem op_D8_frame (s : State) : decode_frame s (op_D8 s) := by
  simp only [op_D8]
  simp [decode_frame, inc_slot, dec_slot, asl_slot, lsr_slot, bit_flags]

theorem op_B8_frame (s : State) : decode_frame s (op_B8 s) := by
  simp only [op_B8]
  simp [decode_frame, inc_slot, dec_slot, asl_slot, lsr_slot, bit_flags]

theorem op_38_frame (s : State) : decode_frame s (op_38 s) := by
  simp only [op_38]
  simp [decode_frame, inc_slot, dec_slot, asl_slot, lsr_slot, bit_flags]

theorem op_F8_frame (s : State) : decode_frame s (op_F8 s) := by
  simp only [op_F8]
  simp [decode_frame, inc_slot, dec_slot, asl_slot, lsr_slot, bit_flags]

theorem op_78_frame (s : State) : decode_frame s (op_78 s) := by
  simp only [op_78]
  simp [decode_frame, inc_slot, dec_slot, asl_slot, lsr_slot, bit_flags]

theorem op_0A_frame (s : State) : decode_frame s (op_0A s) := by
  simp only [op_0A]
  simp [decode_frame, inc_slot, dec_slot, asl_slot, lsr_slot, bit_flags]

theorem op_06_frame (s : State) : decode_frame s (op_06 s) := by
  simp only [op_06]
  split_ifs <;> simp [decode_frame, inc_slot, dec_slot, asl_slot, lsr_slot, bit_flags]

theorem op_16_frame (s : State) : decode_frame s (op_16 s) := by
  simp only [op_16]
  split_ifs <;> simp [decode_frame, inc_slot, dec_slot, asl_slot, lsr_slot, bit_flags]

theorem op_0E_frame (s : State) : decode_frame s (op_0E s) := by
  simp only [op_0E]
  split_ifs <;> simp [decode_frame, inc_slot, dec_slot, asl_slot, lsr_slot, bit_flags]

theorem op_1E_frame (s : State) : decode_frame s (op_1E s) := by
  simp only [op_1E]
  split_ifs <;> simp [decode_frame, inc_slot, dec_slot, asl_slot, lsr_slot, bit_flags]

theorem op_4A_frame (s : State) : decode_frame s (op_4A s) := by
  simp only [op_4A]
  simp [decode_frame, inc_slot, dec_slot, asl_slot, lsr_slot, bit_flags]

theorem op_46_frame (s : State) : decode_frame s (op_46 s) := by
  simp only [op_46]
  split_ifs <;> simp [decode_frame, inc_slot, dec_slot, asl_slot, lsr_slot, bit_flags]

theorem op_56_frame (s : State) : decode_frame s (op_56 s) := by
  simp only [op_56]
  split_ifs <;> simp [decode_frame, inc_slot, dec_slot, asl_slot, lsr_slot, bit_flags]

theorem op_4E_frame (s : State) : decode_frame s (op_4E s) := by
  simp only [op_4E]
  split_ifs <;> simp [decode_frame, inc_slot, dec_slot, asl_slot, lsr_slot, bit_flags]

theorem op_5E_frame (s : State) : decode_frame s (op_5E s) := by
  simp only [op_5E]
  split_ifs <;> simp [decode_frame, inc_slot, dec_slot, asl_slot, lsr_slot, bit_flags]

theorem op_2A_frame (s : State) : decode_frame s (op_2A s) := by
  simp only [op_2A]
  split_ifs <;> simp [decode_frame, inc_slot, dec_slot, asl_slot, lsr_slot, bit_flags]

theorem op_26_frame (s : State) : decode_frame s (op_26 s) := by
  simp only [op_26]
  split_ifs <;> simp [decode_frame, inc_slot, dec_slot, asl_slot, lsr_slot, bit_flags]

theorem op_36_frame (s : State) : decode_frame s (op_36 s) := by
  simp only [op_36]
  split_ifs <;> simp [decode_frame, inc_slot, dec_slot, asl_slot, lsr_slot, bit_flags]

theorem op_2E_frame (s : State) : decode_frame s (op_2E s) := by
  simp only [op_2E]
  split_ifs <;> simp [decode_frame, inc_slot, dec_slot, asl_slot, lsr_slot, bit_flags]

theorem op_3E_frame (s : State) : decode_frame s (op_3E s) := by
  simp only [op_3E]
  split_ifs <;> simp [decode_frame, inc_slot, dec_slot, asl_slot, lsr_slot, bit_flags]

theorem op_6A_frame (s : State) : decode_frame s (op_6A s) := by
  simp only [op_6A]
  split_ifs <;> simp [decode_frame, inc_slot, dec_slot, asl_slot, lsr_slot, bit_flags]

theorem op_66_frame (s : State) : decode_frame s (op_66 s) := by
  simp only [op_66]
  split_ifs <;> simp [decode_frame, inc_slot, dec_slot, asl_slot, lsr_slot, bit_flags]

theorem op_76_frame (s : State) : decode_frame s (op_76 s) := by
  simp only [op_76]
  split_ifs <;> simp [decode_frame, inc_slot, dec_slot, asl_slot, lsr_slot, bit_flags]

theorem op_6E_frame (s : State) : decode_frame s (op_6E s) := by
  simp only [op_6E]
  split_ifs <;> simp [decode_frame, inc_slot, dec_slot, asl_slot, lsr_slot, bit_flags]

theorem op_7E_frame (s : State) : decode_frame s (op_7E s) := by
  simp only [op_7E]
  split_ifs <;> simp [decode_frame, inc_slot, dec_slot, asl_slot, lsr_slot, bit_flags]

theorem op_24_frame (s : State) : decode_frame s (op_24 s) := by
  simp only [op_24]
  split_ifs <;> simp [decode_frame, inc_slot, dec_slot, asl_slot, lsr_slot, bit_flags]

theorem op_2C_frame (s : State) : decode_frame s (op_2C s) := by
  simp only [op_2C]
  split_ifs <;> simp [decode_frame, inc_slot, dec_slot, asl_slot, lsr_slot, bit_flags]

theorem op_4C_frame (s : State) : decode_frame s (op_4C s) := by
  simp only [op_4C]
  split_ifs <;> simp [decode_frame, inc_slot, dec_slot, asl_slot, lsr_slot, bit_flags]

theorem op_86_frame (s : State) : decode_frame s (op_86 s) := by
  simp only [op_86]
  split_ifs <;> simp [decode_frame, inc_slot, dec_slot, asl_slot, lsr_slot, bit_flags]

theorem op_96_frame (s : State) : decode_frame s (op_96 s) := by
  simp only [op_96]
  split_ifs <;> simp [decode_frame, inc_slot, dec_slot, asl_slot, lsr_slot, bit_flags]

theorem op_8E_frame (s : State) : decode_frame s (op_8E s) := by
  simp only [op_8E]
  split_ifs <;> simp [decode_frame, inc_slot, dec_slot, asl_slot, lsr_slot, bit_flags]

theorem op_AE_frame (s : State) : decode_frame s (op_AE s) := by
  simp only [op_AE]
  split_ifs <;> simp [decode_frame, inc_slot, dec_slot, asl_slot, lsr_slot, bit_flags]

theorem op_BE_frame (s : State) : decode_frame s (op_BE s) := by
  simp only [op_BE]
  split_ifs <;> simp [decode_frame, inc_slot, dec_slot, asl_slot, lsr_slot, bit_flags]

theorem op_84_frame (s : State) : decode_frame s (op_84 s) := by
  simp only [op_84]
  split_ifs <;> simp [decode_frame, inc_slot, dec_slot, asl_slot, lsr_slot, bit_flags]

theorem op_94_frame (s : State) : decode_frame s (op_94 s) := by
  simp only [op_94]
  split_ifs <;> simp [decode_frame, inc_slot, dec_slot, asl_slot, lsr_slot, bit_flags]

theorem op_8C_frame (s : State) : decode_frame s (op_8C s) := by
  simp only [op_8C]
  split_ifs <;> simp [decode_frame, inc_slot, dec_slot, asl_slot, lsr_slot, bit_flags]

theorem op_A4_frame (s : State) : decode_frame s (op_A4 s) := by
  simp only [op_A4]
  split_ifs <;> simp [decode_frame, inc_slot, dec_slot, asl_slot, lsr_slot, bit_flags]

theorem op_B4_frame (s : State) : decode_frame s (op_B4 s) := by
  simp only [op_B4]
  split_ifs <;> simp [decode_frame, inc_slot, dec_slot, asl_slot, lsr_slot, bit_flags]

theorem op_AC_frame (s : State) : decode_frame s (op_AC s) := by
  simp only [op_AC]
  split_ifs <;> simp [decode_frame, inc_slot, dec_slot, asl_slot, lsr_slot, bit_flags]

theorem op_BC_frame (s : State) : decode_frame s (op_BC s) := by
  simp only [op_BC]
  split_ifs <;> simp [decode_frame, inc_slot, dec_slot, asl_slot, lsr_slot, bit_flags]

theorem op_A2_frame (s : State) : decode_frame s (op_A2 s) := by
  simp only [op_A2]
  split_ifs <;> simp [decode_frame, inc_slot, dec_slot, asl_slot, lsr_slot, bit_flags]

theorem op_A6_frame (s : State) : decode_frame s (op_A6 s) := by
  simp only [op_A6]
  split_ifs <;> simp [decode_frame, inc_slot, dec_slot, asl_slot, lsr_slot, bit_flags]

theorem op_B6_frame (s : State) : decode_frame s (op_B6 s) := by
  simp only [op_B6]
  split_ifs <;> simp [decode_frame, inc_slot, dec_slot, asl_slot, lsr_slot, bit_flags]

theorem op_A0_frame (s : State) : decode_frame s (op_A0 s) := by
  simp only [op_A0]
  split_ifs <;> simp [decode_frame, inc_slot, dec_slot, asl_slot, lsr_slot, bit_flags]

theorem op_EA_frame (s : State) : decode_frame s (op_EA s) := by
  simp only [op_EA]
  simp [decode_frame, inc_slot, dec_slot, asl_slot, lsr_slot, bit_flags]

theorem op_default_frame (s : State) : decode_frame s (op_default s) := by
  simp only [op_default]
  simp [decode_frame, inc_slot, dec_slot, asl_slot, lsr_slot, bit_flags]

theorem branch_flag_frame (s : State) (mask cmp : Nat) :
    decode_frame s (branch_flag s mask cmp) := by
  simp only [branch_flag]
  split_ifs <;> simp [decode_frame]

theorem ite_frame {c : Prop} [Decidable c] {s a b : State} (ha : decode_frame s a)
    (hb : decode_frame s b) : decode_frame s (if c then a else b) := by
  split_ifs
  · exact ha
  · exact hb

theorem decode_other_frame (s : State) : decode_frame s (decode_other s) := by
  simp only [decode_other]
  refine ite_frame (op_E0_frame s) ?_
  refine ite_frame (op_E4_frame s) ?_
  refine ite_frame (op_EC_frame s) ?_
  refine ite_frame (op_C0_frame s) ?_
  refine ite_frame (op_C4_frame s) ?_
  refine ite_frame (op_CC_frame s) ?_
  refine ite_frame (op_C6_frame s) ?_
  refine ite_frame (op_D6_frame s) ?_
  refine ite_frame (op_CE_frame s) ?_
  refine ite_frame (op_DE_frame s) ?_
  refine ite_frame (op_E6_frame s) ?_
  refine ite_frame (op_F6_frame s) ?_
  refine ite_frame (op_EE_frame s) ?_
  refine ite_frame (op_FE_frame s) ?_
  refine ite_frame (op_E8_frame s) ?_
  refine ite_frame (op_C8_frame s) ?_
  refine ite_frame (op_CA_frame s) ?_
  refine ite_frame (op_88_frame s) ?_
  refine ite_frame (op_AA_frame s) ?_
  refine ite_frame (op_BA_frame s) ?_
  refine ite_frame (op_9A_frame s) ?_
  refine ite_frame (op_A8_frame s) ?_
  refine ite_frame (op_8A_frame s) ?_
  refine ite_frame (op_98_frame s) ?_
  refine ite_frame (op_40_frame s) ?_
  refine ite_frame (op_60_frame s) ?_
  refine ite_frame (op_20_frame s) ?_
  refine ite_frame (op_6C_frame s) ?_
  refine ite_frame (op_68_frame s) ?_
  refine ite_frame (op_28_frame s) ?_
  refine ite_frame (op_08_frame s) ?_
  refine ite_frame (op_48_frame s) ?_
  refine ite_frame (op_18_frame s) ?_
  refine ite_frame (op_D8_frame s) ?_
  refine ite_frame (op_B8_frame s) ?_
  refine ite_frame (op_38_frame s) ?_
  refine ite_frame (op_F8_frame s) ?_
  refine ite_frame (op_78_frame s) ?_
  refine ite_frame (op_0A_frame s) ?_
  refine ite_frame (op_06_frame s) ?_
  refine ite_frame (op_16_frame s) ?_
  refine ite_frame (op_0E_frame s) ?_
  refine ite_frame (op_1E_frame s) ?_
  refine ite_frame (op_4A_frame s) ?_
  refine ite_frame (op_46_frame s) ?_
  refine ite_frame (op_56_frame s) ?_
  refine ite_frame (op_4E_frame s) ?_
  refine ite_frame (op_5E_frame s) ?_
  refine ite_frame (op_2A_frame s) ?_
  refine ite_frame (op_26_frame s) ?_
  refine ite_frame (op_36_frame s) ?_
  refine ite_frame (op_2E_frame s) ?_
  refine ite_frame (op_3E_frame s) ?_
  refine ite_frame (op_6A_frame s) ?_
  refine ite_frame (op_66_frame s) ?_
  refine ite_frame (op_76_frame s) ?_
  refine ite_frame (op_6E_frame s) ?_
  refine ite_frame (op_7E_frame s) ?_
  refine ite_frame (op_24_frame s) ?_
  refine ite_frame (op_2C_frame s) ?_
  refine ite_frame (op_4C_frame s) ?_
  refine ite_frame (op_86_frame s) ?_
  refine ite_frame (op_96_frame s) ?_
  refine ite_frame (op_8E_frame s) ?_
  refine ite_frame (op_AE_frame s) ?_
  refine ite_frame (op_BE_frame s) ?_
  refine ite_frame (op_84_frame s) ?_
  refine ite_frame (op_94_frame s) ?_
  refine ite_frame (op_8C_frame s) ?_
  refine ite_frame (op_A4_frame s) ?_
  refine ite_frame (op_B4_frame s) ?_
  refine ite_frame (op_AC_frame s) ?_
  refine ite_frame (op_BC_frame s) ?_
  refine ite_frame (op_A2_frame s) ?_
  refine ite_frame (op_A6_frame s) ?_
  refine ite_frame (op_B6_frame s) ?_
  refine ite_frame (op_A0_frame s) ?_
  refine ite_frame (branch_flag_frame s STATUS_OVERFLOW 0) ?_
  refine ite_frame (branch_flag_frame s STATUS_OVERFLOW STATUS_OVERFLOW) ?_
  refine ite_frame (branch_flag_frame s STATUS_CARRY 0) ?_
  refine ite_frame (branch_flag_frame s STATUS_NEGATIVE 0) ?_
  refine ite_frame (branch_flag_frame s STATUS_NEGATIVE STATUS_NEGATIVE) ?_
  refine ite_frame (branch_flag_frame s STATUS_CARRY STATUS_CARRY) ?_
  refine ite_frame (branch_flag_frame s STATUS_ZERO 0) ?_
  refine ite_frame (branch_flag_frame s STATUS_ZERO STATUS_ZERO) ?_
  refine ite_frame (op_EA_frame s) ?_
  exact op_default_frame s
/-! ### The ALU group -/

theorem alu_immediate_frame (s : State) :
    decode_frame s (alu_immediate s).1 ∧
    ((alu_immediate s).2 = 1 → (alu_immediate s).1.bus.length ≤ s.bus.length + 1) := by
  simp only [alu_immediate]
  simp [decode_frame]

theorem alu_zero_page_frame (s : State) :
    decode_frame s (alu_zero_page s).1 ∧
    ((alu_zero_page s).2 = 1 → (alu_zero_page s).1.bus.length ≤ s.bus.length + 1) := by
  simp only [alu_zero_page]
  split_ifs <;> simp [decode_frame]

theorem alu_zero_page_x_frame (s : State) :
    decode_frame s (alu_zero_page_x s).1 ∧
    ((alu_zero_page_x s).2 = 1 → (alu_zero_page_x s).1.bus.length ≤ s.bus.length + 1) := by
  simp only [alu_zero_page_x]
  split_ifs <;> simp [decode_frame]

theorem alu_absolute_frame (s : State) :
    decode_frame s (alu_absolute s).1 ∧
    ((alu_absolute s).2 = 1 → (alu_absolute s).1.bus.length ≤ s.bus.length + 1) := by
  simp only [alu_absolute]
  split_ifs <;> simp [decode_frame]

theorem alu_absolute_x_frame (s : State) :
    decode_frame s (alu_absolute_x s).1 ∧
    ((alu_absolute_x s).2 = 1 → (alu_absolute_x s).1.bus.length ≤ s.bus.length + 1) := by
  simp only [alu_absolute_x]
  split_ifs <;> simp [decode_frame]

theorem alu_absolute_y_frame (s : State) :
    decode_frame s (alu_absolute_y s).1 ∧
    ((alu_absolute_y s).2 = 1 → (alu_absolute_y s).1.bus.length ≤ s.bus.length + 1) := by
  simp only [alu_absolute_y]
  split_ifs <;> simp [decode_frame]

theorem alu_indirect_x_frame (s : State) :
    decode_frame s (alu_indirect_x s).1 ∧
    ((alu_indirect_x s).2 = 1 → (alu_indirect_x s).1.bus.length ≤ s.bus.length + 1) := by
  simp only [alu_indirect_x]
  split_ifs <;> simp [decode_frame]

theorem alu_indirect_y_frame (s : State) :
    decode_frame s (alu_indirect_y s).1 ∧
    ((alu_indirect_y s).2 = 1 → (alu_indirect_y s).1.bus.length ≤ s.bus.length + 1) := by
  simp only [alu_indirect_y]
  split_ifs <;> simp [decode_frame]

theorem alu_addressing_frame (s : State) :
    decode_frame s (alu_addressing s).1 ∧
    ((alu_addressing s).2 = 1 → (alu_addressing s).1.bus.length ≤ s.bus.length + 1) := by
  simp only [alu_addressing]
  split_ifs
  · exact alu_immediate_frame s
  · exact alu_zero_page_frame s
  · exact alu_zero_page_x_frame s
  · exact alu_absolute_frame s
  · exact alu_absolute_x_frame s
  · exact alu_absolute_y_frame s
  · exact alu_indirect_x_frame s
  · exact alu_indirect_y_frame s
  · simp [decode_frame]

theorem alu_operation_frame (t : State) :
    (alu_operation t).cycle_number = t.cycle_number ∧
    (alu_operation t).p6502_single_step = t.p6502_single_step ∧
    (alu_operation t).mapper_cpur = t.mapper_cpur ∧ (alu_operation t).mapper_cpuw = t.mapper_cpuw ∧
    (alu_operation t).mapper_ppur = t.mapper_ppur ∧ (alu_operation t).mapper_ppuw = t.mapper_ppuw ∧
    (alu_operation t).mapper0_prg_rom = t.mapper0_prg_rom ∧
    (alu_operation t).mapper0_prg_rom_mask = t.mapper0_prg_rom_mask ∧
    t.bus <+: (alu_operation t).bus ∧ (alu_operation t).bus.length ≤ t.bus.length + 1 := by
  simp only [alu_operation]
  split_ifs <;> simp

theorem decode_alu_frame (s : State) : decode_frame s (decode_alu s) := by
  have ha := alu_addressing_frame s
  have ho := alu_operation_frame (alu_addressing s).1
  simp only [decode_alu]
  split_ifs with h
  · obtain ⟨⟨a1, a2, a3, a4, a5, a6, a7, a8, a9, _⟩, a11⟩ := ha
    obtain ⟨o1, o2, o3, o4, o5, o6, o7, o8, o9, o10⟩ := ho
    have hl := a11 h
    refine ⟨?_, ?_, ?_, ?_, ?_, ?_, ?_, ?_, ?_, ?_⟩
    · simp [o1, a1]
    · simp [o2, a2]
    · simp [o3, a3]
    · simp [o4, a4]
    · simp [o5, a5]
    · simp [o6, a6]
    · simp [o7, a7]
    · simp [o8, a8]
    · simpa using a9.trans o9
    · simp only [set_index_bus]
      omega
  · exact ha.1

theorem decode_opcode_frame (s : State) : decode_frame s (decode_opcode s) := by
  simp only [decode_opcode]
  split_ifs
  · exact decode_alu_frame s
  · exact decode_other_frame s

/-! ## The tick entry point and the control surface (C22, C23, C28) -/

theorem run_cycle_fst (s : State) : (p6502_run_cycle s).1 = (p6502_run_cycle s).2.hang := by
  simp only [p6502_run_cycle]

/-- A halted machine: the call changes nothing and returns 1. -/
theorem run_cycle_halted (s : State) (hh : s.hang = 1) : p6502_run_cycle s = (1, s) := by
  cases s
  simp only at hh
  subst hh
  simp [p6502_run_cycle]

/-- A running machine: one fetch or one decode step after the counter is
advanced, then the single-step test. -/
theorem run_cycle_running (s : State) (hh : s.hang = 0) :
    (p6502_run_cycle s).2 = single_step_halt
      (if s.cur_instr_index = 0 then fetch_opcode (tick s) else decode_opcode (tick s)) := by
  by_cases hi : s.cur_instr_index = 0
  · rw [run_cycle_fetch s hh hi, if_pos hi]
    simp [single_step_halt, hi]
  · rw [run_cycle_decode s hh hi, if_neg hi]

/-- What one call of `p6502_run_cycle` leaves alone, whatever the state. -/
theorem run_cycle_frame (s : State) :
    (p6502_run_cycle s).2.cycle_number =
      (if s.hang = 0 then (s.cycle_number + 1) % 0x100000000 else s.cycle_number) ∧
    (p6502_run_cycle s).2.p6502_single_step = s.p6502_single_step ∧
    s.bus <+: (p6502_run_cycle s).2.bus ∧
    (p6502_run_cycle s).2.bus.length ≤ s.bus.length + 2 := by
  by_cases hh : s.hang = 0
  · by_cases hi : s.cur_instr_index = 0
    · rw [run_cycle_fetch s hh hi]
      simp [hh]
    · rw [run_cycle_decode s hh hi]
      obtain ⟨f1, f2, _, _, _, _, _, _, f9, f10⟩ := decode_opcode_frame (tick s)
      simp only [tick_bus, tick_cycle_number, tick_p6502_single_step] at f1 f2 f9 f10
      simp [hh, f1, f2, f9, f10]
  · have e : (p6502_run_cycle s).2 =
        (if s.cur_instr_index = 0 ∧ s.p6502_single_step = 1 then { s with hang := 1 } else s) := by
      simp [p6502_run_cycle, hh]
    rw [e]
    split_ifs <;> simp [hh]

/-- C22: if halt = 1 on entry, `p6502_run_cycle` issues no bus access, changes no
variable and returns 1.  If halt = 0 on entry it performs exactly one cycle: the
cycle counter advances by 1 (a `uint32_t`), an opcode is fetched when the
micro-step index is 0 and one decode step runs otherwise, and the post-cycle
halt flag is returned. -/
theorem run_cycle_tick :
    (∀ s : State, s.hang = 1 → p6502_run_cycle s = (1, s)) ∧
    (∀ s : State, s.hang = 0 →
      (p6502_run_cycle s).2 = single_step_halt
        (if s.cur_instr_index = 0 then fetch_opcode (tick s) else decode_opcode (tick s)) ∧
      (tick s).cycle_number = (s.cycle_number + 1) % 0x100000000 ∧
      (p6502_run_cycle s).2.cycle_number = (s.cycle_number + 1) % 0x100000000 ∧
      (p6502_run_cycle s).1 = (p6502_run_cycle s).2.hang) :=
  ⟨run_cycle_halted, fun s hh =>
    ⟨run_cycle_running s hh, by simp, by rw [(run_cycle_frame s).1, if_pos hh],
      run_cycle_fst s⟩⟩

/-- Witness for C22: the machine before power-on (`hang` = 1) is left alone;
`sbc_state` (`hang` = 0, index 0) fetches the opcode `$E9` and returns 0. -/
theorem run_cycle_tick_witness :
    (sample_state.hang = 1 ∧ p6502_run_cycle sample_state = (1, sample_state)) ∧
    (sbc_state.hang = 0 ∧ (p6502_run_cycle sbc_state).1 = (p6502_run_cycle sbc_state).2.hang ∧
      (p6502_run_cycle sbc_state).1 = 0 ∧ (p6502_run_cycle sbc_state).2.cur_instr 0 = 0xE9 ∧
      (p6502_run_cycle sbc_state).2.cycle_number = 1) :=
  ⟨⟨by decide, run_cycle_tick.1 sample_state (by decide)⟩,
    ⟨by decide, (run_cycle_tick.2 sbc_state (by decide)).2.2.2, by decide, by decide, by decide⟩⟩
theorem run_cycles_add (m n : Nat) (s : State) :
    run_cycles (m + n) s = run_cycles n (run_cycles m s) := by
  induction m generalizing s with
  | zero => simp
  | succ k ih =>
    rw [Nat.succ_add, run_cycles_succ, ih, run_cycles_succ]

theorem run_cycles_single_step (n : Nat) (s : State) :
    (run_cycles n s).p6502_single_step = s.p6502_single_step := by
  induction n generalizing s with
  | zero => rfl
  | succ k ih => rw [run_cycles_succ, ih, (run_cycle_frame s).2.1]

/-- A machine that is halted inside an instruction stays as it is. -/
theorem run_cycle_stuck (s : State) (hh : s.hang ≠ 0) (hi : s.cur_instr_index ≠ 0) :
    (p6502_run_cycle s).2 = s := by
  simp [p6502_run_cycle, hh, hi]

theorem run_cycles_stuck (n : Nat) (s : State) (hh : s.hang ≠ 0) (hi : s.cur_instr_index ≠ 0) :
    run_cycles n s = s := by
  induction n with
  | zero => rfl
  | succ k ih => rw [run_cycles_succ, run_cycle_stuck s hh hi, ih]

/-- A halted machine stays as it is. -/
theorem run_cycles_halted (n : Nat) (s : State) (hh : s.hang = 1) : run_cycles n s = s := by
  induction n with
  | zero => rfl
  | succ k ih => rw [run_cycles_succ, run_cycle_halted s hh, ih]

/-- The single-step test at the end of `p6502_run_cycle`: a call that ends at an
instruction boundary with single-step set ends halted. -/
theorem run_cycle_single_step_halt (s : State) (hi : (p6502_run_cycle s).2.cur_instr_index = 0)
    (hs : (p6502_run_cycle s).2.p6502_single_step = 1) : (p6502_run_cycle s).2.hang = 1 := by
  simp only [p6502_run_cycle] at hi hs ⊢
  split_ifs at hi hs ⊢ with h1 h2 h3 h4
  all_goals first
    | rfl
    | (exfalso; simp_all)

/-- While an instruction started from a running state is in flight, the machine
is running: a halt inside the instruction would freeze the index away from 0. -/
theorem running_until_retired (s : State) (n : Nat) (hh : s.hang = 0)
    (hr : retires_after s n) (k : Nat) (hk : k < n) : (run_cycles k s).hang = 0 := by
  by_cases hk0 : k = 0
  · subst hk0
    exact hh
  · by_contra hne
    have hi := hr.2.2 k hk (by omega)
    have e : run_cycles n s = run_cycles k s := by
      have : n = k + (n - k) := by omega
      rw [this, run_cycles_add, run_cycles_stuck _ _ hne hi]
    exact hi (by rw [← e]; exact hr.2.1)

theorem reachable_run_cycles (n : Nat) (s : State) (h : Reachable s) :
    Reachable (run_cycles n s) := by
  induction n generalizing s with
  | zero => exact h
  | succ k ih =>
    rw [run_cycles_succ]
    exact ih _ (Reachable.run_cycle h)
/-! ## Unimplemented opcodes (C21, C29) -/

set_option maxRecDepth 4000 in
/-- An opcode byte outside the ALU group that is not a `case` label reaches the
`default:` label. -/
theorem decode_opcode_default (s : State) (h3 : ¬ s.cur_instr 0 &&& 0x3 = 0x1)
    (hn : s.cur_instr 0 ∉ one_off_opcodes) : decode_opcode s = op_default s := by
  simp only [one_off_opcodes, List.mem_cons, List.mem_singleton, List.not_mem_nil, or_false,
    not_or] at hn
  simp [decode_opcode, decode_other, h3, hn]
/-- The decode step on an unimplemented opcode, from any running state inside an
instruction: only `hang` and the cycle counter change, and 1 is returned. -/
theorem invalid_decode (t : State) (hh : t.hang = 0) (hs : stuck_on_invalid t) :
    p6502_run_cycle t = (1, { tick t with hang := 1 }) := by
  obtain ⟨hi, h3, hn⟩ := hs
  have e2 : (p6502_run_cycle t).2 = { tick t with hang := 1 } := by
    rw [run_cycle_decode t hh hi, decode_opcode_default (tick t) (by simpa using h3)
      (by simpa using hn)]
    simp [single_step_halt, op_default, hi]
  have e1 : (p6502_run_cycle t).1 = 1 := by
    rw [run_cycle_fst, e2]
  exact Prod.ext e1 e2

/-- C21, on every opcode byte but `$89`: for every opcode byte that is not one of
the documented instructions the spec lists (the ALU group but `$89`, and the
non-ALU list), other than `$89`, the decode cycle following its fetch sets
halt = 1, returns 1 and changes nothing else but the cycle counter: A, X, Y, S,
P, PC, internal RAM and the micro-step index are unchanged and no bus access is
issued.  Opcode `$89` is the input on which the program departs from this. -/
theorem invalid_opcode_halts (s : State) (op : Nat) (hidx : s.cur_instr_index = 0)
    (hh : s.hang = 0) (h0 : rd s s.pc = op) (hl1 : ¬ (op &&& 0x3 = 0x1 ∧ op ≠ 0x89))
    (hl2 : op ∉ spec_one_off_opcodes) (h89 : op ≠ 0x89) :
    p6502_run_cycle (p6502_run_cycle s).2 =
      (1, { tick (p6502_run_cycle s).2 with hang := 1 }) ∧
    (p6502_run_cycle s).2.cur_instr 0 = op ∧
    (p6502_run_cycle (p6502_run_cycle s).2).2.hang = 1 ∧
    (p6502_run_cycle (p6502_run_cycle s).2).2.reg_a = (p6502_run_cycle s).2.reg_a ∧
    (p6502_run_cycle (p6502_run_cycle s).2).2.reg_x = (p6502_run_cycle s).2.reg_x ∧
    (p6502_run_cycle (p6502_run_cycle s).2).2.reg_y = (p6502_run_cycle s).2.reg_y ∧
    (p6502_run_cycle (p6502_run_cycle s).2).2.reg_s = (p6502_run_cycle s).2.reg_s ∧
    (p6502_run_cycle (p6502_run_cycle s).2).2.reg_p = (p6502_run_cycle s).2.reg_p ∧
    (p6502_run_cycle (p6502_run_cycle s).2).2.pc = (p6502_run_cycle s).2.pc ∧
    (p6502_run_cycle (p6502_run_cycle s).2).2.internal_ram =
      (p6502_run_cycle s).2.internal_ram ∧
    (p6502_run_cycle (p6502_run_cycle s).2).2.cur_instr_index =
      (p6502_run_cycle s).2.cur_instr_index ∧
    (p6502_run_cycle (p6502_run_cycle s).2).2.bus = (p6502_run_cycle s).2.bus := by
  have h3 : ¬ (op &&& 0x3 = 0x1) := fun h => hl1 ⟨h, h89⟩
  have hn : op ∉ one_off_opcodes := fun h => hl2 (List.mem_cons_of_mem _ h)
  rw [rd_val] at h0
  have hop : op % 256 = op := by rw [← h0]; simp
  have hc : (p6502_run_cycle s).2.cur_instr 0 = op := by
    simp [run_cycle_fetch, read_memory_val, hidx, hh, h0, hop]
  have hst : stuck_on_invalid (p6502_run_cycle s).2 := by
    refine ⟨?_, by rw [hc]; exact h3, by rw [hc]; exact hn⟩
    simp [run_cycle_fetch, hidx, hh]
  have hh1 : (p6502_run_cycle s).2.hang = 0 := by
    simp [run_cycle_fetch, hidx, hh]
  have e := invalid_decode _ hh1 hst
  refine ⟨e, hc, ?_, ?_, ?_, ?_, ?_, ?_, ?_, ?_, ?_, ?_⟩ <;> rw [e] <;> simp
/-- Witness for C21: opcode `$02` at RAM `$0000`. -/
theorem invalid_opcode_halts_witness :
    ((alu_state 0x02).cur_instr_index = 0 ∧ (alu_state 0x02).hang = 0 ∧
      rd (alu_state 0x02) (alu_state 0x02).pc = 0x02 ∧ ¬ (0x02 &&& 0x3 = 0x1 ∧ 0x02 ≠ 0x89) ∧
      0x02 ∉ spec_one_off_opcodes ∧ 0x02 ≠ 0x89) ∧
    (p6502_run_cycle (p6502_run_cycle (alu_state 0x02)).2).2.hang = 1 ∧
    (p6502_run_cycle (p6502_run_cycle (alu_state 0x02)).2).2.bus =
      (p6502_run_cycle (alu_state 0x02)).2.bus :=
  ⟨⟨by decide, by decide, by decide, by decide, by decide, by decide⟩,
    (invalid_opcode_halts (alu_state 0x02) 0x02 (by decide) (by decide) (by decide) (by decide)
      (by decide) (by decide)).2.2.1,
    (invalid_opcode_halts (alu_state 0x02) 0x02 (by decide) (by decide) (by decide) (by decide)
      (by decide) (by decide)).2.2.2.2.2.2.2.2.2.2.2⟩

/-- C21 (failing input): opcode `$89` (`alu_state`: operand byte `$FF`,
A = `$42`, latch byte 2 zero): the decode cycle following its fetch does not
halt; it fetches the operand, writes A to `$00FF`, advances PC and retires. -/
theorem opcode_89_runs :
    rd (alu_state 0x89) (alu_state 0x89).pc = 0x89 ∧
    (p6502_run_cycle (p6502_run_cycle (alu_state 0x89)).2).1 = 0 ∧
    (p6502_run_cycle (p6502_run_cycle (alu_state 0x89)).2).2.hang = 0 ∧
    (p6502_run_cycle (alu_state 0x89)).2.pc = 1 ∧
    (p6502_run_cycle (p6502_run_cycle (alu_state 0x89)).2).2.pc = 2 ∧
    (p6502_run_cycle (alu_state 0x89)).2.internal_ram 0xFF = 0 ∧
    (p6502_run_cycle (p6502_run_cycle (alu_state 0x89)).2).2.internal_ram 0xFF = 0x42 ∧
    (p6502_run_cycle (p6502_run_cycle (alu_state 0x89)).2).2.cur_instr_index = 0 ∧
    (p6502_run_cycle (p6502_run_cycle (alu_state 0x89)).2).2.bus =
      [Access.read 0, Access.read 1, Access.write 0xFF 0x42] := by
  decide

theorem retry_append (l : List Bool) (b : Bool) (s : State) :
    retry (l ++ [b]) s =
      (p6502_run_cycle (if b then p6502_step (retry l s) else p6502_resume (retry l s))).2 := by
  induction l generalizing s with
  | nil => rfl
  | cons a l ih => exact ih _

/-- One attempt to go on from a machine stuck on an unimplemented opcode: 1 is
returned and only the control flags and the cycle counter may differ. -/
theorem retry_once (s : State) (hs : stuck_on_invalid s) (b : Bool) :
    (p6502_run_cycle (if b then p6502_step s else p6502_resume s)).1 = 1 ∧
    stuck_on_invalid (p6502_run_cycle (if b then p6502_step s else p6502_resume s)).2 ∧
    (p6502_run_cycle (if b then p6502_step s else p6502_resume s)).2.hang = 1 ∧
    (p6502_run_cycle (if b then p6502_step s else p6502_resume s)).2.reg_a = s.reg_a ∧
    (p6502_run_cycle (if b then p6502_step s else p6502_resume s)).2.reg_x = s.reg_x ∧
    (p6502_run_cycle (if b then p6502_step s else p6502_resume s)).2.reg_y = s.reg_y ∧
    (p6502_run_cycle (if b then p6502_step s else p6502_resume s)).2.reg_s = s.reg_s ∧
    (p6502_run_cycle (if b then p6502_step s else p6502_resume s)).2.reg_p = s.reg_p ∧
    (p6502_run_cycle (if b then p6502_step s else p6502_resume s)).2.pc = s.pc ∧
    (p6502_run_cycle (if b then p6502_step s else p6502_resume s)).2.internal_ram =
      s.internal_ram ∧
    (p6502_run_cycle (if b then p6502_step s else p6502_resume s)).2.bus = s.bus := by
  cases b
  · have e := invalid_decode (p6502_resume s) rfl hs
    simp only [Bool.false_eq_true, if_false]
    rw [e]
    exact ⟨rfl, hs, rfl, rfl, rfl, rfl, rfl, rfl, rfl, rfl, rfl⟩
  · have e := invalid_decode (p6502_step s) rfl hs
    simp only [if_true]
    rw [e]
    exact ⟨rfl, hs, rfl, rfl, rfl, rfl, rfl, rfl, rfl, rfl, rfl⟩

/-- C29: once the decode of an unimplemented opcode has set halt = 1 (state `t`),
then after any sequence `l` of repetitions of `p6502_step()` or `p6502_resume()`
followed by `p6502_run_cycle()`, one more such repetition returns 1 again, and
A, X, Y, S, P, PC and RAM (and the bus log) are those of `t`: no progress.
`p6502_power_on()` resets the micro-step index to 0 and clears halt. -/
theorem invalid_halt_persists (u : State) (hh : u.hang = 0) (hs : stuck_on_invalid u)
    (l : List Bool) (b : Bool) :
    (p6502_run_cycle u).1 = 1 ∧ (p6502_run_cycle u).2.hang = 1 ∧
    (p6502_run_cycle (if b then p6502_step (retry l (p6502_run_cycle u).2)
      else p6502_resume (retry l (p6502_run_cycle u).2))).1 = 1 ∧
    (retry l (p6502_run_cycle u).2).reg_a = (p6502_run_cycle u).2.reg_a ∧
    (retry l (p6502_run_cycle u).2).reg_x = (p6502_run_cycle u).2.reg_x ∧
    (retry l (p6502_run_cycle u).2).reg_y = (p6502_run_cycle u).2.reg_y ∧
    (retry l (p6502_run_cycle u).2).reg_s = (p6502_run_cycle u).2.reg_s ∧
    (retry l (p6502_run_cycle u).2).reg_p = (p6502_run_cycle u).2.reg_p ∧
    (retry l (p6502_run_cycle u).2).pc = (p6502_run_cycle u).2.pc ∧
    (retry l (p6502_run_cycle u).2).internal_ram = (p6502_run_cycle u).2.internal_ram ∧
    (retry l (p6502_run_cycle u).2).bus = (p6502_run_cycle u).2.bus ∧
    (retry l (p6502_run_cycle u).2).hang = 1 ∧
    (p6502_power_on (retry l (p6502_run_cycle u).2)).cur_instr_index = 0 ∧
    (p6502_power_on (retry l (p6502_run_cycle u).2)).hang = 0 := by
  have e := invalid_decode u hh hs
  have hst : stuck_on_invalid (p6502_run_cycle u).2 := by
    rw [e]
    exact hs
  have h1 : (p6502_run_cycle u).2.hang = 1 := by rw [e]
  have key : ∀ l : List Bool, stuck_on_invalid (retry l (p6502_run_cycle u).2) ∧
      (retry l (p6502_run_cycle u).2).hang = 1 ∧
      (retry l (p6502_run_cycle u).2).reg_a = (p6502_run_cycle u).2.reg_a ∧
      (retry l (p6502_run_cycle u).2).reg_x = (p6502_run_cycle u).2.reg_x ∧
      (retry l (p6502_run_cycle u).2).reg_y = (p6502_run_cycle u).2.reg_y ∧
      (retry l (p6502_run_cycle u).2).reg_s = (p6502_run_cycle u).2.reg_s ∧
      (retry l (p6502_run_cycle u).2).reg_p = (p6502_run_cycle u).2.reg_p ∧
      (retry l (p6502_run_cycle u).2).pc = (p6502_run_cycle u).2.pc ∧
      (retry l (p6502_run_cycle u).2).internal_ram = (p6502_run_cycle u).2.internal_ram ∧
      (retry l (p6502_run_cycle u).2).bus = (p6502_run_cycle u).2.bus := by
    intro l
    induction l using List.reverseRecOn with
    | nil => exact ⟨hst, h1, rfl, rfl, rfl, rfl, rfl, rfl, rfl, rfl⟩
    | append_singleton l b ih =>
      obtain ⟨i0, _, i1, i2, i3, i4, i5, i6, i7, i8⟩ := ih
      obtain ⟨_, r0, r1, r2, r3, r4, r5, r6, r7, r8, r9⟩ := retry_once _ i0 b
      rw [retry_append]
      exact ⟨r0, r1, r2.trans i1, r3.trans i2, r4.trans i3, r5.trans i4, r6.trans i5,
        r7.trans i6, r8.trans i7, r9.trans i8⟩
  obtain ⟨k0, k1, k2, k3, k4, k5, k6, k7, k8, k9⟩ := key l
  exact ⟨by rw [e], h1, (retry_once _ k0 b).1, k2, k3, k4, k5, k6, k7, k8, k9, k1, rfl, rfl⟩

/-- Witness for C29: opcode `$02` at RAM `$0000` (`alu_state`), fetched and
decoded; then `p6502_step()`, `p6502_resume()` and `p6502_step()` are tried. -/
theorem invalid_halt_persists_witness :
    ((p6502_run_cycle (alu_state 0x02)).2.hang = 0 ∧
      stuck_on_invalid (p6502_run_cycle (alu_state 0x02)).2) ∧
    (p6502_run_cycle (p6502_step (retry [true, false]
      (p6502_run_cycle (p6502_run_cycle (alu_state 0x02)).2).2))).1 = 1 ∧
    (retry [true, false] (p6502_run_cycle (p6502_run_cycle (alu_state 0x02)).2).2).pc = 1 :=
  have hs : stuck_on_invalid (p6502_run_cycle (alu_state 0x02)).2 :=
    ⟨by decide, by decide, by decide⟩
  ⟨⟨by decide, hs⟩,
    (invalid_halt_persists (p6502_run_cycle (alu_state 0x02)).2 (by decide) hs [true, false]
      true).2.2.1,
    by decide⟩

/-! ## The cartridge loader (C24, C25, C26, C27) -/

theorem read_byte_lt (fp : Nat → Nat) (o : Nat) : read_byte fp o < 256 :=
  Nat.mod_lt _ (by norm_num)

theorem prg_loop_get (fp : Nat → Nat) (off : Nat) (n : Nat) (area : Nat → Nat) (i : Nat)
    (hi : i < n) :
    prg_loop fp off n area (256 + i) =
      (read_byte fp (off + 2 * i) ||| (read_byte fp (off + 1 + 2 * i) <<< 8)) % 65536 := by
  induction n with
  | zero => omega
  | succ m ih =>
    simp only [prg_loop, store16]
    by_cases h : i = m
    · subst h
      simp
    · have : ¬ (256 + i = 256 + m) := by omega
      rw [if_neg this]
      exact ih (by omega)

theorem prg_loop_low (fp : Nat → Nat) (off : Nat) (n : Nat) (area : Nat → Nat) (j : Nat)
    (hj : j < 256) : prg_loop fp off n area j = area j := by
  induction n with
  | zero => rfl
  | succ m ih =>
    simp only [prg_loop, store16]
    have : ¬ (j = 256 + m) := by omega
    rw [if_neg this]
    exact ih

theorem trainer_loop_get (fp : Nat → Nat) (n : Nat) (area : Nat → Nat) (i : Nat) (hi : i < n) :
    trainer_loop fp n area i =
      ((read_byte fp (16 + 2 * i) <<< 8) ||| read_byte fp (17 + 2 * i)) % 65536 := by
  induction n with
  | zero => omega
  | succ m ih =>
    simp only [trainer_loop, store16]
    by_cases h : i = m
    · subst h
      simp
    · rw [if_neg h]
      exact ih (by omega)

/-- The staged PRG bytes: byte `k` behind the PRG pointer is the file byte at
`offset + k`. -/
theorem prg_bytes_staged (fp : Nat → Nat) (off n : Nat) (area : Nat → Nat) (k : Nat)
    (hk : k < 2 * n) : prg_bytes (prg_loop fp off n area) k = read_byte fp (off + k) := by
  have hlo := read_byte_lt fp (off + 2 * (k / 2))
  have hhi := read_byte_lt fp (off + 1 + 2 * (k / 2))
  have hw := word_eq _ (read_byte fp (off + 1 + 2 * (k / 2))) hlo
  simp only [prg_bytes]
  rw [prg_loop_get fp off n area (k / 2) (by omega), hw]
  split_ifs with h
  · have e : off + 2 * (k / 2) = off + k := by omega
    rw [e] at hlo ⊢
    omega
  · have e : off + 1 + 2 * (k / 2) = off + k := by omega
    rw [e] at hhi ⊢
    omega
theorem mapper_number_lt (fp : Nat → Nat) :
    (read_byte fp 7 &&& 0xF0) ||| (read_byte fp 6 >>> 4) < 256 := by
  have h7 := read_byte_lt fp 7
  have h6 := read_byte_lt fp 6
  have a : read_byte fp 7 &&& 0xF0 < 2 ^ 8 := Nat.lt_of_le_of_lt Nat.and_le_left h7
  have b : read_byte fp 6 >>> 4 < 2 ^ 8 := by
    rw [Nat.shiftRight_eq_div_pow]
    exact Nat.lt_of_le_of_lt (Nat.div_le_self _ _) h6
  exact Nat.or_lt_two_pow a b

/-- The board `process_ines` builds for mapper 0. -/
theorem process_ines_mapper0 (fp : Nat → Nat) (b : Board)
    (hm : (read_byte fp 7 &&& 0xF0) ||| (read_byte fp 6 >>> 4) = 0) :
    process_ines fp b =
      { smc_cs0_area16 :=
          prg_loop fp (if read_byte fp 6 &&& 4 ≠ 0 then 518 else 16) (read_byte fp 4 * 0x2000)
            (if read_byte fp 6 &&& 4 ≠ 0 then trainer_loop fp 256 b.smc_cs0_area16
             else b.smc_cs0_area16)
        cpu :=
          mapper0_set_pgr_rom
            (set_mapper_cpu b.cpu (some mem_read_callback.mapper0_read)
              (some mem_write_callback.mapper0_write))
            (prg_bytes
              (prg_loop fp (if read_byte fp 6 &&& 4 ≠ 0 then 518 else 16)
                (read_byte fp 4 * 0x2000)
                (if read_byte fp 6 &&& 4 ≠ 0 then trainer_loop fp 256 b.smc_cs0_area16
                 else b.smc_cs0_area16)))
            (read_byte fp 4 * 0x4000) } := by
  simp only [process_ines, hm]
  by_cases h : read_byte fp 6 &&& 4 = 0 <;> simp [h]

theorem process_ines_other (fp : Nat → Nat) (b : Board)
    (hm : ¬ (read_byte fp 7 &&& 0xF0) ||| (read_byte fp 6 >>> 4) = 0) :
    process_ines fp b = b := by
  have := mapper_number_lt fp
  simp only [process_ines]
  rw [Nat.mod_eq_of_lt this, if_neg hm]

theorem load_accepted (fp : Nat → Nat) (b : Board) (h : ines_accepted fp) :
    load_cartridge_image fp b = process_ines fp b := by
  obtain ⟨h0, h1, h2, h3, h7, h12, h13, h14, h15, _⟩ := h
  simp [load_cartridge_image, h0, h1, h2, h3, h7, h12, h13, h14, h15]

theorem load_rejected (fp : Nat → Nat) (b : Board) (h : ¬ ines_accepted fp) :
    load_cartridge_image fp b = b := by
  simp only [load_cartridge_image, process_nes2, process_old_ines]
  split_ifs with hmagic h8 hfmt
  · rfl
  · by_cases hm : (read_byte fp 7 &&& 0xF0) ||| (read_byte fp 6 >>> 4) = 0
    · exact absurd ⟨hmagic.1, hmagic.2.1, hmagic.2.2.1, hmagic.2.2.2, hfmt.1, hfmt.2.1,
        hfmt.2.2.1, hfmt.2.2.2.1, hfmt.2.2.2.2, hm⟩ h
    · exact process_ines_other fp b hm
  · rfl
  · rfl

/-- The PRG backing after an accepted load: byte `k` is the file byte at the PRG
offset of the code plus `k`. -/
theorem load_prg_byte (fp : Nat → Nat) (b : Board) (h : ines_accepted fp) (k : Nat)
    (hk : k < read_byte fp 4 * 0x4000) :
    (load_cartridge_image fp b).cpu.mapper0_prg_rom k =
      read_byte fp ((if read_byte fp 6 &&& 4 ≠ 0 then 518 else 16) + k) := by
  rw [load_accepted fp b h, process_ines_mapper0 fp b h.2.2.2.2.2.2.2.2.2]
  simp only [mapper0_set_pgr_rom]
  exact prg_bytes_staged fp _ _ _ k (by omega)

theorem load_prg_mask (fp : Nat → Nat) (b : Board) (h : ines_accepted fp) :
    (load_cartridge_image fp b).cpu.mapper0_prg_rom_mask =
      (read_byte fp 4 * 0x4000 + 0x100000000 - 1) % 0x100000000 := by
  have := read_byte_lt fp 4
  rw [load_accepted fp b h, process_ines_mapper0 fp b h.2.2.2.2.2.2.2.2.2]
  simp only [mapper0_set_pgr_rom]
  have e : read_byte fp 4 * 0x4000 % 0x100000000 = read_byte fp 4 * 0x4000 :=
    Nat.mod_eq_of_lt (by omega)
  rw [e]

theorem load_handles (fp : Nat → Nat) (b : Board) (h : ines_accepted fp) :
    (load_cartridge_image fp b).cpu.mapper_cpur = some mem_read_callback.mapper0_read ∧
    (load_cartridge_image fp b).cpu.mapper_cpuw = some mem_write_callback.mapper0_write ∧
    (load_cartridge_image fp b).cpu.mapper_ppur = b.cpu.mapper_ppur ∧
    (load_cartridge_image fp b).cpu.mapper_ppuw = b.cpu.mapper_ppuw := by
  rw [load_accepted fp b h, process_ines_mapper0 fp b h.2.2.2.2.2.2.2.2.2]
  simp [mapper0_set_pgr_rom, set_mapper_cpu]

/-- C24. Loader acceptance: when bytes 0..3 are `N E S $1A`, `byte7 & $0C` is 0,
bytes 12..15 are zero and the mapper number `(byte7 & $F0) | (byte6 >> 4)` is 0,
`load_cartridge_image` installs the mapper-0 read and write handles, the PRG
base (the bytes behind word 256 of the staging window) and the mask
`size - 1` for `size = byte4 * 16384`; for every other byte stream the call
changes nothing: the board after the call is the board before it, so the CPU and
PPU mapper handles and the base and mask of mapper 0 are as before. -/
theorem loader_acceptance (fp : Nat → Nat) (b : Board) :
    (ines_accepted fp →
      (load_cartridge_image fp b).cpu.mapper_cpur = some mem_read_callback.mapper0_read ∧
      (load_cartridge_image fp b).cpu.mapper_cpuw = some mem_write_callback.mapper0_write ∧
      (load_cartridge_image fp b).cpu.mapper0_prg_rom =
        prg_bytes (load_cartridge_image fp b).smc_cs0_area16 ∧
      (load_cartridge_image fp b).cpu.mapper0_prg_rom_mask =
        (read_byte fp 4 * 0x4000 + 0x100000000 - 1) % 0x100000000 ∧
      (∀ k, k < read_byte fp 4 * 0x4000 →
        (load_cartridge_image fp b).cpu.mapper0_prg_rom k =
          read_byte fp ((if read_byte fp 6 &&& 4 ≠ 0 then 518 else 16) + k))) ∧
    (¬ ines_accepted fp →
      load_cartridge_image fp b = b ∧
      (load_cartridge_image fp b).cpu.mapper_cpur = b.cpu.mapper_cpur ∧
      (load_cartridge_image fp b).cpu.mapper_cpuw = b.cpu.mapper_cpuw ∧
      (load_cartridge_image fp b).cpu.mapper_ppur = b.cpu.mapper_ppur ∧
      (load_cartridge_image fp b).cpu.mapper_ppuw = b.cpu.mapper_ppuw ∧
      (load_cartridge_image fp b).cpu.mapper0_prg_rom = b.cpu.mapper0_prg_rom ∧
      (load_cartridge_image fp b).cpu.mapper0_prg_rom_mask = b.cpu.mapper0_prg_rom_mask) := by
  refine ⟨fun h => ⟨(load_handles fp b h).1, (load_handles fp b h).2.1, ?_,
    load_prg_mask fp b h, fun k hk => load_prg_byte fp b h k hk⟩, fun h => ?_⟩
  · rw [load_accepted fp b h, process_ines_mapper0 fp b h.2.2.2.2.2.2.2.2.2]
    rfl
  · rw [load_rejected fp b h]
    exact ⟨rfl, rfl, rfl, rfl, rfl, rfl, rfl⟩

/-- Witness of C24: mapper 0 image with one PRG bank is installed on the blank
board; the same header with mapper nibble 1 in byte 6 is rejected. -/
theorem loader_acceptance_witness :
    (ines_accepted (ines_image 1 0) ∧
      (load_cartridge_image (ines_image 1 0) blank_board).cpu.mapper_cpur =
        some mem_read_callback.mapper0_read ∧
      (load_cartridge_image (ines_image 1 0) blank_board).cpu.mapper0_prg_rom_mask = 0x3FFF ∧
      (load_cartridge_image (ines_image 1 0) blank_board).cpu.mapper0_prg_rom 0 = 0xA9) ∧
    (¬ ines_accepted (ines_image 1 0x10) ∧
      load_cartridge_image (ines_image 1 0x10) blank_board = blank_board) :=
  have ha : ines_accepted (ines_image 1 0) := by decide
  have hr : ¬ ines_accepted (ines_image 1 0x10) := by decide
  ⟨⟨ha, ((loader_acceptance (ines_image 1 0) blank_board).1 ha).1,
    ((loader_acceptance (ines_image 1 0) blank_board).1 ha).2.2.2.1,
    ((loader_acceptance (ines_image 1 0) blank_board).1 ha).2.2.2.2 0 (by decide)⟩,
   hr, ((loader_acceptance (ines_image 1 0x10) blank_board).2 hr).1⟩

theorem mask_and_lt (a m : Nat) (hm : 0 < m) : a &&& (m - 1) < m :=
  Nat.lt_of_le_of_lt Nat.and_le_right (by omega)

/-- C25. PRG staging: for an accepted image without a trainer and with PRG size
`n` (byte 4) equal to 1 or 2, after the load PRG backing byte `k` is file byte
`16 + k` for every `k < n * 16384`; the mapper-0 handles are installed, the mask
is `n * 16384 - 1`, and a read through `mapper0_read` returns the file byte at
`16 + (addr & mask)`.  The staged bytes do not depend on the board the image is
loaded on, so loading the same image twice gives identical PRG backing. -/
theorem prg_staging (fp : Nat → Nat) (b : Board) (h : ines_accepted fp)
    (ht : read_byte fp 6 &&& 0x04 = 0) (hn : read_byte fp 4 = 1 ∨ read_byte fp 4 = 2) :
    (∀ k, k < read_byte fp 4 * 16384 →
      (load_cartridge_image fp b).cpu.mapper0_prg_rom k = fp (16 + k) % 256) ∧
    (load_cartridge_image fp b).cpu.mapper_cpur = some mem_read_callback.mapper0_read ∧
    (load_cartridge_image fp b).cpu.mapper_cpuw = some mem_write_callback.mapper0_write ∧
    (load_cartridge_image fp b).cpu.mapper0_prg_rom_mask = read_byte fp 4 * 16384 - 1 ∧
    (∀ addr, addr < 65536 →
      mapper_read (load_cartridge_image fp b).cpu addr =
        fp (16 + (addr &&& (read_byte fp 4 * 16384 - 1))) % 256) ∧
    (∀ k, k < read_byte fp 4 * 16384 →
      (load_cartridge_image fp (load_cartridge_image fp b)).cpu.mapper0_prg_rom k =
        (load_cartridge_image fp b).cpu.mapper0_prg_rom k) ∧
    (∀ c k, k < read_byte fp 4 * 16384 →
      (load_cartridge_image fp c).cpu.mapper0_prg_rom k =
        (load_cartridge_image fp b).cpu.mapper0_prg_rom k) := by
  have hbyte : ∀ c k, k < read_byte fp 4 * 16384 →
      (load_cartridge_image fp c).cpu.mapper0_prg_rom k = fp (16 + k) % 256 := by
    intro c k hk
    rw [load_prg_byte fp c h k hk]
    have e : ¬ (read_byte fp 6 &&& 4 ≠ 0) := by simpa using ht
    rw [if_neg e]
    have e2 : (16 + k) % 65536 = 16 + k := Nat.mod_eq_of_lt (by omega)
    simp only [read_byte, e2]
  have hmask : (load_cartridge_image fp b).cpu.mapper0_prg_rom_mask =
      read_byte fp 4 * 16384 - 1 := by
    rw [load_prg_mask fp b h]
    omega
  refine ⟨hbyte b, (load_handles fp b h).1, (load_handles fp b h).2.1, hmask, ?_, ?_, ?_⟩
  · intro addr ha
    have hl := mask_and_lt addr (read_byte fp 4 * 16384) (by omega)
    simp only [mapper_read, (load_handles fp b h).1, call_read, mapper0_read, hmask,
      Nat.mod_eq_of_lt ha]
    exact hbyte b _ hl
  · intro k hk
    rw [hbyte _ k hk, hbyte b k hk]
  · intro c k hk
    rw [hbyte c k hk, hbyte b k hk]

/-- Witness of C25: the one-bank image without trainer on the blank board. -/
theorem prg_staging_witness :
    ines_accepted (ines_image 1 0) ∧
    (load_cartridge_image (ines_image 1 0) blank_board).cpu.mapper0_prg_rom 0 = 0xA9 ∧
    (load_cartridge_image (ines_image 1 0) blank_board).cpu.mapper0_prg_rom_mask = 0x3FFF ∧
    mapper_read (load_cartridge_image (ines_image 1 0) blank_board).cpu 0xC000 = 0xA9 :=
  have ha : ines_accepted (ines_image 1 0) := by decide
  have hs := prg_staging (ines_image 1 0) blank_board ha (by decide) (Or.inl (by decide))
  ⟨ha, hs.1 0 (by decide), hs.2.2.2.1, hs.2.2.2.2.1 0xC000 (by decide)⟩

/-- C26. Trainer offset, as the code has it: for an accepted image with the
trainer bit set the loader reads the 512 trainer bytes from file offsets 16..527
(word `i` of the staging window holds bytes `16 + 2i` and `17 + 2i`), but takes
the PRG data from file offset 518, not 528: PRG backing byte `k` is file byte
`518 + k` (offsets taken modulo 65536, the width of the offset argument of
`read_byte`); without a trainer PRG backing byte `k` is file byte `16 + k`. -/
theorem trainer_offset (fp : Nat → Nat) (b : Board) (h : ines_accepted fp) :
    (read_byte fp 6 &&& 0x04 ≠ 0 →
      (∀ i, i < 256 →
        (load_cartridge_image fp b).smc_cs0_area16 i =
          read_byte fp (16 + 2 * i) * 256 + read_byte fp (17 + 2 * i)) ∧
      (∀ k, k < read_byte fp 4 * 16384 →
        (load_cartridge_image fp b).cpu.mapper0_prg_rom k = read_byte fp (518 + k))) ∧
    (read_byte fp 6 &&& 0x04 = 0 →
      ∀ k, k < read_byte fp 4 * 16384 →
        (load_cartridge_image fp b).cpu.mapper0_prg_rom k = read_byte fp (16 + k)) := by
  refine ⟨fun ht => ⟨fun i hi => ?_, fun k hk => ?_⟩, fun ht k hk => ?_⟩
  · rw [load_accepted fp b h, process_ines_mapper0 fp b h.2.2.2.2.2.2.2.2.2]
    simp only [if_pos ht]
    rw [prg_loop_low fp _ _ _ i hi, trainer_loop_get fp 256 _ i hi]
    have h1 := read_byte_lt fp (16 + 2 * i)
    have h2 := read_byte_lt fp (17 + 2 * i)
    rw [Nat.lor_comm, word_eq _ _ h2]
    omega
  · rw [load_prg_byte fp b h k hk, if_pos ht]
  · rw [load_prg_byte fp b h k hk]
    have e : ¬ (read_byte fp 6 &&& 4 ≠ 0) := by simpa using ht
    rw [if_neg e]

/-- The failing input of C26: the one-bank image with the trainer bit set, whose
file byte 518 is `$AA` and whose file byte 528 is `$BB`: PRG backing byte 0 is
`$AA`. -/
theorem trainer_offset_witness :
    ines_accepted (ines_image 1 4) ∧ read_byte (ines_image 1 4) 6 &&& 0x04 ≠ 0 ∧
    (load_cartridge_image (ines_image 1 4) blank_board).cpu.mapper0_prg_rom 0 = 0xAA ∧
    read_byte (ines_image 1 4) 518 = 0xAA ∧ read_byte (ines_image 1 4) 528 = 0xBB :=
  have ha : ines_accepted (ines_image 1 4) := by decide
  ⟨ha, by decide,
    ((trainer_offset (ines_image 1 4) blank_board ha).1 (by decide)).2 0 (by decide),
    by decide, by decide⟩

/-- C27, amended. After every successful cartridge load the CPU-side mapper
handles (read and write) are non-absent; the PPU-side handles are not touched by
the loader: they are what they were before the call. -/
theorem mapper_installation (fp : Nat → Nat) (b : Board) (h : ines_accepted fp) :
    (load_cartridge_image fp b).cpu.mapper_cpur ≠ none ∧
    (load_cartridge_image fp b).cpu.mapper_cpuw ≠ none ∧
    (load_cartridge_image fp b).cpu.mapper_ppur = b.cpu.mapper_ppur ∧
    (load_cartridge_image fp b).cpu.mapper_ppuw = b.cpu.mapper_ppuw := by
  obtain ⟨h1, h2, h3, h4⟩ := load_handles fp b h
  rw [h1, h2]
  exact ⟨by simp, by simp, h3, h4⟩

/-- Witness of C27, amended: the one-bank image on the blank board. -/
theorem mapper_installation_witness :
    ines_accepted (ines_image 1 0) ∧
    (load_cartridge_image (ines_image 1 0) blank_board).cpu.mapper_cpur ≠ none ∧
    (load_cartridge_image (ines_image 1 0) blank_board).cpu.mapper_cpuw ≠ none ∧
    (load_cartridge_image (ines_image 1 0) blank_board).cpu.mapper_ppur =
      blank_board.cpu.mapper_ppur ∧
    (load_cartridge_image (ines_image 1 0) blank_board).cpu.mapper_ppuw =
      blank_board.cpu.mapper_ppuw :=
  have ha : ines_accepted (ines_image 1 0) := by decide
  ⟨ha, mapper_installation (ines_image 1 0) blank_board ha⟩

/-- Counterexample to C27 as stated: the one-bank mapper-0 image is accepted and
loaded on the board as it is before any cartridge load, and both PPU-side mapper
handles are absent afterwards. -/
theorem mapper_installation_counterexample :
    ines_accepted (ines_image 1 0) ∧
    (load_cartridge_image (ines_image 1 0) blank_board).cpu.mapper_cpur ≠ none ∧
    (load_cartridge_image (ines_image 1 0) blank_board).cpu.mapper_ppur = none ∧
    (load_cartridge_image (ines_image 1 0) blank_board).cpu.mapper_ppuw = none :=
  have ha : ines_accepted (ines_image 1 0) := by decide
  ⟨ha, by rw [(load_handles (ines_image 1 0) blank_board ha).1]; simp,
    (load_handles (ines_image 1 0) blank_board ha).2.2.1,
    (load_handles (ines_image 1 0) blank_board ha).2.2.2⟩

/-! ## Store/load round trip through RAM (C30) -/

theorem bus_val_store_high (ram : Nat → Nat) (cpur : Option mem_read_callback)
    (prg : Nat → Nat) (mask a i x : Nat) (ha : 0x2000 ≤ a % 65536) :
    bus_val (store ram i x) cpur prg mask a = bus_val ram cpur prg mask a := by
  have h : ¬ a % 65536 < 0x2000 := by omega
  simp only [bus_val, read_memory, h, if_false, mapper_read]
  cases cpur with
  | none => rfl
  | some cb =>
    cases cb
    rfl

theorem bus_val_ram (ram : Nat → Nat) (cpur : Option mem_read_callback)
    (prg : Nat → Nat) (mask a : Nat) (ha : a < 0x800) :
    bus_val ram cpur prg mask a = ram a % 256 := by
  have h1 : a % 65536 = a := Nat.mod_eq_of_lt (by omega)
  have h2 : a < 0x2000 := by omega
  simp only [bus_val, read_memory, h1, h2, if_true, and_7FF, Nat.mod_eq_of_lt ha]

set_option maxHeartbeats 6400000 in
/-- The program `LDA #v; STA z; LDA #$00; LDA z`, fetched from `s.pc` in mapper
space by a running machine at an instruction boundary with single-step mode off:
the micro-step index and `hang` after each of the first ten cycles, and the
registers and RAM after the tenth. -/
theorem round_trip_exec (s : State) (v z : Nat) (hidx : s.cur_instr_index = 0)
    (hh : s.hang = 0) (hss : s.p6502_single_step = 0)
    (hpc : 0x4020 ≤ s.pc) (hpc7 : s.pc + 7 < 65536)
    (h0 : rd s s.pc = 0xA9) (h1 : rd s (s.pc + 1) = v)
    (h2 : rd s (s.pc + 2) = 0x85) (h3 : rd s (s.pc + 3) = z)
    (h4 : rd s (s.pc + 4) = 0xA9) (h5 : rd s (s.pc + 5) = 0x00)
    (h6 : rd s (s.pc + 6) = 0xA5) (h7 : rd s (s.pc + 7) = z) :
    ((run_cycles 1 s).cur_instr_index = 1 ∧ (run_cycles 2 s).cur_instr_index = 0 ∧
      (run_cycles 3 s).cur_instr_index = 1 ∧ (run_cycles 4 s).cur_instr_index = 2 ∧
      (run_cycles 5 s).cur_instr_index = 0 ∧ (run_cycles 6 s).cur_instr_index = 1 ∧
      (run_cycles 7 s).cur_instr_index = 0 ∧ (run_cycles 8 s).cur_instr_index = 1 ∧
      (run_cycles 9 s).cur_instr_index = 2 ∧ (run_cycles 10 s).cur_instr_index = 0) ∧
    ((run_cycles 1 s).hang = 0 ∧ (run_cycles 2 s).hang = 0 ∧ (run_cycles 3 s).hang = 0 ∧
      (run_cycles 4 s).hang = 0 ∧ (run_cycles 5 s).hang = 0 ∧ (run_cycles 6 s).hang = 0 ∧
      (run_cycles 7 s).hang = 0 ∧ (run_cycles 8 s).hang = 0 ∧ (run_cycles 9 s).hang = 0 ∧
      (run_cycles 10 s).hang = 0) ∧
    ((run_cycles 2 s).reg_a = v ∧ (run_cycles 2 s).pc = s.pc + 2 ∧
      (run_cycles 5 s).internal_ram z = v ∧ (run_cycles 5 s).reg_a = v ∧
      (run_cycles 5 s).pc = s.pc + 4 ∧
      (run_cycles 7 s).reg_a = 0 ∧ (run_cycles 7 s).internal_ram z = v ∧
      (run_cycles 7 s).pc = s.pc + 6) ∧
    (run_cycles 10 s).reg_a = v ∧ (run_cycles 10 s).internal_ram z = v ∧
    ((run_cycles 10 s).reg_p &&& 0x02 ≠ 0 ↔ v = 0) ∧
    ((run_cycles 10 s).reg_p &&& 0x80 ≠ 0 ↔ v &&& 0x80 ≠ 0) ∧
    (run_cycles 10 s).pc = (s.pc + 8) % 65536 ∧
    (run_cycles 10 s).cycle_number = (s.cycle_number + 10) % 0x100000000 ∧
    (∀ i, i ≠ z → (run_cycles 10 s).internal_ram i = s.internal_ram i) ∧
    (run_cycles 10 s).reg_x = s.reg_x ∧ (run_cycles 10 s).reg_y = s.reg_y ∧
    (run_cycles 10 s).reg_s = s.reg_s := by
  have hv : v < 256 := by rw [← h1]; exact rd_lt _ _
  have hz : z < 256 := by rw [← h3]; exact rd_lt _ _
  rw [rd_val] at h0 h1 h2 h3 h4 h5 h6 h7
  have m0 : s.pc % 65536 = s.pc := Nat.mod_eq_of_lt (by omega)
  have m1 : (s.pc + 1) % 65536 = s.pc + 1 := Nat.mod_eq_of_lt (by omega)
  have m2 : (s.pc + 2) % 65536 = s.pc + 2 := Nat.mod_eq_of_lt (by omega)
  have m3 : (s.pc + 3) % 65536 = s.pc + 3 := Nat.mod_eq_of_lt (by omega)
  have m4 : (s.pc + 4) % 65536 = s.pc + 4 := Nat.mod_eq_of_lt (by omega)
  have m5 : (s.pc + 5) % 65536 = s.pc + 5 := Nat.mod_eq_of_lt (by omega)
  have m6 : (s.pc + 6) % 65536 = s.pc + 6 := Nat.mod_eq_of_lt (by omega)
  have m7 : (s.pc + 7) % 65536 = s.pc + 7 := Nat.mod_eq_of_lt (by omega)
  have m8 : (s.cycle_number + 10) % 4294967296 = (s.cycle_number + 10) % 4294967296 := rfl
  have g4 : ∀ i x, bus_val (store s.internal_ram i x) s.mapper_cpur s.mapper0_prg_rom
      s.mapper0_prg_rom_mask (s.pc + 4) = 0xA9 := fun i x => by
    rw [bus_val_store_high _ _ _ _ _ _ _ (by omega), h4]
  have g5 : ∀ i x, bus_val (store s.internal_ram i x) s.mapper_cpur s.mapper0_prg_rom
      s.mapper0_prg_rom_mask (s.pc + 5) = 0x00 := fun i x => by
    rw [bus_val_store_high _ _ _ _ _ _ _ (by omega), h5]
  have g6 : ∀ i x, bus_val (store s.internal_ram i x) s.mapper_cpur s.mapper0_prg_rom
      s.mapper0_prg_rom_mask (s.pc + 6) = 0xA5 := fun i x => by
    rw [bus_val_store_high _ _ _ _ _ _ _ (by omega), h6]
  have g7 : ∀ i x, bus_val (store s.internal_ram i x) s.mapper_cpur s.mapper0_prg_rom
      s.mapper0_prg_rom_mask (s.pc + 7) = z := fun i x => by
    rw [bus_val_store_high _ _ _ _ _ _ _ (by omega), h7]
  have hvm : v % 256 = v := Nat.mod_eq_of_lt hv
  have hzm : z % 256 = z := Nat.mod_eq_of_lt hz
  have hz16 : z % 65536 = z := Nat.mod_eq_of_lt (by omega)
  have hzlt : z < 8192 := by omega
  have hz7 : z &&& 2047 = z := by
    rw [and_7FF]
    exact Nat.mod_eq_of_lt (by omega)
  have gz : bus_val (store s.internal_ram z v) s.mapper_cpur s.mapper0_prg_rom
      s.mapper0_prg_rom_mask z = v := by
    rw [bus_val_ram _ _ _ _ _ (by omega)]
    simp [hvm]
  have a1 : (0xA9 : Nat) &&& 0x3 = 0x1 := by decide
  have a2 : (0xA9 : Nat) &&& 0x1D = 0x09 := by decide
  have a3 : (0xA9 : Nat) &&& 0xE0 = 0xA0 := by decide
  have b1 : (0x85 : Nat) &&& 0x3 = 0x1 := by decide
  have b2 : (0x85 : Nat) &&& 0x1D = 0x05 := by decide
  have b3 : (0x85 : Nat) &&& 0xE0 = 0x80 := by decide
  have c1 : (0xA5 : Nat) &&& 0x3 = 0x1 := by decide
  have c2 : (0xA5 : Nat) &&& 0x1D = 0x05 := by decide
  have c3 : (0xA5 : Nat) &&& 0xE0 = 0xA0 := by decide
  refine ⟨⟨?_, ?_, ?_, ?_, ?_, ?_, ?_, ?_, ?_, ?_⟩, ⟨?_, ?_, ?_, ?_, ?_, ?_, ?_, ?_, ?_, ?_⟩,
    ⟨?_, ?_, ?_, ?_, ?_, ?_, ?_, ?_⟩, ?_, ?_, ?_, ?_, ?_, ?_, ?_, ?_, ?_, ?_⟩
  · simp [run_cycle_fetch, run_cycle_decode, decode_opcode_alu, decode_alu, alu_addressing,
      alu_immediate, alu_zero_page, alu_operation, set_nz, write_memory, single_step_halt,
      read_memory_val, hidx, hh, hss, h0, h1, h2, h3, g4, g5, g6, g7, gz, Nat.add_assoc,
      a1, a2, a3, b1, b2, b3, c1, c2, c3, hvm, hzm, hz16, hzlt, hz7, bus_val_lt,
      m0, m1, m2, m3, m4, m5, m6, m7, m8]
  · simp [run_cycle_fetch, run_cycle_decode, decode_opcode_alu, decode_alu, alu_addressing,
      alu_immediate, alu_zero_page, alu_operation, set_nz, write_memory, single_step_halt,
      read_memory_val, hidx, hh, hss, h0, h1, h2, h3, g4, g5, g6, g7, gz, Nat.add_assoc,
      a1, a2, a3, b1, b2, b3, c1, c2, c3, hvm, hzm, hz16, hzlt, hz7, bus_val_lt,
      m0, m1, m2, m3, m4, m5, m6, m7, m8]
  · simp [run_cycle_fetch, run_cycle_decode, decode_opcode_alu, decode_alu, alu_addressing,
      alu_immediate, alu_zero_page, alu_operation, set_nz, write_memory, single_step_halt,
      read_memory_val, hidx, hh, hss, h0, h1, h2, h3, g4, g5, g6, g7, gz, Nat.add_assoc,
      a1, a2, a3, b1, b2, b3, c1, c2, c3, hvm, hzm, hz16, hzlt, hz7, bus_val_lt,
      m0, m1, m2, m3, m4, m5, m6, m7, m8]
  · simp [run_cycle_fetch, run_cycle_decode, decode_opcode_alu, decode_alu, alu_addressing,
      alu_immediate, alu_zero_page, alu_operation, set_nz, write_memory, single_step_halt,
      read_memory_val, hidx, hh, hss, h0, h1, h2, h3, g4, g5, g6, g7, gz, Nat.add_assoc,
      a1, a2, a3, b1, b2, b3, c1, c2, c3, hvm, hzm, hz16, hzlt, hz7, bus_val_lt,
      m0, m1, m2, m3, m4, m5, m6, m7, m8]
  · simp [run_cycle_fetch, run_cycle_decode, decode_opcode_alu, decode_alu, alu_addressing,
      alu_immediate, alu_zero_page, alu_operation, set_nz, write_memory, single_step_halt,
      read_memory_val, hidx, hh, hss, h0, h1, h2, h3, g4, g5, g6, g7, gz, Nat.add_assoc,
      a1, a2, a3, b1, b2, b3, c1, c2, c3, hvm, hzm, hz16, hzlt, hz7, bus_val_lt,
      m0, m1, m2, m3, m4, m5, m6, m7, m8]
  · simp [run_cycle_fetch, run_cycle_decode, decode_opcode_alu, decode_alu, alu_addressing,
      alu_immediate, alu_zero_page, alu_operation, set_nz, write_memory, single_step_halt,
      read_memory_val, hidx, hh, hss, h0, h1, h2, h3, g4, g5, g6, g7, gz, Nat.add_assoc,
      a1, a2, a3, b1, b2, b3, c1, c2, c3, hvm, hzm, hz16, hzlt, hz7, bus_val_lt,
      m0, m1, m2, m3, m4, m5, m6, m7, m8]
  · simp [run_cycle_fetch, run_cycle_decode, decode_opcode_alu, decode_alu, alu_addressing,
      alu_immediate, alu_zero_page, alu_operation, set_nz, write_memory, single_step_halt,
      read_memory_val, hidx, hh, hss, h0, h1, h2, h3, g4, g5, g6, g7, gz, Nat.add_assoc,
      a1, a2, a3, b1, b2, b3, c1, c2, c3, hvm, hzm, hz16, hzlt, hz7, bus_val_lt,
      m0, m1, m2, m3, m4, m5, m6, m7, m8]
  · simp [run_cycle_fetch, run_cycle_decode, decode_opcode_alu, decode_alu, alu_addressing,
      alu_immediate, alu_zero_page, alu_operation, set_nz, write_memory, single_step_halt,
      read_memory_val, hidx, hh, hss, h0, h1, h2, h3, g4, g5, g6, g7, gz, Nat.add_assoc,
      a1, a2, a3, b1, b2, b3, c1, c2, c3, hvm, hzm, hz16, hzlt, hz7, bus_val_lt,
      m0, m1, m2, m3, m4, m5, m6, m7, m8]
  · simp [run_cycle_fetch, run_cycle_decode, decode_opcode_alu, decode_alu, alu_addressing,
      alu_immediate, alu_zero_page, alu_operation, set_nz, write_memory, single_step_halt,
      read_memory_val, hidx, hh, hss, h0, h1, h2, h3, g4, g5, g6, g7, gz, Nat.add_assoc,
      a1, a2, a3, b1, b2, b3, c1, c2, c3, hvm, hzm, hz16, hzlt, hz7, bus_val_lt,
      m0, m1, m2, m3, m4, m5, m6, m7, m8]
  · simp [run_cycle_fetch, run_cycle_decode, decode_opcode_alu, decode_alu, alu_addressing,
      alu_immediate, alu_zero_page, alu_operation, set_nz, write_memory, single_step_halt,
      read_memory_val, hidx, hh, hss, h0, h1, h2, h3, g4, g5, g6, g7, gz, Nat.add_assoc,
      a1, a2, a3, b1, b2, b3, c1, c2, c3, hvm, hzm, hz16, hzlt, hz7, bus_val_lt,
      m0, m1, m2, m3, m4, m5, m6, m7, m8]
  · simp [run_cycle_fetch, run_cycle_decode, decode_opcode_alu, decode_alu, alu_addressing,
      alu_immediate, alu_zero_page, alu_operation, set_nz, write_memory, single_step_halt,
      read_memory_val, hidx, hh, hss, h0, h1, h2, h3, g4, g5, g6, g7, gz, Nat.add_assoc,
      a1, a2, a3, b1, b2, b3, c1, c2, c3, hvm, hzm, hz16, hzlt, hz7, bus_val_lt,
      m0, m1, m2, m3, m4, m5, m6, m7, m8]
  · simp [run_cycle_fetch, run_cycle_decode, decode_opcode_alu, decode_alu, alu_addressing,
      alu_immediate, alu_zero_page, alu_operation, set_nz, write_memory, single_step_halt,
      read_memory_val, hidx, hh, hss, h0, h1, h2, h3, g4, g5, g6, g7, gz, Nat.add_assoc,
      a1, a2, a3, b1, b2, b3, c1, c2, c3, hvm, hzm, hz16, hzlt, hz7, bus_val_lt,
      m0, m1, m2, m3, m4, m5, m6, m7, m8]
  · simp [run_cycle_fetch, run_cycle_decode, decode_opcode_alu, decode_alu, alu_addressing,
      alu_immediate, alu_zero_page, alu_operation, set_nz, write_memory, single_step_halt,
      read_memory_val, hidx, hh, hss, h0, h1, h2, h3, g4, g5, g6, g7, gz, Nat.add_assoc,
      a1, a2, a3, b1, b2, b3, c1, c2, c3, hvm, hzm, hz16, hzlt, hz7, bus_val_lt,
      m0, m1, m2, m3, m4, m5, m6, m7, m8]
  · simp [run_cycle_fetch, run_cycle_decode, decode_opcode_alu, decode_alu, alu_addressing,
      alu_immediate, alu_zero_page, alu_operation, set_nz, write_memory, single_step_halt,
      read_memory_val, hidx, hh, hss, h0, h1, h2, h3, g4, g5, g6, g7, gz, Nat.add_assoc,
      a1, a2, a3, b1, b2, b3, c1, c2, c3, hvm, hzm, hz16, hzlt, hz7, bus_val_lt,
      m0, m1, m2, m3, m4, m5, m6, m7, m8]
  · simp [run_cycle_fetch, run_cycle_decode, decode_opcode_alu, decode_alu, alu_addressing,
      alu_immediate, alu_zero_page, alu_operation, set_nz, write_memory, single_step_halt,
      read_memory_val, hidx, hh, hss, h0, h1, h2, h3, g4, g5, g6, g7, gz, Nat.add_assoc,
      a1, a2, a3, b1, b2, b3, c1, c2, c3, hvm, hzm, hz16, hzlt, hz7, bus_val_lt,
      m0, m1, m2, m3, m4, m5, m6, m7, m8]
  · simp [run_cycle_fetch, run_cycle_decode, decode_opcode_alu, decode_alu, alu_addressing,
      alu_immediate, alu_zero_page, alu_operation, set_nz, write_memory, single_step_halt,
      read_memory_val, hidx, hh, hss, h0, h1, h2, h3, g4, g5, g6, g7, gz, Nat.add_assoc,
      a1, a2, a3, b1, b2, b3, c1, c2, c3, hvm, hzm, hz16, hzlt, hz7, bus_val_lt,
      m0, m1, m2, m3, m4, m5, m6, m7, m8]
  · simp [run_cycle_fetch, run_cycle_decode, decode_opcode_alu, decode_alu, alu_addressing,
      alu_immediate, alu_zero_page, alu_operation, set_nz, write_memory, single_step_halt,
      read_memory_val, hidx, hh, hss, h0, h1, h2, h3, g4, g5, g6, g7, gz, Nat.add_assoc,
      a1, a2, a3, b1, b2, b3, c1, c2, c3, hvm, hzm, hz16, hzlt, hz7, bus_val_lt,
      m0, m1, m2, m3, m4, m5, m6, m7, m8]
  · simp [run_cycle_fetch, run_cycle_decode, decode_opcode_alu, decode_alu, alu_addressing,
      alu_immediate, alu_zero_page, alu_operation, set_nz, write_memory, single_step_halt,
      read_memory_val, hidx, hh, hss, h0, h1, h2, h3, g4, g5, g6, g7, gz, Nat.add_assoc,
      a1, a2, a3, b1, b2, b3, c1, c2, c3, hvm, hzm, hz16, hzlt, hz7, bus_val_lt,
      m0, m1, m2, m3, m4, m5, m6, m7, m8]
  · simp [run_cycle_fetch, run_cycle_decode, decode_opcode_alu, decode_alu, alu_addressing,
      alu_immediate, alu_zero_page, alu_operation, set_nz, write_memory, single_step_halt,
      read_memory_val, hidx, hh, hss, h0, h1, h2, h3, g4, g5, g6, g7, gz, Nat.add_assoc,
      a1, a2, a3, b1, b2, b3, c1, c2, c3, hvm, hzm, hz16, hzlt, hz7, bus_val_lt,
      m0, m1, m2, m3, m4, m5, m6, m7, m8]
  · simp [run_cycle_fetch, run_cycle_decode, decode_opcode_alu, decode_alu, alu_addressing,
      alu_immediate, alu_zero_page, alu_operation, set_nz, write_memory, single_step_halt,
      read_memory_val, hidx, hh, hss, h0, h1, h2, h3, g4, g5, g6, g7, gz, Nat.add_assoc,
      a1, a2, a3, b1, b2, b3, c1, c2, c3, hvm, hzm, hz16, hzlt, hz7, bus_val_lt,
      m0, m1, m2, m3, m4, m5, m6, m7, m8]
  · simp [run_cycle_fetch, run_cycle_decode, decode_opcode_alu, decode_alu, alu_addressing,
      alu_immediate, alu_zero_page, alu_operation, set_nz, write_memory, single_step_halt,
      read_memory_val, hidx, hh, hss, h0, h1, h2, h3, g4, g5, g6, g7, gz, Nat.add_assoc,
      a1, a2, a3, b1, b2, b3, c1, c2, c3, hvm, hzm, hz16, hzlt, hz7, bus_val_lt,
      m0, m1, m2, m3, m4, m5, m6, m7, m8]
  · simp [run_cycle_fetch, run_cycle_decode, decode_opcode_alu, decode_alu, alu_addressing,
      alu_immediate, alu_zero_page, alu_operation, set_nz, write_memory, single_step_halt,
      read_memory_val, hidx, hh, hss, h0, h1, h2, h3, g4, g5, g6, g7, gz, Nat.add_assoc,
      a1, a2, a3, b1, b2, b3, c1, c2, c3, hvm, hzm, hz16, hzlt, hz7, bus_val_lt,
      m0, m1, m2, m3, m4, m5, m6, m7, m8]
  · simp [run_cycle_fetch, run_cycle_decode, decode_opcode_alu, decode_alu, alu_addressing,
      alu_immediate, alu_zero_page, alu_operation, set_nz, write_memory, single_step_halt,
      read_memory_val, hidx, hh, hss, h0, h1, h2, h3, g4, g5, g6, g7, gz, Nat.add_assoc,
      a1, a2, a3, b1, b2, b3, c1, c2, c3, hvm, hzm, hz16, hzlt, hz7, bus_val_lt,
      m0, m1, m2, m3, m4, m5, m6, m7, m8]
  · simp [run_cycle_fetch, run_cycle_decode, decode_opcode_alu, decode_alu, alu_addressing,
      alu_immediate, alu_zero_page, alu_operation, set_nz, write_memory, single_step_halt,
      read_memory_val, hidx, hh, hss, h0, h1, h2, h3, g4, g5, g6, g7, gz, Nat.add_assoc,
      a1, a2, a3, b1, b2, b3, c1, c2, c3, hvm, hzm, hz16, hzlt, hz7, bus_val_lt,
      m0, m1, m2, m3, m4, m5, m6, m7, m8]
  · simp [run_cycle_fetch, run_cycle_decode, decode_opcode_alu, decode_alu, alu_addressing,
      alu_immediate, alu_zero_page, alu_operation, set_nz, write_memory, single_step_halt,
      read_memory_val, hidx, hh, hss, h0, h1, h2, h3, g4, g5, g6, g7, gz, Nat.add_assoc,
      a1, a2, a3, b1, b2, b3, c1, c2, c3, hvm, hzm, hz16, hzlt, hz7, bus_val_lt,
      m0, m1, m2, m3, m4, m5, m6, m7, m8]
  · simp [run_cycle_fetch, run_cycle_decode, decode_opcode_alu, decode_alu, alu_addressing,
      alu_immediate, alu_zero_page, alu_operation, set_nz, write_memory, single_step_halt,
      read_memory_val, hidx, hh, hss, h0, h1, h2, h3, g4, g5, g6, g7, gz, Nat.add_assoc,
      a1, a2, a3, b1, b2, b3, c1, c2, c3, hvm, hzm, hz16, hzlt, hz7, bus_val_lt,
      m0, m1, m2, m3, m4, m5, m6, m7, m8]
  · simp [run_cycle_fetch, run_cycle_decode, decode_opcode_alu, decode_alu, alu_addressing,
      alu_immediate, alu_zero_page, alu_operation, set_nz, write_memory, single_step_halt,
      read_memory_val, hidx, hh, hss, h0, h1, h2, h3, g4, g5, g6, g7, gz, Nat.add_assoc,
      a1, a2, a3, b1, b2, b3, c1, c2, c3, hvm, hzm, hz16, hzlt, hz7, bus_val_lt,
      m0, m1, m2, m3, m4, m5, m6, m7, m8]
  · simp [run_cycle_fetch, run_cycle_decode, decode_opcode_alu, decode_alu, alu_addressing,
      alu_immediate, alu_zero_page, alu_operation, set_nz, write_memory, single_step_halt,
      read_memory_val, hidx, hh, hss, h0, h1, h2, h3, g4, g5, g6, g7, gz, Nat.add_assoc,
      a1, a2, a3, b1, b2, b3, c1, c2, c3, hvm, hzm, hz16, hzlt, hz7, bus_val_lt,
      m0, m1, m2, m3, m4, m5, m6, m7, m8]
  · simp [run_cycle_fetch, run_cycle_decode, decode_opcode_alu, decode_alu, alu_addressing,
      alu_immediate, alu_zero_page, alu_operation, set_nz, write_memory, single_step_halt,
      read_memory_val, hidx, hh, hss, h0, h1, h2, h3, g4, g5, g6, g7, gz, Nat.add_assoc,
      a1, a2, a3, b1, b2, b3, c1, c2, c3, hvm, hzm, hz16, hzlt, hz7, bus_val_lt,
      m0, m1, m2, m3, m4, m5, m6, m7, m8]
  · simp [run_cycle_fetch, run_cycle_decode, decode_opcode_alu, decode_alu, alu_addressing,
      alu_immediate, alu_zero_page, alu_operation, set_nz, write_memory, single_step_halt,
      read_memory_val, hidx, hh, hss, h0, h1, h2, h3, g4, g5, g6, g7, gz, Nat.add_assoc,
      a1, a2, a3, b1, b2, b3, c1, c2, c3, hvm, hzm, hz16, hzlt, hz7, bus_val_lt,
      m0, m1, m2, m3, m4, m5, m6, m7, m8]
  · refine Iff.trans (and_02 _) ?_
    simp [run_cycle_fetch, run_cycle_decode, decode_opcode_alu, decode_alu, alu_addressing,
      alu_immediate, alu_zero_page, alu_operation, set_nz, write_memory, single_step_halt,
      read_memory_val, hidx, hh, hss, h0, h1, h2, h3, g4, g5, g6, g7, gz, Nat.add_assoc,
      a1, a2, a3, b1, b2, b3, c1, c2, c3, hvm, hzm, hz16, hzlt, hz7, bus_val_lt,
      m0, m1, m2, m3, m4, m5, m6, m7, m8,
      testBit_set_flag_Z, testBit_set_flag_N]
  · refine Iff.trans (and_80 _) ?_
    rw [and_80 v]
    simp [run_cycle_fetch, run_cycle_decode, decode_opcode_alu, decode_alu, alu_addressing,
      alu_immediate, alu_zero_page, alu_operation, set_nz, write_memory, single_step_halt,
      read_memory_val, hidx, hh, hss, h0, h1, h2, h3, g4, g5, g6, g7, gz, Nat.add_assoc,
      a1, a2, a3, b1, b2, b3, c1, c2, c3, hvm, hzm, hz16, hzlt, hz7, bus_val_lt,
      m0, m1, m2, m3, m4, m5, m6, m7, m8,
      testBit_set_flag_Z, testBit_set_flag_N]
    exact and_80 v
  · simp [run_cycle_fetch, run_cycle_decode, decode_opcode_alu, decode_alu, alu_addressing,
      alu_immediate, alu_zero_page, alu_operation, set_nz, write_memory, single_step_halt,
      read_memory_val, hidx, hh, hss, h0, h1, h2, h3, g4, g5, g6, g7, gz, Nat.add_assoc,
      a1, a2, a3, b1, b2, b3, c1, c2, c3, hvm, hzm, hz16, hzlt, hz7, bus_val_lt,
      m0, m1, m2, m3, m4, m5, m6, m7, m8]
  · simp [run_cycle_fetch, run_cycle_decode, decode_opcode_alu, decode_alu, alu_addressing,
      alu_immediate, alu_zero_page, alu_operation, set_nz, write_memory, single_step_halt,
      read_memory_val, hidx, hh, hss, h0, h1, h2, h3, g4, g5, g6, g7, gz, Nat.add_assoc,
      a1, a2, a3, b1, b2, b3, c1, c2, c3, hvm, hzm, hz16, hzlt, hz7, bus_val_lt,
      m0, m1, m2, m3, m4, m5, m6, m7, m8]
  · intro i hi
    simp [run_cycle_fetch, run_cycle_decode, decode_opcode_alu, decode_alu, alu_addressing,
      alu_immediate, alu_zero_page, alu_operation, set_nz, write_memory, single_step_halt,
      read_memory_val, hidx, hh, hss, h0, h1, h2, h3, g4, g5, g6, g7, gz, Nat.add_assoc,
      a1, a2, a3, b1, b2, b3, c1, c2, c3, hvm, hzm, hz16, hzlt, hz7, bus_val_lt,
      m0, m1, m2, m3, m4, m5, m6, m7, m8, hi]
  · simp [run_cycle_fetch, run_cycle_decode, decode_opcode_alu, decode_alu, alu_addressing,
      alu_immediate, alu_zero_page, alu_operation, set_nz, write_memory, single_step_halt,
      read_memory_val, hidx, hh, hss, h0, h1, h2, h3, g4, g5, g6, g7, gz, Nat.add_assoc,
      a1, a2, a3, b1, b2, b3, c1, c2, c3, hvm, hzm, hz16, hzlt, hz7, bus_val_lt,
      m0, m1, m2, m3, m4, m5, m6, m7, m8]
  · simp [run_cycle_fetch, run_cycle_decode, decode_opcode_alu, decode_alu, alu_addressing,
      alu_immediate, alu_zero_page, alu_operation, set_nz, write_memory, single_step_halt,
      read_memory_val, hidx, hh, hss, h0, h1, h2, h3, g4, g5, g6, g7, gz, Nat.add_assoc,
      a1, a2, a3, b1, b2, b3, c1, c2, c3, hvm, hzm, hz16, hzlt, hz7, bus_val_lt,
      m0, m1, m2, m3, m4, m5, m6, m7, m8]
  · simp [run_cycle_fetch, run_cycle_decode, decode_opcode_alu, decode_alu, alu_addressing,
      alu_immediate, alu_zero_page, alu_operation, set_nz, write_memory, single_step_halt,
      read_memory_val, hidx, hh, hss, h0, h1, h2, h3, g4, g5, g6, g7, gz, Nat.add_assoc,
      a1, a2, a3, b1, b2, b3, c1, c2, c3, hvm, hzm, hz16, hzlt, hz7, bus_val_lt,
      m0, m1, m2, m3, m4, m5, m6, m7, m8]

/-- C30. Store/load round trip through RAM: from a fresh power-on with
single-step mode off, with the program `LDA #v; STA z; LDA #$00; LDA z` at the
reset target in mapper space, the instructions retire after 2, 5, 7 and 10 calls
of `p6502_run_cycle` and at no other of the first ten calls, every one of these
calls returns 0, and after the tenth call A = v, RAM[z] = v, Z is set iff
v = 0, N is bit 7 of v and the cycle counter is 10. -/
theorem store_load_round_trip (st : State) (v z : Nat) (hss : st.p6502_single_step = 0)
    (hpc : 0x4020 ≤ (p6502_power_on st).pc) (hpc7 : (p6502_power_on st).pc + 7 < 65536)
    (h0 : rd (p6502_power_on st) (p6502_power_on st).pc = 0xA9)
    (h1 : rd (p6502_power_on st) ((p6502_power_on st).pc + 1) = v)
    (h2 : rd (p6502_power_on st) ((p6502_power_on st).pc + 2) = 0x85)
    (h3 : rd (p6502_power_on st) ((p6502_power_on st).pc + 3) = z)
    (h4 : rd (p6502_power_on st) ((p6502_power_on st).pc + 4) = 0xA9)
    (h5 : rd (p6502_power_on st) ((p6502_power_on st).pc + 5) = 0x00)
    (h6 : rd (p6502_power_on st) ((p6502_power_on st).pc + 6) = 0xA5)
    (h7 : rd (p6502_power_on st) ((p6502_power_on st).pc + 7) = z) :
    (∀ k, k ≤ 10 → ((run_cycles k (p6502_power_on st)).cur_instr_index = 0 ↔
      k = 0 ∨ k = 2 ∨ k = 5 ∨ k = 7 ∨ k = 10)) ∧
    (∀ k, k < 10 → (p6502_run_cycle (run_cycles k (p6502_power_on st))).1 = 0) ∧
    (run_cycles 10 (p6502_power_on st)).reg_a = v ∧
    (run_cycles 10 (p6502_power_on st)).internal_ram z = v ∧
    ((run_cycles 10 (p6502_power_on st)).reg_p &&& 0x02 ≠ 0 ↔ v = 0) ∧
    ((run_cycles 10 (p6502_power_on st)).reg_p &&& 0x80 ≠ 0 ↔ v &&& 0x80 ≠ 0) ∧
    (run_cycles 10 (p6502_power_on st)).cycle_number = 10 ∧
    (run_cycles 10 (p6502_power_on st)).pc = ((p6502_power_on st).pc + 8) % 65536 ∧
    (∀ i, i ≠ z →
      (run_cycles 10 (p6502_power_on st)).internal_ram i = (p6502_power_on st).internal_ram i) ∧
    v < 256 ∧ z < 256 := by
  have hidx : (p6502_power_on st).cur_instr_index = 0 := rfl
  have hh : (p6502_power_on st).hang = 0 := rfl
  have hs : (p6502_power_on st).p6502_single_step = 0 := hss
  have hc : (p6502_power_on st).cycle_number = 0 := rfl
  obtain ⟨⟨i1, i2, i3, i4, i5, i6, i7, i8, i9, i10⟩,
    ⟨g1, g2, g3, g4, g5, g6, g7, g8, g9, g10⟩, _, ra, rm, rz, rn, rpc, rc, rram, _⟩ :=
    round_trip_exec (p6502_power_on st) v z hidx hh hs hpc hpc7 h0 h1 h2 h3 h4 h5 h6 h7
  refine ⟨?_, ?_, ra, rm, rz, rn, ?_, rpc, rram, ?_, ?_⟩
  · intro k hk
    have hi0 : (run_cycles 0 (p6502_power_on st)).cur_instr_index = 0 := rfl
    interval_cases k <;>
    first
    | (rw [hi0]; decide)
    | (rw [i1]; decide)
    | (rw [i2]; decide)
    | (rw [i3]; decide)
    | (rw [i4]; decide)
    | (rw [i5]; decide)
    | (rw [i6]; decide)
    | (rw [i7]; decide)
    | (rw [i8]; decide)
    | (rw [i9]; decide)
    | (rw [i10]; decide)
  · intro k hk
    rw [run_cycle_fst, ← run_cycles_succ_right]
    interval_cases k
    exacts [g1, g2, g3, g4, g5, g6, g7, g8, g9, g10]
  · rw [rc, hc]
  · rw [← h1]
    exact rd_lt _ _
  · rw [← h3]
    exact rd_lt _ _

/-- Witness of C30: scenario S2, `v = $42` and `z = $10`, on the sample
cartridge. -/
theorem store_load_round_trip_witness :
    (run_cycles 10 (p6502_power_on sample_state)).cur_instr_index = 0 ∧
    (run_cycles 10 (p6502_power_on sample_state)).reg_a = 0x42 ∧
    (run_cycles 10 (p6502_power_on sample_state)).internal_ram 0x10 = 0x42 ∧
    ¬ (run_cycles 10 (p6502_power_on sample_state)).reg_p &&& 0x02 ≠ 0 ∧
    ¬ (run_cycles 10 (p6502_power_on sample_state)).reg_p &&& 0x80 ≠ 0 ∧
    (run_cycles 10 (p6502_power_on sample_state)).cycle_number = 10 :=
  have h := store_load_round_trip sample_state 0x42 0x10 rfl (by decide) (by decide)
    (by decide) (by decide) (by decide) (by decide) (by decide) (by decide) (by decide)
    (by decide)
  ⟨(h.1 10 (by decide)).2 (by decide), h.2.2.1, h.2.2.2.1,
    fun hz => absurd (h.2.2.2.2.1.1 hz) (by decide),
    fun hn => absurd (h.2.2.2.2.2.1.1 hn) (by decide), h.2.2.2.2.2.2.1⟩
/-! ## SBC against ADC of the complement (C38) -/

theorem xor_FF (m : Nat) (hm : m < 256) : m ^^^ 0xFF = 255 - m := by
  have e : 255 - m = 2 ^ 8 - (m + 1) := by omega
  have hFF : ∀ i, Nat.testBit 0xFF i = decide (i < 8) := fun i =>
    Nat.testBit_two_pow_sub_one 8 i
  rw [e]
  refine Nat.eq_of_testBit_eq fun i => ?_
  rw [Nat.testBit_xor, hFF, Nat.testBit_two_pow_sub_succ (by simpa using hm)]
  by_cases hi : i < 8
  · simp [hi]
  · have : m.testBit i = false := Nat.testBit_lt_two_pow
      (Nat.lt_of_lt_of_le hm (Nat.pow_le_pow_right (by norm_num : 0 < 2) (by omega : 8 ≤ i)))
    simp [hi, this]

theorem and_pow_eq_of_iff (x y k : Nat) (h : x &&& 2 ^ k ≠ 0 ↔ y &&& 2 ^ k ≠ 0) :
    x &&& 2 ^ k = y &&& 2 ^ k := by
  refine and_pow_congr x y k ?_
  rw [and_pow_ne_zero, and_pow_ne_zero] at h
  exact Bool.eq_iff_iff.mpr h

/-- C38. SBC agrees with ADC of the complement: for a byte accumulator, a byte
operand M and either carry-in, `do_sbc(M)` and `do_adc(M ^ 0xFF)` from the same
state leave the same accumulator and the same N, V and Z flags. -/
theorem sbc_is_adc_complement (s : State) (m : Nat) (hA : s.reg_a < 256) (hM : m < 256) :
    (do_sbc s m).reg_a = (do_adc s (m ^^^ 0xFF)).reg_a ∧
    (do_sbc s m).reg_p &&& 0x80 = (do_adc s (m ^^^ 0xFF)).reg_p &&& 0x80 ∧
    (do_sbc s m).reg_p &&& 0x40 = (do_adc s (m ^^^ 0xFF)).reg_p &&& 0x40 ∧
    (do_sbc s m).reg_p &&& 0x02 = (do_adc s (m ^^^ 0xFF)).reg_p &&& 0x02 := by
  have hx : m ^^^ 0xFF = 255 - m := xor_FF m hM
  have hxl : m ^^^ 0xFF < 256 := by omega
  have earith : ∀ a c : Nat, c ≤ 1 →
      (a + 512 - m - (1 - c)) % 256 = (a + (255 - m) + c) % 256 := fun a c h => by omega
  have hc : s.reg_p &&& 1 ≤ 1 := Nat.and_le_right
  have aA := (do_adc_core s (m ^^^ 0xFF) hA hxl).1
  have aZ := (do_adc_core s (m ^^^ 0xFF) hA hxl).2.2.1
  have aN := (do_adc_core s (m ^^^ 0xFF) hA hxl).2.2.2.1
  have aV := (do_adc_core s (m ^^^ 0xFF) hA hxl).2.2.2.2.1
  obtain ⟨sV, sN, sZ⟩ := do_sbc_vnz s m hM
  have hm : m % 256 = m := Nat.mod_eq_of_lt hM
  have ea : (do_sbc s m).reg_a = (do_adc s (m ^^^ 0xFF)).reg_a := by
    rw [aA, do_sbc_reg_a, hm, sbc_temp_eq _ _ _ hA hM hc, hx]
    exact earith _ _ hc
  refine ⟨ea, and_pow_eq_of_iff _ _ 7 ?_, and_pow_eq_of_iff _ _ 6 ?_, and_pow_eq_of_iff _ _ 1 ?_⟩
  · refine Iff.trans sN ?_
    refine Iff.trans ?_ aN.symm
    rw [← ea, and_80, testBit7]
    simp
  · refine Iff.trans sV ?_
    refine Iff.trans ?_ aV.symm
    rw [ea]
  · refine Iff.trans sZ ?_
    refine Iff.trans ?_ aZ.symm
    rw [ea]

/-- Witness of C38: scenario S4, A = `$50`, M = `$F0`, carry set. -/
theorem sbc_is_adc_complement_witness :
    (sbc_state.reg_a < 256 ∧ 0xF0 < 256) ∧
    (do_sbc sbc_state 0xF0).reg_a = (do_adc sbc_state (0xF0 ^^^ 0xFF)).reg_a ∧
    (do_sbc sbc_state 0xF0).reg_a = 0x60 :=
  ⟨⟨by decide, by decide⟩, (sbc_is_adc_complement sbc_state 0xF0 (by decide) (by decide)).1,
    by decide⟩
/-! ## Mapper 0 index bound (C39) -/

/-- C39. Mapper 0 index bound: after `mapper0_set_pgr_rom(data, size)` with
1 <= size < 2^32 the mask is size - 1, and for every 16-bit address the index
`addr & mask` used by `mapper0_read` and `mapper0_write` is below size:
`mapper0_read` returns `data[addr & (size - 1)]` and `mapper0_write` stores at that
index.  After an accepted load with a non-zero PRG size byte n the index is below
n * 16384, the number of bytes staged. -/
theorem mapper0_index_bound :
    (∀ (s : State) (data : Nat → Nat) (size a : Nat), 1 ≤ size → size < 0x100000000 →
      a < 65536 →
      (mapper0_set_pgr_rom s data size).mapper0_prg_rom_mask = size - 1 ∧
      (a % 65536) &&& (mapper0_set_pgr_rom s data size).mapper0_prg_rom_mask < size ∧
      mapper0_read (mapper0_set_pgr_rom s data size) a = data (a &&& (size - 1)) ∧
      (∀ v, (mapper0_write (mapper0_set_pgr_rom s data size) a v).mapper0_prg_rom =
        store data (a &&& (size - 1)) v)) ∧
    (∀ (fp : Nat → Nat) (b : Board) (a : Nat), ines_accepted fp → read_byte fp 4 ≠ 0 →
      a < 65536 →
      (a % 65536) &&& (load_cartridge_image fp b).cpu.mapper0_prg_rom_mask <
        read_byte fp 4 * 0x4000) := by
  refine ⟨fun s data size a h1 h2 ha => ?_, fun fp b a h hn ha => ?_⟩
  · have hm : (mapper0_set_pgr_rom s data size).mapper0_prg_rom_mask = size - 1 := by
      simp only [mapper0_set_pgr_rom]
      omega
    have hamod : a % 65536 = a := Nat.mod_eq_of_lt ha
    refine ⟨hm, ?_, ?_, fun v => ?_⟩
    · rw [hm]
      exact mask_and_lt _ size (by omega)
    · simp only [mapper0_read, hm, hamod]
      rfl
    · simp only [mapper0_write, hm, hamod]
      rfl
  · have h4 := read_byte_lt fp 4
    rw [load_prg_mask fp b h]
    have e : (read_byte fp 4 * 0x4000 + 0x100000000 - 1) % 0x100000000 =
        read_byte fp 4 * 0x4000 - 1 := by omega
    rw [e]
    exact mask_and_lt _ _ (by omega)
/-! ## JSR/RTS round trip (C36) -/

set_option maxHeartbeats 1600000 in
/-- What JSR leaves besides the registers: the machine keeps running, the mapper
is untouched and the two bytes of the return address minus one are in the RAM
cells `$0100 + sp` and `$0100 + (sp - 1) mod 256`. -/
theorem jsr_memory (s : State) (a lo hi sp : Nat) (hidx : s.cur_instr_index = 0)
    (hh : s.hang = 0) (hss : s.p6502_single_step = 0)
    (hpc : s.pc = a) (hs : s.reg_s = sp) (hsp : sp < 256)
    (h0 : (read_memory s a).1 = 0x20) (h1 : (read_memory s (a + 1)).1 = lo)
    (h2 : (read_memory s (a + 2)).1 = hi) :
    (run_cycles 6 s).hang = 0 ∧ (run_cycles 6 s).p6502_single_step = 0 ∧
    (run_cycles 6 s).mapper_cpur = s.mapper_cpur ∧
    (run_cycles 6 s).mapper0_prg_rom = s.mapper0_prg_rom ∧
    (run_cycles 6 s).mapper0_prg_rom_mask = s.mapper0_prg_rom_mask ∧
    (∀ i, (run_cycles 6 s).internal_ram i =
      if i = 0x100 + (sp + 255) % 256 then (a + 2) % 256
      else if i = 0x100 + sp then (a + 2) / 256 % 256 else s.internal_ram i) := by
  rw [read_memory_val] at h0 h1 h2
  have e1 : (256 + sp) % 65536 = 256 + sp := Nat.mod_eq_of_lt (by omega)
  have e2 : (256 + sp) &&& 2047 = 256 + sp := by
    rw [and_7FF]
    exact Nat.mod_eq_of_lt (by omega)
  have e3 : 256 + sp < 8192 := by omega
  have e4 : (256 + (sp + 255) % 256) % 65536 = 256 + (sp + 255) % 256 :=
    Nat.mod_eq_of_lt (by omega)
  have e5 : (256 + (sp + 255) % 256) &&& 2047 = 256 + (sp + 255) % 256 := by
    rw [and_7FF]
    exact Nat.mod_eq_of_lt (by omega)
  have e6 : 256 + (sp + 255) % 256 < 8192 := by omega
  have e7 : isub sp 1 % 256 = (sp + 255) % 256 := by
    simp only [isub]
    omega
  have e8 : isub ((a + 1 + 1 + 1) % 65536) 1 >>> 8 % 256 = (a + 2) / 256 % 256 := by
    simp only [isub, Nat.shiftRight_eq_div_pow]
    omega
  have e9 : (isub ((a + 1 + 1 + 1) % 65536) 1 &&& 255) % 256 = (a + 2) % 256 := by
    simp only [isub, and_FF]
    omega
  refine ⟨?_, ?_, ?_, ?_, ?_, fun i => ?_⟩ <;>
    simp [run_cycle_fetch, run_cycle_decode, decode_opcode_20, op_20, read_memory_val, hidx, hh,
      hss, hpc, h0, h1, h2, hs, push, write_memory, single_step_halt, e1, e2, e3, e4, e5, e6, e7,
      e8, e9]

/-- The byte on the bus depends on RAM only through the cell the address
decodes to. -/
theorem bus_val_congr (ram1 ram2 : Nat → Nat) (cpur : Option mem_read_callback)
    (prg : Nat → Nat) (mask a : Nat)
    (h : a % 65536 < 0x2000 → ram1 ((a % 65536) &&& 0x7FF) = ram2 ((a % 65536) &&& 0x7FF)) :
    bus_val ram1 cpur prg mask a = bus_val ram2 cpur prg mask a := by
  by_cases hl : a % 65536 < 0x2000
  · simp only [bus_val, read_memory, hl, if_true, h hl]
  · simp only [bus_val, read_memory, hl, if_false, mapper_read]
    cases cpur with
    | none => rfl
    | some cb =>
      cases cb
      rfl

/-- C36. JSR/RTS round trip: for a running machine at an instruction boundary
(single-step mode off) with a JSR at address a whose target t holds the opcode
RTS (0x60), where t does not decode to one of the two RAM cells the pushes write
(`$0100 + S` and `$0100 + (S - 1) mod 256`), JSR retires after 6 cycles with
PC = t and the opcode RTS still at t, RTS retires after 6 more, and then
PC = (a + 3) mod 65536, S is its initial value, and A, X, Y and P are unchanged. -/
theorem jsr_rts_round_trip (s : State) (a lo hi sp : Nat) (hidx : s.cur_instr_index = 0)
    (hh : s.hang = 0) (hss : s.p6502_single_step = 0)
    (hpc : s.pc = a) (ha : a < 65536) (hs : s.reg_s = sp) (hsp : sp < 256)
    (h0 : rd s a = 0x20) (h1 : rd s (a + 1) = lo) (h2 : rd s (a + 2) = hi)
    (h60 : rd s (lo ||| (hi <<< 8)) = 0x60)
    (hna : (lo ||| (hi <<< 8)) % 65536 < 0x2000 →
      ((lo ||| (hi <<< 8)) % 65536) &&& 0x7FF ≠ 0x100 + sp ∧
      ((lo ||| (hi <<< 8)) % 65536) &&& 0x7FF ≠ 0x100 + (sp + 255) % 256) :
    retires_after s 6 ∧ retires_after (run_cycles 6 s) 6 ∧
    (run_cycles 6 s).pc = lo ||| (hi <<< 8) ∧
    rd (run_cycles 6 s) (lo ||| (hi <<< 8)) = 0x60 ∧
    run_cycles 12 s = run_cycles 6 (run_cycles 6 s) ∧
    (run_cycles 12 s).pc = (a + 3) % 65536 ∧ (run_cycles 12 s).reg_s = sp ∧
    (run_cycles 12 s).reg_a = s.reg_a ∧ (run_cycles 12 s).reg_x = s.reg_x ∧
    (run_cycles 12 s).reg_y = s.reg_y ∧ (run_cycles 12 s).reg_p = s.reg_p := by
  obtain ⟨j1, _, j3, j4, j5, j6, j7, j8⟩ := jsr_exec s a lo hi sp hidx hh hpc ha hs hsp h0 h1 h2
  obtain ⟨m1, m2, m3, m4, m5, m6⟩ := jsr_memory s a lo hi sp hidx hh hss hpc hs hsp h0 h1 h2
  have g60 : rd (run_cycles 6 s) (lo ||| (hi <<< 8)) = 0x60 := by
    rw [← h60, rd_val, rd_val, m3, m4, m5]
    refine bus_val_congr _ _ _ _ _ _ fun hl => ?_
    obtain ⟨n1, n2⟩ := hna hl
    rw [m6, if_neg n2, if_neg n1]
  have k1 : rd (run_cycles 6 s) (0x100 + ((sp + 254) % 256 + 1) % 256) = (a + 2) % 256 := by
    have e : ((sp + 254) % 256 + 1) % 256 = (sp + 255) % 256 := by omega
    rw [rd_val, bus_val_ram _ _ _ _ _ (by omega), m6, e, if_pos rfl]
    omega
  have k2 : rd (run_cycles 6 s) (0x100 + ((sp + 254) % 256 + 2) % 256) = (a + 2) / 256 % 256 := by
    have e : ((sp + 254) % 256 + 2) % 256 = sp := by omega
    have e2 : ¬ (0x100 + sp = 0x100 + (sp + 255) % 256) := by omega
    rw [rd_val, bus_val_ram _ _ _ _ _ (by omega), m6, e, if_neg e2, if_pos rfl]
    omega
  obtain ⟨r1, _, r3, r4, r5, r6, r7, r8⟩ :=
    rts_exec (run_cycles 6 s) (lo ||| (hi <<< 8)) ((a + 2) % 256) ((a + 2) / 256 % 256)
      ((sp + 254) % 256) j1.2.1 m1 j4 j3 g60 k1 k2
  have hadd : run_cycles 12 s = run_cycles 6 (run_cycles 6 s) := run_cycles_add 6 6 s
  have hw : (((a + 2) / 256 % 256) <<< 8 ||| (a + 2) % 256) = (a + 2) % 65536 := by
    rw [Nat.lor_comm, word_eq _ _ (by omega)]
    omega
  refine ⟨j1, r1, j4, g60, hadd, ?_, ?_, ?_, ?_, ?_, ?_⟩
  · rw [hadd, r4, hw]
    omega
  · rw [hadd, r3]
    omega
  · rw [hadd, r6, j6]
  · rw [hadd, r7, j7]
  · rw [hadd, r8, j8]
  · rw [hadd, r5, j5]

/-- C36 (witness): the machine with `JSR $0234` at `$0000` and RTS at `$0234`;
the pushes write `$01FD` and `$01FC`. -/
theorem jsr_rts_round_trip_witness :
    (rd jsr_machine 0 = 0x20 ∧ rd jsr_machine 0x234 = 0x60 ∧ jsr_machine.reg_s = 0xFD) ∧
    (run_cycles 12 jsr_machine).pc = 3 ∧ (run_cycles 12 jsr_machine).reg_s = 0xFD ∧
    (run_cycles 12 jsr_machine).reg_a = 0x42 ∧ (run_cycles 12 jsr_machine).reg_p = 0x25 :=
  ⟨⟨by decide, by decide, by decide⟩,
    (jsr_rts_round_trip jsr_machine 0 0x34 0x02 0xFD (by decide) (by decide) (by decide)
      (by decide) (by decide) (by decide) (by decide) (by decide) (by decide) (by decide)
      (by decide) (by decide)).2.2.2.2.2.1,
    (jsr_rts_round_trip jsr_machine 0 0x34 0x02 0xFD (by decide) (by decide) (by decide)
      (by decide) (by decide) (by decide) (by decide) (by decide) (by decide) (by decide)
      (by decide) (by decide)).2.2.2.2.2.2.1,
    (jsr_rts_round_trip jsr_machine 0 0x34 0x02 0xFD (by decide) (by decide) (by decide)
      (by decide) (by decide) (by decide) (by decide) (by decide) (by decide) (by decide)
      (by decide) (by decide)).2.2.2.2.2.2.2.1,
    (jsr_rts_round_trip jsr_machine 0 0x34 0x02 0xFD (by decide) (by decide) (by decide)
      (by decide) (by decide) (by decide) (by decide) (by decide) (by decide) (by decide)
      (by decide) (by decide)).2.2.2.2.2.2.2.2.2.2⟩
/-! ## Logic and load operations (C33) -/

/-- The flags after the N/Z update from a byte `r`. -/
theorem nz_flags_bits (p r q : Nat)
    (hq : q = set_flag (set_flag p STATUS_NEGATIVE (decide (r &&& 0x80 ≠ 0))) STATUS_ZERO
      (decide (¬ (r ≠ 0)))) :
    (q &&& 0x80 ≠ 0 ↔ r &&& 0x80 ≠ 0) ∧ (q &&& 0x02 ≠ 0 ↔ r = 0) ∧
    q &&& 0x01 = p &&& 0x01 ∧ q &&& 0x40 = p &&& 0x40 ∧
    q &&& 0x04 = p &&& 0x04 ∧ q &&& 0x08 = p &&& 0x08 := by
  subst hq
  refine ⟨?_, ?_, and_pow_congr _ _ 0 ?_, and_pow_congr _ _ 6 ?_, and_pow_congr _ _ 2 ?_,
    and_pow_congr _ _ 3 ?_⟩
  · refine Iff.trans (and_80 _) ?_
    simp only [testBit_set_flag_Z, testBit_set_flag_N]
    simp
  · refine Iff.trans (and_02 _) ?_
    simp only [testBit_set_flag_Z, testBit_set_flag_N]
    simp
  all_goals
    simp only [testBit_set_flag_Z, testBit_set_flag_N]
    simp

/-- ORA, AND, EOR and LDA through the ALU group: when the instruction retires by
running the operation switch on a state `T` that carries the registers and memory
of `s`, the opcode and the operand, the outcome is that of the operation. -/
theorem logic_of_alu (s T : State) (op n M : Nat)
    (hfin : run_cycles n s = single_step_halt (set_index (alu_operation T) 0))
    (hop : T.cur_instr 0 = op)
    (hc : op &&& 0xE0 = 0x00 ∨ op &&& 0xE0 = 0x20 ∨ op &&& 0xE0 = 0x40 ∨ op &&& 0xE0 = 0xA0)
    (hsm : same_machine s T)
    (h4 : T.cur_instr 4 = M) (hM : M < 256) (hA : s.reg_a < 256) :
    logic_outcome s (run_cycles n s) (logic_result op s.reg_a M) := by
  obtain ⟨h1, h2, h3, h5, h6, h7, h8⟩ := hsm
  have hor : s.reg_a ||| M < 256 := Nat.or_lt_two_pow (n := 8) hA hM
  have hand : s.reg_a &&& M < 256 := Nat.lt_of_le_of_lt Nat.and_le_left hA
  have hxor : s.reg_a ^^^ M < 256 := Nat.xor_lt_two_pow (n := 8) hA hM
  have key : alu_operation T =
      set_nz { T with reg_a := logic_result op s.reg_a M } (logic_result op s.reg_a M) := by
    rcases hc with hc | hc | hc | hc <;>
      simp [alu_operation, logic_result, hop, hc, h4, h1, Nat.mod_eq_of_lt hM,
        Nat.mod_eq_of_lt hor, Nat.mod_eq_of_lt hand, Nat.mod_eq_of_lt hxor]
  rw [hfin, key]
  have hb := nz_flags_bits s.reg_p (logic_result op s.reg_a M) _ rfl
  refine ⟨?_, ?_, ?_, ?_, ?_, ?_, ?_, ?_, ?_, ?_, ?_, ?_⟩
  · simp
  · simpa [h6] using hb.1
  · simpa [h6] using hb.2.1
  · simpa [h6] using hb.2.2.1
  · simpa [h6] using hb.2.2.2.1
  · simpa [h6] using hb.2.2.2.2.1
  · simpa [h6] using hb.2.2.2.2.2
  all_goals simp [*]

/-- C33. Logic and load operations: for every ALU-group opcode with `op & 0xE0`
in 0x00 (ORA), 0x20 (AND), 0x40 (EOR), 0xA0 (LDA), in each addressing mode, with
M the immediate byte or the byte at the effective address (zero-page,X:
(zp + X) mod 256; indexed modes: (base + index) mod 65536), the instruction run
from an instruction boundary retires with A = A | M, A & M, A ^ M or M
(`logic_result`), N = bit 7 of the result, Z iff the result is 0, and C, V, I, D,
X, Y, S and memory unchanged (`logic_outcome`). -/
theorem logic_and_load (s : State) (op : Nat) (hidx : s.cur_instr_index = 0) (hh : s.hang = 0)
    (h0 : rd s s.pc = op) (h3 : op &&& 0x03 = 0x01)
    (hc : op &&& 0xE0 = 0x00 ∨ op &&& 0xE0 = 0x20 ∨ op &&& 0xE0 = 0x40 ∨ op &&& 0xE0 = 0xA0)
    (hA : s.reg_a < 256) (hx : s.reg_x < 256) (hy : s.reg_y < 256) :
    (op &&& 0x1D = 0x09 →
        retires_after s 2 ∧
        logic_outcome s (run_cycles 2 s) (logic_result op s.reg_a (rd s (s.pc + 1)))) ∧
    (op &&& 0x1D = 0x05 →
        retires_after s 3 ∧
        logic_outcome s (run_cycles 3 s) (logic_result op s.reg_a (rd s (rd s (s.pc + 1))))) ∧
    (op &&& 0x1D = 0x15 →
        retires_after s 4 ∧
        logic_outcome s (run_cycles 4 s) (logic_result op s.reg_a (rd s ((s.reg_x + rd s (s.pc + 1)) % 256)))) ∧
    (op &&& 0x1D = 0x0D →
        retires_after s 4 ∧
        logic_outcome s (run_cycles 4 s) (logic_result op s.reg_a (rd s (rd s (s.pc + 1) + 256 * rd s (s.pc + 2))))) ∧
    (op &&& 0x1D = 0x01 →
        retires_after s 6 ∧
        logic_outcome s (run_cycles 6 s) (logic_result op s.reg_a (rd s (rd s ((rd s (s.pc + 1) + s.reg_x) % 256) +
            256 * rd s ((rd s (s.pc + 1) + s.reg_x + 1) % 256))))) ∧
    (op &&& 0x1D = 0x1D →
        retires_after s (if (rd s (s.pc + 1) + 256 * rd s (s.pc + 2) + s.reg_x) / 256 = (rd s (s.pc + 1) + 256 * rd s (s.pc + 2)) / 256 then 4 else 5) ∧
        logic_outcome s (run_cycles (if (rd s (s.pc + 1) + 256 * rd s (s.pc + 2) + s.reg_x) / 256 = (rd s (s.pc + 1) + 256 * rd s (s.pc + 2)) / 256 then 4 else 5) s) (logic_result op s.reg_a (rd s ((rd s (s.pc + 1) + 256 * rd s (s.pc + 2) + s.reg_x) % 65536)))) ∧
    (op &&& 0x1D = 0x19 →
        retires_after s (if (rd s (s.pc + 1) + 256 * rd s (s.pc + 2) + s.reg_y) / 256 = (rd s (s.pc + 1) + 256 * rd s (s.pc + 2)) / 256 then 4 else 5) ∧
        logic_outcome s (run_cycles (if (rd s (s.pc + 1) + 256 * rd s (s.pc + 2) + s.reg_y) / 256 = (rd s (s.pc + 1) + 256 * rd s (s.pc + 2)) / 256 then 4 else 5) s) (logic_result op s.reg_a (rd s ((rd s (s.pc + 1) + 256 * rd s (s.pc + 2) + s.reg_y) % 65536)))) ∧
    (op &&& 0x1D = 0x11 →
        retires_after s (if (rd s (rd s (s.pc + 1)) + 256 * rd s ((rd s (s.pc + 1) + 1) % 256) + s.reg_y) / 256 = (rd s (rd s (s.pc + 1)) + 256 * rd s ((rd s (s.pc + 1) + 1) % 256)) / 256 then 5 else 6) ∧
        logic_outcome s (run_cycles (if (rd s (rd s (s.pc + 1)) + 256 * rd s ((rd s (s.pc + 1) + 1) % 256) + s.reg_y) / 256 = (rd s (rd s (s.pc + 1)) + 256 * rd s ((rd s (s.pc + 1) + 1) % 256)) / 256 then 5 else 6) s) (logic_result op s.reg_a (rd s ((rd s (rd s (s.pc + 1)) + 256 * rd s ((rd s (s.pc + 1) + 1) % 256) + s.reg_y) % 65536)))) := by
  have hns : op &&& 0xE0 ≠ 0x80 := by
    rcases hc with hc | hc | hc | hc <;> rw [hc] <;> decide
  refine ⟨?_, ?_, ?_, ?_, ?_, ?_, ?_, ?_⟩
  · intro hm
    obtain ⟨hr, hfin, hop0, hsm, h4⟩ := alu_immediate_exec s op hidx hh h0 h3 hm
    exact ⟨hr, logic_of_alu s _ op 2 _ hfin hop0 hc hsm h4 (rd_lt _ _) hA⟩
  · intro hm
    obtain ⟨hr, hfin, hop0, hsm, _, h4⟩ := alu_zero_page_exec s op hidx hh h0 h3 hm
    exact ⟨hr, logic_of_alu s _ op 3 _ hfin hop0 hc hsm (h4 hns) (rd_lt _ _) hA⟩
  · intro hm
    obtain ⟨hr, hfin, hop0, hsm, _, h4⟩ := alu_zero_page_x_exec s op hidx hh h0 h3 hm
    exact ⟨hr, logic_of_alu s _ op 4 _ hfin hop0 hc hsm (h4 hns) (rd_lt _ _) hA⟩
  · intro hm
    obtain ⟨hr, hfin, hop0, hsm, _, h4⟩ := alu_absolute_exec s op hidx hh h0 h3 hm
    exact ⟨hr, logic_of_alu s _ op 4 _ hfin hop0 hc hsm (h4 hns) (rd_lt _ _) hA⟩
  · intro hm
    obtain ⟨hr, hfin, hop0, hsm, _, h4⟩ := alu_indirect_x_exec s op hidx hh h0 h3 hm
    exact ⟨hr, logic_of_alu s _ op 6 _ hfin hop0 hc hsm (h4 hns) (rd_lt _ _) hA⟩
  · intro hm
    have H := alu_absolute_x_exec s op _ _ _ hidx hh h0 h3 hm rfl rfl hx rfl
    simp only [hns, ne_eq, not_false_eq_true, and_true, true_implies] at H
    obtain ⟨hr, hfin, hop0, hsm, _, h4⟩ := H
    exact ⟨hr, logic_of_alu s _ op _ _ hfin hop0 hc hsm h4 (rd_lt _ _) hA⟩
  · intro hm
    have H := alu_absolute_y_exec s op _ _ _ hidx hh h0 h3 hm rfl rfl hy rfl
    simp only [hns, ne_eq, not_false_eq_true, and_true, true_implies] at H
    obtain ⟨hr, hfin, hop0, hsm, _, h4⟩ := H
    exact ⟨hr, logic_of_alu s _ op _ _ hfin hop0 hc hsm h4 (rd_lt _ _) hA⟩
  · intro hm
    have H := alu_indirect_y_exec s op _ _ _ _ hidx hh h0 h3 hm rfl rfl rfl hy rfl
    simp only [hns, ne_eq, not_false_eq_true, and_true, true_implies] at H
    obtain ⟨hr, hfin, hop0, hsm, _, h4⟩ := H
    exact ⟨hr, logic_of_alu s _ op _ _ hfin hop0 hc hsm h4 (rd_lt _ _) hA⟩

/-- Witness of C33: `EOR $01FF,X` (`$5D`) with A = `$42`, X = 1 and
RAM[`$0200`] = `$40` retires at cycle 5 with A = `$02`, N and Z clear. -/
theorem logic_and_load_witness :
    ((alu_state 0x5D).cur_instr_index = 0 ∧ (alu_state 0x5D).hang = 0 ∧
      rd (alu_state 0x5D) (alu_state 0x5D).pc = 0x5D ∧ 0x5D &&& 0x03 = 0x01 ∧
      0x5D &&& 0xE0 = 0x40 ∧ 0x5D &&& 0x1D = 0x1D) ∧
    (run_cycles 5 (alu_state 0x5D)).reg_a = 0x02 ∧
    (run_cycles 5 (alu_state 0x5D)).reg_p = 0x24 ∧
    logic_outcome (alu_state 0x5D) (run_cycles 5 (alu_state 0x5D))
      (logic_result 0x5D (alu_state 0x5D).reg_a 0x40) :=
  ⟨⟨by decide, by decide, by decide, by decide, by decide, by decide⟩, by decide, by decide,
    ((logic_and_load (alu_state 0x5D) 0x5D (by decide) (by decide) (by decide) (by decide)
      (Or.inr (Or.inr (Or.inl (by decide)))) (by decide) (by decide) (by decide)).2.2.2.2.2.1
      (by decide)).2⟩
/-! ## Bus traces of the ALU group (C31, C32) -/

/-- The operation switch of the ALU group issues no bus access unless the
operation is STA. -/
theorem alu_operation_bus (T : State) (h : T.cur_instr 0 &&& 0xE0 ≠ 0x80) :
    (alu_operation T).bus = T.bus := by
  simp only [alu_operation]
  split_ifs <;> simp

/-- The bus log of a read instruction of the ALU group at retirement is the log
of the state its operation switch runs on. -/
theorem alu_read_bus (s T : State) (n : Nat)
    (hfin : run_cycles n s = single_step_halt (set_index (alu_operation T) 0))
    (hns : T.cur_instr 0 &&& 0xE0 ≠ 0x80) : (run_cycles n s).bus = T.bus := by
  rw [hfin]
  simp [alu_operation_bus T hns]

/-- STA through the ALU group: the operation switch writes A to the address in
latch bytes 1 and 2 and changes no register and no flag. -/
theorem sta_of_alu (s T : State) (op n ea : Nat)
    (hfin : run_cycles n s = single_step_halt (set_index (alu_operation T) 0))
    (hop : T.cur_instr 0 = op) (hsta : op &&& 0xE0 = 0x80) (hsm : same_machine s T)
    (hea : T.cur_instr 1 ||| (T.cur_instr 2 <<< 8) = ea) :
    (run_cycles n s).bus = T.bus ++ [Access.write (ea % 65536) (s.reg_a % 256)] ∧
    (run_cycles n s).reg_a = s.reg_a ∧ (run_cycles n s).reg_x = s.reg_x ∧
    (run_cycles n s).reg_y = s.reg_y ∧ (run_cycles n s).reg_p = s.reg_p := by
  obtain ⟨h1, h2, h3, h5, h6, h7, h8⟩ := hsm
  have key : alu_operation T = write_memory T ea s.reg_a := by
    simp [alu_operation, hop, hsta, hea, h1]
  rw [hfin, key]
  refine ⟨?_, ?_, ?_, ?_, ?_⟩ <;> simp [*]


set_option maxHeartbeats 1600000 in
theorem sta_zero_page_bus (s : State) (op : Nat) (hidx : s.cur_instr_index = 0)
    (hh : s.hang = 0) (h0 : rd s s.pc = op) (h3 : op &&& 0x3 = 0x1)
    (hm : op &&& 0x1D = 0x05) (hsta : op &&& 0xE0 = 0x80) :
    (alu_ready_state s 3).bus = s.bus ++ [Access.read (s.pc % 65536), Access.read ((s.pc + 1) % 65536)] := by
  rw [rd_val] at h0
  have hop : op % 256 = op := by rw [← h0]; simp
  simp [rd_val, alu_ready_state, run_cycle_fetch, run_cycle_decode, decode_opcode_alu,
    decode_alu, alu_addressing, alu_zero_page, read_memory_val, hidx, hh, h0, h3, hm, hsta, hop, FF_and,
    word_eq, bus_val_lt, Nat.add_assoc]

set_option maxHeartbeats 1600000 in
theorem sta_zero_page_x_bus (s : State) (op : Nat) (hidx : s.cur_instr_index = 0)
    (hh : s.hang = 0) (h0 : rd s s.pc = op) (h3 : op &&& 0x3 = 0x1)
    (hm : op &&& 0x1D = 0x15) (hsta : op &&& 0xE0 = 0x80) :
    (alu_ready_state s 4).bus = s.bus ++ [Access.read (s.pc % 65536), Access.read ((s.pc + 1) % 65536)] := by
  rw [rd_val] at h0
  have hop : op % 256 = op := by rw [← h0]; simp
  simp [rd_val, alu_ready_state, run_cycle_fetch, run_cycle_decode, decode_opcode_alu,
    decode_alu, alu_addressing, alu_zero_page_x, read_memory_val, hidx, hh, h0, h3, hm, hsta, hop, FF_and,
    word_eq, bus_val_lt, Nat.add_assoc]

set_option maxHeartbeats 1600000 in
theorem sta_absolute_bus (s : State) (op : Nat) (hidx : s.cur_instr_index = 0)
    (hh : s.hang = 0) (h0 : rd s s.pc = op) (h3 : op &&& 0x3 = 0x1)
    (hm : op &&& 0x1D = 0x0D) (hsta : op &&& 0xE0 = 0x80) :
    (alu_ready_state s 4).bus = s.bus ++ [Access.read (s.pc % 65536), Access.read ((s.pc + 1) % 65536),
      Access.read ((s.pc + 2) % 65536)] := by
  rw [rd_val] at h0
  have hop : op % 256 = op := by rw [← h0]; simp
  simp [rd_val, alu_ready_state, run_cycle_fetch, run_cycle_decode, decode_opcode_alu,
    decode_alu, alu_addressing, alu_absolute, read_memory_val, hidx, hh, h0, h3, hm, hsta, hop, FF_and,
    word_eq, bus_val_lt, Nat.add_assoc]

set_option maxHeartbeats 1600000 in
theorem sta_indirect_x_bus (s : State) (op : Nat) (hidx : s.cur_instr_index = 0)
    (hh : s.hang = 0) (h0 : rd s s.pc = op) (h3 : op &&& 0x3 = 0x1)
    (hm : op &&& 0x1D = 0x01) (hsta : op &&& 0xE0 = 0x80) :
    (alu_ready_state s 6).bus = s.bus ++ [Access.read (s.pc % 65536), Access.read ((s.pc + 1) % 65536),
      Access.read ((rd s (s.pc + 1) + s.reg_x) % 256),
      Access.read ((rd s (s.pc + 1) + s.reg_x + 1) % 256)] := by
  rw [rd_val] at h0
  have hop : op % 256 = op := by rw [← h0]; simp
  simp [rd_val, alu_ready_state, run_cycle_fetch, run_cycle_decode, decode_opcode_alu,
    decode_alu, alu_addressing, alu_indirect_x, read_memory_val, hidx, hh, h0, h3, hm, hsta, hop, FF_and,
    word_eq, bus_val_lt, Nat.add_assoc]
  constructor <;> omega


set_option maxHeartbeats 1600000 in
/-- STA absolute,X: the addressing step at index 3 reads the effective
address before the write. -/
theorem sta_absolute_x_bus (s : State) (op b1 b2 : Nat) (hidx : s.cur_instr_index = 0)
    (hh : s.hang = 0) (h0 : rd s s.pc = op) (h3 : op &&& 0x3 = 0x1)
    (hm : op &&& 0x1D = 0x1D) (hsta : op &&& 0xE0 = 0x80)
    (h1 : rd s (s.pc + 1) = b1) (h2 : rd s (s.pc + 2) = b2) :
    (alu_ready_state s 5).bus = s.bus ++ [Access.read (s.pc % 65536), Access.read ((s.pc + 1) % 65536),
      Access.read ((s.pc + 2) % 65536),
      Access.read ((b1 + 256 * b2 + s.reg_x) % 65536)] := by
  rw [rd_val] at h0 h1 h2
  have hop : op % 256 = op := by rw [← h0]; simp
  have hb1 : b1 < 256 := by rw [← h1]; exact bus_val_lt _ _ _ _ _
  have hb2 : b2 < 256 := by rw [← h2]; exact bus_val_lt _ _ _ _ _
  have hb1m : b1 % 256 = b1 := Nat.mod_eq_of_lt hb1
  have hb2m : b2 % 256 = b2 := Nat.mod_eq_of_lt hb2
  simp [rd_val, alu_ready_state, run_cycle_fetch, run_cycle_decode,
    decode_opcode_alu, decode_alu, alu_addressing, alu_absolute_x, read_memory_val, hidx, hh,
    h0, h1, h2, h3, hm, hsta, hop, hb1m, hb2m, FF_and, and_FF, word_eq_mul, bus_val_lt,
    Nat.add_assoc, Nat.shiftLeft_eq, Nat.shiftRight_eq_div_pow, Nat.mod_lt]
  omega

set_option maxHeartbeats 1600000 in
/-- Absolute,X read with a page crossing: the four reads are issued in the
first four cycles, the fourth at the fixed address; the fifth cycle issues none. -/
theorem alu_absolute_x_cross_bus (s : State) (op b1 b2 : Nat) (hidx : s.cur_instr_index = 0)
    (hh : s.hang = 0) (h0 : rd s s.pc = op) (h3 : op &&& 0x3 = 0x1)
    (hm : op &&& 0x1D = 0x1D) (hsta : ¬ op &&& 0xE0 = 0x80)
    (h1 : rd s (s.pc + 1) = b1) (h2 : rd s (s.pc + 2) = b2) (hx : s.reg_x < 256)
    (hpg : ¬ (b1 + 256 * b2 + s.reg_x) / 256 = (b1 + 256 * b2) / 256) :
    (run_cycles 3 s).bus = s.bus ++ [Access.read (s.pc % 65536), Access.read ((s.pc + 1) % 65536),
      Access.read ((s.pc + 2) % 65536)] ∧
    (run_cycles 4 s).bus = s.bus ++ [Access.read (s.pc % 65536), Access.read ((s.pc + 1) % 65536),
      Access.read ((s.pc + 2) % 65536),
      Access.read ((b1 + 256 * b2 + s.reg_x) % 65536)] ∧
    (alu_ready_state s 5).bus = s.bus ++ [Access.read (s.pc % 65536), Access.read ((s.pc + 1) % 65536),
      Access.read ((s.pc + 2) % 65536),
      Access.read ((b1 + 256 * b2 + s.reg_x) % 65536)] := by
  rw [rd_val] at h0 h1 h2
  have hop : op % 256 = op := by rw [← h0]; simp
  have hb1 : b1 < 256 := by rw [← h1]; exact bus_val_lt _ _ _ _ _
  have hb2 : b2 < 256 := by rw [← h2]; exact bus_val_lt _ _ _ _ _
  have hb1m : b1 % 256 = b1 := Nat.mod_eq_of_lt hb1
  have hb2m : b2 % 256 = b2 := Nat.mod_eq_of_lt hb2
  have hc : ¬ ((s.reg_x + (b1 + b2 * 256)) % 65536 / 256 = b2) := by omega
  refine ⟨?_, ?_, ?_⟩
  · simp [rd_val, alu_ready_state, run_cycle_fetch, run_cycle_decode,
    decode_opcode_alu, decode_alu, alu_addressing, alu_absolute_x, read_memory_val, hidx, hh,
    h0, h1, h2, h3, hm, hsta, hop, hb1m, hb2m, FF_and, and_FF, word_eq_mul, bus_val_lt,
    Nat.add_assoc, Nat.shiftLeft_eq, Nat.shiftRight_eq_div_pow, Nat.mod_lt, hc]
  · simp [rd_val, alu_ready_state, run_cycle_fetch, run_cycle_decode,
    decode_opcode_alu, decode_alu, alu_addressing, alu_absolute_x, read_memory_val, hidx, hh,
    h0, h1, h2, h3, hm, hsta, hop, hb1m, hb2m, FF_and, and_FF, word_eq_mul, bus_val_lt,
    Nat.add_assoc, Nat.shiftLeft_eq, Nat.shiftRight_eq_div_pow, Nat.mod_lt, hc]
    omega
  · simp [rd_val, alu_ready_state, run_cycle_fetch, run_cycle_decode,
    decode_opcode_alu, decode_alu, alu_addressing, alu_absolute_x, read_memory_val, hidx, hh,
    h0, h1, h2, h3, hm, hsta, hop, hb1m, hb2m, FF_and, and_FF, word_eq_mul, bus_val_lt,
    Nat.add_assoc, Nat.shiftLeft_eq, Nat.shiftRight_eq_div_pow, Nat.mod_lt, hc]
    omega


set_option maxHeartbeats 1600000 in
/-- STA absolute,Y: the addressing step at index 3 reads the effective
address before the write. -/
theorem sta_absolute_y_bus (s : State) (op b1 b2 : Nat) (hidx : s.cur_instr_index = 0)
    (hh : s.hang = 0) (h0 : rd s s.pc = op) (h3 : op &&& 0x3 = 0x1)
    (hm : op &&& 0x1D = 0x19) (hsta : op &&& 0xE0 = 0x80)
    (h1 : rd s (s.pc + 1) = b1) (h2 : rd s (s.pc + 2) = b2) :
    (alu_ready_state s 5).bus = s.bus ++ [Access.read (s.pc % 65536), Access.read ((s.pc + 1) % 65536),
      Access.read ((s.pc + 2) % 65536),
      Access.read ((b1 + 256 * b2 + s.reg_y) % 65536)] := by
  rw [rd_val] at h0 h1 h2
  have hop : op % 256 = op := by rw [← h0]; simp
  have hb1 : b1 < 256 := by rw [← h1]; exact bus_val_lt _ _ _ _ _
  have hb2 : b2 < 256 := by rw [← h2]; exact bus_val_lt _ _ _ _ _
  have hb1m : b1 % 256 = b1 := Nat.mod_eq_of_lt hb1
  have hb2m : b2 % 256 = b2 := Nat.mod_eq_of_lt hb2
  simp [rd_val, alu_ready_state, run_cycle_fetch, run_cycle_decode,
    decode_opcode_alu, decode_alu, alu_addressing, alu_absolute_y, read_memory_val, hidx, hh,
    h0, h1, h2, h3, hm, hsta, hop, hb1m, hb2m, FF_and, and_FF, word_eq_mul, bus_val_lt,
    Nat.add_assoc, Nat.shiftLeft_eq, Nat.shiftRight_eq_div_pow, Nat.mod_lt]
  omega

set_option maxHeartbeats 1600000 in
/-- Absolute,Y read with a page crossing: the four reads are issued in the
first four cycles, the fourth at the fixed address; the fifth cycle issues none. -/
theorem alu_absolute_y_cross_bus (s : State) (op b1 b2 : Nat) (hidx : s.cur_instr_index = 0)
    (hh : s.hang = 0) (h0 : rd s s.pc = op) (h3 : op &&& 0x3 = 0x1)
    (hm : op &&& 0x1D = 0x19) (hsta : ¬ op &&& 0xE0 = 0x80)
    (h1 : rd s (s.pc + 1) = b1) (h2 : rd s (s.pc + 2) = b2) (hx : s.reg_y < 256)
    (hpg : ¬ (b1 + 256 * b2 + s.reg_y) / 256 = (b1 + 256 * b2) / 256) :
    (run_cycles 3 s).bus = s.bus ++ [Access.read (s.pc % 65536), Access.read ((s.pc + 1) % 65536),
      Access.read ((s.pc + 2) % 65536)] ∧
    (run_cycles 4 s).bus = s.bus ++ [Access.read (s.pc % 65536), Access.read ((s.pc + 1) % 65536),
      Access.read ((s.pc + 2) % 65536),
      Access.read ((b1 + 256 * b2 + s.reg_y) % 65536)] ∧
    (alu_ready_state s 5).bus = s.bus ++ [Access.read (s.pc % 65536), Access.read ((s.pc + 1) % 65536),
      Access.read ((s.pc + 2) % 65536),
      Access.read ((b1 + 256 * b2 + s.reg_y) % 65536)] := by
  rw [rd_val] at h0 h1 h2
  have hop : op % 256 = op := by rw [← h0]; simp
  have hb1 : b1 < 256 := by rw [← h1]; exact bus_val_lt _ _ _ _ _
  have hb2 : b2 < 256 := by rw [← h2]; exact bus_val_lt _ _ _ _ _
  have hb1m : b1 % 256 = b1 := Nat.mod_eq_of_lt hb1
  have hb2m : b2 % 256 = b2 := Nat.mod_eq_of_lt hb2
  have hc : ¬ ((s.reg_y + (b1 + b2 * 256)) % 65536 / 256 = b2) := by omega
  refine ⟨?_, ?_, ?_⟩
  · simp [rd_val, alu_ready_state, run_cycle_fetch, run_cycle_decode,
    decode_opcode_alu, decode_alu, alu_addressing, alu_absolute_y, read_memory_val, hidx, hh,
    h0, h1, h2, h3, hm, hsta, hop, hb1m, hb2m, FF_and, and_FF, word_eq_mul, bus_val_lt,
    Nat.add_assoc, Nat.shiftLeft_eq, Nat.shiftRight_eq_div_pow, Nat.mod_lt, hc]
  · simp [rd_val, alu_ready_state, run_cycle_fetch, run_cycle_decode,
    decode_opcode_alu, decode_alu, alu_addressing, alu_absolute_y, read_memory_val, hidx, hh,
    h0, h1, h2, h3, hm, hsta, hop, hb1m, hb2m, FF_and, and_FF, word_eq_mul, bus_val_lt,
    Nat.add_assoc, Nat.shiftLeft_eq, Nat.shiftRight_eq_div_pow, Nat.mod_lt, hc]
    omega
  · simp [rd_val, alu_ready_state, run_cycle_fetch, run_cycle_decode,
    decode_opcode_alu, decode_alu, alu_addressing, alu_absolute_y, read_memory_val, hidx, hh,
    h0, h1, h2, h3, hm, hsta, hop, hb1m, hb2m, FF_and, and_FF, word_eq_mul, bus_val_lt,
    Nat.add_assoc, Nat.shiftLeft_eq, Nat.shiftRight_eq_div_pow, Nat.mod_lt, hc]
    omega


set_option maxHeartbeats 1600000 in
theorem sta_indirect_y_bus (s : State) (op z lo hi : Nat) (hidx : s.cur_instr_index = 0)
    (hh : s.hang = 0) (h0 : rd s s.pc = op) (h3 : op &&& 0x3 = 0x1)
    (hm : op &&& 0x1D = 0x11) (hsta : op &&& 0xE0 = 0x80)
    (h1 : rd s (s.pc + 1) = z) (hl : rd s z = lo) (hh2 : rd s ((z + 1) % 256) = hi) :
    (alu_ready_state s 6).bus = s.bus ++ [Access.read (s.pc % 65536), Access.read ((s.pc + 1) % 65536),
      Access.read z, Access.read ((z + 1) % 256)] := by
  rw [rd_val] at h0 h1 hl hh2
  have hop : op % 256 = op := by rw [← h0]; simp
  have hz : z < 256 := by rw [← h1]; exact bus_val_lt _ _ _ _ _
  have hlo : lo < 256 := by rw [← hl]; exact bus_val_lt _ _ _ _ _
  have hhi : hi < 256 := by rw [← hh2]; exact bus_val_lt _ _ _ _ _
  have hzm : z % 256 = z := Nat.mod_eq_of_lt hz
  have hlm : lo % 256 = lo := Nat.mod_eq_of_lt hlo
  have hhm : hi % 256 = hi := Nat.mod_eq_of_lt hhi
  simp [rd_val, alu_ready_state, run_cycle_fetch, run_cycle_decode,
    decode_opcode_alu, decode_alu, alu_addressing, alu_indirect_y, read_memory_val, hidx, hh,
    h0, h1, hl, hh2, h3, hm, hsta, hop, hzm, hlm, hhm, FF_and, and_FF, and_FF00_div,
    word_eq_mul, bus_val_lt, Nat.add_assoc, Nat.shiftLeft_eq, Nat.shiftRight_eq_div_pow,
    Nat.mod_lt]
  omega

set_option maxHeartbeats 1600000 in
/-- (Indirect),Y read with a page crossing: four reads in the first four cycles,
none in the fifth, the read of the fixed address in the sixth. -/
theorem alu_indirect_y_cross_bus (s : State) (op z lo hi : Nat) (hidx : s.cur_instr_index = 0)
    (hh : s.hang = 0) (h0 : rd s s.pc = op) (h3 : op &&& 0x3 = 0x1)
    (hm : op &&& 0x1D = 0x11) (hsta : ¬ op &&& 0xE0 = 0x80)
    (h1 : rd s (s.pc + 1) = z) (hl : rd s z = lo) (hh2 : rd s ((z + 1) % 256) = hi)
    (hy : s.reg_y < 256)
    (hpg : ¬ (lo + 256 * hi + s.reg_y) / 256 = (lo + 256 * hi) / 256) :
    (run_cycles 4 s).bus = s.bus ++ [Access.read (s.pc % 65536), Access.read ((s.pc + 1) % 65536),
      Access.read z, Access.read ((z + 1) % 256)] ∧
    (run_cycles 5 s).bus = s.bus ++ [Access.read (s.pc % 65536), Access.read ((s.pc + 1) % 65536),
      Access.read z, Access.read ((z + 1) % 256)] ∧
    (alu_ready_state s 6).bus = s.bus ++ [Access.read (s.pc % 65536), Access.read ((s.pc + 1) % 65536),
      Access.read z, Access.read ((z + 1) % 256),
      Access.read ((lo + 256 * hi + s.reg_y) % 65536)] := by
  rw [rd_val] at h0 h1 hl hh2
  have hop : op % 256 = op := by rw [← h0]; simp
  have hz : z < 256 := by rw [← h1]; exact bus_val_lt _ _ _ _ _
  have hlo : lo < 256 := by rw [← hl]; exact bus_val_lt _ _ _ _ _
  have hhi : hi < 256 := by rw [← hh2]; exact bus_val_lt _ _ _ _ _
  have hzm : z % 256 = z := Nat.mod_eq_of_lt hz
  have hlm : lo % 256 = lo := Nat.mod_eq_of_lt hlo
  have hhm : hi % 256 = hi := Nat.mod_eq_of_lt hhi
  have hc : ¬ ((lo + (hi * 256 + s.reg_y)) % 65536 / 256 % 256 = hi) := by omega
  refine ⟨?_, ?_, ?_⟩
  · simp [rd_val, alu_ready_state, run_cycle_fetch, run_cycle_decode,
    decode_opcode_alu, decode_alu, alu_addressing, alu_indirect_y, read_memory_val, hidx, hh,
    h0, h1, hl, hh2, h3, hm, hsta, hop, hzm, hlm, hhm, FF_and, and_FF, and_FF00_div,
    word_eq_mul, bus_val_lt, Nat.add_assoc, Nat.shiftLeft_eq, Nat.shiftRight_eq_div_pow,
    Nat.mod_lt, hc]
    omega
  · simp [rd_val, alu_ready_state, run_cycle_fetch, run_cycle_decode,
    decode_opcode_alu, decode_alu, alu_addressing, alu_indirect_y, read_memory_val, hidx, hh,
    h0, h1, hl, hh2, h3, hm, hsta, hop, hzm, hlm, hhm, FF_and, and_FF, and_FF00_div,
    word_eq_mul, bus_val_lt, Nat.add_assoc, Nat.shiftLeft_eq, Nat.shiftRight_eq_div_pow,
    Nat.mod_lt, hc]
    omega
  · simp [rd_val, alu_ready_state, run_cycle_fetch, run_cycle_decode,
    decode_opcode_alu, decode_alu, alu_addressing, alu_indirect_y, read_memory_val, hidx, hh,
    h0, h1, hl, hh2, h3, hm, hsta, hop, hzm, hlm, hhm, FF_and, and_FF, and_FF00_div,
    word_eq_mul, bus_val_lt, Nat.add_assoc, Nat.shiftLeft_eq, Nat.shiftRight_eq_div_pow,
    Nat.mod_lt, hc]
    omega

theorem sta_outcome_of (s T : State) (op n ea : Nat) (l : List Access)
    (hfin : run_cycles n s = single_step_halt (set_index (alu_operation T) 0))
    (hop : T.cur_instr 0 = op) (hsta : op &&& 0xE0 = 0x80) (hsm : same_machine s T)
    (hea : T.cur_instr 1 ||| (T.cur_instr 2 <<< 8) = ea) (hlt : ea < 65536)
    (hb : T.bus = s.bus ++ l) :
    sta_outcome s (run_cycles n s) (l ++ [Access.write ea (s.reg_a % 256)]) := by
  obtain ⟨h1, h2, h3, h4, h5⟩ := sta_of_alu s T op n ea hfin hop hsta hsm hea
  refine ⟨?_, h2, h3, h4, h5⟩
  rw [h1, hb, Nat.mod_eq_of_lt hlt, List.append_assoc]

/-- C31, as the code has it. STA in the ALU group (`op & 0xE0` = `0x80`), run
from an instruction boundary: in zero-page, zero-page,X, absolute, (indirect,X)
and (indirect),Y mode the bus trace is the opcode and operand fetches, the
zero-page pointer reads of the indirect modes, and the single write of A to the
effective address, with no read issued for the operand; in absolute,X and
absolute,Y mode the effective address is read in the cycle before the write.  A,
X, Y and the flags are unchanged in every mode. -/
theorem sta_bus_trace (s : State) (op : Nat) (hidx : s.cur_instr_index = 0) (hh : s.hang = 0)
    (h0 : rd s s.pc = op) (h3 : op &&& 0x03 = 0x01) (hsta : op &&& 0xE0 = 0x80)
    (hx : s.reg_x < 256) (hy : s.reg_y < 256) :
    (op &&& 0x1D = 0x05 →
      retires_after s 3 ∧
      sta_outcome s (run_cycles 3 s)
        [Access.read (s.pc % 65536), Access.read ((s.pc + 1) % 65536),
          Access.write (rd s (s.pc + 1)) (s.reg_a % 256)]) ∧
    (op &&& 0x1D = 0x15 →
      retires_after s 4 ∧
      sta_outcome s (run_cycles 4 s)
        [Access.read (s.pc % 65536), Access.read ((s.pc + 1) % 65536),
          Access.write ((s.reg_x + rd s (s.pc + 1)) % 256) (s.reg_a % 256)]) ∧
    (op &&& 0x1D = 0x0D →
      retires_after s 4 ∧
      sta_outcome s (run_cycles 4 s)
        [Access.read (s.pc % 65536), Access.read ((s.pc + 1) % 65536),
          Access.read ((s.pc + 2) % 65536),
          Access.write (rd s (s.pc + 1) + 256 * rd s (s.pc + 2)) (s.reg_a % 256)]) ∧
    (op &&& 0x1D = 0x01 →
      retires_after s 6 ∧
      sta_outcome s (run_cycles 6 s)
        [Access.read (s.pc % 65536), Access.read ((s.pc + 1) % 65536),
          Access.read ((rd s (s.pc + 1) + s.reg_x) % 256),
          Access.read ((rd s (s.pc + 1) + s.reg_x + 1) % 256),
          Access.write (rd s ((rd s (s.pc + 1) + s.reg_x) % 256) +
            256 * rd s ((rd s (s.pc + 1) + s.reg_x + 1) % 256)) (s.reg_a % 256)]) ∧
    (op &&& 0x1D = 0x11 →
      retires_after s 6 ∧
      sta_outcome s (run_cycles 6 s)
        [Access.read (s.pc % 65536), Access.read ((s.pc + 1) % 65536),
          Access.read (rd s (s.pc + 1)), Access.read ((rd s (s.pc + 1) + 1) % 256),
          Access.write ((rd s (rd s (s.pc + 1)) + 256 * rd s ((rd s (s.pc + 1) + 1) % 256) +
            s.reg_y) % 65536) (s.reg_a % 256)]) ∧
    (op &&& 0x1D = 0x1D →
      retires_after s 5 ∧
      sta_outcome s (run_cycles 5 s)
        [Access.read (s.pc % 65536), Access.read ((s.pc + 1) % 65536),
          Access.read ((s.pc + 2) % 65536),
          Access.read ((rd s (s.pc + 1) + 256 * rd s (s.pc + 2) + s.reg_x) % 65536),
          Access.write ((rd s (s.pc + 1) + 256 * rd s (s.pc + 2) + s.reg_x) % 65536)
            (s.reg_a % 256)]) ∧
    (op &&& 0x1D = 0x19 →
      retires_after s 5 ∧
      sta_outcome s (run_cycles 5 s)
        [Access.read (s.pc % 65536), Access.read ((s.pc + 1) % 65536),
          Access.read ((s.pc + 2) % 65536),
          Access.read ((rd s (s.pc + 1) + 256 * rd s (s.pc + 2) + s.reg_y) % 65536),
          Access.write ((rd s (s.pc + 1) + 256 * rd s (s.pc + 2) + s.reg_y) % 65536)
            (s.reg_a % 256)]) := by
  have hb : ∀ a, rd s a < 256 := fun a => rd_lt s a
  refine ⟨?_, ?_, ?_, ?_, ?_, ?_, ?_⟩
  · intro hm
    obtain ⟨hr, hfin, hop0, hsm, hea, _⟩ := alu_zero_page_exec s op hidx hh h0 h3 hm
    exact ⟨hr, sta_outcome_of s _ op 3 _ _ hfin hop0 hsta hsm hea
      (Nat.lt_trans (hb _) (by norm_num)) (sta_zero_page_bus s op hidx hh h0 h3 hm hsta)⟩
  · intro hm
    obtain ⟨hr, hfin, hop0, hsm, hea, _⟩ := alu_zero_page_x_exec s op hidx hh h0 h3 hm
    exact ⟨hr, sta_outcome_of s _ op 4 _ _ hfin hop0 hsta hsm hea
      (Nat.lt_trans (Nat.mod_lt _ (by norm_num)) (by norm_num))
      (sta_zero_page_x_bus s op hidx hh h0 h3 hm hsta)⟩
  · intro hm
    obtain ⟨hr, hfin, hop0, hsm, hea, _⟩ := alu_absolute_exec s op hidx hh h0 h3 hm
    have h1 := hb (s.pc + 1)
    have h2 := hb (s.pc + 2)
    exact ⟨hr, sta_outcome_of s _ op 4 _ _ hfin hop0 hsta hsm hea (by omega)
      (sta_absolute_bus s op hidx hh h0 h3 hm hsta)⟩
  · intro hm
    obtain ⟨hr, hfin, hop0, hsm, hea, _⟩ := alu_indirect_x_exec s op hidx hh h0 h3 hm
    have h1 := hb ((rd s (s.pc + 1) + s.reg_x) % 256)
    have h2 := hb ((rd s (s.pc + 1) + s.reg_x + 1) % 256)
    exact ⟨hr, sta_outcome_of s _ op 6 _ _ hfin hop0 hsta hsm hea (by omega)
      (sta_indirect_x_bus s op hidx hh h0 h3 hm hsta)⟩
  · intro hm
    have H := alu_indirect_y_exec s op _ _ _ _ hidx hh h0 h3 hm rfl rfl rfl hy rfl
    simp only [hsta, ne_eq, not_true_eq_false, and_false, if_false] at H
    obtain ⟨hr, hfin, hop0, hsm, hea, _⟩ := H
    exact ⟨hr, sta_outcome_of s _ op 6 _ _ hfin hop0 hsta hsm hea
      (Nat.mod_lt _ (by norm_num))
      (sta_indirect_y_bus s op _ _ _ hidx hh h0 h3 hm hsta rfl rfl rfl)⟩
  · intro hm
    have H := alu_absolute_x_exec s op _ _ _ hidx hh h0 h3 hm rfl rfl hx rfl
    simp only [hsta, ne_eq, not_true_eq_false, and_false, if_false] at H
    obtain ⟨hr, hfin, hop0, hsm, hea, _⟩ := H
    exact ⟨hr, sta_outcome_of s _ op 5 _ _ hfin hop0 hsta hsm hea
      (Nat.mod_lt _ (by norm_num))
      (sta_absolute_x_bus s op _ _ hidx hh h0 h3 hm hsta rfl rfl)⟩
  · intro hm
    have H := alu_absolute_y_exec s op _ _ _ hidx hh h0 h3 hm rfl rfl hy rfl
    simp only [hsta, ne_eq, not_true_eq_false, and_false, if_false] at H
    obtain ⟨hr, hfin, hop0, hsm, hea, _⟩ := H
    exact ⟨hr, sta_outcome_of s _ op 5 _ _ hfin hop0 hsta hsm hea
      (Nat.mod_lt _ (by norm_num))
      (sta_absolute_y_bus s op _ _ hidx hh h0 h3 hm hsta rfl rfl)⟩

/-- The failing input of C31: `STA $01FF,X` (`$9D`) with X = 1 and A = `$42`
reads the effective address `$0200` in cycle 4 and writes it in cycle 5. -/
theorem sta_bus_trace_witness :
    ((alu_state 0x9D).cur_instr_index = 0 ∧ (alu_state 0x9D).hang = 0 ∧
      rd (alu_state 0x9D) (alu_state 0x9D).pc = 0x9D ∧ 0x9D &&& 0x03 = 0x01 ∧
      0x9D &&& 0xE0 = 0x80 ∧ 0x9D &&& 0x1D = 0x1D) ∧
    (run_cycles 5 (alu_state 0x9D)).bus =
      [Access.read 0, Access.read 1, Access.read 2, Access.read 0x200,
        Access.write 0x200 0x42] ∧
    (run_cycles 5 (alu_state 0x9D)).reg_a = (alu_state 0x9D).reg_a :=
  ⟨⟨by decide, by decide, by decide, by decide, by decide, by decide⟩,
    ((sta_bus_trace (alu_state 0x9D) 0x9D (by decide) (by decide) (by decide) (by decide)
      (by decide) (by decide) (by decide)).2.2.2.2.2.1 (by decide)).2.1,
    ((sta_bus_trace (alu_state 0x9D) 0x9D (by decide) (by decide) (by decide) (by decide)
      (by decide) (by decide) (by decide)).2.2.2.2.2.1 (by decide)).2.2.1⟩

/-- C32, amended. Page crossing in the ALU group: for a read instruction in
absolute,X, absolute,Y or (indirect),Y mode whose index addition leaves the page
of the base, no dummy read of the un-fixed address is issued.  In absolute,X and
absolute,Y mode the fixed address (base + index) mod 65536 is read in cycle 4,
cycle 5 issues no access and the instruction retires there; in (indirect),Y mode
cycle 5 issues no access and the fixed address is read in cycle 6, where the
instruction retires.  The byte read at the fixed address is the operand the
operation switch uses. -/
theorem page_cross_reads (s : State) (op : Nat) (hidx : s.cur_instr_index = 0) (hh : s.hang = 0)
    (h0 : rd s s.pc = op) (h3 : op &&& 0x03 = 0x01) (hns : op &&& 0xE0 ≠ 0x80)
    (hx : s.reg_x < 256) (hy : s.reg_y < 256) :
    (op &&& 0x1D = 0x1D →
      (rd s (s.pc + 1) + 256 * rd s (s.pc + 2) + s.reg_x) / 256 ≠
        (rd s (s.pc + 1) + 256 * rd s (s.pc + 2)) / 256 →
      retires_after s 5 ∧
      (run_cycles 3 s).bus = s.bus ++ [Access.read (s.pc % 65536),
        Access.read ((s.pc + 1) % 65536), Access.read ((s.pc + 2) % 65536)] ∧
      (run_cycles 4 s).bus = s.bus ++ [Access.read (s.pc % 65536),
        Access.read ((s.pc + 1) % 65536), Access.read ((s.pc + 2) % 65536),
        Access.read ((rd s (s.pc + 1) + 256 * rd s (s.pc + 2) + s.reg_x) % 65536)] ∧
      (run_cycles 5 s).bus = (run_cycles 4 s).bus ∧
      run_cycles 5 s = single_step_halt (set_index (alu_operation (alu_ready_state s 5)) 0) ∧
      (alu_ready_state s 5).cur_instr 4 =
        rd s ((rd s (s.pc + 1) + 256 * rd s (s.pc + 2) + s.reg_x) % 65536)) ∧
    (op &&& 0x1D = 0x19 →
      (rd s (s.pc + 1) + 256 * rd s (s.pc + 2) + s.reg_y) / 256 ≠
        (rd s (s.pc + 1) + 256 * rd s (s.pc + 2)) / 256 →
      retires_after s 5 ∧
      (run_cycles 3 s).bus = s.bus ++ [Access.read (s.pc % 65536),
        Access.read ((s.pc + 1) % 65536), Access.read ((s.pc + 2) % 65536)] ∧
      (run_cycles 4 s).bus = s.bus ++ [Access.read (s.pc % 65536),
        Access.read ((s.pc + 1) % 65536), Access.read ((s.pc + 2) % 65536),
        Access.read ((rd s (s.pc + 1) + 256 * rd s (s.pc + 2) + s.reg_y) % 65536)] ∧
      (run_cycles 5 s).bus = (run_cycles 4 s).bus ∧
      run_cycles 5 s = single_step_halt (set_index (alu_operation (alu_ready_state s 5)) 0) ∧
      (alu_ready_state s 5).cur_instr 4 =
        rd s ((rd s (s.pc + 1) + 256 * rd s (s.pc + 2) + s.reg_y) % 65536)) ∧
    (op &&& 0x1D = 0x11 →
      (rd s (rd s (s.pc + 1)) + 256 * rd s ((rd s (s.pc + 1) + 1) % 256) + s.reg_y) / 256 ≠
        (rd s (rd s (s.pc + 1)) + 256 * rd s ((rd s (s.pc + 1) + 1) % 256)) / 256 →
      retires_after s 6 ∧
      (run_cycles 4 s).bus = s.bus ++ [Access.read (s.pc % 65536),
        Access.read ((s.pc + 1) % 65536), Access.read (rd s (s.pc + 1)),
        Access.read ((rd s (s.pc + 1) + 1) % 256)] ∧
      (run_cycles 5 s).bus = (run_cycles 4 s).bus ∧
      (run_cycles 6 s).bus = s.bus ++ [Access.read (s.pc % 65536),
        Access.read ((s.pc + 1) % 65536), Access.read (rd s (s.pc + 1)),
        Access.read ((rd s (s.pc + 1) + 1) % 256),
        Access.read ((rd s (rd s (s.pc + 1)) + 256 * rd s ((rd s (s.pc + 1) + 1) % 256) +
          s.reg_y) % 65536)] ∧
      run_cycles 6 s = single_step_halt (set_index (alu_operation (alu_ready_state s 6)) 0) ∧
      (alu_ready_state s 6).cur_instr 4 =
        rd s ((rd s (rd s (s.pc + 1)) + 256 * rd s ((rd s (s.pc + 1) + 1) % 256) +
          s.reg_y) % 65536)) := by
  refine ⟨?_, ?_, ?_⟩
  · intro hm hpg
    have H := alu_absolute_x_exec s op _ _ _ hidx hh h0 h3 hm rfl rfl hx rfl
    simp only [hpg, false_and, if_false] at H
    obtain ⟨hr, hfin, hop0, hsm, _, h4⟩ := H
    obtain ⟨b3, b4, b5⟩ := alu_absolute_x_cross_bus s op _ _ hidx hh h0 h3 hm hns rfl rfl hx hpg
    have hsT : (alu_ready_state s 5).cur_instr 0 &&& 0xE0 ≠ 0x80 := by rw [hop0]; exact hns
    refine ⟨hr, b3, b4, ?_, hfin, h4 hns⟩
    rw [alu_read_bus s _ 5 hfin hsT, b5, b4]
  · intro hm hpg
    have H := alu_absolute_y_exec s op _ _ _ hidx hh h0 h3 hm rfl rfl hy rfl
    simp only [hpg, false_and, if_false] at H
    obtain ⟨hr, hfin, hop0, hsm, _, h4⟩ := H
    obtain ⟨b3, b4, b5⟩ := alu_absolute_y_cross_bus s op _ _ hidx hh h0 h3 hm hns rfl rfl hy hpg
    have hsT : (alu_ready_state s 5).cur_instr 0 &&& 0xE0 ≠ 0x80 := by rw [hop0]; exact hns
    refine ⟨hr, b3, b4, ?_, hfin, h4 hns⟩
    rw [alu_read_bus s _ 5 hfin hsT, b5, b4]
  · intro hm hpg
    have H := alu_indirect_y_exec s op _ _ _ _ hidx hh h0 h3 hm rfl rfl rfl hy rfl
    simp only [hpg, false_and, if_false] at H
    obtain ⟨hr, hfin, hop0, hsm, _, h4⟩ := H
    obtain ⟨b4, b5, b6⟩ :=
      alu_indirect_y_cross_bus s op _ _ _ hidx hh h0 h3 hm hns rfl rfl rfl hy hpg
    have hsT : (alu_ready_state s 6).cur_instr 0 &&& 0xE0 ≠ 0x80 := by rw [hop0]; exact hns
    refine ⟨hr, b4, ?_, ?_, hfin, h4 hns⟩
    · rw [b5, b4]
    · rw [alu_read_bus s _ 6 hfin hsT, b6]

/-- Witness of C32, amended: `LDA $01FF,X` (`$BD`) with X = 1. -/
theorem page_cross_reads_witness :
    ((alu_state 0xBD).cur_instr_index = 0 ∧ (alu_state 0xBD).hang = 0 ∧
      rd (alu_state 0xBD) (alu_state 0xBD).pc = 0xBD ∧ 0xBD &&& 0x03 = 0x01 ∧
      0xBD &&& 0xE0 ≠ 0x80 ∧ 0xBD &&& 0x1D = 0x1D) ∧
    retires_after (alu_state 0xBD) 5 ∧
    (run_cycles 5 (alu_state 0xBD)).bus = (run_cycles 4 (alu_state 0xBD)).bus :=
  ⟨⟨by decide, by decide, by decide, by decide, by decide, by decide⟩,
    ((page_cross_reads (alu_state 0xBD) 0xBD (by decide) (by decide) (by decide) (by decide)
      (by decide) (by decide) (by decide)).1 (by decide) (by decide)).1,
    ((page_cross_reads (alu_state 0xBD) 0xBD (by decide) (by decide) (by decide) (by decide)
      (by decide) (by decide) (by decide)).1 (by decide) (by decide)).2.2.2.1⟩

/-- Counterexample to C32 as stated: `LDA $01FF,X` (`$BD`) with X = 1 crosses
from page `$01` to `$0200`; the un-fixed address is `$0100`.  The instruction
issues the reads of `$0000`, `$0001`, `$0002` and, in cycle 4, of the fixed
address `$0200`; cycle 5 issues no access, `$0100` is never read, and A is the
byte at `$0200`. -/
theorem page_cross_counterexample :
    rd (alu_state 0xBD) (alu_state 0xBD).pc = 0xBD ∧
    rd (alu_state 0xBD) 1 = 0xFF ∧ rd (alu_state 0xBD) 2 = 0x01 ∧
    (alu_state 0xBD).reg_x = 1 ∧
    (run_cycles 4 (alu_state 0xBD)).bus =
      [Access.read 0, Access.read 1, Access.read 2, Access.read 0x200] ∧
    (run_cycles 4 (alu_state 0xBD)).cur_instr_index ≠ 0 ∧
    (run_cycles 5 (alu_state 0xBD)).bus =
      [Access.read 0, Access.read 1, Access.read 2, Access.read 0x200] ∧
    (run_cycles 5 (alu_state 0xBD)).cur_instr_index = 0 ∧
    (run_cycles 5 (alu_state 0xBD)).reg_a = 0x40 := by
  decide
/-! ## Read-modify-write instructions (C34, C35) -/

theorem op_C6_shape : op_C6 = rmw_zero_page dec_slot := rfl
theorem op_E6_shape : op_E6 = rmw_zero_page inc_slot := rfl
theorem op_06_shape : op_06 = rmw_zero_page asl_slot := rfl
theorem op_46_shape : op_46 = rmw_zero_page lsr_slot := rfl
theorem op_26_shape : op_26 = rmw_zero_page rol_slot := rfl
theorem op_66_shape : op_66 = rmw_zero_page ror_slot := rfl
theorem op_D6_shape : op_D6 = rmw_zero_page_x dec_slot := rfl
theorem op_F6_shape : op_F6 = rmw_zero_page_x inc_slot := rfl
theorem op_36_shape : op_36 = rmw_zero_page_x rol_slot := rfl
theorem op_76_shape : op_76 = rmw_zero_page_x ror_slot := rfl
theorem op_16_shape : op_16 = rmw_zero_page_x_late asl_slot := rfl
theorem op_56_shape : op_56 = rmw_zero_page_x_late lsr_slot := rfl
theorem op_CE_shape : op_CE = rmw_absolute dec_slot := rfl
theorem op_EE_shape : op_EE = rmw_absolute inc_slot := rfl
theorem op_0E_shape : op_0E = rmw_absolute asl_slot := rfl
theorem op_4E_shape : op_4E = rmw_absolute lsr_slot := rfl
theorem op_6E_shape : op_6E = rmw_absolute ror_slot := rfl
theorem op_2E_shape : op_2E = rmw_absolute_plus rol_slot := rfl
theorem op_DE_shape : op_DE = rmw_absolute_x dec_slot := rfl
theorem op_FE_shape : op_FE = rmw_absolute_x inc_slot := rfl
theorem op_1E_shape : op_1E = rmw_absolute_x asl_slot := rfl
theorem op_5E_shape : op_5E = rmw_absolute_x lsr_slot := rfl
theorem op_3E_shape : op_3E = rmw_absolute_x rol_slot := rfl
theorem op_7E_shape : op_7E = rmw_absolute_x ror_slot := rfl

theorem asl_slot_kernel : rmw_kernel asl_slot := by
  intro t k
  refine ⟨?_, ?_, ?_, ?_, ?_, ?_, ?_, ?_, ?_, ?_, ?_, ?_, ?_, ?_, fun j hj => ?_, ?_, ?_⟩
  · simp [asl_slot, kernel_value, kernel_flags, probe, set_nz, set_instr]
  · simp [asl_slot, kernel_value, kernel_flags, probe, set_nz, set_instr]
  · simp [asl_slot, kernel_value, kernel_flags, probe, set_nz, set_instr]
  · simp [asl_slot, kernel_value, kernel_flags, probe, set_nz, set_instr]
  · simp [asl_slot, kernel_value, kernel_flags, probe, set_nz, set_instr]
  · simp [asl_slot, kernel_value, kernel_flags, probe, set_nz, set_instr]
  · simp [asl_slot, kernel_value, kernel_flags, probe, set_nz, set_instr]
  · simp [asl_slot, kernel_value, kernel_flags, probe, set_nz, set_instr]
  · simp [asl_slot, kernel_value, kernel_flags, probe, set_nz, set_instr]
  · simp [asl_slot, kernel_value, kernel_flags, probe, set_nz, set_instr]
  · simp [asl_slot, kernel_value, kernel_flags, probe, set_nz, set_instr]
  · simp [asl_slot, kernel_value, kernel_flags, probe, set_nz, set_instr]
  · simp [asl_slot, kernel_value, kernel_flags, probe, set_nz, set_instr]
  · simp [asl_slot, kernel_value, kernel_flags, probe, set_nz, set_instr]
  · simp [asl_slot, set_nz, set_instr, hj]
  · simp [asl_slot, kernel_value, kernel_flags, probe, set_nz, set_instr]
  · simp [asl_slot, kernel_value, kernel_flags, probe, set_nz, set_instr]

theorem lsr_slot_kernel : rmw_kernel lsr_slot := by
  intro t k
  refine ⟨?_, ?_, ?_, ?_, ?_, ?_, ?_, ?_, ?_, ?_, ?_, ?_, ?_, ?_, fun j hj => ?_, ?_, ?_⟩
  · simp [lsr_slot, kernel_value, kernel_flags, probe, set_nz, set_instr]
  · simp [lsr_slot, kernel_value, kernel_flags, probe, set_nz, set_instr]
  · simp [lsr_slot, kernel_value, kernel_flags, probe, set_nz, set_instr]
  · simp [lsr_slot, kernel_value, kernel_flags, probe, set_nz, set_instr]
  · simp [lsr_slot, kernel_value, kernel_flags, probe, set_nz, set_instr]
  · simp [lsr_slot, kernel_value, kernel_flags, probe, set_nz, set_instr]
  · simp [lsr_slot, kernel_value, kernel_flags, probe, set_nz, set_instr]
  · simp [lsr_slot, kernel_value, kernel_flags, probe, set_nz, set_instr]
  · simp [lsr_slot, kernel_value, kernel_flags, probe, set_nz, set_instr]
  · simp [lsr_slot, kernel_value, kernel_flags, probe, set_nz, set_instr]
  · simp [lsr_slot, kernel_value, kernel_flags, probe, set_nz, set_instr]
  · simp [lsr_slot, kernel_value, kernel_flags, probe, set_nz, set_instr]
  · simp [lsr_slot, kernel_value, kernel_flags, probe, set_nz, set_instr]
  · simp [lsr_slot, kernel_value, kernel_flags, probe, set_nz, set_instr]
  · simp [lsr_slot, set_nz, set_instr, hj]
  · simp [lsr_slot, kernel_value, kernel_flags, probe, set_nz, set_instr]
  · simp [lsr_slot, kernel_value, kernel_flags, probe, set_nz, set_instr]

theorem inc_slot_kernel : rmw_kernel inc_slot := by
  intro t k
  refine ⟨?_, ?_, ?_, ?_, ?_, ?_, ?_, ?_, ?_, ?_, ?_, ?_, ?_, ?_, fun j hj => ?_, ?_, ?_⟩
  · simp [inc_slot, kernel_value, kernel_flags, probe, set_nz, set_instr]
  · simp [inc_slot, kernel_value, kernel_flags, probe, set_nz, set_instr]
  · simp [inc_slot, kernel_value, kernel_flags, probe, set_nz, set_instr]
  · simp [inc_slot, kernel_value, kernel_flags, probe, set_nz, set_instr]
  · simp [inc_slot, kernel_value, kernel_flags, probe, set_nz, set_instr]
  · simp [inc_slot, kernel_value, kernel_flags, probe, set_nz, set_instr]
  · simp [inc_slot, kernel_value, kernel_flags, probe, set_nz, set_instr]
  · simp [inc_slot, kernel_value, kernel_flags, probe, set_nz, set_instr]
  · simp [inc_slot, kernel_value, kernel_flags, probe, set_nz, set_instr]
  · simp [inc_slot, kernel_value, kernel_flags, probe, set_nz, set_instr]
  · simp [inc_slot, kernel_value, kernel_flags, probe, set_nz, set_instr]
  · simp [inc_slot, kernel_value, kernel_flags, probe, set_nz, set_instr]
  · simp [inc_slot, kernel_value, kernel_flags, probe, set_nz, set_instr]
  · simp [inc_slot, kernel_value, kernel_flags, probe, set_nz, set_instr]
  · simp [inc_slot, set_nz, set_instr, hj]
  · simp [inc_slot, kernel_value, kernel_flags, probe, set_nz, set_instr]
  · simp [inc_slot, kernel_value, kernel_flags, probe, set_nz, set_instr]

theorem dec_slot_kernel : rmw_kernel dec_slot := by
  intro t k
  refine ⟨?_, ?_, ?_, ?_, ?_, ?_, ?_, ?_, ?_, ?_, ?_, ?_, ?_, ?_, fun j hj => ?_, ?_, ?_⟩
  · simp [dec_slot, kernel_value, kernel_flags, probe, set_nz, set_instr]
  · simp [dec_slot, kernel_value, kernel_flags, probe, set_nz, set_instr]
  · simp [dec_slot, kernel_value, kernel_flags, probe, set_nz, set_instr]
  · simp [dec_slot, kernel_value, kernel_flags, probe, set_nz, set_instr]
  · simp [dec_slot, kernel_value, kernel_flags, probe, set_nz, set_instr]
  · simp [dec_slot, kernel_value, kernel_flags, probe, set_nz, set_instr]
  · simp [dec_slot, kernel_value, kernel_flags, probe, set_nz, set_instr]
  · simp [dec_slot, kernel_value, kernel_flags, probe, set_nz, set_instr]
  · simp [dec_slot, kernel_value, kernel_flags, probe, set_nz, set_instr]
  · simp [dec_slot, kernel_value, kernel_flags, probe, set_nz, set_instr]
  · simp [dec_slot, kernel_value, kernel_flags, probe, set_nz, set_instr]
  · simp [dec_slot, kernel_value, kernel_flags, probe, set_nz, set_instr]
  · simp [dec_slot, kernel_value, kernel_flags, probe, set_nz, set_instr]
  · simp [dec_slot, kernel_value, kernel_flags, probe, set_nz, set_instr]
  · simp [dec_slot, set_nz, set_instr, hj]
  · simp [dec_slot, kernel_value, kernel_flags, probe, set_nz, set_instr]
  · simp [dec_slot, kernel_value, kernel_flags, probe, set_nz, set_instr]

theorem rol_slot_kernel : rmw_kernel rol_slot := by
  intro t k
  refine ⟨?_, ?_, ?_, ?_, ?_, ?_, ?_, ?_, ?_, ?_, ?_, ?_, ?_, ?_, fun j hj => ?_, ?_, ?_⟩
  · simp
  · simp
  · simp
  · simp
  · simp
  · simp
  · simp
  · simp
  · simp
  · simp
  · simp
  · simp
  · simp
  · simp
  · simp only [rol_slot]
    split_ifs <;> simp [set_nz, set_instr, hj]
  · simp only [rol_slot, kernel_value, kernel_flags, probe, set_instr_reg_p]
    split_ifs <;> simp [set_nz, set_instr]
  · simp only [rol_slot, kernel_value, kernel_flags, probe, set_instr_reg_p]
    split_ifs <;> simp [set_nz, set_instr]

theorem ror_slot_kernel : rmw_kernel ror_slot := by
  intro t k
  refine ⟨?_, ?_, ?_, ?_, ?_, ?_, ?_, ?_, ?_, ?_, ?_, ?_, ?_, ?_, fun j hj => ?_, ?_, ?_⟩
  · simp
  · simp
  · simp
  · simp
  · simp
  · simp
  · simp
  · simp
  · simp
  · simp
  · simp
  · simp
  · simp
  · simp
  · simp only [ror_slot]
    split_ifs <;> simp [set_nz, set_instr, hj]
  · simp only [ror_slot, kernel_value, kernel_flags, probe, set_instr_reg_p]
    split_ifs <;> simp [set_nz, set_instr]
  · simp only [ror_slot, kernel_value, kernel_flags, probe, set_instr_reg_p]
    split_ifs <;> simp [set_nz, set_instr]


set_option maxHeartbeats 3200000 in
/-- A zero-page read-modify-write instruction with kernel `K`: 5 cycles, one read
and one write of the zero-page address. -/
theorem rmw_zero_page_exec (K : State → Nat → State) (hK : rmw_kernel K) (s : State) (op : Nat)
    (hidx : s.cur_instr_index = 0) (hh : s.hang = 0) (h0 : rd s s.pc = op)
    (hd : ∀ t, t.cur_instr 0 = op → decode_opcode t = rmw_zero_page K t) :
    retires_after s 5 ∧
    (run_cycles 5 s).bus = s.bus ++ [Access.read (s.pc % 65536), Access.read ((s.pc + 1) % 65536),
      Access.read (rd s (s.pc + 1)),
      Access.write (rd s (s.pc + 1)) (kernel_value K s.reg_p (rd s (rd s (s.pc + 1))) % 256)] ∧
    (run_cycles 5 s).reg_p = kernel_flags K s.reg_p (rd s (rd s (s.pc + 1))) ∧
    (run_cycles 5 s).reg_a = s.reg_a ∧ (run_cycles 5 s).reg_x = s.reg_x ∧
    (run_cycles 5 s).reg_y = s.reg_y := by
  have k1 : ∀ t k, (K t k).internal_ram = t.internal_ram := fun t k => (hK t k).1
  have k2 : ∀ t k, (K t k).cur_instr_index = t.cur_instr_index := fun t k => (hK t k).2.1
  have k3 : ∀ t k, (K t k).p6502_single_step = t.p6502_single_step := fun t k => (hK t k).2.2.1
  have k4 : ∀ t k, (K t k).hang = t.hang := fun t k => (hK t k).2.2.2.1
  have k5 : ∀ t k, (K t k).cycle_number = t.cycle_number := fun t k => (hK t k).2.2.2.2.1
  have k6 : ∀ t k, (K t k).reg_a = t.reg_a := fun t k => (hK t k).2.2.2.2.2.1
  have k7 : ∀ t k, (K t k).reg_x = t.reg_x := fun t k => (hK t k).2.2.2.2.2.2.1
  have k8 : ∀ t k, (K t k).reg_y = t.reg_y := fun t k => (hK t k).2.2.2.2.2.2.2.1
  have k9 : ∀ t k, (K t k).pc = t.pc := fun t k => (hK t k).2.2.2.2.2.2.2.2.1
  have k10 : ∀ t k, (K t k).reg_s = t.reg_s := fun t k => (hK t k).2.2.2.2.2.2.2.2.2.1
  have k11 : ∀ t k, (K t k).mapper_cpur = t.mapper_cpur :=
    fun t k => (hK t k).2.2.2.2.2.2.2.2.2.2.1
  have k12 : ∀ t k, (K t k).mapper0_prg_rom = t.mapper0_prg_rom :=
    fun t k => (hK t k).2.2.2.2.2.2.2.2.2.2.2.1
  have k13 : ∀ t k, (K t k).mapper0_prg_rom_mask = t.mapper0_prg_rom_mask :=
    fun t k => (hK t k).2.2.2.2.2.2.2.2.2.2.2.2.1
  have k14 : ∀ t k, (K t k).bus = t.bus := fun t k => (hK t k).2.2.2.2.2.2.2.2.2.2.2.2.2.1
  have k15 : ∀ t k j, j ≠ k → (K t k).cur_instr j = t.cur_instr j :=
    fun t k j h => (hK t k).2.2.2.2.2.2.2.2.2.2.2.2.2.2.1 j h
  have k16 : ∀ t k, (K t k).cur_instr k = kernel_value K t.reg_p (t.cur_instr k) :=
    fun t k => (hK t k).2.2.2.2.2.2.2.2.2.2.2.2.2.2.2.1
  have k17 : ∀ t k, (K t k).reg_p = kernel_flags K t.reg_p (t.cur_instr k) :=
    fun t k => (hK t k).2.2.2.2.2.2.2.2.2.2.2.2.2.2.2.2
  have c20 : ∀ t, (K t 2).cur_instr 0 = t.cur_instr 0 := fun t => k15 t 2 0 (by decide)
  have c21 : ∀ t, (K t 2).cur_instr 1 = t.cur_instr 1 := fun t => k15 t 2 1 (by decide)
  have c30 : ∀ t, (K t 3).cur_instr 0 = t.cur_instr 0 := fun t => k15 t 3 0 (by decide)
  have c31 : ∀ t, (K t 3).cur_instr 1 = t.cur_instr 1 := fun t => k15 t 3 1 (by decide)
  have c32 : ∀ t, (K t 3).cur_instr 2 = t.cur_instr 2 := fun t => k15 t 3 2 (by decide)
  rw [rd_val] at h0
  have hop : op % 256 = op := by rw [← h0]; simp
  have hm2 : bus_val s.internal_ram s.mapper_cpur s.mapper0_prg_rom s.mapper0_prg_rom_mask
      (s.pc + 2) * 256 = 256 * bus_val s.internal_ram s.mapper_cpur s.mapper0_prg_rom
      s.mapper0_prg_rom_mask (s.pc + 2) := Nat.mul_comm _ _
  have hw2 : bus_val s.internal_ram s.mapper_cpur s.mapper0_prg_rom s.mapper0_prg_rom_mask
      (s.pc + 1) ||| 256 * bus_val s.internal_ram s.mapper_cpur s.mapper0_prg_rom
      s.mapper0_prg_rom_mask (s.pc + 2) =
      bus_val s.internal_ram s.mapper_cpur s.mapper0_prg_rom s.mapper0_prg_rom_mask
      (s.pc + 1) + 256 * bus_val s.internal_ram s.mapper_cpur s.mapper0_prg_rom
      s.mapper0_prg_rom_mask (s.pc + 2) := by
    rw [← hm2, word_eq_mul _ _ (bus_val_lt _ _ _ _ _), hm2]
  refine ⟨⟨by norm_num, ?_, ?_⟩, ?_, ?_, ?_, ?_, ?_⟩
  · simp [run_cycle_fetch, run_cycle_decode, hd, rmw_zero_page, read_memory_val, rd_val, hidx, hh, h0,
      hop, hm2, hw2, k1, k2, k3, k4, k5, k6, k7, k8, k9, k10, k11, k12, k13, k14, k16, k17, c20, c21, c30, c31, c32, FF_and, word_eq, word_eq_mul, bus_val_lt, Nat.add_assoc, Nat.shiftLeft_eq]
  · intro k hk hk0
    have : k = 1 ∨ k = 2 ∨ k = 3 ∨ k = 4 := by omega
    rcases this with rfl | rfl | rfl | rfl <;>
    simp [run_cycle_fetch, run_cycle_decode, hd, rmw_zero_page, read_memory_val, rd_val, hidx, hh, h0,
      hop, hm2, hw2, k1, k2, k3, k4, k5, k6, k7, k8, k9, k10, k11, k12, k13, k14, k16, k17, c20, c21, c30, c31, c32, FF_and, word_eq, word_eq_mul, bus_val_lt, Nat.add_assoc, Nat.shiftLeft_eq]
  · have b1 := bus_val_lt s.internal_ram s.mapper_cpur s.mapper0_prg_rom s.mapper0_prg_rom_mask
      (s.pc + 1)
    have b2 := bus_val_lt s.internal_ram s.mapper_cpur s.mapper0_prg_rom s.mapper0_prg_rom_mask
      (s.pc + 2)
    simp [run_cycle_fetch, run_cycle_decode, hd, rmw_zero_page, read_memory_val, rd_val, hidx, hh, h0,
      hop, hm2, hw2, k1, k2, k3, k4, k5, k6, k7, k8, k9, k10, k11, k12, k13, k14, k16, k17, c20, c21, c30, c31, c32, FF_and, word_eq, word_eq_mul, bus_val_lt, Nat.add_assoc, Nat.shiftLeft_eq]
    omega
  · simp [run_cycle_fetch, run_cycle_decode, hd, rmw_zero_page, read_memory_val, rd_val, hidx, hh, h0,
      hop, hm2, hw2, k1, k2, k3, k4, k5, k6, k7, k8, k9, k10, k11, k12, k13, k14, k16, k17, c20, c21, c30, c31, c32, FF_and, word_eq, word_eq_mul, bus_val_lt, Nat.add_assoc, Nat.shiftLeft_eq]
  · simp [run_cycle_fetch, run_cycle_decode, hd, rmw_zero_page, read_memory_val, rd_val, hidx, hh, h0,
      hop, hm2, hw2, k1, k2, k3, k4, k5, k6, k7, k8, k9, k10, k11, k12, k13, k14, k16, k17, c20, c21, c30, c31, c32, FF_and, word_eq, word_eq_mul, bus_val_lt, Nat.add_assoc, Nat.shiftLeft_eq]
  · simp [run_cycle_fetch, run_cycle_decode, hd, rmw_zero_page, read_memory_val, rd_val, hidx, hh, h0,
      hop, hm2, hw2, k1, k2, k3, k4, k5, k6, k7, k8, k9, k10, k11, k12, k13, k14, k16, k17, c20, c21, c30, c31, c32, FF_and, word_eq, word_eq_mul, bus_val_lt, Nat.add_assoc, Nat.shiftLeft_eq]
  · simp [run_cycle_fetch, run_cycle_decode, hd, rmw_zero_page, read_memory_val, rd_val, hidx, hh, h0,
      hop, hm2, hw2, k1, k2, k3, k4, k5, k6, k7, k8, k9, k10, k11, k12, k13, k14, k16, k17, c20, c21, c30, c31, c32, FF_and, word_eq, word_eq_mul, bus_val_lt, Nat.add_assoc, Nat.shiftLeft_eq]


set_option maxHeartbeats 3200000 in
/-- A zero-page,X read-modify-write instruction (read at index 2) with kernel `K`:
6 cycles. -/
theorem rmw_zero_page_x_exec (K : State → Nat → State) (hK : rmw_kernel K) (s : State) (op : Nat)
    (hidx : s.cur_instr_index = 0) (hh : s.hang = 0) (h0 : rd s s.pc = op)
    (hd : ∀ t, t.cur_instr 0 = op → decode_opcode t = rmw_zero_page_x K t) :
    retires_after s 6 ∧
    (run_cycles 6 s).bus = s.bus ++ [Access.read (s.pc % 65536), Access.read ((s.pc + 1) % 65536),
      Access.read ((s.reg_x + rd s (s.pc + 1)) % 256),
      Access.write ((s.reg_x + rd s (s.pc + 1)) % 256) (kernel_value K s.reg_p (rd s ((s.reg_x + rd s (s.pc + 1)) % 256)) % 256)] ∧
    (run_cycles 6 s).reg_p = kernel_flags K s.reg_p (rd s ((s.reg_x + rd s (s.pc + 1)) % 256)) ∧
    (run_cycles 6 s).reg_a = s.reg_a ∧ (run_cycles 6 s).reg_x = s.reg_x ∧
    (run_cycles 6 s).reg_y = s.reg_y := by
  have k1 : ∀ t k, (K t k).internal_ram = t.internal_ram := fun t k => (hK t k).1
  have k2 : ∀ t k, (K t k).cur_instr_index = t.cur_instr_index := fun t k => (hK t k).2.1
  have k3 : ∀ t k, (K t k).p6502_single_step = t.p6502_single_step := fun t k => (hK t k).2.2.1
  have k4 : ∀ t k, (K t k).hang = t.hang := fun t k => (hK t k).2.2.2.1
  have k5 : ∀ t k, (K t k).cycle_number = t.cycle_number := fun t k => (hK t k).2.2.2.2.1
  have k6 : ∀ t k, (K t k).reg_a = t.reg_a := fun t k => (hK t k).2.2.2.2.2.1
  have k7 : ∀ t k, (K t k).reg_x = t.reg_x := fun t k => (hK t k).2.2.2.2.2.2.1
  have k8 : ∀ t k, (K t k).reg_y = t.reg_y := fun t k => (hK t k).2.2.2.2.2.2.2.1
  have k9 : ∀ t k, (K t k).pc = t.pc := fun t k => (hK t k).2.2.2.2.2.2.2.2.1
  have k10 : ∀ t k, (K t k).reg_s = t.reg_s := fun t k => (hK t k).2.2.2.2.2.2.2.2.2.1
  have k11 : ∀ t k, (K t k).mapper_cpur = t.mapper_cpur :=
    fun t k => (hK t k).2.2.2.2.2.2.2.2.2.2.1
  have k12 : ∀ t k, (K t k).mapper0_prg_rom = t.mapper0_prg_rom :=
    fun t k => (hK t k).2.2.2.2.2.2.2.2.2.2.2.1
  have k13 : ∀ t k, (K t k).mapper0_prg_rom_mask = t.mapper0_prg_rom_mask :=
    fun t k => (hK t k).2.2.2.2.2.2.2.2.2.2.2.2.1
  have k14 : ∀ t k, (K t k).bus = t.bus := fun t k => (hK t k).2.2.2.2.2.2.2.2.2.2.2.2.2.1
  have k15 : ∀ t k j, j ≠ k → (K t k).cur_instr j = t.cur_instr j :=
    fun t k j h => (hK t k).2.2.2.2.2.2.2.2.2.2.2.2.2.2.1 j h
  have k16 : ∀ t k, (K t k).cur_instr k = kernel_value K t.reg_p (t.cur_instr k) :=
    fun t k => (hK t k).2.2.2.2.2.2.2.2.2.2.2.2.2.2.2.1
  have k17 : ∀ t k, (K t k).reg_p = kernel_flags K t.reg_p (t.cur_instr k) :=
    fun t k => (hK t k).2.2.2.2.2.2.2.2.2.2.2.2.2.2.2.2
  have c20 : ∀ t, (K t 2).cur_instr 0 = t.cur_instr 0 := fun t => k15 t 2 0 (by decide)
  have c21 : ∀ t, (K t 2).cur_instr 1 = t.cur_instr 1 := fun t => k15 t 2 1 (by decide)
  have c30 : ∀ t, (K t 3).cur_instr 0 = t.cur_instr 0 := fun t => k15 t 3 0 (by decide)
  have c31 : ∀ t, (K t 3).cur_instr 1 = t.cur_instr 1 := fun t => k15 t 3 1 (by decide)
  have c32 : ∀ t, (K t 3).cur_instr 2 = t.cur_instr 2 := fun t => k15 t 3 2 (by decide)
  rw [rd_val] at h0
  have hop : op % 256 = op := by rw [← h0]; simp
  have hm2 : bus_val s.internal_ram s.mapper_cpur s.mapper0_prg_rom s.mapper0_prg_rom_mask
      (s.pc + 2) * 256 = 256 * bus_val s.internal_ram s.mapper_cpur s.mapper0_prg_rom
      s.mapper0_prg_rom_mask (s.pc + 2) := Nat.mul_comm _ _
  have hw2 : bus_val s.internal_ram s.mapper_cpur s.mapper0_prg_rom s.mapper0_prg_rom_mask
      (s.pc + 1) ||| 256 * bus_val s.internal_ram s.mapper_cpur s.mapper0_prg_rom
      s.mapper0_prg_rom_mask (s.pc + 2) =
      bus_val s.internal_ram s.mapper_cpur s.mapper0_prg_rom s.mapper0_prg_rom_mask
      (s.pc + 1) + 256 * bus_val s.internal_ram s.mapper_cpur s.mapper0_prg_rom
      s.mapper0_prg_rom_mask (s.pc + 2) := by
    rw [← hm2, word_eq_mul _ _ (bus_val_lt _ _ _ _ _), hm2]
  refine ⟨⟨by norm_num, ?_, ?_⟩, ?_, ?_, ?_, ?_, ?_⟩
  · simp [run_cycle_fetch, run_cycle_decode, hd, rmw_zero_page_x, read_memory_val, rd_val, hidx, hh, h0,
      hop, hm2, hw2, k1, k2, k3, k4, k5, k6, k7, k8, k9, k10, k11, k12, k13, k14, k16, k17, c20, c21, c30, c31, c32, FF_and, word_eq, word_eq_mul, bus_val_lt, Nat.add_assoc, Nat.shiftLeft_eq]
  · intro k hk hk0
    have : k = 1 ∨ k = 2 ∨ k = 3 ∨ k = 4 ∨ k = 5 := by omega
    rcases this with rfl | rfl | rfl | rfl | rfl <;>
    simp [run_cycle_fetch, run_cycle_decode, hd, rmw_zero_page_x, read_memory_val, rd_val, hidx, hh, h0,
      hop, hm2, hw2, k1, k2, k3, k4, k5, k6, k7, k8, k9, k10, k11, k12, k13, k14, k16, k17, c20, c21, c30, c31, c32, FF_and, word_eq, word_eq_mul, bus_val_lt, Nat.add_assoc, Nat.shiftLeft_eq]
  · have b1 := bus_val_lt s.internal_ram s.mapper_cpur s.mapper0_prg_rom s.mapper0_prg_rom_mask
      (s.pc + 1)
    have b2 := bus_val_lt s.internal_ram s.mapper_cpur s.mapper0_prg_rom s.mapper0_prg_rom_mask
      (s.pc + 2)
    simp [run_cycle_fetch, run_cycle_decode, hd, rmw_zero_page_x, read_memory_val, rd_val, hidx, hh, h0,
      hop, hm2, hw2, k1, k2, k3, k4, k5, k6, k7, k8, k9, k10, k11, k12, k13, k14, k16, k17, c20, c21, c30, c31, c32, FF_and, word_eq, word_eq_mul, bus_val_lt, Nat.add_assoc, Nat.shiftLeft_eq]
    omega
  · simp [run_cycle_fetch, run_cycle_decode, hd, rmw_zero_page_x, read_memory_val, rd_val, hidx, hh, h0,
      hop, hm2, hw2, k1, k2, k3, k4, k5, k6, k7, k8, k9, k10, k11, k12, k13, k14, k16, k17, c20, c21, c30, c31, c32, FF_and, word_eq, word_eq_mul, bus_val_lt, Nat.add_assoc, Nat.shiftLeft_eq]
  · simp [run_cycle_fetch, run_cycle_decode, hd, rmw_zero_page_x, read_memory_val, rd_val, hidx, hh, h0,
      hop, hm2, hw2, k1, k2, k3, k4, k5, k6, k7, k8, k9, k10, k11, k12, k13, k14, k16, k17, c20, c21, c30, c31, c32, FF_and, word_eq, word_eq_mul, bus_val_lt, Nat.add_assoc, Nat.shiftLeft_eq]
  · simp [run_cycle_fetch, run_cycle_decode, hd, rmw_zero_page_x, read_memory_val, rd_val, hidx, hh, h0,
      hop, hm2, hw2, k1, k2, k3, k4, k5, k6, k7, k8, k9, k10, k11, k12, k13, k14, k16, k17, c20, c21, c30, c31, c32, FF_and, word_eq, word_eq_mul, bus_val_lt, Nat.add_assoc, Nat.shiftLeft_eq]
  · simp [run_cycle_fetch, run_cycle_decode, hd, rmw_zero_page_x, read_memory_val, rd_val, hidx, hh, h0,
      hop, hm2, hw2, k1, k2, k3, k4, k5, k6, k7, k8, k9, k10, k11, k12, k13, k14, k16, k17, c20, c21, c30, c31, c32, FF_and, word_eq, word_eq_mul, bus_val_lt, Nat.add_assoc, Nat.shiftLeft_eq]


set_option maxHeartbeats 3200000 in
/-- A zero-page,X read-modify-write instruction (read at index 3) with kernel `K`:
6 cycles. -/
theorem rmw_zero_page_x_late_exec (K : State → Nat → State) (hK : rmw_kernel K) (s : State) (op : Nat)
    (hidx : s.cur_instr_index = 0) (hh : s.hang = 0) (h0 : rd s s.pc = op)
    (hd : ∀ t, t.cur_instr 0 = op → decode_opcode t = rmw_zero_page_x_late K t) :
    retires_after s 6 ∧
    (run_cycles 6 s).bus = s.bus ++ [Access.read (s.pc % 65536), Access.read ((s.pc + 1) % 65536),
      Access.read ((s.reg_x + rd s (s.pc + 1)) % 256),
      Access.write ((s.reg_x + rd s (s.pc + 1)) % 256) (kernel_value K s.reg_p (rd s ((s.reg_x + rd s (s.pc + 1)) % 256)) % 256)] ∧
    (run_cycles 6 s).reg_p = kernel_flags K s.reg_p (rd s ((s.reg_x + rd s (s.pc + 1)) % 256)) ∧
    (run_cycles 6 s).reg_a = s.reg_a ∧ (run_cycles 6 s).reg_x = s.reg_x ∧
    (run_cycles 6 s).reg_y = s.reg_y := by
  have k1 : ∀ t k, (K t k).internal_ram = t.internal_ram := fun t k => (hK t k).1
  have k2 : ∀ t k, (K t k).cur_instr_index = t.cur_instr_index := fun t k => (hK t k).2.1
  have k3 : ∀ t k, (K t k).p6502_single_step = t.p6502_single_step := fun t k => (hK t k).2.2.1
  have k4 : ∀ t k, (K t k).hang = t.hang := fun t k => (hK t k).2.2.2.1
  have k5 : ∀ t k, (K t k).cycle_number = t.cycle_number := fun t k => (hK t k).2.2.2.2.1
  have k6 : ∀ t k, (K t k).reg_a = t.reg_a := fun t k => (hK t k).2.2.2.2.2.1
  have k7 : ∀ t k, (K t k).reg_x = t.reg_x := fun t k => (hK t k).2.2.2.2.2.2.1
  have k8 : ∀ t k, (K t k).reg_y = t.reg_y := fun t k => (hK t k).2.2.2.2.2.2.2.1
  have k9 : ∀ t k, (K t k).pc = t.pc := fun t k => (hK t k).2.2.2.2.2.2.2.2.1
  have k10 : ∀ t k, (K t k).reg_s = t.reg_s := fun t k => (hK t k).2.2.2.2.2.2.2.2.2.1
  have k11 : ∀ t k, (K t k).mapper_cpur = t.mapper_cpur :=
    fun t k => (hK t k).2.2.2.2.2.2.2.2.2.2.1
  have k12 : ∀ t k, (K t k).mapper0_prg_rom = t.mapper0_prg_rom :=
    fun t k => (hK t k).2.2.2.2.2.2.2.2.2.2.2.1
  have k13 : ∀ t k, (K t k).mapper0_prg_rom_mask = t.mapper0_prg_rom_mask :=
    fun t k => (hK t k).2.2.2.2.2.2.2.2.2.2.2.2.1
  have k14 : ∀ t k, (K t k).bus = t.bus := fun t k => (hK t k).2.2.2.2.2.2.2.2.2.2.2.2.2.1
  have k15 : ∀ t k j, j ≠ k → (K t k).cur_instr j = t.cur_instr j :=
    fun t k j h => (hK t k).2.2.2.2.2.2.2.2.2.2.2.2.2.2.1 j h
  have k16 : ∀ t k, (K t k).cur_instr k = kernel_value K t.reg_p (t.cur_instr k) :=
    fun t k => (hK t k).2.2.2.2.2.2.2.2.2.2.2.2.2.2.2.1
  have k17 : ∀ t k, (K t k).reg_p = kernel_flags K t.reg_p (t.cur_instr k) :=
    fun t k => (hK t k).2.2.2.2.2.2.2.2.2.2.2.2.2.2.2.2
  have c20 : ∀ t, (K t 2).cur_instr 0 = t.cur_instr 0 := fun t => k15 t 2 0 (by decide)
  have c21 : ∀ t, (K t 2).cur_instr 1 = t.cur_instr 1 := fun t => k15 t 2 1 (by decide)
  have c30 : ∀ t, (K t 3).cur_instr 0 = t.cur_instr 0 := fun t => k15 t 3 0 (by decide)
  have c31 : ∀ t, (K t 3).cur_instr 1 = t.cur_instr 1 := fun t => k15 t 3 1 (by decide)
  have c32 : ∀ t, (K t 3).cur_instr 2 = t.cur_instr 2 := fun t => k15 t 3 2 (by decide)
  rw [rd_val] at h0
  have hop : op % 256 = op := by rw [← h0]; simp
  have hm2 : bus_val s.internal_ram s.mapper_cpur s.mapper0_prg_rom s.mapper0_prg_rom_mask
      (s.pc + 2) * 256 = 256 * bus_val s.internal_ram s.mapper_cpur s.mapper0_prg_rom
      s.mapper0_prg_rom_mask (s.pc + 2) := Nat.mul_comm _ _
  have hw2 : bus_val s.internal_ram s.mapper_cpur s.mapper0_prg_rom s.mapper0_prg_rom_mask
      (s.pc + 1) ||| 256 * bus_val s.internal_ram s.mapper_cpur s.mapper0_prg_rom
      s.mapper0_prg_rom_mask (s.pc + 2) =
      bus_val s.internal_ram s.mapper_cpur s.mapper0_prg_rom s.mapper0_prg_rom_mask
      (s.pc + 1) + 256 * bus_val s.internal_ram s.mapper_cpur s.mapper0_prg_rom
      s.mapper0_prg_rom_mask (s.pc + 2) := by
    rw [← hm2, word_eq_mul _ _ (bus_val_lt _ _ _ _ _), hm2]
  refine ⟨⟨by norm_num, ?_, ?_⟩, ?_, ?_, ?_, ?_, ?_⟩
  · simp [run_cycle_fetch, run_cycle_decode, hd, rmw_zero_page_x_late, read_memory_val, rd_val, hidx, hh, h0,
      hop, hm2, hw2, k1, k2, k3, k4, k5, k6, k7, k8, k9, k10, k11, k12, k13, k14, k16, k17, c20, c21, c30, c31, c32, FF_and, word_eq, word_eq_mul, bus_val_lt, Nat.add_assoc, Nat.shiftLeft_eq]
  · intro k hk hk0
    have : k = 1 ∨ k = 2 ∨ k = 3 ∨ k = 4 ∨ k = 5 := by omega
    rcases this with rfl | rfl | rfl | rfl | rfl <;>
    simp [run_cycle_fetch, run_cycle_decode, hd, rmw_zero_page_x_late, read_memory_val, rd_val, hidx, hh, h0,
      hop, hm2, hw2, k1, k2, k3, k4, k5, k6, k7, k8, k9, k10, k11, k12, k13, k14, k16, k17, c20, c21, c30, c31, c32, FF_and, word_eq, word_eq_mul, bus_val_lt, Nat.add_assoc, Nat.shiftLeft_eq]
  · have b1 := bus_val_lt s.internal_ram s.mapper_cpur s.mapper0_prg_rom s.mapper0_prg_rom_mask
      (s.pc + 1)
    have b2 := bus_val_lt s.internal_ram s.mapper_cpur s.mapper0_prg_rom s.mapper0_prg_rom_mask
      (s.pc + 2)
    simp [run_cycle_fetch, run_cycle_decode, hd, rmw_zero_page_x_late, read_memory_val, rd_val, hidx, hh, h0,
      hop, hm2, hw2, k1, k2, k3, k4, k5, k6, k7, k8, k9, k10, k11, k12, k13, k14, k16, k17, c20, c21, c30, c31, c32, FF_and, word_eq, word_eq_mul, bus_val_lt, Nat.add_assoc, Nat.shiftLeft_eq]
    omega
  · simp [run_cycle_fetch, run_cycle_decode, hd, rmw_zero_page_x_late, read_memory_val, rd_val, hidx, hh, h0,
      hop, hm2, hw2, k1, k2, k3, k4, k5, k6, k7, k8, k9, k10, k11, k12, k13, k14, k16, k17, c20, c21, c30, c31, c32, FF_and, word_eq, word_eq_mul, bus_val_lt, Nat.add_assoc, Nat.shiftLeft_eq]
  · simp [run_cycle_fetch, run_cycle_decode, hd, rmw_zero_page_x_late, read_memory_val, rd_val, hidx, hh, h0,
      hop, hm2, hw2, k1, k2, k3, k4, k5, k6, k7, k8, k9, k10, k11, k12, k13, k14, k16, k17, c20, c21, c30, c31, c32, FF_and, word_eq, word_eq_mul, bus_val_lt, Nat.add_assoc, Nat.shiftLeft_eq]
  · simp [run_cycle_fetch, run_cycle_decode, hd, rmw_zero_page_x_late, read_memory_val, rd_val, hidx, hh, h0,
      hop, hm2, hw2, k1, k2, k3, k4, k5, k6, k7, k8, k9, k10, k11, k12, k13, k14, k16, k17, c20, c21, c30, c31, c32, FF_and, word_eq, word_eq_mul, bus_val_lt, Nat.add_assoc, Nat.shiftLeft_eq]
  · simp [run_cycle_fetch, run_cycle_decode, hd, rmw_zero_page_x_late, read_memory_val, rd_val, hidx, hh, h0,
      hop, hm2, hw2, k1, k2, k3, k4, k5, k6, k7, k8, k9, k10, k11, k12, k13, k14, k16, k17, c20, c21, c30, c31, c32, FF_and, word_eq, word_eq_mul, bus_val_lt, Nat.add_assoc, Nat.shiftLeft_eq]


set_option maxHeartbeats 3200000 in
/-- An absolute read-modify-write instruction with kernel `K`: 6 cycles. -/
theorem rmw_absolute_exec (K : State → Nat → State) (hK : rmw_kernel K) (s : State) (op : Nat)
    (hidx : s.cur_instr_index = 0) (hh : s.hang = 0) (h0 : rd s s.pc = op)
    (hd : ∀ t, t.cur_instr 0 = op → decode_opcode t = rmw_absolute K t) :
    retires_after s 6 ∧
    (run_cycles 6 s).bus = s.bus ++ [Access.read (s.pc % 65536), Access.read ((s.pc + 1) % 65536), Access.read ((s.pc + 2) % 65536),
      Access.read (rd s (s.pc + 1) + 256 * rd s (s.pc + 2)),
      Access.write (rd s (s.pc + 1) + 256 * rd s (s.pc + 2)) (kernel_value K s.reg_p (rd s (rd s (s.pc + 1) + 256 * rd s (s.pc + 2))) % 256)] ∧
    (run_cycles 6 s).reg_p = kernel_flags K s.reg_p (rd s (rd s (s.pc + 1) + 256 * rd s (s.pc + 2))) ∧
    (run_cycles 6 s).reg_a = s.reg_a ∧ (run_cycles 6 s).reg_x = s.reg_x ∧
    (run_cycles 6 s).reg_y = s.reg_y := by
  have k1 : ∀ t k, (K t k).internal_ram = t.internal_ram := fun t k => (hK t k).1
  have k2 : ∀ t k, (K t k).cur_instr_index = t.cur_instr_index := fun t k => (hK t k).2.1
  have k3 : ∀ t k, (K t k).p6502_single_step = t.p6502_single_step := fun t k => (hK t k).2.2.1
  have k4 : ∀ t k, (K t k).hang = t.hang := fun t k => (hK t k).2.2.2.1
  have k5 : ∀ t k, (K t k).cycle_number = t.cycle_number := fun t k => (hK t k).2.2.2.2.1
  have k6 : ∀ t k, (K t k).reg_a = t.reg_a := fun t k => (hK t k).2.2.2.2.2.1
  have k7 : ∀ t k, (K t k).reg_x = t.reg_x := fun t k => (hK t k).2.2.2.2.2.2.1
  have k8 : ∀ t k, (K t k).reg_y = t.reg_y := fun t k => (hK t k).2.2.2.2.2.2.2.1
  have k9 : ∀ t k, (K t k).pc = t.pc := fun t k => (hK t k).2.2.2.2.2.2.2.2.1
  have k10 : ∀ t k, (K t k).reg_s = t.reg_s := fun t k => (hK t k).2.2.2.2.2.2.2.2.2.1
  have k11 : ∀ t k, (K t k).mapper_cpur = t.mapper_cpur :=
    fun t k => (hK t k).2.2.2.2.2.2.2.2.2.2.1
  have k12 : ∀ t k, (K t k).mapper0_prg_rom = t.mapper0_prg_rom :=
    fun t k => (hK t k).2.2.2.2.2.2.2.2.2.2.2.1
  have k13 : ∀ t k, (K t k).mapper0_prg_rom_mask = t.mapper0_prg_rom_mask :=
    fun t k => (hK t k).2.2.2.2.2.2.2.2.2.2.2.2.1
  have k14 : ∀ t k, (K t k).bus = t.bus := fun t k => (hK t k).2.2.2.2.2.2.2.2.2.2.2.2.2.1
  have k15 : ∀ t k j, j ≠ k → (K t k).cur_instr j = t.cur_instr j :=
    fun t k j h => (hK t k).2.2.2.2.2.2.2.2.2.2.2.2.2.2.1 j h
  have k16 : ∀ t k, (K t k).cur_instr k = kernel_value K t.reg_p (t.cur_instr k) :=
    fun t k => (hK t k).2.2.2.2.2.2.2.2.2.2.2.2.2.2.2.1
  have k17 : ∀ t k, (K t k).reg_p = kernel_flags K t.reg_p (t.cur_instr k) :=
    fun t k => (hK t k).2.2.2.2.2.2.2.2.2.2.2.2.2.2.2.2
  have c20 : ∀ t, (K t 2).cur_instr 0 = t.cur_instr 0 := fun t => k15 t 2 0 (by decide)
  have c21 : ∀ t, (K t 2).cur_instr 1 = t.cur_instr 1 := fun t => k15 t 2 1 (by decide)
  have c30 : ∀ t, (K t 3).cur_instr 0 = t.cur_instr 0 := fun t => k15 t 3 0 (by decide)
  have c31 : ∀ t, (K t 3).cur_instr 1 = t.cur_instr 1 := fun t => k15 t 3 1 (by decide)
  have c32 : ∀ t, (K t 3).cur_instr 2 = t.cur_instr 2 := fun t => k15 t 3 2 (by decide)
  rw [rd_val] at h0
  have hop : op % 256 = op := by rw [← h0]; simp
  have hm2 : bus_val s.internal_ram s.mapper_cpur s.mapper0_prg_rom s.mapper0_prg_rom_mask
      (s.pc + 2) * 256 = 256 * bus_val s.internal_ram s.mapper_cpur s.mapper0_prg_rom
      s.mapper0_prg_rom_mask (s.pc + 2) := Nat.mul_comm _ _
  have hw2 : bus_val s.internal_ram s.mapper_cpur s.mapper0_prg_rom s.mapper0_prg_rom_mask
      (s.pc + 1) ||| 256 * bus_val s.internal_ram s.mapper_cpur s.mapper0_prg_rom
      s.mapper0_prg_rom_mask (s.pc + 2) =
      bus_val s.internal_ram s.mapper_cpur s.mapper0_prg_rom s.mapper0_prg_rom_mask
      (s.pc + 1) + 256 * bus_val s.internal_ram s.mapper_cpur s.mapper0_prg_rom
      s.mapper0_prg_rom_mask (s.pc + 2) := by
    rw [← hm2, word_eq_mul _ _ (bus_val_lt _ _ _ _ _), hm2]
  refine ⟨⟨by norm_num, ?_, ?_⟩, ?_, ?_, ?_, ?_, ?_⟩
  · simp [run_cycle_fetch, run_cycle_decode, hd, rmw_absolute, read_memory_val, rd_val, hidx, hh, h0,
      hop, hm2, hw2, k1, k2, k3, k4, k5, k6, k7, k8, k9, k10, k11, k12, k13, k14, k16, k17, c20, c21, c30, c31, c32, FF_and, word_eq, word_eq_mul, bus_val_lt, Nat.add_assoc, Nat.shiftLeft_eq]
  · intro k hk hk0
    have : k = 1 ∨ k = 2 ∨ k = 3 ∨ k = 4 ∨ k = 5 := by omega
    rcases this with rfl | rfl | rfl | rfl | rfl <;>
    simp [run_cycle_fetch, run_cycle_decode, hd, rmw_absolute, read_memory_val, rd_val, hidx, hh, h0,
      hop, hm2, hw2, k1, k2, k3, k4, k5, k6, k7, k8, k9, k10, k11, k12, k13, k14, k16, k17, c20, c21, c30, c31, c32, FF_and, word_eq, word_eq_mul, bus_val_lt, Nat.add_assoc, Nat.shiftLeft_eq]
  · have b1 := bus_val_lt s.internal_ram s.mapper_cpur s.mapper0_prg_rom s.mapper0_prg_rom_mask
      (s.pc + 1)
    have b2 := bus_val_lt s.internal_ram s.mapper_cpur s.mapper0_prg_rom s.mapper0_prg_rom_mask
      (s.pc + 2)
    simp [run_cycle_fetch, run_cycle_decode, hd, rmw_absolute, read_memory_val, rd_val, hidx, hh, h0,
      hop, hm2, hw2, k1, k2, k3, k4, k5, k6, k7, k8, k9, k10, k11, k12, k13, k14, k16, k17, c20, c21, c30, c31, c32, FF_and, word_eq, word_eq_mul, bus_val_lt, Nat.add_assoc, Nat.shiftLeft_eq]
    omega
  · simp [run_cycle_fetch, run_cycle_decode, hd, rmw_absolute, read_memory_val, rd_val, hidx, hh, h0,
      hop, hm2, hw2, k1, k2, k3, k4, k5, k6, k7, k8, k9, k10, k11, k12, k13, k14, k16, k17, c20, c21, c30, c31, c32, FF_and, word_eq, word_eq_mul, bus_val_lt, Nat.add_assoc, Nat.shiftLeft_eq]
  · simp [run_cycle_fetch, run_cycle_decode, hd, rmw_absolute, read_memory_val, rd_val, hidx, hh, h0,
      hop, hm2, hw2, k1, k2, k3, k4, k5, k6, k7, k8, k9, k10, k11, k12, k13, k14, k16, k17, c20, c21, c30, c31, c32, FF_and, word_eq, word_eq_mul, bus_val_lt, Nat.add_assoc, Nat.shiftLeft_eq]
  · simp [run_cycle_fetch, run_cycle_decode, hd, rmw_absolute, read_memory_val, rd_val, hidx, hh, h0,
      hop, hm2, hw2, k1, k2, k3, k4, k5, k6, k7, k8, k9, k10, k11, k12, k13, k14, k16, k17, c20, c21, c30, c31, c32, FF_and, word_eq, word_eq_mul, bus_val_lt, Nat.add_assoc, Nat.shiftLeft_eq]
  · simp [run_cycle_fetch, run_cycle_decode, hd, rmw_absolute, read_memory_val, rd_val, hidx, hh, h0,
      hop, hm2, hw2, k1, k2, k3, k4, k5, k6, k7, k8, k9, k10, k11, k12, k13, k14, k16, k17, c20, c21, c30, c31, c32, FF_and, word_eq, word_eq_mul, bus_val_lt, Nat.add_assoc, Nat.shiftLeft_eq]


set_option maxHeartbeats 3200000 in
/-- An absolute read-modify-write instruction (address formed with `+`) with kernel
`K`: 6 cycles. -/
theorem rmw_absolute_plus_exec (K : State → Nat → State) (hK : rmw_kernel K) (s : State) (op : Nat)
    (hidx : s.cur_instr_index = 0) (hh : s.hang = 0) (h0 : rd s s.pc = op)
    (hd : ∀ t, t.cur_instr 0 = op → decode_opcode t = rmw_absolute_plus K t) :
    retires_after s 6 ∧
    (run_cycles 6 s).bus = s.bus ++ [Access.read (s.pc % 65536), Access.read ((s.pc + 1) % 65536), Access.read ((s.pc + 2) % 65536),
      Access.read (rd s (s.pc + 1) + 256 * rd s (s.pc + 2)),
      Access.write (rd s (s.pc + 1) + 256 * rd s (s.pc + 2)) (kernel_value K s.reg_p (rd s (rd s (s.pc + 1) + 256 * rd s (s.pc + 2))) % 256)] ∧
    (run_cycles 6 s).reg_p = kernel_flags K s.reg_p (rd s (rd s (s.pc + 1) + 256 * rd s (s.pc + 2))) ∧
    (run_cycles 6 s).reg_a = s.reg_a ∧ (run_cycles 6 s).reg_x = s.reg_x ∧
    (run_cycles 6 s).reg_y = s.reg_y := by
  have k1 : ∀ t k, (K t k).internal_ram = t.internal_ram := fun t k => (hK t k).1
  have k2 : ∀ t k, (K t k).cur_instr_index = t.cur_instr_index := fun t k => (hK t k).2.1
  have k3 : ∀ t k, (K t k).p6502_single_step = t.p6502_single_step := fun t k => (hK t k).2.2.1
  have k4 : ∀ t k, (K t k).hang = t.hang := fun t k => (hK t k).2.2.2.1
  have k5 : ∀ t k, (K t k).cycle_number = t.cycle_number := fun t k => (hK t k).2.2.2.2.1
  have k6 : ∀ t k, (K t k).reg_a = t.reg_a := fun t k => (hK t k).2.2.2.2.2.1
  have k7 : ∀ t k, (K t k).reg_x = t.reg_x := fun t k => (hK t k).2.2.2.2.2.2.1
  have k8 : ∀ t k, (K t k).reg_y = t.reg_y := fun t k => (hK t k).2.2.2.2.2.2.2.1
  have k9 : ∀ t k, (K t k).pc = t.pc := fun t k => (hK t k).2.2.2.2.2.2.2.2.1
  have k10 : ∀ t k, (K t k).reg_s = t.reg_s := fun t k => (hK t k).2.2.2.2.2.2.2.2.2.1
  have k11 : ∀ t k, (K t k).mapper_cpur = t.mapper_cpur :=
    fun t k => (hK t k).2.2.2.2.2.2.2.2.2.2.1
  have k12 : ∀ t k, (K t k).mapper0_prg_rom = t.mapper0_prg_rom :=
    fun t k => (hK t k).2.2.2.2.2.2.2.2.2.2.2.1
  have k13 : ∀ t k, (K t k).mapper0_prg_rom_mask = t.mapper0_prg_rom_mask :=
    fun t k => (hK t k).2.2.2.2.2.2.2.2.2.2.2.2.1
  have k14 : ∀ t k, (K t k).bus = t.bus := fun t k => (hK t k).2.2.2.2.2.2.2.2.2.2.2.2.2.1
  have k15 : ∀ t k j, j ≠ k → (K t k).cur_instr j = t.cur_instr j :=
    fun t k j h => (hK t k).2.2.2.2.2.2.2.2.2.2.2.2.2.2.1 j h
  have k16 : ∀ t k, (K t k).cur_instr k = kernel_value K t.reg_p (t.cur_instr k) :=
    fun t k => (hK t k).2.2.2.2.2.2.2.2.2.2.2.2.2.2.2.1
  have k17 : ∀ t k, (K t k).reg_p = kernel_flags K t.reg_p (t.cur_instr k) :=
    fun t k => (hK t k).2.2.2.2.2.2.2.2.2.2.2.2.2.2.2.2
  have c20 : ∀ t, (K t 2).cur_instr 0 = t.cur_instr 0 := fun t => k15 t 2 0 (by decide)
  have c21 : ∀ t, (K t 2).cur_instr 1 = t.cur_instr 1 := fun t => k15 t 2 1 (by decide)
  have c30 : ∀ t, (K t 3).cur_instr 0 = t.cur_instr 0 := fun t => k15 t 3 0 (by decide)
  have c31 : ∀ t, (K t 3).cur_instr 1 = t.cur_instr 1 := fun t => k15 t 3 1 (by decide)
  have c32 : ∀ t, (K t 3).cur_instr 2 = t.cur_instr 2 := fun t => k15 t 3 2 (by decide)
  rw [rd_val] at h0
  have hop : op % 256 = op := by rw [← h0]; simp
  have hm2 : bus_val s.internal_ram s.mapper_cpur s.mapper0_prg_rom s.mapper0_prg_rom_mask
      (s.pc + 2) * 256 = 256 * bus_val s.internal_ram s.mapper_cpur s.mapper0_prg_rom
      s.mapper0_prg_rom_mask (s.pc + 2) := Nat.mul_comm _ _
  have hw2 : bus_val s.internal_ram s.mapper_cpur s.mapper0_prg_rom s.mapper0_prg_rom_mask
      (s.pc + 1) ||| 256 * bus_val s.internal_ram s.mapper_cpur s.mapper0_prg_rom
      s.mapper0_prg_rom_mask (s.pc + 2) =
      bus_val s.internal_ram s.mapper_cpur s.mapper0_prg_rom s.mapper0_prg_rom_mask
      (s.pc + 1) + 256 * bus_val s.internal_ram s.mapper_cpur s.mapper0_prg_rom
      s.mapper0_prg_rom_mask (s.pc + 2) := by
    rw [← hm2, word_eq_mul _ _ (bus_val_lt _ _ _ _ _), hm2]
  refine ⟨⟨by norm_num, ?_, ?_⟩, ?_, ?_, ?_, ?_, ?_⟩
  · simp [run_cycle_fetch, run_cycle_decode, hd, rmw_absolute_plus, read_memory_val, rd_val, hidx, hh, h0,
      hop, hm2, hw2, k1, k2, k3, k4, k5, k6, k7, k8, k9, k10, k11, k12, k13, k14, k16, k17, c20, c21, c30, c31, c32, FF_and, word_eq, word_eq_mul, bus_val_lt, Nat.add_assoc, Nat.shiftLeft_eq]
  · intro k hk hk0
    have : k = 1 ∨ k = 2 ∨ k = 3 ∨ k = 4 ∨ k = 5 := by omega
    rcases this with rfl | rfl | rfl | rfl | rfl <;>
    simp [run_cycle_fetch, run_cycle_decode, hd, rmw_absolute_plus, read_memory_val, rd_val, hidx, hh, h0,
      hop, hm2, hw2, k1, k2, k3, k4, k5, k6, k7, k8, k9, k10, k11, k12, k13, k14, k16, k17, c20, c21, c30, c31, c32, FF_and, word_eq, word_eq_mul, bus_val_lt, Nat.add_assoc, Nat.shiftLeft_eq]
  · have b1 := bus_val_lt s.internal_ram s.mapper_cpur s.mapper0_prg_rom s.mapper0_prg_rom_mask
      (s.pc + 1)
    have b2 := bus_val_lt s.internal_ram s.mapper_cpur s.mapper0_prg_rom s.mapper0_prg_rom_mask
      (s.pc + 2)
    simp [run_cycle_fetch, run_cycle_decode, hd, rmw_absolute_plus, read_memory_val, rd_val, hidx, hh, h0,
      hop, hm2, hw2, k1, k2, k3, k4, k5, k6, k7, k8, k9, k10, k11, k12, k13, k14, k16, k17, c20, c21, c30, c31, c32, FF_and, word_eq, word_eq_mul, bus_val_lt, Nat.add_assoc, Nat.shiftLeft_eq]
    omega
  · simp [run_cycle_fetch, run_cycle_decode, hd, rmw_absolute_plus, read_memory_val, rd_val, hidx, hh, h0,
      hop, hm2, hw2, k1, k2, k3, k4, k5, k6, k7, k8, k9, k10, k11, k12, k13, k14, k16, k17, c20, c21, c30, c31, c32, FF_and, word_eq, word_eq_mul, bus_val_lt, Nat.add_assoc, Nat.shiftLeft_eq]
  · simp [run_cycle_fetch, run_cycle_decode, hd, rmw_absolute_plus, read_memory_val, rd_val, hidx, hh, h0,
      hop, hm2, hw2, k1, k2, k3, k4, k5, k6, k7, k8, k9, k10, k11, k12, k13, k14, k16, k17, c20, c21, c30, c31, c32, FF_and, word_eq, word_eq_mul, bus_val_lt, Nat.add_assoc, Nat.shiftLeft_eq]
  · simp [run_cycle_fetch, run_cycle_decode, hd, rmw_absolute_plus, read_memory_val, rd_val, hidx, hh, h0,
      hop, hm2, hw2, k1, k2, k3, k4, k5, k6, k7, k8, k9, k10, k11, k12, k13, k14, k16, k17, c20, c21, c30, c31, c32, FF_and, word_eq, word_eq_mul, bus_val_lt, Nat.add_assoc, Nat.shiftLeft_eq]
  · simp [run_cycle_fetch, run_cycle_decode, hd, rmw_absolute_plus, read_memory_val, rd_val, hidx, hh, h0,
      hop, hm2, hw2, k1, k2, k3, k4, k5, k6, k7, k8, k9, k10, k11, k12, k13, k14, k16, k17, c20, c21, c30, c31, c32, FF_and, word_eq, word_eq_mul, bus_val_lt, Nat.add_assoc, Nat.shiftLeft_eq]


set_option maxHeartbeats 3200000 in
/-- An absolute,X read-modify-write instruction with kernel `K`: 7 cycles. -/
theorem rmw_absolute_x_exec (K : State → Nat → State) (hK : rmw_kernel K) (s : State) (op : Nat)
    (hidx : s.cur_instr_index = 0) (hh : s.hang = 0) (h0 : rd s s.pc = op)
    (hd : ∀ t, t.cur_instr 0 = op → decode_opcode t = rmw_absolute_x K t) :
    retires_after s 7 ∧
    (run_cycles 7 s).bus = s.bus ++ [Access.read (s.pc % 65536), Access.read ((s.pc + 1) % 65536), Access.read ((s.pc + 2) % 65536),
      Access.read ((rd s (s.pc + 1) + 256 * rd s (s.pc + 2) + s.reg_x) % 65536),
      Access.write ((rd s (s.pc + 1) + 256 * rd s (s.pc + 2) + s.reg_x) % 65536) (kernel_value K s.reg_p (rd s ((rd s (s.pc + 1) + 256 * rd s (s.pc + 2) + s.reg_x) % 65536)) % 256)] ∧
    (run_cycles 7 s).reg_p = kernel_flags K s.reg_p (rd s ((rd s (s.pc + 1) + 256 * rd s (s.pc + 2) + s.reg_x) % 65536)) ∧
    (run_cycles 7 s).reg_a = s.reg_a ∧ (run_cycles 7 s).reg_x = s.reg_x ∧
    (run_cycles 7 s).reg_y = s.reg_y := by
  have k1 : ∀ t k, (K t k).internal_ram = t.internal_ram := fun t k => (hK t k).1
  have k2 : ∀ t k, (K t k).cur_instr_index = t.cur_instr_index := fun t k => (hK t k).2.1
  have k3 : ∀ t k, (K t k).p6502_single_step = t.p6502_single_step := fun t k => (hK t k).2.2.1
  have k4 : ∀ t k, (K t k).hang = t.hang := fun t k => (hK t k).2.2.2.1
  have k5 : ∀ t k, (K t k).cycle_number = t.cycle_number := fun t k => (hK t k).2.2.2.2.1
  have k6 : ∀ t k, (K t k).reg_a = t.reg_a := fun t k => (hK t k).2.2.2.2.2.1
  have k7 : ∀ t k, (K t k).reg_x = t.reg_x := fun t k => (hK t k).2.2.2.2.2.2.1
  have k8 : ∀ t k, (K t k).reg_y = t.reg_y := fun t k => (hK t k).2.2.2.2.2.2.2.1
  have k9 : ∀ t k, (K t k).pc = t.pc := fun t k => (hK t k).2.2.2.2.2.2.2.2.1
  have k10 : ∀ t k, (K t k).reg_s = t.reg_s := fun t k => (hK t k).2.2.2.2.2.2.2.2.2.1
  have k11 : ∀ t k, (K t k).mapper_cpur = t.mapper_cpur :=
    fun t k => (hK t k).2.2.2.2.2.2.2.2.2.2.1
  have k12 : ∀ t k, (K t k).mapper0_prg_rom = t.mapper0_prg_rom :=
    fun t k => (hK t k).2.2.2.2.2.2.2.2.2.2.2.1
  have k13 : ∀ t k, (K t k).mapper0_prg_rom_mask = t.mapper0_prg_rom_mask :=
    fun t k => (hK t k).2.2.2.2.2.2.2.2.2.2.2.2.1
  have k14 : ∀ t k, (K t k).bus = t.bus := fun t k => (hK t k).2.2.2.2.2.2.2.2.2.2.2.2.2.1
  have k15 : ∀ t k j, j ≠ k → (K t k).cur_instr j = t.cur_instr j :=
    fun t k j h => (hK t k).2.2.2.2.2.2.2.2.2.2.2.2.2.2.1 j h
  have k16 : ∀ t k, (K t k).cur_instr k = kernel_value K t.reg_p (t.cur_instr k) :=
    fun t k => (hK t k).2.2.2.2.2.2.2.2.2.2.2.2.2.2.2.1
  have k17 : ∀ t k, (K t k).reg_p = kernel_flags K t.reg_p (t.cur_instr k) :=
    fun t k => (hK t k).2.2.2.2.2.2.2.2.2.2.2.2.2.2.2.2
  have c20 : ∀ t, (K t 2).cur_instr 0 = t.cur_instr 0 := fun t => k15 t 2 0 (by decide)
  have c21 : ∀ t, (K t 2).cur_instr 1 = t.cur_instr 1 := fun t => k15 t 2 1 (by decide)
  have c30 : ∀ t, (K t 3).cur_instr 0 = t.cur_instr 0 := fun t => k15 t 3 0 (by decide)
  have c31 : ∀ t, (K t 3).cur_instr 1 = t.cur_instr 1 := fun t => k15 t 3 1 (by decide)
  have c32 : ∀ t, (K t 3).cur_instr 2 = t.cur_instr 2 := fun t => k15 t 3 2 (by decide)
  rw [rd_val] at h0
  have hop : op % 256 = op := by rw [← h0]; simp
  have hm2 : bus_val s.internal_ram s.mapper_cpur s.mapper0_prg_rom s.mapper0_prg_rom_mask
      (s.pc + 2) * 256 = 256 * bus_val s.internal_ram s.mapper_cpur s.mapper0_prg_rom
      s.mapper0_prg_rom_mask (s.pc + 2) := Nat.mul_comm _ _
  have hw2 : bus_val s.internal_ram s.mapper_cpur s.mapper0_prg_rom s.mapper0_prg_rom_mask
      (s.pc + 1) ||| 256 * bus_val s.internal_ram s.mapper_cpur s.mapper0_prg_rom
      s.mapper0_prg_rom_mask (s.pc + 2) =
      bus_val s.internal_ram s.mapper_cpur s.mapper0_prg_rom s.mapper0_prg_rom_mask
      (s.pc + 1) + 256 * bus_val s.internal_ram s.mapper_cpur s.mapper0_prg_rom
      s.mapper0_prg_rom_mask (s.pc + 2) := by
    rw [← hm2, word_eq_mul _ _ (bus_val_lt _ _ _ _ _), hm2]
  refine ⟨⟨by norm_num, ?_, ?_⟩, ?_, ?_, ?_, ?_, ?_⟩
  · simp [run_cycle_fetch, run_cycle_decode, hd, rmw_absolute_x, read_memory_val, rd_val, hidx, hh, h0,
      hop, hm2, hw2, k1, k2, k3, k4, k5, k6, k7, k8, k9, k10, k11, k12, k13, k14, k16, k17, c20, c21, c30, c31, c32, FF_and, word_eq, word_eq_mul, bus_val_lt, Nat.add_assoc, Nat.shiftLeft_eq]
  · intro k hk hk0
    have : k = 1 ∨ k = 2 ∨ k = 3 ∨ k = 4 ∨ k = 5 ∨ k = 6 := by omega
    rcases this with rfl | rfl | rfl | rfl | rfl | rfl <;>
    simp [run_cycle_fetch, run_cycle_decode, hd, rmw_absolute_x, read_memory_val, rd_val, hidx, hh, h0,
      hop, hm2, hw2, k1, k2, k3, k4, k5, k6, k7, k8, k9, k10, k11, k12, k13, k14, k16, k17, c20, c21, c30, c31, c32, FF_and, word_eq, word_eq_mul, bus_val_lt, Nat.add_assoc, Nat.shiftLeft_eq]
  · have b1 := bus_val_lt s.internal_ram s.mapper_cpur s.mapper0_prg_rom s.mapper0_prg_rom_mask
      (s.pc + 1)
    have b2 := bus_val_lt s.internal_ram s.mapper_cpur s.mapper0_prg_rom s.mapper0_prg_rom_mask
      (s.pc + 2)
    simp [run_cycle_fetch, run_cycle_decode, hd, rmw_absolute_x, read_memory_val, rd_val, hidx, hh, h0,
      hop, hm2, hw2, k1, k2, k3, k4, k5, k6, k7, k8, k9, k10, k11, k12, k13, k14, k16, k17, c20, c21, c30, c31, c32, FF_and, word_eq, word_eq_mul, bus_val_lt, Nat.add_assoc, Nat.shiftLeft_eq]
  · simp [run_cycle_fetch, run_cycle_decode, hd, rmw_absolute_x, read_memory_val, rd_val, hidx, hh, h0,
      hop, hm2, hw2, k1, k2, k3, k4, k5, k6, k7, k8, k9, k10, k11, k12, k13, k14, k16, k17, c20, c21, c30, c31, c32, FF_and, word_eq, word_eq_mul, bus_val_lt, Nat.add_assoc, Nat.shiftLeft_eq]
  · simp [run_cycle_fetch, run_cycle_decode, hd, rmw_absolute_x, read_memory_val, rd_val, hidx, hh, h0,
      hop, hm2, hw2, k1, k2, k3, k4, k5, k6, k7, k8, k9, k10, k11, k12, k13, k14, k16, k17, c20, c21, c30, c31, c32, FF_and, word_eq, word_eq_mul, bus_val_lt, Nat.add_assoc, Nat.shiftLeft_eq]
  · simp [run_cycle_fetch, run_cycle_decode, hd, rmw_absolute_x, read_memory_val, rd_val, hidx, hh, h0,
      hop, hm2, hw2, k1, k2, k3, k4, k5, k6, k7, k8, k9, k10, k11, k12, k13, k14, k16, k17, c20, c21, c30, c31, c32, FF_and, word_eq, word_eq_mul, bus_val_lt, Nat.add_assoc, Nat.shiftLeft_eq]
  · simp [run_cycle_fetch, run_cycle_decode, hd, rmw_absolute_x, read_memory_val, rd_val, hidx, hh, h0,
      hop, hm2, hw2, k1, k2, k3, k4, k5, k6, k7, k8, k9, k10, k11, k12, k13, k14, k16, k17, c20, c21, c30, c31, c32, FF_and, word_eq, word_eq_mul, bus_val_lt, Nat.add_assoc, Nat.shiftLeft_eq]

/-- The flags after a carry update and the N/Z update from a byte `r`. -/
theorem cnz_flags_bits (p r q : Nat) (cb : Bool)
    (hq : q = set_flag (set_flag (set_flag p STATUS_CARRY cb) STATUS_NEGATIVE
      (decide (r &&& 0x80 ≠ 0))) STATUS_ZERO (decide (¬ (r ≠ 0)))) :
    (q &&& 0x01 ≠ 0 ↔ cb = true) ∧ (q &&& 0x80 ≠ 0 ↔ r &&& 0x80 ≠ 0) ∧
    (q &&& 0x02 ≠ 0 ↔ r = 0) ∧ q &&& 0x40 = p &&& 0x40 := by
  subst hq
  refine ⟨?_, ?_, ?_, and_pow_congr _ _ 6 ?_⟩
  · refine Iff.trans (and_01 _) ?_
    simp only [testBit_set_flag_Z, testBit_set_flag_N, testBit_set_flag_C]
    simp
  · refine Iff.trans (and_80 _) ?_
    simp only [testBit_set_flag_Z, testBit_set_flag_N, testBit_set_flag_C]
    simp
  · refine Iff.trans (and_02 _) ?_
    simp only [testBit_set_flag_Z, testBit_set_flag_N, testBit_set_flag_C]
    simp
  · simp only [testBit_set_flag_Z, testBit_set_flag_N, testBit_set_flag_C]
    simp

theorem asl_value_eq (p v : Nat) : kernel_value asl_slot p v = (v <<< 1) % 256 := by
  simp [kernel_value, asl_slot, probe, set_nz, set_instr]

theorem asl_flags_eq (p v : Nat) :
    kernel_flags asl_slot p v =
      set_flag (set_flag (set_flag p STATUS_CARRY (decide (v &&& 0x80 ≠ 0))) STATUS_NEGATIVE
        (decide ((v <<< 1) % 256 &&& 0x80 ≠ 0))) STATUS_ZERO (decide (¬ ((v <<< 1) % 256 ≠ 0))) := by
  simp [kernel_flags, asl_slot, probe, set_nz, set_instr]

theorem rol_value_eq (p v : Nat) :
    kernel_value rol_slot p v = ((v <<< 1) % 256 ||| (p &&& 1)) % 256 := by
  simp only [kernel_value, rol_slot, probe, set_instr_reg_p, ← carry_in_eq]
  split_ifs <;> simp [set_nz, set_instr, *]

theorem rol_flags_eq (p v : Nat) :
    kernel_flags rol_slot p v =
      set_flag (set_flag (set_flag p STATUS_CARRY (decide (v &&& 0x80 ≠ 0))) STATUS_NEGATIVE
        (decide (((v <<< 1) % 256 ||| (p &&& 1)) % 256 &&& 0x80 ≠ 0))) STATUS_ZERO
        (decide (¬ (((v <<< 1) % 256 ||| (p &&& 1)) % 256 ≠ 0))) := by
  simp only [kernel_flags, rol_slot, probe, set_instr_reg_p, ← carry_in_eq]
  split_ifs <;> simp [set_nz, set_instr, set_flag, *]

theorem lsr_value_eq (p v : Nat) : kernel_value lsr_slot p v = (v >>> 1) % 256 := by
  simp [kernel_value, lsr_slot, probe, set_instr]

theorem shr1_and_80 (v : Nat) (hv : v < 256) : (v >>> 1) % 256 &&& 0x80 = 0 := by
  have h : ¬ ((v >>> 1) % 256 &&& 0x80 ≠ 0) := by
    rw [and_80, testBit7, Nat.shiftRight_eq_div_pow]
    simp only [decide_eq_true_eq]
    omega
  exact not_not.mp h

theorem lsr_flags_eq (p v : Nat) (hv : v < 256) :
    kernel_flags lsr_slot p v =
      set_flag (set_flag (set_flag p STATUS_CARRY (decide (v &&& 0x01 ≠ 0))) STATUS_NEGATIVE
        (decide ((v >>> 1) % 256 &&& 0x80 ≠ 0))) STATUS_ZERO (decide (¬ ((v >>> 1) % 256 ≠ 0))) := by
  have h := shr1_and_80 v hv
  simp [kernel_flags, lsr_slot, probe, set_instr, set_flag, h]

theorem ror_value_eq (p v : Nat) :
    kernel_value ror_slot p v =
      ((v >>> 1) % 256 ||| (if p &&& STATUS_CARRY ≠ 0 then 0x80 else 0)) % 256 := by
  simp only [kernel_value, ror_slot, probe, set_instr_reg_p]
  split_ifs <;> simp [set_nz, set_instr, *]

theorem ror_flags_eq (p v : Nat) :
    kernel_flags ror_slot p v =
      set_flag (set_flag (set_flag p STATUS_CARRY (decide (v &&& 0x01 ≠ 0))) STATUS_NEGATIVE
        (decide (((v >>> 1) % 256 ||| (if p &&& STATUS_CARRY ≠ 0 then 0x80 else 0)) % 256 &&&
          0x80 ≠ 0))) STATUS_ZERO
        (decide (¬ (((v >>> 1) % 256 ||| (if p &&& STATUS_CARRY ≠ 0 then 0x80 else 0)) % 256
          ≠ 0))) := by
  have e : v &&& 1 = v % 2 := Nat.and_one_is_mod v
  by_cases hv1 : v % 2 = 1
  · have hv2 : v &&& 1 ≠ 0 := by rw [e]; omega
    simp only [kernel_flags, ror_slot, probe, set_instr_reg_p]
    split_ifs <;> simp [set_nz, set_instr, set_flag, hv1, *]
  · have hv2 : ¬ v &&& 1 ≠ 0 := by rw [e]; omega
    simp only [kernel_flags, ror_slot, probe, set_instr_reg_p]
    split_ifs <;> simp [set_nz, set_instr, set_flag, hv1, *]

theorem inc_value_eq (p v : Nat) : kernel_value inc_slot p v = (v + 1) % 256 := by
  simp [kernel_value, inc_slot, probe, set_nz, set_instr]

theorem inc_flags_eq (p v : Nat) :
    kernel_flags inc_slot p v =
      set_flag (set_flag p STATUS_NEGATIVE (decide ((v + 1) % 256 &&& 0x80 ≠ 0))) STATUS_ZERO
        (decide (¬ ((v + 1) % 256 ≠ 0))) := by
  simp [kernel_flags, inc_slot, probe, set_nz, set_instr]

theorem dec_value_eq (p v : Nat) (hv : v < 256) : kernel_value dec_slot p v = (v + 255) % 256 := by
  simp only [kernel_value, dec_slot, probe, set_nz, set_instr, store_apply, if_true, isub]
  omega

theorem dec_flags_eq (p v : Nat) (hv : v < 256) :
    kernel_flags dec_slot p v =
      set_flag (set_flag p STATUS_NEGATIVE (decide ((v + 255) % 256 &&& 0x80 ≠ 0))) STATUS_ZERO
        (decide (¬ ((v + 255) % 256 ≠ 0))) := by
  have e : isub v 1 % 256 = (v + 255) % 256 := by
    simp only [isub]
    omega
  simp [kernel_flags, dec_slot, probe, set_nz, set_instr, e]

theorem carry_bit_cases (p : Nat) : p &&& 1 = 0 ∨ p &&& 1 = 1 := by
  rw [Nat.and_one_is_mod]
  omega

theorem or_mod_256 (a b : Nat) : (a ||| b) % 256 = (a % 256 ||| b % 256) := by
  refine Nat.eq_of_testBit_eq fun i => ?_
  simp only [testBit_mod256, Nat.testBit_or]
  cases decide (i < 8) <;> simp

theorem carry_shl7 (c : Nat) (h : c = 0 ∨ c = 1) :
    (if c ≠ 0 then 0x80 else 0) = c <<< 7 ∧ c <<< 7 < 2 ^ 8 ∧ c % 256 = c := by
  rcases h with rfl | rfl <;> decide

theorem asl_outcome (op : Nat) (hop : op &&& 0xE0 = 0x00) (h40 : op &&& 0x40 = 0)
    (s t : State) (v : Nat) (ht : t.reg_p = kernel_flags asl_slot s.reg_p v) :
    kernel_value asl_slot s.reg_p v % 256 = shift_result op v (s.reg_p &&& 1) ∧
    shift_outcome op s t v (shift_result op v (s.reg_p &&& 1)) := by
  have er : shift_result op v (s.reg_p &&& 1) = (v <<< 1) % 256 := by
    simp only [shift_result, hop, if_true, and_FF]
  have hb := cnz_flags_bits s.reg_p ((v <<< 1) % 256) t.reg_p _ (by rw [ht, asl_flags_eq])
  rw [er, asl_value_eq]
  refine ⟨Nat.mod_mod _ _, er.symm, ?_, hb.2.1, ?_, hb.2.2.1, hb.2.2.2⟩
  · rw [if_pos h40]
    exact Iff.trans hb.1 (by simp)
  · intro h
    rw [hop] at h
    exact absurd h (by decide)

theorem rol_outcome (op : Nat) (hop : op &&& 0xE0 = 0x20) (h40 : op &&& 0x40 = 0)
    (s t : State) (v : Nat) (ht : t.reg_p = kernel_flags rol_slot s.reg_p v) :
    kernel_value rol_slot s.reg_p v % 256 = shift_result op v (s.reg_p &&& 1) ∧
    shift_outcome op s t v (shift_result op v (s.reg_p &&& 1)) := by
  have hc : (s.reg_p &&& 1) % 256 = s.reg_p &&& 1 := (carry_shl7 _ (carry_bit_cases s.reg_p)).2.2
  have er : shift_result op v (s.reg_p &&& 1) = ((v <<< 1) % 256 ||| (s.reg_p &&& 1)) % 256 := by
    have h0 : ¬ (0x20 : Nat) = 0x00 := by decide
    simp only [shift_result, hop, h0, if_true, if_false, and_FF]
    rw [or_mod_256, or_mod_256 (v <<< 1 % 256), Nat.mod_mod]
  have hb := cnz_flags_bits s.reg_p (((v <<< 1) % 256 ||| (s.reg_p &&& 1)) % 256) t.reg_p _
    (by rw [ht, rol_flags_eq])
  rw [er, rol_value_eq]
  refine ⟨Nat.mod_mod _ _, er.symm, ?_, hb.2.1, ?_, hb.2.2.1, hb.2.2.2⟩
  · rw [if_pos h40]
    exact Iff.trans hb.1 (by simp)
  · intro h
    rw [hop] at h
    exact absurd h (by decide)

theorem lsr_outcome (op : Nat) (hop : op &&& 0xE0 = 0x40) (h40 : op &&& 0x40 ≠ 0)
    (s t : State) (v : Nat) (hv : v < 256) (ht : t.reg_p = kernel_flags lsr_slot s.reg_p v) :
    kernel_value lsr_slot s.reg_p v % 256 = shift_result op v (s.reg_p &&& 1) ∧
    shift_outcome op s t v (shift_result op v (s.reg_p &&& 1)) := by
  have hs : v >>> 1 < 256 := by
    rw [Nat.shiftRight_eq_div_pow]
    omega
  have er : shift_result op v (s.reg_p &&& 1) = (v >>> 1) % 256 := by
    have h0 : ¬ (0x40 : Nat) = 0x00 := by decide
    have h1 : ¬ (0x40 : Nat) = 0x20 := by decide
    simp only [shift_result, hop, h0, h1, if_true, if_false]
    exact (Nat.mod_eq_of_lt hs).symm
  have hb := cnz_flags_bits s.reg_p ((v >>> 1) % 256) t.reg_p _ (by rw [ht, lsr_flags_eq _ _ hv])
  rw [er, lsr_value_eq]
  refine ⟨Nat.mod_mod _ _, er.symm, ?_, hb.2.1, ?_, hb.2.2.1, hb.2.2.2⟩
  · rw [if_neg h40]
    exact Iff.trans hb.1 (by simp)
  · intro _
    have h := shr1_and_80 v hv
    exact not_not.mp (fun hn => (hb.2.1.mp hn) h)

theorem ror_outcome (op : Nat) (hop : op &&& 0xE0 = 0x60) (h40 : op &&& 0x40 ≠ 0)
    (s t : State) (v : Nat) (hv : v < 256) (ht : t.reg_p = kernel_flags ror_slot s.reg_p v) :
    kernel_value ror_slot s.reg_p v % 256 = shift_result op v (s.reg_p &&& 1) ∧
    shift_outcome op s t v (shift_result op v (s.reg_p &&& 1)) := by
  have hs : v >>> 1 < 128 := by
    rw [Nat.shiftRight_eq_div_pow]
    omega
  have hsm : (v >>> 1) % 256 = v >>> 1 := Nat.mod_eq_of_lt (by omega)
  have ec : (if s.reg_p &&& STATUS_CARRY ≠ 0 then 0x80 else 0) = (s.reg_p &&& 1) <<< 7 := by
    simp only [STATUS_CARRY]
    exact (carry_shl7 _ (carry_bit_cases s.reg_p)).1
  have hlt : (v >>> 1) ||| ((s.reg_p &&& 1) <<< 7) < 256 := by
    exact Nat.or_lt_two_pow (n := 8) (by omega) (carry_shl7 _ (carry_bit_cases s.reg_p)).2.1
  have er : shift_result op v (s.reg_p &&& 1) =
      ((v >>> 1) % 256 ||| (if s.reg_p &&& STATUS_CARRY ≠ 0 then 0x80 else 0)) % 256 := by
    have h0 : ¬ (0x60 : Nat) = 0x00 := by decide
    have h1 : ¬ (0x60 : Nat) = 0x20 := by decide
    have h2 : ¬ (0x60 : Nat) = 0x40 := by decide
    simp only [shift_result, hop, h0, h1, h2, if_false]
    rw [ec, hsm, Nat.mod_eq_of_lt hlt]
  have hb := cnz_flags_bits s.reg_p
    (((v >>> 1) % 256 ||| (if s.reg_p &&& STATUS_CARRY ≠ 0 then 0x80 else 0)) % 256) t.reg_p _
    (by rw [ht, ror_flags_eq])
  rw [er, ror_value_eq]
  refine ⟨Nat.mod_mod _ _, er.symm, ?_, hb.2.1, ?_, hb.2.2.1, hb.2.2.2⟩
  · rw [if_neg h40]
    exact Iff.trans hb.1 (by simp)
  · intro h
    rw [hop] at h
    exact absurd h (by decide)

theorem inc_outcome (op : Nat) (hop : op &&& 0x20 ≠ 0) (s t : State) (v : Nat)
    (ht : t.reg_p = kernel_flags inc_slot s.reg_p v) (ha : t.reg_a = s.reg_a)
    (hx : t.reg_x = s.reg_x) (hy : t.reg_y = s.reg_y) :
    kernel_value inc_slot s.reg_p v % 256 = incdec_result op v ∧
    incdec_outcome s t (incdec_result op v) := by
  have er : incdec_result op v = (v + 1) % 256 := by
    simp only [incdec_result, hop, ne_eq, not_false_eq_true, if_true]
  have hb := nz_flags_bits s.reg_p ((v + 1) % 256) t.reg_p (by rw [ht, inc_flags_eq])
  rw [er, inc_value_eq]
  exact ⟨Nat.mod_mod _ _, hb.1, hb.2.1, hb.2.2.1, hb.2.2.2.1, ha, hx, hy⟩

theorem dec_outcome (op : Nat) (hop : ¬ op &&& 0x20 ≠ 0) (s t : State) (v : Nat) (hv : v < 256)
    (ht : t.reg_p = kernel_flags dec_slot s.reg_p v) (ha : t.reg_a = s.reg_a)
    (hx : t.reg_x = s.reg_x) (hy : t.reg_y = s.reg_y) :
    kernel_value dec_slot s.reg_p v % 256 = incdec_result op v ∧
    incdec_outcome s t (incdec_result op v) := by
  have er : incdec_result op v = (v + 255) % 256 := by
    simp only [incdec_result, hop, if_false]
  have hb := nz_flags_bits s.reg_p ((v + 255) % 256) t.reg_p (by rw [ht, dec_flags_eq _ _ hv])
  rw [er, dec_value_eq _ _ hv]
  exact ⟨Nat.mod_mod _ _, hb.1, hb.2.1, hb.2.2.1, hb.2.2.2.1, ha, hx, hy⟩

theorem op_0A_acc (t : State) :
    (op_0A t).cur_instr_index = 0 ∧ (op_0A t).reg_a = kernel_value asl_slot t.reg_p t.reg_a ∧
    (op_0A t).reg_p = kernel_flags asl_slot t.reg_p t.reg_a := by
  rw [asl_value_eq, asl_flags_eq]
  refine ⟨?_, ?_, ?_⟩ <;> simp [op_0A]

theorem op_4A_acc (t : State) (ha : t.reg_a < 256) :
    (op_4A t).cur_instr_index = 0 ∧ (op_4A t).reg_a = kernel_value lsr_slot t.reg_p t.reg_a ∧
    (op_4A t).reg_p = kernel_flags lsr_slot t.reg_p t.reg_a := by
  have h := shr1_and_80 t.reg_a ha
  rw [lsr_value_eq, lsr_flags_eq _ _ ha]
  refine ⟨?_, ?_, ?_⟩ <;> simp [op_4A, set_flag, h]

theorem op_2A_acc (t : State) :
    (op_2A t).cur_instr_index = 0 ∧ (op_2A t).reg_a = kernel_value rol_slot t.reg_p t.reg_a ∧
    (op_2A t).reg_p = kernel_flags rol_slot t.reg_p t.reg_a := by
  rw [rol_value_eq, rol_flags_eq]
  simp only [op_2A, ← carry_in_eq]
  refine ⟨?_, ?_, ?_⟩ <;> split_ifs <;> simp [set_flag, *]

theorem op_6A_acc (t : State) :
    (op_6A t).cur_instr_index = 0 ∧ (op_6A t).reg_a = kernel_value ror_slot t.reg_p t.reg_a ∧
    (op_6A t).reg_p = kernel_flags ror_slot t.reg_p t.reg_a := by
  have e : t.reg_a &&& 1 = t.reg_a % 2 := Nat.and_one_is_mod _
  rw [ror_value_eq, ror_flags_eq]
  simp only [op_6A]
  by_cases hv1 : t.reg_a % 2 = 1
  · have hv2 : t.reg_a &&& 1 ≠ 0 := by rw [e]; omega
    refine ⟨?_, ?_, ?_⟩ <;> split_ifs <;> simp [set_flag, hv1, *]
  · have hv2 : ¬ t.reg_a &&& 1 ≠ 0 := by rw [e]; omega
    refine ⟨?_, ?_, ?_⟩ <;> split_ifs <;> simp [set_flag, hv1, *]

/-- An accumulator shift or rotate `F` that computes the kernel `K` on A: 2
cycles, no access but the opcode fetch. -/
theorem shift_accumulator_exec (K : State → Nat → State) (F : State → State)
    (hF : ∀ t, t.reg_a < 256 → (F t).cur_instr_index = 0 ∧
      (F t).reg_a = kernel_value K t.reg_p t.reg_a ∧
      (F t).reg_p = kernel_flags K t.reg_p t.reg_a)
    (s : State) (op : Nat) (hidx : s.cur_instr_index = 0) (hh : s.hang = 0)
    (h0 : rd s s.pc = op) (ha : s.reg_a < 256)
    (hd : ∀ t, t.cur_instr 0 = op → decode_opcode t = F t) :
    retires_after s 2 ∧ (run_cycles 2 s).reg_a = kernel_value K s.reg_p s.reg_a ∧
    (run_cycles 2 s).reg_p = kernel_flags K s.reg_p s.reg_a := by
  rw [rd_val] at h0
  have hop : op % 256 = op := by rw [← h0]; simp
  have e : run_cycles 2 s = single_step_halt (F (tick (fetch_opcode (tick s)))) := by
    simp [run_cycle_fetch, run_cycle_decode, hd, read_memory_val, hidx, hh, h0, hop]
  have hT : (tick (fetch_opcode (tick s))).reg_a < 256 := by simpa using ha
  obtain ⟨f1, f2, f3⟩ := hF _ hT
  refine ⟨⟨by norm_num, ?_, ?_⟩, ?_, ?_⟩
  · rw [e]
    simp [f1]
  · intro k hk hk0
    have : k = 1 := by omega
    subst this
    simp [run_cycle_fetch, hidx, hh]
  · rw [e]
    simp [f2]
  · rw [e]
    simp [f3]

theorem rmw_shift_of (op : Nat) (s t : State) (fetches : List Access) (e kv : Nat)
    (hout : kv % 256 = shift_result op (rd s e) (s.reg_p &&& 1) ∧
      shift_outcome op s t (rd s e) (shift_result op (rd s e) (s.reg_p &&& 1)))
    (hb : t.bus = s.bus ++ (fetches ++ [Access.read e, Access.write e (kv % 256)]))
    (ha : t.reg_a = s.reg_a) (hx : t.reg_x = s.reg_x) (hy : t.reg_y = s.reg_y) :
    rmw_shift op s t fetches e := by
  rw [hout.1] at hb
  exact ⟨hout.2, hb, ha, hx, hy⟩

theorem rmw_incdec_of (op : Nat) (s t : State) (fetches : List Access) (e kv : Nat)
    (hout : kv % 256 = incdec_result op (rd s e) ∧
      incdec_outcome s t (incdec_result op (rd s e)))
    (hb : t.bus = s.bus ++ (fetches ++ [Access.read e, Access.write e (kv % 256)])) :
    rmw_incdec op s t fetches e := by
  rw [hout.1] at hb
  exact ⟨hout.2, hb⟩

set_option maxRecDepth 8000 in
/-- The opcodes below `0x80` with a given value of `op & 0x1F`. -/
theorem shift_mode_cases (op : Nat) (h : op < 0x80) :
    op = (op &&& 0x1F) ∨ op = (op &&& 0x1F) + 0x20 ∨ op = (op &&& 0x1F) + 0x40 ∨
    op = (op &&& 0x1F) + 0x60 := by
  revert op
  decide


/-- C34. Shifts and rotates, run from an instruction boundary: in accumulator
mode (`0x0A`, `0x2A`, `0x4A`, `0x6A`) and in the memory modes zero-page,
zero-page,X, absolute and absolute,X, with v the operand byte and c the carry-in,
ASL gives r = (v << 1) & 0xFF with C = bit 7 of v, LSR r = v >> 1 with C = bit 0
of v and N = 0, ROL r = ((v << 1) | c) & 0xFF with C = bit 7 of v, ROR
r = (v >> 1) | (c << 7) with C = bit 0 of v; N = bit 7 of r, Z iff r = 0, V is
unchanged (`shift_outcome`), and r is written back to A or to the address v was
read from (`rmw_shift`). -/
theorem shifts_and_rotates (s : State) (op : Nat) (hidx : s.cur_instr_index = 0)
    (hh : s.hang = 0) (h0 : rd s s.pc = op) (hop : op < 0x80) (ha : s.reg_a < 256) :
    (op &&& 0x1F = 0x0A →
      retires_after s 2 ∧
      shift_outcome op s (run_cycles 2 s) s.reg_a (shift_result op s.reg_a (s.reg_p &&& 1)) ∧
      (run_cycles 2 s).reg_a = shift_result op s.reg_a (s.reg_p &&& 1)) ∧
    (op &&& 0x1F = 0x06 →
      retires_after s 5 ∧
      rmw_shift op s (run_cycles 5 s)
        [Access.read (s.pc % 65536), Access.read ((s.pc + 1) % 65536)]
        (rd s (s.pc + 1))) ∧
    (op &&& 0x1F = 0x16 →
      retires_after s 6 ∧
      rmw_shift op s (run_cycles 6 s)
        [Access.read (s.pc % 65536), Access.read ((s.pc + 1) % 65536)]
        ((s.reg_x + rd s (s.pc + 1)) % 256)) ∧
    (op &&& 0x1F = 0x0E →
      retires_after s 6 ∧
      rmw_shift op s (run_cycles 6 s)
        [Access.read (s.pc % 65536), Access.read ((s.pc + 1) % 65536),
          Access.read ((s.pc + 2) % 65536)]
        (rd s (s.pc + 1) + 256 * rd s (s.pc + 2))) ∧
    (op &&& 0x1F = 0x1E →
      retires_after s 7 ∧
      rmw_shift op s (run_cycles 7 s)
        [Access.read (s.pc % 65536), Access.read ((s.pc + 1) % 65536),
          Access.read ((s.pc + 2) % 65536)]
        ((rd s (s.pc + 1) + 256 * rd s (s.pc + 2) + s.reg_x) % 65536)) := by
  refine ⟨?_, ?_, ?_, ?_, ?_⟩
  · intro hm
    have hc := shift_mode_cases op hop
    rw [hm] at hc
    norm_num at hc
    rcases hc with rfl | rfl | rfl | rfl
    · obtain ⟨hr, hA, hP⟩ := shift_accumulator_exec asl_slot op_0A (fun t _ => op_0A_acc t) s 0x0A hidx hh
        h0 ha (fun t h => decode_opcode_0A t h)
      have ho := asl_outcome 0x0A (by decide) (by decide) s (run_cycles 2 s) s.reg_a hP
      have hk : kernel_value asl_slot s.reg_p s.reg_a % 256 = kernel_value asl_slot s.reg_p s.reg_a := by
        rw [asl_value_eq, Nat.mod_mod]
      exact ⟨hr, ho.2, by rw [hA, ← ho.1, hk]⟩
    · obtain ⟨hr, hA, hP⟩ := shift_accumulator_exec rol_slot op_2A (fun t _ => op_2A_acc t) s 0x2A hidx hh
        h0 ha (fun t h => decode_opcode_2A t h)
      have ho := rol_outcome 0x2A (by decide) (by decide) s (run_cycles 2 s) s.reg_a hP
      have hk : kernel_value rol_slot s.reg_p s.reg_a % 256 = kernel_value rol_slot s.reg_p s.reg_a := by
        rw [rol_value_eq, Nat.mod_mod]
      exact ⟨hr, ho.2, by rw [hA, ← ho.1, hk]⟩
    · obtain ⟨hr, hA, hP⟩ := shift_accumulator_exec lsr_slot op_4A (fun t h => op_4A_acc t h) s 0x4A hidx hh
        h0 ha (fun t h => decode_opcode_4A t h)
      have ho := lsr_outcome 0x4A (by decide) (by decide) s (run_cycles 2 s) s.reg_a ha hP
      have hk : kernel_value lsr_slot s.reg_p s.reg_a % 256 = kernel_value lsr_slot s.reg_p s.reg_a := by
        rw [lsr_value_eq, Nat.mod_mod]
      exact ⟨hr, ho.2, by rw [hA, ← ho.1, hk]⟩
    · obtain ⟨hr, hA, hP⟩ := shift_accumulator_exec ror_slot op_6A (fun t _ => op_6A_acc t) s 0x6A hidx hh
        h0 ha (fun t h => decode_opcode_6A t h)
      have ho := ror_outcome 0x6A (by decide) (by decide) s (run_cycles 2 s) s.reg_a ha hP
      have hk : kernel_value ror_slot s.reg_p s.reg_a % 256 = kernel_value ror_slot s.reg_p s.reg_a := by
        rw [ror_value_eq, Nat.mod_mod]
      exact ⟨hr, ho.2, by rw [hA, ← ho.1, hk]⟩
  · intro hm
    have hc := shift_mode_cases op hop
    rw [hm] at hc
    norm_num at hc
    rcases hc with rfl | rfl | rfl | rfl
    · obtain ⟨hr, hb, hp, hA, hX, hY⟩ := rmw_zero_page_exec asl_slot asl_slot_kernel s 0x06 hidx hh h0
        (fun t h => by rw [decode_opcode_06 t h, op_06_shape])
      exact ⟨hr, rmw_shift_of _ _ _ _ _ _
        (asl_outcome 0x06 (by decide) (by decide) s _ _ hp) hb hA hX hY⟩
    · obtain ⟨hr, hb, hp, hA, hX, hY⟩ := rmw_zero_page_exec rol_slot rol_slot_kernel s 0x26 hidx hh h0
        (fun t h => by rw [decode_opcode_26 t h, op_26_shape])
      exact ⟨hr, rmw_shift_of _ _ _ _ _ _
        (rol_outcome 0x26 (by decide) (by decide) s _ _ hp) hb hA hX hY⟩
    · obtain ⟨hr, hb, hp, hA, hX, hY⟩ := rmw_zero_page_exec lsr_slot lsr_slot_kernel s 0x46 hidx hh h0
        (fun t h => by rw [decode_opcode_46 t h, op_46_shape])
      exact ⟨hr, rmw_shift_of _ _ _ _ _ _
        (lsr_outcome 0x46 (by decide) (by decide) s _ _ (rd_lt _ _) hp) hb hA hX hY⟩
    · obtain ⟨hr, hb, hp, hA, hX, hY⟩ := rmw_zero_page_exec ror_slot ror_slot_kernel s 0x66 hidx hh h0
        (fun t h => by rw [decode_opcode_66 t h, op_66_shape])
      exact ⟨hr, rmw_shift_of _ _ _ _ _ _
        (ror_outcome 0x66 (by decide) (by decide) s _ _ (rd_lt _ _) hp) hb hA hX hY⟩
  · intro hm
    have hc := shift_mode_cases op hop
    rw [hm] at hc
    norm_num at hc
    rcases hc with rfl | rfl | rfl | rfl
    · obtain ⟨hr, hb, hp, hA, hX, hY⟩ := rmw_zero_page_x_late_exec asl_slot asl_slot_kernel s 0x16 hidx hh h0
        (fun t h => by rw [decode_opcode_16 t h, op_16_shape])
      exact ⟨hr, rmw_shift_of _ _ _ _ _ _
        (asl_outcome 0x16 (by decide) (by decide) s _ _ hp) hb hA hX hY⟩
    · obtain ⟨hr, hb, hp, hA, hX, hY⟩ := rmw_zero_page_x_exec rol_slot rol_slot_kernel s 0x36 hidx hh h0
        (fun t h => by rw [decode_opcode_36 t h, op_36_shape])
      exact ⟨hr, rmw_shift_of _ _ _ _ _ _
        (rol_outcome 0x36 (by decide) (by decide) s _ _ hp) hb hA hX hY⟩
    · obtain ⟨hr, hb, hp, hA, hX, hY⟩ := rmw_zero_page_x_late_exec lsr_slot lsr_slot_kernel s 0x56 hidx hh h0
        (fun t h => by rw [decode_opcode_56 t h, op_56_shape])
      exact ⟨hr, rmw_shift_of _ _ _ _ _ _
        (lsr_outcome 0x56 (by decide) (by decide) s _ _ (rd_lt _ _) hp) hb hA hX hY⟩
    · obtain ⟨hr, hb, hp, hA, hX, hY⟩ := rmw_zero_page_x_exec ror_slot ror_slot_kernel s 0x76 hidx hh h0
        (fun t h => by rw [decode_opcode_76 t h, op_76_shape])
      exact ⟨hr, rmw_shift_of _ _ _ _ _ _
        (ror_outcome 0x76 (by decide) (by decide) s _ _ (rd_lt _ _) hp) hb hA hX hY⟩
  · intro hm
    have hc := shift_mode_cases op hop
    rw [hm] at hc
    norm_num at hc
    rcases hc with rfl | rfl | rfl | rfl
    · obtain ⟨hr, hb, hp, hA, hX, hY⟩ := rmw_absolute_exec asl_slot asl_slot_kernel s 0x0E hidx hh h0
        (fun t h => by rw [decode_opcode_0E t h, op_0E_shape])
      exact ⟨hr, rmw_shift_of _ _ _ _ _ _
        (asl_outcome 0x0E (by decide) (by decide) s _ _ hp) hb hA hX hY⟩
    · obtain ⟨hr, hb, hp, hA, hX, hY⟩ := rmw_absolute_plus_exec rol_slot rol_slot_kernel s 0x2E hidx hh h0
        (fun t h => by rw [decode_opcode_2E t h, op_2E_shape])
      exact ⟨hr, rmw_shift_of _ _ _ _ _ _
        (rol_outcome 0x2E (by decide) (by decide) s _ _ hp) hb hA hX hY⟩
    · obtain ⟨hr, hb, hp, hA, hX, hY⟩ := rmw_absolute_exec lsr_slot lsr_slot_kernel s 0x4E hidx hh h0
        (fun t h => by rw [decode_opcode_4E t h, op_4E_shape])
      exact ⟨hr, rmw_shift_of _ _ _ _ _ _
        (lsr_outcome 0x4E (by decide) (by decide) s _ _ (rd_lt _ _) hp) hb hA hX hY⟩
    · obtain ⟨hr, hb, hp, hA, hX, hY⟩ := rmw_absolute_exec ror_slot ror_slot_kernel s 0x6E hidx hh h0
        (fun t h => by rw [decode_opcode_6E t h, op_6E_shape])
      exact ⟨hr, rmw_shift_of _ _ _ _ _ _
        (ror_outcome 0x6E (by decide) (by decide) s _ _ (rd_lt _ _) hp) hb hA hX hY⟩
  · intro hm
    have hc := shift_mode_cases op hop
    rw [hm] at hc
    norm_num at hc
    rcases hc with rfl | rfl | rfl | rfl
    · obtain ⟨hr, hb, hp, hA, hX, hY⟩ := rmw_absolute_x_exec asl_slot asl_slot_kernel s 0x1E hidx hh h0
        (fun t h => by rw [decode_opcode_1E t h, op_1E_shape])
      exact ⟨hr, rmw_shift_of _ _ _ _ _ _
        (asl_outcome 0x1E (by decide) (by decide) s _ _ hp) hb hA hX hY⟩
    · obtain ⟨hr, hb, hp, hA, hX, hY⟩ := rmw_absolute_x_exec rol_slot rol_slot_kernel s 0x3E hidx hh h0
        (fun t h => by rw [decode_opcode_3E t h, op_3E_shape])
      exact ⟨hr, rmw_shift_of _ _ _ _ _ _
        (rol_outcome 0x3E (by decide) (by decide) s _ _ hp) hb hA hX hY⟩
    · obtain ⟨hr, hb, hp, hA, hX, hY⟩ := rmw_absolute_x_exec lsr_slot lsr_slot_kernel s 0x5E hidx hh h0
        (fun t h => by rw [decode_opcode_5E t h, op_5E_shape])
      exact ⟨hr, rmw_shift_of _ _ _ _ _ _
        (lsr_outcome 0x5E (by decide) (by decide) s _ _ (rd_lt _ _) hp) hb hA hX hY⟩
    · obtain ⟨hr, hb, hp, hA, hX, hY⟩ := rmw_absolute_x_exec ror_slot ror_slot_kernel s 0x7E hidx hh h0
        (fun t h => by rw [decode_opcode_7E t h, op_7E_shape])
      exact ⟨hr, rmw_shift_of _ _ _ _ _ _
        (ror_outcome 0x7E (by decide) (by decide) s _ _ (rd_lt _ _) hp) hb hA hX hY⟩

/-- Witness of C34: `ROR $01FF,X` (`$7E`) with X = 1, carry clear and
RAM[`$0200`] = `$40` reads `$0200` and writes `$20` back to it. -/
theorem shifts_and_rotates_witness :
    ((alu_state 0x7E).cur_instr_index = 0 ∧ (alu_state 0x7E).hang = 0 ∧
      rd (alu_state 0x7E) (alu_state 0x7E).pc = 0x7E ∧ 0x7E < 0x80 ∧
      (alu_state 0x7E).reg_a < 256 ∧ 0x7E &&& 0x1F = 0x1E) ∧
    retires_after (alu_state 0x7E) 7 ∧
    (run_cycles 7 (alu_state 0x7E)).bus =
      [Access.read 0, Access.read 1, Access.read 2, Access.read 0x200,
        Access.write 0x200 0x20] :=
  ⟨⟨by decide, by decide, by decide, by decide, by decide, by decide⟩,
    ((shifts_and_rotates (alu_state 0x7E) 0x7E (by decide) (by decide) (by decide) (by decide)
      (by decide)).2.2.2.2 (by decide)).1,
    ((shifts_and_rotates (alu_state 0x7E) 0x7E (by decide) (by decide) (by decide) (by decide)
      (by decide)).2.2.2.2 (by decide)).2.2.1⟩


/-- C35. Memory INC and DEC, run from an instruction boundary, with effective
address e (zero page; (zp + X) mod 256; absolute; (abs + X) mod 65536) holding
v: the instruction issues, after its operand fetches, one read of e and one
write of r = (v + 1) mod 256 (INC) or (v - 1) mod 256 (DEC) to e, sets N = bit 7
of r and Z iff r = 0, leaves C, V, A, X, Y unchanged, and retires after exactly 5
(`0xE6`, `0xC6`), 6 (`0xF6`, `0xD6`), 6 (`0xEE`, `0xCE`) or 7 (`0xFE`, `0xDE`)
cycles. -/
theorem inc_dec_memory (s : State) (op : Nat) (hidx : s.cur_instr_index = 0)
    (hh : s.hang = 0) (h0 : rd s s.pc = op) :
    (op = 0xE6 ∨ op = 0xC6 →
      retires_after s 5 ∧
      rmw_incdec op s (run_cycles 5 s)
        [Access.read (s.pc % 65536), Access.read ((s.pc + 1) % 65536)]
        (rd s (s.pc + 1))) ∧
    (op = 0xF6 ∨ op = 0xD6 →
      retires_after s 6 ∧
      rmw_incdec op s (run_cycles 6 s)
        [Access.read (s.pc % 65536), Access.read ((s.pc + 1) % 65536)]
        ((s.reg_x + rd s (s.pc + 1)) % 256)) ∧
    (op = 0xEE ∨ op = 0xCE →
      retires_after s 6 ∧
      rmw_incdec op s (run_cycles 6 s)
        [Access.read (s.pc % 65536), Access.read ((s.pc + 1) % 65536),
          Access.read ((s.pc + 2) % 65536)]
        (rd s (s.pc + 1) + 256 * rd s (s.pc + 2))) ∧
    (op = 0xFE ∨ op = 0xDE →
      retires_after s 7 ∧
      rmw_incdec op s (run_cycles 7 s)
        [Access.read (s.pc % 65536), Access.read ((s.pc + 1) % 65536),
          Access.read ((s.pc + 2) % 65536)]
        ((rd s (s.pc + 1) + 256 * rd s (s.pc + 2) + s.reg_x) % 65536)) := by
  refine ⟨?_, ?_, ?_, ?_⟩
  · intro hm
    rcases hm with rfl | rfl
    · obtain ⟨hr, hb, hp, hA, hX, hY⟩ := rmw_zero_page_exec inc_slot inc_slot_kernel s 0xE6 hidx hh h0
        (fun t h => by rw [decode_opcode_E6 t h, op_E6_shape])
      exact ⟨hr, rmw_incdec_of _ _ _ _ _ _
        (inc_outcome 0xE6 (by decide) s _ _ hp hA hX hY) hb⟩
    · obtain ⟨hr, hb, hp, hA, hX, hY⟩ := rmw_zero_page_exec dec_slot dec_slot_kernel s 0xC6 hidx hh h0
        (fun t h => by rw [decode_opcode_C6 t h, op_C6_shape])
      exact ⟨hr, rmw_incdec_of _ _ _ _ _ _
        (dec_outcome 0xC6 (by decide) s _ _ (rd_lt _ _) hp hA hX hY) hb⟩
  · intro hm
    rcases hm with rfl | rfl
    · obtain ⟨hr, hb, hp, hA, hX, hY⟩ := rmw_zero_page_x_exec inc_slot inc_slot_kernel s 0xF6 hidx hh h0
        (fun t h => by rw [decode_opcode_F6 t h, op_F6_shape])
      exact ⟨hr, rmw_incdec_of _ _ _ _ _ _
        (inc_outcome 0xF6 (by decide) s _ _ hp hA hX hY) hb⟩
    · obtain ⟨hr, hb, hp, hA, hX, hY⟩ := rmw_zero_page_x_exec dec_slot dec_slot_kernel s 0xD6 hidx hh h0
        (fun t h => by rw [decode_opcode_D6 t h, op_D6_shape])
      exact ⟨hr, rmw_incdec_of _ _ _ _ _ _
        (dec_outcome 0xD6 (by decide) s _ _ (rd_lt _ _) hp hA hX hY) hb⟩
  · intro hm
    rcases hm with rfl | rfl
    · obtain ⟨hr, hb, hp, hA, hX, hY⟩ := rmw_absolute_exec inc_slot inc_slot_kernel s 0xEE hidx hh h0
        (fun t h => by rw [decode_opcode_EE t h, op_EE_shape])
      exact ⟨hr, rmw_incdec_of _ _ _ _ _ _
        (inc_outcome 0xEE (by decide) s _ _ hp hA hX hY) hb⟩
    · obtain ⟨hr, hb, hp, hA, hX, hY⟩ := rmw_absolute_exec dec_slot dec_slot_kernel s 0xCE hidx hh h0
        (fun t h => by rw [decode_opcode_CE t h, op_CE_shape])
      exact ⟨hr, rmw_incdec_of _ _ _ _ _ _
        (dec_outcome 0xCE (by decide) s _ _ (rd_lt _ _) hp hA hX hY) hb⟩
  · intro hm
    rcases hm with rfl | rfl
    · obtain ⟨hr, hb, hp, hA, hX, hY⟩ := rmw_absolute_x_exec inc_slot inc_slot_kernel s 0xFE hidx hh h0
        (fun t h => by rw [decode_opcode_FE t h, op_FE_shape])
      exact ⟨hr, rmw_incdec_of _ _ _ _ _ _
        (inc_outcome 0xFE (by decide) s _ _ hp hA hX hY) hb⟩
    · obtain ⟨hr, hb, hp, hA, hX, hY⟩ := rmw_absolute_x_exec dec_slot dec_slot_kernel s 0xDE hidx hh h0
        (fun t h => by rw [decode_opcode_DE t h, op_DE_shape])
      exact ⟨hr, rmw_incdec_of _ _ _ _ _ _
        (dec_outcome 0xDE (by decide) s _ _ (rd_lt _ _) hp hA hX hY) hb⟩

/-- Witness of C35: `DEC $01FF,X` (`$DE`) with X = 1 and RAM[`$0200`] = `$40`
reads `$0200`, writes `$3F` back and retires at cycle 7. -/
theorem inc_dec_memory_witness :
    ((alu_state 0xDE).cur_instr_index = 0 ∧ (alu_state 0xDE).hang = 0 ∧
      rd (alu_state 0xDE) (alu_state 0xDE).pc = 0xDE) ∧
    retires_after (alu_state 0xDE) 7 ∧
    (run_cycles 7 (alu_state 0xDE)).bus =
      [Access.read 0, Access.read 1, Access.read 2, Access.read 0x200,
        Access.write 0x200 0x3F] :=
  ⟨⟨by decide, by decide, by decide⟩,
    ((inc_dec_memory (alu_state 0xDE) 0xDE (by decide) (by decide) (by decide)).2.2.2
      (Or.inr (by decide))).1,
    ((inc_dec_memory (alu_state 0xDE) 0xDE (by decide) (by decide) (by decide)).2.2.2
      (Or.inr (by decide))).2.2⟩
/-! ## Progress of the micro-step index (C23, C28, C37, C40)

One lemma per `case` label, then the dispatcher. -/

theorem store_instr_zero (a : Nat → Nat) (i v : Nat) (h : 1 ≤ i) : store_instr a i v 0 = a 0 := by
  have h0 : ¬ (0 = i) := by omega
  simp only [store_instr]
  split_ifs
  · rw [store_apply]; exact if_neg h0
  · rfl

theorem rol_slot_opcode (s : State) (k : Nat) (hk : 1 ≤ k) :
    (rol_slot s k).cur_instr 0 = s.cur_instr 0 := by
  have h0 : ¬ (0 = k) := by omega
  simp only [rol_slot]
  split_ifs <;> simp [h0]

theorem ror_slot_opcode (s : State) (k : Nat) (hk : 1 ≤ k) :
    (ror_slot s k).cur_instr 0 = s.cur_instr 0 := by
  have h0 : ¬ (0 = k) := by omega
  simp only [ror_slot]
  split_ifs <;> simp [h0]

theorem op_E0_step (s : State) (h1 : 1 ≤ s.cur_instr_index) (hK : s.cur_instr_index ≤ 1) :
    step_ok 1 s (op_E0 s) := by
  have h256 : (s.cur_instr_index + 1) % 256 = s.cur_instr_index + 1 := Nat.mod_eq_of_lt (by omega)
  simp only [op_E0]
  simp [step_ok, fetch_ok, h256, store_instr_zero, rol_slot_opcode, ror_slot_opcode, inc_slot, dec_slot, asl_slot, lsr_slot, bit_flags, cmp_flags, push, *]
  omega

theorem op_E4_step (s : State) (h1 : 1 ≤ s.cur_instr_index) (hK : s.cur_instr_index ≤ 3) :
    step_ok 3 s (op_E4 s) := by
  have h256 : (s.cur_instr_index + 1) % 256 = s.cur_instr_index + 1 := Nat.mod_eq_of_lt (by omega)
  simp only [op_E4]
  split_ifs <;> simp [step_ok, fetch_ok, h256, store_instr_zero, rol_slot_opcode, ror_slot_opcode, inc_slot, dec_slot, asl_slot, lsr_slot, bit_flags, cmp_flags, push, *] at * <;> omega

theorem op_EC_step (s : State) (h1 : 1 ≤ s.cur_instr_index) (hK : s.cur_instr_index ≤ 4) :
    step_ok 4 s (op_EC s) := by
  have h256 : (s.cur_instr_index + 1) % 256 = s.cur_instr_index + 1 := Nat.mod_eq_of_lt (by omega)
  simp only [op_EC]
  split_ifs <;> simp [step_ok, fetch_ok, h256, store_instr_zero, rol_slot_opcode, ror_slot_opcode, inc_slot, dec_slot, asl_slot, lsr_slot, bit_flags, cmp_flags, push, *] at * <;> omega

theorem op_C0_step (s : State) (h1 : 1 ≤ s.cur_instr_index) (hK : s.cur_instr_index ≤ 1) :
    step_ok 1 s (op_C0 s) := by
  have h256 : (s.cur_instr_index + 1) % 256 = s.cur_instr_index + 1 := Nat.mod_eq_of_lt (by omega)
  simp only [op_C0]
  simp [step_ok, fetch_ok, h256, store_instr_zero, rol_slot_opcode, ror_slot_opcode, inc_slot, dec_slot, asl_slot, lsr_slot, bit_flags, cmp_flags, push, *]
  omega

theorem op_C4_step (s : State) (h1 : 1 ≤ s.cur_instr_index) (hK : s.cur_instr_index ≤ 3) :
    step_ok 3 s (op_C4 s) := by
  have h256 : (s.cur_instr_index + 1) % 256 = s.cur_instr_index + 1 := Nat.mod_eq_of_lt (by omega)
  simp only [op_C4]
  split_ifs <;> simp [step_ok, fetch_ok, h256, store_instr_zero, rol_slot_opcode, ror_slot_opcode, inc_slot, dec_slot, asl_slot, lsr_slot, bit_flags, cmp_flags, push, *] at * <;> omega

theorem op_CC_step (s : State) (h1 : 1 ≤ s.cur_instr_index) (hK : s.cur_instr_index ≤ 4) :
    step_ok 4 s (op_CC s) := by
  have h256 : (s.cur_instr_index + 1) % 256 = s.cur_instr_index + 1 := Nat.mod_eq_of_lt (by omega)
  simp only [op_CC]
  split_ifs <;> simp [step_ok, fetch_ok, h256, store_instr_zero, rol_slot_opcode, ror_slot_opcode, inc_slot, dec_slot, asl_slot, lsr_slot, bit_flags, cmp_flags, push, *] at * <;> omega

theorem op_C6_step (s : State) (h1 : 1 ≤ s.cur_instr_index) (hK : s.cur_instr_index ≤ 4) :
    step_ok 4 s (op_C6 s) := by
  have h256 : (s.cur_instr_index + 1) % 256 = s.cur_instr_index + 1 := Nat.mod_eq_of_lt (by omega)
  simp only [op_C6]
  split_ifs <;> simp [step_ok, fetch_ok, h256, store_instr_zero, rol_slot_opcode, ror_slot_opcode, inc_slot, dec_slot, asl_slot, lsr_slot, bit_flags, cmp_flags, push, *] at *

theorem op_D6_step (s : State) (h1 : 1 ≤ s.cur_instr_index) (hK : s.cur_instr_index ≤ 5) :
    step_ok 5 s (op_D6 s) := by
  have h256 : (s.cur_instr_index + 1) % 256 = s.cur_instr_index + 1 := Nat.mod_eq_of_lt (by omega)
  simp only [op_D6]
  split_ifs <;> simp [step_ok, fetch_ok, h256, store_instr_zero, rol_slot_opcode, ror_slot_opcode, inc_slot, dec_slot, asl_slot, lsr_slot, bit_flags, cmp_flags, push, *] at *

theorem op_CE_step (s : State) (h1 : 1 ≤ s.cur_instr_index) (hK : s.cur_instr_index ≤ 5) :
    step_ok 5 s (op_CE s) := by
  have h256 : (s.cur_instr_index + 1) % 256 = s.cur_instr_index + 1 := Nat.mod_eq_of_lt (by omega)
  simp only [op_CE]
  split_ifs <;> simp [step_ok, fetch_ok, h256, store_instr_zero, rol_slot_opcode, ror_slot_opcode, inc_slot, dec_slot, asl_slot, lsr_slot, bit_flags, cmp_flags, push, *] at *
  omega

theorem op_DE_step (s : State) (h1 : 1 ≤ s.cur_instr_index) (hK : s.cur_instr_index ≤ 6) :
    step_ok 6 s (op_DE s) := by
  have h256 : (s.cur_instr_index + 1) % 256 = s.cur_instr_index + 1 := Nat.mod_eq_of_lt (by omega)
  simp only [op_DE]
  split_ifs <;> simp [step_ok, fetch_ok, h256, store_instr_zero, rol_slot_opcode, ror_slot_opcode, inc_slot, dec_slot, asl_slot, lsr_slot, bit_flags, cmp_flags, push, *] at *
  omega

theorem op_E6_step (s : State) (h1 : 1 ≤ s.cur_instr_index) (hK : s.cur_instr_index ≤ 4) :
    step_ok 4 s (op_E6 s) := by
  have h256 : (s.cur_instr_index + 1) % 256 = s.cur_instr_index + 1 := Nat.mod_eq_of_lt (by omega)
  simp only [op_E6]
  split_ifs <;> simp [step_ok, fetch_ok, h256, store_instr_zero, rol_slot_opcode, ror_slot_opcode, inc_slot, dec_slot, asl_slot, lsr_slot, bit_flags, cmp_flags, push, *] at *

theorem op_F6_step (s : State) (h1 : 1 ≤ s.cur_instr_index) (hK : s.cur_instr_index ≤ 5) :
    step_ok 5 s (op_F6 s) := by
  have h256 : (s.cur_instr_index + 1) % 256 = s.cur_instr_index + 1 := Nat.mod_eq_of_lt (by omega)
  simp only [op_F6]
  split_ifs <;> simp [step_ok, fetch_ok, h256, store_instr_zero, rol_slot_opcode, ror_slot_opcode, inc_slot, dec_slot, asl_slot, lsr_slot, bit_flags, cmp_flags, push, *] at *

theorem op_EE_step (s : State) (h1 : 1 ≤ s.cur_instr_index) (hK : s.cur_instr_index ≤ 5) :
    step_ok 5 s (op_EE s) := by
  have h256 : (s.cur_instr_index + 1) % 256 = s.cur_instr_index + 1 := Nat.mod_eq_of_lt (by omega)
  simp only [op_EE]
  split_ifs <;> simp [step_ok, fetch_ok, h256, store_instr_zero, rol_slot_opcode, ror_slot_opcode, inc_slot, dec_slot, asl_slot, lsr_slot, bit_flags, cmp_flags, push, *] at *
  omega

theorem op_FE_step (s : State) (h1 : 1 ≤ s.cur_instr_index) (hK : s.cur_instr_index ≤ 6) :
    step_ok 6 s (op_FE s) := by
  have h256 : (s.cur_instr_index + 1) % 256 = s.cur_instr_index + 1 := Nat.mod_eq_of_lt (by omega)
  simp only [op_FE]
  split_ifs <;> simp [step_ok, fetch_ok, h256, store_instr_zero, rol_slot_opcode, ror_slot_opcode, inc_slot, dec_slot, asl_slot, lsr_slot, bit_flags, cmp_flags, push, *] at *
  omega

theorem op_E8_step (s : State) (h1 : 1 ≤ s.cur_instr_index) (hK : s.cur_instr_index ≤ 1) :
    step_ok 1 s (op_E8 s) := by
  have h256 : (s.cur_instr_index + 1) % 256 = s.cur_instr_index + 1 := Nat.mod_eq_of_lt (by omega)
  simp only [op_E8]
  simp [step_ok, fetch_ok, h256, store_instr_zero, rol_slot_opcode, ror_slot_opcode, inc_slot, dec_slot, asl_slot, lsr_slot, bit_flags, cmp_flags, push, *]

theorem op_C8_step (s : State) (h1 : 1 ≤ s.cur_instr_index) (hK : s.cur_instr_index ≤ 1) :
    step_ok 1 s (op_C8 s) := by
  have h256 : (s.cur_instr_index + 1) % 256 = s.cur_instr_index + 1 := Nat.mod_eq_of_lt (by omega)
  simp only [op_C8]
  simp [step_ok, fetch_ok, h256, store_instr_zero, rol_slot_opcode, ror_slot_opcode, inc_slot, dec_slot, asl_slot, lsr_slot, bit_flags, cmp_flags, push, *]

theorem op_CA_step (s : State) (h1 : 1 ≤ s.cur_instr_index) (hK : s.cur_instr_index ≤ 1) :
    step_ok 1 s (op_CA s) := by
  have h256 : (s.cur_instr_index + 1) % 256 = s.cur_instr_index + 1 := Nat.mod_eq_of_lt (by omega)
  simp only [op_CA]
  simp [step_ok, fetch_ok, h256, store_instr_zero, rol_slot_opcode, ror_slot_opcode, inc_slot, dec_slot, asl_slot, lsr_slot, bit_flags, cmp_flags, push, *]

theorem op_88_step (s : State) (h1 : 1 ≤ s.cur_instr_index) (hK : s.cur_instr_index ≤ 1) :
    step_ok 1 s (op_88 s) := by
  have h256 : (s.cur_instr_index + 1) % 256 = s.cur_instr_index + 1 := Nat.mod_eq_of_lt (by omega)
  simp only [op_88]
  simp [step_ok, fetch_ok, h256, store_instr_zero, rol_slot_opcode, ror_slot_opcode, inc_slot, dec_slot, asl_slot, lsr_slot, bit_flags, cmp_flags, push, *]

theorem op_AA_step (s : State) (h1 : 1 ≤ s.cur_instr_index) (hK : s.cur_instr_index ≤ 1) :
    step_ok 1 s (op_AA s) := by
  have h256 : (s.cur_instr_index + 1) % 256 = s.cur_instr_index + 1 := Nat.mod_eq_of_lt (by omega)
  simp only [op_AA]
  simp [step_ok, fetch_ok, h256, store_instr_zero, rol_slot_opcode, ror_slot_opcode, inc_slot, dec_slot, asl_slot, lsr_slot, bit_flags, cmp_flags, push, *]

theorem op_BA_step (s : State) (h1 : 1 ≤ s.cur_instr_index) (hK : s.cur_instr_index ≤ 1) :
    step_ok 1 s (op_BA s) := by
  have h256 : (s.cur_instr_index + 1) % 256 = s.cur_instr_index + 1 := Nat.mod_eq_of_lt (by omega)
  simp only [op_BA]
  simp [step_ok, fetch_ok, h256, store_instr_zero, rol_slot_opcode, ror_slot_opcode, inc_slot, dec_slot, asl_slot, lsr_slot, bit_flags, cmp_flags, push, *]

theorem op_9A_step (s : State) (h1 : 1 ≤ s.cur_instr_index) (hK : s.cur_instr_index ≤ 1) :
    step_ok 1 s (op_9A s) := by
  have h256 : (s.cur_instr_index + 1) % 256 = s.cur_instr_index + 1 := Nat.mod_eq_of_lt (by omega)
  simp only [op_9A]
  simp [step_ok, fetch_ok, h256, store_instr_zero, rol_slot_opcode, ror_slot_opcode, inc_slot, dec_slot, asl_slot, lsr_slot, bit_flags, cmp_flags, push, *]

theorem op_A8_step (s : State) (h1 : 1 ≤ s.cur_instr_index) (hK : s.cur_instr_index ≤ 1) :
    step_ok 1 s (op_A8 s) := by
  have h256 : (s.cur_instr_index + 1) % 256 = s.cur_instr_index + 1 := Nat.mod_eq_of_lt (by omega)
  simp only [op_A8]
  simp [step_ok, fetch_ok, h256, store_instr_zero, rol_slot_opcode, ror_slot_opcode, inc_slot, dec_slot, asl_slot, lsr_slot, bit_flags, cmp_flags, push, *]

theorem op_8A_step (s : State) (h1 : 1 ≤ s.cur_instr_index) (hK : s.cur_instr_index ≤ 1) :
    step_ok 1 s (op_8A s) := by
  have h256 : (s.cur_instr_index + 1) % 256 = s.cur_instr_index + 1 := Nat.mod_eq_of_lt (by omega)
  simp only [op_8A]
  simp [step_ok, fetch_ok, h256, store_instr_zero, rol_slot_opcode, ror_slot_opcode, inc_slot, dec_slot, asl_slot, lsr_slot, bit_flags, cmp_flags, push, *]

theorem op_98_step (s : State) (h1 : 1 ≤ s.cur_instr_index) (hK : s.cur_instr_index ≤ 1) :
    step_ok 1 s (op_98 s) := by
  have h256 : (s.cur_instr_index + 1) % 256 = s.cur_instr_index + 1 := Nat.mod_eq_of_lt (by omega)
  simp only [op_98]
  simp [step_ok, fetch_ok, h256, store_instr_zero, rol_slot_opcode, ror_slot_opcode, inc_slot, dec_slot, asl_slot, lsr_slot, bit_flags, cmp_flags, push, *]

theorem op_40_step (s : State) (h1 : 1 ≤ s.cur_instr_index) (hK : s.cur_instr_index ≤ 5) :
    step_ok 5 s (op_40 s) := by
  have h256 : (s.cur_instr_index + 1) % 256 = s.cur_instr_index + 1 := Nat.mod_eq_of_lt (by omega)
  simp only [op_40]
  split_ifs <;> simp [step_ok, fetch_ok, h256, store_instr_zero, rol_slot_opcode, ror_slot_opcode, inc_slot, dec_slot, asl_slot, lsr_slot, bit_flags, cmp_flags, push, *] at * <;> omega

theorem op_60_step (s : State) (h1 : 1 ≤ s.cur_instr_index) (hK : s.cur_instr_index ≤ 5) :
    step_ok 5 s (op_60 s) := by
  have h256 : (s.cur_instr_index + 1) % 256 = s.cur_instr_index + 1 := Nat.mod_eq_of_lt (by omega)
  simp only [op_60]
  split_ifs <;> simp [step_ok, fetch_ok, h256, store_instr_zero, rol_slot_opcode, ror_slot_opcode, inc_slot, dec_slot, asl_slot, lsr_slot, bit_flags, cmp_flags, push, *] at * <;> omega

theorem op_20_step (s : State) (h1 : 1 ≤ s.cur_instr_index) (hK : s.cur_instr_index ≤ 6) :
    step_ok 6 s (op_20 s) := by
  have h256 : (s.cur_instr_index + 1) % 256 = s.cur_instr_index + 1 := Nat.mod_eq_of_lt (by omega)
  simp only [op_20]
  split_ifs <;> simp [step_ok, fetch_ok, h256, store_instr_zero, rol_slot_opcode, ror_slot_opcode, inc_slot, dec_slot, asl_slot, lsr_slot, bit_flags, cmp_flags, push, *] at * <;> omega

theorem op_6C_step (s : State) (h1 : 1 ≤ s.cur_instr_index) (hK : s.cur_instr_index ≤ 4) :
    step_ok 4 s (op_6C s) := by
  have h256 : (s.cur_instr_index + 1) % 256 = s.cur_instr_index + 1 := Nat.mod_eq_of_lt (by omega)
  simp only [op_6C]
  split_ifs <;> simp [step_ok, fetch_ok, h256, store_instr_zero, rol_slot_opcode, ror_slot_opcode, inc_slot, dec_slot, asl_slot, lsr_slot, bit_flags, cmp_flags, push, *] at * <;> omega

theorem op_68_step (s : State) (h1 : 1 ≤ s.cur_instr_index) (hK : s.cur_instr_index ≤ 3) :
    step_ok 3 s (op_68 s) := by
  have h256 : (s.cur_instr_index + 1) % 256 = s.cur_instr_index + 1 := Nat.mod_eq_of_lt (by omega)
  simp only [op_68]
  split_ifs <;> simp [step_ok, fetch_ok, h256, store_instr_zero, rol_slot_opcode, ror_slot_opcode, inc_slot, dec_slot, asl_slot, lsr_slot, bit_flags, cmp_flags, push, *] at * <;> omega

theorem op_28_step (s : State) (h1 : 1 ≤ s.cur_instr_index) (hK : s.cur_instr_index ≤ 3) :
    step_ok 3 s (op_28 s) := by
  have h256 : (s.cur_instr_index + 1) % 256 = s.cur_instr_index + 1 := Nat.mod_eq_of_lt (by omega)
  simp only [op_28]
  split_ifs <;> simp [step_ok, fetch_ok, h256, store_instr_zero, rol_slot_opcode, ror_slot_opcode, inc_slot, dec_slot, asl_slot, lsr_slot, bit_flags, cmp_flags, push, *] at * <;> omega

theorem op_08_step (s : State) (h1 : 1 ≤ s.cur_instr_index) (hK : s.cur_instr_index ≤ 2) :
    step_ok 2 s (op_08 s) := by
  have h256 : (s.cur_instr_index + 1) % 256 = s.cur_instr_index + 1 := Nat.mod_eq_of_lt (by omega)
  simp only [op_08]
  split_ifs <;> simp [step_ok, fetch_ok, h256, store_instr_zero, rol_slot_opcode, ror_slot_opcode, inc_slot, dec_slot, asl_slot, lsr_slot, bit_flags, cmp_flags, push, *] at * <;> omega

theorem op_48_step (s : State) (h1 : 1 ≤ s.cur_instr_index) (hK : s.cur_instr_index ≤ 2) :
    step_ok 2 s (op_48 s) := by
  have h256 : (s.cur_instr_index + 1) % 256 = s.cur_instr_index + 1 := Nat.mod_eq_of_lt (by omega)
  simp only [op_48]
  split_ifs <;> simp [step_ok, fetch_ok, h256, store_instr_zero, rol_slot_opcode, ror_slot_opcode, inc_slot, dec_slot, asl_slot, lsr_slot, bit_flags, cmp_flags, push, *] at * <;> omega

theorem op_18_step (s : State) (h1 : 1 ≤ s.cur_instr_index) (hK : s.cur_instr_index ≤ 1) :
    step_ok 1 s (op_18 s) := by
  have h256 : (s.cur_instr_index + 1) % 256 = s.cur_instr_index + 1 := Nat.mod_eq_of_lt (by omega)
  simp only [op_18]
  simp [step_ok, fetch_ok, h256, store_instr_zero, rol_slot_opcode, ror_slot_opcode, inc_slot, dec_slot, asl_slot, lsr_slot, bit_flags, cmp_flags, push, *]

theorem op_D8_step (s : State) (h1 : 1 ≤ s.cur_instr_index) (hK : s.cur_instr_index ≤ 1) :
    step_ok 1 s (op_D8 s) := by
  have h256 : (s.cur_instr_index + 1) % 256 = s.cur_instr_index + 1 := Nat.mod_eq_of_lt (by omega)
  simp only [op_D8]
  simp [step_ok, fetch_ok, h256, store_instr_zero, rol_slot_opcode, ror_slot_opcode, inc_slot, dec_slot, asl_slot, lsr_slot, bit_flags, cmp_flags, push, *]

theorem op_B8_step (s : State) (h1 : 1 ≤ s.cur_instr_index) (hK : s.cur_instr_index ≤ 1) :
    step_ok 1 s (op_B8 s) := by
  have h256 : (s.cur_instr_index + 1) % 256 = s.cur_instr_index + 1 := Nat.mod_eq_of_lt (by omega)
  simp only [op_B8]
  simp [step_ok, fetch_ok, h256, store_instr_zero, rol_slot_opcode, ror_slot_opcode, inc_slot, dec_slot, asl_slot, lsr_slot, bit_flags, cmp_flags, push, *]

theorem op_38_step (s : State) (h1 : 1 ≤ s.cur_instr_index) (hK : s.cur_instr_index ≤ 1) :
    step_ok 1 s (op_38 s) := by
  have h256 : (s.cur_instr_index + 1) % 256 = s.cur_instr_index + 1 := Nat.mod_eq_of_lt (by omega)
  simp only [op_38]
  simp [step_ok, fetch_ok, h256, store_instr_zero, rol_slot_opcode, ror_slot_opcode, inc_slot, dec_slot, asl_slot, lsr_slot, bit_flags, cmp_flags, push, *]

theorem op_F8_step (s : State) (h1 : 1 ≤ s.cur_instr_index) (hK : s.cur_instr_index ≤ 1) :
    step_ok 1 s (op_F8 s) := by
  have h256 : (s.cur_instr_index + 1) % 256 = s.cur_instr_index + 1 := Nat.mod_eq_of_lt (by omega)
  simp only [op_F8]
  simp [step_ok, fetch_ok, h256, store_instr_zero, rol_slot_opcode, ror_slot_opcode, inc_slot, dec_slot, asl_slot, lsr_slot, bit_flags, cmp_flags, push, *]

theorem op_78_step (s : State) (h1 : 1 ≤ s.cur_instr_index) (hK : s.cur_instr_index ≤ 1) :
    step_ok 1 s (op_78 s) := by
  have h256 : (s.cur_instr_index + 1) % 256 = s.cur_instr_index + 1 := Nat.mod_eq_of_lt (by omega)
  simp only [op_78]
  simp [step_ok, fetch_ok, h256, store_instr_zero, rol_slot_opcode, ror_slot_opcode, inc_slot, dec_slot, asl_slot, lsr_slot, bit_flags, cmp_flags, push, *]

theorem op_0A_step (s : State) (h1 : 1 ≤ s.cur_instr_index) (hK : s.cur_instr_index ≤ 1) :
    step_ok 1 s (op_0A s) := by
  have h256 : (s.cur_instr_index + 1) % 256 = s.cur_instr_index + 1 := Nat.mod_eq_of_lt (by omega)
  simp only [op_0A]
  simp [step_ok, fetch_ok, h256, store_instr_zero, rol_slot_opcode, ror_slot_opcode, inc_slot, dec_slot, asl_slot, lsr_slot, bit_flags, cmp_flags, push, *]

theorem op_06_step (s : State) (h1 : 1 ≤ s.cur_instr_index) (hK : s.cur_instr_index ≤ 4) :
    step_ok 4 s (op_06 s) := by
  have h256 : (s.cur_instr_index + 1) % 256 = s.cur_instr_index + 1 := Nat.mod_eq_of_lt (by omega)
  simp only [op_06]
  split_ifs <;> simp [step_ok, fetch_ok, h256, store_instr_zero, rol_slot_opcode, ror_slot_opcode, inc_slot, dec_slot, asl_slot, lsr_slot, bit_flags, cmp_flags, push, *] at *

theorem op_16_step (s : State) (h1 : 1 ≤ s.cur_instr_index) (hK : s.cur_instr_index ≤ 5) :
    step_ok 5 s (op_16 s) := by
  have h256 : (s.cur_instr_index + 1) % 256 = s.cur_instr_index + 1 := Nat.mod_eq_of_lt (by omega)
  simp only [op_16]
  split_ifs <;> simp [step_ok, fetch_ok, h256, store_instr_zero, rol_slot_opcode, ror_slot_opcode, inc_slot, dec_slot, asl_slot, lsr_slot, bit_flags, cmp_flags, push, *] at *

theorem op_0E_step (s : State) (h1 : 1 ≤ s.cur_instr_index) (hK : s.cur_instr_index ≤ 5) :
    step_ok 5 s (op_0E s) := by
  have h256 : (s.cur_instr_index + 1) % 256 = s.cur_instr_index + 1 := Nat.mod_eq_of_lt (by omega)
  simp only [op_0E]
  split_ifs <;> simp [step_ok, fetch_ok, h256, store_instr_zero, rol_slot_opcode, ror_slot_opcode, inc_slot, dec_slot, asl_slot, lsr_slot, bit_flags, cmp_flags, push, *] at *
  omega

theorem op_1E_step (s : State) (h1 : 1 ≤ s.cur_instr_index) (hK : s.cur_instr_index ≤ 6) :
    step_ok 6 s (op_1E s) := by
  have h256 : (s.cur_instr_index + 1) % 256 = s.cur_instr_index + 1 := Nat.mod_eq_of_lt (by omega)
  simp only [op_1E]
  split_ifs <;> simp [step_ok, fetch_ok, h256, store_instr_zero, rol_slot_opcode, ror_slot_opcode, inc_slot, dec_slot, asl_slot, lsr_slot, bit_flags, cmp_flags, push, *] at *
  omega

theorem op_4A_step (s : State) (h1 : 1 ≤ s.cur_instr_index) (hK : s.cur_instr_index ≤ 1) :
    step_ok 1 s (op_4A s) := by
  have h256 : (s.cur_instr_index + 1) % 256 = s.cur_instr_index + 1 := Nat.mod_eq_of_lt (by omega)
  simp only [op_4A]
  simp [step_ok, fetch_ok, h256, store_instr_zero, rol_slot_opcode, ror_slot_opcode, inc_slot, dec_slot, asl_slot, lsr_slot, bit_flags, cmp_flags, push, *]

theorem op_46_step (s : State) (h1 : 1 ≤ s.cur_instr_index) (hK : s.cur_instr_index ≤ 4) :
    step_ok 4 s (op_46 s) := by
  have h256 : (s.cur_instr_index + 1) % 256 = s.cur_instr_index + 1 := Nat.mod_eq_of_lt (by omega)
  simp only [op_46]
  split_ifs <;> simp [step_ok, fetch_ok, h256, store_instr_zero, rol_slot_opcode, ror_slot_opcode, inc_slot, dec_slot, asl_slot, lsr_slot, bit_flags, cmp_flags, push, *] at *

theorem op_56_step (s : State) (h1 : 1 ≤ s.cur_instr_index) (hK : s.cur_instr_index ≤ 5) :
    step_ok 5 s (op_56 s) := by
  have h256 : (s.cur_instr_index + 1) % 256 = s.cur_instr_index + 1 := Nat.mod_eq_of_lt (by omega)
  simp only [op_56]
  split_ifs <;> simp [step_ok, fetch_ok, h256, store_instr_zero, rol_slot_opcode, ror_slot_opcode, inc_slot, dec_slot, asl_slot, lsr_slot, bit_flags, cmp_flags, push, *] at *

theorem op_4E_step (s : State) (h1 : 1 ≤ s.cur_instr_index) (hK : s.cur_instr_index ≤ 5) :
    step_ok 5 s (op_4E s) := by
  have h256 : (s.cur_instr_index + 1) % 256 = s.cur_instr_index + 1 := Nat.mod_eq_of_lt (by omega)
  simp only [op_4E]
  split_ifs <;> simp [step_ok, fetch_ok, h256, store_instr_zero, rol_slot_opcode, ror_slot_opcode, inc_slot, dec_slot, asl_slot, lsr_slot, bit_flags, cmp_flags, push, *] at *
  omega

theorem op_5E_step (s : State) (h1 : 1 ≤ s.cur_instr_index) (hK : s.cur_instr_index ≤ 6) :
    step_ok 6 s (op_5E s) := by
  have h256 : (s.cur_instr_index + 1) % 256 = s.cur_instr_index + 1 := Nat.mod_eq_of_lt (by omega)
  simp only [op_5E]
  split_ifs <;> simp [step_ok, fetch_ok, h256, store_instr_zero, rol_slot_opcode, ror_slot_opcode, inc_slot, dec_slot, asl_slot, lsr_slot, bit_flags, cmp_flags, push, *] at *
  omega

theorem op_2A_step (s : State) (h1 : 1 ≤ s.cur_instr_index) (hK : s.cur_instr_index ≤ 1) :
    step_ok 1 s (op_2A s) := by
  have h256 : (s.cur_instr_index + 1) % 256 = s.cur_instr_index + 1 := Nat.mod_eq_of_lt (by omega)
  simp only [op_2A]
  split_ifs <;> simp [step_ok, fetch_ok, h256, store_instr_zero, rol_slot_opcode, ror_slot_opcode, inc_slot, dec_slot, asl_slot, lsr_slot, bit_flags, cmp_flags, push, *] at *

theorem op_26_step (s : State) (h1 : 1 ≤ s.cur_instr_index) (hK : s.cur_instr_index ≤ 4) :
    step_ok 4 s (op_26 s) := by
  have h256 : (s.cur_instr_index + 1) % 256 = s.cur_instr_index + 1 := Nat.mod_eq_of_lt (by omega)
  simp only [op_26]
  split_ifs <;> simp [step_ok, fetch_ok, h256, store_instr_zero, rol_slot_opcode, ror_slot_opcode, inc_slot, dec_slot, asl_slot, lsr_slot, bit_flags, cmp_flags, push, *] at *

theorem op_36_step (s : State) (h1 : 1 ≤ s.cur_instr_index) (hK : s.cur_instr_index ≤ 5) :
    step_ok 5 s (op_36 s) := by
  have h256 : (s.cur_instr_index + 1) % 256 = s.cur_instr_index + 1 := Nat.mod_eq_of_lt (by omega)
  simp only [op_36]
  split_ifs <;> simp [step_ok, fetch_ok, h256, store_instr_zero, rol_slot_opcode, ror_slot_opcode, inc_slot, dec_slot, asl_slot, lsr_slot, bit_flags, cmp_flags, push, *] at *

theorem op_2E_step (s : State) (h1 : 1 ≤ s.cur_instr_index) (hK : s.cur_instr_index ≤ 5) :
    step_ok 5 s (op_2E s) := by
  have h256 : (s.cur_instr_index + 1) % 256 = s.cur_instr_index + 1 := Nat.mod_eq_of_lt (by omega)
  simp only [op_2E]
  split_ifs <;> simp [step_ok, fetch_ok, h256, store_instr_zero, rol_slot_opcode, ror_slot_opcode, inc_slot, dec_slot, asl_slot, lsr_slot, bit_flags, cmp_flags, push, *] at *
  omega

theorem op_3E_step (s : State) (h1 : 1 ≤ s.cur_instr_index) (hK : s.cur_instr_index ≤ 6) :
    step_ok 6 s (op_3E s) := by
  have h256 : (s.cur_instr_index + 1) % 256 = s.cur_instr_index + 1 := Nat.mod_eq_of_lt (by omega)
  simp only [op_3E]
  split_ifs <;> simp [step_ok, fetch_ok, h256, store_instr_zero, rol_slot_opcode, ror_slot_opcode, inc_slot, dec_slot, asl_slot, lsr_slot, bit_flags, cmp_flags, push, *] at *
  omega

theorem op_6A_step (s : State) (h1 : 1 ≤ s.cur_instr_index) (hK : s.cur_instr_index ≤ 1) :
    step_ok 1 s (op_6A s) := by
  have h256 : (s.cur_instr_index + 1) % 256 = s.cur_instr_index + 1 := Nat.mod_eq_of_lt (by omega)
  simp only [op_6A]
  split_ifs <;> simp [step_ok, fetch_ok, h256, store_instr_zero, rol_slot_opcode, ror_slot_opcode, inc_slot, dec_slot, asl_slot, lsr_slot, bit_flags, cmp_flags, push, *] at *

theorem op_66_step (s : State) (h1 : 1 ≤ s.cur_instr_index) (hK : s.cur_instr_index ≤ 4) :
    step_ok 4 s (op_66 s) := by
  have h256 : (s.cur_instr_index + 1) % 256 = s.cur_instr_index + 1 := Nat.mod_eq_of_lt (by omega)
  simp only [op_66]
  split_ifs <;> simp [step_ok, fetch_ok, h256, store_instr_zero, rol_slot_opcode, ror_slot_opcode, inc_slot, dec_slot, asl_slot, lsr_slot, bit_flags, cmp_flags, push, *] at *

theorem op_76_step (s : State) (h1 : 1 ≤ s.cur_instr_index) (hK : s.cur_instr_index ≤ 5) :
    step_ok 5 s (op_76 s) := by
  have h256 : (s.cur_instr_index + 1) % 256 = s.cur_instr_index + 1 := Nat.mod_eq_of_lt (by omega)
  simp only [op_76]
  split_ifs <;> simp [step_ok, fetch_ok, h256, store_instr_zero, rol_slot_opcode, ror_slot_opcode, inc_slot, dec_slot, asl_slot, lsr_slot, bit_flags, cmp_flags, push, *] at *

theorem op_6E_step (s : State) (h1 : 1 ≤ s.cur_instr_index) (hK : s.cur_instr_index ≤ 5) :
    step_ok 5 s (op_6E s) := by
  have h256 : (s.cur_instr_index + 1) % 256 = s.cur_instr_index + 1 := Nat.mod_eq_of_lt (by omega)
  simp only [op_6E]
  split_ifs <;> simp [step_ok, fetch_ok, h256, store_instr_zero, rol_slot_opcode, ror_slot_opcode, inc_slot, dec_slot, asl_slot, lsr_slot, bit_flags, cmp_flags, push, *] at *
  omega

theorem op_7E_step (s : State) (h1 : 1 ≤ s.cur_instr_index) (hK : s.cur_instr_index ≤ 6) :
    step_ok 6 s (op_7E s) := by
  have h256 : (s.cur_instr_index + 1) % 256 = s.cur_instr_index + 1 := Nat.mod_eq_of_lt (by omega)
  simp only [op_7E]
  split_ifs <;> simp [step_ok, fetch_ok, h256, store_instr_zero, rol_slot_opcode, ror_slot_opcode, inc_slot, dec_slot, asl_slot, lsr_slot, bit_flags, cmp_flags, push, *] at *
  omega

theorem op_24_step (s : State) (h1 : 1 ≤ s.cur_instr_index) (hK : s.cur_instr_index ≤ 3) :
    step_ok 3 s (op_24 s) := by
  have h256 : (s.cur_instr_index + 1) % 256 = s.cur_instr_index + 1 := Nat.mod_eq_of_lt (by omega)
  simp only [op_24]
  split_ifs <;> simp [step_ok, fetch_ok, h256, store_instr_zero, rol_slot_opcode, ror_slot_opcode, inc_slot, dec_slot, asl_slot, lsr_slot, bit_flags, cmp_flags, push, *] at * <;> omega

theorem op_2C_step (s : State) (h1 : 1 ≤ s.cur_instr_index) (hK : s.cur_instr_index ≤ 4) :
    step_ok 4 s (op_2C s) := by
  have h256 : (s.cur_instr_index + 1) % 256 = s.cur_instr_index + 1 := Nat.mod_eq_of_lt (by omega)
  simp only [op_2C]
  split_ifs <;> simp [step_ok, fetch_ok, h256, store_instr_zero, rol_slot_opcode, ror_slot_opcode, inc_slot, dec_slot, asl_slot, lsr_slot, bit_flags, cmp_flags, push, *] at * <;> omega

theorem op_4C_step (s : State) (h1 : 1 ≤ s.cur_instr_index) (hK : s.cur_instr_index ≤ 2) :
    step_ok 2 s (op_4C s) := by
  have h256 : (s.cur_instr_index + 1) % 256 = s.cur_instr_index + 1 := Nat.mod_eq_of_lt (by omega)
  simp only [op_4C]
  split_ifs <;> simp [step_ok, fetch_ok, h256, store_instr_zero, rol_slot_opcode, ror_slot_opcode, inc_slot, dec_slot, asl_slot, lsr_slot, bit_flags, cmp_flags, push, *] at * <;> omega

theorem op_86_step (s : State) (h1 : 1 ≤ s.cur_instr_index) (hK : s.cur_instr_index ≤ 3) :
    step_ok 3 s (op_86 s) := by
  have h256 : (s.cur_instr_index + 1) % 256 = s.cur_instr_index + 1 := Nat.mod_eq_of_lt (by omega)
  simp only [op_86]
  split_ifs <;> simp [step_ok, fetch_ok, h256, store_instr_zero, rol_slot_opcode, ror_slot_opcode, inc_slot, dec_slot, asl_slot, lsr_slot, bit_flags, cmp_flags, push, *] at * <;> omega

theorem op_96_step (s : State) (h1 : 1 ≤ s.cur_instr_index) (hK : s.cur_instr_index ≤ 3) :
    step_ok 3 s (op_96 s) := by
  have h256 : (s.cur_instr_index + 1) % 256 = s.cur_instr_index + 1 := Nat.mod_eq_of_lt (by omega)
  simp only [op_96]
  split_ifs <;> simp [step_ok, fetch_ok, h256, store_instr_zero, rol_slot_opcode, ror_slot_opcode, inc_slot, dec_slot, asl_slot, lsr_slot, bit_flags, cmp_flags, push, *] at * <;> omega

theorem op_8E_step (s : State) (h1 : 1 ≤ s.cur_instr_index) (hK : s.cur_instr_index ≤ 4) :
    step_ok 4 s (op_8E s) := by
  have h256 : (s.cur_instr_index + 1) % 256 = s.cur_instr_index + 1 := Nat.mod_eq_of_lt (by omega)
  simp only [op_8E]
  split_ifs <;> simp [step_ok, fetch_ok, h256, store_instr_zero, rol_slot_opcode, ror_slot_opcode, inc_slot, dec_slot, asl_slot, lsr_slot, bit_flags, cmp_flags, push, *] at * <;> omega

theorem op_AE_step (s : State) (h1 : 1 ≤ s.cur_instr_index) (hK : s.cur_instr_index ≤ 4) :
    step_ok 4 s (op_AE s) := by
  have h256 : (s.cur_instr_index + 1) % 256 = s.cur_instr_index + 1 := Nat.mod_eq_of_lt (by omega)
  simp only [op_AE]
  split_ifs <;> simp [step_ok, fetch_ok, h256, store_instr_zero, rol_slot_opcode, ror_slot_opcode, inc_slot, dec_slot, asl_slot, lsr_slot, bit_flags, cmp_flags, push, *] at * <;> omega

theorem op_BE_step (s : State) (h1 : 1 ≤ s.cur_instr_index) (hK : s.cur_instr_index ≤ 4) :
    step_ok 4 s (op_BE s) := by
  have h256 : (s.cur_instr_index + 1) % 256 = s.cur_instr_index + 1 := Nat.mod_eq_of_lt (by omega)
  simp only [op_BE]
  split_ifs <;> simp [step_ok, fetch_ok, h256, store_instr_zero, rol_slot_opcode, ror_slot_opcode, inc_slot, dec_slot, asl_slot, lsr_slot, bit_flags, cmp_flags, push, *] at *
  omega

theorem op_84_step (s : State) (h1 : 1 ≤ s.cur_instr_index) (hK : s.cur_instr_index ≤ 2) :
    step_ok 2 s (op_84 s) := by
  have h256 : (s.cur_instr_index + 1) % 256 = s.cur_instr_index + 1 := Nat.mod_eq_of_lt (by omega)
  simp only [op_84]
  split_ifs <;> simp [step_ok, fetch_ok, h256, store_instr_zero, rol_slot_opcode, ror_slot_opcode, inc_slot, dec_slot, asl_slot, lsr_slot, bit_flags, cmp_flags, push, *] at * <;> omega

theorem op_94_step (s : State) (h1 : 1 ≤ s.cur_instr_index) (hK : s.cur_instr_index ≤ 3) :
    step_ok 3 s (op_94 s) := by
  have h256 : (s.cur_instr_index + 1) % 256 = s.cur_instr_index + 1 := Nat.mod_eq_of_lt (by omega)
  simp only [op_94]
  split_ifs <;> simp [step_ok, fetch_ok, h256, store_instr_zero, rol_slot_opcode, ror_slot_opcode, inc_slot, dec_slot, asl_slot, lsr_slot, bit_flags, cmp_flags, push, *] at * <;> omega

theorem op_8C_step (s : State) (h1 : 1 ≤ s.cur_instr_index) (hK : s.cur_instr_index ≤ 3) :
    step_ok 3 s (op_8C s) := by
  have h256 : (s.cur_instr_index + 1) % 256 = s.cur_instr_index + 1 := Nat.mod_eq_of_lt (by omega)
  simp only [op_8C]
  split_ifs <;> simp [step_ok, fetch_ok, h256, store_instr_zero, rol_slot_opcode, ror_slot_opcode, inc_slot, dec_slot, asl_slot, lsr_slot, bit_flags, cmp_flags, push, *] at * <;> omega

theorem op_A4_step (s : State) (h1 : 1 ≤ s.cur_instr_index) (hK : s.cur_instr_index ≤ 2) :
    step_ok 2 s (op_A4 s) := by
  have h256 : (s.cur_instr_index + 1) % 256 = s.cur_instr_index + 1 := Nat.mod_eq_of_lt (by omega)
  simp only [op_A4]
  split_ifs <;> simp [step_ok, fetch_ok, h256, store_instr_zero, rol_slot_opcode, ror_slot_opcode, inc_slot, dec_slot, asl_slot, lsr_slot, bit_flags, cmp_flags, push, *] at * <;> omega

theorem op_B4_step (s : State) (h1 : 1 ≤ s.cur_instr_index) (hK : s.cur_instr_index ≤ 3) :
    step_ok 3 s (op_B4 s) := by
  have h256 : (s.cur_instr_index + 1) % 256 = s.cur_instr_index + 1 := Nat.mod_eq_of_lt (by omega)
  simp only [op_B4]
  split_ifs <;> simp [step_ok, fetch_ok, h256, store_instr_zero, rol_slot_opcode, ror_slot_opcode, inc_slot, dec_slot, asl_slot, lsr_slot, bit_flags, cmp_flags, push, *] at * <;> omega

theorem op_AC_step (s : State) (h1 : 1 ≤ s.cur_instr_index) (hK : s.cur_instr_index ≤ 4) :
    step_ok 4 s (op_AC s) := by
  have h256 : (s.cur_instr_index + 1) % 256 = s.cur_instr_index + 1 := Nat.mod_eq_of_lt (by omega)
  simp only [op_AC]
  split_ifs <;> simp [step_ok, fetch_ok, h256, store_instr_zero, rol_slot_opcode, ror_slot_opcode, inc_slot, dec_slot, asl_slot, lsr_slot, bit_flags, cmp_flags, push, *] at * <;> omega

theorem op_BC_step (s : State) (h1 : 1 ≤ s.cur_instr_index) (hK : s.cur_instr_index ≤ 4) :
    step_ok 4 s (op_BC s) := by
  have h256 : (s.cur_instr_index + 1) % 256 = s.cur_instr_index + 1 := Nat.mod_eq_of_lt (by omega)
  simp only [op_BC]
  split_ifs <;> simp [step_ok, fetch_ok, h256, store_instr_zero, rol_slot_opcode, ror_slot_opcode, inc_slot, dec_slot, asl_slot, lsr_slot, bit_flags, cmp_flags, push, *] at *
  omega

theorem op_A2_step (s : State) (h1 : 1 ≤ s.cur_instr_index) (hK : s.cur_instr_index ≤ 1) :
    step_ok 1 s (op_A2 s) := by
  have h256 : (s.cur_instr_index + 1) % 256 = s.cur_instr_index + 1 := Nat.mod_eq_of_lt (by omega)
  simp only [op_A2]
  split_ifs <;> simp [step_ok, fetch_ok, h256, store_instr_zero, rol_slot_opcode, ror_slot_opcode, inc_slot, dec_slot, asl_slot, lsr_slot, bit_flags, cmp_flags, push, *] at * <;> omega

theorem op_A6_step (s : State) (h1 : 1 ≤ s.cur_instr_index) (hK : s.cur_instr_index ≤ 3) :
    step_ok 3 s (op_A6 s) := by
  have h256 : (s.cur_instr_index + 1) % 256 = s.cur_instr_index + 1 := Nat.mod_eq_of_lt (by omega)
  simp only [op_A6]
  split_ifs <;> simp [step_ok, fetch_ok, h256, store_instr_zero, rol_slot_opcode, ror_slot_opcode, inc_slot, dec_slot, asl_slot, lsr_slot, bit_flags, cmp_flags, push, *] at * <;> omega

theorem op_B6_step (s : State) (h1 : 1 ≤ s.cur_instr_index) (hK : s.cur_instr_index ≤ 3) :
    step_ok 3 s (op_B6 s) := by
  have h256 : (s.cur_instr_index + 1) % 256 = s.cur_instr_index + 1 := Nat.mod_eq_of_lt (by omega)
  simp only [op_B6]
  split_ifs <;> simp [step_ok, fetch_ok, h256, store_instr_zero, rol_slot_opcode, ror_slot_opcode, inc_slot, dec_slot, asl_slot, lsr_slot, bit_flags, cmp_flags, push, *] at * <;> omega

theorem op_A0_step (s : State) (h1 : 1 ≤ s.cur_instr_index) (hK : s.cur_instr_index ≤ 1) :
    step_ok 1 s (op_A0 s) := by
  have h256 : (s.cur_instr_index + 1) % 256 = s.cur_instr_index + 1 := Nat.mod_eq_of_lt (by omega)
  simp only [op_A0]
  split_ifs <;> simp [step_ok, fetch_ok, h256, store_instr_zero, rol_slot_opcode, ror_slot_opcode, inc_slot, dec_slot, asl_slot, lsr_slot, bit_flags, cmp_flags, push, *] at * <;> omega

theorem op_EA_step (s : State) (h1 : 1 ≤ s.cur_instr_index) (hK : s.cur_instr_index ≤ 1) :
    step_ok 1 s (op_EA s) := by
  have h256 : (s.cur_instr_index + 1) % 256 = s.cur_instr_index + 1 := Nat.mod_eq_of_lt (by omega)
  simp only [op_EA]
  simp [step_ok, fetch_ok, h256, store_instr_zero, rol_slot_opcode, ror_slot_opcode, inc_slot, dec_slot, asl_slot, lsr_slot, bit_flags, cmp_flags, push, *]

theorem branch_flag_step (s : State) (mask cmp : Nat) (h1 : 1 ≤ s.cur_instr_index)
    (hK : s.cur_instr_index ≤ 3) : step_ok 3 s (branch_flag s mask cmp) := by
  have h256 : (s.cur_instr_index + 1) % 256 = s.cur_instr_index + 1 := Nat.mod_eq_of_lt (by omega)
  simp only [branch_flag]
  split_ifs <;> simp [step_ok, fetch_ok, h256, store_instr_zero, rol_slot_opcode, ror_slot_opcode, inc_slot, dec_slot, asl_slot, lsr_slot, bit_flags, cmp_flags, push, *] at * <;> omega
/-! ### The ALU group -/

theorem alu_immediate_step (s : State) (h1 : 1 ≤ s.cur_instr_index) (hK : s.cur_instr_index ≤ 1) :
    mode_step 1 (s.cur_instr 0 &&& 0xE0 = 0x80) s (alu_immediate s) := by
  have h256 : (s.cur_instr_index + 1) % 256 = s.cur_instr_index + 1 := Nat.mod_eq_of_lt (by omega)
  simp only [alu_immediate]
  by_cases hsta : s.cur_instr 0 &&& 0xE0 = 0x80 <;> simp [mode_step, fetch_ok, h256, hsta, store_instr_zero, *] <;> omega

theorem alu_zero_page_step (s : State) (h1 : 1 ≤ s.cur_instr_index) (hK : s.cur_instr_index ≤ 2) :
    mode_step 2 (s.cur_instr_index = 1 ∧ ¬ s.cur_instr 0 &&& 0xE0 = 0x80) s (alu_zero_page s) := by
  have h256 : (s.cur_instr_index + 1) % 256 = s.cur_instr_index + 1 := Nat.mod_eq_of_lt (by omega)
  simp only [alu_zero_page]
  by_cases hsta : s.cur_instr 0 &&& 0xE0 = 0x80 <;> split_ifs <;> simp [mode_step, fetch_ok, h256, hsta, store_instr_zero, *] at * <;> omega

theorem alu_zero_page_x_step (s : State) (h1 : 1 ≤ s.cur_instr_index) (hK : s.cur_instr_index ≤ 3) :
    mode_step 3 (s.cur_instr_index = 1 ∧ ¬ s.cur_instr 0 &&& 0xE0 = 0x80) s (alu_zero_page_x s) := by
  have h256 : (s.cur_instr_index + 1) % 256 = s.cur_instr_index + 1 := Nat.mod_eq_of_lt (by omega)
  simp only [alu_zero_page_x]
  by_cases hsta : s.cur_instr 0 &&& 0xE0 = 0x80 <;> split_ifs <;> simp [mode_step, fetch_ok, h256, hsta, store_instr_zero, *] at * <;> omega

theorem alu_absolute_step (s : State) (h1 : 1 ≤ s.cur_instr_index) (hK : s.cur_instr_index ≤ 3) :
    mode_step 3 (False) s (alu_absolute s) := by
  have h256 : (s.cur_instr_index + 1) % 256 = s.cur_instr_index + 1 := Nat.mod_eq_of_lt (by omega)
  simp only [alu_absolute]
  by_cases hsta : s.cur_instr 0 &&& 0xE0 = 0x80 <;> split_ifs <;> simp [mode_step, fetch_ok, h256, hsta, store_instr_zero, *] at * <;> omega

theorem alu_absolute_x_step (s : State) (h1 : 1 ≤ s.cur_instr_index) (hK : s.cur_instr_index ≤ 4) :
    mode_step 4 (False) s (alu_absolute_x s) := by
  have h256 : (s.cur_instr_index + 1) % 256 = s.cur_instr_index + 1 := Nat.mod_eq_of_lt (by omega)
  simp only [alu_absolute_x]
  by_cases hsta : s.cur_instr 0 &&& 0xE0 = 0x80 <;> split_ifs <;> simp [mode_step, fetch_ok, h256, hsta, store_instr_zero, *] at *

theorem alu_absolute_y_step (s : State) (h1 : 1 ≤ s.cur_instr_index) (hK : s.cur_instr_index ≤ 4) :
    mode_step 4 (False) s (alu_absolute_y s) := by
  have h256 : (s.cur_instr_index + 1) % 256 = s.cur_instr_index + 1 := Nat.mod_eq_of_lt (by omega)
  simp only [alu_absolute_y]
  by_cases hsta : s.cur_instr 0 &&& 0xE0 = 0x80 <;> split_ifs <;> simp [mode_step, fetch_ok, h256, hsta, store_instr_zero, *] at *

theorem alu_indirect_x_step (s : State) (h1 : 1 ≤ s.cur_instr_index) (hK : s.cur_instr_index ≤ 5) :
    mode_step 5 (False) s (alu_indirect_x s) := by
  have h256 : (s.cur_instr_index + 1) % 256 = s.cur_instr_index + 1 := Nat.mod_eq_of_lt (by omega)
  simp only [alu_indirect_x]
  by_cases hsta : s.cur_instr 0 &&& 0xE0 = 0x80 <;> split_ifs <;> simp [mode_step, fetch_ok, h256, hsta, store_instr_zero, *] at *

theorem alu_indirect_y_step (s : State) (h1 : 1 ≤ s.cur_instr_index) (hK : s.cur_instr_index ≤ 5) :
    mode_step 5 (False) s (alu_indirect_y s) := by
  have h256 : (s.cur_instr_index + 1) % 256 = s.cur_instr_index + 1 := Nat.mod_eq_of_lt (by omega)
  simp only [alu_indirect_y]
  by_cases hsta : s.cur_instr 0 &&& 0xE0 = 0x80 <;> split_ifs <;> simp [mode_step, fetch_ok, h256, hsta, store_instr_zero, *] at *

/-- The `switch (cur_instr[0] & 0x1D)` of the ALU group is exhaustive for every
value of the latch with `(cur_instr[0] & 0x3) == 0x1`. -/
theorem alu_mode_exhaustive (op : Nat) (h3 : op &&& 0x3 = 0x1) :
    op &&& 0x1D = 0x09 ∨ op &&& 0x1D = 0x05 ∨ op &&& 0x1D = 0x15 ∨ op &&& 0x1D = 0x0D ∨
    op &&& 0x1D = 0x1D ∨ op &&& 0x1D = 0x19 ∨ op &&& 0x1D = 0x01 ∨ op &&& 0x1D = 0x11 := by
  have red : ∀ m : Nat, m < 32 → op &&& m = (op % 32) &&& m := by
    intro m hm
    have e5 : (32 : Nat) = 2 ^ 5 := by decide
    apply Nat.eq_of_testBit_eq
    intro i
    rw [Nat.testBit_and, Nat.testBit_and, e5, Nat.testBit_mod_two_pow]
    by_cases hi : i < 5
    · simp [hi]
    · have hm2 : m < 2 ^ i :=
        lt_of_lt_of_le hm (e5 ▸ Nat.pow_le_pow_right (by decide) (by omega))
      have hb : m.testBit i = false := Nat.testBit_lt_two_pow hm2
      simp [hb]
  rw [red 0x3 (by decide)] at h3
  rw [red 0x1D (by decide)]
  have hlt : op % 32 < 256 := lt_of_lt_of_le (Nat.mod_lt _ (by decide)) (by decide)
  rcases alu_mode_cases (op % 32) hlt h3 with h | h | h | h | h | h | h | h
  · exact Or.inl h
  · exact Or.inr (Or.inl h)
  · exact Or.inr (Or.inr (Or.inl h))
  · exact Or.inr (Or.inr (Or.inr (Or.inl h)))
  · exact Or.inr (Or.inr (Or.inr (Or.inr (Or.inr (Or.inr (Or.inl h))))))
  · exact Or.inr (Or.inr (Or.inr (Or.inr (Or.inl h))))
  · exact Or.inr (Or.inr (Or.inr (Or.inr (Or.inr (Or.inl h)))))
  · exact Or.inr (Or.inr (Or.inr (Or.inr (Or.inr (Or.inr (Or.inr h))))))
/-! ### The dispatcher -/

theorem ite_step {P : State → Prop} {c : Prop} [Decidable c] {a b : State} (ha : c → P a)
    (hb : ¬ c → P b) : P (if c then a else b) := by
  split_ifs with h
  · exact ha h
  · exact hb h

theorem index_step_of (s t : State) (K : Nat) (hK : last_index (s.cur_instr 0) = K)
    (hv : valid_index s) (h3 : ¬ s.cur_instr 0 &&& 0x3 = 0x1)
    (h : 1 ≤ s.cur_instr_index → s.cur_instr_index ≤ K → step_ok K s t) : index_step s t := by
  obtain ⟨h1, h2⟩ := hv
  rw [hK] at h2
  obtain ⟨a, b, c, d, e⟩ := h h1 h2
  have hnc : ¬ coalesces_at (s.cur_instr 0) s.cur_instr_index := fun hc => h3 hc.2.1
  refine ⟨a, ?_, d, fun hc => absurd hc hnc, fun _ => e⟩
  rcases c with c | c
  · exact Or.inl c
  · exact Or.inr (Or.inl ⟨b, c.1, by rw [hK]; exact c.2⟩)

theorem op_default_step (s : State) (h3 : ¬ s.cur_instr 0 &&& 0x3 = 0x1)
    (hn : s.cur_instr 0 ∉ one_off_opcodes) : index_step s (op_default s) := by
  have hc : ¬ has_case (s.cur_instr 0) := fun h => h.elim h3 hn
  have hnc : ¬ coalesces_at (s.cur_instr 0) s.cur_instr_index := fun hc => h3 hc.2.1
  have e : op_default s = { s with hang := 1 } := rfl
  rw [e]
  exact ⟨rfl, Or.inr (Or.inr ⟨rfl, rfl, hc⟩), Or.inl rfl, fun h => absurd h hnc,
    fun _ => Nat.le_succ _⟩

set_option maxRecDepth 4000 in
theorem decode_other_step (s : State) (hv : valid_index s) (h3 : ¬ s.cur_instr 0 &&& 0x3 = 0x1) :
    index_step s (decode_other s) := by
  simp only [decode_other]
  refine ite_step (fun h => index_step_of s _ 1 (by rw [h]; decide) hv h3 (op_E0_step s))
    (fun _ => ?_)
  refine ite_step (fun h => index_step_of s _ 3 (by rw [h]; decide) hv h3 (op_E4_step s))
    (fun _ => ?_)
  refine ite_step (fun h => index_step_of s _ 4 (by rw [h]; decide) hv h3 (op_EC_step s))
    (fun _ => ?_)
  refine ite_step (fun h => index_step_of s _ 1 (by rw [h]; decide) hv h3 (op_C0_step s))
    (fun _ => ?_)
  refine ite_step (fun h => index_step_of s _ 3 (by rw [h]; decide) hv h3 (op_C4_step s))
    (fun _ => ?_)
  refine ite_step (fun h => index_step_of s _ 4 (by rw [h]; decide) hv h3 (op_CC_step s))
    (fun _ => ?_)
  refine ite_step (fun h => index_step_of s _ 4 (by rw [h]; decide) hv h3 (op_C6_step s))
    (fun _ => ?_)
  refine ite_step (fun h => index_step_of s _ 5 (by rw [h]; decide) hv h3 (op_D6_step s))
    (fun _ => ?_)
  refine ite_step (fun h => index_step_of s _ 5 (by rw [h]; decide) hv h3 (op_CE_step s))
    (fun _ => ?_)
  refine ite_step (fun h => index_step_of s _ 6 (by rw [h]; decide) hv h3 (op_DE_step s))
    (fun _ => ?_)
  refine ite_step (fun h => index_step_of s _ 4 (by rw [h]; decide) hv h3 (op_E6_step s))
    (fun _ => ?_)
  refine ite_step (fun h => index_step_of s _ 5 (by rw [h]; decide) hv h3 (op_F6_step s))
    (fun _ => ?_)
  refine ite_step (fun h => index_step_of s _ 5 (by rw [h]; decide) hv h3 (op_EE_step s))
    (fun _ => ?_)
  refine ite_step (fun h => index_step_of s _ 6 (by rw [h]; decide) hv h3 (op_FE_step s))
    (fun _ => ?_)
  refine ite_step (fun h => index_step_of s _ 1 (by rw [h]; decide) hv h3 (op_E8_step s))
    (fun _ => ?_)
  refine ite_step (fun h => index_step_of s _ 1 (by rw [h]; decide) hv h3 (op_C8_step s))
    (fun _ => ?_)
  refine ite_step (fun h => index_step_of s _ 1 (by rw [h]; decide) hv h3 (op_CA_step s))
    (fun _ => ?_)
  refine ite_step (fun h => index_step_of s _ 1 (by rw [h]; decide) hv h3 (op_88_step s))
    (fun _ => ?_)
  refine ite_step (fun h => index_step_of s _ 1 (by rw [h]; decide) hv h3 (op_AA_step s))
    (fun _ => ?_)
  refine ite_step (fun h => index_step_of s _ 1 (by rw [h]; decide) hv h3 (op_BA_step s))
    (fun _ => ?_)
  refine ite_step (fun h => index_step_of s _ 1 (by rw [h]; decide) hv h3 (op_9A_step s))
    (fun _ => ?_)
  refine ite_step (fun h => index_step_of s _ 1 (by rw [h]; decide) hv h3 (op_A8_step s))
    (fun _ => ?_)
  refine ite_step (fun h => index_step_of s _ 1 (by rw [h]; decide) hv h3 (op_8A_step s))
    (fun _ => ?_)
  refine ite_step (fun h => index_step_of s _ 1 (by rw [h]; decide) hv h3 (op_98_step s))
    (fun _ => ?_)
  refine ite_step (fun h => index_step_of s _ 5 (by rw [h]; decide) hv h3 (op_40_step s))
    (fun _ => ?_)
  refine ite_step (fun h => index_step_of s _ 5 (by rw [h]; decide) hv h3 (op_60_step s))
    (fun _ => ?_)
  refine ite_step (fun h => index_step_of s _ 6 (by rw [h]; decide) hv h3 (op_20_step s))
    (fun _ => ?_)
  refine ite_step (fun h => index_step_of s _ 4 (by rw [h]; decide) hv h3 (op_6C_step s))
    (fun _ => ?_)
  refine ite_step (fun h => index_step_of s _ 3 (by rw [h]; decide) hv h3 (op_68_step s))
    (fun _ => ?_)
  refine ite_step (fun h => index_step_of s _ 3 (by rw [h]; decide) hv h3 (op_28_step s))
    (fun _ => ?_)
  refine ite_step (fun h => index_step_of s _ 2 (by rw [h]; decide) hv h3 (op_08_step s))
    (fun _ => ?_)
  refine ite_step (fun h => index_step_of s _ 2 (by rw [h]; decide) hv h3 (op_48_step s))
    (fun _ => ?_)
  refine ite_step (fun h => index_step_of s _ 1 (by rw [h]; decide) hv h3 (op_18_step s))
    (fun _ => ?_)
  refine ite_step (fun h => index_step_of s _ 1 (by rw [h]; decide) hv h3 (op_D8_step s))
    (fun _ => ?_)
  refine ite_step (fun h => index_step_of s _ 1 (by rw [h]; decide) hv h3 (op_B8_step s))
    (fun _ => ?_)
  refine ite_step (fun h => index_step_of s _ 1 (by rw [h]; decide) hv h3 (op_38_step s))
    (fun _ => ?_)
  refine ite_step (fun h => index_step_of s _ 1 (by rw [h]; decide) hv h3 (op_F8_step s))
    (fun _ => ?_)
  refine ite_step (fun h => index_step_of s _ 1 (by rw [h]; decide) hv h3 (op_78_step s))
    (fun _ => ?_)
  refine ite_step (fun h => index_step_of s _ 1 (by rw [h]; decide) hv h3 (op_0A_step s))
    (fun _ => ?_)
  refine ite_step (fun h => index_step_of s _ 4 (by rw [h]; decide) hv h3 (op_06_step s))
    (fun _ => ?_)
  refine ite_step (fun h => index_step_of s _ 5 (by rw [h]; decide) hv h3 (op_16_step s))
    (fun _ => ?_)
  refine ite_step (fun h => index_step_of s _ 5 (by rw [h]; decide) hv h3 (op_0E_step s))
    (fun _ => ?_)
  refine ite_step (fun h => index_step_of s _ 6 (by rw [h]; decide) hv h3 (op_1E_step s))
    (fun _ => ?_)
  refine ite_step (fun h => index_step_of s _ 1 (by rw [h]; decide) hv h3 (op_4A_step s))
    (fun _ => ?_)
  refine ite_step (fun h => index_step_of s _ 4 (by rw [h]; decide) hv h3 (op_46_step s))
    (fun _ => ?_)
  refine ite_step (fun h => index_step_of s _ 5 (by rw [h]; decide) hv h3 (op_56_step s))
    (fun _ => ?_)
  refine ite_step (fun h => index_step_of s _ 5 (by rw [h]; decide) hv h3 (op_4E_step s))
    (fun _ => ?_)
  refine ite_step (fun h => index_step_of s _ 6 (by rw [h]; decide) hv h3 (op_5E_step s))
    (fun _ => ?_)
  refine ite_step (fun h => index_step_of s _ 1 (by rw [h]; decide) hv h3 (op_2A_step s))
    (fun _ => ?_)
  refine ite_step (fun h => index_step_of s _ 4 (by rw [h]; decide) hv h3 (op_26_step s))
    (fun _ => ?_)
  refine ite_step (fun h => index_step_of s _ 5 (by rw [h]; decide) hv h3 (op_36_step s))
    (fun _ => ?_)
  refine ite_step (fun h => index_step_of s _ 5 (by rw [h]; decide) hv h3 (op_2E_step s))
    (fun _ => ?_)
  refine ite_step (fun h => index_step_of s _ 6 (by rw [h]; decide) hv h3 (op_3E_step s))
    (fun _ => ?_)
  refine ite_step (fun h => index_step_of s _ 1 (by rw [h]; decide) hv h3 (op_6A_step s))
    (fun _ => ?_)
  refine ite_step (fun h => index_step_of s _ 4 (by rw [h]; decide) hv h3 (op_66_step s))
    (fun _ => ?_)
  refine ite_step (fun h => index_step_of s _ 5 (by rw [h]; decide) hv h3 (op_76_step s))
    (fun _ => ?_)
  refine ite_step (fun h => index_step_of s _ 5 (by rw [h]; decide) hv h3 (op_6E_step s))
    (fun _ => ?_)
  refine ite_step (fun h => index_step_of s _ 6 (by rw [h]; decide) hv h3 (op_7E_step s))
    (fun _ => ?_)
  refine ite_step (fun h => index_step_of s _ 3 (by rw [h]; decide) hv h3 (op_24_step s))
    (fun _ => ?_)
  refine ite_step (fun h => index_step_of s _ 4 (by rw [h]; decide) hv h3 (op_2C_step s))
    (fun _ => ?_)
  refine ite_step (fun h => index_step_of s _ 2 (by rw [h]; decide) hv h3 (op_4C_step s))
    (fun _ => ?_)
  refine ite_step (fun h => index_step_of s _ 3 (by rw [h]; decide) hv h3 (op_86_step s))
    (fun _ => ?_)
  refine ite_step (fun h => index_step_of s _ 3 (by rw [h]; decide) hv h3 (op_96_step s))
    (fun _ => ?_)
  refine ite_step (fun h => index_step_of s _ 4 (by rw [h]; decide) hv h3 (op_8E_step s))
    (fun _ => ?_)
  refine ite_step (fun h => index_step_of s _ 4 (by rw [h]; decide) hv h3 (op_AE_step s))
    (fun _ => ?_)
  refine ite_step (fun h => index_step_of s _ 4 (by rw [h]; decide) hv h3 (op_BE_step s))
    (fun _ => ?_)
  refine ite_step (fun h => index_step_of s _ 2 (by rw [h]; decide) hv h3 (op_84_step s))
    (fun _ => ?_)
  refine ite_step (fun h => index_step_of s _ 3 (by rw [h]; decide) hv h3 (op_94_step s))
    (fun _ => ?_)
  refine ite_step (fun h => index_step_of s _ 3 (by rw [h]; decide) hv h3 (op_8C_step s))
    (fun _ => ?_)
  refine ite_step (fun h => index_step_of s _ 2 (by rw [h]; decide) hv h3 (op_A4_step s))
    (fun _ => ?_)
  refine ite_step (fun h => index_step_of s _ 3 (by rw [h]; decide) hv h3 (op_B4_step s))
    (fun _ => ?_)
  refine ite_step (fun h => index_step_of s _ 4 (by rw [h]; decide) hv h3 (op_AC_step s))
    (fun _ => ?_)
  refine ite_step (fun h => index_step_of s _ 4 (by rw [h]; decide) hv h3 (op_BC_step s))
    (fun _ => ?_)
  refine ite_step (fun h => index_step_of s _ 1 (by rw [h]; decide) hv h3 (op_A2_step s))
    (fun _ => ?_)
  refine ite_step (fun h => index_step_of s _ 3 (by rw [h]; decide) hv h3 (op_A6_step s))
    (fun _ => ?_)
  refine ite_step (fun h => index_step_of s _ 3 (by rw [h]; decide) hv h3 (op_B6_step s))
    (fun _ => ?_)
  refine ite_step (fun h => index_step_of s _ 1 (by rw [h]; decide) hv h3 (op_A0_step s))
    (fun _ => ?_)
  refine ite_step (fun h => index_step_of s _ 3 (by rw [h]; decide) hv h3
    (branch_flag_step s STATUS_OVERFLOW 0)) (fun _ => ?_)
  refine ite_step (fun h => index_step_of s _ 3 (by rw [h]; decide) hv h3
    (branch_flag_step s STATUS_OVERFLOW STATUS_OVERFLOW)) (fun _ => ?_)
  refine ite_step (fun h => index_step_of s _ 3 (by rw [h]; decide) hv h3
    (branch_flag_step s STATUS_CARRY 0)) (fun _ => ?_)
  refine ite_step (fun h => index_step_of s _ 3 (by rw [h]; decide) hv h3
    (branch_flag_step s STATUS_NEGATIVE 0)) (fun _ => ?_)
  refine ite_step (fun h => index_step_of s _ 3 (by rw [h]; decide) hv h3
    (branch_flag_step s STATUS_NEGATIVE STATUS_NEGATIVE)) (fun _ => ?_)
  refine ite_step (fun h => index_step_of s _ 3 (by rw [h]; decide) hv h3
    (branch_flag_step s STATUS_CARRY STATUS_CARRY)) (fun _ => ?_)
  refine ite_step (fun h => index_step_of s _ 3 (by rw [h]; decide) hv h3
    (branch_flag_step s STATUS_ZERO 0)) (fun _ => ?_)
  refine ite_step (fun h => index_step_of s _ 3 (by rw [h]; decide) hv h3
    (branch_flag_step s STATUS_ZERO STATUS_ZERO)) (fun _ => ?_)
  refine ite_step (fun h => index_step_of s _ 1 (by rw [h]; decide) hv h3 (op_EA_step s))
    (fun _ => ?_)
  refine op_default_step s h3 ?_
  simp only [one_off_opcodes, List.mem_cons, List.mem_singleton, List.not_mem_nil, or_false,
    not_or]
  simp [*]

theorem alu_operation_acc (t : State) :
    (alu_operation t).cur_instr = t.cur_instr ∧ (alu_operation t).hang = t.hang ∧
    (alu_operation t).fetches = t.fetches ∧
    (alu_operation t).bus.length =
      t.bus.length + (if t.cur_instr 0 &&& 0xE0 = 0x80 then 1 else 0) := by
  by_cases hsta : t.cur_instr 0 &&& 0xE0 = 0x80
  · simp [alu_operation, hsta]
  · rw [if_neg hsta]
    simp only [alu_operation]
    split_ifs <;> simp

theorem decode_alu_of_mode (s : State) (K : Nat) (c : Prop) (r : State × Nat)
    (hK : last_index (s.cur_instr 0) = K) (hv : valid_index s) (hr : alu_addressing s = r)
    (hc : coalesces_at (s.cur_instr 0) s.cur_instr_index ↔ c)
    (h : 1 ≤ s.cur_instr_index → s.cur_instr_index ≤ K → mode_step K c s r) :
    index_step s (decode_alu s) := by
  obtain ⟨h1, h2⟩ := hv
  rw [hK] at h2
  obtain ⟨a, b, p, f, e2, e1⟩ := h h1 h2
  obtain ⟨o1, _, o3, o4⟩ := alu_operation_acc r.1
  rw [a] at o4
  simp only [decode_alu, hr]
  split_ifs with hready
  · simp only [hready, true_and] at e1 e2
    refine ⟨by simp [o1, a], Or.inl (by simp), ?_, fun hca => ?_, fun hca => ?_⟩
    · simpa [fetch_ok, o3] using f
    · have := e2 (hc.1 hca)
      simp only [set_index_bus]
      omega
    · have := e1 (fun hh => hca (hc.2 hh))
      simp only [set_index_bus]
      omega
  · have e0 : (if r.2 = 1 ∧ s.cur_instr 0 &&& 0xE0 = 0x80 then 1 else 0) = 0 :=
      if_neg (fun hh => hready hh.1)
    rw [e0] at e1 e2
    refine ⟨a, ?_, f, fun hca => e2 (hc.1 hca), fun hca => e1 (fun hh => hca (hc.2 hh))⟩
    rcases p with p | p | p
    · exact absurd p hready
    · exact Or.inl p
    · exact Or.inr (Or.inl ⟨b, p.1, by rw [hK]; exact p.2⟩)

theorem decode_alu_step (s : State) (hv : valid_index s) (h3 : s.cur_instr 0 &&& 0x3 = 0x1) :
    index_step s (decode_alu s) := by
  rcases alu_mode_exhaustive (s.cur_instr 0) h3 with hm | hm | hm | hm | hm | hm | hm | hm
  · have hk : last_index (s.cur_instr 0) = 1 := by simp [last_index, h3, hm]
    have hi : s.cur_instr_index = 1 := by
      have h1 := hv.1
      have h2 := hv.2
      rw [hk] at h2
      omega
    exact decode_alu_of_mode s 1 _ _ hk hv (by simp [alu_addressing, hm])
      (by simp [coalesces_at, h3, hm, hi]) (alu_immediate_step s)
  · exact decode_alu_of_mode s 2 _ _ (by simp [last_index, h3, hm]) hv
      (by simp [alu_addressing, hm]) (by simp [coalesces_at, h3, hm]) (alu_zero_page_step s)
  · exact decode_alu_of_mode s 3 _ _ (by simp [last_index, h3, hm]) hv
      (by simp [alu_addressing, hm]) (by simp [coalesces_at, h3, hm]) (alu_zero_page_x_step s)
  · exact decode_alu_of_mode s 3 _ _ (by simp [last_index, h3, hm]) hv
      (by simp [alu_addressing, hm]) (by simp [coalesces_at, h3, hm]) (alu_absolute_step s)
  · exact decode_alu_of_mode s 4 _ _ (by simp [last_index, h3, hm]) hv
      (by simp [alu_addressing, hm]) (by simp [coalesces_at, h3, hm]) (alu_absolute_x_step s)
  · exact decode_alu_of_mode s 4 _ _ (by simp [last_index, h3, hm]) hv
      (by simp [alu_addressing, hm]) (by simp [coalesces_at, h3, hm]) (alu_absolute_y_step s)
  · exact decode_alu_of_mode s 5 _ _ (by simp [last_index, h3, hm]) hv
      (by simp [alu_addressing, hm]) (by simp [coalesces_at, h3, hm]) (alu_indirect_x_step s)
  · exact decode_alu_of_mode s 5 _ _ (by simp [last_index, h3, hm]) hv
      (by simp [alu_addressing, hm]) (by simp [coalesces_at, h3, hm]) (alu_indirect_y_step s)

theorem decode_opcode_step (s : State) (hv : valid_index s) :
    index_step s (decode_opcode s) := by
  simp only [decode_opcode]
  split_ifs with h3
  · exact decode_alu_step s hv h3
  · exact decode_other_step s hv h3
/-! ## Termination, single step, bus accesses and latch bounds (C23, C28, C37, C40) -/

theorem last_index_bounds (op : Nat) : 1 ≤ last_index op ∧ last_index op ≤ 6 := by
  simp only [last_index]
  split_ifs <;> decide

/-- A cycle inside an instruction of a running machine is an `index_step`. -/
theorem run_cycle_index_step (s : State) (hh : s.hang = 0) (hv : valid_index s) :
    index_step s (p6502_run_cycle s).2 := by
  have hi : s.cur_instr_index ≠ 0 := by
    have := hv.1
    omega
  have hv2 : valid_index (tick s) := by
    simpa [valid_index] using hv
  obtain ⟨a, b, c, d, e⟩ := decode_opcode_step (tick s) hv2
  simp only [tick_cur_instr, tick_cur_instr_index, tick_hang, tick_bus, fetch_ok,
    tick_fetches] at a b c d e
  rw [run_cycle_decode s hh hi]
  simp only [single_step_halt]
  split_ifs with hc
  · exact ⟨by simpa using a, Or.inl (by simpa using hc.1), by simpa [fetch_ok] using c,
      by simpa using d, by simpa using e⟩
  · exact ⟨a, b, c, d, e⟩

/-- The opcode fetch of a running machine at an instruction boundary enters the
instruction at index 1 with the byte at PC in the latch, leaves the machine
running, is one call of `fetch_opcode` at index 0 and one bus access. -/
theorem run_cycle_first (s : State) (hh : s.hang = 0) (hi : s.cur_instr_index = 0) :
    valid_index (p6502_run_cycle s).2 ∧ (p6502_run_cycle s).2.hang = 0 ∧
    (p6502_run_cycle s).2.cur_instr_index = 1 ∧
    (p6502_run_cycle s).2.cur_instr 0 = rd s s.pc ∧
    (p6502_run_cycle s).2.fetches = s.fetches ++ [0] ∧
    (p6502_run_cycle s).2.bus.length = s.bus.length + 1 := by
  have hlt := rd_lt s s.pc
  rw [rd_val] at hlt
  rw [run_cycle_fetch s hh hi, rd_val]
  refine ⟨⟨by simp [hi], ?_⟩, by simp [hh], by simp [hi], ?_, by simp [hi], by simp⟩
  · have e : (fetch_opcode (tick s)).cur_instr_index = 1 := by simp [hi]
    rw [e]
    exact (last_index_bounds _).1
  · simp [read_memory_val, hi, Nat.mod_eq_of_lt hlt]

/-- A halted machine keeps the index, the latch and the two logs. -/
theorem run_cycle_halted_index (s : State) (hh : s.hang ≠ 0) :
    (p6502_run_cycle s).2.cur_instr_index = s.cur_instr_index ∧
    (p6502_run_cycle s).2.cur_instr = s.cur_instr ∧
    (p6502_run_cycle s).2.fetches = s.fetches ∧
    (p6502_run_cycle s).2.bus = s.bus := by
  simp only [p6502_run_cycle, hh, if_false]
  split_ifs <;> exact ⟨rfl, rfl, rfl, rfl⟩

theorem power_on_index (s : State) : (p6502_power_on s).cur_instr_index = 0 := rfl

/-- In a reachable state the machine is at an instruction boundary or inside an
instruction at an index its opcode reaches. -/
theorem reachable_valid_index (s : State) (hr : Reachable s) :
    s.cur_instr_index = 0 ∨ valid_index s := by
  induction hr with
  | power_on s => exact Or.inl (power_on_index s)
  | @run_cycle s _ ih =>
    by_cases hh : s.hang = 0
    · rcases ih with ih | ih
      · exact Or.inr (run_cycle_first s hh ih).1
      · obtain ⟨a, b, _⟩ := run_cycle_index_step s hh ih
        rcases b with b | b | b
        · exact Or.inl b
        · refine Or.inr ⟨?_, ?_⟩
          · have := ih.1
            omega
          · rw [a]
            exact b.2.2
        · refine Or.inr ⟨?_, ?_⟩
          · rw [b.2.1]
            exact ih.1
          · rw [b.2.1, a]
            exact ih.2
    · obtain ⟨a, b, _⟩ := run_cycle_halted_index s hh
      simpa [valid_index, a, b] using ih
  | step _ ih => simpa [valid_index, p6502_step] using ih
  | resume _ ih => simpa [valid_index, p6502_resume] using ih
  | brk _ ih => simpa [valid_index, p6502_break] using ih

/-- C40: instruction-latch bounds.  In every state reachable from
`p6502_power_on` by any sequence of `p6502_run_cycle`, `p6502_step`,
`p6502_resume` and `p6502_break` calls (any RAM and mapper contents) the
micro-step index is at most 6.  A call of `p6502_run_cycle` from such a state
calls `fetch_opcode` at most once, and a call it makes is at the index of the
state, which then is 0, 1 or 2, so that the write
`cur_instr[cur_instr_index++] = val` of `fetch_opcode`, the only write into the
latch at a variable index, is a store into the 5-byte array.  The other four
entry points do not call `fetch_opcode`. -/
theorem latch_bounds (s : State) (hr : Reachable s) :
    s.cur_instr_index ≤ 6 ∧
    ((p6502_run_cycle s).2.fetches = s.fetches ∨
      ((p6502_run_cycle s).2.fetches = s.fetches ++ [s.cur_instr_index] ∧
        s.cur_instr_index ≤ 2 ∧ s.cur_instr_index < 5 ∧
        ∀ v, store_instr s.cur_instr s.cur_instr_index v =
          store s.cur_instr s.cur_instr_index v)) ∧
    (p6502_step s).fetches = s.fetches ∧ (p6502_resume s).fetches = s.fetches ∧
    (p6502_break s).fetches = s.fetches ∧ (p6502_power_on s).fetches = s.fetches := by
  have hv := reachable_valid_index s hr
  have hb := (last_index_bounds (s.cur_instr 0)).2
  have key : fetch_ok s (p6502_run_cycle s).2 := by
    by_cases hh : s.hang = 0
    · rcases hv with hv | hv
      · have e := (run_cycle_first s hh hv).2.2.2.2.1
        exact Or.inr ⟨by rw [e, hv], by omega⟩
      · exact (run_cycle_index_step s hh hv).2.2.1
    · exact Or.inl (run_cycle_halted_index s hh).2.2.1
  refine ⟨?_, ?_, rfl, rfl, rfl, rfl⟩
  · rcases hv with hv | hv
    · omega
    · have := hv.2
      omega
  · rcases key with k | k
    · exact Or.inl k
    · exact Or.inr ⟨k.1, k.2, by omega, fun v => store_instr_lt _ _ _ (by omega)⟩

/-- C40 (witness): eight cycles after power-on with the sample cartridge the
machine is reachable and running inside `LDA $10` at index 1, where the next
call fetches the operand byte: one call of `fetch_opcode`, at index 1. -/
theorem latch_bounds_witness :
    Reachable (run_cycles 8 (p6502_power_on sample_state)) ∧
    (run_cycles 8 (p6502_power_on sample_state)).cur_instr_index = 1 ∧
    (p6502_run_cycle (run_cycles 8 (p6502_power_on sample_state))).2.fetches =
      (run_cycles 8 (p6502_power_on sample_state)).fetches ++ [1] ∧
    (run_cycles 8 (p6502_power_on sample_state)).cur_instr_index ≤ 6 ∧
    ((p6502_run_cycle (run_cycles 8 (p6502_power_on sample_state))).2.fetches =
        (run_cycles 8 (p6502_power_on sample_state)).fetches ∨
      ((p6502_run_cycle (run_cycles 8 (p6502_power_on sample_state))).2.fetches =
          (run_cycles 8 (p6502_power_on sample_state)).fetches ++
            [(run_cycles 8 (p6502_power_on sample_state)).cur_instr_index] ∧
        (run_cycles 8 (p6502_power_on sample_state)).cur_instr_index ≤ 2 ∧
        (run_cycles 8 (p6502_power_on sample_state)).cur_instr_index < 5 ∧
        ∀ v, store_instr (run_cycles 8 (p6502_power_on sample_state)).cur_instr
            (run_cycles 8 (p6502_power_on sample_state)).cur_instr_index v =
          store (run_cycles 8 (p6502_power_on sample_state)).cur_instr
            (run_cycles 8 (p6502_power_on sample_state)).cur_instr_index v)) :=
  ⟨reachable_run_cycles 8 _ (Reachable.power_on sample_state), by decide, by decide,
    (latch_bounds _ (reachable_run_cycles 8 _ (Reachable.power_on sample_state))).1,
    (latch_bounds _ (reachable_run_cycles 8 _ (Reachable.power_on sample_state))).2.1⟩

/-- From a running state inside an instruction whose opcode has code of its own,
at most `d + 1` further cycles return the index to 0, where `d` bounds the
distance of the index from the last index of the opcode. -/
theorem retires_from (d : Nat) : ∀ s : State, s.hang = 0 → valid_index s →
    has_case (s.cur_instr 0) → last_index (s.cur_instr 0) - s.cur_instr_index ≤ d →
    ∃ n, 1 ≤ n ∧ n ≤ d + 1 ∧ (run_cycles n s).cur_instr_index = 0 ∧
      ∀ k, k < n → (run_cycles k s).cur_instr_index ≠ 0 := by
  induction d with
  | zero =>
    intro s hh hv hc hd
    obtain ⟨a, b, _⟩ := run_cycle_index_step s hh hv
    have h1 := hv.1
    rcases b with b | b | b
    · refine ⟨1, le_refl _, le_refl _, b, fun k hk => ?_⟩
      have : k = 0 := by omega
      subst this
      rw [run_cycles_zero]
      omega
    · exfalso
      have h2 := hv.2
      omega
    · exact absurd hc b.2.2
  | succ d ih =>
    intro s hh hv hc hd
    obtain ⟨a, b, _⟩ := run_cycle_index_step s hh hv
    have h1 := hv.1
    rcases b with b | b | b
    · refine ⟨1, le_refl _, by omega, b, fun k hk => ?_⟩
      have : k = 0 := by omega
      subst this
      rw [run_cycles_zero]
      omega
    · have hv2 : valid_index (p6502_run_cycle s).2 := by
        refine ⟨?_, ?_⟩
        · omega
        · rw [a]
          exact b.2.2
      have hd2 : last_index ((p6502_run_cycle s).2.cur_instr 0) -
          (p6502_run_cycle s).2.cur_instr_index ≤ d := by
        rw [a]
        omega
      obtain ⟨n, n1, n2, hn, hk⟩ := ih _ (b.1.trans hh) hv2 (by rw [a]; exact hc) hd2
      refine ⟨n + 1, by omega, by omega, hn, fun k hk1 => ?_⟩
      rcases k with _ | j
      · rw [run_cycles_zero]
        omega
      · exact hk j (by omega)
    · exact absurd hc b.2.2

/-- An instruction whose opcode has code of its own retires: from a running
state at an instruction boundary, after at most 7 cycles. -/
theorem has_case_retires (s : State) (hidx : s.cur_instr_index = 0) (hh : s.hang = 0)
    (hc : has_case (rd s s.pc)) : ∃ n, 1 ≤ n ∧ n ≤ 7 ∧ retires_after s n := by
  obtain ⟨hv, h0, h1, h2, _⟩ := run_cycle_first s hh hidx
  have hb := (last_index_bounds ((p6502_run_cycle s).2.cur_instr 0)).2
  obtain ⟨n, n1, n2, hn, hk⟩ := retires_from 5 _ h0 hv (by rw [h2]; exact hc) (by omega)
  refine ⟨n + 1, by omega, by omega, by omega, hn, fun k hk1 hk0 => ?_⟩
  rcases k with _ | j
  · omega
  · exact hk j (by omega)

theorem step_only_control (s : State) : only_control_differs s (p6502_step s) := by
  simp [only_control_differs, p6502_step]

theorem resume_only_control (s : State) : only_control_differs s (p6502_resume s) := by
  simp [only_control_differs, p6502_resume]

theorem break_only_control (s : State) : only_control_differs s (p6502_break s) := by
  simp [only_control_differs, p6502_break]

/-- C23: after `p6502_step()` in a state at an instruction boundary whose next
opcode is implemented (it belongs to the ALU group or is a `case` label), the
instruction retires after some number n of calls of `p6502_run_cycle`, at most
7; the calls before the n-th return 0, the n-th returns 1, and every later call
returns 1 without changing the state.  `p6502_step()` sets single_step = 1 and
halt = 0, `p6502_resume()` sets single_step = 0 and halt = 0, `p6502_break()`
sets halt = 1 and single_step = 1; none of the three changes registers, PC, RAM,
the latch or any other variable. -/
theorem single_step_spec :
    (∀ s : State, s.cur_instr_index = 0 → has_case (rd s s.pc) →
      ∃ n, 1 ≤ n ∧ n ≤ 7 ∧ retires_after (p6502_step s) n ∧
        (∀ k, k + 1 < n → (p6502_run_cycle (run_cycles k (p6502_step s))).1 = 0) ∧
        (p6502_run_cycle (run_cycles (n - 1) (p6502_step s))).1 = 1 ∧
        (∀ k, n ≤ k → (p6502_run_cycle (run_cycles k (p6502_step s))).1 = 1 ∧
          (p6502_run_cycle (run_cycles k (p6502_step s))).2 = run_cycles n (p6502_step s))) ∧
    (∀ s : State, (p6502_step s).p6502_single_step = 1 ∧ (p6502_step s).hang = 0 ∧
      only_control_differs s (p6502_step s)) ∧
    (∀ s : State, (p6502_resume s).p6502_single_step = 0 ∧ (p6502_resume s).hang = 0 ∧
      only_control_differs s (p6502_resume s)) ∧
    (∀ s : State, (p6502_break s).hang = 1 ∧ (p6502_break s).p6502_single_step = 1 ∧
      only_control_differs s (p6502_break s)) := by
  refine ⟨?_, fun s => ⟨rfl, rfl, step_only_control s⟩, fun s => ⟨rfl, rfl, resume_only_control s⟩,
    fun s => ⟨rfl, rfl, break_only_control s⟩⟩
  intro s hidx hc
  have hh : (p6502_step s).hang = 0 := rfl
  obtain ⟨n, n1, n7, hr⟩ := has_case_retires (p6502_step s) hidx hh hc
  refine ⟨n, n1, n7, hr, ?_⟩
  have hss : ∀ k, (run_cycles k (p6502_step s)).p6502_single_step = 1 := fun k => by
    rw [run_cycles_single_step]
    rfl
  have hn : (run_cycles n (p6502_step s)).hang = 1 := by
    obtain ⟨m, rfl⟩ : ∃ m, n = m + 1 := ⟨n - 1, by omega⟩
    rw [run_cycles_succ_right]
    refine run_cycle_single_step_halt _ ?_ ?_
    · rw [← run_cycles_succ_right]
      exact hr.2.1
    · rw [← run_cycles_succ_right]
      exact hss _
  refine ⟨?_, ?_, ?_⟩
  · intro k hk
    rw [run_cycle_fst, ← run_cycles_succ_right]
    exact running_until_retired _ n hh hr (k + 1) hk
  · obtain ⟨m, rfl⟩ : ∃ m, n = m + 1 := ⟨n - 1, by omega⟩
    rw [Nat.add_sub_cancel, run_cycle_fst, ← run_cycles_succ_right]
    exact hn
  · intro k hk
    have e : run_cycles k (p6502_step s) = run_cycles n (p6502_step s) := by
      have : k = n + (k - n) := by omega
      rw [this, run_cycles_add, run_cycles_halted _ _ hn]
    rw [e, run_cycle_halted _ hn]
    exact ⟨rfl, rfl⟩

/-- Witness for C23: `sbc_state` is at an instruction boundary with `SBC #$F0`
(`$E9`, an opcode of the ALU group) next; single-stepping it from the halted
copy, the first call returns 0 and the second returns 1 with A = `$60`. -/
theorem single_step_spec_witness :
    ((p6502_break sbc_state).cur_instr_index = 0 ∧
      has_case (rd (p6502_break sbc_state) (p6502_break sbc_state).pc)) ∧
    (∃ n, 1 ≤ n ∧ n ≤ 7 ∧ retires_after (p6502_step (p6502_break sbc_state)) n ∧
      (∀ k, k + 1 < n →
        (p6502_run_cycle (run_cycles k (p6502_step (p6502_break sbc_state)))).1 = 0) ∧
      (p6502_run_cycle (run_cycles (n - 1) (p6502_step (p6502_break sbc_state)))).1 = 1 ∧
      (∀ k, n ≤ k →
        (p6502_run_cycle (run_cycles k (p6502_step (p6502_break sbc_state)))).1 = 1 ∧
        (p6502_run_cycle (run_cycles k (p6502_step (p6502_break sbc_state)))).2 =
          run_cycles n (p6502_step (p6502_break sbc_state)))) ∧
    (p6502_run_cycle (run_cycles 0 (p6502_step (p6502_break sbc_state)))).1 = 0 ∧
    (p6502_run_cycle (run_cycles 1 (p6502_step (p6502_break sbc_state)))).1 = 1 ∧
    (run_cycles 2 (p6502_step (p6502_break sbc_state))).reg_a = 0x60 :=
  ⟨⟨by decide, Or.inl (by decide)⟩,
    single_step_spec.1 (p6502_break sbc_state) (by decide) (Or.inl (by decide)),
    by decide, by decide, by decide⟩

/-- C28, as the code has it: a call of `p6502_run_cycle` from a reachable state
issues at most two bus accesses, and it issues two exactly when the machine is
running at index 1 of an ALU-group instruction in zero-page or zero-page,X mode
other than STA, or of opcode `0x89`: there the operand byte is fetched and the
operand accessed in the same call.  Every other call issues at most one. -/
theorem bus_accesses_per_cycle (s : State) (hr : Reachable s) :
    ∃ l, (p6502_run_cycle s).2.bus = s.bus ++ l ∧ l.length ≤ 2 ∧
      (l.length = 2 ↔ coalesces s) := by
  obtain ⟨_, _, ⟨l, hl⟩, _⟩ := run_cycle_frame s
  have hlen : (p6502_run_cycle s).2.bus.length = s.bus.length + l.length := by
    rw [← hl, List.length_append]
  have hv := reachable_valid_index s hr
  refine ⟨l, hl.symm, ?_⟩
  by_cases hh : s.hang = 0
  · rcases hv with hv | hv
    · have e := (run_cycle_first s hh hv).2.2.2.2.2
      have hnc : ¬ coalesces s := fun hc => by
        have := hc.2.1
        omega
      refine ⟨by omega, fun h2 => by omega, fun hc => absurd hc hnc⟩
    · obtain ⟨_, _, _, d, e⟩ := run_cycle_index_step s hh hv
      by_cases hc : coalesces_at (s.cur_instr 0) s.cur_instr_index
      · have := d hc
        exact ⟨by omega, fun _ => ⟨hh, hc⟩, fun _ => by omega⟩
      · have := e hc
        exact ⟨by omega, fun h2 => by omega, fun h => absurd h.2 hc⟩
  · have e := (run_cycle_halted_index s hh).2.2.2
    rw [e] at hlen
    exact ⟨by omega, fun h2 => by omega, fun hc => absurd hc.1 hh⟩

/-- C28 (witness): eight cycles after power-on with the sample cartridge
(`LDA #$42; STA $10; LDA #$00; LDA $10` at `$C000`) the machine is running at
index 1 of `LDA $10`, and the next call issues two reads: the operand byte at
`$C007` and the operand itself at `$0010`. -/
theorem bus_accesses_per_cycle_witness :
    Reachable (run_cycles 8 (p6502_power_on sample_state)) ∧
    coalesces (run_cycles 8 (p6502_power_on sample_state)) ∧
    (p6502_run_cycle (run_cycles 8 (p6502_power_on sample_state))).2.bus =
      (run_cycles 8 (p6502_power_on sample_state)).bus ++
        [Access.read 0xC007, Access.read 0x0010] ∧
    ∃ l, (p6502_run_cycle (run_cycles 8 (p6502_power_on sample_state))).2.bus =
        (run_cycles 8 (p6502_power_on sample_state)).bus ++ l ∧ l.length ≤ 2 ∧
      (l.length = 2 ↔ coalesces (run_cycles 8 (p6502_power_on sample_state))) :=
  ⟨reachable_run_cycles 8 _ (Reachable.power_on sample_state),
    ⟨by decide, by decide, by decide, Or.inl ⟨Or.inl (by decide), by decide⟩⟩, by decide,
    bus_accesses_per_cycle _ (reachable_run_cycles 8 _ (Reachable.power_on sample_state))⟩
/-! ## Opcode `0x89` (C21) -/

set_option maxHeartbeats 1600000 in
/-- Opcode `0x89` is decoded by the ALU group as immediate mode with the STA
operation: it retires after 2 cycles, fetches its operand byte and writes A to
the address made of the operand byte and of latch byte 2, which is whatever an
earlier instruction left there. -/
theorem opcode_89_stores (s : State) (hidx : s.cur_instr_index = 0) (hh : s.hang = 0)
    (h0 : rd s s.pc = 0x89) :
    retires_after s 2 ∧
    (run_cycles 2 s).bus = s.bus ++ [Access.read (s.pc % 65536),
      Access.read ((s.pc + 1) % 65536),
      Access.write ((rd s (s.pc + 1) ||| (s.cur_instr 2 <<< 8)) % 65536) (s.reg_a % 256)] ∧
    (s.p6502_single_step = 0 → (run_cycles 2 s).hang = 0) := by
  have h3 : (0x89 : Nat) &&& 0x3 = 0x1 := by decide
  have hm : (0x89 : Nat) &&& 0x1D = 0x09 := by decide
  have hsta : (0x89 : Nat) &&& 0xE0 = 0x80 := by decide
  obtain ⟨e1, e2, e3, e4, _⟩ := alu_immediate_exec s 0x89 hidx hh h0 h3 hm
  rw [rd_val] at h0
  have hb : (alu_ready_state s 2).bus =
      s.bus ++ [Access.read (s.pc % 65536), Access.read ((s.pc + 1) % 65536)] := by
    simp [alu_ready_state, run_cycle_fetch, run_cycle_decode, decode_opcode_alu,
      decode_alu, alu_addressing, alu_immediate, read_memory_val, hidx, hh, h0, h3, hm,
      Nat.add_assoc]
  have hl1 : (alu_ready_state s 2).cur_instr 1 = rd s (s.pc + 1) := by
    have hlt := rd_lt s (s.pc + 1)
    rw [rd_val] at hlt ⊢
    simp [alu_ready_state, run_cycle_fetch, run_cycle_decode, decode_opcode_alu,
      decode_alu, alu_addressing, alu_immediate, read_memory_val, hidx, hh, h0, h3, hm,
      Nat.mod_eq_of_lt hlt]
  have hl2 : (alu_ready_state s 2).cur_instr 2 = s.cur_instr 2 := by
    simp [alu_ready_state, run_cycle_fetch, run_cycle_decode, decode_opcode_alu,
      decode_alu, alu_addressing, alu_immediate, read_memory_val, hidx, hh, h0, h3, hm]
  have hs : (alu_ready_state s 2).hang = 0 ∧
      (alu_ready_state s 2).p6502_single_step = s.p6502_single_step := by
    constructor <;>
    simp [alu_ready_state, run_cycle_fetch, run_cycle_decode, decode_opcode_alu,
      decode_alu, alu_addressing, alu_immediate, read_memory_val, hidx, hh, h0, h3, hm]
  obtain ⟨b1, _⟩ := sta_of_alu s (alu_ready_state s 2) 0x89 2
    (rd s (s.pc + 1) ||| (s.cur_instr 2 <<< 8)) e2 e3 hsta e4 (by rw [hl1, hl2])
  refine ⟨e1, ?_, fun hss => ?_⟩
  · rw [b1, hb]
    simp
  · have key : alu_operation (alu_ready_state s 2) =
        write_memory (alu_ready_state s 2)
          ((alu_ready_state s 2).cur_instr 1 ||| ((alu_ready_state s 2).cur_instr 2 <<< 8))
          (alu_ready_state s 2).reg_a := by
      simp [alu_operation, e3, hsta]
    rw [e2, key]
    simp [single_step_halt, hs.1, hs.2, hss]

/-- C21 (failing input with a stale latch): after `STA $0200` has retired, the
byte `$89` with operand `$10` is fetched and decoded: the machine does not halt,
and A is written to `$0210`, the operand byte under the high byte the STA left
in the latch; `$0010` is untouched. -/
theorem opcode_89_stale_high_byte :
    (run_cycles 4 stale_machine).cur_instr_index = 0 ∧
    rd (run_cycles 4 stale_machine) (run_cycles 4 stale_machine).pc = 0x89 ∧
    (run_cycles 5 stale_machine).cur_instr_index = 1 ∧
    (run_cycles 6 stale_machine).hang = 0 ∧
    (run_cycles 6 stale_machine).cur_instr_index = 0 ∧
    (run_cycles 6 stale_machine).pc = 5 ∧
    (run_cycles 6 stale_machine).internal_ram 0x210 = 0x42 ∧
    (run_cycles 6 stale_machine).internal_ram 0x10 = 0 ∧
    (run_cycles 6 stale_machine).bus =
      [Access.read 0, Access.read 1, Access.read 2, Access.write 0x200 0x42,
        Access.read 3, Access.read 4, Access.write 0x210 0x42] := by
  decide
end Nes
